import Mathlib

/-!
# RV32GC translator core (`src/vm/tcc/vm_rv32gc.cpp`)

A shallow embedding of the decode tables, the dispatcher and the per-instruction
translation handlers of `iss::tcc::rv32gc::vm_impl`, followed by the properties
proved about them.

Conventions of the embedding:

* machine words are `Nat`; a value stored in a C variable of type `uintN_t` is reduced
  modulo `2^N`, a value stored in an `intN_t` is an `Int` wrapped into the signed range;
* the handler-visible program counter `pc` (a `virt_addr_t` passed by reference) and the
  translation unit `tu` (passed by reference) are threaded explicitly;
* member-function pointers are the tags of `compile_func`, interpreted by `invoke`;
* the lookup arrays `lut_00 .. lut_11` are functions from index to an optional handler,
  `none` being the null pointer.
-/

namespace rv32gc

/-- Handler identifiers: one tag per member function that `instr_descr` or the
dispatcher can point to (the C++ `compile_func` member-function pointers). -/
inductive compile_func where
  | __mul | __mulh | __mulhsu | __mulhu | __div | __divu | __rem | __remu | __lr_w | __sc_w
  | __amoswap_w | __amoadd_w | __amoxor_w | __amoand_w | __amoor_w | __amomin_w | __amomax_w
  | __amominu_w | __amomaxu_w | __lui | __auipc | __jal | __beq | __bne | __blt | __bge | __bltu
  | __bgeu | __lb | __lh | __lw | __lbu | __lhu | __sb | __sh | __sw | __addi | __slti | __sltiu
  | __xori | __ori | __andi | __slli | __srli | __srai | __add | __sub | __sll | __slt | __sltu
  | __xor | __srl | __sra | __or | __and | __fence | __fence_i | __ecall | __ebreak | __uret
  | __sret | __mret | __wfi | __sfence_vma | __csrrw | __csrrs | __csrrc | __csrrwi | __csrrsi
  | __csrrci | __flw | __fsw | __fmadd_s | __fmsub_s | __fnmadd_s | __fnmsub_s | __fadd_s
  | __fsub_s | __fmul_s | __fdiv_s | __fsqrt_s | __fsgnj_s | __fsgnjn_s | __fsgnjx_s | __fmin_s
  | __fmax_s | __fcvt_w_s | __fcvt_wu_s | __feq_s | __flt_s | __fle_s | __fclass_s | __fcvt_s_w
  | __fcvt_s_wu | __fmv_x_w | __fmv_w_x | __fld | __fsd | __fmadd_d | __fmsub_d | __fnmadd_d
  | __fnmsub_d | __fadd_d | __fsub_d | __fmul_d | __fdiv_d | __fsqrt_d | __fsgnj_d | __fsgnjn_d
  | __fsgnjx_d | __fmin_d | __fmax_d | __fcvt_s_d | __fcvt_d_s | __feq_d | __flt_d | __fle_d
  | __fclass_d | __fcvt_w_d | __fcvt_wu_d | __fcvt_d_w | __fcvt_d_wu | __jalr | __c_addi4spn
  | __c_lw | __c_sw | __c_addi | __c_nop | __c_jal | __c_li | __c_lui | __c_addi16sp | __c_srli
  | __c_srai | __c_andi | __c_sub | __c_xor | __c_or | __c_and | __c_j | __c_beqz | __c_bnez
  | __c_slli | __c_lwsp | __c_mv | __c_jr | __c_add | __c_jalr | __c_ebreak | __c_swsp | __dii
  | __c_flw | __c_fsw | __c_flwsp | __c_fswsp | __c_fld | __c_fsd | __c_fldsp | __c_fsdsp
  | illegal_intruction
  deriving DecidableEq

/-- One row of the decode table source: size in bits, valid value, valid mask, handler. -/
structure InstructionDesriptor where
  length : Nat
  value : Nat
  mask : Nat
  op : compile_func
  deriving DecidableEq

/-- The descriptor list, in source order (entries are: size, valid value, valid mask, handler). -/
def instr_descr : List InstructionDesriptor := [
  InstructionDesriptor.mk 32 0b00000010000000000000000000110011 0b11111110000000000111000001111111 compile_func.__mul,  -- MUL
  InstructionDesriptor.mk 32 0b00000010000000000001000000110011 0b11111110000000000111000001111111 compile_func.__mulh,  -- MULH
  InstructionDesriptor.mk 32 0b00000010000000000010000000110011 0b11111110000000000111000001111111 compile_func.__mulhsu,  -- MULHSU
  InstructionDesriptor.mk 32 0b00000010000000000011000000110011 0b11111110000000000111000001111111 compile_func.__mulhu,  -- MULHU
  InstructionDesriptor.mk 32 0b00000010000000000100000000110011 0b11111110000000000111000001111111 compile_func.__div,  -- DIV
  InstructionDesriptor.mk 32 0b00000010000000000101000000110011 0b11111110000000000111000001111111 compile_func.__divu,  -- DIVU
  InstructionDesriptor.mk 32 0b00000010000000000110000000110011 0b11111110000000000111000001111111 compile_func.__rem,  -- REM
  InstructionDesriptor.mk 32 0b00000010000000000111000000110011 0b11111110000000000111000001111111 compile_func.__remu,  -- REMU
  InstructionDesriptor.mk 32 0b00010000000000000010000000101111 0b11111001111100000111000001111111 compile_func.__lr_w,  -- LR.W
  InstructionDesriptor.mk 32 0b00011000000000000010000000101111 0b11111000000000000111000001111111 compile_func.__sc_w,  -- SC.W
  InstructionDesriptor.mk 32 0b00001000000000000010000000101111 0b11111000000000000111000001111111 compile_func.__amoswap_w,  -- AMOSWAP.W
  InstructionDesriptor.mk 32 0b00000000000000000010000000101111 0b11111000000000000111000001111111 compile_func.__amoadd_w,  -- AMOADD.W
  InstructionDesriptor.mk 32 0b00100000000000000010000000101111 0b11111000000000000111000001111111 compile_func.__amoxor_w,  -- AMOXOR.W
  InstructionDesriptor.mk 32 0b01100000000000000010000000101111 0b11111000000000000111000001111111 compile_func.__amoand_w,  -- AMOAND.W
  InstructionDesriptor.mk 32 0b01000000000000000010000000101111 0b11111000000000000111000001111111 compile_func.__amoor_w,  -- AMOOR.W
  InstructionDesriptor.mk 32 0b10000000000000000010000000101111 0b11111000000000000111000001111111 compile_func.__amomin_w,  -- AMOMIN.W
  InstructionDesriptor.mk 32 0b10100000000000000010000000101111 0b11111000000000000111000001111111 compile_func.__amomax_w,  -- AMOMAX.W
  InstructionDesriptor.mk 32 0b11000000000000000010000000101111 0b11111000000000000111000001111111 compile_func.__amominu_w,  -- AMOMINU.W
  InstructionDesriptor.mk 32 0b11100000000000000010000000101111 0b11111000000000000111000001111111 compile_func.__amomaxu_w,  -- AMOMAXU.W
  InstructionDesriptor.mk 32 0b00000000000000000000000000110111 0b00000000000000000000000001111111 compile_func.__lui,  -- LUI
  InstructionDesriptor.mk 32 0b00000000000000000000000000010111 0b00000000000000000000000001111111 compile_func.__auipc,  -- AUIPC
  InstructionDesriptor.mk 32 0b00000000000000000000000001101111 0b00000000000000000000000001111111 compile_func.__jal,  -- JAL
  InstructionDesriptor.mk 32 0b00000000000000000000000001100011 0b00000000000000000111000001111111 compile_func.__beq,  -- BEQ
  InstructionDesriptor.mk 32 0b00000000000000000001000001100011 0b00000000000000000111000001111111 compile_func.__bne,  -- BNE
  InstructionDesriptor.mk 32 0b00000000000000000100000001100011 0b00000000000000000111000001111111 compile_func.__blt,  -- BLT
  InstructionDesriptor.mk 32 0b00000000000000000101000001100011 0b00000000000000000111000001111111 compile_func.__bge,  -- BGE
  InstructionDesriptor.mk 32 0b00000000000000000110000001100011 0b00000000000000000111000001111111 compile_func.__bltu,  -- BLTU
  InstructionDesriptor.mk 32 0b00000000000000000111000001100011 0b00000000000000000111000001111111 compile_func.__bgeu,  -- BGEU
  InstructionDesriptor.mk 32 0b00000000000000000000000000000011 0b00000000000000000111000001111111 compile_func.__lb,  -- LB
  InstructionDesriptor.mk 32 0b00000000000000000001000000000011 0b00000000000000000111000001111111 compile_func.__lh,  -- LH
  InstructionDesriptor.mk 32 0b00000000000000000010000000000011 0b00000000000000000111000001111111 compile_func.__lw,  -- LW
  InstructionDesriptor.mk 32 0b00000000000000000100000000000011 0b00000000000000000111000001111111 compile_func.__lbu,  -- LBU
  InstructionDesriptor.mk 32 0b00000000000000000101000000000011 0b00000000000000000111000001111111 compile_func.__lhu,  -- LHU
  InstructionDesriptor.mk 32 0b00000000000000000000000000100011 0b00000000000000000111000001111111 compile_func.__sb,  -- SB
  InstructionDesriptor.mk 32 0b00000000000000000001000000100011 0b00000000000000000111000001111111 compile_func.__sh,  -- SH
  InstructionDesriptor.mk 32 0b00000000000000000010000000100011 0b00000000000000000111000001111111 compile_func.__sw,  -- SW
  InstructionDesriptor.mk 32 0b00000000000000000000000000010011 0b00000000000000000111000001111111 compile_func.__addi,  -- ADDI
  InstructionDesriptor.mk 32 0b00000000000000000010000000010011 0b00000000000000000111000001111111 compile_func.__slti,  -- SLTI
  InstructionDesriptor.mk 32 0b00000000000000000011000000010011 0b00000000000000000111000001111111 compile_func.__sltiu,  -- SLTIU
  InstructionDesriptor.mk 32 0b00000000000000000100000000010011 0b00000000000000000111000001111111 compile_func.__xori,  -- XORI
  InstructionDesriptor.mk 32 0b00000000000000000110000000010011 0b00000000000000000111000001111111 compile_func.__ori,  -- ORI
  InstructionDesriptor.mk 32 0b00000000000000000111000000010011 0b00000000000000000111000001111111 compile_func.__andi,  -- ANDI
  InstructionDesriptor.mk 32 0b00000000000000000001000000010011 0b11111110000000000111000001111111 compile_func.__slli,  -- SLLI
  InstructionDesriptor.mk 32 0b00000000000000000101000000010011 0b11111110000000000111000001111111 compile_func.__srli,  -- SRLI
  InstructionDesriptor.mk 32 0b01000000000000000101000000010011 0b11111110000000000111000001111111 compile_func.__srai,  -- SRAI
  InstructionDesriptor.mk 32 0b00000000000000000000000000110011 0b11111110000000000111000001111111 compile_func.__add,  -- ADD
  InstructionDesriptor.mk 32 0b01000000000000000000000000110011 0b11111110000000000111000001111111 compile_func.__sub,  -- SUB
  InstructionDesriptor.mk 32 0b00000000000000000001000000110011 0b11111110000000000111000001111111 compile_func.__sll,  -- SLL
  InstructionDesriptor.mk 32 0b00000000000000000010000000110011 0b11111110000000000111000001111111 compile_func.__slt,  -- SLT
  InstructionDesriptor.mk 32 0b00000000000000000011000000110011 0b11111110000000000111000001111111 compile_func.__sltu,  -- SLTU
  InstructionDesriptor.mk 32 0b00000000000000000100000000110011 0b11111110000000000111000001111111 compile_func.__xor,  -- XOR
  InstructionDesriptor.mk 32 0b00000000000000000101000000110011 0b11111110000000000111000001111111 compile_func.__srl,  -- SRL
  InstructionDesriptor.mk 32 0b01000000000000000101000000110011 0b11111110000000000111000001111111 compile_func.__sra,  -- SRA
  InstructionDesriptor.mk 32 0b00000000000000000110000000110011 0b11111110000000000111000001111111 compile_func.__or,  -- OR
  InstructionDesriptor.mk 32 0b00000000000000000111000000110011 0b11111110000000000111000001111111 compile_func.__and,  -- AND
  InstructionDesriptor.mk 32 0b00000000000000000000000000001111 0b11110000000000000111000001111111 compile_func.__fence,  -- FENCE
  InstructionDesriptor.mk 32 0b00000000000000000001000000001111 0b00000000000000000111000001111111 compile_func.__fence_i,  -- FENCE_I
  InstructionDesriptor.mk 32 0b00000000000000000000000001110011 0b11111111111111111111111111111111 compile_func.__ecall,  -- ECALL
  InstructionDesriptor.mk 32 0b00000000000100000000000001110011 0b11111111111111111111111111111111 compile_func.__ebreak,  -- EBREAK
  InstructionDesriptor.mk 32 0b00000000001000000000000001110011 0b11111111111111111111111111111111 compile_func.__uret,  -- URET
  InstructionDesriptor.mk 32 0b00010000001000000000000001110011 0b11111111111111111111111111111111 compile_func.__sret,  -- SRET
  InstructionDesriptor.mk 32 0b00110000001000000000000001110011 0b11111111111111111111111111111111 compile_func.__mret,  -- MRET
  InstructionDesriptor.mk 32 0b00010000010100000000000001110011 0b11111111111111111111111111111111 compile_func.__wfi,  -- WFI
  InstructionDesriptor.mk 32 0b00010010000000000000000001110011 0b11111110000000000111111111111111 compile_func.__sfence_vma,  -- SFENCE.VMA
  InstructionDesriptor.mk 32 0b00000000000000000001000001110011 0b00000000000000000111000001111111 compile_func.__csrrw,  -- CSRRW
  InstructionDesriptor.mk 32 0b00000000000000000010000001110011 0b00000000000000000111000001111111 compile_func.__csrrs,  -- CSRRS
  InstructionDesriptor.mk 32 0b00000000000000000011000001110011 0b00000000000000000111000001111111 compile_func.__csrrc,  -- CSRRC
  InstructionDesriptor.mk 32 0b00000000000000000101000001110011 0b00000000000000000111000001111111 compile_func.__csrrwi,  -- CSRRWI
  InstructionDesriptor.mk 32 0b00000000000000000110000001110011 0b00000000000000000111000001111111 compile_func.__csrrsi,  -- CSRRSI
  InstructionDesriptor.mk 32 0b00000000000000000111000001110011 0b00000000000000000111000001111111 compile_func.__csrrci,  -- CSRRCI
  InstructionDesriptor.mk 32 0b00000000000000000010000000000111 0b00000000000000000111000001111111 compile_func.__flw,  -- FLW
  InstructionDesriptor.mk 32 0b00000000000000000010000000100111 0b00000000000000000111000001111111 compile_func.__fsw,  -- FSW
  InstructionDesriptor.mk 32 0b00000000000000000000000001000011 0b00000110000000000000000001111111 compile_func.__fmadd_s,  -- FMADD.S
  InstructionDesriptor.mk 32 0b00000000000000000000000001000111 0b00000110000000000000000001111111 compile_func.__fmsub_s,  -- FMSUB.S
  InstructionDesriptor.mk 32 0b00000000000000000000000001001111 0b00000110000000000000000001111111 compile_func.__fnmadd_s,  -- FNMADD.S
  InstructionDesriptor.mk 32 0b00000000000000000000000001001011 0b00000110000000000000000001111111 compile_func.__fnmsub_s,  -- FNMSUB.S
  InstructionDesriptor.mk 32 0b00000000000000000000000001010011 0b11111110000000000000000001111111 compile_func.__fadd_s,  -- FADD.S
  InstructionDesriptor.mk 32 0b00001000000000000000000001010011 0b11111110000000000000000001111111 compile_func.__fsub_s,  -- FSUB.S
  InstructionDesriptor.mk 32 0b00010000000000000000000001010011 0b11111110000000000000000001111111 compile_func.__fmul_s,  -- FMUL.S
  InstructionDesriptor.mk 32 0b00011000000000000000000001010011 0b11111110000000000000000001111111 compile_func.__fdiv_s,  -- FDIV.S
  InstructionDesriptor.mk 32 0b01011000000000000000000001010011 0b11111111111100000000000001111111 compile_func.__fsqrt_s,  -- FSQRT.S
  InstructionDesriptor.mk 32 0b00100000000000000000000001010011 0b11111110000000000111000001111111 compile_func.__fsgnj_s,  -- FSGNJ.S
  InstructionDesriptor.mk 32 0b00100000000000000001000001010011 0b11111110000000000111000001111111 compile_func.__fsgnjn_s,  -- FSGNJN.S
  InstructionDesriptor.mk 32 0b00100000000000000010000001010011 0b11111110000000000111000001111111 compile_func.__fsgnjx_s,  -- FSGNJX.S
  InstructionDesriptor.mk 32 0b00101000000000000000000001010011 0b11111110000000000111000001111111 compile_func.__fmin_s,  -- FMIN.S
  InstructionDesriptor.mk 32 0b00101000000000000001000001010011 0b11111110000000000111000001111111 compile_func.__fmax_s,  -- FMAX.S
  InstructionDesriptor.mk 32 0b11000000000000000000000001010011 0b11111111111100000000000001111111 compile_func.__fcvt_w_s,  -- FCVT.W.S
  InstructionDesriptor.mk 32 0b11000000000100000000000001010011 0b11111111111100000000000001111111 compile_func.__fcvt_wu_s,  -- FCVT.WU.S
  InstructionDesriptor.mk 32 0b10100000000000000010000001010011 0b11111110000000000111000001111111 compile_func.__feq_s,  -- FEQ.S
  InstructionDesriptor.mk 32 0b10100000000000000001000001010011 0b11111110000000000111000001111111 compile_func.__flt_s,  -- FLT.S
  InstructionDesriptor.mk 32 0b10100000000000000000000001010011 0b11111110000000000111000001111111 compile_func.__fle_s,  -- FLE.S
  InstructionDesriptor.mk 32 0b11100000000000000001000001010011 0b11111111111100000111000001111111 compile_func.__fclass_s,  -- FCLASS.S
  InstructionDesriptor.mk 32 0b11010000000000000000000001010011 0b11111111111100000000000001111111 compile_func.__fcvt_s_w,  -- FCVT.S.W
  InstructionDesriptor.mk 32 0b11010000000100000000000001010011 0b11111111111100000000000001111111 compile_func.__fcvt_s_wu,  -- FCVT.S.WU
  InstructionDesriptor.mk 32 0b11100000000000000000000001010011 0b11111111111100000111000001111111 compile_func.__fmv_x_w,  -- FMV.X.W
  InstructionDesriptor.mk 32 0b11110000000000000000000001010011 0b11111111111100000111000001111111 compile_func.__fmv_w_x,  -- FMV.W.X
  InstructionDesriptor.mk 32 0b00000000000000000011000000000111 0b00000000000000000111000001111111 compile_func.__fld,  -- FLD
  InstructionDesriptor.mk 32 0b00000000000000000011000000100111 0b00000000000000000111000001111111 compile_func.__fsd,  -- FSD
  InstructionDesriptor.mk 32 0b00000010000000000000000001000011 0b00000110000000000000000001111111 compile_func.__fmadd_d,  -- FMADD.D
  InstructionDesriptor.mk 32 0b00000010000000000000000001000111 0b00000110000000000000000001111111 compile_func.__fmsub_d,  -- FMSUB.D
  InstructionDesriptor.mk 32 0b00000010000000000000000001001111 0b00000110000000000000000001111111 compile_func.__fnmadd_d,  -- FNMADD.D
  InstructionDesriptor.mk 32 0b00000010000000000000000001001011 0b00000110000000000000000001111111 compile_func.__fnmsub_d,  -- FNMSUB.D
  InstructionDesriptor.mk 32 0b00000010000000000000000001010011 0b11111110000000000000000001111111 compile_func.__fadd_d,  -- FADD.D
  InstructionDesriptor.mk 32 0b00001010000000000000000001010011 0b11111110000000000000000001111111 compile_func.__fsub_d,  -- FSUB.D
  InstructionDesriptor.mk 32 0b00010010000000000000000001010011 0b11111110000000000000000001111111 compile_func.__fmul_d,  -- FMUL.D
  InstructionDesriptor.mk 32 0b00011010000000000000000001010011 0b11111110000000000000000001111111 compile_func.__fdiv_d,  -- FDIV.D
  InstructionDesriptor.mk 32 0b01011010000000000000000001010011 0b11111111111100000000000001111111 compile_func.__fsqrt_d,  -- FSQRT.D
  InstructionDesriptor.mk 32 0b00100010000000000000000001010011 0b11111110000000000111000001111111 compile_func.__fsgnj_d,  -- FSGNJ.D
  InstructionDesriptor.mk 32 0b00100010000000000001000001010011 0b11111110000000000111000001111111 compile_func.__fsgnjn_d,  -- FSGNJN.D
  InstructionDesriptor.mk 32 0b00100010000000000010000001010011 0b11111110000000000111000001111111 compile_func.__fsgnjx_d,  -- FSGNJX.D
  InstructionDesriptor.mk 32 0b00101010000000000000000001010011 0b11111110000000000111000001111111 compile_func.__fmin_d,  -- FMIN.D
  InstructionDesriptor.mk 32 0b00101010000000000001000001010011 0b11111110000000000111000001111111 compile_func.__fmax_d,  -- FMAX.D
  InstructionDesriptor.mk 32 0b01000000000100000000000001010011 0b11111111111100000000000001111111 compile_func.__fcvt_s_d,  -- FCVT.S.D
  InstructionDesriptor.mk 32 0b01000010000000000000000001010011 0b11111111111100000000000001111111 compile_func.__fcvt_d_s,  -- FCVT.D.S
  InstructionDesriptor.mk 32 0b10100010000000000010000001010011 0b11111110000000000111000001111111 compile_func.__feq_d,  -- FEQ.D
  InstructionDesriptor.mk 32 0b10100010000000000001000001010011 0b11111110000000000111000001111111 compile_func.__flt_d,  -- FLT.D
  InstructionDesriptor.mk 32 0b10100010000000000000000001010011 0b11111110000000000111000001111111 compile_func.__fle_d,  -- FLE.D
  InstructionDesriptor.mk 32 0b11100010000000000001000001010011 0b11111111111100000111000001111111 compile_func.__fclass_d,  -- FCLASS.D
  InstructionDesriptor.mk 32 0b11000010000000000000000001010011 0b11111111111100000000000001111111 compile_func.__fcvt_w_d,  -- FCVT.W.D
  InstructionDesriptor.mk 32 0b11000010000100000000000001010011 0b11111111111100000000000001111111 compile_func.__fcvt_wu_d,  -- FCVT.WU.D
  InstructionDesriptor.mk 32 0b11010010000000000000000001010011 0b11111111111100000000000001111111 compile_func.__fcvt_d_w,  -- FCVT.D.W
  InstructionDesriptor.mk 32 0b11010010000100000000000001010011 0b11111111111100000000000001111111 compile_func.__fcvt_d_wu,  -- FCVT.D.WU
  InstructionDesriptor.mk 32 0b00000000000000000000000001100111 0b00000000000000000111000001111111 compile_func.__jalr,  -- JALR
  InstructionDesriptor.mk 16 0b0000000000000000 0b1110000000000011 compile_func.__c_addi4spn,  -- C.ADDI4SPN
  InstructionDesriptor.mk 16 0b0100000000000000 0b1110000000000011 compile_func.__c_lw,  -- C.LW
  InstructionDesriptor.mk 16 0b1100000000000000 0b1110000000000011 compile_func.__c_sw,  -- C.SW
  InstructionDesriptor.mk 16 0b0000000000000001 0b1110000000000011 compile_func.__c_addi,  -- C.ADDI
  InstructionDesriptor.mk 16 0b0000000000000001 0b1111111111111111 compile_func.__c_nop,  -- C.NOP
  InstructionDesriptor.mk 16 0b0010000000000001 0b1110000000000011 compile_func.__c_jal,  -- C.JAL
  InstructionDesriptor.mk 16 0b0100000000000001 0b1110000000000011 compile_func.__c_li,  -- C.LI
  InstructionDesriptor.mk 16 0b0110000000000001 0b1110000000000011 compile_func.__c_lui,  -- C.LUI
  InstructionDesriptor.mk 16 0b0110000100000001 0b1110111110000011 compile_func.__c_addi16sp,  -- C.ADDI16SP
  InstructionDesriptor.mk 16 0b1000000000000001 0b1111110000000011 compile_func.__c_srli,  -- C.SRLI
  InstructionDesriptor.mk 16 0b1000010000000001 0b1111110000000011 compile_func.__c_srai,  -- C.SRAI
  InstructionDesriptor.mk 16 0b1000100000000001 0b1110110000000011 compile_func.__c_andi,  -- C.ANDI
  InstructionDesriptor.mk 16 0b1000110000000001 0b1111110001100011 compile_func.__c_sub,  -- C.SUB
  InstructionDesriptor.mk 16 0b1000110000100001 0b1111110001100011 compile_func.__c_xor,  -- C.XOR
  InstructionDesriptor.mk 16 0b1000110001000001 0b1111110001100011 compile_func.__c_or,  -- C.OR
  InstructionDesriptor.mk 16 0b1000110001100001 0b1111110001100011 compile_func.__c_and,  -- C.AND
  InstructionDesriptor.mk 16 0b1010000000000001 0b1110000000000011 compile_func.__c_j,  -- C.J
  InstructionDesriptor.mk 16 0b1100000000000001 0b1110000000000011 compile_func.__c_beqz,  -- C.BEQZ
  InstructionDesriptor.mk 16 0b1110000000000001 0b1110000000000011 compile_func.__c_bnez,  -- C.BNEZ
  InstructionDesriptor.mk 16 0b0000000000000010 0b1111000000000011 compile_func.__c_slli,  -- C.SLLI
  InstructionDesriptor.mk 16 0b0100000000000010 0b1110000000000011 compile_func.__c_lwsp,  -- C.LWSP
  InstructionDesriptor.mk 16 0b1000000000000010 0b1111000000000011 compile_func.__c_mv,  -- C.MV
  InstructionDesriptor.mk 16 0b1000000000000010 0b1111000001111111 compile_func.__c_jr,  -- C.JR
  InstructionDesriptor.mk 16 0b1001000000000010 0b1111000000000011 compile_func.__c_add,  -- C.ADD
  InstructionDesriptor.mk 16 0b1001000000000010 0b1111000001111111 compile_func.__c_jalr,  -- C.JALR
  InstructionDesriptor.mk 16 0b1001000000000010 0b1111111111111111 compile_func.__c_ebreak,  -- C.EBREAK
  InstructionDesriptor.mk 16 0b1100000000000010 0b1110000000000011 compile_func.__c_swsp,  -- C.SWSP
  InstructionDesriptor.mk 16 0b0000000000000000 0b1111111111111111 compile_func.__dii,  -- DII
  InstructionDesriptor.mk 16 0b0110000000000000 0b1110000000000011 compile_func.__c_flw,  -- C.FLW
  InstructionDesriptor.mk 16 0b1110000000000000 0b1110000000000011 compile_func.__c_fsw,  -- C.FSW
  InstructionDesriptor.mk 16 0b0110000000000010 0b1110000000000011 compile_func.__c_flwsp,  -- C.FLWSP
  InstructionDesriptor.mk 16 0b1110000000000010 0b1110000000000011 compile_func.__c_fswsp,  -- C.FSWSP
  InstructionDesriptor.mk 16 0b0010000000000000 0b1110000000000011 compile_func.__c_fld,  -- C.FLD
  InstructionDesriptor.mk 16 0b1010000000000000 0b1110000000000011 compile_func.__c_fsd,  -- C.FSD
  InstructionDesriptor.mk 16 0b0010000000000010 0b1110000000000011 compile_func.__c_fldsp,  -- C.FLDSP
  InstructionDesriptor.mk 16 0b1010000000000010 0b1110000000000011 compile_func.__c_fsdsp  -- C.FSDSP
]
/-! ## Decode tables -/

/-- Compile-time constant `MASK16`. -/
def MASK16 : Nat := 0b1111111111111111

/-- Compile-time constant `MASK32`. -/
def MASK32 : Nat := 0b11111111111100000111000001111111

/-- Compile-time constant `EXTR_MASK16 = MASK16 >> 2`. -/
def EXTR_MASK16 : Nat := MASK16 >>> 2

/-- Compile-time constant `EXTR_MASK32 = MASK32 >> 2`. -/
def EXTR_MASK32 : Nat := MASK32 >>> 2

/-- Modelled from the spec: `util::bit_count`, the number of set bits, here among the low
`n` bits of a 32-bit constant. -/
def bit_count_below : Nat → Nat → Nat
  | 0, _ => 0
  | n + 1, v => (if v.testBit n then 1 else 0) + bit_count_below n v

/-- Compile-time constant `LUT_SIZE = 1 << util::bit_count(EXTR_MASK32)`. -/
def LUT_SIZE : Nat := 1 <<< bit_count_below 32 EXTR_MASK32

/-- Compile-time constant `LUT_SIZE_C = 1 << util::bit_count(EXTR_MASK16)`. -/
def LUT_SIZE_C : Nat := 1 <<< bit_count_below 32 EXTR_MASK16

/-- The member array `lutmasks = {EXTR_MASK16, EXTR_MASK16, EXTR_MASK16, EXTR_MASK32}`,
indexed by quadrant (an index is always `x & 3`). -/
def lutmasks (q : Nat) : Nat :=
  match q with
  | 0 => EXTR_MASK16
  | 1 => EXTR_MASK16
  | 2 => EXTR_MASK16
  | _ => EXTR_MASK32

/-- A lookup array: index to handler, `none` for the null pointer. -/
abbrev lut_t := Nat → Option compile_func

/-- The recursion of `expand_bit_mask(pos, mask, value, valid, idx, lut, f)`; the first
argument is `pos + 1`, so that `0` is the source's `pos < 0` case.  `idx` never exceeds
30 bits (one bit per position), so `idx << 1` does not wrap in `uint32_t`. -/
def expand_bit_mask_pos : Nat → Nat → Nat → Nat → Nat → lut_t → compile_func → lut_t
  | 0, _, _, _, idx, lut, f => Function.update lut idx (some f)
  | p + 1, mask, value, valid, idx, lut, f =>
    let bitmask := 1 <<< p
    if mask &&& bitmask = 0 then
      expand_bit_mask_pos p mask value valid idx lut f
    else
      if valid &&& bitmask = 0 then
        let lut := expand_bit_mask_pos p mask value valid (idx <<< 1) lut f
        expand_bit_mask_pos p mask value valid ((idx <<< 1) + 1) lut f
      else
        let new_val := idx <<< 1
        let new_val := if value &&& bitmask ≠ 0 then new_val + 1 else new_val
        expand_bit_mask_pos p mask value valid new_val lut f

/-- Source `expand_bit_mask(int pos, ...)`: writes `f` into every slot selected by the
descriptor and returns the updated array. -/
def expand_bit_mask (pos : Int) (mask value valid idx : Nat) (lut : lut_t)
    (f : compile_func) : lut_t :=
  expand_bit_mask_pos (pos + 1).toNat mask value valid idx lut f

/-- The recursion of `extract_fields(pos, val, mask, lut_val)`; the first argument is
`pos + 1`, so that `0` is the source's `pos < 0` case. -/
def extract_fields_pos : Nat → Nat → Nat → Nat → Nat
  | 0, _, _, lut_val => lut_val
  | p + 1, val, mask, lut_val =>
    let bitmask := 1 <<< p
    if mask &&& bitmask = 0 then
      extract_fields_pos p val mask lut_val
    else
      let new_val := lut_val <<< 1
      let new_val := if val &&& bitmask ≠ 0 then new_val + 1 else new_val
      extract_fields_pos p val mask new_val

/-- Source `extract_fields(int pos, uint32_t val, uint32_t mask, uint32_t lut_val)`. -/
def extract_fields_at (pos : Int) (val mask lut_val : Nat) : Nat :=
  extract_fields_pos (pos + 1).toNat val mask lut_val

/-- Source `extract_fields(uint32_t val)`. -/
def extract_fields (val : Nat) : Nat :=
  extract_fields_at 29 (val >>> 2) (lutmasks (val &&& 0x3)) 0

/-- The four lookup arrays addressed through `qlut`, indexed by quadrant. -/
abbrev qlut_t := Nat → lut_t

/-- All arrays null.  The member arrays `lut_00`, `lut_01`, `lut_10` and `lut_11` are
declared without an initialiser and the constructor never clears them: an entry that no
descriptor writes keeps the content of the storage the object is created in.  The
all-null state is that of zeroed storage; it is the start the specification assumes for
the tables ("starting from all-null tables"), not one the constructor establishes. -/
def qlut_null : qlut_t := fun _ _ => none

/-- One iteration of the constructor loop `for (auto instr : instr_descr)`. -/
def vm_impl_step (qlut : qlut_t) (instr : InstructionDesriptor) : qlut_t :=
  let quantrant := instr.value &&& 0x3
  Function.update qlut quantrant
    (expand_bit_mask 29 (lutmasks quantrant) (instr.value >>> 2) (instr.mask >>> 2) 0
      (qlut quantrant) instr.op)

/-- The tables the loop of the constructor `vm_impl::vm_impl(ARCH&, unsigned, unsigned)`
leaves for a descriptor list when the arrays hold `init` on entry. -/
def build_qlut_from (init : qlut_t) (descr : List InstructionDesriptor) : qlut_t :=
  descr.foldl vm_impl_step init

/-- The tables built by the constructor `vm_impl::vm_impl(ARCH&, unsigned, unsigned)` from a
descriptor list, for arrays that are all null on entry (`build_qlut_from qlut_null`). -/
def build_qlut (descr : List InstructionDesriptor) : qlut_t :=
  descr.foldl vm_impl_step qlut_null

/-- The member `qlut` after construction, for arrays that are all null on entry. -/
def qlut : qlut_t := build_qlut instr_descr

/-- The bits of a fetched word that take part in the lookup of quadrant `q`: `MASK16`
for the compressed quadrants and `MASK32` for quadrant 3 (`lutmasks` holds them shifted
right by two). -/
def lookup_mask (q : Nat) : Nat :=
  match q with
  | 0 => MASK16
  | 1 => MASK16
  | 2 => MASK16
  | _ => MASK32

/-- Descriptor `d` is a candidate for word `w`: same quadrant, and `d.value` agrees
with `w` on every bit selected by both `d.mask` and the quadrant's lookup mask. -/
def slot_match (w : Nat) (d : InstructionDesriptor) : Bool :=
  (d.value &&& 0x3 == w &&& 0x3) &&
    ((d.value ^^^ w) &&& (d.mask &&& lookup_mask (w &&& 0x3)) == 0)

/-- Descriptor `d` matches word `w` on its full mask: `(w & d.mask) = d.value` in the
quadrant of `w`, a 16-bit descriptor being compared on bits `[15:0]` of `w`. -/
def full_match (w : Nat) (d : InstructionDesriptor) : Bool :=
  (d.value &&& 0x3 == w &&& 0x3) &&
    ((if d.length = 16 then w &&& 0xFFFF else w) &&& d.mask == d.value)

/-- Agreement of `value` and `val` on the positions below `n` selected by `mask` and `valid`. -/
def agree_below (n mask valid value val : Nat) : Prop :=
  ∀ p, p < n → mask.testBit p = true → valid.testBit p = true →
    value.testBit p = val.testBit p

instance agree_below_decidable (n mask valid value val : Nat) :
    Decidable (agree_below n mask valid value val) := by
  unfold agree_below; infer_instance

/-! ## Bit-field helpers -/

/-- Modelled from the spec: `bit_sub<lo, width>(v)` yields `(v >> lo) & ((1 << width) - 1)`,
the `width` bits of `v` starting at bit `lo`. -/
def bit_sub (lo width v : Nat) : Nat := (v >>> lo) &&& ((1 <<< width) - 1)

/-- Conversion of a non-negative value to `uintN_t` (`bits = N`). -/
def uint_t (bits : Nat) (v : Nat) : Nat := v % 2 ^ bits

/-- Conversion of a signed value to `uintN_t` (`bits = N`). -/
def uint_of_int (bits : Nat) (v : Int) : Nat := (v % 2 ^ bits).toNat

/-- Conversion of a value to `intN_t` (`bits = N`): wrap into `[-2^(N-1), 2^(N-1))`. -/
def int_t (bits : Nat) (v : Int) : Int :=
  let m := v % 2 ^ bits
  if m < 2 ^ (bits - 1) then m else m - 2 ^ bits

/-- Modelled from the spec: `signextend<T, bits>(v)` of `util/ities.h`, which is not part of
the sources: bit `bits - 1` of `v` is replicated into all higher bits of the `tbits`-bit
signed type `T`. -/
def signextend (tbits bits : Nat) (v : Nat) : Int :=
  let m : Int := ((v % 2 ^ bits : Nat) : Int)
  int_t tbits (if m < 2 ^ (bits - 1) then m else m - 2 ^ bits)

/-! ## Translation-unit builder

The builder (`tu_builder` of `iss/tcc/vm_base.h`) and the architecture traits are not part
of the sources; they are modelled from the interface the specification lists.  A handler's
output is recorded as the sequence of builder operations it performs, with expression
arguments kept as trees. -/

/-- Modelled from the spec: the termination kind returned by a handler. -/
inductive continuation_e where
  | CONT | BRANCH | FLUSH
  deriving DecidableEq

/-- Modelled from the spec: the phase argument of `gen_sync`. -/
inductive sync_type where
  | PRE_SYNC | POST_SYNC
  deriving DecidableEq

/-- Modelled from the spec: the memory channel tags of the architecture traits. -/
inductive mem_type_e where
  | MEM | CSR | FENCE | RES
  deriving DecidableEq

/-- Modelled from the spec: the register index space of `traits<ARCH>`.  `X n` stands for
the index `n + traits<ARCH>::X0` and `F n` for `n + traits<ARCH>::F0`. -/
inductive reg_e where
  | X (n : Nat)
  | F (n : Nat)
  | PC | NEXT_PC | LAST_BRANCH | FCSR
  deriving DecidableEq

/-- Modelled from the spec: `traits<ARCH>::reg_bit_widths`: 32-bit integer registers and
control slots, 64-bit floating-point registers. -/
def reg_bit_widths (r : reg_e) : Nat :=
  match r with
  | reg_e.F _ => 64
  | _ => 32

/-- Modelled from the spec: the comparison predicates used by `icmp`. -/
inductive ICmpInst where
  | ICMP_EQ | ICMP_NE | ICMP_SGE | ICMP_SGT | ICMP_SLT | ICMP_UGE | ICMP_UGT | ICMP_ULT
  deriving DecidableEq

/-- Name of a local introduced by `assignment`: given by the handler, or fresh. -/
inductive local_name where
  | named (name : String)
  | tmp (serial : Nat)
  deriving DecidableEq

/-- Modelled from the spec: the expression nodes of the builder.  `noarg` / `arg` form the
argument list of `callf`. -/
inductive value where
  | constant (val : Int) (size : Nat)
  | ref (name : local_name) (size : Nat)
  | load (reg_num : reg_e) (nesting_lvl : Nat)
  | read_mem (type : mem_type_e) (addr : value) (size : Nat)
  | read_mem_at (type : mem_type_e) (addr : Nat) (size : Nat)
  | add (left right : value)
  | sub (left right : value)
  | mul (left right : value)
  | udiv (left right : value)
  | sdiv (left right : value)
  | urem (left right : value)
  | srem (left right : value)
  | shl (left right : value)
  | lshr (left right : value)
  | ashr (left right : value)
  | l_and (left right : value)
  | l_or (left right : value)
  | l_xor (left right : value)
  | b_and (left right : value)
  | l_not (val : value)
  | neg (val : value)
  | icmp (pred : ICmpInst) (left right : value)
  | choose (cond left right : value)
  | ext (val : value) (size : Nat) (is_signed : Bool)
  | trunc (val : value) (size : Nat)
  | callf (fn : String) (args : value)
  | noarg
  | arg (first rest : value)
  deriving DecidableEq

/-- Modelled from the spec: the operations a handler performs on the builder, one per
emitted source line. -/
inductive line where
  /-- The label line of an instruction, the mnemonic followed by the address. -/
  | label (mnemonic : String) (pc : Nat)
  /-- The call of print_disass with the address and the disassembly text; the text is kept
  as the mnemonic and the formatted operands. -/
  | print_disass (pc : Nat) (mnemonic : String) (operands : List Int)
  /-- What `gen_sync(tu, phase, inst_id)` contributes. -/
  | sync (s : sync_type) (inst_id : Nat)
  | open_scope
  | close_scope
  /-- The opening of a conditional block on `cond`. -/
  | if_open (cond : value)
  /-- The line that closes the then-block and opens the else-block. -/
  | else_open
  | assignment (name : local_name) (val : value) (width : Nat)
  | store (val : value) (reg_num : reg_e)
  | write_mem (type : mem_type_e) (addr val : value)
  /-- The assignment of the constant `pc` to a register, as written by `gen_set_pc`. -/
  | set_pc (reg_num : reg_e) (pc : Nat)
  /-- The declaration of the pointer local of a register, as written by `gen_set_pc`. -/
  | reg_decl (reg_num : reg_e)
  /-- The assignment of the constant `v` to `*trap_state`. -/
  | trap_state (v : Int)
  /-- The call of leave_trap with the privilege level. -/
  | leave_trap (lvl : Nat)
  /-- The line `if(*trap_state!=0) goto trap_entry;`. -/
  | trap_check
  /-- The label `trap_entry:`. -/
  | trap_entry
  /-- The call of enter_trap. -/
  | enter_trap
  /-- The line `return *next_pc;`. -/
  | return_next_pc
  deriving DecidableEq

/-- Modelled from the spec: the translation unit under construction: the emitted lines,
the serial counter for fresh local names, and the registers whose pointer local has been
materialized (`defined_regs`). -/
structure tu_builder where
  lines : List line
  serial : Nat
  defined_regs : List reg_e

/-- An empty translation unit. -/
def tu_builder.empty : tu_builder := tu_builder.mk [] 0 []

/-- Modelled from the spec: `tu(fmt, args...)`, the raw append of one line. -/
def tu_builder.raw (tu : tu_builder) (l : line) : tu_builder :=
  tu_builder.mk (tu.lines ++ [l]) tu.serial tu.defined_regs

/-- Modelled from the spec: `tu.open_scope()`. -/
def tu_builder.open_scope (tu : tu_builder) : tu_builder := tu.raw line.open_scope

/-- Modelled from the spec: `tu.close_scope()`. -/
def tu_builder.close_scope (tu : tu_builder) : tu_builder := tu.raw line.close_scope

/-- Modelled from the spec: `tu.assignment(val, width)` binds a fresh local and returns a
reference to it. -/
def tu_builder.assignment (tu : tu_builder) (val : value) (width : Nat) : value × tu_builder :=
  (value.ref (local_name.tmp tu.serial) width,
    tu_builder.mk (tu.lines ++ [line.assignment (local_name.tmp tu.serial) val width])
      (tu.serial + 1) tu.defined_regs)

/-- Modelled from the spec: `tu.assignment(name, val, width)` binds the local `name`. -/
def tu_builder.assignment_named (tu : tu_builder) (name : String) (val : value) (width : Nat) :
    value × tu_builder :=
  (value.ref (local_name.named name) width,
    tu.raw (line.assignment (local_name.named name) val width))

/-- Modelled from the spec: `tu.store(val, reg_num)`. -/
def tu_builder.store (tu : tu_builder) (val : value) (reg_num : reg_e) : tu_builder :=
  tu.raw (line.store val reg_num)

/-- Modelled from the spec: `tu.write_mem(type, addr, val)`. -/
def tu_builder.write_mem (tu : tu_builder) (type : mem_type_e) (addr val : value) :
    tu_builder :=
  tu.raw (line.write_mem type addr val)

/-- Modelled from the spec: `vm_base::gen_sync(tu, phase, inst_id)`, an instrumentation hook
delegated to the base class, recorded as one line. -/
def gen_sync (tu : tu_builder) (s : sync_type) (inst_id : Nat) : tu_builder :=
  tu.raw (line.sync s inst_id)

/-- Source `gen_trap_check`. -/
def gen_trap_check (tu : tu_builder) : tu_builder := tu.raw line.trap_check

/-- Source `gen_set_pc(tu, pc, reg_num)`. -/
def gen_set_pc (tu : tu_builder) (pc : Nat) (reg_num : reg_e) : tu_builder :=
  match reg_num with
  | reg_e.NEXT_PC => tu.raw (line.set_pc reg_e.NEXT_PC pc)
  | reg_e.PC => tu.raw (line.set_pc reg_e.PC pc)
  | r =>
    let tu := if r ∉ tu.defined_regs then
        tu_builder.mk (tu.lines ++ [line.reg_decl r]) tu.serial (r :: tu.defined_regs)
      else tu
    tu.raw (line.set_pc r pc)

/-- Source `gen_raise_trap(tu, trap_id, cause)`; the trap word is computed in `int`. -/
def gen_raise_trap (tu : tu_builder) (trap_id cause : Nat) : tu_builder :=
  let trap_id := uint_t 16 trap_id
  let cause := uint_t 16 cause
  let tu := tu.raw (line.trap_state (int_t 32 ((((0x80 <<< 24) ||| (cause <<< 16)) ||| trap_id : Nat) : Int)))
  tu.store (value.constant 4294967295 32) reg_e.LAST_BRANCH

/-- Modelled from the spec: the architecture constant `traits<ARCH>::XLEN`. -/
def XLEN : Nat := 32

/-- Source `gen_leave_trap(tu, lvl)`. -/
def gen_leave_trap (tu : tu_builder) (lvl : Nat) : tu_builder :=
  let tu := tu.raw (line.leave_trap lvl)
  let tu := tu.store (value.read_mem_at mem_type_e.CSR ((lvl <<< 8) + 0x41) XLEN) reg_e.NEXT_PC
  tu.store (value.constant 4294967295 32) reg_e.LAST_BRANCH

/-- Source `gen_wait(tu, type)`: empty body. -/
def gen_wait (tu : tu_builder) (_type : Nat) : tu_builder := tu

/-- Source `gen_trap_behavior(tu)`. -/
def gen_trap_behavior (tu : tu_builder) : tu_builder :=
  let tu := tu.raw line.trap_entry
  let tu := tu.raw line.enter_trap
  let tu := tu.store (value.constant 4294967295 32) reg_e.LAST_BRANCH
  tu.raw line.return_next_pc

/-- What a handler leaves behind: the returned `compile_ret_t`, and the `pc` and `tu`
it received by reference. -/
structure handler_ret where
  cont : continuation_e
  pc : Nat
  tu : tu_builder

/-! ## Instruction handlers

One definition per handler of the source, statement by statement.

With disassembly enabled a handler formats the text of its `print_disass` line by a call of
`fmt::format`.  The definitions record the line with the mnemonic and the operands passed
to that call, which is what the source emits when the call returns.  The format strings of
the calls are listed in `disass_format`; the one of `__fsw` is malformed, so that its call
throws, and `invoke_checked` is the handler call with that exception taken into account. -/

set_option linter.unusedVariables false

/-- Source handler `__mul` (instruction 0: MUL). -/
def __mul (disass_enabled : Bool) (pc : Nat) (instr : Nat) (tu : tu_builder) :
    handler_ret :=
  let tu := tu.raw (line.label "MUL" pc)
  let tu := gen_sync tu sync_type.PRE_SYNC 0
  let rd : Nat := uint_t 8 (bit_sub 7 5 instr)
  let rs1 : Nat := uint_t 8 (bit_sub 15 5 instr)
  let rs2 : Nat := uint_t 8 (bit_sub 20 5 instr)
  let tu := if disass_enabled then
      let tu := tu.raw
        (line.print_disass pc "mul" [((rd : Nat) : Int), ((rs1 : Nat) : Int), ((rs2 : Nat) : Int)])
      tu
    else tu
  let cur_pc_val := value.constant ((pc : Nat) : Int) (reg_bit_widths reg_e.PC)
  let pc := pc + 4
  let tu := tu.open_scope
  let tu := if rd ≠ 0 then
      let r := tu.assignment
        (value.mul
          (value.ext (value.load (reg_e.X rs1) 0) 64 true)
          (value.ext (value.load (reg_e.X rs2) 0) 64 true))
        64
      let res_val := r.1
      let tu := r.2
      let tu := tu.store (value.ext res_val 32 true) (reg_e.X rd)
      tu
    else tu
  let tu := tu.close_scope
  let tu := gen_set_pc tu pc reg_e.NEXT_PC
  let tu := gen_sync tu sync_type.POST_SYNC 0
  let tu := gen_trap_check tu
  handler_ret.mk continuation_e.CONT pc tu

/-- Source handler `__mulh` (instruction 1: MULH). -/
def __mulh (disass_enabled : Bool) (pc : Nat) (instr : Nat) (tu : tu_builder) :
    handler_ret :=
  let tu := tu.raw (line.label "MULH" pc)
  let tu := gen_sync tu sync_type.PRE_SYNC 1
  let rd : Nat := uint_t 8 (bit_sub 7 5 instr)
  let rs1 : Nat := uint_t 8 (bit_sub 15 5 instr)
  let rs2 : Nat := uint_t 8 (bit_sub 20 5 instr)
  let tu := if disass_enabled then
      let tu := tu.raw
        (line.print_disass pc "mulh"
          [((rd : Nat) : Int), ((rs1 : Nat) : Int), ((rs2 : Nat) : Int)])
      tu
    else tu
  let cur_pc_val := value.constant ((pc : Nat) : Int) (reg_bit_widths reg_e.PC)
  let pc := pc + 4
  let tu := tu.open_scope
  let tu := if rd ≠ 0 then
      let r := tu.assignment
        (value.mul
          (value.ext (value.load (reg_e.X rs1) 0) 64 false)
          (value.ext (value.load (reg_e.X rs2) 0) 64 false))
        64
      let res_val := r.1
      let tu := r.2
      let tu := tu.store
        (value.ext (value.lshr res_val (value.constant 32 32)) 32 true)
        (reg_e.X rd)
      tu
    else tu
  let tu := tu.close_scope
  let tu := gen_set_pc tu pc reg_e.NEXT_PC
  let tu := gen_sync tu sync_type.POST_SYNC 1
  let tu := gen_trap_check tu
  handler_ret.mk continuation_e.CONT pc tu

/-- Source handler `__mulhsu` (instruction 2: MULHSU). -/
def __mulhsu (disass_enabled : Bool) (pc : Nat) (instr : Nat) (tu : tu_builder) :
    handler_ret :=
  let tu := tu.raw (line.label "MULHSU" pc)
  let tu := gen_sync tu sync_type.PRE_SYNC 2
  let rd : Nat := uint_t 8 (bit_sub 7 5 instr)
  let rs1 : Nat := uint_t 8 (bit_sub 15 5 instr)
  let rs2 : Nat := uint_t 8 (bit_sub 20 5 instr)
  let tu := if disass_enabled then
      let tu := tu.raw
        (line.print_disass pc "mulhsu"
          [((rd : Nat) : Int), ((rs1 : Nat) : Int), ((rs2 : Nat) : Int)])
      tu
    else tu
  let cur_pc_val := value.constant ((pc : Nat) : Int) (reg_bit_widths reg_e.PC)
  let pc := pc + 4
  let tu := tu.open_scope
  let tu := if rd ≠ 0 then
      let r := tu.assignment
        (value.mul
          (value.ext (value.load (reg_e.X rs1) 0) 64 false)
          (value.ext (value.load (reg_e.X rs2) 0) 64 true))
        64
      let res_val := r.1
      let tu := r.2
      let tu := tu.store
        (value.ext (value.lshr res_val (value.constant 32 32)) 32 true)
        (reg_e.X rd)
      tu
    else tu
  let tu := tu.close_scope
  let tu := gen_set_pc tu pc reg_e.NEXT_PC
  let tu := gen_sync tu sync_type.POST_SYNC 2
  let tu := gen_trap_check tu
  handler_ret.mk continuation_e.CONT pc tu

/-- Source handler `__mulhu` (instruction 3: MULHU). -/
def __mulhu (disass_enabled : Bool) (pc : Nat) (instr : Nat) (tu : tu_builder) :
    handler_ret :=
  let tu := tu.raw (line.label "MULHU" pc)
  let tu := gen_sync tu sync_type.PRE_SYNC 3
  let rd : Nat := uint_t 8 (bit_sub 7 5 instr)
  let rs1 : Nat := uint_t 8 (bit_sub 15 5 instr)
  let rs2 : Nat := uint_t 8 (bit_sub 20 5 instr)
  let tu := if disass_enabled then
      let tu := tu.raw
        (line.print_disass pc "mulhu"
          [((rd : Nat) : Int), ((rs1 : Nat) : Int), ((rs2 : Nat) : Int)])
      tu
    else tu
  let cur_pc_val := value.constant ((pc : Nat) : Int) (reg_bit_widths reg_e.PC)
  let pc := pc + 4
  let tu := tu.open_scope
  let tu := if rd ≠ 0 then
      let r := tu.assignment
        (value.mul
          (value.ext (value.load (reg_e.X rs1) 0) 64 true)
          (value.ext (value.load (reg_e.X rs2) 0) 64 true))
        64
      let res_val := r.1
      let tu := r.2
      let tu := tu.store
        (value.ext (value.lshr res_val (value.constant 32 32)) 32 true)
        (reg_e.X rd)
      tu
    else tu
  let tu := tu.close_scope
  let tu := gen_set_pc tu pc reg_e.NEXT_PC
  let tu := gen_sync tu sync_type.POST_SYNC 3
  let tu := gen_trap_check tu
  handler_ret.mk continuation_e.CONT pc tu

/-- Source handler `__div` (instruction 4: DIV). -/
def __div (disass_enabled : Bool) (pc : Nat) (instr : Nat) (tu : tu_builder) :
    handler_ret :=
  let tu := tu.raw (line.label "DIV" pc)
  let tu := gen_sync tu sync_type.PRE_SYNC 4
  let rd : Nat := uint_t 8 (bit_sub 7 5 instr)
  let rs1 : Nat := uint_t 8 (bit_sub 15 5 instr)
  let rs2 : Nat := uint_t 8 (bit_sub 20 5 instr)
  let tu := if disass_enabled then
      let tu := tu.raw
        (line.print_disass pc "div" [((rd : Nat) : Int), ((rs1 : Nat) : Int), ((rs2 : Nat) : Int)])
      tu
    else tu
  let cur_pc_val := value.constant ((pc : Nat) : Int) (reg_bit_widths reg_e.PC)
  let pc := pc + 4
  let tu := tu.open_scope
  let tu := if rd ≠ 0 then
      let tu := tu.raw
        (line.if_open
          (value.icmp ICmpInst.ICMP_NE (value.load (reg_e.X rs2) 0) (value.constant 0 32)))
      let M1_val : Nat := uint_of_int 32 (-1)
      let XLM1_val : Nat := uint_of_int 8 ((32 : Int) - (1 : Int))
      let ONE_val : Nat := uint_t 32 1
      let MMIN_val : Nat := uint_t 32 (ONE_val <<< XLM1_val)
      let tu := tu.raw
        (line.if_open
          (value.b_and
            (value.icmp ICmpInst.ICMP_EQ
              (value.load (reg_e.X rs1) 0)
              (value.constant ((MMIN_val : Nat) : Int) 32))
            (value.icmp ICmpInst.ICMP_EQ
              (value.load (reg_e.X rs2) 0)
              (value.constant ((M1_val : Nat) : Int) 32))))
      let tu := tu.store (value.constant ((MMIN_val : Nat) : Int) 32) (reg_e.X rd)
      let tu := tu.raw line.else_open
      let tu := tu.store
        (value.sdiv
          (value.ext (value.load (reg_e.X rs1) 0) 32 false)
          (value.ext (value.load (reg_e.X rs2) 0) 32 false))
        (reg_e.X rd)
      let tu := tu.close_scope
      let tu := tu.raw line.else_open
      let tu := tu.store (value.neg (value.constant 1 32)) (reg_e.X rd)
      let tu := tu.close_scope
      tu
    else tu
  let tu := tu.close_scope
  let tu := gen_set_pc tu pc reg_e.NEXT_PC
  let tu := gen_sync tu sync_type.POST_SYNC 4
  let tu := gen_trap_check tu
  handler_ret.mk continuation_e.CONT pc tu

/-- Source handler `__divu` (instruction 5: DIVU). -/
def __divu (disass_enabled : Bool) (pc : Nat) (instr : Nat) (tu : tu_builder) :
    handler_ret :=
  let tu := tu.raw (line.label "DIVU" pc)
  let tu := gen_sync tu sync_type.PRE_SYNC 5
  let rd : Nat := uint_t 8 (bit_sub 7 5 instr)
  let rs1 : Nat := uint_t 8 (bit_sub 15 5 instr)
  let rs2 : Nat := uint_t 8 (bit_sub 20 5 instr)
  let tu := if disass_enabled then
      let tu := tu.raw
        (line.print_disass pc "divu"
          [((rd : Nat) : Int), ((rs1 : Nat) : Int), ((rs2 : Nat) : Int)])
      tu
    else tu
  let cur_pc_val := value.constant ((pc : Nat) : Int) (reg_bit_widths reg_e.PC)
  let pc := pc + 4
  let tu := tu.open_scope
  let tu := if rd ≠ 0 then
      let tu := tu.raw
        (line.if_open
          (value.icmp ICmpInst.ICMP_NE (value.load (reg_e.X rs2) 0) (value.constant 0 32)))
      let tu := tu.store
        (value.udiv (value.load (reg_e.X rs1) 0) (value.load (reg_e.X rs2) 0))
        (reg_e.X rd)
      let tu := tu.raw line.else_open
      let tu := tu.store (value.neg (value.constant 1 32)) (reg_e.X rd)
      let tu := tu.close_scope
      tu
    else tu
  let tu := tu.close_scope
  let tu := gen_set_pc tu pc reg_e.NEXT_PC
  let tu := gen_sync tu sync_type.POST_SYNC 5
  let tu := gen_trap_check tu
  handler_ret.mk continuation_e.CONT pc tu

/-- Source handler `__rem` (instruction 6: REM). -/
def __rem (disass_enabled : Bool) (pc : Nat) (instr : Nat) (tu : tu_builder) :
    handler_ret :=
  let tu := tu.raw (line.label "REM" pc)
  let tu := gen_sync tu sync_type.PRE_SYNC 6
  let rd : Nat := uint_t 8 (bit_sub 7 5 instr)
  let rs1 : Nat := uint_t 8 (bit_sub 15 5 instr)
  let rs2 : Nat := uint_t 8 (bit_sub 20 5 instr)
  let tu := if disass_enabled then
      let tu := tu.raw
        (line.print_disass pc "rem" [((rd : Nat) : Int), ((rs1 : Nat) : Int), ((rs2 : Nat) : Int)])
      tu
    else tu
  let cur_pc_val := value.constant ((pc : Nat) : Int) (reg_bit_widths reg_e.PC)
  let pc := pc + 4
  let tu := tu.open_scope
  let tu := if rd ≠ 0 then
      let tu := tu.raw
        (line.if_open
          (value.icmp ICmpInst.ICMP_NE (value.load (reg_e.X rs2) 0) (value.constant 0 32)))
      let M1_val : Nat := uint_of_int 32 (-1)
      let XLM1_val : Nat := uint_of_int 32 ((32 : Int) - (1 : Int))
      let ONE_val : Nat := uint_t 32 1
      let MMIN_val : Nat := uint_t 32 (ONE_val <<< XLM1_val)
      let tu := tu.raw
        (line.if_open
          (value.b_and
            (value.icmp ICmpInst.ICMP_EQ
              (value.load (reg_e.X rs1) 0)
              (value.constant ((MMIN_val : Nat) : Int) 32))
            (value.icmp ICmpInst.ICMP_EQ
              (value.load (reg_e.X rs2) 0)
              (value.constant ((M1_val : Nat) : Int) 32))))
      let tu := tu.store (value.constant 0 32) (reg_e.X rd)
      let tu := tu.raw line.else_open
      let tu := tu.store
        (value.srem
          (value.ext (value.load (reg_e.X rs1) 0) 32 false)
          (value.ext (value.load (reg_e.X rs2) 0) 32 false))
        (reg_e.X rd)
      let tu := tu.close_scope
      let tu := tu.raw line.else_open
      let tu := tu.store (value.load (reg_e.X rs1) 0) (reg_e.X rd)
      let tu := tu.close_scope
      tu
    else tu
  let tu := tu.close_scope
  let tu := gen_set_pc tu pc reg_e.NEXT_PC
  let tu := gen_sync tu sync_type.POST_SYNC 6
  let tu := gen_trap_check tu
  handler_ret.mk continuation_e.CONT pc tu

/-- Source handler `__remu` (instruction 7: REMU). -/
def __remu (disass_enabled : Bool) (pc : Nat) (instr : Nat) (tu : tu_builder) :
    handler_ret :=
  let tu := tu.raw (line.label "REMU" pc)
  let tu := gen_sync tu sync_type.PRE_SYNC 7
  let rd : Nat := uint_t 8 (bit_sub 7 5 instr)
  let rs1 : Nat := uint_t 8 (bit_sub 15 5 instr)
  let rs2 : Nat := uint_t 8 (bit_sub 20 5 instr)
  let tu := if disass_enabled then
      let tu := tu.raw
        (line.print_disass pc "remu"
          [((rd : Nat) : Int), ((rs1 : Nat) : Int), ((rs2 : Nat) : Int)])
      tu
    else tu
  let cur_pc_val := value.constant ((pc : Nat) : Int) (reg_bit_widths reg_e.PC)
  let pc := pc + 4
  let tu := tu.open_scope
  let tu := if rd ≠ 0 then
      let tu := tu.raw
        (line.if_open
          (value.icmp ICmpInst.ICMP_NE (value.load (reg_e.X rs2) 0) (value.constant 0 32)))
      let tu := tu.store
        (value.urem (value.load (reg_e.X rs1) 0) (value.load (reg_e.X rs2) 0))
        (reg_e.X rd)
      let tu := tu.raw line.else_open
      let tu := tu.store (value.load (reg_e.X rs1) 0) (reg_e.X rd)
      let tu := tu.close_scope
      tu
    else tu
  let tu := tu.close_scope
  let tu := gen_set_pc tu pc reg_e.NEXT_PC
  let tu := gen_sync tu sync_type.POST_SYNC 7
  let tu := gen_trap_check tu
  handler_ret.mk continuation_e.CONT pc tu

/-- Source handler `__lr_w` (instruction 8: LR.W). -/
def __lr_w (disass_enabled : Bool) (pc : Nat) (instr : Nat) (tu : tu_builder) :
    handler_ret :=
  let tu := tu.raw (line.label "LR_W" pc)
  let tu := gen_sync tu sync_type.PRE_SYNC 8
  let rd : Nat := uint_t 8 (bit_sub 7 5 instr)
  let rs1 : Nat := uint_t 8 (bit_sub 15 5 instr)
  let rl : Nat := uint_t 8 (bit_sub 25 1 instr)
  let aq : Nat := uint_t 8 (bit_sub 26 1 instr)
  let tu := if disass_enabled then
      let tu := tu.raw (line.print_disass pc "lr.w" [((rd : Nat) : Int), ((rs1 : Nat) : Int)])
      tu
    else tu
  let cur_pc_val := value.constant ((pc : Nat) : Int) (reg_bit_widths reg_e.PC)
  let pc := pc + 4
  let tu := tu.open_scope
  let tu := if rd ≠ 0 then
      let r := tu.assignment (value.load (reg_e.X rs1) 0) 32
      let offs_val := r.1
      let tu := r.2
      let tu := tu.store
        (value.ext (value.read_mem mem_type_e.MEM offs_val 32) 32 false)
        (reg_e.X rd)
      let tu := tu.write_mem mem_type_e.RES offs_val
        (value.trunc (value.ext (value.neg (value.constant 1 8)) 32 false) 32)
      tu
    else tu
  let tu := tu.close_scope
  let tu := gen_set_pc tu pc reg_e.NEXT_PC
  let tu := gen_sync tu sync_type.POST_SYNC 8
  let tu := gen_trap_check tu
  handler_ret.mk continuation_e.CONT pc tu

/-- Source handler `__sc_w` (instruction 9: SC.W). -/
def __sc_w (disass_enabled : Bool) (pc : Nat) (instr : Nat) (tu : tu_builder) :
    handler_ret :=
  let tu := tu.raw (line.label "SC_W" pc)
  let tu := gen_sync tu sync_type.PRE_SYNC 9
  let rd : Nat := uint_t 8 (bit_sub 7 5 instr)
  let rs1 : Nat := uint_t 8 (bit_sub 15 5 instr)
  let rs2 : Nat := uint_t 8 (bit_sub 20 5 instr)
  let rl : Nat := uint_t 8 (bit_sub 25 1 instr)
  let aq : Nat := uint_t 8 (bit_sub 26 1 instr)
  let tu := if disass_enabled then
      let tu := tu.raw
        (line.print_disass pc "sc.w"
          [((rd : Nat) : Int), ((rs1 : Nat) : Int), ((rs2 : Nat) : Int)])
      tu
    else tu
  let cur_pc_val := value.constant ((pc : Nat) : Int) (reg_bit_widths reg_e.PC)
  let pc := pc + 4
  let tu := tu.open_scope
  let r := tu.assignment (value.load (reg_e.X rs1) 0) 32
  let offs_val := r.1
  let tu := r.2
  let r := tu.assignment (value.read_mem mem_type_e.RES offs_val 32) 32
  let res1_val := r.1
  let tu := r.2
  let tu := tu.raw (line.if_open (value.icmp ICmpInst.ICMP_NE res1_val (value.constant 0 32)))
  let tu := tu.write_mem mem_type_e.MEM offs_val (value.trunc (value.load (reg_e.X rs2) 0) 32)
  let tu := tu.close_scope
  let tu := if rd ≠ 0 then
      let tu := tu.store
        (value.choose
          (value.icmp ICmpInst.ICMP_NE res1_val (value.ext (value.constant 0 32) 32 true))
          (value.constant 0 32)
          (value.constant 1 32))
        (reg_e.X rd)
      tu
    else tu
  let tu := tu.close_scope
  let tu := gen_set_pc tu pc reg_e.NEXT_PC
  let tu := gen_sync tu sync_type.POST_SYNC 9
  let tu := gen_trap_check tu
  handler_ret.mk continuation_e.CONT pc tu

/-- Source handler `__amoswap_w` (instruction 10: AMOSWAP.W). -/
def __amoswap_w (disass_enabled : Bool) (pc : Nat) (instr : Nat) (tu : tu_builder) :
    handler_ret :=
  let tu := tu.raw (line.label "AMOSWAP_W" pc)
  let tu := gen_sync tu sync_type.PRE_SYNC 10
  let rd : Nat := uint_t 8 (bit_sub 7 5 instr)
  let rs1 : Nat := uint_t 8 (bit_sub 15 5 instr)
  let rs2 : Nat := uint_t 8 (bit_sub 20 5 instr)
  let rl : Nat := uint_t 8 (bit_sub 25 1 instr)
  let aq : Nat := uint_t 8 (bit_sub 26 1 instr)
  let tu := if disass_enabled then
      let tu := tu.raw
        (line.print_disass pc "amoswap.w"
          [((rd : Nat) : Int), ((rs1 : Nat) : Int), ((rs2 : Nat) : Int), ((aq : Nat) : Int), ((rl : Nat) : Int)])
      tu
    else tu
  let cur_pc_val := value.constant ((pc : Nat) : Int) (reg_bit_widths reg_e.PC)
  let pc := pc + 4
  let tu := tu.open_scope
  let r := tu.assignment (value.load (reg_e.X rs1) 0) 32
  let offs_val := r.1
  let tu := r.2
  let tu := if rd ≠ 0 then
      let tu := tu.store
        (value.ext (value.read_mem mem_type_e.MEM offs_val 32) 32 false)
        (reg_e.X rd)
      tu
    else tu
  let tu := tu.write_mem mem_type_e.MEM offs_val (value.trunc (value.load (reg_e.X rs2) 0) 32)
  let tu := tu.close_scope
  let tu := gen_set_pc tu pc reg_e.NEXT_PC
  let tu := gen_sync tu sync_type.POST_SYNC 10
  let tu := gen_trap_check tu
  handler_ret.mk continuation_e.CONT pc tu

/-- Source handler `__amoadd_w` (instruction 11: AMOADD.W). -/
def __amoadd_w (disass_enabled : Bool) (pc : Nat) (instr : Nat) (tu : tu_builder) :
    handler_ret :=
  let tu := tu.raw (line.label "AMOADD_W" pc)
  let tu := gen_sync tu sync_type.PRE_SYNC 11
  let rd : Nat := uint_t 8 (bit_sub 7 5 instr)
  let rs1 : Nat := uint_t 8 (bit_sub 15 5 instr)
  let rs2 : Nat := uint_t 8 (bit_sub 20 5 instr)
  let rl : Nat := uint_t 8 (bit_sub 25 1 instr)
  let aq : Nat := uint_t 8 (bit_sub 26 1 instr)
  let tu := if disass_enabled then
      let tu := tu.raw
        (line.print_disass pc "amoadd.w"
          [((rd : Nat) : Int), ((rs1 : Nat) : Int), ((rs2 : Nat) : Int), ((aq : Nat) : Int), ((rl : Nat) : Int)])
      tu
    else tu
  let cur_pc_val := value.constant ((pc : Nat) : Int) (reg_bit_widths reg_e.PC)
  let pc := pc + 4
  let tu := tu.open_scope
  let r := tu.assignment (value.load (reg_e.X rs1) 0) 32
  let offs_val := r.1
  let tu := r.2
  let r := tu.assignment (value.ext (value.read_mem mem_type_e.MEM offs_val 32) 32 false) 32
  let res1_val := r.1
  let tu := r.2
  let tu := if rd ≠ 0 then
      let tu := tu.store res1_val (reg_e.X rd)
      tu
    else tu
  let r := tu.assignment (value.add res1_val (value.load (reg_e.X rs2) 0)) 32
  let res2_val := r.1
  let tu := r.2
  let tu := tu.write_mem mem_type_e.MEM offs_val (value.trunc res2_val 32)
  let tu := tu.close_scope
  let tu := gen_set_pc tu pc reg_e.NEXT_PC
  let tu := gen_sync tu sync_type.POST_SYNC 11
  let tu := gen_trap_check tu
  handler_ret.mk continuation_e.CONT pc tu

/-- Source handler `__amoxor_w` (instruction 12: AMOXOR.W). -/
def __amoxor_w (disass_enabled : Bool) (pc : Nat) (instr : Nat) (tu : tu_builder) :
    handler_ret :=
  let tu := tu.raw (line.label "AMOXOR_W" pc)
  let tu := gen_sync tu sync_type.PRE_SYNC 12
  let rd : Nat := uint_t 8 (bit_sub 7 5 instr)
  let rs1 : Nat := uint_t 8 (bit_sub 15 5 instr)
  let rs2 : Nat := uint_t 8 (bit_sub 20 5 instr)
  let rl : Nat := uint_t 8 (bit_sub 25 1 instr)
  let aq : Nat := uint_t 8 (bit_sub 26 1 instr)
  let tu := if disass_enabled then
      let tu := tu.raw
        (line.print_disass pc "amoxor.w"
          [((rd : Nat) : Int), ((rs1 : Nat) : Int), ((rs2 : Nat) : Int), ((aq : Nat) : Int), ((rl : Nat) : Int)])
      tu
    else tu
  let cur_pc_val := value.constant ((pc : Nat) : Int) (reg_bit_widths reg_e.PC)
  let pc := pc + 4
  let tu := tu.open_scope
  let r := tu.assignment (value.load (reg_e.X rs1) 0) 32
  let offs_val := r.1
  let tu := r.2
  let r := tu.assignment (value.ext (value.read_mem mem_type_e.MEM offs_val 32) 32 false) 32
  let res1_val := r.1
  let tu := r.2
  let tu := if rd ≠ 0 then
      let tu := tu.store res1_val (reg_e.X rd)
      tu
    else tu
  let r := tu.assignment (value.l_xor res1_val (value.load (reg_e.X rs2) 0)) 32
  let res2_val := r.1
  let tu := r.2
  let tu := tu.write_mem mem_type_e.MEM offs_val (value.trunc res2_val 32)
  let tu := tu.close_scope
  let tu := gen_set_pc tu pc reg_e.NEXT_PC
  let tu := gen_sync tu sync_type.POST_SYNC 12
  let tu := gen_trap_check tu
  handler_ret.mk continuation_e.CONT pc tu

/-- Source handler `__amoand_w` (instruction 13: AMOAND.W). -/
def __amoand_w (disass_enabled : Bool) (pc : Nat) (instr : Nat) (tu : tu_builder) :
    handler_ret :=
  let tu := tu.raw (line.label "AMOAND_W" pc)
  let tu := gen_sync tu sync_type.PRE_SYNC 13
  let rd : Nat := uint_t 8 (bit_sub 7 5 instr)
  let rs1 : Nat := uint_t 8 (bit_sub 15 5 instr)
  let rs2 : Nat := uint_t 8 (bit_sub 20 5 instr)
  let rl : Nat := uint_t 8 (bit_sub 25 1 instr)
  let aq : Nat := uint_t 8 (bit_sub 26 1 instr)
  let tu := if disass_enabled then
      let tu := tu.raw
        (line.print_disass pc "amoand.w"
          [((rd : Nat) : Int), ((rs1 : Nat) : Int), ((rs2 : Nat) : Int), ((aq : Nat) : Int), ((rl : Nat) : Int)])
      tu
    else tu
  let cur_pc_val := value.constant ((pc : Nat) : Int) (reg_bit_widths reg_e.PC)
  let pc := pc + 4
  let tu := tu.open_scope
  let r := tu.assignment (value.load (reg_e.X rs1) 0) 32
  let offs_val := r.1
  let tu := r.2
  let r := tu.assignment (value.ext (value.read_mem mem_type_e.MEM offs_val 32) 32 false) 32
  let res1_val := r.1
  let tu := r.2
  let tu := if rd ≠ 0 then
      let tu := tu.store res1_val (reg_e.X rd)
      tu
    else tu
  let r := tu.assignment (value.l_and res1_val (value.load (reg_e.X rs2) 0)) 32
  let res2_val := r.1
  let tu := r.2
  let tu := tu.write_mem mem_type_e.MEM offs_val (value.trunc res2_val 32)
  let tu := tu.close_scope
  let tu := gen_set_pc tu pc reg_e.NEXT_PC
  let tu := gen_sync tu sync_type.POST_SYNC 13
  let tu := gen_trap_check tu
  handler_ret.mk continuation_e.CONT pc tu

/-- Source handler `__amoor_w` (instruction 14: AMOOR.W). -/
def __amoor_w (disass_enabled : Bool) (pc : Nat) (instr : Nat) (tu : tu_builder) :
    handler_ret :=
  let tu := tu.raw (line.label "AMOOR_W" pc)
  let tu := gen_sync tu sync_type.PRE_SYNC 14
  let rd : Nat := uint_t 8 (bit_sub 7 5 instr)
  let rs1 : Nat := uint_t 8 (bit_sub 15 5 instr)
  let rs2 : Nat := uint_t 8 (bit_sub 20 5 instr)
  let rl : Nat := uint_t 8 (bit_sub 25 1 instr)
  let aq : Nat := uint_t 8 (bit_sub 26 1 instr)
  let tu := if disass_enabled then
      let tu := tu.raw
        (line.print_disass pc "amoor.w"
          [((rd : Nat) : Int), ((rs1 : Nat) : Int), ((rs2 : Nat) : Int), ((aq : Nat) : Int), ((rl : Nat) : Int)])
      tu
    else tu
  let cur_pc_val := value.constant ((pc : Nat) : Int) (reg_bit_widths reg_e.PC)
  let pc := pc + 4
  let tu := tu.open_scope
  let r := tu.assignment (value.load (reg_e.X rs1) 0) 32
  let offs_val := r.1
  let tu := r.2
  let r := tu.assignment (value.ext (value.read_mem mem_type_e.MEM offs_val 32) 32 false) 32
  let res1_val := r.1
  let tu := r.2
  let tu := if rd ≠ 0 then
      let tu := tu.store res1_val (reg_e.X rd)
      tu
    else tu
  let r := tu.assignment (value.l_or res1_val (value.load (reg_e.X rs2) 0)) 32
  let res2_val := r.1
  let tu := r.2
  let tu := tu.write_mem mem_type_e.MEM offs_val (value.trunc res2_val 32)
  let tu := tu.close_scope
  let tu := gen_set_pc tu pc reg_e.NEXT_PC
  let tu := gen_sync tu sync_type.POST_SYNC 14
  let tu := gen_trap_check tu
  handler_ret.mk continuation_e.CONT pc tu

/-- Source handler `__amomin_w` (instruction 15: AMOMIN.W). -/
def __amomin_w (disass_enabled : Bool) (pc : Nat) (instr : Nat) (tu : tu_builder) :
    handler_ret :=
  let tu := tu.raw (line.label "AMOMIN_W" pc)
  let tu := gen_sync tu sync_type.PRE_SYNC 15
  let rd : Nat := uint_t 8 (bit_sub 7 5 instr)
  let rs1 : Nat := uint_t 8 (bit_sub 15 5 instr)
  let rs2 : Nat := uint_t 8 (bit_sub 20 5 instr)
  let rl : Nat := uint_t 8 (bit_sub 25 1 instr)
  let aq : Nat := uint_t 8 (bit_sub 26 1 instr)
  let tu := if disass_enabled then
      let tu := tu.raw
        (line.print_disass pc "amomin.w"
          [((rd : Nat) : Int), ((rs1 : Nat) : Int), ((rs2 : Nat) : Int), ((aq : Nat) : Int), ((rl : Nat) : Int)])
      tu
    else tu
  let cur_pc_val := value.constant ((pc : Nat) : Int) (reg_bit_widths reg_e.PC)
  let pc := pc + 4
  let tu := tu.open_scope
  let r := tu.assignment (value.load (reg_e.X rs1) 0) 32
  let offs_val := r.1
  let tu := r.2
  let r := tu.assignment (value.ext (value.read_mem mem_type_e.MEM offs_val 32) 32 false) 32
  let res1_val := r.1
  let tu := r.2
  let tu := if rd ≠ 0 then
      let tu := tu.store res1_val (reg_e.X rd)
      tu
    else tu
  let r := tu.assignment
    (value.choose
      (value.icmp ICmpInst.ICMP_SGT
        (value.ext res1_val 32 false)
        (value.ext (value.load (reg_e.X rs2) 0) 32 false))
      (value.load (reg_e.X rs2) 0)
      res1_val)
    32
  let res2_val := r.1
  let tu := r.2
  let tu := tu.write_mem mem_type_e.MEM offs_val (value.trunc res2_val 32)
  let tu := tu.close_scope
  let tu := gen_set_pc tu pc reg_e.NEXT_PC
  let tu := gen_sync tu sync_type.POST_SYNC 15
  let tu := gen_trap_check tu
  handler_ret.mk continuation_e.CONT pc tu

/-- Source handler `__amomax_w` (instruction 16: AMOMAX.W). -/
def __amomax_w (disass_enabled : Bool) (pc : Nat) (instr : Nat) (tu : tu_builder) :
    handler_ret :=
  let tu := tu.raw (line.label "AMOMAX_W" pc)
  let tu := gen_sync tu sync_type.PRE_SYNC 16
  let rd : Nat := uint_t 8 (bit_sub 7 5 instr)
  let rs1 : Nat := uint_t 8 (bit_sub 15 5 instr)
  let rs2 : Nat := uint_t 8 (bit_sub 20 5 instr)
  let rl : Nat := uint_t 8 (bit_sub 25 1 instr)
  let aq : Nat := uint_t 8 (bit_sub 26 1 instr)
  let tu := if disass_enabled then
      let tu := tu.raw
        (line.print_disass pc "amomax.w"
          [((rd : Nat) : Int), ((rs1 : Nat) : Int), ((rs2 : Nat) : Int), ((aq : Nat) : Int), ((rl : Nat) : Int)])
      tu
    else tu
  let cur_pc_val := value.constant ((pc : Nat) : Int) (reg_bit_widths reg_e.PC)
  let pc := pc + 4
  let tu := tu.open_scope
  let r := tu.assignment (value.load (reg_e.X rs1) 0) 32
  let offs_val := r.1
  let tu := r.2
  let r := tu.assignment (value.ext (value.read_mem mem_type_e.MEM offs_val 32) 32 false) 32
  let res1_val := r.1
  let tu := r.2
  let tu := if rd ≠ 0 then
      let tu := tu.store res1_val (reg_e.X rd)
      tu
    else tu
  let r := tu.assignment
    (value.choose
      (value.icmp ICmpInst.ICMP_SLT
        (value.ext res1_val 32 false)
        (value.ext (value.load (reg_e.X rs2) 0) 32 false))
      (value.load (reg_e.X rs2) 0)
      res1_val)
    32
  let res2_val := r.1
  let tu := r.2
  let tu := tu.write_mem mem_type_e.MEM offs_val (value.trunc res2_val 32)
  let tu := tu.close_scope
  let tu := gen_set_pc tu pc reg_e.NEXT_PC
  let tu := gen_sync tu sync_type.POST_SYNC 16
  let tu := gen_trap_check tu
  handler_ret.mk continuation_e.CONT pc tu

/-- Source handler `__amominu_w` (instruction 17: AMOMINU.W). -/
def __amominu_w (disass_enabled : Bool) (pc : Nat) (instr : Nat) (tu : tu_builder) :
    handler_ret :=
  let tu := tu.raw (line.label "AMOMINU_W" pc)
  let tu := gen_sync tu sync_type.PRE_SYNC 17
  let rd : Nat := uint_t 8 (bit_sub 7 5 instr)
  let rs1 : Nat := uint_t 8 (bit_sub 15 5 instr)
  let rs2 : Nat := uint_t 8 (bit_sub 20 5 instr)
  let rl : Nat := uint_t 8 (bit_sub 25 1 instr)
  let aq : Nat := uint_t 8 (bit_sub 26 1 instr)
  let tu := if disass_enabled then
      let tu := tu.raw
        (line.print_disass pc "amominu.w"
          [((rd : Nat) : Int), ((rs1 : Nat) : Int), ((rs2 : Nat) : Int), ((aq : Nat) : Int), ((rl : Nat) : Int)])
      tu
    else tu
  let cur_pc_val := value.constant ((pc : Nat) : Int) (reg_bit_widths reg_e.PC)
  let pc := pc + 4
  let tu := tu.open_scope
  let r := tu.assignment (value.load (reg_e.X rs1) 0) 32
  let offs_val := r.1
  let tu := r.2
  let r := tu.assignment (value.ext (value.read_mem mem_type_e.MEM offs_val 32) 32 false) 32
  let res1_val := r.1
  let tu := r.2
  let tu := if rd ≠ 0 then
      let tu := tu.store res1_val (reg_e.X rd)
      tu
    else tu
  let r := tu.assignment
    (value.choose
      (value.icmp ICmpInst.ICMP_UGT res1_val (value.load (reg_e.X rs2) 0))
      (value.load (reg_e.X rs2) 0)
      res1_val)
    32
  let res2_val := r.1
  let tu := r.2
  let tu := tu.write_mem mem_type_e.MEM offs_val (value.trunc res2_val 32)
  let tu := tu.close_scope
  let tu := gen_set_pc tu pc reg_e.NEXT_PC
  let tu := gen_sync tu sync_type.POST_SYNC 17
  let tu := gen_trap_check tu
  handler_ret.mk continuation_e.CONT pc tu

/-- Source handler `__amomaxu_w` (instruction 18: AMOMAXU.W). -/
def __amomaxu_w (disass_enabled : Bool) (pc : Nat) (instr : Nat) (tu : tu_builder) :
    handler_ret :=
  let tu := tu.raw (line.label "AMOMAXU_W" pc)
  let tu := gen_sync tu sync_type.PRE_SYNC 18
  let rd : Nat := uint_t 8 (bit_sub 7 5 instr)
  let rs1 : Nat := uint_t 8 (bit_sub 15 5 instr)
  let rs2 : Nat := uint_t 8 (bit_sub 20 5 instr)
  let rl : Nat := uint_t 8 (bit_sub 25 1 instr)
  let aq : Nat := uint_t 8 (bit_sub 26 1 instr)
  let tu := if disass_enabled then
      let tu := tu.raw
        (line.print_disass pc "amomaxu.w"
          [((rd : Nat) : Int), ((rs1 : Nat) : Int), ((rs2 : Nat) : Int), ((aq : Nat) : Int), ((rl : Nat) : Int)])
      tu
    else tu
  let cur_pc_val := value.constant ((pc : Nat) : Int) (reg_bit_widths reg_e.PC)
  let pc := pc + 4
  let tu := tu.open_scope
  let r := tu.assignment (value.load (reg_e.X rs1) 0) 32
  let offs_val := r.1
  let tu := r.2
  let r := tu.assignment (value.ext (value.read_mem mem_type_e.MEM offs_val 32) 32 false) 32
  let res1_val := r.1
  let tu := r.2
  let tu := if rd ≠ 0 then
      let tu := tu.store res1_val (reg_e.X rd)
      tu
    else tu
  let r := tu.assignment
    (value.choose
      (value.icmp ICmpInst.ICMP_ULT res1_val (value.load (reg_e.X rs2) 0))
      (value.load (reg_e.X rs2) 0)
      res1_val)
    32
  let res2_val := r.1
  let tu := r.2
  let tu := tu.write_mem mem_type_e.MEM offs_val (value.trunc res2_val 32)
  let tu := tu.close_scope
  let tu := gen_set_pc tu pc reg_e.NEXT_PC
  let tu := gen_sync tu sync_type.POST_SYNC 18
  let tu := gen_trap_check tu
  handler_ret.mk continuation_e.CONT pc tu

/-- Source handler `__lui` (instruction 19: LUI). -/
def __lui (disass_enabled : Bool) (pc : Nat) (instr : Nat) (tu : tu_builder) :
    handler_ret :=
  let tu := tu.raw (line.label "LUI" pc)
  let tu := gen_sync tu sync_type.PRE_SYNC 19
  let rd : Nat := uint_t 8 (bit_sub 7 5 instr)
  let imm : Int := signextend 32 32 ((bit_sub 12 20 instr) <<< 12)
  let tu := if disass_enabled then
      let tu := tu.raw (line.print_disass pc "lui" [((rd : Nat) : Int), imm])
      tu
    else tu
  let cur_pc_val := value.constant ((pc : Nat) : Int) (reg_bit_widths reg_e.PC)
  let pc := pc + 4
  let tu := tu.open_scope
  let tu := if rd ≠ 0 then
      let tu := tu.store (value.constant imm 32) (reg_e.X rd)
      tu
    else tu
  let tu := tu.close_scope
  let tu := gen_set_pc tu pc reg_e.NEXT_PC
  let tu := gen_sync tu sync_type.POST_SYNC 19
  let tu := gen_trap_check tu
  handler_ret.mk continuation_e.CONT pc tu

/-- Source handler `__auipc` (instruction 20: AUIPC). -/
def __auipc (disass_enabled : Bool) (pc : Nat) (instr : Nat) (tu : tu_builder) :
    handler_ret :=
  let tu := tu.raw (line.label "AUIPC" pc)
  let tu := gen_sync tu sync_type.PRE_SYNC 20
  let rd : Nat := uint_t 8 (bit_sub 7 5 instr)
  let imm : Int := signextend 32 32 ((bit_sub 12 20 instr) <<< 12)
  let tu := if disass_enabled then
      let tu := tu.raw (line.print_disass pc "auipc" [((rd : Nat) : Int), imm])
      tu
    else tu
  let cur_pc_val := value.constant ((pc : Nat) : Int) (reg_bit_widths reg_e.PC)
  let pc := pc + 4
  let tu := tu.open_scope
  let tu := if rd ≠ 0 then
      let tu := tu.store
        (value.add (value.ext cur_pc_val 32 false) (value.constant imm 32))
        (reg_e.X rd)
      tu
    else tu
  let tu := tu.close_scope
  let tu := gen_set_pc tu pc reg_e.NEXT_PC
  let tu := gen_sync tu sync_type.POST_SYNC 20
  let tu := gen_trap_check tu
  handler_ret.mk continuation_e.CONT pc tu

/-- Source handler `__jal` (instruction 21: JAL). -/
def __jal (disass_enabled : Bool) (pc : Nat) (instr : Nat) (tu : tu_builder) :
    handler_ret :=
  let tu := tu.raw (line.label "JAL" pc)
  let tu := gen_sync tu sync_type.PRE_SYNC 21
  let rd : Nat := uint_t 8 (bit_sub 7 5 instr)
  let imm : Int := signextend 32 21
    (((((bit_sub 12 8 instr) <<< 12) ||| ((bit_sub 20 1 instr) <<< 11)) ||| ((bit_sub 21 10 instr) <<< 1))
      |||
      ((bit_sub 31 1 instr) <<< 20))
  let tu := if disass_enabled then
      let tu := tu.raw (line.print_disass pc "jal" [((rd : Nat) : Int), imm])
      tu
    else tu
  let cur_pc_val := value.constant ((pc : Nat) : Int) (reg_bit_widths reg_e.PC)
  let pc := pc + 4
  let tu := tu.open_scope
  let tu := if rd ≠ 0 then
      let tu := tu.store (value.add cur_pc_val (value.constant 4 32)) (reg_e.X rd)
      tu
    else tu
  let r := tu.assignment_named "PC_val"
    (value.add (value.ext cur_pc_val 32 false) (value.constant imm 32))
    32
  let PC_val_v := r.1
  let tu := r.2
  let tu := tu.store PC_val_v reg_e.NEXT_PC
  let is_cont_v := value.choose
    (value.icmp ICmpInst.ICMP_NE
      (value.ext PC_val_v 32 true)
      (value.constant ((pc : Nat) : Int) 32))
    (value.constant 0 32)
    (value.constant 1 32)
  let tu := tu.store is_cont_v reg_e.LAST_BRANCH
  let tu := tu.close_scope
  let tu := gen_sync tu sync_type.POST_SYNC 21
  let tu := gen_trap_check tu
  handler_ret.mk continuation_e.BRANCH pc tu

/-- Source handler `__beq` (instruction 22: BEQ). -/
def __beq (disass_enabled : Bool) (pc : Nat) (instr : Nat) (tu : tu_builder) :
    handler_ret :=
  let tu := tu.raw (line.label "BEQ" pc)
  let tu := gen_sync tu sync_type.PRE_SYNC 22
  let imm : Int := signextend 16 13
    (((((bit_sub 7 1 instr) <<< 11) ||| ((bit_sub 8 4 instr) <<< 1)) ||| ((bit_sub 25 6 instr) <<< 5))
      |||
      ((bit_sub 31 1 instr) <<< 12))
  let rs1 : Nat := uint_t 8 (bit_sub 15 5 instr)
  let rs2 : Nat := uint_t 8 (bit_sub 20 5 instr)
  let tu := if disass_enabled then
      let tu := tu.raw
        (line.print_disass pc "beq" [((rs1 : Nat) : Int), ((rs2 : Nat) : Int), imm])
      tu
    else tu
  let cur_pc_val := value.constant ((pc : Nat) : Int) (reg_bit_widths reg_e.PC)
  let pc := pc + 4
  let tu := tu.open_scope
  let r := tu.assignment_named "PC_val"
    (value.choose
      (value.icmp ICmpInst.ICMP_EQ (value.load (reg_e.X rs1) 0) (value.load (reg_e.X rs2) 0))
      (value.add (value.ext cur_pc_val 32 false) (value.constant imm 32))
      (value.add cur_pc_val (value.constant 4 32)))
    32
  let PC_val_v := r.1
  let tu := r.2
  let tu := tu.store PC_val_v reg_e.NEXT_PC
  let is_cont_v := value.choose
    (value.icmp ICmpInst.ICMP_NE
      (value.ext PC_val_v 32 true)
      (value.constant ((pc : Nat) : Int) 32))
    (value.constant 0 32)
    (value.constant 1 32)
  let tu := tu.store is_cont_v reg_e.LAST_BRANCH
  let tu := tu.close_scope
  let tu := gen_sync tu sync_type.POST_SYNC 22
  let tu := gen_trap_check tu
  handler_ret.mk continuation_e.BRANCH pc tu

/-- Source handler `__bne` (instruction 23: BNE). -/
def __bne (disass_enabled : Bool) (pc : Nat) (instr : Nat) (tu : tu_builder) :
    handler_ret :=
  let tu := tu.raw (line.label "BNE" pc)
  let tu := gen_sync tu sync_type.PRE_SYNC 23
  let imm : Int := signextend 16 13
    (((((bit_sub 7 1 instr) <<< 11) ||| ((bit_sub 8 4 instr) <<< 1)) ||| ((bit_sub 25 6 instr) <<< 5))
      |||
      ((bit_sub 31 1 instr) <<< 12))
  let rs1 : Nat := uint_t 8 (bit_sub 15 5 instr)
  let rs2 : Nat := uint_t 8 (bit_sub 20 5 instr)
  let tu := if disass_enabled then
      let tu := tu.raw
        (line.print_disass pc "bne" [((rs1 : Nat) : Int), ((rs2 : Nat) : Int), imm])
      tu
    else tu
  let cur_pc_val := value.constant ((pc : Nat) : Int) (reg_bit_widths reg_e.PC)
  let pc := pc + 4
  let tu := tu.open_scope
  let r := tu.assignment_named "PC_val"
    (value.choose
      (value.icmp ICmpInst.ICMP_NE (value.load (reg_e.X rs1) 0) (value.load (reg_e.X rs2) 0))
      (value.add (value.ext cur_pc_val 32 false) (value.constant imm 32))
      (value.add cur_pc_val (value.constant 4 32)))
    32
  let PC_val_v := r.1
  let tu := r.2
  let tu := tu.store PC_val_v reg_e.NEXT_PC
  let is_cont_v := value.choose
    (value.icmp ICmpInst.ICMP_NE
      (value.ext PC_val_v 32 true)
      (value.constant ((pc : Nat) : Int) 32))
    (value.constant 0 32)
    (value.constant 1 32)
  let tu := tu.store is_cont_v reg_e.LAST_BRANCH
  let tu := tu.close_scope
  let tu := gen_sync tu sync_type.POST_SYNC 23
  let tu := gen_trap_check tu
  handler_ret.mk continuation_e.BRANCH pc tu

/-- Source handler `__blt` (instruction 24: BLT). -/
def __blt (disass_enabled : Bool) (pc : Nat) (instr : Nat) (tu : tu_builder) :
    handler_ret :=
  let tu := tu.raw (line.label "BLT" pc)
  let tu := gen_sync tu sync_type.PRE_SYNC 24
  let imm : Int := signextend 16 13
    (((((bit_sub 7 1 instr) <<< 11) ||| ((bit_sub 8 4 instr) <<< 1)) ||| ((bit_sub 25 6 instr) <<< 5))
      |||
      ((bit_sub 31 1 instr) <<< 12))
  let rs1 : Nat := uint_t 8 (bit_sub 15 5 instr)
  let rs2 : Nat := uint_t 8 (bit_sub 20 5 instr)
  let tu := if disass_enabled then
      let tu := tu.raw
        (line.print_disass pc "blt" [((rs1 : Nat) : Int), ((rs2 : Nat) : Int), imm])
      tu
    else tu
  let cur_pc_val := value.constant ((pc : Nat) : Int) (reg_bit_widths reg_e.PC)
  let pc := pc + 4
  let tu := tu.open_scope
  let r := tu.assignment_named "PC_val"
    (value.choose
      (value.icmp ICmpInst.ICMP_SLT
        (value.ext (value.load (reg_e.X rs1) 0) 32 false)
        (value.ext (value.load (reg_e.X rs2) 0) 32 false))
      (value.add (value.ext cur_pc_val 32 false) (value.constant imm 32))
      (value.add cur_pc_val (value.constant 4 32)))
    32
  let PC_val_v := r.1
  let tu := r.2
  let tu := tu.store PC_val_v reg_e.NEXT_PC
  let is_cont_v := value.choose
    (value.icmp ICmpInst.ICMP_NE
      (value.ext PC_val_v 32 true)
      (value.constant ((pc : Nat) : Int) 32))
    (value.constant 0 32)
    (value.constant 1 32)
  let tu := tu.store is_cont_v reg_e.LAST_BRANCH
  let tu := tu.close_scope
  let tu := gen_sync tu sync_type.POST_SYNC 24
  let tu := gen_trap_check tu
  handler_ret.mk continuation_e.BRANCH pc tu

/-- Source handler `__bge` (instruction 25: BGE). -/
def __bge (disass_enabled : Bool) (pc : Nat) (instr : Nat) (tu : tu_builder) :
    handler_ret :=
  let tu := tu.raw (line.label "BGE" pc)
  let tu := gen_sync tu sync_type.PRE_SYNC 25
  let imm : Int := signextend 16 13
    (((((bit_sub 7 1 instr) <<< 11) ||| ((bit_sub 8 4 instr) <<< 1)) ||| ((bit_sub 25 6 instr) <<< 5))
      |||
      ((bit_sub 31 1 instr) <<< 12))
  let rs1 : Nat := uint_t 8 (bit_sub 15 5 instr)
  let rs2 : Nat := uint_t 8 (bit_sub 20 5 instr)
  let tu := if disass_enabled then
      let tu := tu.raw
        (line.print_disass pc "bge" [((rs1 : Nat) : Int), ((rs2 : Nat) : Int), imm])
      tu
    else tu
  let cur_pc_val := value.constant ((pc : Nat) : Int) (reg_bit_widths reg_e.PC)
  let pc := pc + 4
  let tu := tu.open_scope
  let r := tu.assignment_named "PC_val"
    (value.choose
      (value.icmp ICmpInst.ICMP_SGE
        (value.ext (value.load (reg_e.X rs1) 0) 32 false)
        (value.ext (value.load (reg_e.X rs2) 0) 32 false))
      (value.add (value.ext cur_pc_val 32 false) (value.constant imm 32))
      (value.add cur_pc_val (value.constant 4 32)))
    32
  let PC_val_v := r.1
  let tu := r.2
  let tu := tu.store PC_val_v reg_e.NEXT_PC
  let is_cont_v := value.choose
    (value.icmp ICmpInst.ICMP_NE
      (value.ext PC_val_v 32 true)
      (value.constant ((pc : Nat) : Int) 32))
    (value.constant 0 32)
    (value.constant 1 32)
  let tu := tu.store is_cont_v reg_e.LAST_BRANCH
  let tu := tu.close_scope
  let tu := gen_sync tu sync_type.POST_SYNC 25
  let tu := gen_trap_check tu
  handler_ret.mk continuation_e.BRANCH pc tu

/-- Source handler `__bltu` (instruction 26: BLTU). -/
def __bltu (disass_enabled : Bool) (pc : Nat) (instr : Nat) (tu : tu_builder) :
    handler_ret :=
  let tu := tu.raw (line.label "BLTU" pc)
  let tu := gen_sync tu sync_type.PRE_SYNC 26
  let imm : Int := signextend 16 13
    (((((bit_sub 7 1 instr) <<< 11) ||| ((bit_sub 8 4 instr) <<< 1)) ||| ((bit_sub 25 6 instr) <<< 5))
      |||
      ((bit_sub 31 1 instr) <<< 12))
  let rs1 : Nat := uint_t 8 (bit_sub 15 5 instr)
  let rs2 : Nat := uint_t 8 (bit_sub 20 5 instr)
  let tu := if disass_enabled then
      let tu := tu.raw
        (line.print_disass pc "bltu" [((rs1 : Nat) : Int), ((rs2 : Nat) : Int), imm])
      tu
    else tu
  let cur_pc_val := value.constant ((pc : Nat) : Int) (reg_bit_widths reg_e.PC)
  let pc := pc + 4
  let tu := tu.open_scope
  let r := tu.assignment_named "PC_val"
    (value.choose
      (value.icmp ICmpInst.ICMP_ULT (value.load (reg_e.X rs1) 0) (value.load (reg_e.X rs2) 0))
      (value.add (value.ext cur_pc_val 32 false) (value.constant imm 32))
      (value.add cur_pc_val (value.constant 4 32)))
    32
  let PC_val_v := r.1
  let tu := r.2
  let tu := tu.store PC_val_v reg_e.NEXT_PC
  let is_cont_v := value.choose
    (value.icmp ICmpInst.ICMP_NE
      (value.ext PC_val_v 32 true)
      (value.constant ((pc : Nat) : Int) 32))
    (value.constant 0 32)
    (value.constant 1 32)
  let tu := tu.store is_cont_v reg_e.LAST_BRANCH
  let tu := tu.close_scope
  let tu := gen_sync tu sync_type.POST_SYNC 26
  let tu := gen_trap_check tu
  handler_ret.mk continuation_e.BRANCH pc tu

/-- Source handler `__bgeu` (instruction 27: BGEU). -/
def __bgeu (disass_enabled : Bool) (pc : Nat) (instr : Nat) (tu : tu_builder) :
    handler_ret :=
  let tu := tu.raw (line.label "BGEU" pc)
  let tu := gen_sync tu sync_type.PRE_SYNC 27
  let imm : Int := signextend 16 13
    (((((bit_sub 7 1 instr) <<< 11) ||| ((bit_sub 8 4 instr) <<< 1)) ||| ((bit_sub 25 6 instr) <<< 5))
      |||
      ((bit_sub 31 1 instr) <<< 12))
  let rs1 : Nat := uint_t 8 (bit_sub 15 5 instr)
  let rs2 : Nat := uint_t 8 (bit_sub 20 5 instr)
  let tu := if disass_enabled then
      let tu := tu.raw
        (line.print_disass pc "bgeu" [((rs1 : Nat) : Int), ((rs2 : Nat) : Int), imm])
      tu
    else tu
  let cur_pc_val := value.constant ((pc : Nat) : Int) (reg_bit_widths reg_e.PC)
  let pc := pc + 4
  let tu := tu.open_scope
  let r := tu.assignment_named "PC_val"
    (value.choose
      (value.icmp ICmpInst.ICMP_UGE (value.load (reg_e.X rs1) 0) (value.load (reg_e.X rs2) 0))
      (value.add (value.ext cur_pc_val 32 false) (value.constant imm 32))
      (value.add cur_pc_val (value.constant 4 32)))
    32
  let PC_val_v := r.1
  let tu := r.2
  let tu := tu.store PC_val_v reg_e.NEXT_PC
  let is_cont_v := value.choose
    (value.icmp ICmpInst.ICMP_NE
      (value.ext PC_val_v 32 true)
      (value.constant ((pc : Nat) : Int) 32))
    (value.constant 0 32)
    (value.constant 1 32)
  let tu := tu.store is_cont_v reg_e.LAST_BRANCH
  let tu := tu.close_scope
  let tu := gen_sync tu sync_type.POST_SYNC 27
  let tu := gen_trap_check tu
  handler_ret.mk continuation_e.BRANCH pc tu

/-- Source handler `__lb` (instruction 28: LB). -/
def __lb (disass_enabled : Bool) (pc : Nat) (instr : Nat) (tu : tu_builder) :
    handler_ret :=
  let tu := tu.raw (line.label "LB" pc)
  let tu := gen_sync tu sync_type.PRE_SYNC 28
  let rd : Nat := uint_t 8 (bit_sub 7 5 instr)
  let rs1 : Nat := uint_t 8 (bit_sub 15 5 instr)
  let imm : Int := signextend 16 12 (bit_sub 20 12 instr)
  let tu := if disass_enabled then
      let tu := tu.raw (line.print_disass pc "lb" [((rd : Nat) : Int), imm, ((rs1 : Nat) : Int)])
      tu
    else tu
  let cur_pc_val := value.constant ((pc : Nat) : Int) (reg_bit_widths reg_e.PC)
  let pc := pc + 4
  let tu := tu.open_scope
  let r := tu.assignment
    (value.add (value.ext (value.load (reg_e.X rs1) 0) 32 false) (value.constant imm 32))
    32
  let offs_val := r.1
  let tu := r.2
  let tu := if rd ≠ 0 then
      let tu := tu.store
        (value.ext (value.read_mem mem_type_e.MEM offs_val 8) 32 false)
        (reg_e.X rd)
      tu
    else tu
  let tu := tu.close_scope
  let tu := gen_set_pc tu pc reg_e.NEXT_PC
  let tu := gen_sync tu sync_type.POST_SYNC 28
  let tu := gen_trap_check tu
  handler_ret.mk continuation_e.CONT pc tu

/-- Source handler `__lh` (instruction 29: LH). -/
def __lh (disass_enabled : Bool) (pc : Nat) (instr : Nat) (tu : tu_builder) :
    handler_ret :=
  let tu := tu.raw (line.label "LH" pc)
  let tu := gen_sync tu sync_type.PRE_SYNC 29
  let rd : Nat := uint_t 8 (bit_sub 7 5 instr)
  let rs1 : Nat := uint_t 8 (bit_sub 15 5 instr)
  let imm : Int := signextend 16 12 (bit_sub 20 12 instr)
  let tu := if disass_enabled then
      let tu := tu.raw (line.print_disass pc "lh" [((rd : Nat) : Int), imm, ((rs1 : Nat) : Int)])
      tu
    else tu
  let cur_pc_val := value.constant ((pc : Nat) : Int) (reg_bit_widths reg_e.PC)
  let pc := pc + 4
  let tu := tu.open_scope
  let r := tu.assignment
    (value.add (value.ext (value.load (reg_e.X rs1) 0) 32 false) (value.constant imm 32))
    32
  let offs_val := r.1
  let tu := r.2
  let tu := if rd ≠ 0 then
      let tu := tu.store
        (value.ext (value.read_mem mem_type_e.MEM offs_val 16) 32 false)
        (reg_e.X rd)
      tu
    else tu
  let tu := tu.close_scope
  let tu := gen_set_pc tu pc reg_e.NEXT_PC
  let tu := gen_sync tu sync_type.POST_SYNC 29
  let tu := gen_trap_check tu
  handler_ret.mk continuation_e.CONT pc tu

/-- Source handler `__lw` (instruction 30: LW). -/
def __lw (disass_enabled : Bool) (pc : Nat) (instr : Nat) (tu : tu_builder) :
    handler_ret :=
  let tu := tu.raw (line.label "LW" pc)
  let tu := gen_sync tu sync_type.PRE_SYNC 30
  let rd : Nat := uint_t 8 (bit_sub 7 5 instr)
  let rs1 : Nat := uint_t 8 (bit_sub 15 5 instr)
  let imm : Int := signextend 16 12 (bit_sub 20 12 instr)
  let tu := if disass_enabled then
      let tu := tu.raw (line.print_disass pc "lw" [((rd : Nat) : Int), imm, ((rs1 : Nat) : Int)])
      tu
    else tu
  let cur_pc_val := value.constant ((pc : Nat) : Int) (reg_bit_widths reg_e.PC)
  let pc := pc + 4
  let tu := tu.open_scope
  let r := tu.assignment
    (value.add (value.ext (value.load (reg_e.X rs1) 0) 32 false) (value.constant imm 32))
    32
  let offs_val := r.1
  let tu := r.2
  let tu := if rd ≠ 0 then
      let tu := tu.store
        (value.ext (value.read_mem mem_type_e.MEM offs_val 32) 32 false)
        (reg_e.X rd)
      tu
    else tu
  let tu := tu.close_scope
  let tu := gen_set_pc tu pc reg_e.NEXT_PC
  let tu := gen_sync tu sync_type.POST_SYNC 30
  let tu := gen_trap_check tu
  handler_ret.mk continuation_e.CONT pc tu

/-- Source handler `__lbu` (instruction 31: LBU). -/
def __lbu (disass_enabled : Bool) (pc : Nat) (instr : Nat) (tu : tu_builder) :
    handler_ret :=
  let tu := tu.raw (line.label "LBU" pc)
  let tu := gen_sync tu sync_type.PRE_SYNC 31
  let rd : Nat := uint_t 8 (bit_sub 7 5 instr)
  let rs1 : Nat := uint_t 8 (bit_sub 15 5 instr)
  let imm : Int := signextend 16 12 (bit_sub 20 12 instr)
  let tu := if disass_enabled then
      let tu := tu.raw (line.print_disass pc "lbu" [((rd : Nat) : Int), imm, ((rs1 : Nat) : Int)])
      tu
    else tu
  let cur_pc_val := value.constant ((pc : Nat) : Int) (reg_bit_widths reg_e.PC)
  let pc := pc + 4
  let tu := tu.open_scope
  let r := tu.assignment
    (value.add (value.ext (value.load (reg_e.X rs1) 0) 32 false) (value.constant imm 32))
    32
  let offs_val := r.1
  let tu := r.2
  let tu := if rd ≠ 0 then
      let tu := tu.store
        (value.ext (value.read_mem mem_type_e.MEM offs_val 8) 32 true)
        (reg_e.X rd)
      tu
    else tu
  let tu := tu.close_scope
  let tu := gen_set_pc tu pc reg_e.NEXT_PC
  let tu := gen_sync tu sync_type.POST_SYNC 31
  let tu := gen_trap_check tu
  handler_ret.mk continuation_e.CONT pc tu

/-- Source handler `__lhu` (instruction 32: LHU). -/
def __lhu (disass_enabled : Bool) (pc : Nat) (instr : Nat) (tu : tu_builder) :
    handler_ret :=
  let tu := tu.raw (line.label "LHU" pc)
  let tu := gen_sync tu sync_type.PRE_SYNC 32
  let rd : Nat := uint_t 8 (bit_sub 7 5 instr)
  let rs1 : Nat := uint_t 8 (bit_sub 15 5 instr)
  let imm : Int := signextend 16 12 (bit_sub 20 12 instr)
  let tu := if disass_enabled then
      let tu := tu.raw (line.print_disass pc "lhu" [((rd : Nat) : Int), imm, ((rs1 : Nat) : Int)])
      tu
    else tu
  let cur_pc_val := value.constant ((pc : Nat) : Int) (reg_bit_widths reg_e.PC)
  let pc := pc + 4
  let tu := tu.open_scope
  let r := tu.assignment
    (value.add (value.ext (value.load (reg_e.X rs1) 0) 32 false) (value.constant imm 32))
    32
  let offs_val := r.1
  let tu := r.2
  let tu := if rd ≠ 0 then
      let tu := tu.store
        (value.ext (value.read_mem mem_type_e.MEM offs_val 16) 32 true)
        (reg_e.X rd)
      tu
    else tu
  let tu := tu.close_scope
  let tu := gen_set_pc tu pc reg_e.NEXT_PC
  let tu := gen_sync tu sync_type.POST_SYNC 32
  let tu := gen_trap_check tu
  handler_ret.mk continuation_e.CONT pc tu

/-- Source handler `__sb` (instruction 33: SB). -/
def __sb (disass_enabled : Bool) (pc : Nat) (instr : Nat) (tu : tu_builder) :
    handler_ret :=
  let tu := tu.raw (line.label "SB" pc)
  let tu := gen_sync tu sync_type.PRE_SYNC 33
  let imm : Int := signextend 16 12 ((bit_sub 7 5 instr) ||| ((bit_sub 25 7 instr) <<< 5))
  let rs1 : Nat := uint_t 8 (bit_sub 15 5 instr)
  let rs2 : Nat := uint_t 8 (bit_sub 20 5 instr)
  let tu := if disass_enabled then
      let tu := tu.raw (line.print_disass pc "sb" [((rs2 : Nat) : Int), imm, ((rs1 : Nat) : Int)])
      tu
    else tu
  let cur_pc_val := value.constant ((pc : Nat) : Int) (reg_bit_widths reg_e.PC)
  let pc := pc + 4
  let tu := tu.open_scope
  let r := tu.assignment
    (value.add (value.ext (value.load (reg_e.X rs1) 0) 32 false) (value.constant imm 32))
    32
  let offs_val := r.1
  let tu := r.2
  let tu := tu.write_mem mem_type_e.MEM offs_val (value.trunc (value.load (reg_e.X rs2) 0) 8)
  let tu := tu.close_scope
  let tu := gen_set_pc tu pc reg_e.NEXT_PC
  let tu := gen_sync tu sync_type.POST_SYNC 33
  let tu := gen_trap_check tu
  handler_ret.mk continuation_e.CONT pc tu

/-- Source handler `__sh` (instruction 34: SH). -/
def __sh (disass_enabled : Bool) (pc : Nat) (instr : Nat) (tu : tu_builder) :
    handler_ret :=
  let tu := tu.raw (line.label "SH" pc)
  let tu := gen_sync tu sync_type.PRE_SYNC 34
  let imm : Int := signextend 16 12 ((bit_sub 7 5 instr) ||| ((bit_sub 25 7 instr) <<< 5))
  let rs1 : Nat := uint_t 8 (bit_sub 15 5 instr)
  let rs2 : Nat := uint_t 8 (bit_sub 20 5 instr)
  let tu := if disass_enabled then
      let tu := tu.raw (line.print_disass pc "sh" [((rs2 : Nat) : Int), imm, ((rs1 : Nat) : Int)])
      tu
    else tu
  let cur_pc_val := value.constant ((pc : Nat) : Int) (reg_bit_widths reg_e.PC)
  let pc := pc + 4
  let tu := tu.open_scope
  let r := tu.assignment
    (value.add (value.ext (value.load (reg_e.X rs1) 0) 32 false) (value.constant imm 32))
    32
  let offs_val := r.1
  let tu := r.2
  let tu := tu.write_mem mem_type_e.MEM offs_val (value.trunc (value.load (reg_e.X rs2) 0) 16)
  let tu := tu.close_scope
  let tu := gen_set_pc tu pc reg_e.NEXT_PC
  let tu := gen_sync tu sync_type.POST_SYNC 34
  let tu := gen_trap_check tu
  handler_ret.mk continuation_e.CONT pc tu

/-- Source handler `__sw` (instruction 35: SW). -/
def __sw (disass_enabled : Bool) (pc : Nat) (instr : Nat) (tu : tu_builder) :
    handler_ret :=
  let tu := tu.raw (line.label "SW" pc)
  let tu := gen_sync tu sync_type.PRE_SYNC 35
  let imm : Int := signextend 16 12 ((bit_sub 7 5 instr) ||| ((bit_sub 25 7 instr) <<< 5))
  let rs1 : Nat := uint_t 8 (bit_sub 15 5 instr)
  let rs2 : Nat := uint_t 8 (bit_sub 20 5 instr)
  let tu := if disass_enabled then
      let tu := tu.raw (line.print_disass pc "sw" [((rs2 : Nat) : Int), imm, ((rs1 : Nat) : Int)])
      tu
    else tu
  let cur_pc_val := value.constant ((pc : Nat) : Int) (reg_bit_widths reg_e.PC)
  let pc := pc + 4
  let tu := tu.open_scope
  let r := tu.assignment
    (value.add (value.ext (value.load (reg_e.X rs1) 0) 32 false) (value.constant imm 32))
    32
  let offs_val := r.1
  let tu := r.2
  let tu := tu.write_mem mem_type_e.MEM offs_val (value.trunc (value.load (reg_e.X rs2) 0) 32)
  let tu := tu.close_scope
  let tu := gen_set_pc tu pc reg_e.NEXT_PC
  let tu := gen_sync tu sync_type.POST_SYNC 35
  let tu := gen_trap_check tu
  handler_ret.mk continuation_e.CONT pc tu

/-- Source handler `__addi` (instruction 36: ADDI). -/
def __addi (disass_enabled : Bool) (pc : Nat) (instr : Nat) (tu : tu_builder) :
    handler_ret :=
  let tu := tu.raw (line.label "ADDI" pc)
  let tu := gen_sync tu sync_type.PRE_SYNC 36
  let rd : Nat := uint_t 8 (bit_sub 7 5 instr)
  let rs1 : Nat := uint_t 8 (bit_sub 15 5 instr)
  let imm : Int := signextend 16 12 (bit_sub 20 12 instr)
  let tu := if disass_enabled then
      let tu := tu.raw
        (line.print_disass pc "addi" [((rd : Nat) : Int), ((rs1 : Nat) : Int), imm])
      tu
    else tu
  let cur_pc_val := value.constant ((pc : Nat) : Int) (reg_bit_widths reg_e.PC)
  let pc := pc + 4
  let tu := tu.open_scope
  let tu := if rd ≠ 0 then
      let tu := tu.store
        (value.add (value.ext (value.load (reg_e.X rs1) 0) 32 false) (value.constant imm 32))
        (reg_e.X rd)
      tu
    else tu
  let tu := tu.close_scope
  let tu := gen_set_pc tu pc reg_e.NEXT_PC
  let tu := gen_sync tu sync_type.POST_SYNC 36
  let tu := gen_trap_check tu
  handler_ret.mk continuation_e.CONT pc tu

/-- Source handler `__slti` (instruction 37: SLTI). -/
def __slti (disass_enabled : Bool) (pc : Nat) (instr : Nat) (tu : tu_builder) :
    handler_ret :=
  let tu := tu.raw (line.label "SLTI" pc)
  let tu := gen_sync tu sync_type.PRE_SYNC 37
  let rd : Nat := uint_t 8 (bit_sub 7 5 instr)
  let rs1 : Nat := uint_t 8 (bit_sub 15 5 instr)
  let imm : Int := signextend 16 12 (bit_sub 20 12 instr)
  let tu := if disass_enabled then
      let tu := tu.raw
        (line.print_disass pc "slti" [((rd : Nat) : Int), ((rs1 : Nat) : Int), imm])
      tu
    else tu
  let cur_pc_val := value.constant ((pc : Nat) : Int) (reg_bit_widths reg_e.PC)
  let pc := pc + 4
  let tu := tu.open_scope
  let tu := if rd ≠ 0 then
      let tu := tu.store
        (value.choose
          (value.icmp ICmpInst.ICMP_SLT
            (value.ext (value.load (reg_e.X rs1) 0) 32 false)
            (value.constant imm 32))
          (value.constant 1 32)
          (value.constant 0 32))
        (reg_e.X rd)
      tu
    else tu
  let tu := tu.close_scope
  let tu := gen_set_pc tu pc reg_e.NEXT_PC
  let tu := gen_sync tu sync_type.POST_SYNC 37
  let tu := gen_trap_check tu
  handler_ret.mk continuation_e.CONT pc tu

/-- Source handler `__sltiu` (instruction 38: SLTIU). -/
def __sltiu (disass_enabled : Bool) (pc : Nat) (instr : Nat) (tu : tu_builder) :
    handler_ret :=
  let tu := tu.raw (line.label "SLTIU" pc)
  let tu := gen_sync tu sync_type.PRE_SYNC 38
  let rd : Nat := uint_t 8 (bit_sub 7 5 instr)
  let rs1 : Nat := uint_t 8 (bit_sub 15 5 instr)
  let imm : Int := signextend 16 12 (bit_sub 20 12 instr)
  let tu := if disass_enabled then
      let tu := tu.raw
        (line.print_disass pc "sltiu" [((rd : Nat) : Int), ((rs1 : Nat) : Int), imm])
      tu
    else tu
  let cur_pc_val := value.constant ((pc : Nat) : Int) (reg_bit_widths reg_e.PC)
  let pc := pc + 4
  let tu := tu.open_scope
  let full_imm_val : Int := int_t 32 imm
  let tu := if rd ≠ 0 then
      let tu := tu.store
        (value.choose
          (value.icmp ICmpInst.ICMP_ULT
            (value.load (reg_e.X rs1) 0)
            (value.constant full_imm_val 32))
          (value.constant 1 32)
          (value.constant 0 32))
        (reg_e.X rd)
      tu
    else tu
  let tu := tu.close_scope
  let tu := gen_set_pc tu pc reg_e.NEXT_PC
  let tu := gen_sync tu sync_type.POST_SYNC 38
  let tu := gen_trap_check tu
  handler_ret.mk continuation_e.CONT pc tu

/-- Source handler `__xori` (instruction 39: XORI). -/
def __xori (disass_enabled : Bool) (pc : Nat) (instr : Nat) (tu : tu_builder) :
    handler_ret :=
  let tu := tu.raw (line.label "XORI" pc)
  let tu := gen_sync tu sync_type.PRE_SYNC 39
  let rd : Nat := uint_t 8 (bit_sub 7 5 instr)
  let rs1 : Nat := uint_t 8 (bit_sub 15 5 instr)
  let imm : Int := signextend 16 12 (bit_sub 20 12 instr)
  let tu := if disass_enabled then
      let tu := tu.raw
        (line.print_disass pc "xori" [((rd : Nat) : Int), ((rs1 : Nat) : Int), imm])
      tu
    else tu
  let cur_pc_val := value.constant ((pc : Nat) : Int) (reg_bit_widths reg_e.PC)
  let pc := pc + 4
  let tu := tu.open_scope
  let tu := if rd ≠ 0 then
      let tu := tu.store
        (value.l_xor (value.ext (value.load (reg_e.X rs1) 0) 32 false) (value.constant imm 32))
        (reg_e.X rd)
      tu
    else tu
  let tu := tu.close_scope
  let tu := gen_set_pc tu pc reg_e.NEXT_PC
  let tu := gen_sync tu sync_type.POST_SYNC 39
  let tu := gen_trap_check tu
  handler_ret.mk continuation_e.CONT pc tu

/-- Source handler `__ori` (instruction 40: ORI). -/
def __ori (disass_enabled : Bool) (pc : Nat) (instr : Nat) (tu : tu_builder) :
    handler_ret :=
  let tu := tu.raw (line.label "ORI" pc)
  let tu := gen_sync tu sync_type.PRE_SYNC 40
  let rd : Nat := uint_t 8 (bit_sub 7 5 instr)
  let rs1 : Nat := uint_t 8 (bit_sub 15 5 instr)
  let imm : Int := signextend 16 12 (bit_sub 20 12 instr)
  let tu := if disass_enabled then
      let tu := tu.raw (line.print_disass pc "ori" [((rd : Nat) : Int), ((rs1 : Nat) : Int), imm])
      tu
    else tu
  let cur_pc_val := value.constant ((pc : Nat) : Int) (reg_bit_widths reg_e.PC)
  let pc := pc + 4
  let tu := tu.open_scope
  let tu := if rd ≠ 0 then
      let tu := tu.store
        (value.l_or (value.ext (value.load (reg_e.X rs1) 0) 32 false) (value.constant imm 32))
        (reg_e.X rd)
      tu
    else tu
  let tu := tu.close_scope
  let tu := gen_set_pc tu pc reg_e.NEXT_PC
  let tu := gen_sync tu sync_type.POST_SYNC 40
  let tu := gen_trap_check tu
  handler_ret.mk continuation_e.CONT pc tu

/-- Source handler `__andi` (instruction 41: ANDI). -/
def __andi (disass_enabled : Bool) (pc : Nat) (instr : Nat) (tu : tu_builder) :
    handler_ret :=
  let tu := tu.raw (line.label "ANDI" pc)
  let tu := gen_sync tu sync_type.PRE_SYNC 41
  let rd : Nat := uint_t 8 (bit_sub 7 5 instr)
  let rs1 : Nat := uint_t 8 (bit_sub 15 5 instr)
  let imm : Int := signextend 16 12 (bit_sub 20 12 instr)
  let tu := if disass_enabled then
      let tu := tu.raw
        (line.print_disass pc "andi" [((rd : Nat) : Int), ((rs1 : Nat) : Int), imm])
      tu
    else tu
  let cur_pc_val := value.constant ((pc : Nat) : Int) (reg_bit_widths reg_e.PC)
  let pc := pc + 4
  let tu := tu.open_scope
  let tu := if rd ≠ 0 then
      let tu := tu.store
        (value.l_and (value.ext (value.load (reg_e.X rs1) 0) 32 false) (value.constant imm 32))
        (reg_e.X rd)
      tu
    else tu
  let tu := tu.close_scope
  let tu := gen_set_pc tu pc reg_e.NEXT_PC
  let tu := gen_sync tu sync_type.POST_SYNC 41
  let tu := gen_trap_check tu
  handler_ret.mk continuation_e.CONT pc tu

/-- Source handler `__slli` (instruction 42: SLLI). -/
def __slli (disass_enabled : Bool) (pc : Nat) (instr : Nat) (tu : tu_builder) :
    handler_ret :=
  let tu := tu.raw (line.label "SLLI" pc)
  let tu := gen_sync tu sync_type.PRE_SYNC 42
  let rd : Nat := uint_t 8 (bit_sub 7 5 instr)
  let rs1 : Nat := uint_t 8 (bit_sub 15 5 instr)
  let shamt : Nat := uint_t 8 (bit_sub 20 5 instr)
  let tu := if disass_enabled then
      let tu := tu.raw
        (line.print_disass pc "slli"
          [((rd : Nat) : Int), ((rs1 : Nat) : Int), ((shamt : Nat) : Int)])
      tu
    else tu
  let cur_pc_val := value.constant ((pc : Nat) : Int) (reg_bit_widths reg_e.PC)
  let pc := pc + 4
  let tu := tu.open_scope
  let tu := if shamt > 31 then
      let tu := gen_raise_trap tu 0 0
      tu
    else
      let tu := if rd ≠ 0 then
          let tu := tu.store
            (value.shl (value.load (reg_e.X rs1) 0) (value.constant ((shamt : Nat) : Int) 32))
            (reg_e.X rd)
          tu
        else tu
      tu
  let tu := tu.close_scope
  let tu := gen_set_pc tu pc reg_e.NEXT_PC
  let tu := gen_sync tu sync_type.POST_SYNC 42
  let tu := gen_trap_check tu
  handler_ret.mk continuation_e.CONT pc tu

/-- Source handler `__srli` (instruction 43: SRLI). -/
def __srli (disass_enabled : Bool) (pc : Nat) (instr : Nat) (tu : tu_builder) :
    handler_ret :=
  let tu := tu.raw (line.label "SRLI" pc)
  let tu := gen_sync tu sync_type.PRE_SYNC 43
  let rd : Nat := uint_t 8 (bit_sub 7 5 instr)
  let rs1 : Nat := uint_t 8 (bit_sub 15 5 instr)
  let shamt : Nat := uint_t 8 (bit_sub 20 5 instr)
  let tu := if disass_enabled then
      let tu := tu.raw
        (line.print_disass pc "srli"
          [((rd : Nat) : Int), ((rs1 : Nat) : Int), ((shamt : Nat) : Int)])
      tu
    else tu
  let cur_pc_val := value.constant ((pc : Nat) : Int) (reg_bit_widths reg_e.PC)
  let pc := pc + 4
  let tu := tu.open_scope
  let tu := if shamt > 31 then
      let tu := gen_raise_trap tu 0 0
      tu
    else
      let tu := if rd ≠ 0 then
          let tu := tu.store
            (value.lshr (value.load (reg_e.X rs1) 0) (value.constant ((shamt : Nat) : Int) 32))
            (reg_e.X rd)
          tu
        else tu
      tu
  let tu := tu.close_scope
  let tu := gen_set_pc tu pc reg_e.NEXT_PC
  let tu := gen_sync tu sync_type.POST_SYNC 43
  let tu := gen_trap_check tu
  handler_ret.mk continuation_e.CONT pc tu

/-- Source handler `__srai` (instruction 44: SRAI). -/
def __srai (disass_enabled : Bool) (pc : Nat) (instr : Nat) (tu : tu_builder) :
    handler_ret :=
  let tu := tu.raw (line.label "SRAI" pc)
  let tu := gen_sync tu sync_type.PRE_SYNC 44
  let rd : Nat := uint_t 8 (bit_sub 7 5 instr)
  let rs1 : Nat := uint_t 8 (bit_sub 15 5 instr)
  let shamt : Nat := uint_t 8 (bit_sub 20 5 instr)
  let tu := if disass_enabled then
      let tu := tu.raw
        (line.print_disass pc "srai"
          [((rd : Nat) : Int), ((rs1 : Nat) : Int), ((shamt : Nat) : Int)])
      tu
    else tu
  let cur_pc_val := value.constant ((pc : Nat) : Int) (reg_bit_widths reg_e.PC)
  let pc := pc + 4
  let tu := tu.open_scope
  let tu := if shamt > 31 then
      let tu := gen_raise_trap tu 0 0
      tu
    else
      let tu := if rd ≠ 0 then
          let tu := tu.store
            (value.ashr (value.load (reg_e.X rs1) 0) (value.constant ((shamt : Nat) : Int) 32))
            (reg_e.X rd)
          tu
        else tu
      tu
  let tu := tu.close_scope
  let tu := gen_set_pc tu pc reg_e.NEXT_PC
  let tu := gen_sync tu sync_type.POST_SYNC 44
  let tu := gen_trap_check tu
  handler_ret.mk continuation_e.CONT pc tu

/-- Source handler `__add` (instruction 45: ADD). -/
def __add (disass_enabled : Bool) (pc : Nat) (instr : Nat) (tu : tu_builder) :
    handler_ret :=
  let tu := tu.raw (line.label "ADD" pc)
  let tu := gen_sync tu sync_type.PRE_SYNC 45
  let rd : Nat := uint_t 8 (bit_sub 7 5 instr)
  let rs1 : Nat := uint_t 8 (bit_sub 15 5 instr)
  let rs2 : Nat := uint_t 8 (bit_sub 20 5 instr)
  let tu := if disass_enabled then
      let tu := tu.raw
        (line.print_disass pc "add" [((rd : Nat) : Int), ((rs1 : Nat) : Int), ((rs2 : Nat) : Int)])
      tu
    else tu
  let cur_pc_val := value.constant ((pc : Nat) : Int) (reg_bit_widths reg_e.PC)
  let pc := pc + 4
  let tu := tu.open_scope
  let tu := if rd ≠ 0 then
      let tu := tu.store
        (value.add (value.load (reg_e.X rs1) 0) (value.load (reg_e.X rs2) 0))
        (reg_e.X rd)
      tu
    else tu
  let tu := tu.close_scope
  let tu := gen_set_pc tu pc reg_e.NEXT_PC
  let tu := gen_sync tu sync_type.POST_SYNC 45
  let tu := gen_trap_check tu
  handler_ret.mk continuation_e.CONT pc tu

/-- Source handler `__sub` (instruction 46: SUB). -/
def __sub (disass_enabled : Bool) (pc : Nat) (instr : Nat) (tu : tu_builder) :
    handler_ret :=
  let tu := tu.raw (line.label "SUB" pc)
  let tu := gen_sync tu sync_type.PRE_SYNC 46
  let rd : Nat := uint_t 8 (bit_sub 7 5 instr)
  let rs1 : Nat := uint_t 8 (bit_sub 15 5 instr)
  let rs2 : Nat := uint_t 8 (bit_sub 20 5 instr)
  let tu := if disass_enabled then
      let tu := tu.raw
        (line.print_disass pc "sub" [((rd : Nat) : Int), ((rs1 : Nat) : Int), ((rs2 : Nat) : Int)])
      tu
    else tu
  let cur_pc_val := value.constant ((pc : Nat) : Int) (reg_bit_widths reg_e.PC)
  let pc := pc + 4
  let tu := tu.open_scope
  let tu := if rd ≠ 0 then
      let tu := tu.store
        (value.sub (value.load (reg_e.X rs1) 0) (value.load (reg_e.X rs2) 0))
        (reg_e.X rd)
      tu
    else tu
  let tu := tu.close_scope
  let tu := gen_set_pc tu pc reg_e.NEXT_PC
  let tu := gen_sync tu sync_type.POST_SYNC 46
  let tu := gen_trap_check tu
  handler_ret.mk continuation_e.CONT pc tu

/-- Source handler `__sll` (instruction 47: SLL). -/
def __sll (disass_enabled : Bool) (pc : Nat) (instr : Nat) (tu : tu_builder) :
    handler_ret :=
  let tu := tu.raw (line.label "SLL" pc)
  let tu := gen_sync tu sync_type.PRE_SYNC 47
  let rd : Nat := uint_t 8 (bit_sub 7 5 instr)
  let rs1 : Nat := uint_t 8 (bit_sub 15 5 instr)
  let rs2 : Nat := uint_t 8 (bit_sub 20 5 instr)
  let tu := if disass_enabled then
      let tu := tu.raw
        (line.print_disass pc "sll" [((rd : Nat) : Int), ((rs1 : Nat) : Int), ((rs2 : Nat) : Int)])
      tu
    else tu
  let cur_pc_val := value.constant ((pc : Nat) : Int) (reg_bit_widths reg_e.PC)
  let pc := pc + 4
  let tu := tu.open_scope
  let tu := if rd ≠ 0 then
      let tu := tu.store
        (value.shl
          (value.load (reg_e.X rs1) 0)
          (value.l_and
            (value.load (reg_e.X rs2) 0)
            (value.sub (value.constant 32 32) (value.constant 1 32))))
        (reg_e.X rd)
      tu
    else tu
  let tu := tu.close_scope
  let tu := gen_set_pc tu pc reg_e.NEXT_PC
  let tu := gen_sync tu sync_type.POST_SYNC 47
  let tu := gen_trap_check tu
  handler_ret.mk continuation_e.CONT pc tu

/-- Source handler `__slt` (instruction 48: SLT). -/
def __slt (disass_enabled : Bool) (pc : Nat) (instr : Nat) (tu : tu_builder) :
    handler_ret :=
  let tu := tu.raw (line.label "SLT" pc)
  let tu := gen_sync tu sync_type.PRE_SYNC 48
  let rd : Nat := uint_t 8 (bit_sub 7 5 instr)
  let rs1 : Nat := uint_t 8 (bit_sub 15 5 instr)
  let rs2 : Nat := uint_t 8 (bit_sub 20 5 instr)
  let tu := if disass_enabled then
      let tu := tu.raw
        (line.print_disass pc "slt" [((rd : Nat) : Int), ((rs1 : Nat) : Int), ((rs2 : Nat) : Int)])
      tu
    else tu
  let cur_pc_val := value.constant ((pc : Nat) : Int) (reg_bit_widths reg_e.PC)
  let pc := pc + 4
  let tu := tu.open_scope
  let tu := if rd ≠ 0 then
      let tu := tu.store
        (value.choose
          (value.icmp ICmpInst.ICMP_SLT
            (value.ext (value.load (reg_e.X rs1) 0) 32 false)
            (value.ext (value.load (reg_e.X rs2) 0) 32 false))
          (value.constant 1 32)
          (value.constant 0 32))
        (reg_e.X rd)
      tu
    else tu
  let tu := tu.close_scope
  let tu := gen_set_pc tu pc reg_e.NEXT_PC
  let tu := gen_sync tu sync_type.POST_SYNC 48
  let tu := gen_trap_check tu
  handler_ret.mk continuation_e.CONT pc tu

/-- Source handler `__sltu` (instruction 49: SLTU). -/
def __sltu (disass_enabled : Bool) (pc : Nat) (instr : Nat) (tu : tu_builder) :
    handler_ret :=
  let tu := tu.raw (line.label "SLTU" pc)
  let tu := gen_sync tu sync_type.PRE_SYNC 49
  let rd : Nat := uint_t 8 (bit_sub 7 5 instr)
  let rs1 : Nat := uint_t 8 (bit_sub 15 5 instr)
  let rs2 : Nat := uint_t 8 (bit_sub 20 5 instr)
  let tu := if disass_enabled then
      let tu := tu.raw
        (line.print_disass pc "sltu"
          [((rd : Nat) : Int), ((rs1 : Nat) : Int), ((rs2 : Nat) : Int)])
      tu
    else tu
  let cur_pc_val := value.constant ((pc : Nat) : Int) (reg_bit_widths reg_e.PC)
  let pc := pc + 4
  let tu := tu.open_scope
  let tu := if rd ≠ 0 then
      let tu := tu.store
        (value.choose
          (value.icmp ICmpInst.ICMP_ULT
            (value.ext (value.load (reg_e.X rs1) 0) 32 true)
            (value.ext (value.load (reg_e.X rs2) 0) 32 true))
          (value.constant 1 32)
          (value.constant 0 32))
        (reg_e.X rd)
      tu
    else tu
  let tu := tu.close_scope
  let tu := gen_set_pc tu pc reg_e.NEXT_PC
  let tu := gen_sync tu sync_type.POST_SYNC 49
  let tu := gen_trap_check tu
  handler_ret.mk continuation_e.CONT pc tu

/-- Source handler `__xor` (instruction 50: XOR). -/
def __xor (disass_enabled : Bool) (pc : Nat) (instr : Nat) (tu : tu_builder) :
    handler_ret :=
  let tu := tu.raw (line.label "XOR" pc)
  let tu := gen_sync tu sync_type.PRE_SYNC 50
  let rd : Nat := uint_t 8 (bit_sub 7 5 instr)
  let rs1 : Nat := uint_t 8 (bit_sub 15 5 instr)
  let rs2 : Nat := uint_t 8 (bit_sub 20 5 instr)
  let tu := if disass_enabled then
      let tu := tu.raw
        (line.print_disass pc "xor" [((rd : Nat) : Int), ((rs1 : Nat) : Int), ((rs2 : Nat) : Int)])
      tu
    else tu
  let cur_pc_val := value.constant ((pc : Nat) : Int) (reg_bit_widths reg_e.PC)
  let pc := pc + 4
  let tu := tu.open_scope
  let tu := if rd ≠ 0 then
      let tu := tu.store
        (value.l_xor (value.load (reg_e.X rs1) 0) (value.load (reg_e.X rs2) 0))
        (reg_e.X rd)
      tu
    else tu
  let tu := tu.close_scope
  let tu := gen_set_pc tu pc reg_e.NEXT_PC
  let tu := gen_sync tu sync_type.POST_SYNC 50
  let tu := gen_trap_check tu
  handler_ret.mk continuation_e.CONT pc tu

/-- Source handler `__srl` (instruction 51: SRL). -/
def __srl (disass_enabled : Bool) (pc : Nat) (instr : Nat) (tu : tu_builder) :
    handler_ret :=
  let tu := tu.raw (line.label "SRL" pc)
  let tu := gen_sync tu sync_type.PRE_SYNC 51
  let rd : Nat := uint_t 8 (bit_sub 7 5 instr)
  let rs1 : Nat := uint_t 8 (bit_sub 15 5 instr)
  let rs2 : Nat := uint_t 8 (bit_sub 20 5 instr)
  let tu := if disass_enabled then
      let tu := tu.raw
        (line.print_disass pc "srl" [((rd : Nat) : Int), ((rs1 : Nat) : Int), ((rs2 : Nat) : Int)])
      tu
    else tu
  let cur_pc_val := value.constant ((pc : Nat) : Int) (reg_bit_widths reg_e.PC)
  let pc := pc + 4
  let tu := tu.open_scope
  let tu := if rd ≠ 0 then
      let tu := tu.store
        (value.lshr
          (value.load (reg_e.X rs1) 0)
          (value.l_and
            (value.load (reg_e.X rs2) 0)
            (value.sub (value.constant 32 32) (value.constant 1 32))))
        (reg_e.X rd)
      tu
    else tu
  let tu := tu.close_scope
  let tu := gen_set_pc tu pc reg_e.NEXT_PC
  let tu := gen_sync tu sync_type.POST_SYNC 51
  let tu := gen_trap_check tu
  handler_ret.mk continuation_e.CONT pc tu

/-- Source handler `__sra` (instruction 52: SRA). -/
def __sra (disass_enabled : Bool) (pc : Nat) (instr : Nat) (tu : tu_builder) :
    handler_ret :=
  let tu := tu.raw (line.label "SRA" pc)
  let tu := gen_sync tu sync_type.PRE_SYNC 52
  let rd : Nat := uint_t 8 (bit_sub 7 5 instr)
  let rs1 : Nat := uint_t 8 (bit_sub 15 5 instr)
  let rs2 : Nat := uint_t 8 (bit_sub 20 5 instr)
  let tu := if disass_enabled then
      let tu := tu.raw
        (line.print_disass pc "sra" [((rd : Nat) : Int), ((rs1 : Nat) : Int), ((rs2 : Nat) : Int)])
      tu
    else tu
  let cur_pc_val := value.constant ((pc : Nat) : Int) (reg_bit_widths reg_e.PC)
  let pc := pc + 4
  let tu := tu.open_scope
  let tu := if rd ≠ 0 then
      let tu := tu.store
        (value.ashr
          (value.load (reg_e.X rs1) 0)
          (value.l_and
            (value.load (reg_e.X rs2) 0)
            (value.sub (value.constant 32 32) (value.constant 1 32))))
        (reg_e.X rd)
      tu
    else tu
  let tu := tu.close_scope
  let tu := gen_set_pc tu pc reg_e.NEXT_PC
  let tu := gen_sync tu sync_type.POST_SYNC 52
  let tu := gen_trap_check tu
  handler_ret.mk continuation_e.CONT pc tu

/-- Source handler `__or` (instruction 53: OR). -/
def __or (disass_enabled : Bool) (pc : Nat) (instr : Nat) (tu : tu_builder) :
    handler_ret :=
  let tu := tu.raw (line.label "OR" pc)
  let tu := gen_sync tu sync_type.PRE_SYNC 53
  let rd : Nat := uint_t 8 (bit_sub 7 5 instr)
  let rs1 : Nat := uint_t 8 (bit_sub 15 5 instr)
  let rs2 : Nat := uint_t 8 (bit_sub 20 5 instr)
  let tu := if disass_enabled then
      let tu := tu.raw
        (line.print_disass pc "or" [((rd : Nat) : Int), ((rs1 : Nat) : Int), ((rs2 : Nat) : Int)])
      tu
    else tu
  let cur_pc_val := value.constant ((pc : Nat) : Int) (reg_bit_widths reg_e.PC)
  let pc := pc + 4
  let tu := tu.open_scope
  let tu := if rd ≠ 0 then
      let tu := tu.store
        (value.l_or (value.load (reg_e.X rs1) 0) (value.load (reg_e.X rs2) 0))
        (reg_e.X rd)
      tu
    else tu
  let tu := tu.close_scope
  let tu := gen_set_pc tu pc reg_e.NEXT_PC
  let tu := gen_sync tu sync_type.POST_SYNC 53
  let tu := gen_trap_check tu
  handler_ret.mk continuation_e.CONT pc tu

/-- Source handler `__and` (instruction 54: AND). -/
def __and (disass_enabled : Bool) (pc : Nat) (instr : Nat) (tu : tu_builder) :
    handler_ret :=
  let tu := tu.raw (line.label "AND" pc)
  let tu := gen_sync tu sync_type.PRE_SYNC 54
  let rd : Nat := uint_t 8 (bit_sub 7 5 instr)
  let rs1 : Nat := uint_t 8 (bit_sub 15 5 instr)
  let rs2 : Nat := uint_t 8 (bit_sub 20 5 instr)
  let tu := if disass_enabled then
      let tu := tu.raw
        (line.print_disass pc "and" [((rd : Nat) : Int), ((rs1 : Nat) : Int), ((rs2 : Nat) : Int)])
      tu
    else tu
  let cur_pc_val := value.constant ((pc : Nat) : Int) (reg_bit_widths reg_e.PC)
  let pc := pc + 4
  let tu := tu.open_scope
  let tu := if rd ≠ 0 then
      let tu := tu.store
        (value.l_and (value.load (reg_e.X rs1) 0) (value.load (reg_e.X rs2) 0))
        (reg_e.X rd)
      tu
    else tu
  let tu := tu.close_scope
  let tu := gen_set_pc tu pc reg_e.NEXT_PC
  let tu := gen_sync tu sync_type.POST_SYNC 54
  let tu := gen_trap_check tu
  handler_ret.mk continuation_e.CONT pc tu

/-- Source handler `__fence` (instruction 55: FENCE). -/
def __fence (disass_enabled : Bool) (pc : Nat) (instr : Nat) (tu : tu_builder) :
    handler_ret :=
  let tu := tu.raw (line.label "FENCE" pc)
  let tu := gen_sync tu sync_type.PRE_SYNC 55
  let rd : Nat := uint_t 8 (bit_sub 7 5 instr)
  let rs1 : Nat := uint_t 8 (bit_sub 15 5 instr)
  let succ : Nat := uint_t 8 (bit_sub 20 4 instr)
  let pred : Nat := uint_t 8 (bit_sub 24 4 instr)
  let tu := if disass_enabled then
      let tu := tu.raw (line.print_disass pc "fence" [])
      tu
    else tu
  let cur_pc_val := value.constant ((pc : Nat) : Int) (reg_bit_widths reg_e.PC)
  let pc := pc + 4
  let tu := tu.open_scope
  let tu := tu.write_mem mem_type_e.FENCE
    (value.constant 0 64)
    (value.trunc
      (value.l_or
        (value.shl (value.constant ((pred : Nat) : Int) 32) (value.constant 4 32))
        (value.constant ((succ : Nat) : Int) 32))
      32)
  let tu := tu.close_scope
  let tu := gen_set_pc tu pc reg_e.NEXT_PC
  let tu := gen_sync tu sync_type.POST_SYNC 55
  let tu := gen_trap_check tu
  handler_ret.mk continuation_e.CONT pc tu

/-- Source handler `__fence_i` (instruction 56: FENCE_I). -/
def __fence_i (disass_enabled : Bool) (pc : Nat) (instr : Nat) (tu : tu_builder) :
    handler_ret :=
  let tu := tu.raw (line.label "FENCE_I" pc)
  let tu := gen_sync tu sync_type.PRE_SYNC 56
  let rd : Nat := uint_t 8 (bit_sub 7 5 instr)
  let rs1 : Nat := uint_t 8 (bit_sub 15 5 instr)
  let imm : Nat := uint_t 16 (bit_sub 20 12 instr)
  let tu := if disass_enabled then
      let tu := tu.raw (line.print_disass pc "fence_i" [])
      tu
    else tu
  let cur_pc_val := value.constant ((pc : Nat) : Int) (reg_bit_widths reg_e.PC)
  let pc := pc + 4
  let tu := tu.open_scope
  let tu := tu.write_mem mem_type_e.FENCE
    (value.constant 1 64)
    (value.trunc (value.constant ((imm : Nat) : Int) 32) 32)
  let tu := tu.close_scope
  let tu := tu.store (value.constant 4294967295 32) reg_e.LAST_BRANCH
  let tu := gen_set_pc tu pc reg_e.NEXT_PC
  let tu := gen_sync tu sync_type.POST_SYNC 56
  let tu := gen_trap_check tu
  handler_ret.mk continuation_e.FLUSH pc tu

/-- Source handler `__ecall` (instruction 57: ECALL). -/
def __ecall (disass_enabled : Bool) (pc : Nat) (instr : Nat) (tu : tu_builder) :
    handler_ret :=
  let tu := tu.raw (line.label "ECALL" pc)
  let tu := gen_sync tu sync_type.PRE_SYNC 57
  let tu := if disass_enabled then
      let tu := tu.raw (line.print_disass pc "ecall" [])
      tu
    else tu
  let cur_pc_val := value.constant ((pc : Nat) : Int) (reg_bit_widths reg_e.PC)
  let pc := pc + 4
  let tu := tu.open_scope
  let tu := gen_raise_trap tu 0 11
  let tu := tu.close_scope
  let tu := gen_sync tu sync_type.POST_SYNC 57
  let tu := gen_trap_check tu
  handler_ret.mk continuation_e.BRANCH pc tu

/-- Source handler `__ebreak` (instruction 58: EBREAK). -/
def __ebreak (disass_enabled : Bool) (pc : Nat) (instr : Nat) (tu : tu_builder) :
    handler_ret :=
  let tu := tu.raw (line.label "EBREAK" pc)
  let tu := gen_sync tu sync_type.PRE_SYNC 58
  let tu := if disass_enabled then
      let tu := tu.raw (line.print_disass pc "ebreak" [])
      tu
    else tu
  let cur_pc_val := value.constant ((pc : Nat) : Int) (reg_bit_widths reg_e.PC)
  let pc := pc + 4
  let tu := tu.open_scope
  let tu := gen_raise_trap tu 0 3
  let tu := tu.close_scope
  let tu := gen_sync tu sync_type.POST_SYNC 58
  let tu := gen_trap_check tu
  handler_ret.mk continuation_e.BRANCH pc tu

/-- Source handler `__uret` (instruction 59: URET). -/
def __uret (disass_enabled : Bool) (pc : Nat) (instr : Nat) (tu : tu_builder) :
    handler_ret :=
  let tu := tu.raw (line.label "URET" pc)
  let tu := gen_sync tu sync_type.PRE_SYNC 59
  let tu := if disass_enabled then
      let tu := tu.raw (line.print_disass pc "uret" [])
      tu
    else tu
  let cur_pc_val := value.constant ((pc : Nat) : Int) (reg_bit_widths reg_e.PC)
  let pc := pc + 4
  let tu := tu.open_scope
  let tu := gen_leave_trap tu 0
  let tu := tu.close_scope
  let tu := gen_sync tu sync_type.POST_SYNC 59
  let tu := gen_trap_check tu
  handler_ret.mk continuation_e.BRANCH pc tu

/-- Source handler `__sret` (instruction 60: SRET). -/
def __sret (disass_enabled : Bool) (pc : Nat) (instr : Nat) (tu : tu_builder) :
    handler_ret :=
  let tu := tu.raw (line.label "SRET" pc)
  let tu := gen_sync tu sync_type.PRE_SYNC 60
  let tu := if disass_enabled then
      let tu := tu.raw (line.print_disass pc "sret" [])
      tu
    else tu
  let cur_pc_val := value.constant ((pc : Nat) : Int) (reg_bit_widths reg_e.PC)
  let pc := pc + 4
  let tu := tu.open_scope
  let tu := gen_leave_trap tu 1
  let tu := tu.close_scope
  let tu := gen_sync tu sync_type.POST_SYNC 60
  let tu := gen_trap_check tu
  handler_ret.mk continuation_e.BRANCH pc tu

/-- Source handler `__mret` (instruction 61: MRET). -/
def __mret (disass_enabled : Bool) (pc : Nat) (instr : Nat) (tu : tu_builder) :
    handler_ret :=
  let tu := tu.raw (line.label "MRET" pc)
  let tu := gen_sync tu sync_type.PRE_SYNC 61
  let tu := if disass_enabled then
      let tu := tu.raw (line.print_disass pc "mret" [])
      tu
    else tu
  let cur_pc_val := value.constant ((pc : Nat) : Int) (reg_bit_widths reg_e.PC)
  let pc := pc + 4
  let tu := tu.open_scope
  let tu := gen_leave_trap tu 3
  let tu := tu.close_scope
  let tu := gen_sync tu sync_type.POST_SYNC 61
  let tu := gen_trap_check tu
  handler_ret.mk continuation_e.BRANCH pc tu

/-- Source handler `__wfi` (instruction 62: WFI). -/
def __wfi (disass_enabled : Bool) (pc : Nat) (instr : Nat) (tu : tu_builder) :
    handler_ret :=
  let tu := tu.raw (line.label "WFI" pc)
  let tu := gen_sync tu sync_type.PRE_SYNC 62
  let tu := if disass_enabled then
      let tu := tu.raw (line.print_disass pc "wfi" [])
      tu
    else tu
  let cur_pc_val := value.constant ((pc : Nat) : Int) (reg_bit_widths reg_e.PC)
  let pc := pc + 4
  let tu := tu.open_scope
  let tu := gen_wait tu 1
  let tu := tu.close_scope
  let tu := gen_set_pc tu pc reg_e.NEXT_PC
  let tu := gen_sync tu sync_type.POST_SYNC 62
  let tu := gen_trap_check tu
  handler_ret.mk continuation_e.CONT pc tu

/-- Source handler `__sfence_vma` (instruction 63: SFENCE.VMA). -/
def __sfence_vma (disass_enabled : Bool) (pc : Nat) (instr : Nat) (tu : tu_builder) :
    handler_ret :=
  let tu := tu.raw (line.label "SFENCE_VMA" pc)
  let tu := gen_sync tu sync_type.PRE_SYNC 63
  let rs1 : Nat := uint_t 8 (bit_sub 15 5 instr)
  let rs2 : Nat := uint_t 8 (bit_sub 20 5 instr)
  let tu := if disass_enabled then
      let tu := tu.raw (line.print_disass pc "sfence.vma" [])
      tu
    else tu
  let cur_pc_val := value.constant ((pc : Nat) : Int) (reg_bit_widths reg_e.PC)
  let pc := pc + 4
  let tu := tu.open_scope
  let tu := tu.write_mem mem_type_e.FENCE
    (value.constant 2 64)
    (value.trunc (value.constant ((rs1 : Nat) : Int) 32) 32)
  let tu := tu.write_mem mem_type_e.FENCE
    (value.constant 3 64)
    (value.trunc (value.constant ((rs2 : Nat) : Int) 32) 32)
  let tu := tu.close_scope
  let tu := gen_set_pc tu pc reg_e.NEXT_PC
  let tu := gen_sync tu sync_type.POST_SYNC 63
  let tu := gen_trap_check tu
  handler_ret.mk continuation_e.CONT pc tu

/-- Source handler `__csrrw` (instruction 64: CSRRW). -/
def __csrrw (disass_enabled : Bool) (pc : Nat) (instr : Nat) (tu : tu_builder) :
    handler_ret :=
  let tu := tu.raw (line.label "CSRRW" pc)
  let tu := gen_sync tu sync_type.PRE_SYNC 64
  let rd : Nat := uint_t 8 (bit_sub 7 5 instr)
  let rs1 : Nat := uint_t 8 (bit_sub 15 5 instr)
  let csr : Nat := uint_t 16 (bit_sub 20 12 instr)
  let tu := if disass_enabled then
      let tu := tu.raw
        (line.print_disass pc "csrrw"
          [((rd : Nat) : Int), ((csr : Nat) : Int), ((rs1 : Nat) : Int)])
      tu
    else tu
  let cur_pc_val := value.constant ((pc : Nat) : Int) (reg_bit_widths reg_e.PC)
  let pc := pc + 4
  let tu := tu.open_scope
  let r := tu.assignment (value.load (reg_e.X rs1) 0) 32
  let rs_val_val := r.1
  let tu := r.2
  let tu := if rd ≠ 0 then
      let r := tu.assignment
        (value.read_mem mem_type_e.CSR (value.constant ((csr : Nat) : Int) 16) 32)
        32
      let csr_val_val := r.1
      let tu := r.2
      let tu := tu.write_mem mem_type_e.CSR
        (value.constant ((csr : Nat) : Int) 16)
        (value.trunc rs_val_val 32)
      let tu := tu.store csr_val_val (reg_e.X rd)
      tu
    else
      let tu := tu.write_mem mem_type_e.CSR
        (value.constant ((csr : Nat) : Int) 16)
        (value.trunc rs_val_val 32)
      tu
  let tu := tu.close_scope
  let tu := gen_set_pc tu pc reg_e.NEXT_PC
  let tu := gen_sync tu sync_type.POST_SYNC 64
  let tu := gen_trap_check tu
  handler_ret.mk continuation_e.CONT pc tu

/-- Source handler `__csrrs` (instruction 65: CSRRS). -/
def __csrrs (disass_enabled : Bool) (pc : Nat) (instr : Nat) (tu : tu_builder) :
    handler_ret :=
  let tu := tu.raw (line.label "CSRRS" pc)
  let tu := gen_sync tu sync_type.PRE_SYNC 65
  let rd : Nat := uint_t 8 (bit_sub 7 5 instr)
  let rs1 : Nat := uint_t 8 (bit_sub 15 5 instr)
  let csr : Nat := uint_t 16 (bit_sub 20 12 instr)
  let tu := if disass_enabled then
      let tu := tu.raw
        (line.print_disass pc "csrrs"
          [((rd : Nat) : Int), ((csr : Nat) : Int), ((rs1 : Nat) : Int)])
      tu
    else tu
  let cur_pc_val := value.constant ((pc : Nat) : Int) (reg_bit_widths reg_e.PC)
  let pc := pc + 4
  let tu := tu.open_scope
  let r := tu.assignment
    (value.read_mem mem_type_e.CSR (value.constant ((csr : Nat) : Int) 16) 32)
    32
  let xrd_val := r.1
  let tu := r.2
  let r := tu.assignment (value.load (reg_e.X rs1) 0) 32
  let xrs1_val := r.1
  let tu := r.2
  let tu := if rd ≠ 0 then
      let tu := tu.store xrd_val (reg_e.X rd)
      tu
    else tu
  let tu := if rs1 ≠ 0 then
      let tu := tu.write_mem mem_type_e.CSR
        (value.constant ((csr : Nat) : Int) 16)
        (value.trunc (value.l_or xrd_val xrs1_val) 32)
      tu
    else tu
  let tu := tu.close_scope
  let tu := gen_set_pc tu pc reg_e.NEXT_PC
  let tu := gen_sync tu sync_type.POST_SYNC 65
  let tu := gen_trap_check tu
  handler_ret.mk continuation_e.CONT pc tu

/-- Source handler `__csrrc` (instruction 66: CSRRC). -/
def __csrrc (disass_enabled : Bool) (pc : Nat) (instr : Nat) (tu : tu_builder) :
    handler_ret :=
  let tu := tu.raw (line.label "CSRRC" pc)
  let tu := gen_sync tu sync_type.PRE_SYNC 66
  let rd : Nat := uint_t 8 (bit_sub 7 5 instr)
  let rs1 : Nat := uint_t 8 (bit_sub 15 5 instr)
  let csr : Nat := uint_t 16 (bit_sub 20 12 instr)
  let tu := if disass_enabled then
      let tu := tu.raw
        (line.print_disass pc "csrrc"
          [((rd : Nat) : Int), ((csr : Nat) : Int), ((rs1 : Nat) : Int)])
      tu
    else tu
  let cur_pc_val := value.constant ((pc : Nat) : Int) (reg_bit_widths reg_e.PC)
  let pc := pc + 4
  let tu := tu.open_scope
  let r := tu.assignment
    (value.read_mem mem_type_e.CSR (value.constant ((csr : Nat) : Int) 16) 32)
    32
  let xrd_val := r.1
  let tu := r.2
  let r := tu.assignment (value.load (reg_e.X rs1) 0) 32
  let xrs1_val := r.1
  let tu := r.2
  let tu := if rd ≠ 0 then
      let tu := tu.store xrd_val (reg_e.X rd)
      tu
    else tu
  let tu := if rs1 ≠ 0 then
      let tu := tu.write_mem mem_type_e.CSR
        (value.constant ((csr : Nat) : Int) 16)
        (value.trunc (value.l_and xrd_val (value.l_not xrs1_val)) 32)
      tu
    else tu
  let tu := tu.close_scope
  let tu := gen_set_pc tu pc reg_e.NEXT_PC
  let tu := gen_sync tu sync_type.POST_SYNC 66
  let tu := gen_trap_check tu
  handler_ret.mk continuation_e.CONT pc tu

/-- Source handler `__csrrwi` (instruction 67: CSRRWI). -/
def __csrrwi (disass_enabled : Bool) (pc : Nat) (instr : Nat) (tu : tu_builder) :
    handler_ret :=
  let tu := tu.raw (line.label "CSRRWI" pc)
  let tu := gen_sync tu sync_type.PRE_SYNC 67
  let rd : Nat := uint_t 8 (bit_sub 7 5 instr)
  let zimm : Nat := uint_t 8 (bit_sub 15 5 instr)
  let csr : Nat := uint_t 16 (bit_sub 20 12 instr)
  let tu := if disass_enabled then
      let tu := tu.raw
        (line.print_disass pc "csrrwi"
          [((rd : Nat) : Int), ((csr : Nat) : Int), ((zimm : Nat) : Int)])
      tu
    else tu
  let cur_pc_val := value.constant ((pc : Nat) : Int) (reg_bit_widths reg_e.PC)
  let pc := pc + 4
  let tu := tu.open_scope
  let tu := if rd ≠ 0 then
      let tu := tu.store
        (value.read_mem mem_type_e.CSR (value.constant ((csr : Nat) : Int) 16) 32)
        (reg_e.X rd)
      tu
    else tu
  let tu := tu.write_mem mem_type_e.CSR
    (value.constant ((csr : Nat) : Int) 16)
    (value.trunc (value.ext (value.constant ((zimm : Nat) : Int) 32) 32 true) 32)
  let tu := tu.close_scope
  let tu := gen_set_pc tu pc reg_e.NEXT_PC
  let tu := gen_sync tu sync_type.POST_SYNC 67
  let tu := gen_trap_check tu
  handler_ret.mk continuation_e.CONT pc tu

/-- Source handler `__csrrsi` (instruction 68: CSRRSI). -/
def __csrrsi (disass_enabled : Bool) (pc : Nat) (instr : Nat) (tu : tu_builder) :
    handler_ret :=
  let tu := tu.raw (line.label "CSRRSI" pc)
  let tu := gen_sync tu sync_type.PRE_SYNC 68
  let rd : Nat := uint_t 8 (bit_sub 7 5 instr)
  let zimm : Nat := uint_t 8 (bit_sub 15 5 instr)
  let csr : Nat := uint_t 16 (bit_sub 20 12 instr)
  let tu := if disass_enabled then
      let tu := tu.raw
        (line.print_disass pc "csrrsi"
          [((rd : Nat) : Int), ((csr : Nat) : Int), ((zimm : Nat) : Int)])
      tu
    else tu
  let cur_pc_val := value.constant ((pc : Nat) : Int) (reg_bit_widths reg_e.PC)
  let pc := pc + 4
  let tu := tu.open_scope
  let r := tu.assignment
    (value.read_mem mem_type_e.CSR (value.constant ((csr : Nat) : Int) 16) 32)
    32
  let res_val := r.1
  let tu := r.2
  let tu := if zimm ≠ 0 then
      let tu := tu.write_mem mem_type_e.CSR
        (value.constant ((csr : Nat) : Int) 16)
        (value.trunc
          (value.l_or res_val (value.ext (value.constant ((zimm : Nat) : Int) 32) 32 true))
          32)
      tu
    else tu
  let tu := if rd ≠ 0 then
      let tu := tu.store res_val (reg_e.X rd)
      tu
    else tu
  let tu := tu.close_scope
  let tu := gen_set_pc tu pc reg_e.NEXT_PC
  let tu := gen_sync tu sync_type.POST_SYNC 68
  let tu := gen_trap_check tu
  handler_ret.mk continuation_e.CONT pc tu

/-- Source handler `__csrrci` (instruction 69: CSRRCI). -/
def __csrrci (disass_enabled : Bool) (pc : Nat) (instr : Nat) (tu : tu_builder) :
    handler_ret :=
  let tu := tu.raw (line.label "CSRRCI" pc)
  let tu := gen_sync tu sync_type.PRE_SYNC 69
  let rd : Nat := uint_t 8 (bit_sub 7 5 instr)
  let zimm : Nat := uint_t 8 (bit_sub 15 5 instr)
  let csr : Nat := uint_t 16 (bit_sub 20 12 instr)
  let tu := if disass_enabled then
      let tu := tu.raw
        (line.print_disass pc "csrrci"
          [((rd : Nat) : Int), ((csr : Nat) : Int), ((zimm : Nat) : Int)])
      tu
    else tu
  let cur_pc_val := value.constant ((pc : Nat) : Int) (reg_bit_widths reg_e.PC)
  let pc := pc + 4
  let tu := tu.open_scope
  let r := tu.assignment
    (value.read_mem mem_type_e.CSR (value.constant ((csr : Nat) : Int) 16) 32)
    32
  let res_val := r.1
  let tu := r.2
  let tu := if rd ≠ 0 then
      let tu := tu.store res_val (reg_e.X rd)
      tu
    else tu
  let tu := if zimm ≠ 0 then
      let tu := tu.write_mem mem_type_e.CSR
        (value.constant ((csr : Nat) : Int) 16)
        (value.trunc
          (value.l_and res_val
            (value.l_not (value.ext (value.constant ((zimm : Nat) : Int) 32) 32 true)))
          32)
      tu
    else tu
  let tu := tu.close_scope
  let tu := gen_set_pc tu pc reg_e.NEXT_PC
  let tu := gen_sync tu sync_type.POST_SYNC 69
  let tu := gen_trap_check tu
  handler_ret.mk continuation_e.CONT pc tu

/-- Source handler `__flw` (instruction 70: FLW). -/
def __flw (disass_enabled : Bool) (pc : Nat) (instr : Nat) (tu : tu_builder) :
    handler_ret :=
  let tu := tu.raw (line.label "FLW" pc)
  let tu := gen_sync tu sync_type.PRE_SYNC 70
  let rd : Nat := uint_t 8 (bit_sub 7 5 instr)
  let rs1 : Nat := uint_t 8 (bit_sub 15 5 instr)
  let imm : Int := signextend 16 12 (bit_sub 20 12 instr)
  let tu := if disass_enabled then
      let tu := tu.raw (line.print_disass pc "flw" [((rd : Nat) : Int), imm, ((rs1 : Nat) : Int)])
      tu
    else tu
  let cur_pc_val := value.constant ((pc : Nat) : Int) (reg_bit_widths reg_e.PC)
  let pc := pc + 4
  let tu := tu.open_scope
  let r := tu.assignment
    (value.add (value.ext (value.load (reg_e.X rs1) 0) 32 false) (value.constant imm 32))
    32
  let offs_val := r.1
  let tu := r.2
  let r := tu.assignment (value.read_mem mem_type_e.MEM offs_val 32) 32
  let res_val := r.1
  let tu := r.2
  let tu := if (64 : Nat) = 32 then
      let tu := tu.store res_val (reg_e.F rd)
      tu
    else
      let upper_val : Nat := uint_of_int 64 (-1)
      let tu := tu.store
        (value.l_or
          (value.shl (value.constant ((upper_val : Nat) : Int) 64) (value.constant 32 64))
          (value.ext res_val 64 true))
        (reg_e.F rd)
      tu
  let tu := tu.close_scope
  let tu := gen_set_pc tu pc reg_e.NEXT_PC
  let tu := gen_sync tu sync_type.POST_SYNC 70
  let tu := gen_trap_check tu
  handler_ret.mk continuation_e.CONT pc tu

/-- Source handler `__fsw` (instruction 71: FSW).  The branch for `disass_enabled` records
the `print_disass` line of a format call that returns; the call of the source throws on its
malformed format string (`disass_format`, `invoke_checked`), so with disassembly enabled
the source emits the label and the PRE_SYNC line and neither advances `pc` nor returns. -/
def __fsw (disass_enabled : Bool) (pc : Nat) (instr : Nat) (tu : tu_builder) :
    handler_ret :=
  let tu := tu.raw (line.label "FSW" pc)
  let tu := gen_sync tu sync_type.PRE_SYNC 71
  let imm : Int := signextend 16 12 ((bit_sub 7 5 instr) ||| ((bit_sub 25 7 instr) <<< 5))
  let rs1 : Nat := uint_t 8 (bit_sub 15 5 instr)
  let rs2 : Nat := uint_t 8 (bit_sub 20 5 instr)
  let tu := if disass_enabled then
      let tu := tu.raw (line.print_disass pc "fsw" [((rs2 : Nat) : Int), imm])
      tu
    else tu
  let cur_pc_val := value.constant ((pc : Nat) : Int) (reg_bit_widths reg_e.PC)
  let pc := pc + 4
  let tu := tu.open_scope
  let r := tu.assignment
    (value.add (value.ext (value.load (reg_e.X rs1) 0) 32 false) (value.constant imm 32))
    32
  let offs_val := r.1
  let tu := r.2
  let tu := tu.write_mem mem_type_e.MEM offs_val
    (value.trunc (value.trunc (value.load (reg_e.F rs2) 0) 32) 32)
  let tu := tu.close_scope
  let tu := gen_set_pc tu pc reg_e.NEXT_PC
  let tu := gen_sync tu sync_type.POST_SYNC 71
  let tu := gen_trap_check tu
  handler_ret.mk continuation_e.CONT pc tu

/-- Source handler `__fmadd_s` (instruction 72: FMADD.S). -/
def __fmadd_s (disass_enabled : Bool) (pc : Nat) (instr : Nat) (tu : tu_builder) :
    handler_ret :=
  let tu := tu.raw (line.label "FMADD_S" pc)
  let tu := gen_sync tu sync_type.PRE_SYNC 72
  let rd : Nat := uint_t 8 (bit_sub 7 5 instr)
  let rm : Nat := uint_t 8 (bit_sub 12 3 instr)
  let rs1 : Nat := uint_t 8 (bit_sub 15 5 instr)
  let rs2 : Nat := uint_t 8 (bit_sub 20 5 instr)
  let rs3 : Nat := uint_t 8 (bit_sub 27 5 instr)
  let tu := if disass_enabled then
      let tu := tu.raw
        (line.print_disass pc "fmadd.s"
          [((rd : Nat) : Int), ((rs1 : Nat) : Int), ((rs2 : Nat) : Int), ((rs3 : Nat) : Int)])
      tu
    else tu
  let cur_pc_val := value.constant ((pc : Nat) : Int) (reg_bit_widths reg_e.PC)
  let pc := pc + 4
  let tu := tu.open_scope
  let tu := if (64 : Nat) = 32 then
      let tu := tu.store
        (value.callf "fmadd_s"
          (value.arg
            (value.load (reg_e.F rs1) 0)
            (value.arg
              (value.load (reg_e.F rs2) 0)
              (value.arg
                (value.load (reg_e.F rs3) 0)
                (value.arg
                  (value.ext (value.constant 0 64) 32 true)
                  (value.arg
                    (value.choose
                      (value.icmp ICmpInst.ICMP_ULT
                        (value.constant ((rm : Nat) : Int) 8)
                        (value.constant 7 8))
                      (value.constant ((rm : Nat) : Int) 8)
                      (value.trunc (value.load reg_e.FCSR 0) 8))
                    value.noarg))))))
        (reg_e.F rd)
      tu
    else
      let r := tu.assignment
        (value.callf "unbox_s" (value.arg (value.load (reg_e.F rs1) 0) value.noarg))
        32
      let frs1_val := r.1
      let tu := r.2
      let r := tu.assignment
        (value.callf "unbox_s" (value.arg (value.load (reg_e.F rs2) 0) value.noarg))
        32
      let frs2_val := r.1
      let tu := r.2
      let r := tu.assignment
        (value.callf "unbox_s" (value.arg (value.load (reg_e.F rs3) 0) value.noarg))
        32
      let frs3_val := r.1
      let tu := r.2
      let r := tu.assignment
        (value.callf "fmadd_s"
          (value.arg frs1_val
            (value.arg frs2_val
              (value.arg frs3_val
                (value.arg
                  (value.ext (value.constant 0 64) 32 true)
                  (value.arg
                    (value.choose
                      (value.icmp ICmpInst.ICMP_ULT
                        (value.constant ((rm : Nat) : Int) 8)
                        (value.constant 7 8))
                      (value.constant ((rm : Nat) : Int) 8)
                      (value.trunc (value.load reg_e.FCSR 0) 8))
                    value.noarg))))))
        32
      let res_val := r.1
      let tu := r.2
      let upper_val : Nat := uint_of_int 64 (-1)
      let tu := tu.store
        (value.l_or
          (value.shl (value.constant ((upper_val : Nat) : Int) 64) (value.constant 32 64))
          (value.ext res_val 64 true))
        (reg_e.F rd)
      tu
  let r := tu.assignment (value.callf "fget_flags" value.noarg) 32
  let flags_val := r.1
  let tu := r.2
  let r := tu.assignment_named "FCSR_val"
    (value.add
      (value.l_and (value.load reg_e.FCSR 0) (value.l_not (value.constant 31 32)))
      flags_val)
    32
  let FCSR_val_v := r.1
  let tu := r.2
  let tu := tu.store FCSR_val_v reg_e.FCSR
  let tu := tu.close_scope
  let tu := gen_set_pc tu pc reg_e.NEXT_PC
  let tu := gen_sync tu sync_type.POST_SYNC 72
  let tu := gen_trap_check tu
  handler_ret.mk continuation_e.CONT pc tu

/-- Source handler `__fmsub_s` (instruction 73: FMSUB.S). -/
def __fmsub_s (disass_enabled : Bool) (pc : Nat) (instr : Nat) (tu : tu_builder) :
    handler_ret :=
  let tu := tu.raw (line.label "FMSUB_S" pc)
  let tu := gen_sync tu sync_type.PRE_SYNC 73
  let rd : Nat := uint_t 8 (bit_sub 7 5 instr)
  let rm : Nat := uint_t 8 (bit_sub 12 3 instr)
  let rs1 : Nat := uint_t 8 (bit_sub 15 5 instr)
  let rs2 : Nat := uint_t 8 (bit_sub 20 5 instr)
  let rs3 : Nat := uint_t 8 (bit_sub 27 5 instr)
  let tu := if disass_enabled then
      let tu := tu.raw
        (line.print_disass pc "fmsub.s"
          [((rd : Nat) : Int), ((rs1 : Nat) : Int), ((rs2 : Nat) : Int), ((rs3 : Nat) : Int)])
      tu
    else tu
  let cur_pc_val := value.constant ((pc : Nat) : Int) (reg_bit_widths reg_e.PC)
  let pc := pc + 4
  let tu := tu.open_scope
  let tu := if (64 : Nat) = 32 then
      let tu := tu.store
        (value.callf "fmadd_s"
          (value.arg
            (value.load (reg_e.F rs1) 0)
            (value.arg
              (value.load (reg_e.F rs2) 0)
              (value.arg
                (value.load (reg_e.F rs3) 0)
                (value.arg
                  (value.ext (value.constant 1 64) 32 true)
                  (value.arg
                    (value.choose
                      (value.icmp ICmpInst.ICMP_ULT
                        (value.constant ((rm : Nat) : Int) 8)
                        (value.constant 7 8))
                      (value.constant ((rm : Nat) : Int) 8)
                      (value.trunc (value.load reg_e.FCSR 0) 8))
                    value.noarg))))))
        (reg_e.F rd)
      tu
    else
      let r := tu.assignment
        (value.callf "unbox_s" (value.arg (value.load (reg_e.F rs1) 0) value.noarg))
        32
      let frs1_val := r.1
      let tu := r.2
      let r := tu.assignment
        (value.callf "unbox_s" (value.arg (value.load (reg_e.F rs2) 0) value.noarg))
        32
      let frs2_val := r.1
      let tu := r.2
      let r := tu.assignment
        (value.callf "unbox_s" (value.arg (value.load (reg_e.F rs3) 0) value.noarg))
        32
      let frs3_val := r.1
      let tu := r.2
      let r := tu.assignment
        (value.callf "fmadd_s"
          (value.arg frs1_val
            (value.arg frs2_val
              (value.arg frs3_val
                (value.arg
                  (value.ext (value.constant 1 64) 32 true)
                  (value.arg
                    (value.choose
                      (value.icmp ICmpInst.ICMP_ULT
                        (value.constant ((rm : Nat) : Int) 8)
                        (value.constant 7 8))
                      (value.constant ((rm : Nat) : Int) 8)
                      (value.trunc (value.load reg_e.FCSR 0) 8))
                    value.noarg))))))
        32
      let res_val := r.1
      let tu := r.2
      let upper_val : Nat := uint_of_int 64 (-1)
      let tu := tu.store
        (value.l_or
          (value.shl (value.constant ((upper_val : Nat) : Int) 64) (value.constant 32 64))
          (value.ext res_val 64 true))
        (reg_e.F rd)
      tu
  let r := tu.assignment (value.callf "fget_flags" value.noarg) 32
  let flags_val := r.1
  let tu := r.2
  let r := tu.assignment_named "FCSR_val"
    (value.add
      (value.l_and (value.load reg_e.FCSR 0) (value.l_not (value.constant 31 32)))
      flags_val)
    32
  let FCSR_val_v := r.1
  let tu := r.2
  let tu := tu.store FCSR_val_v reg_e.FCSR
  let tu := tu.close_scope
  let tu := gen_set_pc tu pc reg_e.NEXT_PC
  let tu := gen_sync tu sync_type.POST_SYNC 73
  let tu := gen_trap_check tu
  handler_ret.mk continuation_e.CONT pc tu

/-- Source handler `__fnmadd_s` (instruction 74: FNMADD.S). -/
def __fnmadd_s (disass_enabled : Bool) (pc : Nat) (instr : Nat) (tu : tu_builder) :
    handler_ret :=
  let tu := tu.raw (line.label "FNMADD_S" pc)
  let tu := gen_sync tu sync_type.PRE_SYNC 74
  let rd : Nat := uint_t 8 (bit_sub 7 5 instr)
  let rm : Nat := uint_t 8 (bit_sub 12 3 instr)
  let rs1 : Nat := uint_t 8 (bit_sub 15 5 instr)
  let rs2 : Nat := uint_t 8 (bit_sub 20 5 instr)
  let rs3 : Nat := uint_t 8 (bit_sub 27 5 instr)
  let tu := if disass_enabled then
      let tu := tu.raw
        (line.print_disass pc "fnmadd.s"
          [((rs1 : Nat) : Int), ((rs2 : Nat) : Int), ((rs3 : Nat) : Int)])
      tu
    else tu
  let cur_pc_val := value.constant ((pc : Nat) : Int) (reg_bit_widths reg_e.PC)
  let pc := pc + 4
  let tu := tu.open_scope
  let tu := if (64 : Nat) = 32 then
      let tu := tu.store
        (value.callf "fmadd_s"
          (value.arg
            (value.load (reg_e.F rs1) 0)
            (value.arg
              (value.load (reg_e.F rs2) 0)
              (value.arg
                (value.load (reg_e.F rs3) 0)
                (value.arg
                  (value.ext (value.constant 2 64) 32 true)
                  (value.arg
                    (value.choose
                      (value.icmp ICmpInst.ICMP_ULT
                        (value.constant ((rm : Nat) : Int) 8)
                        (value.constant 7 8))
                      (value.constant ((rm : Nat) : Int) 8)
                      (value.trunc (value.load reg_e.FCSR 0) 8))
                    value.noarg))))))
        (reg_e.F rd)
      tu
    else
      let r := tu.assignment
        (value.callf "unbox_s" (value.arg (value.load (reg_e.F rs1) 0) value.noarg))
        32
      let frs1_val := r.1
      let tu := r.2
      let r := tu.assignment
        (value.callf "unbox_s" (value.arg (value.load (reg_e.F rs2) 0) value.noarg))
        32
      let frs2_val := r.1
      let tu := r.2
      let r := tu.assignment
        (value.callf "unbox_s" (value.arg (value.load (reg_e.F rs3) 0) value.noarg))
        32
      let frs3_val := r.1
      let tu := r.2
      let r := tu.assignment
        (value.callf "fmadd_s"
          (value.arg frs1_val
            (value.arg frs2_val
              (value.arg frs3_val
                (value.arg
                  (value.ext (value.constant 2 64) 32 true)
                  (value.arg
                    (value.choose
                      (value.icmp ICmpInst.ICMP_ULT
                        (value.constant ((rm : Nat) : Int) 8)
                        (value.constant 7 8))
                      (value.constant ((rm : Nat) : Int) 8)
                      (value.trunc (value.load reg_e.FCSR 0) 8))
                    value.noarg))))))
        32
      let res_val := r.1
      let tu := r.2
      let upper_val : Nat := uint_of_int 64 (-1)
      let tu := tu.store
        (value.l_or
          (value.shl (value.constant ((upper_val : Nat) : Int) 64) (value.constant 32 64))
          (value.ext res_val 64 true))
        (reg_e.F rd)
      tu
  let r := tu.assignment (value.callf "fget_flags" value.noarg) 32
  let flags_val := r.1
  let tu := r.2
  let r := tu.assignment_named "FCSR_val"
    (value.add
      (value.l_and (value.load reg_e.FCSR 0) (value.l_not (value.constant 31 32)))
      flags_val)
    32
  let FCSR_val_v := r.1
  let tu := r.2
  let tu := tu.store FCSR_val_v reg_e.FCSR
  let tu := tu.close_scope
  let tu := gen_set_pc tu pc reg_e.NEXT_PC
  let tu := gen_sync tu sync_type.POST_SYNC 74
  let tu := gen_trap_check tu
  handler_ret.mk continuation_e.CONT pc tu

/-- Source handler `__fnmsub_s` (instruction 75: FNMSUB.S). -/
def __fnmsub_s (disass_enabled : Bool) (pc : Nat) (instr : Nat) (tu : tu_builder) :
    handler_ret :=
  let tu := tu.raw (line.label "FNMSUB_S" pc)
  let tu := gen_sync tu sync_type.PRE_SYNC 75
  let rd : Nat := uint_t 8 (bit_sub 7 5 instr)
  let rm : Nat := uint_t 8 (bit_sub 12 3 instr)
  let rs1 : Nat := uint_t 8 (bit_sub 15 5 instr)
  let rs2 : Nat := uint_t 8 (bit_sub 20 5 instr)
  let rs3 : Nat := uint_t 8 (bit_sub 27 5 instr)
  let tu := if disass_enabled then
      let tu := tu.raw
        (line.print_disass pc "fnmsub.s"
          [((rd : Nat) : Int), ((rs1 : Nat) : Int), ((rs2 : Nat) : Int), ((rs3 : Nat) : Int)])
      tu
    else tu
  let cur_pc_val := value.constant ((pc : Nat) : Int) (reg_bit_widths reg_e.PC)
  let pc := pc + 4
  let tu := tu.open_scope
  let tu := if (64 : Nat) = 32 then
      let tu := tu.store
        (value.callf "fmadd_s"
          (value.arg
            (value.load (reg_e.F rs1) 0)
            (value.arg
              (value.load (reg_e.F rs2) 0)
              (value.arg
                (value.load (reg_e.F rs3) 0)
                (value.arg
                  (value.ext (value.constant 3 64) 32 true)
                  (value.arg
                    (value.choose
                      (value.icmp ICmpInst.ICMP_ULT
                        (value.constant ((rm : Nat) : Int) 8)
                        (value.constant 7 8))
                      (value.constant ((rm : Nat) : Int) 8)
                      (value.trunc (value.load reg_e.FCSR 0) 8))
                    value.noarg))))))
        (reg_e.F rd)
      tu
    else
      let r := tu.assignment
        (value.callf "unbox_s" (value.arg (value.load (reg_e.F rs1) 0) value.noarg))
        32
      let frs1_val := r.1
      let tu := r.2
      let r := tu.assignment
        (value.callf "unbox_s" (value.arg (value.load (reg_e.F rs2) 0) value.noarg))
        32
      let frs2_val := r.1
      let tu := r.2
      let r := tu.assignment
        (value.callf "unbox_s" (value.arg (value.load (reg_e.F rs3) 0) value.noarg))
        32
      let frs3_val := r.1
      let tu := r.2
      let r := tu.assignment
        (value.callf "fmadd_s"
          (value.arg frs1_val
            (value.arg frs2_val
              (value.arg frs3_val
                (value.arg
                  (value.ext (value.constant 3 64) 32 true)
                  (value.arg
                    (value.choose
                      (value.icmp ICmpInst.ICMP_ULT
                        (value.constant ((rm : Nat) : Int) 8)
                        (value.constant 7 8))
                      (value.constant ((rm : Nat) : Int) 8)
                      (value.trunc (value.load reg_e.FCSR 0) 8))
                    value.noarg))))))
        32
      let res_val := r.1
      let tu := r.2
      let upper_val : Nat := uint_of_int 64 (-1)
      let tu := tu.store
        (value.l_or
          (value.shl (value.constant ((upper_val : Nat) : Int) 64) (value.constant 32 64))
          (value.ext res_val 64 true))
        (reg_e.F rd)
      tu
  let r := tu.assignment (value.callf "fget_flags" value.noarg) 32
  let flags_val := r.1
  let tu := r.2
  let r := tu.assignment_named "FCSR_val"
    (value.add
      (value.l_and (value.load reg_e.FCSR 0) (value.l_not (value.constant 31 32)))
      flags_val)
    32
  let FCSR_val_v := r.1
  let tu := r.2
  let tu := tu.store FCSR_val_v reg_e.FCSR
  let tu := tu.close_scope
  let tu := gen_set_pc tu pc reg_e.NEXT_PC
  let tu := gen_sync tu sync_type.POST_SYNC 75
  let tu := gen_trap_check tu
  handler_ret.mk continuation_e.CONT pc tu

/-- Source handler `__fadd_s` (instruction 76: FADD.S). -/
def __fadd_s (disass_enabled : Bool) (pc : Nat) (instr : Nat) (tu : tu_builder) :
    handler_ret :=
  let tu := tu.raw (line.label "FADD_S" pc)
  let tu := gen_sync tu sync_type.PRE_SYNC 76
  let rd : Nat := uint_t 8 (bit_sub 7 5 instr)
  let rm : Nat := uint_t 8 (bit_sub 12 3 instr)
  let rs1 : Nat := uint_t 8 (bit_sub 15 5 instr)
  let rs2 : Nat := uint_t 8 (bit_sub 20 5 instr)
  let tu := if disass_enabled then
      let tu := tu.raw
        (line.print_disass pc "fadd.s"
          [((rd : Nat) : Int), ((rs1 : Nat) : Int), ((rs2 : Nat) : Int)])
      tu
    else tu
  let cur_pc_val := value.constant ((pc : Nat) : Int) (reg_bit_widths reg_e.PC)
  let pc := pc + 4
  let tu := tu.open_scope
  let tu := if (64 : Nat) = 32 then
      let tu := tu.store
        (value.callf "fadd_s"
          (value.arg
            (value.load (reg_e.F rs1) 0)
            (value.arg
              (value.load (reg_e.F rs2) 0)
              (value.arg
                (value.choose
                  (value.icmp ICmpInst.ICMP_ULT
                    (value.constant ((rm : Nat) : Int) 8)
                    (value.constant 7 8))
                  (value.constant ((rm : Nat) : Int) 8)
                  (value.trunc (value.load reg_e.FCSR 0) 8))
                value.noarg))))
        (reg_e.F rd)
      tu
    else
      let r := tu.assignment
        (value.callf "unbox_s" (value.arg (value.load (reg_e.F rs1) 0) value.noarg))
        32
      let frs1_val := r.1
      let tu := r.2
      let r := tu.assignment
        (value.callf "unbox_s" (value.arg (value.load (reg_e.F rs2) 0) value.noarg))
        32
      let frs2_val := r.1
      let tu := r.2
      let r := tu.assignment
        (value.callf "fadd_s"
          (value.arg frs1_val
            (value.arg frs2_val
              (value.arg
                (value.choose
                  (value.icmp ICmpInst.ICMP_ULT
                    (value.constant ((rm : Nat) : Int) 8)
                    (value.constant 7 8))
                  (value.constant ((rm : Nat) : Int) 8)
                  (value.trunc (value.load reg_e.FCSR 0) 8))
                value.noarg))))
        32
      let res_val := r.1
      let tu := r.2
      let upper_val : Nat := uint_of_int 64 (-1)
      let tu := tu.store
        (value.l_or
          (value.shl (value.constant ((upper_val : Nat) : Int) 64) (value.constant 32 64))
          (value.ext res_val 64 true))
        (reg_e.F rd)
      tu
  let r := tu.assignment (value.callf "fget_flags" value.noarg) 32
  let flags_val := r.1
  let tu := r.2
  let r := tu.assignment_named "FCSR_val"
    (value.add
      (value.l_and (value.load reg_e.FCSR 0) (value.l_not (value.constant 31 32)))
      flags_val)
    32
  let FCSR_val_v := r.1
  let tu := r.2
  let tu := tu.store FCSR_val_v reg_e.FCSR
  let tu := tu.close_scope
  let tu := gen_set_pc tu pc reg_e.NEXT_PC
  let tu := gen_sync tu sync_type.POST_SYNC 76
  let tu := gen_trap_check tu
  handler_ret.mk continuation_e.CONT pc tu

/-- Source handler `__fsub_s` (instruction 77: FSUB.S). -/
def __fsub_s (disass_enabled : Bool) (pc : Nat) (instr : Nat) (tu : tu_builder) :
    handler_ret :=
  let tu := tu.raw (line.label "FSUB_S" pc)
  let tu := gen_sync tu sync_type.PRE_SYNC 77
  let rd : Nat := uint_t 8 (bit_sub 7 5 instr)
  let rm : Nat := uint_t 8 (bit_sub 12 3 instr)
  let rs1 : Nat := uint_t 8 (bit_sub 15 5 instr)
  let rs2 : Nat := uint_t 8 (bit_sub 20 5 instr)
  let tu := if disass_enabled then
      let tu := tu.raw
        (line.print_disass pc "fsub.s"
          [((rd : Nat) : Int), ((rs1 : Nat) : Int), ((rs2 : Nat) : Int)])
      tu
    else tu
  let cur_pc_val := value.constant ((pc : Nat) : Int) (reg_bit_widths reg_e.PC)
  let pc := pc + 4
  let tu := tu.open_scope
  let tu := if (64 : Nat) = 32 then
      let tu := tu.store
        (value.callf "fsub_s"
          (value.arg
            (value.load (reg_e.F rs1) 0)
            (value.arg
              (value.load (reg_e.F rs2) 0)
              (value.arg
                (value.choose
                  (value.icmp ICmpInst.ICMP_ULT
                    (value.constant ((rm : Nat) : Int) 8)
                    (value.constant 7 8))
                  (value.constant ((rm : Nat) : Int) 8)
                  (value.trunc (value.load reg_e.FCSR 0) 8))
                value.noarg))))
        (reg_e.F rd)
      tu
    else
      let r := tu.assignment
        (value.callf "unbox_s" (value.arg (value.load (reg_e.F rs1) 0) value.noarg))
        32
      let frs1_val := r.1
      let tu := r.2
      let r := tu.assignment
        (value.callf "unbox_s" (value.arg (value.load (reg_e.F rs2) 0) value.noarg))
        32
      let frs2_val := r.1
      let tu := r.2
      let r := tu.assignment
        (value.callf "fsub_s"
          (value.arg frs1_val
            (value.arg frs2_val
              (value.arg
                (value.choose
                  (value.icmp ICmpInst.ICMP_ULT
                    (value.constant ((rm : Nat) : Int) 8)
                    (value.constant 7 8))
                  (value.constant ((rm : Nat) : Int) 8)
                  (value.trunc (value.load reg_e.FCSR 0) 8))
                value.noarg))))
        32
      let res_val := r.1
      let tu := r.2
      let upper_val : Nat := uint_of_int 64 (-1)
      let tu := tu.store
        (value.l_or
          (value.shl (value.constant ((upper_val : Nat) : Int) 64) (value.constant 32 64))
          (value.ext res_val 64 true))
        (reg_e.F rd)
      tu
  let r := tu.assignment (value.callf "fget_flags" value.noarg) 32
  let flags_val := r.1
  let tu := r.2
  let r := tu.assignment_named "FCSR_val"
    (value.add
      (value.l_and (value.load reg_e.FCSR 0) (value.l_not (value.constant 31 32)))
      flags_val)
    32
  let FCSR_val_v := r.1
  let tu := r.2
  let tu := tu.store FCSR_val_v reg_e.FCSR
  let tu := tu.close_scope
  let tu := gen_set_pc tu pc reg_e.NEXT_PC
  let tu := gen_sync tu sync_type.POST_SYNC 77
  let tu := gen_trap_check tu
  handler_ret.mk continuation_e.CONT pc tu

/-- Source handler `__fmul_s` (instruction 78: FMUL.S). -/
def __fmul_s (disass_enabled : Bool) (pc : Nat) (instr : Nat) (tu : tu_builder) :
    handler_ret :=
  let tu := tu.raw (line.label "FMUL_S" pc)
  let tu := gen_sync tu sync_type.PRE_SYNC 78
  let rd : Nat := uint_t 8 (bit_sub 7 5 instr)
  let rm : Nat := uint_t 8 (bit_sub 12 3 instr)
  let rs1 : Nat := uint_t 8 (bit_sub 15 5 instr)
  let rs2 : Nat := uint_t 8 (bit_sub 20 5 instr)
  let tu := if disass_enabled then
      let tu := tu.raw
        (line.print_disass pc "fmul.s"
          [((rd : Nat) : Int), ((rs1 : Nat) : Int), ((rs2 : Nat) : Int)])
      tu
    else tu
  let cur_pc_val := value.constant ((pc : Nat) : Int) (reg_bit_widths reg_e.PC)
  let pc := pc + 4
  let tu := tu.open_scope
  let tu := if (64 : Nat) = 32 then
      let tu := tu.store
        (value.callf "fmul_s"
          (value.arg
            (value.load (reg_e.F rs1) 0)
            (value.arg
              (value.load (reg_e.F rs2) 0)
              (value.arg
                (value.choose
                  (value.icmp ICmpInst.ICMP_ULT
                    (value.constant ((rm : Nat) : Int) 8)
                    (value.constant 7 8))
                  (value.constant ((rm : Nat) : Int) 8)
                  (value.trunc (value.load reg_e.FCSR 0) 8))
                value.noarg))))
        (reg_e.F rd)
      tu
    else
      let r := tu.assignment
        (value.callf "unbox_s" (value.arg (value.load (reg_e.F rs1) 0) value.noarg))
        32
      let frs1_val := r.1
      let tu := r.2
      let r := tu.assignment
        (value.callf "unbox_s" (value.arg (value.load (reg_e.F rs2) 0) value.noarg))
        32
      let frs2_val := r.1
      let tu := r.2
      let r := tu.assignment
        (value.callf "fmul_s"
          (value.arg frs1_val
            (value.arg frs2_val
              (value.arg
                (value.choose
                  (value.icmp ICmpInst.ICMP_ULT
                    (value.constant ((rm : Nat) : Int) 8)
                    (value.constant 7 8))
                  (value.constant ((rm : Nat) : Int) 8)
                  (value.trunc (value.load reg_e.FCSR 0) 8))
                value.noarg))))
        32
      let res_val := r.1
      let tu := r.2
      let upper_val : Nat := uint_of_int 64 (-1)
      let tu := tu.store
        (value.l_or
          (value.shl (value.constant ((upper_val : Nat) : Int) 64) (value.constant 32 64))
          (value.ext res_val 64 true))
        (reg_e.F rd)
      tu
  let r := tu.assignment (value.callf "fget_flags" value.noarg) 32
  let flags_val := r.1
  let tu := r.2
  let r := tu.assignment_named "FCSR_val"
    (value.add
      (value.l_and (value.load reg_e.FCSR 0) (value.l_not (value.constant 31 32)))
      flags_val)
    32
  let FCSR_val_v := r.1
  let tu := r.2
  let tu := tu.store FCSR_val_v reg_e.FCSR
  let tu := tu.close_scope
  let tu := gen_set_pc tu pc reg_e.NEXT_PC
  let tu := gen_sync tu sync_type.POST_SYNC 78
  let tu := gen_trap_check tu
  handler_ret.mk continuation_e.CONT pc tu

/-- Source handler `__fdiv_s` (instruction 79: FDIV.S). -/
def __fdiv_s (disass_enabled : Bool) (pc : Nat) (instr : Nat) (tu : tu_builder) :
    handler_ret :=
  let tu := tu.raw (line.label "FDIV_S" pc)
  let tu := gen_sync tu sync_type.PRE_SYNC 79
  let rd : Nat := uint_t 8 (bit_sub 7 5 instr)
  let rm : Nat := uint_t 8 (bit_sub 12 3 instr)
  let rs1 : Nat := uint_t 8 (bit_sub 15 5 instr)
  let rs2 : Nat := uint_t 8 (bit_sub 20 5 instr)
  let tu := if disass_enabled then
      let tu := tu.raw
        (line.print_disass pc "fdiv.s"
          [((rd : Nat) : Int), ((rs1 : Nat) : Int), ((rs2 : Nat) : Int)])
      tu
    else tu
  let cur_pc_val := value.constant ((pc : Nat) : Int) (reg_bit_widths reg_e.PC)
  let pc := pc + 4
  let tu := tu.open_scope
  let tu := if (64 : Nat) = 32 then
      let tu := tu.store
        (value.callf "fdiv_s"
          (value.arg
            (value.load (reg_e.F rs1) 0)
            (value.arg
              (value.load (reg_e.F rs2) 0)
              (value.arg
                (value.choose
                  (value.icmp ICmpInst.ICMP_ULT
                    (value.constant ((rm : Nat) : Int) 8)
                    (value.constant 7 8))
                  (value.constant ((rm : Nat) : Int) 8)
                  (value.trunc (value.load reg_e.FCSR 0) 8))
                value.noarg))))
        (reg_e.F rd)
      tu
    else
      let r := tu.assignment
        (value.callf "unbox_s" (value.arg (value.load (reg_e.F rs1) 0) value.noarg))
        32
      let frs1_val := r.1
      let tu := r.2
      let r := tu.assignment
        (value.callf "unbox_s" (value.arg (value.load (reg_e.F rs2) 0) value.noarg))
        32
      let frs2_val := r.1
      let tu := r.2
      let r := tu.assignment
        (value.callf "fdiv_s"
          (value.arg frs1_val
            (value.arg frs2_val
              (value.arg
                (value.choose
                  (value.icmp ICmpInst.ICMP_ULT
                    (value.constant ((rm : Nat) : Int) 8)
                    (value.constant 7 8))
                  (value.constant ((rm : Nat) : Int) 8)
                  (value.trunc (value.load reg_e.FCSR 0) 8))
                value.noarg))))
        32
      let res_val := r.1
      let tu := r.2
      let upper_val : Nat := uint_of_int 64 (-1)
      let tu := tu.store
        (value.l_or
          (value.shl (value.constant ((upper_val : Nat) : Int) 64) (value.constant 32 64))
          (value.ext res_val 64 true))
        (reg_e.F rd)
      tu
  let r := tu.assignment (value.callf "fget_flags" value.noarg) 32
  let flags_val := r.1
  let tu := r.2
  let r := tu.assignment_named "FCSR_val"
    (value.add
      (value.l_and (value.load reg_e.FCSR 0) (value.l_not (value.constant 31 32)))
      flags_val)
    32
  let FCSR_val_v := r.1
  let tu := r.2
  let tu := tu.store FCSR_val_v reg_e.FCSR
  let tu := tu.close_scope
  let tu := gen_set_pc tu pc reg_e.NEXT_PC
  let tu := gen_sync tu sync_type.POST_SYNC 79
  let tu := gen_trap_check tu
  handler_ret.mk continuation_e.CONT pc tu

/-- Source handler `__fsqrt_s` (instruction 80: FSQRT.S). -/
def __fsqrt_s (disass_enabled : Bool) (pc : Nat) (instr : Nat) (tu : tu_builder) :
    handler_ret :=
  let tu := tu.raw (line.label "FSQRT_S" pc)
  let tu := gen_sync tu sync_type.PRE_SYNC 80
  let rd : Nat := uint_t 8 (bit_sub 7 5 instr)
  let rm : Nat := uint_t 8 (bit_sub 12 3 instr)
  let rs1 : Nat := uint_t 8 (bit_sub 15 5 instr)
  let tu := if disass_enabled then
      let tu := tu.raw (line.print_disass pc "fsqrt.s" [((rd : Nat) : Int), ((rs1 : Nat) : Int)])
      tu
    else tu
  let cur_pc_val := value.constant ((pc : Nat) : Int) (reg_bit_widths reg_e.PC)
  let pc := pc + 4
  let tu := tu.open_scope
  let tu := if (64 : Nat) = 32 then
      let tu := tu.store
        (value.callf "fsqrt_s"
          (value.arg
            (value.load (reg_e.F rs1) 0)
            (value.arg
              (value.choose
                (value.icmp ICmpInst.ICMP_ULT
                  (value.constant ((rm : Nat) : Int) 8)
                  (value.constant 7 8))
                (value.constant ((rm : Nat) : Int) 8)
                (value.trunc (value.load reg_e.FCSR 0) 8))
              value.noarg)))
        (reg_e.F rd)
      tu
    else
      let r := tu.assignment
        (value.callf "unbox_s" (value.arg (value.load (reg_e.F rs1) 0) value.noarg))
        32
      let frs1_val := r.1
      let tu := r.2
      let r := tu.assignment
        (value.callf "fsqrt_s"
          (value.arg frs1_val
            (value.arg
              (value.choose
                (value.icmp ICmpInst.ICMP_ULT
                  (value.constant ((rm : Nat) : Int) 8)
                  (value.constant 7 8))
                (value.constant ((rm : Nat) : Int) 8)
                (value.trunc (value.load reg_e.FCSR 0) 8))
              value.noarg)))
        32
      let res_val := r.1
      let tu := r.2
      let upper_val : Nat := uint_of_int 64 (-1)
      let tu := tu.store
        (value.l_or
          (value.shl (value.constant ((upper_val : Nat) : Int) 64) (value.constant 32 64))
          (value.ext res_val 64 true))
        (reg_e.F rd)
      tu
  let r := tu.assignment (value.callf "fget_flags" value.noarg) 32
  let flags_val := r.1
  let tu := r.2
  let r := tu.assignment_named "FCSR_val"
    (value.add
      (value.l_and (value.load reg_e.FCSR 0) (value.l_not (value.constant 31 32)))
      flags_val)
    32
  let FCSR_val_v := r.1
  let tu := r.2
  let tu := tu.store FCSR_val_v reg_e.FCSR
  let tu := tu.close_scope
  let tu := gen_set_pc tu pc reg_e.NEXT_PC
  let tu := gen_sync tu sync_type.POST_SYNC 80
  let tu := gen_trap_check tu
  handler_ret.mk continuation_e.CONT pc tu

/-- Source handler `__fsgnj_s` (instruction 81: FSGNJ.S). -/
def __fsgnj_s (disass_enabled : Bool) (pc : Nat) (instr : Nat) (tu : tu_builder) :
    handler_ret :=
  let tu := tu.raw (line.label "FSGNJ_S" pc)
  let tu := gen_sync tu sync_type.PRE_SYNC 81
  let rd : Nat := uint_t 8 (bit_sub 7 5 instr)
  let rs1 : Nat := uint_t 8 (bit_sub 15 5 instr)
  let rs2 : Nat := uint_t 8 (bit_sub 20 5 instr)
  let tu := if disass_enabled then
      let tu := tu.raw
        (line.print_disass pc "fsgnj.s"
          [((rd : Nat) : Int), ((rs1 : Nat) : Int), ((rs2 : Nat) : Int)])
      tu
    else tu
  let cur_pc_val := value.constant ((pc : Nat) : Int) (reg_bit_widths reg_e.PC)
  let pc := pc + 4
  let tu := tu.open_scope
  let tu := if (64 : Nat) = 32 then
      let tu := tu.store
        (value.l_or
          (value.l_and (value.load (reg_e.F rs1) 0) (value.constant 2147483647 64))
          (value.l_and (value.load (reg_e.F rs2) 0) (value.constant 2147483648 64)))
        (reg_e.F rd)
      tu
    else
      let r := tu.assignment
        (value.callf "unbox_s" (value.arg (value.load (reg_e.F rs1) 0) value.noarg))
        32
      let frs1_val := r.1
      let tu := r.2
      let r := tu.assignment
        (value.callf "unbox_s" (value.arg (value.load (reg_e.F rs2) 0) value.noarg))
        32
      let frs2_val := r.1
      let tu := r.2
      let r := tu.assignment
        (value.l_or
          (value.l_and frs1_val (value.constant 2147483647 32))
          (value.l_and frs2_val (value.constant 2147483648 32)))
        32
      let res_val := r.1
      let tu := r.2
      let upper_val : Nat := uint_of_int 64 (-1)
      let tu := tu.store
        (value.l_or
          (value.shl (value.constant ((upper_val : Nat) : Int) 64) (value.constant 32 64))
          (value.ext res_val 64 true))
        (reg_e.F rd)
      tu
  let tu := tu.close_scope
  let tu := gen_set_pc tu pc reg_e.NEXT_PC
  let tu := gen_sync tu sync_type.POST_SYNC 81
  let tu := gen_trap_check tu
  handler_ret.mk continuation_e.CONT pc tu

/-- Source handler `__fsgnjn_s` (instruction 82: FSGNJN.S). -/
def __fsgnjn_s (disass_enabled : Bool) (pc : Nat) (instr : Nat) (tu : tu_builder) :
    handler_ret :=
  let tu := tu.raw (line.label "FSGNJN_S" pc)
  let tu := gen_sync tu sync_type.PRE_SYNC 82
  let rd : Nat := uint_t 8 (bit_sub 7 5 instr)
  let rs1 : Nat := uint_t 8 (bit_sub 15 5 instr)
  let rs2 : Nat := uint_t 8 (bit_sub 20 5 instr)
  let tu := if disass_enabled then
      let tu := tu.raw
        (line.print_disass pc "fsgnjn.s"
          [((rd : Nat) : Int), ((rs1 : Nat) : Int), ((rs2 : Nat) : Int)])
      tu
    else tu
  let cur_pc_val := value.constant ((pc : Nat) : Int) (reg_bit_widths reg_e.PC)
  let pc := pc + 4
  let tu := tu.open_scope
  let tu := if (64 : Nat) = 32 then
      let tu := tu.store
        (value.l_or
          (value.l_and (value.load (reg_e.F rs1) 0) (value.constant 2147483647 64))
          (value.l_and (value.l_not (value.load (reg_e.F rs2) 0)) (value.constant 2147483648 64)))
        (reg_e.F rd)
      tu
    else
      let r := tu.assignment
        (value.callf "unbox_s" (value.arg (value.load (reg_e.F rs1) 0) value.noarg))
        32
      let frs1_val := r.1
      let tu := r.2
      let r := tu.assignment
        (value.callf "unbox_s" (value.arg (value.load (reg_e.F rs2) 0) value.noarg))
        32
      let frs2_val := r.1
      let tu := r.2
      let r := tu.assignment
        (value.l_or
          (value.l_and frs1_val (value.constant 2147483647 32))
          (value.l_and (value.l_not frs2_val) (value.constant 2147483648 32)))
        32
      let res_val := r.1
      let tu := r.2
      let upper_val : Nat := uint_of_int 64 (-1)
      let tu := tu.store
        (value.l_or
          (value.shl (value.constant ((upper_val : Nat) : Int) 64) (value.constant 32 64))
          (value.ext res_val 64 true))
        (reg_e.F rd)
      tu
  let tu := tu.close_scope
  let tu := gen_set_pc tu pc reg_e.NEXT_PC
  let tu := gen_sync tu sync_type.POST_SYNC 82
  let tu := gen_trap_check tu
  handler_ret.mk continuation_e.CONT pc tu

/-- Source handler `__fsgnjx_s` (instruction 83: FSGNJX.S). -/
def __fsgnjx_s (disass_enabled : Bool) (pc : Nat) (instr : Nat) (tu : tu_builder) :
    handler_ret :=
  let tu := tu.raw (line.label "FSGNJX_S" pc)
  let tu := gen_sync tu sync_type.PRE_SYNC 83
  let rd : Nat := uint_t 8 (bit_sub 7 5 instr)
  let rs1 : Nat := uint_t 8 (bit_sub 15 5 instr)
  let rs2 : Nat := uint_t 8 (bit_sub 20 5 instr)
  let tu := if disass_enabled then
      let tu := tu.raw
        (line.print_disass pc "fsgnjx.s"
          [((rd : Nat) : Int), ((rs1 : Nat) : Int), ((rs2 : Nat) : Int)])
      tu
    else tu
  let cur_pc_val := value.constant ((pc : Nat) : Int) (reg_bit_widths reg_e.PC)
  let pc := pc + 4
  let tu := tu.open_scope
  let tu := if (64 : Nat) = 32 then
      let tu := tu.store
        (value.l_xor
          (value.load (reg_e.F rs1) 0)
          (value.l_and (value.load (reg_e.F rs2) 0) (value.constant 2147483648 64)))
        (reg_e.F rd)
      tu
    else
      let r := tu.assignment
        (value.callf "unbox_s" (value.arg (value.load (reg_e.F rs1) 0) value.noarg))
        32
      let frs1_val := r.1
      let tu := r.2
      let r := tu.assignment
        (value.callf "unbox_s" (value.arg (value.load (reg_e.F rs2) 0) value.noarg))
        32
      let frs2_val := r.1
      let tu := r.2
      let r := tu.assignment
        (value.l_xor frs1_val (value.l_and frs2_val (value.constant 2147483648 32)))
        32
      let res_val := r.1
      let tu := r.2
      let upper_val : Nat := uint_of_int 64 (-1)
      let tu := tu.store
        (value.l_or
          (value.shl (value.constant ((upper_val : Nat) : Int) 64) (value.constant 32 64))
          (value.ext res_val 64 true))
        (reg_e.F rd)
      tu
  let tu := tu.close_scope
  let tu := gen_set_pc tu pc reg_e.NEXT_PC
  let tu := gen_sync tu sync_type.POST_SYNC 83
  let tu := gen_trap_check tu
  handler_ret.mk continuation_e.CONT pc tu

/-- Source handler `__fmin_s` (instruction 84: FMIN.S). -/
def __fmin_s (disass_enabled : Bool) (pc : Nat) (instr : Nat) (tu : tu_builder) :
    handler_ret :=
  let tu := tu.raw (line.label "FMIN_S" pc)
  let tu := gen_sync tu sync_type.PRE_SYNC 84
  let rd : Nat := uint_t 8 (bit_sub 7 5 instr)
  let rs1 : Nat := uint_t 8 (bit_sub 15 5 instr)
  let rs2 : Nat := uint_t 8 (bit_sub 20 5 instr)
  let tu := if disass_enabled then
      let tu := tu.raw
        (line.print_disass pc "fmin.s"
          [((rd : Nat) : Int), ((rs1 : Nat) : Int), ((rs2 : Nat) : Int)])
      tu
    else tu
  let cur_pc_val := value.constant ((pc : Nat) : Int) (reg_bit_widths reg_e.PC)
  let pc := pc + 4
  let tu := tu.open_scope
  let tu := if (64 : Nat) = 32 then
      let tu := tu.store
        (value.callf "fsel_s"
          (value.arg
            (value.load (reg_e.F rs1) 0)
            (value.arg
              (value.load (reg_e.F rs2) 0)
              (value.arg (value.ext (value.constant 0 64) 32 true) value.noarg))))
        (reg_e.F rd)
      tu
    else
      let r := tu.assignment
        (value.callf "unbox_s" (value.arg (value.load (reg_e.F rs1) 0) value.noarg))
        32
      let frs1_val := r.1
      let tu := r.2
      let r := tu.assignment
        (value.callf "unbox_s" (value.arg (value.load (reg_e.F rs2) 0) value.noarg))
        32
      let frs2_val := r.1
      let tu := r.2
      let r := tu.assignment
        (value.callf "fsel_s"
          (value.arg frs1_val
            (value.arg frs2_val (value.arg (value.ext (value.constant 0 64) 32 true) value.noarg))))
        32
      let res_val := r.1
      let tu := r.2
      let upper_val : Nat := uint_of_int 64 (-1)
      let tu := tu.store
        (value.l_or
          (value.shl (value.constant ((upper_val : Nat) : Int) 64) (value.constant 32 64))
          (value.ext res_val 64 true))
        (reg_e.F rd)
      tu
  let r := tu.assignment (value.callf "fget_flags" value.noarg) 32
  let flags_val := r.1
  let tu := r.2
  let r := tu.assignment_named "FCSR_val"
    (value.add
      (value.l_and (value.load reg_e.FCSR 0) (value.l_not (value.constant 31 32)))
      flags_val)
    32
  let FCSR_val_v := r.1
  let tu := r.2
  let tu := tu.store FCSR_val_v reg_e.FCSR
  let tu := tu.close_scope
  let tu := gen_set_pc tu pc reg_e.NEXT_PC
  let tu := gen_sync tu sync_type.POST_SYNC 84
  let tu := gen_trap_check tu
  handler_ret.mk continuation_e.CONT pc tu

/-- Source handler `__fmax_s` (instruction 85: FMAX.S). -/
def __fmax_s (disass_enabled : Bool) (pc : Nat) (instr : Nat) (tu : tu_builder) :
    handler_ret :=
  let tu := tu.raw (line.label "FMAX_S" pc)
  let tu := gen_sync tu sync_type.PRE_SYNC 85
  let rd : Nat := uint_t 8 (bit_sub 7 5 instr)
  let rs1 : Nat := uint_t 8 (bit_sub 15 5 instr)
  let rs2 : Nat := uint_t 8 (bit_sub 20 5 instr)
  let tu := if disass_enabled then
      let tu := tu.raw
        (line.print_disass pc "fmax.s"
          [((rd : Nat) : Int), ((rs1 : Nat) : Int), ((rs2 : Nat) : Int)])
      tu
    else tu
  let cur_pc_val := value.constant ((pc : Nat) : Int) (reg_bit_widths reg_e.PC)
  let pc := pc + 4
  let tu := tu.open_scope
  let tu := if (64 : Nat) = 32 then
      let tu := tu.store
        (value.callf "fsel_s"
          (value.arg
            (value.load (reg_e.F rs1) 0)
            (value.arg
              (value.load (reg_e.F rs2) 0)
              (value.arg (value.ext (value.constant 1 64) 32 true) value.noarg))))
        (reg_e.F rd)
      tu
    else
      let r := tu.assignment
        (value.callf "unbox_s" (value.arg (value.load (reg_e.F rs1) 0) value.noarg))
        32
      let frs1_val := r.1
      let tu := r.2
      let r := tu.assignment
        (value.callf "unbox_s" (value.arg (value.load (reg_e.F rs2) 0) value.noarg))
        32
      let frs2_val := r.1
      let tu := r.2
      let r := tu.assignment
        (value.callf "fsel_s"
          (value.arg frs1_val
            (value.arg frs2_val (value.arg (value.ext (value.constant 1 64) 32 true) value.noarg))))
        32
      let res_val := r.1
      let tu := r.2
      let upper_val : Nat := uint_of_int 64 (-1)
      let tu := tu.store
        (value.l_or
          (value.shl (value.constant ((upper_val : Nat) : Int) 64) (value.constant 32 64))
          (value.ext res_val 64 true))
        (reg_e.F rd)
      tu
  let r := tu.assignment (value.callf "fget_flags" value.noarg) 32
  let flags_val := r.1
  let tu := r.2
  let r := tu.assignment_named "FCSR_val"
    (value.add
      (value.l_and (value.load reg_e.FCSR 0) (value.l_not (value.constant 31 32)))
      flags_val)
    32
  let FCSR_val_v := r.1
  let tu := r.2
  let tu := tu.store FCSR_val_v reg_e.FCSR
  let tu := tu.close_scope
  let tu := gen_set_pc tu pc reg_e.NEXT_PC
  let tu := gen_sync tu sync_type.POST_SYNC 85
  let tu := gen_trap_check tu
  handler_ret.mk continuation_e.CONT pc tu

/-- Source handler `__fcvt_w_s` (instruction 86: FCVT.W.S). -/
def __fcvt_w_s (disass_enabled : Bool) (pc : Nat) (instr : Nat) (tu : tu_builder) :
    handler_ret :=
  let tu := tu.raw (line.label "FCVT_W_S" pc)
  let tu := gen_sync tu sync_type.PRE_SYNC 86
  let rd : Nat := uint_t 8 (bit_sub 7 5 instr)
  let rm : Nat := uint_t 8 (bit_sub 12 3 instr)
  let rs1 : Nat := uint_t 8 (bit_sub 15 5 instr)
  let tu := if disass_enabled then
      let tu := tu.raw (line.print_disass pc "fcvt.w.s" [((rd : Nat) : Int), ((rs1 : Nat) : Int)])
      tu
    else tu
  let cur_pc_val := value.constant ((pc : Nat) : Int) (reg_bit_widths reg_e.PC)
  let pc := pc + 4
  let tu := tu.open_scope
  let tu := if (64 : Nat) = 32 then
      let tu := tu.store
        (value.ext
          (value.callf "fcvt_s"
            (value.arg
              (value.load (reg_e.F rs1) 0)
              (value.arg
                (value.ext (value.constant 0 64) 32 true)
                (value.arg (value.constant ((rm : Nat) : Int) 8) value.noarg))))
          32
          false)
        (reg_e.X rd)
      tu
    else
      let r := tu.assignment
        (value.callf "unbox_s" (value.arg (value.load (reg_e.F rs1) 0) value.noarg))
        32
      let frs1_val := r.1
      let tu := r.2
      let tu := tu.store
        (value.ext
          (value.callf "fcvt_s"
            (value.arg frs1_val
              (value.arg
                (value.ext (value.constant 0 64) 32 true)
                (value.arg (value.constant ((rm : Nat) : Int) 8) value.noarg))))
          32
          false)
        (reg_e.X rd)
      tu
  let r := tu.assignment (value.callf "fget_flags" value.noarg) 32
  let flags_val := r.1
  let tu := r.2
  let r := tu.assignment_named "FCSR_val"
    (value.add
      (value.l_and (value.load reg_e.FCSR 0) (value.l_not (value.constant 31 32)))
      flags_val)
    32
  let FCSR_val_v := r.1
  let tu := r.2
  let tu := tu.store FCSR_val_v reg_e.FCSR
  let tu := tu.close_scope
  let tu := gen_set_pc tu pc reg_e.NEXT_PC
  let tu := gen_sync tu sync_type.POST_SYNC 86
  let tu := gen_trap_check tu
  handler_ret.mk continuation_e.CONT pc tu

/-- Source handler `__fcvt_wu_s` (instruction 87: FCVT.WU.S). -/
def __fcvt_wu_s (disass_enabled : Bool) (pc : Nat) (instr : Nat) (tu : tu_builder) :
    handler_ret :=
  let tu := tu.raw (line.label "FCVT_WU_S" pc)
  let tu := gen_sync tu sync_type.PRE_SYNC 87
  let rd : Nat := uint_t 8 (bit_sub 7 5 instr)
  let rm : Nat := uint_t 8 (bit_sub 12 3 instr)
  let rs1 : Nat := uint_t 8 (bit_sub 15 5 instr)
  let tu := if disass_enabled then
      let tu := tu.raw
        (line.print_disass pc "fcvt.wu.s" [((rd : Nat) : Int), ((rs1 : Nat) : Int)])
      tu
    else tu
  let cur_pc_val := value.constant ((pc : Nat) : Int) (reg_bit_widths reg_e.PC)
  let pc := pc + 4
  let tu := tu.open_scope
  let tu := if (64 : Nat) = 32 then
      let tu := tu.store
        (value.ext
          (value.callf "fcvt_s"
            (value.arg
              (value.load (reg_e.F rs1) 0)
              (value.arg
                (value.ext (value.constant 1 64) 32 true)
                (value.arg (value.constant ((rm : Nat) : Int) 8) value.noarg))))
          32
          false)
        (reg_e.X rd)
      tu
    else
      let r := tu.assignment
        (value.callf "unbox_s" (value.arg (value.load (reg_e.F rs1) 0) value.noarg))
        32
      let frs1_val := r.1
      let tu := r.2
      let tu := tu.store
        (value.ext
          (value.callf "fcvt_s"
            (value.arg frs1_val
              (value.arg
                (value.ext (value.constant 1 64) 32 true)
                (value.arg (value.constant ((rm : Nat) : Int) 8) value.noarg))))
          32
          false)
        (reg_e.X rd)
      tu
  let r := tu.assignment (value.callf "fget_flags" value.noarg) 32
  let flags_val := r.1
  let tu := r.2
  let r := tu.assignment_named "FCSR_val"
    (value.add
      (value.l_and (value.load reg_e.FCSR 0) (value.l_not (value.constant 31 32)))
      flags_val)
    32
  let FCSR_val_v := r.1
  let tu := r.2
  let tu := tu.store FCSR_val_v reg_e.FCSR
  let tu := tu.close_scope
  let tu := gen_set_pc tu pc reg_e.NEXT_PC
  let tu := gen_sync tu sync_type.POST_SYNC 87
  let tu := gen_trap_check tu
  handler_ret.mk continuation_e.CONT pc tu

/-- Source handler `__feq_s` (instruction 88: FEQ.S). -/
def __feq_s (disass_enabled : Bool) (pc : Nat) (instr : Nat) (tu : tu_builder) :
    handler_ret :=
  let tu := tu.raw (line.label "FEQ_S" pc)
  let tu := gen_sync tu sync_type.PRE_SYNC 88
  let rd : Nat := uint_t 8 (bit_sub 7 5 instr)
  let rs1 : Nat := uint_t 8 (bit_sub 15 5 instr)
  let rs2 : Nat := uint_t 8 (bit_sub 20 5 instr)
  let tu := if disass_enabled then
      let tu := tu.raw
        (line.print_disass pc "feq.s"
          [((rd : Nat) : Int), ((rs1 : Nat) : Int), ((rs2 : Nat) : Int)])
      tu
    else tu
  let cur_pc_val := value.constant ((pc : Nat) : Int) (reg_bit_widths reg_e.PC)
  let pc := pc + 4
  let tu := tu.open_scope
  let tu := if (64 : Nat) = 32 then
      let tu := tu.store
        (value.ext
          (value.callf "fcmp_s"
            (value.arg
              (value.load (reg_e.F rs1) 0)
              (value.arg
                (value.load (reg_e.F rs2) 0)
                (value.arg (value.ext (value.constant 0 64) 32 true) value.noarg))))
          32
          true)
        (reg_e.X rd)
      tu
    else
      let r := tu.assignment
        (value.callf "unbox_s" (value.arg (value.load (reg_e.F rs1) 0) value.noarg))
        32
      let frs1_val := r.1
      let tu := r.2
      let r := tu.assignment
        (value.callf "unbox_s" (value.arg (value.load (reg_e.F rs2) 0) value.noarg))
        32
      let frs2_val := r.1
      let tu := r.2
      let tu := tu.store
        (value.ext
          (value.callf "fcmp_s"
            (value.arg frs1_val
              (value.arg frs2_val
                (value.arg (value.ext (value.constant 0 64) 32 true) value.noarg))))
          32
          true)
        (reg_e.X rd)
      tu
  let r := tu.assignment (value.callf "fget_flags" value.noarg) 32
  let flags_val := r.1
  let tu := r.2
  let r := tu.assignment_named "FCSR_val"
    (value.add
      (value.l_and (value.load reg_e.FCSR 0) (value.l_not (value.constant 31 32)))
      flags_val)
    32
  let FCSR_val_v := r.1
  let tu := r.2
  let tu := tu.store FCSR_val_v reg_e.FCSR
  let tu := tu.close_scope
  let tu := gen_set_pc tu pc reg_e.NEXT_PC
  let tu := gen_sync tu sync_type.POST_SYNC 88
  let tu := gen_trap_check tu
  handler_ret.mk continuation_e.CONT pc tu

/-- Source handler `__flt_s` (instruction 89: FLT.S). -/
def __flt_s (disass_enabled : Bool) (pc : Nat) (instr : Nat) (tu : tu_builder) :
    handler_ret :=
  let tu := tu.raw (line.label "FLT_S" pc)
  let tu := gen_sync tu sync_type.PRE_SYNC 89
  let rd : Nat := uint_t 8 (bit_sub 7 5 instr)
  let rs1 : Nat := uint_t 8 (bit_sub 15 5 instr)
  let rs2 : Nat := uint_t 8 (bit_sub 20 5 instr)
  let tu := if disass_enabled then
      let tu := tu.raw
        (line.print_disass pc "flt.s"
          [((rd : Nat) : Int), ((rs1 : Nat) : Int), ((rs2 : Nat) : Int)])
      tu
    else tu
  let cur_pc_val := value.constant ((pc : Nat) : Int) (reg_bit_widths reg_e.PC)
  let pc := pc + 4
  let tu := tu.open_scope
  let tu := if (64 : Nat) = 32 then
      let tu := tu.store
        (value.ext
          (value.callf "fcmp_s"
            (value.arg
              (value.load (reg_e.F rs1) 0)
              (value.arg
                (value.load (reg_e.F rs2) 0)
                (value.arg (value.ext (value.constant 2 64) 32 true) value.noarg))))
          32
          true)
        (reg_e.X rd)
      tu
    else
      let r := tu.assignment
        (value.callf "unbox_s" (value.arg (value.load (reg_e.F rs1) 0) value.noarg))
        32
      let frs1_val := r.1
      let tu := r.2
      let r := tu.assignment
        (value.callf "unbox_s" (value.arg (value.load (reg_e.F rs2) 0) value.noarg))
        32
      let frs2_val := r.1
      let tu := r.2
      let tu := tu.store
        (value.ext
          (value.callf "fcmp_s"
            (value.arg frs1_val
              (value.arg frs2_val
                (value.arg (value.ext (value.constant 2 64) 32 true) value.noarg))))
          32
          true)
        (reg_e.X rd)
      tu
  let tu := tu.store
    (value.callf "fcmp_s"
      (value.arg
        (value.trunc (value.load (reg_e.F rs1) 0) 32)
        (value.arg
          (value.trunc (value.load (reg_e.F rs2) 0) 32)
          (value.arg (value.ext (value.constant 2 64) 32 true) value.noarg))))
    (reg_e.X rd)
  let r := tu.assignment (value.callf "fget_flags" value.noarg) 32
  let flags_val := r.1
  let tu := r.2
  let r := tu.assignment_named "FCSR_val"
    (value.add
      (value.l_and (value.load reg_e.FCSR 0) (value.l_not (value.constant 31 32)))
      flags_val)
    32
  let FCSR_val_v := r.1
  let tu := r.2
  let tu := tu.store FCSR_val_v reg_e.FCSR
  let tu := tu.close_scope
  let tu := gen_set_pc tu pc reg_e.NEXT_PC
  let tu := gen_sync tu sync_type.POST_SYNC 89
  let tu := gen_trap_check tu
  handler_ret.mk continuation_e.CONT pc tu

/-- Source handler `__fle_s` (instruction 90: FLE.S). -/
def __fle_s (disass_enabled : Bool) (pc : Nat) (instr : Nat) (tu : tu_builder) :
    handler_ret :=
  let tu := tu.raw (line.label "FLE_S" pc)
  let tu := gen_sync tu sync_type.PRE_SYNC 90
  let rd : Nat := uint_t 8 (bit_sub 7 5 instr)
  let rs1 : Nat := uint_t 8 (bit_sub 15 5 instr)
  let rs2 : Nat := uint_t 8 (bit_sub 20 5 instr)
  let tu := if disass_enabled then
      let tu := tu.raw
        (line.print_disass pc "fle.s"
          [((rd : Nat) : Int), ((rs1 : Nat) : Int), ((rs2 : Nat) : Int)])
      tu
    else tu
  let cur_pc_val := value.constant ((pc : Nat) : Int) (reg_bit_widths reg_e.PC)
  let pc := pc + 4
  let tu := tu.open_scope
  let tu := if (64 : Nat) = 32 then
      let tu := tu.store
        (value.ext
          (value.callf "fcmp_s"
            (value.arg
              (value.load (reg_e.F rs1) 0)
              (value.arg
                (value.load (reg_e.F rs2) 0)
                (value.arg (value.ext (value.constant 1 64) 32 true) value.noarg))))
          32
          true)
        (reg_e.X rd)
      tu
    else
      let r := tu.assignment
        (value.callf "unbox_s" (value.arg (value.load (reg_e.F rs1) 0) value.noarg))
        32
      let frs1_val := r.1
      let tu := r.2
      let r := tu.assignment
        (value.callf "unbox_s" (value.arg (value.load (reg_e.F rs2) 0) value.noarg))
        32
      let frs2_val := r.1
      let tu := r.2
      let tu := tu.store
        (value.ext
          (value.callf "fcmp_s"
            (value.arg frs1_val
              (value.arg frs2_val
                (value.arg (value.ext (value.constant 1 64) 32 true) value.noarg))))
          32
          true)
        (reg_e.X rd)
      tu
  let r := tu.assignment (value.callf "fget_flags" value.noarg) 32
  let flags_val := r.1
  let tu := r.2
  let r := tu.assignment_named "FCSR_val"
    (value.add
      (value.l_and (value.load reg_e.FCSR 0) (value.l_not (value.constant 31 32)))
      flags_val)
    32
  let FCSR_val_v := r.1
  let tu := r.2
  let tu := tu.store FCSR_val_v reg_e.FCSR
  let tu := tu.close_scope
  let tu := gen_set_pc tu pc reg_e.NEXT_PC
  let tu := gen_sync tu sync_type.POST_SYNC 90
  let tu := gen_trap_check tu
  handler_ret.mk continuation_e.CONT pc tu

/-- Source handler `__fclass_s` (instruction 91: FCLASS.S). -/
def __fclass_s (disass_enabled : Bool) (pc : Nat) (instr : Nat) (tu : tu_builder) :
    handler_ret :=
  let tu := tu.raw (line.label "FCLASS_S" pc)
  let tu := gen_sync tu sync_type.PRE_SYNC 91
  let rd : Nat := uint_t 8 (bit_sub 7 5 instr)
  let rs1 : Nat := uint_t 8 (bit_sub 15 5 instr)
  let tu := if disass_enabled then
      let tu := tu.raw (line.print_disass pc "fclass.s" [((rd : Nat) : Int), ((rs1 : Nat) : Int)])
      tu
    else tu
  let cur_pc_val := value.constant ((pc : Nat) : Int) (reg_bit_widths reg_e.PC)
  let pc := pc + 4
  let tu := tu.open_scope
  let tu := tu.store
    (value.callf "fclass_s"
      (value.arg
        (value.callf "unbox_s" (value.arg (value.load (reg_e.F rs1) 0) value.noarg))
        value.noarg))
    (reg_e.X rd)
  let tu := tu.close_scope
  let tu := gen_set_pc tu pc reg_e.NEXT_PC
  let tu := gen_sync tu sync_type.POST_SYNC 91
  let tu := gen_trap_check tu
  handler_ret.mk continuation_e.CONT pc tu

/-- Source handler `__fcvt_s_w` (instruction 92: FCVT.S.W). -/
def __fcvt_s_w (disass_enabled : Bool) (pc : Nat) (instr : Nat) (tu : tu_builder) :
    handler_ret :=
  let tu := tu.raw (line.label "FCVT_S_W" pc)
  let tu := gen_sync tu sync_type.PRE_SYNC 92
  let rd : Nat := uint_t 8 (bit_sub 7 5 instr)
  let rm : Nat := uint_t 8 (bit_sub 12 3 instr)
  let rs1 : Nat := uint_t 8 (bit_sub 15 5 instr)
  let tu := if disass_enabled then
      let tu := tu.raw (line.print_disass pc "fcvt.s.w" [((rd : Nat) : Int), ((rs1 : Nat) : Int)])
      tu
    else tu
  let cur_pc_val := value.constant ((pc : Nat) : Int) (reg_bit_widths reg_e.PC)
  let pc := pc + 4
  let tu := tu.open_scope
  let tu := if (64 : Nat) = 32 then
      let tu := tu.store
        (value.callf "fcvt_s"
          (value.arg
            (value.trunc (value.load (reg_e.X rs1) 0) 32)
            (value.arg
              (value.ext (value.constant 2 64) 32 true)
              (value.arg (value.constant ((rm : Nat) : Int) 8) value.noarg))))
        (reg_e.F rd)
      tu
    else
      let r := tu.assignment
        (value.callf "fcvt_s"
          (value.arg
            (value.trunc (value.load (reg_e.X rs1) 0) 32)
            (value.arg
              (value.ext (value.constant 2 64) 32 true)
              (value.arg (value.constant ((rm : Nat) : Int) 8) value.noarg))))
        32
      let res_val := r.1
      let tu := r.2
      let upper_val : Nat := uint_of_int 64 (-1)
      let tu := tu.store
        (value.l_or
          (value.shl (value.constant ((upper_val : Nat) : Int) 64) (value.constant 32 64))
          (value.ext res_val 64 true))
        (reg_e.F rd)
      tu
  let tu := tu.close_scope
  let tu := gen_set_pc tu pc reg_e.NEXT_PC
  let tu := gen_sync tu sync_type.POST_SYNC 92
  let tu := gen_trap_check tu
  handler_ret.mk continuation_e.CONT pc tu

/-- Source handler `__fcvt_s_wu` (instruction 93: FCVT.S.WU). -/
def __fcvt_s_wu (disass_enabled : Bool) (pc : Nat) (instr : Nat) (tu : tu_builder) :
    handler_ret :=
  let tu := tu.raw (line.label "FCVT_S_WU" pc)
  let tu := gen_sync tu sync_type.PRE_SYNC 93
  let rd : Nat := uint_t 8 (bit_sub 7 5 instr)
  let rm : Nat := uint_t 8 (bit_sub 12 3 instr)
  let rs1 : Nat := uint_t 8 (bit_sub 15 5 instr)
  let tu := if disass_enabled then
      let tu := tu.raw
        (line.print_disass pc "fcvt.s.wu" [((rd : Nat) : Int), ((rs1 : Nat) : Int)])
      tu
    else tu
  let cur_pc_val := value.constant ((pc : Nat) : Int) (reg_bit_widths reg_e.PC)
  let pc := pc + 4
  let tu := tu.open_scope
  let tu := if (64 : Nat) = 32 then
      let tu := tu.store
        (value.callf "fcvt_s"
          (value.arg
            (value.trunc (value.load (reg_e.X rs1) 0) 32)
            (value.arg
              (value.ext (value.constant 3 64) 32 true)
              (value.arg (value.constant ((rm : Nat) : Int) 8) value.noarg))))
        (reg_e.F rd)
      tu
    else
      let r := tu.assignment
        (value.callf "fcvt_s"
          (value.arg
            (value.trunc (value.load (reg_e.X rs1) 0) 32)
            (value.arg
              (value.ext (value.constant 3 64) 32 true)
              (value.arg (value.constant ((rm : Nat) : Int) 8) value.noarg))))
        32
      let res_val := r.1
      let tu := r.2
      let upper_val : Nat := uint_of_int 64 (-1)
      let tu := tu.store
        (value.l_or
          (value.shl (value.constant ((upper_val : Nat) : Int) 64) (value.constant 32 64))
          (value.ext res_val 64 true))
        (reg_e.F rd)
      tu
  let tu := tu.close_scope
  let tu := gen_set_pc tu pc reg_e.NEXT_PC
  let tu := gen_sync tu sync_type.POST_SYNC 93
  let tu := gen_trap_check tu
  handler_ret.mk continuation_e.CONT pc tu

/-- Source handler `__fmv_x_w` (instruction 94: FMV.X.W). -/
def __fmv_x_w (disass_enabled : Bool) (pc : Nat) (instr : Nat) (tu : tu_builder) :
    handler_ret :=
  let tu := tu.raw (line.label "FMV_X_W" pc)
  let tu := gen_sync tu sync_type.PRE_SYNC 94
  let rd : Nat := uint_t 8 (bit_sub 7 5 instr)
  let rs1 : Nat := uint_t 8 (bit_sub 15 5 instr)
  let tu := if disass_enabled then
      let tu := tu.raw (line.print_disass pc "fmv.x.w" [((rd : Nat) : Int), ((rs1 : Nat) : Int)])
      tu
    else tu
  let cur_pc_val := value.constant ((pc : Nat) : Int) (reg_bit_widths reg_e.PC)
  let pc := pc + 4
  let tu := tu.open_scope
  let tu := tu.store
    (value.ext (value.trunc (value.load (reg_e.F rs1) 0) 32) 32 false)
    (reg_e.X rd)
  let tu := tu.close_scope
  let tu := gen_set_pc tu pc reg_e.NEXT_PC
  let tu := gen_sync tu sync_type.POST_SYNC 94
  let tu := gen_trap_check tu
  handler_ret.mk continuation_e.CONT pc tu

/-- Source handler `__fmv_w_x` (instruction 95: FMV.W.X). -/
def __fmv_w_x (disass_enabled : Bool) (pc : Nat) (instr : Nat) (tu : tu_builder) :
    handler_ret :=
  let tu := tu.raw (line.label "FMV_W_X" pc)
  let tu := gen_sync tu sync_type.PRE_SYNC 95
  let rd : Nat := uint_t 8 (bit_sub 7 5 instr)
  let rs1 : Nat := uint_t 8 (bit_sub 15 5 instr)
  let tu := if disass_enabled then
      let tu := tu.raw (line.print_disass pc "fmv.w.x" [((rd : Nat) : Int), ((rs1 : Nat) : Int)])
      tu
    else tu
  let cur_pc_val := value.constant ((pc : Nat) : Int) (reg_bit_widths reg_e.PC)
  let pc := pc + 4
  let tu := tu.open_scope
  let tu := if (64 : Nat) = 32 then
      let tu := tu.store (value.trunc (value.load (reg_e.X rs1) 0) 32) (reg_e.F rd)
      tu
    else
      let upper_val : Nat := uint_of_int 64 (-1)
      let tu := tu.store
        (value.l_or
          (value.shl (value.constant ((upper_val : Nat) : Int) 64) (value.constant 32 64))
          (value.ext (value.trunc (value.load (reg_e.X rs1) 0) 32) 64 true))
        (reg_e.F rd)
      tu
  let tu := tu.close_scope
  let tu := gen_set_pc tu pc reg_e.NEXT_PC
  let tu := gen_sync tu sync_type.POST_SYNC 95
  let tu := gen_trap_check tu
  handler_ret.mk continuation_e.CONT pc tu

/-- Source handler `__fld` (instruction 96: FLD). -/
def __fld (disass_enabled : Bool) (pc : Nat) (instr : Nat) (tu : tu_builder) :
    handler_ret :=
  let tu := tu.raw (line.label "FLD" pc)
  let tu := gen_sync tu sync_type.PRE_SYNC 96
  let rd : Nat := uint_t 8 (bit_sub 7 5 instr)
  let rs1 : Nat := uint_t 8 (bit_sub 15 5 instr)
  let imm : Int := signextend 16 12 (bit_sub 20 12 instr)
  let tu := if disass_enabled then
      let tu := tu.raw (line.print_disass pc "fld" [((rd : Nat) : Int), imm, ((rs1 : Nat) : Int)])
      tu
    else tu
  let cur_pc_val := value.constant ((pc : Nat) : Int) (reg_bit_widths reg_e.PC)
  let pc := pc + 4
  let tu := tu.open_scope
  let r := tu.assignment
    (value.add (value.ext (value.load (reg_e.X rs1) 0) 32 false) (value.constant imm 32))
    32
  let offs_val := r.1
  let tu := r.2
  let r := tu.assignment (value.read_mem mem_type_e.MEM offs_val 64) 64
  let res_val := r.1
  let tu := r.2
  let tu := if (64 : Nat) = 64 then
      let tu := tu.store res_val (reg_e.F rd)
      tu
    else
      let upper_val : Nat := uint_of_int 64 (-1)
      let tu := tu.store
        (value.l_or
          (value.shl (value.constant ((upper_val : Nat) : Int) 64) (value.constant 64 64))
          res_val)
        (reg_e.F rd)
      tu
  let tu := tu.close_scope
  let tu := gen_set_pc tu pc reg_e.NEXT_PC
  let tu := gen_sync tu sync_type.POST_SYNC 96
  let tu := gen_trap_check tu
  handler_ret.mk continuation_e.CONT pc tu

/-- Source handler `__fsd` (instruction 97: FSD). -/
def __fsd (disass_enabled : Bool) (pc : Nat) (instr : Nat) (tu : tu_builder) :
    handler_ret :=
  let tu := tu.raw (line.label "FSD" pc)
  let tu := gen_sync tu sync_type.PRE_SYNC 97
  let imm : Int := signextend 16 12 ((bit_sub 7 5 instr) ||| ((bit_sub 25 7 instr) <<< 5))
  let rs1 : Nat := uint_t 8 (bit_sub 15 5 instr)
  let rs2 : Nat := uint_t 8 (bit_sub 20 5 instr)
  let tu := if disass_enabled then
      let tu := tu.raw
        (line.print_disass pc "fsd" [((rs2 : Nat) : Int), imm, ((rs1 : Nat) : Int)])
      tu
    else tu
  let cur_pc_val := value.constant ((pc : Nat) : Int) (reg_bit_widths reg_e.PC)
  let pc := pc + 4
  let tu := tu.open_scope
  let r := tu.assignment
    (value.add (value.ext (value.load (reg_e.X rs1) 0) 32 false) (value.constant imm 32))
    32
  let offs_val := r.1
  let tu := r.2
  let tu := tu.write_mem mem_type_e.MEM offs_val
    (value.trunc (value.trunc (value.load (reg_e.F rs2) 0) 64) 64)
  let tu := tu.close_scope
  let tu := gen_set_pc tu pc reg_e.NEXT_PC
  let tu := gen_sync tu sync_type.POST_SYNC 97
  let tu := gen_trap_check tu
  handler_ret.mk continuation_e.CONT pc tu

/-- Source handler `__fmadd_d` (instruction 98: FMADD.D). -/
def __fmadd_d (disass_enabled : Bool) (pc : Nat) (instr : Nat) (tu : tu_builder) :
    handler_ret :=
  let tu := tu.raw (line.label "FMADD_D" pc)
  let tu := gen_sync tu sync_type.PRE_SYNC 98
  let rd : Nat := uint_t 8 (bit_sub 7 5 instr)
  let rm : Nat := uint_t 8 (bit_sub 12 3 instr)
  let rs1 : Nat := uint_t 8 (bit_sub 15 5 instr)
  let rs2 : Nat := uint_t 8 (bit_sub 20 5 instr)
  let rs3 : Nat := uint_t 8 (bit_sub 27 5 instr)
  let tu := if disass_enabled then
      let tu := tu.raw
        (line.print_disass pc "fmadd.d"
          [((rd : Nat) : Int), ((rs1 : Nat) : Int), ((rs2 : Nat) : Int), ((rs3 : Nat) : Int)])
      tu
    else tu
  let cur_pc_val := value.constant ((pc : Nat) : Int) (reg_bit_widths reg_e.PC)
  let pc := pc + 4
  let tu := tu.open_scope
  let r := tu.assignment
    (value.callf "fmadd_d"
      (value.arg
        (value.trunc (value.load (reg_e.F rs1) 0) 64)
        (value.arg
          (value.trunc (value.load (reg_e.F rs2) 0) 64)
          (value.arg
            (value.trunc (value.load (reg_e.F rs3) 0) 64)
            (value.arg
              (value.ext (value.constant 0 64) 64 true)
              (value.arg
                (value.choose
                  (value.icmp ICmpInst.ICMP_ULT
                    (value.constant ((rm : Nat) : Int) 8)
                    (value.constant 7 8))
                  (value.constant ((rm : Nat) : Int) 8)
                  (value.trunc (value.load reg_e.FCSR 0) 8))
                value.noarg))))))
    64
  let res_val := r.1
  let tu := r.2
  let tu := if (64 : Nat) = 64 then
      let tu := tu.store res_val (reg_e.F rd)
      tu
    else
      let upper_val : Nat := uint_of_int 64 (-1)
      let tu := tu.store
        (value.l_or
          (value.shl (value.constant ((upper_val : Nat) : Int) 64) (value.constant 64 64))
          res_val)
        (reg_e.F rd)
      tu
  let r := tu.assignment (value.callf "fget_flags" value.noarg) 32
  let flags_val := r.1
  let tu := r.2
  let r := tu.assignment_named "FCSR_val"
    (value.add
      (value.l_and (value.load reg_e.FCSR 0) (value.l_not (value.constant 31 32)))
      flags_val)
    32
  let FCSR_val_v := r.1
  let tu := r.2
  let tu := tu.store FCSR_val_v reg_e.FCSR
  let tu := tu.close_scope
  let tu := gen_set_pc tu pc reg_e.NEXT_PC
  let tu := gen_sync tu sync_type.POST_SYNC 98
  let tu := gen_trap_check tu
  handler_ret.mk continuation_e.CONT pc tu

/-- Source handler `__fmsub_d` (instruction 99: FMSUB.D). -/
def __fmsub_d (disass_enabled : Bool) (pc : Nat) (instr : Nat) (tu : tu_builder) :
    handler_ret :=
  let tu := tu.raw (line.label "FMSUB_D" pc)
  let tu := gen_sync tu sync_type.PRE_SYNC 99
  let rd : Nat := uint_t 8 (bit_sub 7 5 instr)
  let rm : Nat := uint_t 8 (bit_sub 12 3 instr)
  let rs1 : Nat := uint_t 8 (bit_sub 15 5 instr)
  let rs2 : Nat := uint_t 8 (bit_sub 20 5 instr)
  let rs3 : Nat := uint_t 8 (bit_sub 27 5 instr)
  let tu := if disass_enabled then
      let tu := tu.raw
        (line.print_disass pc "fmsub.d"
          [((rd : Nat) : Int), ((rs1 : Nat) : Int), ((rs2 : Nat) : Int), ((rs3 : Nat) : Int)])
      tu
    else tu
  let cur_pc_val := value.constant ((pc : Nat) : Int) (reg_bit_widths reg_e.PC)
  let pc := pc + 4
  let tu := tu.open_scope
  let r := tu.assignment
    (value.callf "fmadd_d"
      (value.arg
        (value.trunc (value.load (reg_e.F rs1) 0) 64)
        (value.arg
          (value.trunc (value.load (reg_e.F rs2) 0) 64)
          (value.arg
            (value.trunc (value.load (reg_e.F rs3) 0) 64)
            (value.arg
              (value.ext (value.constant 1 64) 32 true)
              (value.arg
                (value.choose
                  (value.icmp ICmpInst.ICMP_ULT
                    (value.constant ((rm : Nat) : Int) 8)
                    (value.constant 7 8))
                  (value.constant ((rm : Nat) : Int) 8)
                  (value.trunc (value.load reg_e.FCSR 0) 8))
                value.noarg))))))
    64
  let res_val := r.1
  let tu := r.2
  let tu := if (64 : Nat) = 64 then
      let tu := tu.store res_val (reg_e.F rd)
      tu
    else
      let upper_val : Nat := uint_of_int 64 (-1)
      let tu := tu.store
        (value.l_or
          (value.shl (value.constant ((upper_val : Nat) : Int) 64) (value.constant 64 64))
          res_val)
        (reg_e.F rd)
      tu
  let r := tu.assignment (value.callf "fget_flags" value.noarg) 32
  let flags_val := r.1
  let tu := r.2
  let r := tu.assignment_named "FCSR_val"
    (value.add
      (value.l_and (value.load reg_e.FCSR 0) (value.l_not (value.constant 31 32)))
      flags_val)
    32
  let FCSR_val_v := r.1
  let tu := r.2
  let tu := tu.store FCSR_val_v reg_e.FCSR
  let tu := tu.close_scope
  let tu := gen_set_pc tu pc reg_e.NEXT_PC
  let tu := gen_sync tu sync_type.POST_SYNC 99
  let tu := gen_trap_check tu
  handler_ret.mk continuation_e.CONT pc tu

/-- Source handler `__fnmadd_d` (instruction 100: FNMADD.D). -/
def __fnmadd_d (disass_enabled : Bool) (pc : Nat) (instr : Nat) (tu : tu_builder) :
    handler_ret :=
  let tu := tu.raw (line.label "FNMADD_D" pc)
  let tu := gen_sync tu sync_type.PRE_SYNC 100
  let rd : Nat := uint_t 8 (bit_sub 7 5 instr)
  let rm : Nat := uint_t 8 (bit_sub 12 3 instr)
  let rs1 : Nat := uint_t 8 (bit_sub 15 5 instr)
  let rs2 : Nat := uint_t 8 (bit_sub 20 5 instr)
  let rs3 : Nat := uint_t 8 (bit_sub 27 5 instr)
  let tu := if disass_enabled then
      let tu := tu.raw
        (line.print_disass pc "fnmadd.d"
          [((rd : Nat) : Int), ((rs1 : Nat) : Int), ((rs2 : Nat) : Int), ((rs3 : Nat) : Int)])
      tu
    else tu
  let cur_pc_val := value.constant ((pc : Nat) : Int) (reg_bit_widths reg_e.PC)
  let pc := pc + 4
  let tu := tu.open_scope
  let r := tu.assignment
    (value.callf "fmadd_d"
      (value.arg
        (value.trunc (value.load (reg_e.F rs1) 0) 64)
        (value.arg
          (value.trunc (value.load (reg_e.F rs2) 0) 64)
          (value.arg
            (value.trunc (value.load (reg_e.F rs3) 0) 64)
            (value.arg
              (value.ext (value.constant 2 64) 32 true)
              (value.arg
                (value.choose
                  (value.icmp ICmpInst.ICMP_ULT
                    (value.constant ((rm : Nat) : Int) 8)
                    (value.constant 7 8))
                  (value.constant ((rm : Nat) : Int) 8)
                  (value.trunc (value.load reg_e.FCSR 0) 8))
                value.noarg))))))
    64
  let res_val := r.1
  let tu := r.2
  let tu := if (64 : Nat) = 64 then
      let tu := tu.store res_val (reg_e.F rd)
      tu
    else
      let upper_val : Nat := uint_of_int 64 (-1)
      let tu := tu.store
        (value.l_or
          (value.shl (value.constant ((upper_val : Nat) : Int) 64) (value.constant 64 64))
          res_val)
        (reg_e.F rd)
      tu
  let r := tu.assignment (value.callf "fget_flags" value.noarg) 32
  let flags_val := r.1
  let tu := r.2
  let r := tu.assignment_named "FCSR_val"
    (value.add
      (value.l_and (value.load reg_e.FCSR 0) (value.l_not (value.constant 31 32)))
      flags_val)
    32
  let FCSR_val_v := r.1
  let tu := r.2
  let tu := tu.store FCSR_val_v reg_e.FCSR
  let tu := tu.close_scope
  let tu := gen_set_pc tu pc reg_e.NEXT_PC
  let tu := gen_sync tu sync_type.POST_SYNC 100
  let tu := gen_trap_check tu
  handler_ret.mk continuation_e.CONT pc tu

/-- Source handler `__fnmsub_d` (instruction 101: FNMSUB.D). -/
def __fnmsub_d (disass_enabled : Bool) (pc : Nat) (instr : Nat) (tu : tu_builder) :
    handler_ret :=
  let tu := tu.raw (line.label "FNMSUB_D" pc)
  let tu := gen_sync tu sync_type.PRE_SYNC 101
  let rd : Nat := uint_t 8 (bit_sub 7 5 instr)
  let rm : Nat := uint_t 8 (bit_sub 12 3 instr)
  let rs1 : Nat := uint_t 8 (bit_sub 15 5 instr)
  let rs2 : Nat := uint_t 8 (bit_sub 20 5 instr)
  let rs3 : Nat := uint_t 8 (bit_sub 27 5 instr)
  let tu := if disass_enabled then
      let tu := tu.raw
        (line.print_disass pc "fnmsub.d"
          [((rd : Nat) : Int), ((rs1 : Nat) : Int), ((rs2 : Nat) : Int), ((rs3 : Nat) : Int)])
      tu
    else tu
  let cur_pc_val := value.constant ((pc : Nat) : Int) (reg_bit_widths reg_e.PC)
  let pc := pc + 4
  let tu := tu.open_scope
  let r := tu.assignment
    (value.callf "fmadd_d"
      (value.arg
        (value.trunc (value.load (reg_e.F rs1) 0) 64)
        (value.arg
          (value.trunc (value.load (reg_e.F rs2) 0) 64)
          (value.arg
            (value.trunc (value.load (reg_e.F rs3) 0) 64)
            (value.arg
              (value.ext (value.constant 3 64) 32 true)
              (value.arg
                (value.choose
                  (value.icmp ICmpInst.ICMP_ULT
                    (value.constant ((rm : Nat) : Int) 8)
                    (value.constant 7 8))
                  (value.constant ((rm : Nat) : Int) 8)
                  (value.trunc (value.load reg_e.FCSR 0) 8))
                value.noarg))))))
    64
  let res_val := r.1
  let tu := r.2
  let tu := if (64 : Nat) = 64 then
      let tu := tu.store res_val (reg_e.F rd)
      tu
    else
      let upper_val : Nat := uint_of_int 64 (-1)
      let tu := tu.store
        (value.l_or
          (value.shl (value.constant ((upper_val : Nat) : Int) 64) (value.constant 64 64))
          res_val)
        (reg_e.F rd)
      tu
  let r := tu.assignment (value.callf "fget_flags" value.noarg) 32
  let flags_val := r.1
  let tu := r.2
  let r := tu.assignment_named "FCSR_val"
    (value.add
      (value.l_and (value.load reg_e.FCSR 0) (value.l_not (value.constant 31 32)))
      flags_val)
    32
  let FCSR_val_v := r.1
  let tu := r.2
  let tu := tu.store FCSR_val_v reg_e.FCSR
  let tu := tu.close_scope
  let tu := gen_set_pc tu pc reg_e.NEXT_PC
  let tu := gen_sync tu sync_type.POST_SYNC 101
  let tu := gen_trap_check tu
  handler_ret.mk continuation_e.CONT pc tu

/-- Source handler `__fadd_d` (instruction 102: FADD.D). -/
def __fadd_d (disass_enabled : Bool) (pc : Nat) (instr : Nat) (tu : tu_builder) :
    handler_ret :=
  let tu := tu.raw (line.label "FADD_D" pc)
  let tu := gen_sync tu sync_type.PRE_SYNC 102
  let rd : Nat := uint_t 8 (bit_sub 7 5 instr)
  let rm : Nat := uint_t 8 (bit_sub 12 3 instr)
  let rs1 : Nat := uint_t 8 (bit_sub 15 5 instr)
  let rs2 : Nat := uint_t 8 (bit_sub 20 5 instr)
  let tu := if disass_enabled then
      let tu := tu.raw
        (line.print_disass pc "fadd.d"
          [((rd : Nat) : Int), ((rs1 : Nat) : Int), ((rs2 : Nat) : Int)])
      tu
    else tu
  let cur_pc_val := value.constant ((pc : Nat) : Int) (reg_bit_widths reg_e.PC)
  let pc := pc + 4
  let tu := tu.open_scope
  let r := tu.assignment
    (value.callf "fadd_d"
      (value.arg
        (value.trunc (value.load (reg_e.F rs1) 0) 64)
        (value.arg
          (value.trunc (value.load (reg_e.F rs2) 0) 64)
          (value.arg
            (value.choose
              (value.icmp ICmpInst.ICMP_ULT
                (value.constant ((rm : Nat) : Int) 8)
                (value.constant 7 8))
              (value.constant ((rm : Nat) : Int) 8)
              (value.trunc (value.load reg_e.FCSR 0) 8))
            value.noarg))))
    64
  let res_val := r.1
  let tu := r.2
  let tu := if (64 : Nat) = 64 then
      let tu := tu.store res_val (reg_e.F rd)
      tu
    else
      let upper_val : Nat := uint_of_int 64 (-1)
      let tu := tu.store
        (value.l_or
          (value.shl (value.constant ((upper_val : Nat) : Int) 64) (value.constant 64 64))
          res_val)
        (reg_e.F rd)
      tu
  let r := tu.assignment (value.callf "fget_flags" value.noarg) 32
  let flags_val := r.1
  let tu := r.2
  let r := tu.assignment_named "FCSR_val"
    (value.add
      (value.l_and (value.load reg_e.FCSR 0) (value.l_not (value.constant 31 32)))
      flags_val)
    32
  let FCSR_val_v := r.1
  let tu := r.2
  let tu := tu.store FCSR_val_v reg_e.FCSR
  let tu := tu.close_scope
  let tu := gen_set_pc tu pc reg_e.NEXT_PC
  let tu := gen_sync tu sync_type.POST_SYNC 102
  let tu := gen_trap_check tu
  handler_ret.mk continuation_e.CONT pc tu

/-- Source handler `__fsub_d` (instruction 103: FSUB.D). -/
def __fsub_d (disass_enabled : Bool) (pc : Nat) (instr : Nat) (tu : tu_builder) :
    handler_ret :=
  let tu := tu.raw (line.label "FSUB_D" pc)
  let tu := gen_sync tu sync_type.PRE_SYNC 103
  let rd : Nat := uint_t 8 (bit_sub 7 5 instr)
  let rm : Nat := uint_t 8 (bit_sub 12 3 instr)
  let rs1 : Nat := uint_t 8 (bit_sub 15 5 instr)
  let rs2 : Nat := uint_t 8 (bit_sub 20 5 instr)
  let tu := if disass_enabled then
      let tu := tu.raw
        (line.print_disass pc "fsub.d"
          [((rd : Nat) : Int), ((rs1 : Nat) : Int), ((rs2 : Nat) : Int)])
      tu
    else tu
  let cur_pc_val := value.constant ((pc : Nat) : Int) (reg_bit_widths reg_e.PC)
  let pc := pc + 4
  let tu := tu.open_scope
  let r := tu.assignment
    (value.callf "fsub_d"
      (value.arg
        (value.trunc (value.load (reg_e.F rs1) 0) 64)
        (value.arg
          (value.trunc (value.load (reg_e.F rs2) 0) 64)
          (value.arg
            (value.choose
              (value.icmp ICmpInst.ICMP_ULT
                (value.constant ((rm : Nat) : Int) 8)
                (value.constant 7 8))
              (value.constant ((rm : Nat) : Int) 8)
              (value.trunc (value.load reg_e.FCSR 0) 8))
            value.noarg))))
    64
  let res_val := r.1
  let tu := r.2
  let tu := if (64 : Nat) = 64 then
      let tu := tu.store res_val (reg_e.F rd)
      tu
    else
      let upper_val : Nat := uint_of_int 64 (-1)
      let tu := tu.store
        (value.l_or
          (value.shl (value.constant ((upper_val : Nat) : Int) 64) (value.constant 64 64))
          res_val)
        (reg_e.F rd)
      tu
  let r := tu.assignment (value.callf "fget_flags" value.noarg) 32
  let flags_val := r.1
  let tu := r.2
  let r := tu.assignment_named "FCSR_val"
    (value.add
      (value.l_and (value.load reg_e.FCSR 0) (value.l_not (value.constant 31 32)))
      flags_val)
    32
  let FCSR_val_v := r.1
  let tu := r.2
  let tu := tu.store FCSR_val_v reg_e.FCSR
  let tu := tu.close_scope
  let tu := gen_set_pc tu pc reg_e.NEXT_PC
  let tu := gen_sync tu sync_type.POST_SYNC 103
  let tu := gen_trap_check tu
  handler_ret.mk continuation_e.CONT pc tu

/-- Source handler `__fmul_d` (instruction 104: FMUL.D). -/
def __fmul_d (disass_enabled : Bool) (pc : Nat) (instr : Nat) (tu : tu_builder) :
    handler_ret :=
  let tu := tu.raw (line.label "FMUL_D" pc)
  let tu := gen_sync tu sync_type.PRE_SYNC 104
  let rd : Nat := uint_t 8 (bit_sub 7 5 instr)
  let rm : Nat := uint_t 8 (bit_sub 12 3 instr)
  let rs1 : Nat := uint_t 8 (bit_sub 15 5 instr)
  let rs2 : Nat := uint_t 8 (bit_sub 20 5 instr)
  let tu := if disass_enabled then
      let tu := tu.raw
        (line.print_disass pc "fmul.d"
          [((rd : Nat) : Int), ((rs1 : Nat) : Int), ((rs2 : Nat) : Int)])
      tu
    else tu
  let cur_pc_val := value.constant ((pc : Nat) : Int) (reg_bit_widths reg_e.PC)
  let pc := pc + 4
  let tu := tu.open_scope
  let r := tu.assignment
    (value.callf "fmul_d"
      (value.arg
        (value.trunc (value.load (reg_e.F rs1) 0) 64)
        (value.arg
          (value.trunc (value.load (reg_e.F rs2) 0) 64)
          (value.arg
            (value.choose
              (value.icmp ICmpInst.ICMP_ULT
                (value.constant ((rm : Nat) : Int) 8)
                (value.constant 7 8))
              (value.constant ((rm : Nat) : Int) 8)
              (value.trunc (value.load reg_e.FCSR 0) 8))
            value.noarg))))
    64
  let res_val := r.1
  let tu := r.2
  let tu := if (64 : Nat) = 64 then
      let tu := tu.store res_val (reg_e.F rd)
      tu
    else
      let upper_val : Nat := uint_of_int 64 (-1)
      let tu := tu.store
        (value.l_or
          (value.shl (value.constant ((upper_val : Nat) : Int) 64) (value.constant 64 64))
          res_val)
        (reg_e.F rd)
      tu
  let r := tu.assignment (value.callf "fget_flags" value.noarg) 32
  let flags_val := r.1
  let tu := r.2
  let r := tu.assignment_named "FCSR_val"
    (value.add
      (value.l_and (value.load reg_e.FCSR 0) (value.l_not (value.constant 31 32)))
      flags_val)
    32
  let FCSR_val_v := r.1
  let tu := r.2
  let tu := tu.store FCSR_val_v reg_e.FCSR
  let tu := tu.close_scope
  let tu := gen_set_pc tu pc reg_e.NEXT_PC
  let tu := gen_sync tu sync_type.POST_SYNC 104
  let tu := gen_trap_check tu
  handler_ret.mk continuation_e.CONT pc tu

/-- Source handler `__fdiv_d` (instruction 105: FDIV.D). -/
def __fdiv_d (disass_enabled : Bool) (pc : Nat) (instr : Nat) (tu : tu_builder) :
    handler_ret :=
  let tu := tu.raw (line.label "FDIV_D" pc)
  let tu := gen_sync tu sync_type.PRE_SYNC 105
  let rd : Nat := uint_t 8 (bit_sub 7 5 instr)
  let rm : Nat := uint_t 8 (bit_sub 12 3 instr)
  let rs1 : Nat := uint_t 8 (bit_sub 15 5 instr)
  let rs2 : Nat := uint_t 8 (bit_sub 20 5 instr)
  let tu := if disass_enabled then
      let tu := tu.raw
        (line.print_disass pc "fdiv.d"
          [((rd : Nat) : Int), ((rs1 : Nat) : Int), ((rs2 : Nat) : Int)])
      tu
    else tu
  let cur_pc_val := value.constant ((pc : Nat) : Int) (reg_bit_widths reg_e.PC)
  let pc := pc + 4
  let tu := tu.open_scope
  let r := tu.assignment
    (value.callf "fdiv_d"
      (value.arg
        (value.trunc (value.load (reg_e.F rs1) 0) 64)
        (value.arg
          (value.trunc (value.load (reg_e.F rs2) 0) 64)
          (value.arg
            (value.choose
              (value.icmp ICmpInst.ICMP_ULT
                (value.constant ((rm : Nat) : Int) 8)
                (value.constant 7 8))
              (value.constant ((rm : Nat) : Int) 8)
              (value.trunc (value.load reg_e.FCSR 0) 8))
            value.noarg))))
    64
  let res_val := r.1
  let tu := r.2
  let tu := if (64 : Nat) = 64 then
      let tu := tu.store res_val (reg_e.F rd)
      tu
    else
      let upper_val : Nat := uint_of_int 64 (-1)
      let tu := tu.store
        (value.l_or
          (value.shl (value.constant ((upper_val : Nat) : Int) 64) (value.constant 64 64))
          res_val)
        (reg_e.F rd)
      tu
  let r := tu.assignment (value.callf "fget_flags" value.noarg) 32
  let flags_val := r.1
  let tu := r.2
  let r := tu.assignment_named "FCSR_val"
    (value.add
      (value.l_and (value.load reg_e.FCSR 0) (value.l_not (value.constant 31 32)))
      flags_val)
    32
  let FCSR_val_v := r.1
  let tu := r.2
  let tu := tu.store FCSR_val_v reg_e.FCSR
  let tu := tu.close_scope
  let tu := gen_set_pc tu pc reg_e.NEXT_PC
  let tu := gen_sync tu sync_type.POST_SYNC 105
  let tu := gen_trap_check tu
  handler_ret.mk continuation_e.CONT pc tu

/-- Source handler `__fsqrt_d` (instruction 106: FSQRT.D). -/
def __fsqrt_d (disass_enabled : Bool) (pc : Nat) (instr : Nat) (tu : tu_builder) :
    handler_ret :=
  let tu := tu.raw (line.label "FSQRT_D" pc)
  let tu := gen_sync tu sync_type.PRE_SYNC 106
  let rd : Nat := uint_t 8 (bit_sub 7 5 instr)
  let rm : Nat := uint_t 8 (bit_sub 12 3 instr)
  let rs1 : Nat := uint_t 8 (bit_sub 15 5 instr)
  let tu := if disass_enabled then
      let tu := tu.raw (line.print_disass pc "fsqrt.d" [((rd : Nat) : Int), ((rs1 : Nat) : Int)])
      tu
    else tu
  let cur_pc_val := value.constant ((pc : Nat) : Int) (reg_bit_widths reg_e.PC)
  let pc := pc + 4
  let tu := tu.open_scope
  let r := tu.assignment
    (value.callf "fsqrt_d"
      (value.arg
        (value.trunc (value.load (reg_e.F rs1) 0) 64)
        (value.arg
          (value.choose
            (value.icmp ICmpInst.ICMP_ULT
              (value.constant ((rm : Nat) : Int) 8)
              (value.constant 7 8))
            (value.constant ((rm : Nat) : Int) 8)
            (value.trunc (value.load reg_e.FCSR 0) 8))
          value.noarg)))
    64
  let res_val := r.1
  let tu := r.2
  let tu := if (64 : Nat) = 64 then
      let tu := tu.store res_val (reg_e.F rd)
      tu
    else
      let upper_val : Nat := uint_of_int 64 (-1)
      let tu := tu.store
        (value.l_or
          (value.shl (value.constant ((upper_val : Nat) : Int) 64) (value.constant 64 64))
          res_val)
        (reg_e.F rd)
      tu
  let r := tu.assignment (value.callf "fget_flags" value.noarg) 32
  let flags_val := r.1
  let tu := r.2
  let r := tu.assignment_named "FCSR_val"
    (value.add
      (value.l_and (value.load reg_e.FCSR 0) (value.l_not (value.constant 31 32)))
      flags_val)
    32
  let FCSR_val_v := r.1
  let tu := r.2
  let tu := tu.store FCSR_val_v reg_e.FCSR
  let tu := tu.close_scope
  let tu := gen_set_pc tu pc reg_e.NEXT_PC
  let tu := gen_sync tu sync_type.POST_SYNC 106
  let tu := gen_trap_check tu
  handler_ret.mk continuation_e.CONT pc tu

/-- Source handler `__fsgnj_d` (instruction 107: FSGNJ.D). -/
def __fsgnj_d (disass_enabled : Bool) (pc : Nat) (instr : Nat) (tu : tu_builder) :
    handler_ret :=
  let tu := tu.raw (line.label "FSGNJ_D" pc)
  let tu := gen_sync tu sync_type.PRE_SYNC 107
  let rd : Nat := uint_t 8 (bit_sub 7 5 instr)
  let rs1 : Nat := uint_t 8 (bit_sub 15 5 instr)
  let rs2 : Nat := uint_t 8 (bit_sub 20 5 instr)
  let tu := if disass_enabled then
      let tu := tu.raw
        (line.print_disass pc "fsgnj.d"
          [((rd : Nat) : Int), ((rs1 : Nat) : Int), ((rs2 : Nat) : Int)])
      tu
    else tu
  let cur_pc_val := value.constant ((pc : Nat) : Int) (reg_bit_widths reg_e.PC)
  let pc := pc + 4
  let tu := tu.open_scope
  let ONE_val : Nat := uint_t 64 1
  let MSK1_val : Nat := uint_t 64 (ONE_val <<< 63)
  let MSK2_val : Nat := uint_of_int 64 (((MSK1_val : Nat) : Int) - (1 : Int))
  let r := tu.assignment
    (value.l_or
      (value.l_and
        (value.trunc (value.load (reg_e.F rs1) 0) 64)
        (value.constant ((MSK2_val : Nat) : Int) 64))
      (value.l_and
        (value.trunc (value.load (reg_e.F rs2) 0) 64)
        (value.constant ((MSK1_val : Nat) : Int) 64)))
    64
  let res_val := r.1
  let tu := r.2
  let tu := if (64 : Nat) = 64 then
      let tu := tu.store res_val (reg_e.F rd)
      tu
    else
      let upper_val : Nat := uint_of_int 64 (-1)
      let tu := tu.store
        (value.l_or
          (value.shl (value.constant ((upper_val : Nat) : Int) 64) (value.constant 64 64))
          res_val)
        (reg_e.F rd)
      tu
  let tu := tu.close_scope
  let tu := gen_set_pc tu pc reg_e.NEXT_PC
  let tu := gen_sync tu sync_type.POST_SYNC 107
  let tu := gen_trap_check tu
  handler_ret.mk continuation_e.CONT pc tu

/-- Source handler `__fsgnjn_d` (instruction 108: FSGNJN.D). -/
def __fsgnjn_d (disass_enabled : Bool) (pc : Nat) (instr : Nat) (tu : tu_builder) :
    handler_ret :=
  let tu := tu.raw (line.label "FSGNJN_D" pc)
  let tu := gen_sync tu sync_type.PRE_SYNC 108
  let rd : Nat := uint_t 8 (bit_sub 7 5 instr)
  let rs1 : Nat := uint_t 8 (bit_sub 15 5 instr)
  let rs2 : Nat := uint_t 8 (bit_sub 20 5 instr)
  let tu := if disass_enabled then
      let tu := tu.raw
        (line.print_disass pc "fsgnjn.d"
          [((rd : Nat) : Int), ((rs1 : Nat) : Int), ((rs2 : Nat) : Int)])
      tu
    else tu
  let cur_pc_val := value.constant ((pc : Nat) : Int) (reg_bit_widths reg_e.PC)
  let pc := pc + 4
  let tu := tu.open_scope
  let ONE_val : Nat := uint_t 64 1
  let MSK1_val : Nat := uint_t 64 (ONE_val <<< 63)
  let MSK2_val : Nat := uint_of_int 64 (((MSK1_val : Nat) : Int) - (1 : Int))
  let r := tu.assignment
    (value.l_or
      (value.l_and
        (value.trunc (value.load (reg_e.F rs1) 0) 64)
        (value.constant ((MSK2_val : Nat) : Int) 64))
      (value.l_and
        (value.l_not (value.trunc (value.load (reg_e.F rs2) 0) 64))
        (value.constant ((MSK1_val : Nat) : Int) 64)))
    64
  let res_val := r.1
  let tu := r.2
  let tu := if (64 : Nat) = 64 then
      let tu := tu.store res_val (reg_e.F rd)
      tu
    else
      let upper_val : Nat := uint_of_int 64 (-1)
      let tu := tu.store
        (value.l_or
          (value.shl (value.constant ((upper_val : Nat) : Int) 64) (value.constant 64 64))
          res_val)
        (reg_e.F rd)
      tu
  let tu := tu.close_scope
  let tu := gen_set_pc tu pc reg_e.NEXT_PC
  let tu := gen_sync tu sync_type.POST_SYNC 108
  let tu := gen_trap_check tu
  handler_ret.mk continuation_e.CONT pc tu

/-- Source handler `__fsgnjx_d` (instruction 109: FSGNJX.D). -/
def __fsgnjx_d (disass_enabled : Bool) (pc : Nat) (instr : Nat) (tu : tu_builder) :
    handler_ret :=
  let tu := tu.raw (line.label "FSGNJX_D" pc)
  let tu := gen_sync tu sync_type.PRE_SYNC 109
  let rd : Nat := uint_t 8 (bit_sub 7 5 instr)
  let rs1 : Nat := uint_t 8 (bit_sub 15 5 instr)
  let rs2 : Nat := uint_t 8 (bit_sub 20 5 instr)
  let tu := if disass_enabled then
      let tu := tu.raw
        (line.print_disass pc "fsgnjx.d"
          [((rd : Nat) : Int), ((rs1 : Nat) : Int), ((rs2 : Nat) : Int)])
      tu
    else tu
  let cur_pc_val := value.constant ((pc : Nat) : Int) (reg_bit_widths reg_e.PC)
  let pc := pc + 4
  let tu := tu.open_scope
  let ONE_val : Nat := uint_t 64 1
  let MSK1_val : Nat := uint_t 64 (ONE_val <<< 63)
  let r := tu.assignment
    (value.l_xor
      (value.trunc (value.load (reg_e.F rs1) 0) 64)
      (value.l_and
        (value.trunc (value.load (reg_e.F rs2) 0) 64)
        (value.constant ((MSK1_val : Nat) : Int) 64)))
    64
  let res_val := r.1
  let tu := r.2
  let tu := if (64 : Nat) = 64 then
      let tu := tu.store res_val (reg_e.F rd)
      tu
    else
      let upper_val : Nat := uint_of_int 64 (-1)
      let tu := tu.store
        (value.l_or
          (value.shl (value.constant ((upper_val : Nat) : Int) 64) (value.constant 64 64))
          res_val)
        (reg_e.F rd)
      tu
  let tu := tu.close_scope
  let tu := gen_set_pc tu pc reg_e.NEXT_PC
  let tu := gen_sync tu sync_type.POST_SYNC 109
  let tu := gen_trap_check tu
  handler_ret.mk continuation_e.CONT pc tu

/-- Source handler `__fmin_d` (instruction 110: FMIN.D). -/
def __fmin_d (disass_enabled : Bool) (pc : Nat) (instr : Nat) (tu : tu_builder) :
    handler_ret :=
  let tu := tu.raw (line.label "FMIN_D" pc)
  let tu := gen_sync tu sync_type.PRE_SYNC 110
  let rd : Nat := uint_t 8 (bit_sub 7 5 instr)
  let rs1 : Nat := uint_t 8 (bit_sub 15 5 instr)
  let rs2 : Nat := uint_t 8 (bit_sub 20 5 instr)
  let tu := if disass_enabled then
      let tu := tu.raw
        (line.print_disass pc "fmin.d"
          [((rd : Nat) : Int), ((rs1 : Nat) : Int), ((rs2 : Nat) : Int)])
      tu
    else tu
  let cur_pc_val := value.constant ((pc : Nat) : Int) (reg_bit_widths reg_e.PC)
  let pc := pc + 4
  let tu := tu.open_scope
  let r := tu.assignment
    (value.callf "fsel_d"
      (value.arg
        (value.trunc (value.load (reg_e.F rs1) 0) 64)
        (value.arg
          (value.trunc (value.load (reg_e.F rs2) 0) 64)
          (value.arg (value.ext (value.constant 0 64) 32 true) value.noarg))))
    64
  let res_val := r.1
  let tu := r.2
  let tu := if (64 : Nat) = 64 then
      let tu := tu.store res_val (reg_e.F rd)
      tu
    else
      let upper_val : Nat := uint_of_int 64 (-1)
      let tu := tu.store
        (value.l_or
          (value.shl (value.constant ((upper_val : Nat) : Int) 64) (value.constant 64 64))
          res_val)
        (reg_e.F rd)
      tu
  let r := tu.assignment (value.callf "fget_flags" value.noarg) 32
  let flags_val := r.1
  let tu := r.2
  let r := tu.assignment_named "FCSR_val"
    (value.add
      (value.l_and (value.load reg_e.FCSR 0) (value.l_not (value.constant 31 32)))
      flags_val)
    32
  let FCSR_val_v := r.1
  let tu := r.2
  let tu := tu.store FCSR_val_v reg_e.FCSR
  let tu := tu.close_scope
  let tu := gen_set_pc tu pc reg_e.NEXT_PC
  let tu := gen_sync tu sync_type.POST_SYNC 110
  let tu := gen_trap_check tu
  handler_ret.mk continuation_e.CONT pc tu

/-- Source handler `__fmax_d` (instruction 111: FMAX.D). -/
def __fmax_d (disass_enabled : Bool) (pc : Nat) (instr : Nat) (tu : tu_builder) :
    handler_ret :=
  let tu := tu.raw (line.label "FMAX_D" pc)
  let tu := gen_sync tu sync_type.PRE_SYNC 111
  let rd : Nat := uint_t 8 (bit_sub 7 5 instr)
  let rs1 : Nat := uint_t 8 (bit_sub 15 5 instr)
  let rs2 : Nat := uint_t 8 (bit_sub 20 5 instr)
  let tu := if disass_enabled then
      let tu := tu.raw
        (line.print_disass pc "fmax.d"
          [((rd : Nat) : Int), ((rs1 : Nat) : Int), ((rs2 : Nat) : Int)])
      tu
    else tu
  let cur_pc_val := value.constant ((pc : Nat) : Int) (reg_bit_widths reg_e.PC)
  let pc := pc + 4
  let tu := tu.open_scope
  let r := tu.assignment
    (value.callf "fsel_d"
      (value.arg
        (value.trunc (value.load (reg_e.F rs1) 0) 64)
        (value.arg
          (value.trunc (value.load (reg_e.F rs2) 0) 64)
          (value.arg (value.ext (value.constant 1 64) 32 true) value.noarg))))
    64
  let res_val := r.1
  let tu := r.2
  let tu := if (64 : Nat) = 64 then
      let tu := tu.store res_val (reg_e.F rd)
      tu
    else
      let upper_val : Nat := uint_of_int 64 (-1)
      let tu := tu.store
        (value.l_or
          (value.shl (value.constant ((upper_val : Nat) : Int) 64) (value.constant 64 64))
          res_val)
        (reg_e.F rd)
      tu
  let r := tu.assignment (value.callf "fget_flags" value.noarg) 32
  let flags_val := r.1
  let tu := r.2
  let r := tu.assignment_named "FCSR_val"
    (value.add
      (value.l_and (value.load reg_e.FCSR 0) (value.l_not (value.constant 31 32)))
      flags_val)
    32
  let FCSR_val_v := r.1
  let tu := r.2
  let tu := tu.store FCSR_val_v reg_e.FCSR
  let tu := tu.close_scope
  let tu := gen_set_pc tu pc reg_e.NEXT_PC
  let tu := gen_sync tu sync_type.POST_SYNC 111
  let tu := gen_trap_check tu
  handler_ret.mk continuation_e.CONT pc tu

/-- Source handler `__fcvt_s_d` (instruction 112: FCVT.S.D). -/
def __fcvt_s_d (disass_enabled : Bool) (pc : Nat) (instr : Nat) (tu : tu_builder) :
    handler_ret :=
  let tu := tu.raw (line.label "FCVT_S_D" pc)
  let tu := gen_sync tu sync_type.PRE_SYNC 112
  let rd : Nat := uint_t 8 (bit_sub 7 5 instr)
  let rm : Nat := uint_t 8 (bit_sub 12 3 instr)
  let rs1 : Nat := uint_t 8 (bit_sub 15 5 instr)
  let tu := if disass_enabled then
      let tu := tu.raw (line.print_disass pc "fcvt.s.d" [((rd : Nat) : Int), ((rs1 : Nat) : Int)])
      tu
    else tu
  let cur_pc_val := value.constant ((pc : Nat) : Int) (reg_bit_widths reg_e.PC)
  let pc := pc + 4
  let tu := tu.open_scope
  let r := tu.assignment
    (value.callf "fconv_d2f"
      (value.arg
        (value.load (reg_e.F rs1) 0)
        (value.arg (value.constant ((rm : Nat) : Int) 8) value.noarg)))
    32
  let res_val := r.1
  let tu := r.2
  let upper_val : Nat := uint_of_int 64 (-1)
  let tu := tu.store
    (value.l_or
      (value.shl (value.constant ((upper_val : Nat) : Int) 64) (value.constant 32 64))
      (value.ext res_val 64 true))
    (reg_e.F rd)
  let tu := tu.close_scope
  let tu := gen_set_pc tu pc reg_e.NEXT_PC
  let tu := gen_sync tu sync_type.POST_SYNC 112
  let tu := gen_trap_check tu
  handler_ret.mk continuation_e.CONT pc tu

/-- Source handler `__fcvt_d_s` (instruction 113: FCVT.D.S). -/
def __fcvt_d_s (disass_enabled : Bool) (pc : Nat) (instr : Nat) (tu : tu_builder) :
    handler_ret :=
  let tu := tu.raw (line.label "FCVT_D_S" pc)
  let tu := gen_sync tu sync_type.PRE_SYNC 113
  let rd : Nat := uint_t 8 (bit_sub 7 5 instr)
  let rm : Nat := uint_t 8 (bit_sub 12 3 instr)
  let rs1 : Nat := uint_t 8 (bit_sub 15 5 instr)
  let tu := if disass_enabled then
      let tu := tu.raw (line.print_disass pc "fcvt.d.s" [((rd : Nat) : Int), ((rs1 : Nat) : Int)])
      tu
    else tu
  let cur_pc_val := value.constant ((pc : Nat) : Int) (reg_bit_widths reg_e.PC)
  let pc := pc + 4
  let tu := tu.open_scope
  let r := tu.assignment
    (value.callf "fconv_f2d"
      (value.arg
        (value.trunc (value.load (reg_e.F rs1) 0) 32)
        (value.arg (value.constant ((rm : Nat) : Int) 8) value.noarg)))
    64
  let res_val := r.1
  let tu := r.2
  let tu := if (64 : Nat) = 64 then
      let tu := tu.store res_val (reg_e.F rd)
      tu
    else
      let upper_val : Nat := uint_of_int 64 (-1)
      let tu := tu.store
        (value.l_or
          (value.shl (value.constant ((upper_val : Nat) : Int) 64) (value.constant 64 64))
          res_val)
        (reg_e.F rd)
      tu
  let tu := tu.close_scope
  let tu := gen_set_pc tu pc reg_e.NEXT_PC
  let tu := gen_sync tu sync_type.POST_SYNC 113
  let tu := gen_trap_check tu
  handler_ret.mk continuation_e.CONT pc tu

/-- Source handler `__feq_d` (instruction 114: FEQ.D). -/
def __feq_d (disass_enabled : Bool) (pc : Nat) (instr : Nat) (tu : tu_builder) :
    handler_ret :=
  let tu := tu.raw (line.label "FEQ_D" pc)
  let tu := gen_sync tu sync_type.PRE_SYNC 114
  let rd : Nat := uint_t 8 (bit_sub 7 5 instr)
  let rs1 : Nat := uint_t 8 (bit_sub 15 5 instr)
  let rs2 : Nat := uint_t 8 (bit_sub 20 5 instr)
  let tu := if disass_enabled then
      let tu := tu.raw
        (line.print_disass pc "feq.d"
          [((rd : Nat) : Int), ((rs1 : Nat) : Int), ((rs2 : Nat) : Int)])
      tu
    else tu
  let cur_pc_val := value.constant ((pc : Nat) : Int) (reg_bit_widths reg_e.PC)
  let pc := pc + 4
  let tu := tu.open_scope
  let tu := tu.store
    (value.ext
      (value.callf "fcmp_d"
        (value.arg
          (value.trunc (value.load (reg_e.F rs1) 0) 64)
          (value.arg
            (value.trunc (value.load (reg_e.F rs2) 0) 64)
            (value.arg (value.ext (value.constant 0 64) 32 true) value.noarg))))
      32
      true)
    (reg_e.X rd)
  let r := tu.assignment (value.callf "fget_flags" value.noarg) 32
  let flags_val := r.1
  let tu := r.2
  let r := tu.assignment_named "FCSR_val"
    (value.add
      (value.l_and (value.load reg_e.FCSR 0) (value.l_not (value.constant 31 32)))
      flags_val)
    32
  let FCSR_val_v := r.1
  let tu := r.2
  let tu := tu.store FCSR_val_v reg_e.FCSR
  let tu := tu.close_scope
  let tu := gen_set_pc tu pc reg_e.NEXT_PC
  let tu := gen_sync tu sync_type.POST_SYNC 114
  let tu := gen_trap_check tu
  handler_ret.mk continuation_e.CONT pc tu

/-- Source handler `__flt_d` (instruction 115: FLT.D). -/
def __flt_d (disass_enabled : Bool) (pc : Nat) (instr : Nat) (tu : tu_builder) :
    handler_ret :=
  let tu := tu.raw (line.label "FLT_D" pc)
  let tu := gen_sync tu sync_type.PRE_SYNC 115
  let rd : Nat := uint_t 8 (bit_sub 7 5 instr)
  let rs1 : Nat := uint_t 8 (bit_sub 15 5 instr)
  let rs2 : Nat := uint_t 8 (bit_sub 20 5 instr)
  let tu := if disass_enabled then
      let tu := tu.raw
        (line.print_disass pc "flt.d"
          [((rd : Nat) : Int), ((rs1 : Nat) : Int), ((rs2 : Nat) : Int)])
      tu
    else tu
  let cur_pc_val := value.constant ((pc : Nat) : Int) (reg_bit_widths reg_e.PC)
  let pc := pc + 4
  let tu := tu.open_scope
  let tu := tu.store
    (value.ext
      (value.callf "fcmp_d"
        (value.arg
          (value.trunc (value.load (reg_e.F rs1) 0) 64)
          (value.arg
            (value.trunc (value.load (reg_e.F rs2) 0) 64)
            (value.arg (value.ext (value.constant 2 64) 32 true) value.noarg))))
      32
      true)
    (reg_e.X rd)
  let r := tu.assignment (value.callf "fget_flags" value.noarg) 32
  let flags_val := r.1
  let tu := r.2
  let r := tu.assignment_named "FCSR_val"
    (value.add
      (value.l_and (value.load reg_e.FCSR 0) (value.l_not (value.constant 31 32)))
      flags_val)
    32
  let FCSR_val_v := r.1
  let tu := r.2
  let tu := tu.store FCSR_val_v reg_e.FCSR
  let tu := tu.close_scope
  let tu := gen_set_pc tu pc reg_e.NEXT_PC
  let tu := gen_sync tu sync_type.POST_SYNC 115
  let tu := gen_trap_check tu
  handler_ret.mk continuation_e.CONT pc tu

/-- Source handler `__fle_d` (instruction 116: FLE.D). -/
def __fle_d (disass_enabled : Bool) (pc : Nat) (instr : Nat) (tu : tu_builder) :
    handler_ret :=
  let tu := tu.raw (line.label "FLE_D" pc)
  let tu := gen_sync tu sync_type.PRE_SYNC 116
  let rd : Nat := uint_t 8 (bit_sub 7 5 instr)
  let rs1 : Nat := uint_t 8 (bit_sub 15 5 instr)
  let rs2 : Nat := uint_t 8 (bit_sub 20 5 instr)
  let tu := if disass_enabled then
      let tu := tu.raw
        (line.print_disass pc "fle.d"
          [((rd : Nat) : Int), ((rs1 : Nat) : Int), ((rs2 : Nat) : Int)])
      tu
    else tu
  let cur_pc_val := value.constant ((pc : Nat) : Int) (reg_bit_widths reg_e.PC)
  let pc := pc + 4
  let tu := tu.open_scope
  let tu := tu.store
    (value.ext
      (value.callf "fcmp_d"
        (value.arg
          (value.trunc (value.load (reg_e.F rs1) 0) 64)
          (value.arg
            (value.trunc (value.load (reg_e.F rs2) 0) 64)
            (value.arg (value.ext (value.constant 1 64) 32 true) value.noarg))))
      32
      true)
    (reg_e.X rd)
  let r := tu.assignment (value.callf "fget_flags" value.noarg) 32
  let flags_val := r.1
  let tu := r.2
  let r := tu.assignment_named "FCSR_val"
    (value.add
      (value.l_and (value.load reg_e.FCSR 0) (value.l_not (value.constant 31 32)))
      flags_val)
    32
  let FCSR_val_v := r.1
  let tu := r.2
  let tu := tu.store FCSR_val_v reg_e.FCSR
  let tu := tu.close_scope
  let tu := gen_set_pc tu pc reg_e.NEXT_PC
  let tu := gen_sync tu sync_type.POST_SYNC 116
  let tu := gen_trap_check tu
  handler_ret.mk continuation_e.CONT pc tu

/-- Source handler `__fclass_d` (instruction 117: FCLASS.D). -/
def __fclass_d (disass_enabled : Bool) (pc : Nat) (instr : Nat) (tu : tu_builder) :
    handler_ret :=
  let tu := tu.raw (line.label "FCLASS_D" pc)
  let tu := gen_sync tu sync_type.PRE_SYNC 117
  let rd : Nat := uint_t 8 (bit_sub 7 5 instr)
  let rs1 : Nat := uint_t 8 (bit_sub 15 5 instr)
  let tu := if disass_enabled then
      let tu := tu.raw (line.print_disass pc "fclass.d" [((rd : Nat) : Int), ((rs1 : Nat) : Int)])
      tu
    else tu
  let cur_pc_val := value.constant ((pc : Nat) : Int) (reg_bit_widths reg_e.PC)
  let pc := pc + 4
  let tu := tu.open_scope
  let tu := tu.store
    (value.callf "fclass_d" (value.arg (value.trunc (value.load (reg_e.F rs1) 0) 64) value.noarg))
    (reg_e.X rd)
  let tu := tu.close_scope
  let tu := gen_set_pc tu pc reg_e.NEXT_PC
  let tu := gen_sync tu sync_type.POST_SYNC 117
  let tu := gen_trap_check tu
  handler_ret.mk continuation_e.CONT pc tu

/-- Source handler `__fcvt_w_d` (instruction 118: FCVT.W.D). -/
def __fcvt_w_d (disass_enabled : Bool) (pc : Nat) (instr : Nat) (tu : tu_builder) :
    handler_ret :=
  let tu := tu.raw (line.label "FCVT_W_D" pc)
  let tu := gen_sync tu sync_type.PRE_SYNC 118
  let rd : Nat := uint_t 8 (bit_sub 7 5 instr)
  let rm : Nat := uint_t 8 (bit_sub 12 3 instr)
  let rs1 : Nat := uint_t 8 (bit_sub 15 5 instr)
  let tu := if disass_enabled then
      let tu := tu.raw (line.print_disass pc "fcvt.w.d" [((rd : Nat) : Int), ((rs1 : Nat) : Int)])
      tu
    else tu
  let cur_pc_val := value.constant ((pc : Nat) : Int) (reg_bit_widths reg_e.PC)
  let pc := pc + 4
  let tu := tu.open_scope
  let tu := tu.store
    (value.ext
      (value.callf "fcvt_64_32"
        (value.arg
          (value.trunc (value.load (reg_e.F rs1) 0) 64)
          (value.arg
            (value.ext (value.constant 0 64) 32 true)
            (value.arg (value.constant ((rm : Nat) : Int) 8) value.noarg))))
      32
      false)
    (reg_e.X rd)
  let r := tu.assignment (value.callf "fget_flags" value.noarg) 32
  let flags_val := r.1
  let tu := r.2
  let r := tu.assignment_named "FCSR_val"
    (value.add
      (value.l_and (value.load reg_e.FCSR 0) (value.l_not (value.constant 31 32)))
      flags_val)
    32
  let FCSR_val_v := r.1
  let tu := r.2
  let tu := tu.store FCSR_val_v reg_e.FCSR
  let tu := tu.close_scope
  let tu := gen_set_pc tu pc reg_e.NEXT_PC
  let tu := gen_sync tu sync_type.POST_SYNC 118
  let tu := gen_trap_check tu
  handler_ret.mk continuation_e.CONT pc tu

/-- Source handler `__fcvt_wu_d` (instruction 119: FCVT.WU.D). -/
def __fcvt_wu_d (disass_enabled : Bool) (pc : Nat) (instr : Nat) (tu : tu_builder) :
    handler_ret :=
  let tu := tu.raw (line.label "FCVT_WU_D" pc)
  let tu := gen_sync tu sync_type.PRE_SYNC 119
  let rd : Nat := uint_t 8 (bit_sub 7 5 instr)
  let rm : Nat := uint_t 8 (bit_sub 12 3 instr)
  let rs1 : Nat := uint_t 8 (bit_sub 15 5 instr)
  let tu := if disass_enabled then
      let tu := tu.raw
        (line.print_disass pc "fcvt.wu.d" [((rd : Nat) : Int), ((rs1 : Nat) : Int)])
      tu
    else tu
  let cur_pc_val := value.constant ((pc : Nat) : Int) (reg_bit_widths reg_e.PC)
  let pc := pc + 4
  let tu := tu.open_scope
  let tu := tu.store
    (value.ext
      (value.callf "fcvt_64_32"
        (value.arg
          (value.trunc (value.load (reg_e.F rs1) 0) 64)
          (value.arg
            (value.ext (value.constant 1 64) 32 true)
            (value.arg (value.constant ((rm : Nat) : Int) 8) value.noarg))))
      32
      false)
    (reg_e.X rd)
  let r := tu.assignment (value.callf "fget_flags" value.noarg) 32
  let flags_val := r.1
  let tu := r.2
  let r := tu.assignment_named "FCSR_val"
    (value.add
      (value.l_and (value.load reg_e.FCSR 0) (value.l_not (value.constant 31 32)))
      flags_val)
    32
  let FCSR_val_v := r.1
  let tu := r.2
  let tu := tu.store FCSR_val_v reg_e.FCSR
  let tu := tu.close_scope
  let tu := gen_set_pc tu pc reg_e.NEXT_PC
  let tu := gen_sync tu sync_type.POST_SYNC 119
  let tu := gen_trap_check tu
  handler_ret.mk continuation_e.CONT pc tu

/-- Source handler `__fcvt_d_w` (instruction 120: FCVT.D.W). -/
def __fcvt_d_w (disass_enabled : Bool) (pc : Nat) (instr : Nat) (tu : tu_builder) :
    handler_ret :=
  let tu := tu.raw (line.label "FCVT_D_W" pc)
  let tu := gen_sync tu sync_type.PRE_SYNC 120
  let rd : Nat := uint_t 8 (bit_sub 7 5 instr)
  let rm : Nat := uint_t 8 (bit_sub 12 3 instr)
  let rs1 : Nat := uint_t 8 (bit_sub 15 5 instr)
  let tu := if disass_enabled then
      let tu := tu.raw (line.print_disass pc "fcvt.d.w" [((rd : Nat) : Int), ((rs1 : Nat) : Int)])
      tu
    else tu
  let cur_pc_val := value.constant ((pc : Nat) : Int) (reg_bit_widths reg_e.PC)
  let pc := pc + 4
  let tu := tu.open_scope
  let r := tu.assignment
    (value.callf "fcvt_32_64"
      (value.arg
        (value.ext (value.trunc (value.load (reg_e.X rs1) 0) 32) 64 false)
        (value.arg
          (value.ext (value.constant 2 64) 32 true)
          (value.arg (value.constant ((rm : Nat) : Int) 8) value.noarg))))
    64
  let res_val := r.1
  let tu := r.2
  let tu := if (64 : Nat) = 64 then
      let tu := tu.store res_val (reg_e.F rd)
      tu
    else
      let upper_val : Nat := uint_of_int 64 (-1)
      let tu := tu.store
        (value.l_or
          (value.shl (value.constant ((upper_val : Nat) : Int) 64) (value.constant 64 64))
          res_val)
        (reg_e.F rd)
      tu
  let tu := tu.close_scope
  let tu := gen_set_pc tu pc reg_e.NEXT_PC
  let tu := gen_sync tu sync_type.POST_SYNC 120
  let tu := gen_trap_check tu
  handler_ret.mk continuation_e.CONT pc tu

/-- Source handler `__fcvt_d_wu` (instruction 121: FCVT.D.WU). -/
def __fcvt_d_wu (disass_enabled : Bool) (pc : Nat) (instr : Nat) (tu : tu_builder) :
    handler_ret :=
  let tu := tu.raw (line.label "FCVT_D_WU" pc)
  let tu := gen_sync tu sync_type.PRE_SYNC 121
  let rd : Nat := uint_t 8 (bit_sub 7 5 instr)
  let rm : Nat := uint_t 8 (bit_sub 12 3 instr)
  let rs1 : Nat := uint_t 8 (bit_sub 15 5 instr)
  let tu := if disass_enabled then
      let tu := tu.raw
        (line.print_disass pc "fcvt.d.wu" [((rd : Nat) : Int), ((rs1 : Nat) : Int)])
      tu
    else tu
  let cur_pc_val := value.constant ((pc : Nat) : Int) (reg_bit_widths reg_e.PC)
  let pc := pc + 4
  let tu := tu.open_scope
  let r := tu.assignment
    (value.callf "fcvt_32_64"
      (value.arg
        (value.ext (value.trunc (value.load (reg_e.X rs1) 0) 32) 64 true)
        (value.arg
          (value.ext (value.constant 3 64) 32 true)
          (value.arg (value.constant ((rm : Nat) : Int) 8) value.noarg))))
    64
  let res_val := r.1
  let tu := r.2
  let tu := if (64 : Nat) = 64 then
      let tu := tu.store res_val (reg_e.F rd)
      tu
    else
      let upper_val : Nat := uint_of_int 64 (-1)
      let tu := tu.store
        (value.l_or
          (value.shl (value.constant ((upper_val : Nat) : Int) 64) (value.constant 64 64))
          res_val)
        (reg_e.F rd)
      tu
  let tu := tu.close_scope
  let tu := gen_set_pc tu pc reg_e.NEXT_PC
  let tu := gen_sync tu sync_type.POST_SYNC 121
  let tu := gen_trap_check tu
  handler_ret.mk continuation_e.CONT pc tu

/-- Source handler `__jalr` (instruction 122: JALR). -/
def __jalr (disass_enabled : Bool) (pc : Nat) (instr : Nat) (tu : tu_builder) :
    handler_ret :=
  let tu := tu.raw (line.label "JALR" pc)
  let tu := gen_sync tu sync_type.PRE_SYNC 122
  let rd : Nat := uint_t 8 (bit_sub 7 5 instr)
  let rs1 : Nat := uint_t 8 (bit_sub 15 5 instr)
  let imm : Int := signextend 16 12 (bit_sub 20 12 instr)
  let tu := if disass_enabled then
      let tu := tu.raw
        (line.print_disass pc "jalr" [((rd : Nat) : Int), ((rs1 : Nat) : Int), imm])
      tu
    else tu
  let cur_pc_val := value.constant ((pc : Nat) : Int) (reg_bit_widths reg_e.PC)
  let pc := pc + 4
  let tu := tu.open_scope
  let r := tu.assignment
    (value.add (value.ext (value.load (reg_e.X rs1) 0) 32 false) (value.constant imm 32))
    32
  let new_pc_val := r.1
  let tu := r.2
  let tu := if rd ≠ 0 then
      let tu := tu.store (value.add cur_pc_val (value.constant 4 32)) (reg_e.X rd)
      tu
    else tu
  let r := tu.assignment_named "PC_val"
    (value.l_and new_pc_val (value.l_not (value.constant 1 32)))
    32
  let PC_val_v := r.1
  let tu := r.2
  let tu := tu.store PC_val_v reg_e.NEXT_PC
  let tu := tu.store (value.constant 4294967295 32) reg_e.LAST_BRANCH
  let tu := tu.close_scope
  let tu := gen_sync tu sync_type.POST_SYNC 122
  let tu := gen_trap_check tu
  handler_ret.mk continuation_e.BRANCH pc tu

/-- Source handler `__c_addi4spn` (instruction 123: C.ADDI4SPN). -/
def __c_addi4spn (disass_enabled : Bool) (pc : Nat) (instr : Nat) (tu : tu_builder) :
    handler_ret :=
  let tu := tu.raw (line.label "C_ADDI4SPN" pc)
  let tu := gen_sync tu sync_type.PRE_SYNC 123
  let rd : Nat := uint_t 8 (bit_sub 2 3 instr)
  let imm : Nat := uint_t 16
    (((((bit_sub 5 1 instr) <<< 3) ||| ((bit_sub 6 1 instr) <<< 2)) ||| ((bit_sub 7 4 instr) <<< 6))
      |||
      ((bit_sub 11 2 instr) <<< 4))
  let tu := if disass_enabled then
      let tu := tu.raw
        (line.print_disass pc "c.addi4spn" [((rd : Nat) : Int), ((imm : Nat) : Int)])
      tu
    else tu
  let cur_pc_val := value.constant ((pc : Nat) : Int) (reg_bit_widths reg_e.PC)
  let pc := pc + 2
  let tu := tu.open_scope
  let tu := if imm = 0 then
      let tu := gen_raise_trap tu 0 2
      tu
    else tu
  let tu := tu.store
    (value.add (value.load (reg_e.X 2) 0) (value.constant ((imm : Nat) : Int) 32))
    (reg_e.X (rd + 8))
  let tu := tu.close_scope
  let tu := gen_set_pc tu pc reg_e.NEXT_PC
  let tu := gen_sync tu sync_type.POST_SYNC 123
  let tu := gen_trap_check tu
  handler_ret.mk continuation_e.CONT pc tu

/-- Source handler `__c_lw` (instruction 124: C.LW). -/
def __c_lw (disass_enabled : Bool) (pc : Nat) (instr : Nat) (tu : tu_builder) :
    handler_ret :=
  let tu := tu.raw (line.label "C_LW" pc)
  let tu := gen_sync tu sync_type.PRE_SYNC 124
  let rd : Nat := uint_t 8 (bit_sub 2 3 instr)
  let uimm : Nat := uint_t 8
    ((((bit_sub 5 1 instr) <<< 6) ||| ((bit_sub 6 1 instr) <<< 2)) |||
      ((bit_sub 10 3 instr) <<< 3))
  let rs1 : Nat := uint_t 8 (bit_sub 7 3 instr)
  let tu := if disass_enabled then
      let tu := tu.raw
        (line.print_disass pc "c.lw"
          [((8 + rd : Nat) : Int), ((uimm : Nat) : Int), ((8 + rs1 : Nat) : Int)])
      tu
    else tu
  let cur_pc_val := value.constant ((pc : Nat) : Int) (reg_bit_widths reg_e.PC)
  let pc := pc + 2
  let tu := tu.open_scope
  let r := tu.assignment
    (value.add (value.load (reg_e.X (rs1 + 8)) 0) (value.constant ((uimm : Nat) : Int) 32))
    32
  let offs_val := r.1
  let tu := r.2
  let tu := tu.store
    (value.ext (value.read_mem mem_type_e.MEM offs_val 32) 32 false)
    (reg_e.X (rd + 8))
  let tu := tu.close_scope
  let tu := gen_set_pc tu pc reg_e.NEXT_PC
  let tu := gen_sync tu sync_type.POST_SYNC 124
  let tu := gen_trap_check tu
  handler_ret.mk continuation_e.CONT pc tu

/-- Source handler `__c_sw` (instruction 125: C.SW). -/
def __c_sw (disass_enabled : Bool) (pc : Nat) (instr : Nat) (tu : tu_builder) :
    handler_ret :=
  let tu := tu.raw (line.label "C_SW" pc)
  let tu := gen_sync tu sync_type.PRE_SYNC 125
  let rs2 : Nat := uint_t 8 (bit_sub 2 3 instr)
  let uimm : Nat := uint_t 8
    ((((bit_sub 5 1 instr) <<< 6) ||| ((bit_sub 6 1 instr) <<< 2)) |||
      ((bit_sub 10 3 instr) <<< 3))
  let rs1 : Nat := uint_t 8 (bit_sub 7 3 instr)
  let tu := if disass_enabled then
      let tu := tu.raw
        (line.print_disass pc "c.sw"
          [((8 + rs2 : Nat) : Int), ((uimm : Nat) : Int), ((8 + rs1 : Nat) : Int)])
      tu
    else tu
  let cur_pc_val := value.constant ((pc : Nat) : Int) (reg_bit_widths reg_e.PC)
  let pc := pc + 2
  let tu := tu.open_scope
  let r := tu.assignment
    (value.add (value.load (reg_e.X (rs1 + 8)) 0) (value.constant ((uimm : Nat) : Int) 32))
    32
  let offs_val := r.1
  let tu := r.2
  let tu := tu.write_mem mem_type_e.MEM offs_val
    (value.trunc (value.load (reg_e.X (rs2 + 8)) 0) 32)
  let tu := tu.close_scope
  let tu := gen_set_pc tu pc reg_e.NEXT_PC
  let tu := gen_sync tu sync_type.POST_SYNC 125
  let tu := gen_trap_check tu
  handler_ret.mk continuation_e.CONT pc tu

/-- Source handler `__c_addi` (instruction 126: C.ADDI). -/
def __c_addi (disass_enabled : Bool) (pc : Nat) (instr : Nat) (tu : tu_builder) :
    handler_ret :=
  let tu := tu.raw (line.label "C_ADDI" pc)
  let tu := gen_sync tu sync_type.PRE_SYNC 126
  let imm : Int := signextend 8 6 ((bit_sub 2 5 instr) ||| ((bit_sub 12 1 instr) <<< 5))
  let rs1 : Nat := uint_t 8 (bit_sub 7 5 instr)
  let tu := if disass_enabled then
      let tu := tu.raw (line.print_disass pc "c.addi" [((rs1 : Nat) : Int), imm])
      tu
    else tu
  let cur_pc_val := value.constant ((pc : Nat) : Int) (reg_bit_widths reg_e.PC)
  let pc := pc + 2
  let tu := tu.open_scope
  let tu := tu.store
    (value.add (value.ext (value.load (reg_e.X rs1) 0) 32 false) (value.constant imm 32))
    (reg_e.X rs1)
  let tu := tu.close_scope
  let tu := gen_set_pc tu pc reg_e.NEXT_PC
  let tu := gen_sync tu sync_type.POST_SYNC 126
  let tu := gen_trap_check tu
  handler_ret.mk continuation_e.CONT pc tu

/-- Source handler `__c_nop` (instruction 127: C.NOP). -/
def __c_nop (disass_enabled : Bool) (pc : Nat) (instr : Nat) (tu : tu_builder) :
    handler_ret :=
  let tu := tu.raw (line.label "C_NOP" pc)
  let tu := gen_sync tu sync_type.PRE_SYNC 127
  let tu := if disass_enabled then
      let tu := tu.raw (line.print_disass pc "c.nop" [])
      tu
    else tu
  let cur_pc_val := value.constant ((pc : Nat) : Int) (reg_bit_widths reg_e.PC)
  let pc := pc + 2
  let tu := tu.open_scope
  let tu := tu.close_scope
  let tu := gen_set_pc tu pc reg_e.NEXT_PC
  let tu := gen_sync tu sync_type.POST_SYNC 127
  let tu := gen_trap_check tu
  handler_ret.mk continuation_e.CONT pc tu

/-- Source handler `__c_jal` (instruction 128: C.JAL). -/
def __c_jal (disass_enabled : Bool) (pc : Nat) (instr : Nat) (tu : tu_builder) :
    handler_ret :=
  let tu := tu.raw (line.label "C_JAL" pc)
  let tu := gen_sync tu sync_type.PRE_SYNC 128
  let imm : Int := signextend 16 12
    (((((((((bit_sub 2 1 instr) <<< 5) ||| ((bit_sub 3 3 instr) <<< 1)) ||| ((bit_sub 6 1 instr) <<< 7)) ||| ((bit_sub 7 1 instr) <<< 6)) ||| ((bit_sub 8 1 instr) <<< 10)) ||| ((bit_sub 9 2 instr) <<< 8)) ||| ((bit_sub 11 1 instr) <<< 4))
      |||
      ((bit_sub 12 1 instr) <<< 11))
  let tu := if disass_enabled then
      let tu := tu.raw (line.print_disass pc "c.jal" [imm])
      tu
    else tu
  let cur_pc_val := value.constant ((pc : Nat) : Int) (reg_bit_widths reg_e.PC)
  let pc := pc + 2
  let tu := tu.open_scope
  let tu := tu.store (value.add cur_pc_val (value.constant 2 32)) (reg_e.X 1)
  let r := tu.assignment_named "PC_val"
    (value.add (value.ext cur_pc_val 32 false) (value.constant imm 32))
    32
  let PC_val_v := r.1
  let tu := r.2
  let tu := tu.store PC_val_v reg_e.NEXT_PC
  let is_cont_v := value.choose
    (value.icmp ICmpInst.ICMP_NE
      (value.ext PC_val_v 32 true)
      (value.constant ((pc : Nat) : Int) 32))
    (value.constant 0 32)
    (value.constant 1 32)
  let tu := tu.store is_cont_v reg_e.LAST_BRANCH
  let tu := tu.close_scope
  let tu := gen_sync tu sync_type.POST_SYNC 128
  let tu := gen_trap_check tu
  handler_ret.mk continuation_e.BRANCH pc tu

/-- Source handler `__c_li` (instruction 129: C.LI). -/
def __c_li (disass_enabled : Bool) (pc : Nat) (instr : Nat) (tu : tu_builder) :
    handler_ret :=
  let tu := tu.raw (line.label "C_LI" pc)
  let tu := gen_sync tu sync_type.PRE_SYNC 129
  let imm : Int := signextend 8 6 ((bit_sub 2 5 instr) ||| ((bit_sub 12 1 instr) <<< 5))
  let rd : Nat := uint_t 8 (bit_sub 7 5 instr)
  let tu := if disass_enabled then
      let tu := tu.raw (line.print_disass pc "c.li" [((rd : Nat) : Int), imm])
      tu
    else tu
  let cur_pc_val := value.constant ((pc : Nat) : Int) (reg_bit_widths reg_e.PC)
  let pc := pc + 2
  let tu := tu.open_scope
  let tu := if rd = 0 then
      let tu := gen_raise_trap tu 0 2
      tu
    else tu
  let tu := tu.store (value.constant imm 32) (reg_e.X rd)
  let tu := tu.close_scope
  let tu := gen_set_pc tu pc reg_e.NEXT_PC
  let tu := gen_sync tu sync_type.POST_SYNC 129
  let tu := gen_trap_check tu
  handler_ret.mk continuation_e.CONT pc tu

/-- Source handler `__c_lui` (instruction 130: C.LUI). -/
def __c_lui (disass_enabled : Bool) (pc : Nat) (instr : Nat) (tu : tu_builder) :
    handler_ret :=
  let tu := tu.raw (line.label "C_LUI" pc)
  let tu := gen_sync tu sync_type.PRE_SYNC 130
  let imm : Int := signextend 32 18
    (((bit_sub 2 5 instr) <<< 12) ||| ((bit_sub 12 1 instr) <<< 17))
  let rd : Nat := uint_t 8 (bit_sub 7 5 instr)
  let tu := if disass_enabled then
      let tu := tu.raw (line.print_disass pc "c.lui" [((rd : Nat) : Int), imm])
      tu
    else tu
  let cur_pc_val := value.constant ((pc : Nat) : Int) (reg_bit_widths reg_e.PC)
  let pc := pc + 2
  let tu := tu.open_scope
  let tu := if rd = 0 then
      let tu := gen_raise_trap tu 0 2
      tu
    else tu
  let tu := if imm = 0 then
      let tu := gen_raise_trap tu 0 2
      tu
    else tu
  let tu := tu.store (value.constant imm 32) (reg_e.X rd)
  let tu := tu.close_scope
  let tu := gen_set_pc tu pc reg_e.NEXT_PC
  let tu := gen_sync tu sync_type.POST_SYNC 130
  let tu := gen_trap_check tu
  handler_ret.mk continuation_e.CONT pc tu

/-- Source handler `__c_addi16sp` (instruction 131: C.ADDI16SP). -/
def __c_addi16sp (disass_enabled : Bool) (pc : Nat) (instr : Nat) (tu : tu_builder) :
    handler_ret :=
  let tu := tu.raw (line.label "C_ADDI16SP" pc)
  let tu := gen_sync tu sync_type.PRE_SYNC 131
  let imm : Int := signextend 16 10
    ((((((bit_sub 2 1 instr) <<< 5) ||| ((bit_sub 3 2 instr) <<< 7)) ||| ((bit_sub 5 1 instr) <<< 6)) ||| ((bit_sub 6 1 instr) <<< 4))
      |||
      ((bit_sub 12 1 instr) <<< 9))
  let tu := if disass_enabled then
      let tu := tu.raw (line.print_disass pc "c.addi16sp" [imm])
      tu
    else tu
  let cur_pc_val := value.constant ((pc : Nat) : Int) (reg_bit_widths reg_e.PC)
  let pc := pc + 2
  let tu := tu.open_scope
  let tu := tu.store
    (value.add (value.ext (value.load (reg_e.X 2) 0) 32 false) (value.constant imm 32))
    (reg_e.X 2)
  let tu := tu.close_scope
  let tu := gen_set_pc tu pc reg_e.NEXT_PC
  let tu := gen_sync tu sync_type.POST_SYNC 131
  let tu := gen_trap_check tu
  handler_ret.mk continuation_e.CONT pc tu

/-- Source handler `__c_srli` (instruction 132: C.SRLI). -/
def __c_srli (disass_enabled : Bool) (pc : Nat) (instr : Nat) (tu : tu_builder) :
    handler_ret :=
  let tu := tu.raw (line.label "C_SRLI" pc)
  let tu := gen_sync tu sync_type.PRE_SYNC 132
  let shamt : Nat := uint_t 8 (bit_sub 2 5 instr)
  let rs1 : Nat := uint_t 8 (bit_sub 7 3 instr)
  let tu := if disass_enabled then
      let tu := tu.raw
        (line.print_disass pc "c.srli" [((8 + rs1 : Nat) : Int), ((shamt : Nat) : Int)])
      tu
    else tu
  let cur_pc_val := value.constant ((pc : Nat) : Int) (reg_bit_widths reg_e.PC)
  let pc := pc + 2
  let tu := tu.open_scope
  let rs1_idx_val : Nat := uint_t 8 (rs1 + 8)
  let tu := tu.store
    (value.lshr (value.load (reg_e.X rs1_idx_val) 0) (value.constant ((shamt : Nat) : Int) 32))
    (reg_e.X rs1_idx_val)
  let tu := tu.close_scope
  let tu := gen_set_pc tu pc reg_e.NEXT_PC
  let tu := gen_sync tu sync_type.POST_SYNC 132
  let tu := gen_trap_check tu
  handler_ret.mk continuation_e.CONT pc tu

/-- Source handler `__c_srai` (instruction 133: C.SRAI). -/
def __c_srai (disass_enabled : Bool) (pc : Nat) (instr : Nat) (tu : tu_builder) :
    handler_ret :=
  let tu := tu.raw (line.label "C_SRAI" pc)
  let tu := gen_sync tu sync_type.PRE_SYNC 133
  let shamt : Nat := uint_t 8 (bit_sub 2 5 instr)
  let rs1 : Nat := uint_t 8 (bit_sub 7 3 instr)
  let tu := if disass_enabled then
      let tu := tu.raw
        (line.print_disass pc "c.srai" [((8 + rs1 : Nat) : Int), ((shamt : Nat) : Int)])
      tu
    else tu
  let cur_pc_val := value.constant ((pc : Nat) : Int) (reg_bit_widths reg_e.PC)
  let pc := pc + 2
  let tu := tu.open_scope
  let rs1_idx_val : Nat := uint_t 8 (rs1 + 8)
  let tu := tu.store
    (value.ashr (value.load (reg_e.X rs1_idx_val) 0) (value.constant ((shamt : Nat) : Int) 32))
    (reg_e.X rs1_idx_val)
  let tu := tu.close_scope
  let tu := gen_set_pc tu pc reg_e.NEXT_PC
  let tu := gen_sync tu sync_type.POST_SYNC 133
  let tu := gen_trap_check tu
  handler_ret.mk continuation_e.CONT pc tu

/-- Source handler `__c_andi` (instruction 134: C.ANDI). -/
def __c_andi (disass_enabled : Bool) (pc : Nat) (instr : Nat) (tu : tu_builder) :
    handler_ret :=
  let tu := tu.raw (line.label "C_ANDI" pc)
  let tu := gen_sync tu sync_type.PRE_SYNC 134
  let imm : Int := signextend 8 6 ((bit_sub 2 5 instr) ||| ((bit_sub 12 1 instr) <<< 5))
  let rs1 : Nat := uint_t 8 (bit_sub 7 3 instr)
  let tu := if disass_enabled then
      let tu := tu.raw (line.print_disass pc "c.andi" [((8 + rs1 : Nat) : Int), imm])
      tu
    else tu
  let cur_pc_val := value.constant ((pc : Nat) : Int) (reg_bit_widths reg_e.PC)
  let pc := pc + 2
  let tu := tu.open_scope
  let rs1_idx_val : Nat := uint_t 8 (rs1 + 8)
  let tu := tu.store
    (value.l_and
      (value.ext (value.load (reg_e.X rs1_idx_val) 0) 32 false)
      (value.constant imm 32))
    (reg_e.X rs1_idx_val)
  let tu := tu.close_scope
  let tu := gen_set_pc tu pc reg_e.NEXT_PC
  let tu := gen_sync tu sync_type.POST_SYNC 134
  let tu := gen_trap_check tu
  handler_ret.mk continuation_e.CONT pc tu

/-- Source handler `__c_sub` (instruction 135: C.SUB). -/
def __c_sub (disass_enabled : Bool) (pc : Nat) (instr : Nat) (tu : tu_builder) :
    handler_ret :=
  let tu := tu.raw (line.label "C_SUB" pc)
  let tu := gen_sync tu sync_type.PRE_SYNC 135
  let rs2 : Nat := uint_t 8 (bit_sub 2 3 instr)
  let rd : Nat := uint_t 8 (bit_sub 7 3 instr)
  let tu := if disass_enabled then
      let tu := tu.raw
        (line.print_disass pc "c.sub" [((8 + rd : Nat) : Int), ((8 + rs2 : Nat) : Int)])
      tu
    else tu
  let cur_pc_val := value.constant ((pc : Nat) : Int) (reg_bit_widths reg_e.PC)
  let pc := pc + 2
  let tu := tu.open_scope
  let rd_idx_val : Nat := uint_t 8 (rd + 8)
  let tu := tu.store
    (value.sub (value.load (reg_e.X rd_idx_val) 0) (value.load (reg_e.X (rs2 + 8)) 0))
    (reg_e.X rd_idx_val)
  let tu := tu.close_scope
  let tu := gen_set_pc tu pc reg_e.NEXT_PC
  let tu := gen_sync tu sync_type.POST_SYNC 135
  let tu := gen_trap_check tu
  handler_ret.mk continuation_e.CONT pc tu

/-- Source handler `__c_xor` (instruction 136: C.XOR). -/
def __c_xor (disass_enabled : Bool) (pc : Nat) (instr : Nat) (tu : tu_builder) :
    handler_ret :=
  let tu := tu.raw (line.label "C_XOR" pc)
  let tu := gen_sync tu sync_type.PRE_SYNC 136
  let rs2 : Nat := uint_t 8 (bit_sub 2 3 instr)
  let rd : Nat := uint_t 8 (bit_sub 7 3 instr)
  let tu := if disass_enabled then
      let tu := tu.raw
        (line.print_disass pc "c.xor" [((8 + rd : Nat) : Int), ((8 + rs2 : Nat) : Int)])
      tu
    else tu
  let cur_pc_val := value.constant ((pc : Nat) : Int) (reg_bit_widths reg_e.PC)
  let pc := pc + 2
  let tu := tu.open_scope
  let rd_idx_val : Nat := uint_t 8 (rd + 8)
  let tu := tu.store
    (value.l_xor (value.load (reg_e.X rd_idx_val) 0) (value.load (reg_e.X (rs2 + 8)) 0))
    (reg_e.X rd_idx_val)
  let tu := tu.close_scope
  let tu := gen_set_pc tu pc reg_e.NEXT_PC
  let tu := gen_sync tu sync_type.POST_SYNC 136
  let tu := gen_trap_check tu
  handler_ret.mk continuation_e.CONT pc tu

/-- Source handler `__c_or` (instruction 137: C.OR). -/
def __c_or (disass_enabled : Bool) (pc : Nat) (instr : Nat) (tu : tu_builder) :
    handler_ret :=
  let tu := tu.raw (line.label "C_OR" pc)
  let tu := gen_sync tu sync_type.PRE_SYNC 137
  let rs2 : Nat := uint_t 8 (bit_sub 2 3 instr)
  let rd : Nat := uint_t 8 (bit_sub 7 3 instr)
  let tu := if disass_enabled then
      let tu := tu.raw
        (line.print_disass pc "c.or" [((8 + rd : Nat) : Int), ((8 + rs2 : Nat) : Int)])
      tu
    else tu
  let cur_pc_val := value.constant ((pc : Nat) : Int) (reg_bit_widths reg_e.PC)
  let pc := pc + 2
  let tu := tu.open_scope
  let rd_idx_val : Nat := uint_t 8 (rd + 8)
  let tu := tu.store
    (value.l_or (value.load (reg_e.X rd_idx_val) 0) (value.load (reg_e.X (rs2 + 8)) 0))
    (reg_e.X rd_idx_val)
  let tu := tu.close_scope
  let tu := gen_set_pc tu pc reg_e.NEXT_PC
  let tu := gen_sync tu sync_type.POST_SYNC 137
  let tu := gen_trap_check tu
  handler_ret.mk continuation_e.CONT pc tu

/-- Source handler `__c_and` (instruction 138: C.AND). -/
def __c_and (disass_enabled : Bool) (pc : Nat) (instr : Nat) (tu : tu_builder) :
    handler_ret :=
  let tu := tu.raw (line.label "C_AND" pc)
  let tu := gen_sync tu sync_type.PRE_SYNC 138
  let rs2 : Nat := uint_t 8 (bit_sub 2 3 instr)
  let rd : Nat := uint_t 8 (bit_sub 7 3 instr)
  let tu := if disass_enabled then
      let tu := tu.raw
        (line.print_disass pc "c.and" [((8 + rd : Nat) : Int), ((8 + rs2 : Nat) : Int)])
      tu
    else tu
  let cur_pc_val := value.constant ((pc : Nat) : Int) (reg_bit_widths reg_e.PC)
  let pc := pc + 2
  let tu := tu.open_scope
  let rd_idx_val : Nat := uint_t 8 (rd + 8)
  let tu := tu.store
    (value.l_and (value.load (reg_e.X rd_idx_val) 0) (value.load (reg_e.X (rs2 + 8)) 0))
    (reg_e.X rd_idx_val)
  let tu := tu.close_scope
  let tu := gen_set_pc tu pc reg_e.NEXT_PC
  let tu := gen_sync tu sync_type.POST_SYNC 138
  let tu := gen_trap_check tu
  handler_ret.mk continuation_e.CONT pc tu

/-- Source handler `__c_j` (instruction 139: C.J). -/
def __c_j (disass_enabled : Bool) (pc : Nat) (instr : Nat) (tu : tu_builder) :
    handler_ret :=
  let tu := tu.raw (line.label "C_J" pc)
  let tu := gen_sync tu sync_type.PRE_SYNC 139
  let imm : Int := signextend 16 12
    (((((((((bit_sub 2 1 instr) <<< 5) ||| ((bit_sub 3 3 instr) <<< 1)) ||| ((bit_sub 6 1 instr) <<< 7)) ||| ((bit_sub 7 1 instr) <<< 6)) ||| ((bit_sub 8 1 instr) <<< 10)) ||| ((bit_sub 9 2 instr) <<< 8)) ||| ((bit_sub 11 1 instr) <<< 4))
      |||
      ((bit_sub 12 1 instr) <<< 11))
  let tu := if disass_enabled then
      let tu := tu.raw (line.print_disass pc "c.j" [imm])
      tu
    else tu
  let cur_pc_val := value.constant ((pc : Nat) : Int) (reg_bit_widths reg_e.PC)
  let pc := pc + 2
  let tu := tu.open_scope
  let r := tu.assignment_named "PC_val"
    (value.add (value.ext cur_pc_val 32 false) (value.constant imm 32))
    32
  let PC_val_v := r.1
  let tu := r.2
  let tu := tu.store PC_val_v reg_e.NEXT_PC
  let is_cont_v := value.choose
    (value.icmp ICmpInst.ICMP_NE
      (value.ext PC_val_v 32 true)
      (value.constant ((pc : Nat) : Int) 32))
    (value.constant 0 32)
    (value.constant 1 32)
  let tu := tu.store is_cont_v reg_e.LAST_BRANCH
  let tu := tu.close_scope
  let tu := gen_sync tu sync_type.POST_SYNC 139
  let tu := gen_trap_check tu
  handler_ret.mk continuation_e.BRANCH pc tu

/-- Source handler `__c_beqz` (instruction 140: C.BEQZ). -/
def __c_beqz (disass_enabled : Bool) (pc : Nat) (instr : Nat) (tu : tu_builder) :
    handler_ret :=
  let tu := tu.raw (line.label "C_BEQZ" pc)
  let tu := gen_sync tu sync_type.PRE_SYNC 140
  let imm : Int := signextend 16 9
    ((((((bit_sub 2 1 instr) <<< 5) ||| ((bit_sub 3 2 instr) <<< 1)) ||| ((bit_sub 5 2 instr) <<< 6)) ||| ((bit_sub 10 2 instr) <<< 3))
      |||
      ((bit_sub 12 1 instr) <<< 8))
  let rs1 : Nat := uint_t 8 (bit_sub 7 3 instr)
  let tu := if disass_enabled then
      let tu := tu.raw (line.print_disass pc "c.beqz" [((8 + rs1 : Nat) : Int), imm])
      tu
    else tu
  let cur_pc_val := value.constant ((pc : Nat) : Int) (reg_bit_widths reg_e.PC)
  let pc := pc + 2
  let tu := tu.open_scope
  let r := tu.assignment_named "PC_val"
    (value.choose
      (value.icmp ICmpInst.ICMP_EQ (value.load (reg_e.X (rs1 + 8)) 0) (value.constant 0 32))
      (value.add (value.ext cur_pc_val 32 false) (value.constant imm 32))
      (value.add cur_pc_val (value.constant 2 32)))
    32
  let PC_val_v := r.1
  let tu := r.2
  let tu := tu.store PC_val_v reg_e.NEXT_PC
  let is_cont_v := value.choose
    (value.icmp ICmpInst.ICMP_NE
      (value.ext PC_val_v 32 true)
      (value.constant ((pc : Nat) : Int) 32))
    (value.constant 0 32)
    (value.constant 1 32)
  let tu := tu.store is_cont_v reg_e.LAST_BRANCH
  let tu := tu.close_scope
  let tu := gen_sync tu sync_type.POST_SYNC 140
  let tu := gen_trap_check tu
  handler_ret.mk continuation_e.BRANCH pc tu

/-- Source handler `__c_bnez` (instruction 141: C.BNEZ). -/
def __c_bnez (disass_enabled : Bool) (pc : Nat) (instr : Nat) (tu : tu_builder) :
    handler_ret :=
  let tu := tu.raw (line.label "C_BNEZ" pc)
  let tu := gen_sync tu sync_type.PRE_SYNC 141
  let imm : Int := signextend 16 9
    ((((((bit_sub 2 1 instr) <<< 5) ||| ((bit_sub 3 2 instr) <<< 1)) ||| ((bit_sub 5 2 instr) <<< 6)) ||| ((bit_sub 10 2 instr) <<< 3))
      |||
      ((bit_sub 12 1 instr) <<< 8))
  let rs1 : Nat := uint_t 8 (bit_sub 7 3 instr)
  let tu := if disass_enabled then
      let tu := tu.raw (line.print_disass pc "c.bnez" [((8 + rs1 : Nat) : Int), imm])
      tu
    else tu
  let cur_pc_val := value.constant ((pc : Nat) : Int) (reg_bit_widths reg_e.PC)
  let pc := pc + 2
  let tu := tu.open_scope
  let r := tu.assignment_named "PC_val"
    (value.choose
      (value.icmp ICmpInst.ICMP_NE (value.load (reg_e.X (rs1 + 8)) 0) (value.constant 0 32))
      (value.add (value.ext cur_pc_val 32 false) (value.constant imm 32))
      (value.add cur_pc_val (value.constant 2 32)))
    32
  let PC_val_v := r.1
  let tu := r.2
  let tu := tu.store PC_val_v reg_e.NEXT_PC
  let is_cont_v := value.choose
    (value.icmp ICmpInst.ICMP_NE
      (value.ext PC_val_v 32 true)
      (value.constant ((pc : Nat) : Int) 32))
    (value.constant 0 32)
    (value.constant 1 32)
  let tu := tu.store is_cont_v reg_e.LAST_BRANCH
  let tu := tu.close_scope
  let tu := gen_sync tu sync_type.POST_SYNC 141
  let tu := gen_trap_check tu
  handler_ret.mk continuation_e.BRANCH pc tu

/-- Source handler `__c_slli` (instruction 142: C.SLLI). -/
def __c_slli (disass_enabled : Bool) (pc : Nat) (instr : Nat) (tu : tu_builder) :
    handler_ret :=
  let tu := tu.raw (line.label "C_SLLI" pc)
  let tu := gen_sync tu sync_type.PRE_SYNC 142
  let shamt : Nat := uint_t 8 (bit_sub 2 5 instr)
  let rs1 : Nat := uint_t 8 (bit_sub 7 5 instr)
  let tu := if disass_enabled then
      let tu := tu.raw
        (line.print_disass pc "c.slli" [((rs1 : Nat) : Int), ((shamt : Nat) : Int)])
      tu
    else tu
  let cur_pc_val := value.constant ((pc : Nat) : Int) (reg_bit_widths reg_e.PC)
  let pc := pc + 2
  let tu := tu.open_scope
  let tu := if rs1 = 0 then
      let tu := gen_raise_trap tu 0 2
      tu
    else tu
  let tu := tu.store
    (value.shl (value.load (reg_e.X rs1) 0) (value.constant ((shamt : Nat) : Int) 32))
    (reg_e.X rs1)
  let tu := tu.close_scope
  let tu := gen_set_pc tu pc reg_e.NEXT_PC
  let tu := gen_sync tu sync_type.POST_SYNC 142
  let tu := gen_trap_check tu
  handler_ret.mk continuation_e.CONT pc tu

/-- Source handler `__c_lwsp` (instruction 143: C.LWSP). -/
def __c_lwsp (disass_enabled : Bool) (pc : Nat) (instr : Nat) (tu : tu_builder) :
    handler_ret :=
  let tu := tu.raw (line.label "C_LWSP" pc)
  let tu := gen_sync tu sync_type.PRE_SYNC 143
  let uimm : Nat := uint_t 8
    ((((bit_sub 2 2 instr) <<< 6) ||| ((bit_sub 4 3 instr) <<< 2)) |||
      ((bit_sub 12 1 instr) <<< 5))
  let rd : Nat := uint_t 8 (bit_sub 7 5 instr)
  let tu := if disass_enabled then
      let tu := tu.raw (line.print_disass pc "c.lwsp" [((rd : Nat) : Int), ((uimm : Nat) : Int)])
      tu
    else tu
  let cur_pc_val := value.constant ((pc : Nat) : Int) (reg_bit_widths reg_e.PC)
  let pc := pc + 2
  let tu := tu.open_scope
  let r := tu.assignment
    (value.add (value.load (reg_e.X 2) 0) (value.constant ((uimm : Nat) : Int) 32))
    32
  let offs_val := r.1
  let tu := r.2
  let tu := tu.store (value.ext (value.read_mem mem_type_e.MEM offs_val 32) 32 false) (reg_e.X rd)
  let tu := tu.close_scope
  let tu := gen_set_pc tu pc reg_e.NEXT_PC
  let tu := gen_sync tu sync_type.POST_SYNC 143
  let tu := gen_trap_check tu
  handler_ret.mk continuation_e.CONT pc tu

/-- Source handler `__c_mv` (instruction 144: C.MV). -/
def __c_mv (disass_enabled : Bool) (pc : Nat) (instr : Nat) (tu : tu_builder) :
    handler_ret :=
  let tu := tu.raw (line.label "C_MV" pc)
  let tu := gen_sync tu sync_type.PRE_SYNC 144
  let rs2 : Nat := uint_t 8 (bit_sub 2 5 instr)
  let rd : Nat := uint_t 8 (bit_sub 7 5 instr)
  let tu := if disass_enabled then
      let tu := tu.raw (line.print_disass pc "c.mv" [((rd : Nat) : Int), ((rs2 : Nat) : Int)])
      tu
    else tu
  let cur_pc_val := value.constant ((pc : Nat) : Int) (reg_bit_widths reg_e.PC)
  let pc := pc + 2
  let tu := tu.open_scope
  let tu := tu.store (value.load (reg_e.X rs2) 0) (reg_e.X rd)
  let tu := tu.close_scope
  let tu := gen_set_pc tu pc reg_e.NEXT_PC
  let tu := gen_sync tu sync_type.POST_SYNC 144
  let tu := gen_trap_check tu
  handler_ret.mk continuation_e.CONT pc tu

/-- Source handler `__c_jr` (instruction 145: C.JR). -/
def __c_jr (disass_enabled : Bool) (pc : Nat) (instr : Nat) (tu : tu_builder) :
    handler_ret :=
  let tu := tu.raw (line.label "C_JR" pc)
  let tu := gen_sync tu sync_type.PRE_SYNC 145
  let rs1 : Nat := uint_t 8 (bit_sub 7 5 instr)
  let tu := if disass_enabled then
      let tu := tu.raw (line.print_disass pc "c.jr" [((rs1 : Nat) : Int)])
      tu
    else tu
  let cur_pc_val := value.constant ((pc : Nat) : Int) (reg_bit_widths reg_e.PC)
  let pc := pc + 2
  let tu := tu.open_scope
  let r := tu.assignment_named "PC_val" (value.load (reg_e.X rs1) 0) 32
  let PC_val_v := r.1
  let tu := r.2
  let tu := tu.store PC_val_v reg_e.NEXT_PC
  let tu := tu.store (value.constant 4294967295 32) reg_e.LAST_BRANCH
  let tu := tu.close_scope
  let tu := gen_sync tu sync_type.POST_SYNC 145
  let tu := gen_trap_check tu
  handler_ret.mk continuation_e.BRANCH pc tu

/-- Source handler `__c_add` (instruction 146: C.ADD). -/
def __c_add (disass_enabled : Bool) (pc : Nat) (instr : Nat) (tu : tu_builder) :
    handler_ret :=
  let tu := tu.raw (line.label "C_ADD" pc)
  let tu := gen_sync tu sync_type.PRE_SYNC 146
  let rs2 : Nat := uint_t 8 (bit_sub 2 5 instr)
  let rd : Nat := uint_t 8 (bit_sub 7 5 instr)
  let tu := if disass_enabled then
      let tu := tu.raw (line.print_disass pc "c.add" [((rd : Nat) : Int), ((rs2 : Nat) : Int)])
      tu
    else tu
  let cur_pc_val := value.constant ((pc : Nat) : Int) (reg_bit_widths reg_e.PC)
  let pc := pc + 2
  let tu := tu.open_scope
  let tu := tu.store
    (value.add (value.load (reg_e.X rd) 0) (value.load (reg_e.X rs2) 0))
    (reg_e.X rd)
  let tu := tu.close_scope
  let tu := gen_set_pc tu pc reg_e.NEXT_PC
  let tu := gen_sync tu sync_type.POST_SYNC 146
  let tu := gen_trap_check tu
  handler_ret.mk continuation_e.CONT pc tu

/-- Source handler `__c_jalr` (instruction 147: C.JALR). -/
def __c_jalr (disass_enabled : Bool) (pc : Nat) (instr : Nat) (tu : tu_builder) :
    handler_ret :=
  let tu := tu.raw (line.label "C_JALR" pc)
  let tu := gen_sync tu sync_type.PRE_SYNC 147
  let rs1 : Nat := uint_t 8 (bit_sub 7 5 instr)
  let tu := if disass_enabled then
      let tu := tu.raw (line.print_disass pc "c.jalr" [((rs1 : Nat) : Int)])
      tu
    else tu
  let cur_pc_val := value.constant ((pc : Nat) : Int) (reg_bit_widths reg_e.PC)
  let pc := pc + 2
  let tu := tu.open_scope
  let tu := tu.store (value.add cur_pc_val (value.constant 2 32)) (reg_e.X 1)
  let r := tu.assignment_named "PC_val" (value.load (reg_e.X rs1) 0) 32
  let PC_val_v := r.1
  let tu := r.2
  let tu := tu.store PC_val_v reg_e.NEXT_PC
  let tu := tu.store (value.constant 4294967295 32) reg_e.LAST_BRANCH
  let tu := tu.close_scope
  let tu := gen_sync tu sync_type.POST_SYNC 147
  let tu := gen_trap_check tu
  handler_ret.mk continuation_e.BRANCH pc tu

/-- Source handler `__c_ebreak` (instruction 148: C.EBREAK). -/
def __c_ebreak (disass_enabled : Bool) (pc : Nat) (instr : Nat) (tu : tu_builder) :
    handler_ret :=
  let tu := tu.raw (line.label "C_EBREAK" pc)
  let tu := gen_sync tu sync_type.PRE_SYNC 148
  let tu := if disass_enabled then
      let tu := tu.raw (line.print_disass pc "c.ebreak" [])
      tu
    else tu
  let cur_pc_val := value.constant ((pc : Nat) : Int) (reg_bit_widths reg_e.PC)
  let pc := pc + 2
  let tu := tu.open_scope
  let tu := gen_raise_trap tu 0 3
  let tu := tu.close_scope
  let tu := gen_sync tu sync_type.POST_SYNC 148
  let tu := gen_trap_check tu
  handler_ret.mk continuation_e.BRANCH pc tu

/-- Source handler `__c_swsp` (instruction 149: C.SWSP). -/
def __c_swsp (disass_enabled : Bool) (pc : Nat) (instr : Nat) (tu : tu_builder) :
    handler_ret :=
  let tu := tu.raw (line.label "C_SWSP" pc)
  let tu := gen_sync tu sync_type.PRE_SYNC 149
  let rs2 : Nat := uint_t 8 (bit_sub 2 5 instr)
  let uimm : Nat := uint_t 8 (((bit_sub 7 2 instr) <<< 6) ||| ((bit_sub 9 4 instr) <<< 2))
  let tu := if disass_enabled then
      let tu := tu.raw (line.print_disass pc "c.swsp" [((rs2 : Nat) : Int), ((uimm : Nat) : Int)])
      tu
    else tu
  let cur_pc_val := value.constant ((pc : Nat) : Int) (reg_bit_widths reg_e.PC)
  let pc := pc + 2
  let tu := tu.open_scope
  let r := tu.assignment
    (value.add (value.load (reg_e.X 2) 0) (value.constant ((uimm : Nat) : Int) 32))
    32
  let offs_val := r.1
  let tu := r.2
  let tu := tu.write_mem mem_type_e.MEM offs_val (value.trunc (value.load (reg_e.X rs2) 0) 32)
  let tu := tu.close_scope
  let tu := gen_set_pc tu pc reg_e.NEXT_PC
  let tu := gen_sync tu sync_type.POST_SYNC 149
  let tu := gen_trap_check tu
  handler_ret.mk continuation_e.CONT pc tu

/-- Source handler `__dii` (instruction 150: DII). -/
def __dii (disass_enabled : Bool) (pc : Nat) (instr : Nat) (tu : tu_builder) :
    handler_ret :=
  let tu := tu.raw (line.label "DII" pc)
  let tu := gen_sync tu sync_type.PRE_SYNC 150
  let tu := if disass_enabled then
      let tu := tu.raw (line.print_disass pc "dii" [])
      tu
    else tu
  let cur_pc_val := value.constant ((pc : Nat) : Int) (reg_bit_widths reg_e.PC)
  let pc := pc + 2
  let tu := tu.open_scope
  let tu := gen_raise_trap tu 0 2
  let tu := tu.close_scope
  let tu := gen_sync tu sync_type.POST_SYNC 150
  let tu := gen_trap_check tu
  handler_ret.mk continuation_e.BRANCH pc tu

/-- Source handler `__c_flw` (instruction 151: C.FLW). -/
def __c_flw (disass_enabled : Bool) (pc : Nat) (instr : Nat) (tu : tu_builder) :
    handler_ret :=
  let tu := tu.raw (line.label "C_FLW" pc)
  let tu := gen_sync tu sync_type.PRE_SYNC 151
  let rd : Nat := uint_t 8 (bit_sub 2 3 instr)
  let uimm : Nat := uint_t 8
    ((((bit_sub 5 1 instr) <<< 6) ||| ((bit_sub 6 1 instr) <<< 2)) |||
      ((bit_sub 10 3 instr) <<< 3))
  let rs1 : Nat := uint_t 8 (bit_sub 7 3 instr)
  let tu := if disass_enabled then
      let tu := tu.raw
        (line.print_disass pc "c.flw"
          [((rd : Nat) : Int), ((uimm : Nat) : Int), ((8 + rs1 : Nat) : Int)])
      tu
    else tu
  let cur_pc_val := value.constant ((pc : Nat) : Int) (reg_bit_widths reg_e.PC)
  let pc := pc + 2
  let tu := tu.open_scope
  let r := tu.assignment
    (value.add (value.load (reg_e.X (rs1 + 8)) 0) (value.constant ((uimm : Nat) : Int) 32))
    32
  let offs_val := r.1
  let tu := r.2
  let r := tu.assignment (value.read_mem mem_type_e.MEM offs_val 32) 32
  let res_val := r.1
  let tu := r.2
  let tu := if (64 : Nat) = 32 then
      let tu := tu.store res_val (reg_e.F (rd + 8))
      tu
    else
      let upper_val : Nat := uint_of_int 64 (-1)
      let tu := tu.store
        (value.l_or
          (value.shl (value.constant ((upper_val : Nat) : Int) 64) (value.constant 32 64))
          (value.ext res_val 64 true))
        (reg_e.F (rd + 8))
      tu
  let tu := tu.close_scope
  let tu := gen_set_pc tu pc reg_e.NEXT_PC
  let tu := gen_sync tu sync_type.POST_SYNC 151
  let tu := gen_trap_check tu
  handler_ret.mk continuation_e.CONT pc tu

/-- Source handler `__c_fsw` (instruction 152: C.FSW). -/
def __c_fsw (disass_enabled : Bool) (pc : Nat) (instr : Nat) (tu : tu_builder) :
    handler_ret :=
  let tu := tu.raw (line.label "C_FSW" pc)
  let tu := gen_sync tu sync_type.PRE_SYNC 152
  let rs2 : Nat := uint_t 8 (bit_sub 2 3 instr)
  let uimm : Nat := uint_t 8
    ((((bit_sub 5 1 instr) <<< 6) ||| ((bit_sub 6 1 instr) <<< 2)) |||
      ((bit_sub 10 3 instr) <<< 3))
  let rs1 : Nat := uint_t 8 (bit_sub 7 3 instr)
  let tu := if disass_enabled then
      let tu := tu.raw
        (line.print_disass pc "c.fsw"
          [((rs2 : Nat) : Int), ((uimm : Nat) : Int), ((8 + rs1 : Nat) : Int)])
      tu
    else tu
  let cur_pc_val := value.constant ((pc : Nat) : Int) (reg_bit_widths reg_e.PC)
  let pc := pc + 2
  let tu := tu.open_scope
  let r := tu.assignment
    (value.add (value.load (reg_e.X (rs1 + 8)) 0) (value.constant ((uimm : Nat) : Int) 32))
    32
  let offs_val := r.1
  let tu := r.2
  let tu := tu.write_mem mem_type_e.MEM offs_val
    (value.trunc (value.trunc (value.load (reg_e.F (rs2 + 8)) 0) 32) 32)
  let tu := tu.close_scope
  let tu := gen_set_pc tu pc reg_e.NEXT_PC
  let tu := gen_sync tu sync_type.POST_SYNC 152
  let tu := gen_trap_check tu
  handler_ret.mk continuation_e.CONT pc tu

/-- Source handler `__c_flwsp` (instruction 153: C.FLWSP). -/
def __c_flwsp (disass_enabled : Bool) (pc : Nat) (instr : Nat) (tu : tu_builder) :
    handler_ret :=
  let tu := tu.raw (line.label "C_FLWSP" pc)
  let tu := gen_sync tu sync_type.PRE_SYNC 153
  let uimm : Nat := uint_t 8
    ((((bit_sub 2 2 instr) <<< 6) ||| ((bit_sub 4 3 instr) <<< 2)) |||
      ((bit_sub 12 1 instr) <<< 5))
  let rd : Nat := uint_t 8 (bit_sub 7 5 instr)
  let tu := if disass_enabled then
      let tu := tu.raw (line.print_disass pc "c.flwsp" [((rd : Nat) : Int), ((uimm : Nat) : Int)])
      tu
    else tu
  let cur_pc_val := value.constant ((pc : Nat) : Int) (reg_bit_widths reg_e.PC)
  let pc := pc + 2
  let tu := tu.open_scope
  let r := tu.assignment
    (value.add (value.load (reg_e.X 2) 0) (value.constant ((uimm : Nat) : Int) 32))
    32
  let offs_val := r.1
  let tu := r.2
  let r := tu.assignment (value.read_mem mem_type_e.MEM offs_val 32) 32
  let res_val := r.1
  let tu := r.2
  let tu := if (64 : Nat) = 32 then
      let tu := tu.store res_val (reg_e.F rd)
      tu
    else
      let upper_val : Nat := uint_of_int 64 (-1)
      let tu := tu.store
        (value.l_or
          (value.shl (value.constant ((upper_val : Nat) : Int) 64) (value.constant 32 64))
          (value.ext res_val 64 true))
        (reg_e.F rd)
      tu
  let tu := tu.close_scope
  let tu := gen_set_pc tu pc reg_e.NEXT_PC
  let tu := gen_sync tu sync_type.POST_SYNC 153
  let tu := gen_trap_check tu
  handler_ret.mk continuation_e.CONT pc tu

/-- Source handler `__c_fswsp` (instruction 154: C.FSWSP). -/
def __c_fswsp (disass_enabled : Bool) (pc : Nat) (instr : Nat) (tu : tu_builder) :
    handler_ret :=
  let tu := tu.raw (line.label "C_FSWSP" pc)
  let tu := gen_sync tu sync_type.PRE_SYNC 154
  let rs2 : Nat := uint_t 8 (bit_sub 2 5 instr)
  let uimm : Nat := uint_t 8 (((bit_sub 7 2 instr) <<< 6) ||| ((bit_sub 9 4 instr) <<< 2))
  let tu := if disass_enabled then
      let tu := tu.raw
        (line.print_disass pc "c.fswsp" [((rs2 : Nat) : Int), ((uimm : Nat) : Int)])
      tu
    else tu
  let cur_pc_val := value.constant ((pc : Nat) : Int) (reg_bit_widths reg_e.PC)
  let pc := pc + 2
  let tu := tu.open_scope
  let r := tu.assignment
    (value.add (value.load (reg_e.X 2) 0) (value.constant ((uimm : Nat) : Int) 32))
    32
  let offs_val := r.1
  let tu := r.2
  let tu := tu.write_mem mem_type_e.MEM offs_val
    (value.trunc (value.trunc (value.load (reg_e.F rs2) 0) 32) 32)
  let tu := tu.close_scope
  let tu := gen_set_pc tu pc reg_e.NEXT_PC
  let tu := gen_sync tu sync_type.POST_SYNC 154
  let tu := gen_trap_check tu
  handler_ret.mk continuation_e.CONT pc tu

/-- Source handler `__c_fld` (instruction 155: C.FLD). -/
def __c_fld (disass_enabled : Bool) (pc : Nat) (instr : Nat) (tu : tu_builder) :
    handler_ret :=
  let tu := tu.raw (line.label "C_FLD" pc)
  let tu := gen_sync tu sync_type.PRE_SYNC 155
  let rd : Nat := uint_t 8 (bit_sub 2 3 instr)
  let uimm : Nat := uint_t 8 (((bit_sub 5 2 instr) <<< 6) ||| ((bit_sub 10 3 instr) <<< 3))
  let rs1 : Nat := uint_t 8 (bit_sub 7 3 instr)
  let tu := if disass_enabled then
      let tu := tu.raw
        (line.print_disass pc "c.fld"
          [((rd : Nat) : Int), ((uimm : Nat) : Int), ((8 + rs1 : Nat) : Int)])
      tu
    else tu
  let cur_pc_val := value.constant ((pc : Nat) : Int) (reg_bit_widths reg_e.PC)
  let pc := pc + 2
  let tu := tu.open_scope
  let r := tu.assignment
    (value.add (value.load (reg_e.X (rs1 + 8)) 0) (value.constant ((uimm : Nat) : Int) 32))
    32
  let offs_val := r.1
  let tu := r.2
  let r := tu.assignment (value.read_mem mem_type_e.MEM offs_val 64) 64
  let res_val := r.1
  let tu := r.2
  let tu := if (64 : Nat) = 64 then
      let tu := tu.store res_val (reg_e.F (rd + 8))
      tu
    else
      let upper_val : Nat := uint_of_int 64 (-1)
      let tu := tu.store
        (value.l_or
          (value.shl (value.constant ((upper_val : Nat) : Int) 64) (value.constant 64 64))
          res_val)
        (reg_e.F (rd + 8))
      tu
  let tu := tu.close_scope
  let tu := gen_set_pc tu pc reg_e.NEXT_PC
  let tu := gen_sync tu sync_type.POST_SYNC 155
  let tu := gen_trap_check tu
  handler_ret.mk continuation_e.CONT pc tu

/-- Source handler `__c_fsd` (instruction 156: C.FSD). -/
def __c_fsd (disass_enabled : Bool) (pc : Nat) (instr : Nat) (tu : tu_builder) :
    handler_ret :=
  let tu := tu.raw (line.label "C_FSD" pc)
  let tu := gen_sync tu sync_type.PRE_SYNC 156
  let rs2 : Nat := uint_t 8 (bit_sub 2 3 instr)
  let uimm : Nat := uint_t 8 (((bit_sub 5 2 instr) <<< 6) ||| ((bit_sub 10 3 instr) <<< 3))
  let rs1 : Nat := uint_t 8 (bit_sub 7 3 instr)
  let tu := if disass_enabled then
      let tu := tu.raw
        (line.print_disass pc "c.fsd"
          [((rs2 : Nat) : Int), ((uimm : Nat) : Int), ((8 + rs1 : Nat) : Int)])
      tu
    else tu
  let cur_pc_val := value.constant ((pc : Nat) : Int) (reg_bit_widths reg_e.PC)
  let pc := pc + 2
  let tu := tu.open_scope
  let r := tu.assignment
    (value.add (value.load (reg_e.X (rs1 + 8)) 0) (value.constant ((uimm : Nat) : Int) 32))
    32
  let offs_val := r.1
  let tu := r.2
  let tu := tu.write_mem mem_type_e.MEM offs_val
    (value.trunc (value.trunc (value.load (reg_e.F (rs2 + 8)) 0) 64) 64)
  let tu := tu.close_scope
  let tu := gen_set_pc tu pc reg_e.NEXT_PC
  let tu := gen_sync tu sync_type.POST_SYNC 156
  let tu := gen_trap_check tu
  handler_ret.mk continuation_e.CONT pc tu

/-- Source handler `__c_fldsp` (instruction 157: C.FLDSP). -/
def __c_fldsp (disass_enabled : Bool) (pc : Nat) (instr : Nat) (tu : tu_builder) :
    handler_ret :=
  let tu := tu.raw (line.label "C_FLDSP" pc)
  let tu := gen_sync tu sync_type.PRE_SYNC 157
  let uimm : Nat := uint_t 16
    ((((bit_sub 2 3 instr) <<< 6) ||| ((bit_sub 5 2 instr) <<< 3)) |||
      ((bit_sub 12 1 instr) <<< 5))
  let rd : Nat := uint_t 8 (bit_sub 7 5 instr)
  let tu := if disass_enabled then
      let tu := tu.raw (line.print_disass pc "c.fldsp" [((rd : Nat) : Int), ((uimm : Nat) : Int)])
      tu
    else tu
  let cur_pc_val := value.constant ((pc : Nat) : Int) (reg_bit_widths reg_e.PC)
  let pc := pc + 2
  let tu := tu.open_scope
  let r := tu.assignment
    (value.add (value.load (reg_e.X 2) 0) (value.constant ((uimm : Nat) : Int) 32))
    32
  let offs_val := r.1
  let tu := r.2
  let r := tu.assignment (value.read_mem mem_type_e.MEM offs_val 64) 64
  let res_val := r.1
  let tu := r.2
  let tu := if (64 : Nat) = 64 then
      let tu := tu.store res_val (reg_e.F rd)
      tu
    else
      let upper_val : Nat := uint_of_int 64 (-1)
      let tu := tu.store
        (value.l_or
          (value.shl (value.constant ((upper_val : Nat) : Int) 64) (value.constant 64 64))
          (value.ext res_val 64 true))
        (reg_e.F rd)
      tu
  let tu := tu.close_scope
  let tu := gen_set_pc tu pc reg_e.NEXT_PC
  let tu := gen_sync tu sync_type.POST_SYNC 157
  let tu := gen_trap_check tu
  handler_ret.mk continuation_e.CONT pc tu

/-- Source handler `__c_fsdsp` (instruction 158: C.FSDSP). -/
def __c_fsdsp (disass_enabled : Bool) (pc : Nat) (instr : Nat) (tu : tu_builder) :
    handler_ret :=
  let tu := tu.raw (line.label "C_FSDSP" pc)
  let tu := gen_sync tu sync_type.PRE_SYNC 158
  let rs2 : Nat := uint_t 8 (bit_sub 2 5 instr)
  let uimm : Nat := uint_t 16 (((bit_sub 7 3 instr) <<< 6) ||| ((bit_sub 10 3 instr) <<< 3))
  let tu := if disass_enabled then
      let tu := tu.raw
        (line.print_disass pc "c.fsdsp" [((rs2 : Nat) : Int), ((uimm : Nat) : Int)])
      tu
    else tu
  let cur_pc_val := value.constant ((pc : Nat) : Int) (reg_bit_widths reg_e.PC)
  let pc := pc + 2
  let tu := tu.open_scope
  let r := tu.assignment
    (value.add (value.load (reg_e.X 2) 0) (value.constant ((uimm : Nat) : Int) 32))
    32
  let offs_val := r.1
  let tu := r.2
  let tu := tu.write_mem mem_type_e.MEM offs_val
    (value.trunc (value.trunc (value.load (reg_e.F rs2) 0) 64) 64)
  let tu := tu.close_scope
  let tu := gen_set_pc tu pc reg_e.NEXT_PC
  let tu := gen_sync tu sync_type.POST_SYNC 158
  let tu := gen_trap_check tu
  handler_ret.mk continuation_e.CONT pc tu
/-! ## Dispatch -/

/-- Source `illegal_intruction`, the handler used when the lookup finds a null entry. -/
def illegal_intruction (pc : Nat) (instr : Nat) (tu : tu_builder) : handler_ret :=
  let tu := gen_sync tu sync_type.PRE_SYNC instr_descr.length
  let pc := pc + (if instr &&& 3 = 3 then 4 else 2)
  let tu := gen_raise_trap tu 0 2
  let tu := gen_sync tu sync_type.POST_SYNC instr_descr.length
  let tu := gen_trap_check tu
  handler_ret.mk continuation_e.BRANCH pc tu

/-- The call `(this->*f)(pc, insn, tu)` through a member-function pointer. -/
def invoke (f : compile_func) (disass_enabled : Bool) (pc : Nat) (instr : Nat)
    (tu : tu_builder) : handler_ret :=
  match f with
  | compile_func.__mul => __mul disass_enabled pc instr tu
  | compile_func.__mulh => __mulh disass_enabled pc instr tu
  | compile_func.__mulhsu => __mulhsu disass_enabled pc instr tu
  | compile_func.__mulhu => __mulhu disass_enabled pc instr tu
  | compile_func.__div => __div disass_enabled pc instr tu
  | compile_func.__divu => __divu disass_enabled pc instr tu
  | compile_func.__rem => __rem disass_enabled pc instr tu
  | compile_func.__remu => __remu disass_enabled pc instr tu
  | compile_func.__lr_w => __lr_w disass_enabled pc instr tu
  | compile_func.__sc_w => __sc_w disass_enabled pc instr tu
  | compile_func.__amoswap_w => __amoswap_w disass_enabled pc instr tu
  | compile_func.__amoadd_w => __amoadd_w disass_enabled pc instr tu
  | compile_func.__amoxor_w => __amoxor_w disass_enabled pc instr tu
  | compile_func.__amoand_w => __amoand_w disass_enabled pc instr tu
  | compile_func.__amoor_w => __amoor_w disass_enabled pc instr tu
  | compile_func.__amomin_w => __amomin_w disass_enabled pc instr tu
  | compile_func.__amomax_w => __amomax_w disass_enabled pc instr tu
  | compile_func.__amominu_w => __amominu_w disass_enabled pc instr tu
  | compile_func.__amomaxu_w => __amomaxu_w disass_enabled pc instr tu
  | compile_func.__lui => __lui disass_enabled pc instr tu
  | compile_func.__auipc => __auipc disass_enabled pc instr tu
  | compile_func.__jal => __jal disass_enabled pc instr tu
  | compile_func.__beq => __beq disass_enabled pc instr tu
  | compile_func.__bne => __bne disass_enabled pc instr tu
  | compile_func.__blt => __blt disass_enabled pc instr tu
  | compile_func.__bge => __bge disass_enabled pc instr tu
  | compile_func.__bltu => __bltu disass_enabled pc instr tu
  | compile_func.__bgeu => __bgeu disass_enabled pc instr tu
  | compile_func.__lb => __lb disass_enabled pc instr tu
  | compile_func.__lh => __lh disass_enabled pc instr tu
  | compile_func.__lw => __lw disass_enabled pc instr tu
  | compile_func.__lbu => __lbu disass_enabled pc instr tu
  | compile_func.__lhu => __lhu disass_enabled pc instr tu
  | compile_func.__sb => __sb disass_enabled pc instr tu
  | compile_func.__sh => __sh disass_enabled pc instr tu
  | compile_func.__sw => __sw disass_enabled pc instr tu
  | compile_func.__addi => __addi disass_enabled pc instr tu
  | compile_func.__slti => __slti disass_enabled pc instr tu
  | compile_func.__sltiu => __sltiu disass_enabled pc instr tu
  | compile_func.__xori => __xori disass_enabled pc instr tu
  | compile_func.__ori => __ori disass_enabled pc instr tu
  | compile_func.__andi => __andi disass_enabled pc instr tu
  | compile_func.__slli => __slli disass_enabled pc instr tu
  | compile_func.__srli => __srli disass_enabled pc instr tu
  | compile_func.__srai => __srai disass_enabled pc instr tu
  | compile_func.__add => __add disass_enabled pc instr tu
  | compile_func.__sub => __sub disass_enabled pc instr tu
  | compile_func.__sll => __sll disass_enabled pc instr tu
  | compile_func.__slt => __slt disass_enabled pc instr tu
  | compile_func.__sltu => __sltu disass_enabled pc instr tu
  | compile_func.__xor => __xor disass_enabled pc instr tu
  | compile_func.__srl => __srl disass_enabled pc instr tu
  | compile_func.__sra => __sra disass_enabled pc instr tu
  | compile_func.__or => __or disass_enabled pc instr tu
  | compile_func.__and => __and disass_enabled pc instr tu
  | compile_func.__fence => __fence disass_enabled pc instr tu
  | compile_func.__fence_i => __fence_i disass_enabled pc instr tu
  | compile_func.__ecall => __ecall disass_enabled pc instr tu
  | compile_func.__ebreak => __ebreak disass_enabled pc instr tu
  | compile_func.__uret => __uret disass_enabled pc instr tu
  | compile_func.__sret => __sret disass_enabled pc instr tu
  | compile_func.__mret => __mret disass_enabled pc instr tu
  | compile_func.__wfi => __wfi disass_enabled pc instr tu
  | compile_func.__sfence_vma => __sfence_vma disass_enabled pc instr tu
  | compile_func.__csrrw => __csrrw disass_enabled pc instr tu
  | compile_func.__csrrs => __csrrs disass_enabled pc instr tu
  | compile_func.__csrrc => __csrrc disass_enabled pc instr tu
  | compile_func.__csrrwi => __csrrwi disass_enabled pc instr tu
  | compile_func.__csrrsi => __csrrsi disass_enabled pc instr tu
  | compile_func.__csrrci => __csrrci disass_enabled pc instr tu
  | compile_func.__flw => __flw disass_enabled pc instr tu
  | compile_func.__fsw => __fsw disass_enabled pc instr tu
  | compile_func.__fmadd_s => __fmadd_s disass_enabled pc instr tu
  | compile_func.__fmsub_s => __fmsub_s disass_enabled pc instr tu
  | compile_func.__fnmadd_s => __fnmadd_s disass_enabled pc instr tu
  | compile_func.__fnmsub_s => __fnmsub_s disass_enabled pc instr tu
  | compile_func.__fadd_s => __fadd_s disass_enabled pc instr tu
  | compile_func.__fsub_s => __fsub_s disass_enabled pc instr tu
  | compile_func.__fmul_s => __fmul_s disass_enabled pc instr tu
  | compile_func.__fdiv_s => __fdiv_s disass_enabled pc instr tu
  | compile_func.__fsqrt_s => __fsqrt_s disass_enabled pc instr tu
  | compile_func.__fsgnj_s => __fsgnj_s disass_enabled pc instr tu
  | compile_func.__fsgnjn_s => __fsgnjn_s disass_enabled pc instr tu
  | compile_func.__fsgnjx_s => __fsgnjx_s disass_enabled pc instr tu
  | compile_func.__fmin_s => __fmin_s disass_enabled pc instr tu
  | compile_func.__fmax_s => __fmax_s disass_enabled pc instr tu
  | compile_func.__fcvt_w_s => __fcvt_w_s disass_enabled pc instr tu
  | compile_func.__fcvt_wu_s => __fcvt_wu_s disass_enabled pc instr tu
  | compile_func.__feq_s => __feq_s disass_enabled pc instr tu
  | compile_func.__flt_s => __flt_s disass_enabled pc instr tu
  | compile_func.__fle_s => __fle_s disass_enabled pc instr tu
  | compile_func.__fclass_s => __fclass_s disass_enabled pc instr tu
  | compile_func.__fcvt_s_w => __fcvt_s_w disass_enabled pc instr tu
  | compile_func.__fcvt_s_wu => __fcvt_s_wu disass_enabled pc instr tu
  | compile_func.__fmv_x_w => __fmv_x_w disass_enabled pc instr tu
  | compile_func.__fmv_w_x => __fmv_w_x disass_enabled pc instr tu
  | compile_func.__fld => __fld disass_enabled pc instr tu
  | compile_func.__fsd => __fsd disass_enabled pc instr tu
  | compile_func.__fmadd_d => __fmadd_d disass_enabled pc instr tu
  | compile_func.__fmsub_d => __fmsub_d disass_enabled pc instr tu
  | compile_func.__fnmadd_d => __fnmadd_d disass_enabled pc instr tu
  | compile_func.__fnmsub_d => __fnmsub_d disass_enabled pc instr tu
  | compile_func.__fadd_d => __fadd_d disass_enabled pc instr tu
  | compile_func.__fsub_d => __fsub_d disass_enabled pc instr tu
  | compile_func.__fmul_d => __fmul_d disass_enabled pc instr tu
  | compile_func.__fdiv_d => __fdiv_d disass_enabled pc instr tu
  | compile_func.__fsqrt_d => __fsqrt_d disass_enabled pc instr tu
  | compile_func.__fsgnj_d => __fsgnj_d disass_enabled pc instr tu
  | compile_func.__fsgnjn_d => __fsgnjn_d disass_enabled pc instr tu
  | compile_func.__fsgnjx_d => __fsgnjx_d disass_enabled pc instr tu
  | compile_func.__fmin_d => __fmin_d disass_enabled pc instr tu
  | compile_func.__fmax_d => __fmax_d disass_enabled pc instr tu
  | compile_func.__fcvt_s_d => __fcvt_s_d disass_enabled pc instr tu
  | compile_func.__fcvt_d_s => __fcvt_d_s disass_enabled pc instr tu
  | compile_func.__feq_d => __feq_d disass_enabled pc instr tu
  | compile_func.__flt_d => __flt_d disass_enabled pc instr tu
  | compile_func.__fle_d => __fle_d disass_enabled pc instr tu
  | compile_func.__fclass_d => __fclass_d disass_enabled pc instr tu
  | compile_func.__fcvt_w_d => __fcvt_w_d disass_enabled pc instr tu
  | compile_func.__fcvt_wu_d => __fcvt_wu_d disass_enabled pc instr tu
  | compile_func.__fcvt_d_w => __fcvt_d_w disass_enabled pc instr tu
  | compile_func.__fcvt_d_wu => __fcvt_d_wu disass_enabled pc instr tu
  | compile_func.__jalr => __jalr disass_enabled pc instr tu
  | compile_func.__c_addi4spn => __c_addi4spn disass_enabled pc instr tu
  | compile_func.__c_lw => __c_lw disass_enabled pc instr tu
  | compile_func.__c_sw => __c_sw disass_enabled pc instr tu
  | compile_func.__c_addi => __c_addi disass_enabled pc instr tu
  | compile_func.__c_nop => __c_nop disass_enabled pc instr tu
  | compile_func.__c_jal => __c_jal disass_enabled pc instr tu
  | compile_func.__c_li => __c_li disass_enabled pc instr tu
  | compile_func.__c_lui => __c_lui disass_enabled pc instr tu
  | compile_func.__c_addi16sp => __c_addi16sp disass_enabled pc instr tu
  | compile_func.__c_srli => __c_srli disass_enabled pc instr tu
  | compile_func.__c_srai => __c_srai disass_enabled pc instr tu
  | compile_func.__c_andi => __c_andi disass_enabled pc instr tu
  | compile_func.__c_sub => __c_sub disass_enabled pc instr tu
  | compile_func.__c_xor => __c_xor disass_enabled pc instr tu
  | compile_func.__c_or => __c_or disass_enabled pc instr tu
  | compile_func.__c_and => __c_and disass_enabled pc instr tu
  | compile_func.__c_j => __c_j disass_enabled pc instr tu
  | compile_func.__c_beqz => __c_beqz disass_enabled pc instr tu
  | compile_func.__c_bnez => __c_bnez disass_enabled pc instr tu
  | compile_func.__c_slli => __c_slli disass_enabled pc instr tu
  | compile_func.__c_lwsp => __c_lwsp disass_enabled pc instr tu
  | compile_func.__c_mv => __c_mv disass_enabled pc instr tu
  | compile_func.__c_jr => __c_jr disass_enabled pc instr tu
  | compile_func.__c_add => __c_add disass_enabled pc instr tu
  | compile_func.__c_jalr => __c_jalr disass_enabled pc instr tu
  | compile_func.__c_ebreak => __c_ebreak disass_enabled pc instr tu
  | compile_func.__c_swsp => __c_swsp disass_enabled pc instr tu
  | compile_func.__dii => __dii disass_enabled pc instr tu
  | compile_func.__c_flw => __c_flw disass_enabled pc instr tu
  | compile_func.__c_fsw => __c_fsw disass_enabled pc instr tu
  | compile_func.__c_flwsp => __c_flwsp disass_enabled pc instr tu
  | compile_func.__c_fswsp => __c_fswsp disass_enabled pc instr tu
  | compile_func.__c_fld => __c_fld disass_enabled pc instr tu
  | compile_func.__c_fsd => __c_fsd disass_enabled pc instr tu
  | compile_func.__c_fldsp => __c_fldsp disass_enabled pc instr tu
  | compile_func.__c_fsdsp => __c_fsdsp disass_enabled pc instr tu
  | compile_func.illegal_intruction => illegal_intruction pc instr tu

/-- Modelled from the spec: what the fetch uses of the ARCH collaborator: the page mask,
the address translation `v2p`, and `read(paddr, len, buf)`, which yields the `len` bytes
read as a little-endian number, or `none` when the access fails. -/
structure arch_if where
  PGMASK : Nat
  v2p : Nat → Nat
  read : Nat → Nat → Option Nat

/-- Modelled from the spec: the errors thrown across the translation driver boundary. -/
inductive exception where
  | trap_access (id : Nat) (addr : Nat)
  | simulation_stopped (code : Int)
  deriving DecidableEq

/-- Result of the fetch part of `gen_single_inst_behavior`: the word in `insn`, or the
exception thrown, and the reads issued as `(paddr, length)` in order. -/
structure fetch_ret where
  insn : Except exception Nat
  reads : List (Nat × Nat)

/-- The fetch part of `gen_single_inst_behavior` (from `code_word_t insn = 0` to the end of
the page-boundary `if`).  A failing read leaves the buffer as it was. -/
def fetch (core : arch_if) (pc : Nat) : fetch_ret :=
  let TRAP_ID := 1 <<< 16
  let insn := 0
  let upper_bits := uint_of_int 32 (-((core.PGMASK : Nat) : Int) - 1)
  let paddr := core.v2p pc
  if pc &&& upper_bits ≠ (pc + 2) &&& upper_bits then
    let res := core.read paddr 2
    match res with
    | none => fetch_ret.mk (Except.error (exception.trap_access TRAP_ID pc)) [(paddr, 2)]
    | some lo =>
      let insn := insn ||| (lo % 2 ^ 16)
      if insn &&& 0x3 = 0x3 then
        let paddr2 := core.v2p (pc + 2)
        let res := core.read paddr2 2
        let insn := match res with
          | none => insn
          | some hi => insn ||| ((hi % 2 ^ 16) <<< 16)
        fetch_ret.mk (Except.ok insn) [(paddr, 2), (paddr2, 2)]
      else
        fetch_ret.mk (Except.ok insn) [(paddr, 2)]
  else
    let res := core.read paddr 4
    match res with
    | none => fetch_ret.mk (Except.error (exception.trap_access TRAP_ID pc)) [(paddr, 4)]
    | some v => fetch_ret.mk (Except.ok (insn ||| (v % 2 ^ 32))) [(paddr, 4)]

/-- What `gen_single_inst_behavior` leaves behind: the returned kind or the exception
thrown, and the `pc`, `inst_cnt` and `tu` it received by reference. -/
structure gen_ret where
  result : Except exception continuation_e
  pc : Nat
  inst_cnt : Nat
  tu : tu_builder

/-- The lookup of `gen_single_inst_behavior`: the table entry of the fetched word, with
`illegal_intruction` in place of a null entry. -/
def select_handler (insn : Nat) : compile_func :=
  let lut_val := extract_fields insn
  let f := qlut (insn &&& 0x3) lut_val
  match f with
  | none => compile_func.illegal_intruction
  | some g => g

/-- The lookup of `gen_single_inst_behavior` in the tables `T`: the table entry of the
fetched word, with `illegal_intruction` in place of a null entry (`select_handler` is the
lookup in `qlut`). -/
def select_handler_in (T : qlut_t) (insn : Nat) : compile_func :=
  let lut_val := extract_fields insn
  let f := T (insn &&& 0x3) lut_val
  match f with
  | none => compile_func.illegal_intruction
  | some g => g

/-- Source `vm_impl::gen_single_inst_behavior(pc, inst_cnt, tu)`. -/
def gen_single_inst_behavior (core : arch_if) (disass_enabled : Bool) (pc : Nat)
    (inst_cnt : Nat) (tu : tu_builder) : gen_ret :=
  match (fetch core pc).insn with
  | Except.error e => gen_ret.mk (Except.error e) pc inst_cnt tu
  | Except.ok insn =>
    if insn = 0x0000006f ∨ insn &&& 0xffff = 0xa001 then
      gen_ret.mk (Except.error (exception.simulation_stopped 0)) pc inst_cnt tu
    else
      let inst_cnt := uint_t 32 (inst_cnt + 1)
      let f := select_handler insn
      let r := invoke f disass_enabled pc insn tu
      gen_ret.mk (Except.ok r.cont) r.pc inst_cnt r.tu

/-- The lines a handler appended to the translation unit `tu0` it was given. -/
def emitted (tu0 : tu_builder) (r : handler_ret) : List line :=
  r.tu.lines.drop tu0.lines.length

/-! ## Meaning of the emitted operations

The emitted source is executed by an external compiler and the ARCH collaborator, neither
of which is part of the sources.  The definitions below give the emitted operations the
meaning the specification attaches to the builder interface: every expression denotes a
bit pattern of its width, arithmetic wraps at that width, and signedness only matters to
the signed operations. -/

/-- Modelled from the spec: the architectural state the emitted code runs against, with
the locals of the translation unit and the host routines reachable through `callf`. -/
structure arch_state where
  reg : reg_e → Nat
  trap_state : Nat
  mem : mem_type_e → Nat → Nat
  loc : local_name → Nat
  host : String → List Nat → Nat

/-- Modelled from the spec: width in bits of an expression. -/
def value.size : value → Nat
  | value.constant _ size => size
  | value.ref _ size => size
  | value.load r _ => reg_bit_widths r
  | value.read_mem _ _ size => size
  | value.read_mem_at _ _ size => size
  | value.add a b => max a.size b.size
  | value.sub a b => max a.size b.size
  | value.mul a b => max a.size b.size
  | value.udiv a b => max a.size b.size
  | value.sdiv a b => max a.size b.size
  | value.urem a b => max a.size b.size
  | value.srem a b => max a.size b.size
  | value.shl a _ => a.size
  | value.lshr a _ => a.size
  | value.ashr a _ => a.size
  | value.l_and a b => max a.size b.size
  | value.l_or a b => max a.size b.size
  | value.l_xor a b => max a.size b.size
  | value.b_and _ _ => 1
  | value.l_not a => a.size
  | value.neg a => a.size
  | value.icmp _ _ _ => 1
  | value.choose _ a b => max a.size b.size
  | value.ext _ size _ => size
  | value.trunc _ size => size
  | value.callf _ _ => 64
  | value.noarg => 0
  | value.arg _ _ => 0

/-- The comparison selected by an `icmp` predicate on two `bits`-wide patterns. -/
def ICmpInst.holds (p : ICmpInst) (bits : Nat) (a b : Nat) : Bool :=
  match p with
  | ICmpInst.ICMP_EQ => a == b
  | ICmpInst.ICMP_NE => a != b
  | ICmpInst.ICMP_SGE => decide (int_t bits a ≥ int_t bits b)
  | ICmpInst.ICMP_SGT => decide (int_t bits a > int_t bits b)
  | ICmpInst.ICMP_SLT => decide (int_t bits a < int_t bits b)
  | ICmpInst.ICMP_UGE => decide (a ≥ b)
  | ICmpInst.ICMP_UGT => decide (a > b)
  | ICmpInst.ICMP_ULT => decide (a < b)

mutual
/-- Modelled from the spec: the bit pattern an expression denotes in state `σ`.

The third argument of `ext` has the meaning the handlers give it.  Every handler passes
`false` where the specification describes a signed operand (the byte, halfword and word
read by LB, LH and LW, both operands of MULH, the first operand of MULHSU, the reservation
word `0xFFFFFFFF` that LR.W builds from an 8-bit `-1`) and `true` where it describes an
unsigned one (LBU, LHU, both operands of MULHU, the second operand of MULHSU, the 32-bit
results widened before NaN boxing).  So `false` extends by the sign bit of the operand and
`true` extends by zeros. -/
def value.eval (σ : arch_state) : value → Nat
  | value.constant val size => uint_of_int size val
  | value.ref name size => uint_t size (σ.loc name)
  | value.load r _ => uint_t (reg_bit_widths r) (σ.reg r)
  | value.read_mem type addr size => uint_t size (σ.mem type (addr.eval σ))
  | value.read_mem_at type addr size => uint_t size (σ.mem type addr)
  | value.add a b => uint_t (max a.size b.size) (a.eval σ + b.eval σ)
  | value.sub a b =>
    uint_of_int (max a.size b.size) ((a.eval σ : Int) - (b.eval σ : Int))
  | value.mul a b => uint_t (max a.size b.size) (a.eval σ * b.eval σ)
  | value.udiv a b => a.eval σ / b.eval σ
  | value.sdiv a b =>
    uint_of_int (max a.size b.size)
      (Int.tdiv (int_t (max a.size b.size) (a.eval σ)) (int_t (max a.size b.size) (b.eval σ)))
  | value.urem a b => a.eval σ % b.eval σ
  | value.srem a b =>
    uint_of_int (max a.size b.size)
      (Int.tmod (int_t (max a.size b.size) (a.eval σ)) (int_t (max a.size b.size) (b.eval σ)))
  | value.shl a b => uint_t a.size (a.eval σ <<< b.eval σ)
  | value.lshr a b => a.eval σ >>> b.eval σ
  | value.ashr a b => uint_of_int a.size (int_t a.size (a.eval σ) / 2 ^ b.eval σ)
  | value.l_and a b => a.eval σ &&& b.eval σ
  | value.l_or a b => a.eval σ ||| b.eval σ
  | value.l_xor a b => a.eval σ ^^^ b.eval σ
  | value.b_and a b => if a.eval σ ≠ 0 ∧ b.eval σ ≠ 0 then 1 else 0
  | value.l_not a => 2 ^ a.size - 1 - a.eval σ
  | value.neg a => uint_of_int a.size (-(a.eval σ : Int))
  | value.icmp p a b =>
    if p.holds (max a.size b.size) (a.eval σ) (b.eval σ) = true then 1 else 0
  | value.choose c a b => if c.eval σ ≠ 0 then a.eval σ else b.eval σ
  | value.ext v size is_signed =>
    if is_signed = false then uint_of_int size (int_t v.size (v.eval σ))
    else uint_t size (v.eval σ)
  | value.trunc v size => uint_t size (v.eval σ)
  | value.callf fn args => σ.host fn (args.eval_args σ)
  | value.noarg => 0
  | value.arg _ _ => 0
/-- The values of a `callf` argument list. -/
def value.eval_args (σ : arch_state) : value → List Nat
  | value.arg first rest => first.eval σ :: rest.eval_args σ
  | _ => []
end

/-- One open block of the emitted text: whether its lines run, and whether the lines
after a following `} else {` run. -/
structure frame where
  run : Bool
  else_run : Bool

/-- Execution state: architectural state, open blocks, and whether a trap check has
left the straight-line code for `trap_entry`. -/
structure exec_state where
  σ : arch_state
  stack : List frame
  left : Bool

/-- Whether the next line is executed. -/
def exec_state.running (s : exec_state) : Bool :=
  !s.left && (match s.stack with
    | [] => true
    | f :: _ => f.run)

/-- Modelled from the spec: the effect of one emitted line. -/
def exec_line (s : exec_state) (l : line) : exec_state :=
  match l with
  | line.open_scope =>
    exec_state.mk s.σ (frame.mk s.running false :: s.stack) s.left
  | line.if_open cond =>
    let c := decide (cond.eval s.σ ≠ 0)
    exec_state.mk s.σ (frame.mk (s.running && c) (s.running && !c) :: s.stack) s.left
  | line.else_open =>
    match s.stack with
    | [] => s
    | f :: rest => exec_state.mk s.σ (frame.mk f.else_run false :: rest) s.left
  | line.close_scope => exec_state.mk s.σ s.stack.tail s.left
  | line.assignment name val width =>
    if s.running = true then
      exec_state.mk
        (arch_state.mk s.σ.reg s.σ.trap_state s.σ.mem
          (Function.update s.σ.loc name (uint_t width (val.eval s.σ))) s.σ.host)
        s.stack s.left
    else s
  | line.store val reg_num =>
    if s.running = true then
      exec_state.mk
        (arch_state.mk
          (Function.update s.σ.reg reg_num (uint_t (reg_bit_widths reg_num) (val.eval s.σ)))
          s.σ.trap_state s.σ.mem s.σ.loc s.σ.host)
        s.stack s.left
    else s
  | line.write_mem type addr val =>
    if s.running = true then
      exec_state.mk
        (arch_state.mk s.σ.reg s.σ.trap_state
          (Function.update s.σ.mem type
            (Function.update (s.σ.mem type) (addr.eval s.σ) (val.eval s.σ)))
          s.σ.loc s.σ.host)
        s.stack s.left
    else s
  | line.set_pc reg_num pc =>
    if s.running = true then
      exec_state.mk
        (arch_state.mk (Function.update s.σ.reg reg_num (uint_t (reg_bit_widths reg_num) pc))
          s.σ.trap_state s.σ.mem s.σ.loc s.σ.host)
        s.stack s.left
    else s
  | line.trap_state v =>
    if s.running = true then
      exec_state.mk (arch_state.mk s.σ.reg (uint_of_int 32 v) s.σ.mem s.σ.loc s.σ.host)
        s.stack s.left
    else s
  | line.trap_check =>
    if s.running = true ∧ s.σ.trap_state ≠ 0 then exec_state.mk s.σ s.stack true else s
  | _ => s

/-- Execution of a sequence of emitted lines. -/
def exec_lines (s : exec_state) (ls : List line) : exec_state := ls.foldl exec_line s

/-- The architectural state after running emitted lines from state `σ`. -/
def run (σ : arch_state) (ls : List line) : arch_state :=
  (exec_lines (exec_state.mk σ [] false) ls).σ

/-! ## Reference definitions in the specification's words -/

/-- Specification: `sext_n(v)`, the low `bits` bits of `v` read as a two's-complement
number. -/
def sext (bits : Nat) (v : Nat) : Int :=
  if v % 2 ^ bits < 2 ^ (bits - 1) then ((v % 2 ^ bits : Nat) : Int)
  else ((v % 2 ^ bits : Nat) : Int) - 2 ^ bits

/-- Specification: the RISC-V J-immediate `sext21({w[31], w[19:12], w[20], w[30:21], 0})`. -/
def j_imm (w : Nat) : Int :=
  sext 21 ((w / 2 ^ 31 % 2) * 2 ^ 20 + (w / 2 ^ 12 % 2 ^ 8) * 2 ^ 12 + (w / 2 ^ 20 % 2) * 2 ^ 11 +
    (w / 2 ^ 21 % 2 ^ 10) * 2 ^ 1)

/-- The offset decoded by the conditional-branch handlers `__beq` .. `__bgeu` (the
expression bound to `imm` in each of them). -/
def branch_imm (instr : Nat) : Int :=
  signextend 16 13
    (((((bit_sub 7 1 instr) <<< 11) ||| ((bit_sub 8 4 instr) <<< 1)) |||
      ((bit_sub 25 6 instr) <<< 5)) ||| ((bit_sub 31 1 instr) <<< 12))

/-- An architectural state with every register, memory cell and local zero. -/
def arch_state.zero : arch_state :=
  arch_state.mk (fun _ => 0) 0 (fun _ _ => 0) (fun _ => 0) (fun _ _ => 0)

/-! ## Auxiliary notions used by the statements -/

/-- The envelope lines of an instruction: syncs, writes of `NEXT_PC`, trap checks. -/
def line.is_marker (l : line) : Bool :=
  match l with
  | line.sync _ _ => true
  | line.set_pc reg_e.NEXT_PC _ => true
  | line.store _ reg_e.NEXT_PC => true
  | line.trap_check => true
  | _ => false

/-- The shape of the result `r` of a non-terminating handler run on `tu` for the instruction
with serial index `i` at `pc`, with fallthrough `next`: after the lines of `tu` come the
label, `PRE_SYNC`, a body without envelope lines, and then the calls
`gen_set_pc(tu, pc, NEXT_PC)`, `gen_sync(tu, POST_SYNC, i)`, `gen_trap_check(tu)`. -/
def envelope (i : Nat) (mnemonic : String) (pc next : Nat) (tu : tu_builder)
    (r : handler_ret) : Prop :=
  ∃ (mid : tu_builder) (body : List line),
    r.tu = gen_trap_check
        (gen_sync (gen_set_pc mid next reg_e.NEXT_PC) sync_type.POST_SYNC i) ∧
      mid.lines = tu.lines ++ line.label mnemonic pc :: line.sync sync_type.PRE_SYNC i :: body ∧
      body.filter line.is_marker = []

/-- The advance of the handler-visible `pc` made by a handler. -/
def handler_advance (f : compile_func) : Nat :=
  (invoke f false 0 0 tu_builder.empty).pc

/-- What the conditional-branch handlers compute, for a handler `h` and the branch
condition `cond` on the 32-bit contents of `X[rs1]` and `X[rs2]`: the code emitted for the
instruction word `instr` at `pc` writes the branch target or the fallthrough address to
`NEXT_PC`, writes 1 to `LAST_BRANCH` when `NEXT_PC` is the fallthrough address `pc + 4` and 0
otherwise, and the handler returns `BRANCH`. -/
def branch_spec (h : Bool → Nat → Nat → tu_builder → handler_ret) (cond : Nat → Nat → Prop)
    [∀ a b, Decidable (cond a b)] : Prop :=
  ∀ (dis : Bool) (pc instr : Nat) (tu : tu_builder) (σ : arch_state),
    (h dis pc instr tu).cont = continuation_e.BRANCH ∧
      (run σ (emitted tu (h dis pc instr tu))).reg reg_e.NEXT_PC =
        (if cond (uint_t 32 (σ.reg (reg_e.X (bit_sub 15 5 instr))))
            (uint_t 32 (σ.reg (reg_e.X (bit_sub 20 5 instr))))
          then uint_of_int 32 ((pc : Int) + branch_imm instr) else uint_t 32 (pc + 4)) ∧
      (run σ (emitted tu (h dis pc instr tu))).reg reg_e.LAST_BRANCH =
        (if (run σ (emitted tu (h dis pc instr tu))).reg reg_e.NEXT_PC = uint_t 32 (pc + 4)
          then 1 else 0)

/-! ## Notions used by the statements on arithmetic, loads, CSR access and NaN-boxing -/

/-- Whether evaluating `v` in `σ` performs a division or remainder with a zero divisor, or
a signed division or remainder of the most negative value by -1.  Of a `choose` only the
condition and the selected operand are evaluated. -/
def value.div_fault (σ : arch_state) : value → Bool
  | value.constant _ _ => false
  | value.ref _ _ => false
  | value.load _ _ => false
  | value.read_mem _ addr _ => addr.div_fault σ
  | value.read_mem_at _ _ _ => false
  | value.add a b => a.div_fault σ || b.div_fault σ
  | value.sub a b => a.div_fault σ || b.div_fault σ
  | value.mul a b => a.div_fault σ || b.div_fault σ
  | value.udiv a b => a.div_fault σ || b.div_fault σ || (b.eval σ == 0)
  | value.sdiv a b =>
    a.div_fault σ || b.div_fault σ || (b.eval σ == 0) ||
      (int_t (max a.size b.size) (a.eval σ) == -(2 ^ (max a.size b.size - 1)) &&
        int_t (max a.size b.size) (b.eval σ) == -1)
  | value.urem a b => a.div_fault σ || b.div_fault σ || (b.eval σ == 0)
  | value.srem a b =>
    a.div_fault σ || b.div_fault σ || (b.eval σ == 0) ||
      (int_t (max a.size b.size) (a.eval σ) == -(2 ^ (max a.size b.size - 1)) &&
        int_t (max a.size b.size) (b.eval σ) == -1)
  | value.shl a b => a.div_fault σ || b.div_fault σ
  | value.lshr a b => a.div_fault σ || b.div_fault σ
  | value.ashr a b => a.div_fault σ || b.div_fault σ
  | value.l_and a b => a.div_fault σ || b.div_fault σ
  | value.l_or a b => a.div_fault σ || b.div_fault σ
  | value.l_xor a b => a.div_fault σ || b.div_fault σ
  | value.b_and a b => a.div_fault σ || b.div_fault σ
  | value.l_not a => a.div_fault σ
  | value.neg a => a.div_fault σ
  | value.icmp _ a b => a.div_fault σ || b.div_fault σ
  | value.choose c a b =>
    c.div_fault σ || (if c.eval σ ≠ 0 then a.div_fault σ else b.div_fault σ)
  | value.ext v _ _ => v.div_fault σ
  | value.trunc v _ => v.div_fault σ
  | value.callf _ args => args.div_fault σ
  | value.noarg => false
  | value.arg first rest => first.div_fault σ || rest.div_fault σ

/-- Whether the expressions of the line `l`, evaluated in `σ`, perform a faulting division
or remainder. -/
def line.div_fault (σ : arch_state) (l : line) : Bool :=
  match l with
  | line.if_open cond => cond.div_fault σ
  | line.assignment _ val _ => val.div_fault σ
  | line.store val _ => val.div_fault σ
  | line.write_mem _ addr val => addr.div_fault σ || val.div_fault σ
  | _ => false

/-- Whether running the lines from the execution state `s` executes a line that performs a
faulting division or remainder. -/
def div_faults (s : exec_state) : List line → Bool
  | [] => false
  | l :: ls => (s.running && l.div_fault s.σ) || div_faults (exec_line s l) ls

/-- Specification: the result of DIV on the 32-bit patterns `a` and `b`. -/
def div_result (a b : Nat) : Nat :=
  if b = 0 then 0xFFFFFFFF
  else if a = 0x80000000 ∧ b = 0xFFFFFFFF then 0x80000000
  else uint_of_int 32 (Int.tdiv (int_t 32 (a : Nat)) (int_t 32 (b : Nat)))

/-- Specification: the result of DIVU on the 32-bit patterns `a` and `b`. -/
def divu_result (a b : Nat) : Nat :=
  if b = 0 then 0xFFFFFFFF else a / b

/-- Specification: the result of REM on the 32-bit patterns `a` and `b`. -/
def rem_result (a b : Nat) : Nat :=
  if b = 0 then a
  else if a = 0x80000000 ∧ b = 0xFFFFFFFF then 0
  else uint_of_int 32 (Int.tmod (int_t 32 (a : Nat)) (int_t 32 (b : Nat)))

/-- Specification: the result of REMU on the 32-bit patterns `a` and `b`. -/
def remu_result (a b : Nat) : Nat :=
  if b = 0 then a else a % b

/-- Specification: MULH, the high 32 bits of the 64-bit product of both operands
sign-extended. -/
def mulh_result (a b : Nat) : Nat :=
  uint_of_int 32 ((int_t 32 (a : Nat) * int_t 32 (b : Nat)) / 2 ^ 32)

/-- Specification: MULHSU, the high 32 bits of (sign-extended `a`) times (zero-extended
`b`). -/
def mulhsu_result (a b : Nat) : Nat :=
  uint_of_int 32 ((int_t 32 (a : Nat) * ((uint_t 32 b : Nat) : Int)) / 2 ^ 32)

/-- Specification: MULHU, the high 32 bits of the product of both operands
zero-extended. -/
def mulhu_result (a b : Nat) : Nat :=
  uint_t 32 (uint_t 32 a * uint_t 32 b / 2 ^ 32)

/-- Whether the expression contains a read of the memory channel `t`. -/
def value.reads (t : mem_type_e) : value → Bool
  | value.constant _ _ => false
  | value.ref _ _ => false
  | value.load _ _ => false
  | value.read_mem type addr _ => type == t || addr.reads t
  | value.read_mem_at type _ _ => type == t
  | value.add a b => a.reads t || b.reads t
  | value.sub a b => a.reads t || b.reads t
  | value.mul a b => a.reads t || b.reads t
  | value.udiv a b => a.reads t || b.reads t
  | value.sdiv a b => a.reads t || b.reads t
  | value.urem a b => a.reads t || b.reads t
  | value.srem a b => a.reads t || b.reads t
  | value.shl a b => a.reads t || b.reads t
  | value.lshr a b => a.reads t || b.reads t
  | value.ashr a b => a.reads t || b.reads t
  | value.l_and a b => a.reads t || b.reads t
  | value.l_or a b => a.reads t || b.reads t
  | value.l_xor a b => a.reads t || b.reads t
  | value.b_and a b => a.reads t || b.reads t
  | value.l_not a => a.reads t
  | value.neg a => a.reads t
  | value.icmp _ a b => a.reads t || b.reads t
  | value.choose c a b => c.reads t || a.reads t || b.reads t
  | value.ext v _ _ => v.reads t
  | value.trunc v _ => v.reads t
  | value.callf _ args => args.reads t
  | value.noarg => false
  | value.arg first rest => first.reads t || rest.reads t

/-- Whether the line contains a read of the memory channel `t`. -/
def line.reads (t : mem_type_e) (l : line) : Bool :=
  match l with
  | line.if_open cond => cond.reads t
  | line.assignment _ val _ => val.reads t
  | line.store val _ => val.reads t
  | line.write_mem _ addr val => addr.reads t || val.reads t
  | _ => false

/-- Whether the line is a write to the memory channel `t`. -/
def line.is_write_mem (t : mem_type_e) (l : line) : Bool :=
  match l with
  | line.write_mem type _ _ => type == t
  | _ => false

/-- Whether the line is a store to a floating-point register. -/
def line.is_f_store (l : line) : Bool :=
  match l with
  | line.store _ (reg_e.F _) => true
  | _ => false

/-- The expression `(0xFFFFFFFFFFFFFFFF << 32)` that the handlers OR onto a 32-bit result:
the 64-bit constant `0xFFFFFFFF00000000`. -/
def nan_box_upper : value :=
  value.shl (value.constant 18446744073709551615 64) (value.constant 32 64)

/-- Whether the expression is `nan_box_upper | ext(x, 64, true)` for some `x`. -/
def value.is_nan_boxed (v : value) : Bool :=
  match v with
  | value.l_or a (value.ext _ 64 true) => a == nan_box_upper
  | _ => false

/-- Whether the line stores a NaN-boxed expression. -/
def line.is_nan_boxed_store (l : line) : Bool :=
  match l with
  | line.store v _ => v.is_nan_boxed
  | _ => false

/-- The handlers that store a single-precision result to an F register: FLW, C.FLW,
C.FLWSP, the fused multiply-adds, FADD.S .. FSQRT.S, the sign injections, FMIN.S, FMAX.S,
FCVT.S.W, FCVT.S.WU, FCVT.S.D and FMV.W.X. -/
def single_result_handlers : List compile_func :=
  [compile_func.__flw, compile_func.__c_flw, compile_func.__c_flwsp,
    compile_func.__fmadd_s, compile_func.__fmsub_s, compile_func.__fnmadd_s,
    compile_func.__fnmsub_s, compile_func.__fadd_s, compile_func.__fsub_s,
    compile_func.__fmul_s, compile_func.__fdiv_s, compile_func.__fsqrt_s,
    compile_func.__fsgnj_s, compile_func.__fsgnjn_s, compile_func.__fsgnjx_s,
    compile_func.__fmin_s, compile_func.__fmax_s, compile_func.__fcvt_s_w,
    compile_func.__fcvt_s_wu, compile_func.__fcvt_s_d, compile_func.__fmv_w_x]
/-- The shape of what a load handler `h` emits for the access width `size` and the third
argument `flag` of `ext`: the address `X[rs1] + imm` is bound to a fresh local, and the only
stores to integer registers are, when `rd ≠ 0`, the store to `X[rd]` of
`ext(read_mem(MEM, address, size), 32, flag)`. -/
def load_shape (h : Bool → Nat → Nat → tu_builder → handler_ret) (size : Nat)
    (flag : Bool) : Prop :=
  ∀ (dis : Bool) (pc instr : Nat) (tu : tu_builder),
    line.assignment (local_name.tmp tu.serial)
        (value.add (value.ext (value.load (reg_e.X (bit_sub 15 5 instr)) 0) 32 false)
          (value.constant (sext 12 (bit_sub 20 12 instr)) 32)) 32 ∈
        emitted tu (h dis pc instr tu) ∧
      ∀ (v : value) (n : Nat), line.store v (reg_e.X n) ∈ emitted tu (h dis pc instr tu) ↔
        (n = bit_sub 7 5 instr ∧ n ≠ 0 ∧
          v = value.ext
            (value.read_mem mem_type_e.MEM (value.ref (local_name.tmp tu.serial) 32) size)
            32 flag)
/-- What a CSR handler `h` does, for every instruction word, with `csr = instr[31:20]`,
`rd = instr[11:7]` and `f = instr[19:15]` (the register number rs1 or the immediate): it
emits one write of the CSR when `writes f` holds and none otherwise; it emits a read of the
CSR exactly when `reads rd` holds; running the emitted lines leaves in the CSR
`combine old x` when `writes f` holds, where `old` is the 32-bit content of the CSR before
the instruction and `x = operand σ f`, and leaves the CSR as it was otherwise; and when
`rd ≠ 0` it leaves `old` in `X[rd]`. -/
def csr_spec (h : Bool → Nat → Nat → tu_builder → handler_ret) (writes reads : Nat → Bool)
    (operand : arch_state → Nat → Nat) (combine : Nat → Nat → Nat) : Prop :=
  ∀ (dis : Bool) (pc instr : Nat) (tu : tu_builder) (σ : arch_state),
    ((emitted tu (h dis pc instr tu)).filter (line.is_write_mem mem_type_e.CSR)).length =
        (if writes (bit_sub 15 5 instr) = true then 1 else 0) ∧
      (emitted tu (h dis pc instr tu)).any (line.reads mem_type_e.CSR) =
        reads (bit_sub 7 5 instr) ∧
      (run σ (emitted tu (h dis pc instr tu))).mem mem_type_e.CSR (bit_sub 20 12 instr) =
        (if writes (bit_sub 15 5 instr) = true then
          combine (uint_t 32 (σ.mem mem_type_e.CSR (bit_sub 20 12 instr)))
            (operand σ (bit_sub 15 5 instr))
        else σ.mem mem_type_e.CSR (bit_sub 20 12 instr)) ∧
      (bit_sub 7 5 instr ≠ 0 →
        (run σ (emitted tu (h dis pc instr tu))).reg (reg_e.X (bit_sub 7 5 instr)) =
          uint_t 32 (σ.mem mem_type_e.CSR (bit_sub 20 12 instr)))
/-- An architectural state with `X[1] = a` and `X[2] = b`, and every other register,
memory cell and local zero. -/
def arch_state.with_x1_x2 (a b : Nat) : arch_state :=
  arch_state.mk (fun r => if r = reg_e.X 1 then a else if r = reg_e.X 2 then b else 0) 0
    (fun _ _ => 0) (fun _ => 0) (fun _ _ => 0)
/-! ## Notions used by the statements on disassembly, termination kinds, traps and table
sizes -/

/-- Whether the line is a `print_disass` call. -/
def line.is_print_disass (l : line) : Bool :=
  match l with
  | line.print_disass _ _ _ => true
  | _ => false

/-- The relation between the lines `enabled` emitted with disassembly enabled and the
lines `disabled` emitted with it disabled: `enabled` is `disabled` with one `print_disass`
line inserted, and `disabled` holds no `print_disass` line. -/
def disass_inserted (enabled disabled : List line) : Prop :=
  ∃ (pre post : List line) (l : line),
    enabled = pre ++ l :: post ∧ disabled = pre ++ post ∧ l.is_print_disass = true ∧
      disabled.filter line.is_print_disass = []

/-- The termination kind a handler returns. -/
def handler_kind (f : compile_func) : continuation_e :=
  (invoke f false 0 0 tu_builder.empty).cont

/-- Whether the line is the assignment to `*trap_state` written by `gen_raise_trap`. -/
def line.is_trap_state (l : line) : Bool :=
  match l with
  | line.trap_state _ => true
  | _ => false

/-- Whether the line is a store to the register `r`. -/
def line.is_store_to (r : reg_e) (l : line) : Bool :=
  match l with
  | line.store _ reg_num => reg_num == r
  | _ => false

/-- Whether the line is a store to an integer register. -/
def line.is_x_store (l : line) : Bool :=
  match l with
  | line.store _ (reg_e.X _) => true
  | _ => false

/-- Whether the expression contains a call of the host routine `fn`. -/
def value.calls (fn : String) : value → Bool
  | value.constant _ _ => false
  | value.ref _ _ => false
  | value.load _ _ => false
  | value.read_mem _ addr _ => addr.calls fn
  | value.read_mem_at _ _ _ => false
  | value.add a b => a.calls fn || b.calls fn
  | value.sub a b => a.calls fn || b.calls fn
  | value.mul a b => a.calls fn || b.calls fn
  | value.udiv a b => a.calls fn || b.calls fn
  | value.sdiv a b => a.calls fn || b.calls fn
  | value.urem a b => a.calls fn || b.calls fn
  | value.srem a b => a.calls fn || b.calls fn
  | value.shl a b => a.calls fn || b.calls fn
  | value.lshr a b => a.calls fn || b.calls fn
  | value.ashr a b => a.calls fn || b.calls fn
  | value.l_and a b => a.calls fn || b.calls fn
  | value.l_or a b => a.calls fn || b.calls fn
  | value.l_xor a b => a.calls fn || b.calls fn
  | value.b_and a b => a.calls fn || b.calls fn
  | value.l_not a => a.calls fn
  | value.neg a => a.calls fn
  | value.icmp _ a b => a.calls fn || b.calls fn
  | value.choose c a b => c.calls fn || a.calls fn || b.calls fn
  | value.ext v _ _ => v.calls fn
  | value.trunc v _ => v.calls fn
  | value.callf g args => g == fn || args.calls fn
  | value.noarg => false
  | value.arg first rest => first.calls fn || rest.calls fn

/-- Whether the line contains a call of the host routine `fn`. -/
def line.calls (fn : String) (l : line) : Bool :=
  match l with
  | line.if_open cond => cond.calls fn
  | line.assignment _ val _ => val.calls fn
  | line.store val _ => val.calls fn
  | line.write_mem _ addr val => addr.calls fn || val.calls fn
  | _ => false

/-- The three lines of the FCSR flag update as the floating-point handlers write it, with
`serial` the number of the fresh local that receives `fget_flags()`: the low 5 bits of
FCSR are cleared and the flags added. -/
def fcsr_update (serial : Nat) : List line :=
  [line.assignment (local_name.tmp serial) (value.callf "fget_flags" value.noarg) 32,
    line.assignment (local_name.named "FCSR_val")
      (value.add
        (value.l_and (value.load reg_e.FCSR 0) (value.l_not (value.constant 31 32)))
        (value.ref (local_name.tmp serial) 32))
      32,
    line.store (value.ref (local_name.named "FCSR_val") 32) reg_e.FCSR]

/-- The number of entries of the array `qlut[q]` points to: `lut_00`, `lut_01` and `lut_10`
are declared with `LUT_SIZE_C` entries and `lut_11` with `LUT_SIZE`. -/
def lut_size (q : Nat) : Nat :=
  match q with
  | 0 => LUT_SIZE_C
  | 1 => LUT_SIZE_C
  | 2 => LUT_SIZE_C
  | _ => LUT_SIZE

/-- The immediate decoded by `__c_addi4spn` (the expression bound to `imm`). -/
def c_addi4spn_imm (instr : Nat) : Nat :=
  uint_t 16
    (((((bit_sub 5 1 instr) <<< 3) ||| ((bit_sub 6 1 instr) <<< 2)) |||
      ((bit_sub 7 4 instr) <<< 6)) ||| ((bit_sub 11 2 instr) <<< 4))

/-- The immediate decoded by `__c_lui` (the expression bound to `imm`). -/
def c_lui_imm (instr : Nat) : Int :=
  signextend 32 18 (((bit_sub 2 5 instr) <<< 12) ||| ((bit_sub 12 1 instr) <<< 17))

/-! ## Notions used by the statements on descriptor order and expansion -/

/-- Two descriptors can both be candidates for one slot: they belong to the same quadrant
and their values agree on every bit selected by both masks and the quadrant's lookup
mask. -/
def descr_overlap (d1 d2 : InstructionDesriptor) : Bool :=
  (d1.value &&& 0x3 == d2.value &&& 0x3) &&
    ((d1.value ^^^ d2.value) &&& ((d1.mask &&& d2.mask) &&& lookup_mask (d1.value &&& 0x3)) == 0)

/-- The bits `d1` constrains within the lookup mask of its quadrant are a strict subset of
those `d2` constrains. -/
def more_specific (d1 d2 : InstructionDesriptor) : Bool :=
  ((d1.mask &&& lookup_mask (d1.value &&& 0x3)) &&& (d2.mask &&& lookup_mask (d1.value &&& 0x3)) ==
      d1.mask &&& lookup_mask (d1.value &&& 0x3)) &&
    (d1.mask &&& lookup_mask (d1.value &&& 0x3) != d2.mask &&& lookup_mask (d1.value &&& 0x3))

/-- The pairs of a list in list order: each element with each later element. -/
def ordered_pairs {α : Type} : List α → List (α × α)
  | [] => []
  | x :: xs => xs.map (fun y => (x, y)) ++ ordered_pairs xs

/-! ## Branch offsets -/

/-- Specification: the RISC-V B-immediate `sext13({w[31], w[7], w[30:25], w[11:8], 0})`. -/
def b_imm (w : Nat) : Int :=
  sext 13 ((w / 2 ^ 31 % 2) * 2 ^ 12 + (w / 2 ^ 7 % 2) * 2 ^ 11 + (w / 2 ^ 25 % 2 ^ 6) * 2 ^ 5 +
    (w / 2 ^ 8 % 2 ^ 4) * 2 ^ 1)

/-- Specification: the RISC-V CB-immediate
`sext9({w[12], w[6:5], w[2], w[11:10], w[4:3], 0})`. -/
def cb_imm (w : Nat) : Int :=
  sext 9 ((w / 2 ^ 12 % 2) * 2 ^ 8 + (w / 2 ^ 5 % 2 ^ 2) * 2 ^ 6 + (w / 2 ^ 2 % 2) * 2 ^ 5 +
    (w / 2 ^ 10 % 2 ^ 2) * 2 ^ 3 + (w / 2 ^ 3 % 2 ^ 2) * 2 ^ 1)

/-- Specification: the RISC-V CJ-immediate
`sext12({w[12], w[8], w[10:9], w[6], w[7], w[2], w[11], w[5:3], 0})`. -/
def cj_imm (w : Nat) : Int :=
  sext 12 ((w / 2 ^ 12 % 2) * 2 ^ 11 + (w / 2 ^ 8 % 2) * 2 ^ 10 + (w / 2 ^ 9 % 2 ^ 2) * 2 ^ 8 +
    (w / 2 ^ 6 % 2) * 2 ^ 7 + (w / 2 ^ 7 % 2) * 2 ^ 6 + (w / 2 ^ 2 % 2) * 2 ^ 5 +
    (w / 2 ^ 11 % 2) * 2 ^ 4 + (w / 2 ^ 3 % 2 ^ 3) * 2 ^ 1)

/-- The offset decoded by `__c_beqz` and `__c_bnez` (the expression bound to `imm` in each
of them). -/
def c_branch_imm (instr : Nat) : Int :=
  signextend 16 9
    ((((((bit_sub 2 1 instr) <<< 5) ||| ((bit_sub 3 2 instr) <<< 1)) |||
      ((bit_sub 5 2 instr) <<< 6)) ||| ((bit_sub 10 2 instr) <<< 3)) |||
      ((bit_sub 12 1 instr) <<< 8))

/-- The offset decoded by `__c_j` and `__c_jal` (the expression bound to `imm` in each of
them). -/
def c_jump_imm (instr : Nat) : Int :=
  signextend 16 12
    (((((((((bit_sub 2 1 instr) <<< 5) ||| ((bit_sub 3 3 instr) <<< 1)) |||
      ((bit_sub 6 1 instr) <<< 7)) ||| ((bit_sub 7 1 instr) <<< 6)) |||
      ((bit_sub 8 1 instr) <<< 10)) ||| ((bit_sub 9 2 instr) <<< 8)) |||
      ((bit_sub 11 1 instr) <<< 4)) ||| ((bit_sub 12 1 instr) <<< 11))

/-- The handlers of the RV32I, M, A and Zicsr descriptors MUL .. CSRRCI and of JALR, in
the order of `instr_descr`. -/
def rd_handlers : List compile_func :=
  [compile_func.__mul, compile_func.__mulh, compile_func.__mulhsu, compile_func.__mulhu,
    compile_func.__div, compile_func.__divu, compile_func.__rem, compile_func.__remu,
    compile_func.__lr_w, compile_func.__sc_w, compile_func.__amoswap_w, compile_func.__amoadd_w,
    compile_func.__amoxor_w, compile_func.__amoand_w, compile_func.__amoor_w, compile_func.__amomin_w,
    compile_func.__amomax_w, compile_func.__amominu_w, compile_func.__amomaxu_w, compile_func.__lui,
    compile_func.__auipc, compile_func.__jal, compile_func.__beq, compile_func.__bne,
    compile_func.__blt, compile_func.__bge, compile_func.__bltu, compile_func.__bgeu,
    compile_func.__lb, compile_func.__lh, compile_func.__lw, compile_func.__lbu,
    compile_func.__lhu, compile_func.__sb, compile_func.__sh, compile_func.__sw,
    compile_func.__addi, compile_func.__slti, compile_func.__sltiu, compile_func.__xori,
    compile_func.__ori, compile_func.__andi, compile_func.__slli, compile_func.__srli,
    compile_func.__srai, compile_func.__add, compile_func.__sub, compile_func.__sll,
    compile_func.__slt, compile_func.__sltu, compile_func.__xor, compile_func.__srl,
    compile_func.__sra, compile_func.__or, compile_func.__and, compile_func.__fence,
    compile_func.__fence_i, compile_func.__ecall, compile_func.__ebreak, compile_func.__uret,
    compile_func.__sret, compile_func.__mret, compile_func.__wfi, compile_func.__sfence_vma,
    compile_func.__csrrw, compile_func.__csrrs, compile_func.__csrrc, compile_func.__csrrwi,
    compile_func.__csrrsi, compile_func.__csrrci, compile_func.__jalr]

/-! ## Block nesting of the emitted lines -/

/-- The nesting depth after one line: `open_scope` and the raw `if(...) {` line open a
block, `close_scope` closes one, every other line (the raw `} else {` included) leaves the
depth as it is; `none` records a close at depth 0. -/
def scope_step (d : Option Nat) (l : line) : Option Nat :=
  match d, l with
  | some d, line.open_scope => some (d + 1)
  | some d, line.if_open _ => some (d + 1)
  | some 0, line.close_scope => none
  | some (d + 1), line.close_scope => some d
  | d, _ => d

/-- The nesting depth after the lines `ls`, counted from depth `d`; `none` when some line
closes a block that was not open. -/
def scope_depth (d : Nat) (ls : List line) : Option Nat :=
  ls.foldl scope_step (some d)

/-- The handlers of the 16-bit descriptors C.ADDI4SPN .. C.FSDSP, in the order of
`instr_descr`. -/
def compressed_handlers : List compile_func :=
  [compile_func.__c_addi4spn, compile_func.__c_lw, compile_func.__c_sw, compile_func.__c_addi,
    compile_func.__c_nop, compile_func.__c_jal, compile_func.__c_li, compile_func.__c_lui,
    compile_func.__c_addi16sp, compile_func.__c_srli, compile_func.__c_srai, compile_func.__c_andi,
    compile_func.__c_sub, compile_func.__c_xor, compile_func.__c_or, compile_func.__c_and,
    compile_func.__c_j, compile_func.__c_beqz, compile_func.__c_bnez, compile_func.__c_slli,
    compile_func.__c_lwsp, compile_func.__c_mv, compile_func.__c_jr, compile_func.__c_add,
    compile_func.__c_jalr, compile_func.__c_ebreak, compile_func.__c_swsp, compile_func.__dii,
    compile_func.__c_flw, compile_func.__c_fsw, compile_func.__c_flwsp, compile_func.__c_fswsp,
    compile_func.__c_fld, compile_func.__c_fsd, compile_func.__c_fldsp, compile_func.__c_fsdsp]

/-! ## Expansion of one descriptor -/

/-- The call `expand_bit_mask(29, lutmasks[quantrant], instr.value >> 2, instr.mask >> 2, 0,
qlut[quantrant], instr.op)` of the constructor loop, for the descriptor `d` and the array
`lut` of its quadrant. -/
def expand_descr (d : InstructionDesriptor) (lut : lut_t) : lut_t :=
  expand_bit_mask 29 (lutmasks (d.value &&& 0x3)) (d.value >>> 2) (d.mask >>> 2) 0 lut d.op

/-- The index bits whose source position is set in `d.mask`: the lookup index extracted
from the mask itself. -/
def constrained_index_bits (d : InstructionDesriptor) : Nat :=
  extract_fields_at 29 (d.mask >>> 2) (lutmasks (d.value &&& 0x3)) 0
/-! ## Notions used by the statements on the loads -/

/-- Specification: the value a load leaves in `X[rd]`: the `size` low bits of the memory
cell at `X[rs1] + sext(imm12)` (modulo 2^32), extended to 32 bits by their sign bit when
`sign` is set and by zeros otherwise. -/
def load_result (σ : arch_state) (instr size : Nat) (sign : Bool) : Nat :=
  let addr :=
    uint_of_int 32 ((σ.reg (reg_e.X (bit_sub 15 5 instr)) : Int) + sext 12 (bit_sub 20 12 instr))
  let v := σ.mem mem_type_e.MEM addr
  if sign = true then uint_of_int 32 (sext size v) else uint_t size v

/-- An architectural state in which every memory cell holds `m` and `X[1]` holds `a`, with
every other register and every local zero. -/
def arch_state.with_mem_x1 (m a : Nat) : arch_state :=
  arch_state.mk (fun r => if r = reg_e.X 1 then a else 0) 0 (fun _ _ => m) (fun _ => 0)
    (fun _ _ => 0)
/-! ## The formatting of the disassembly text

With disassembly enabled a handler builds the text of its `print_disass` line by a call of
`fmt::format` with a format string and named arguments.  The library is not part of the
sources; the definitions below give its format-string grammar, and `disass_format` lists
the format string and the argument names of every such call of the source. -/

/-- State of the scan of a format string: in literal text, after an opening brace, inside
the argument name of a replacement field, inside its format specification, and after a
closing brace in literal text. -/
inductive fmt_scan_state where
  | text
  | opened
  | arg_id (name : List Char)
  | spec
  | closed
  deriving DecidableEq

/-- Whether the character can start an argument name: a letter or an underscore. -/
def fmt_id_start (c : Char) : Bool := c.isAlpha || c.toNat == 0x5f

/-- Whether the character can continue an argument name: a letter, a digit or an
underscore. -/
def fmt_id_continue (c : Char) : Bool := c.isAlphanum || c.toNat == 0x5f

/-- The format-string grammar of the fmt library, as far as the format strings of the
source use it: a replacement field is an opening brace, an optional argument name (an
identifier), an optional colon followed by a format specification, and a closing brace;
doubled braces stand for themselves.  The scan rejects (the library throws
`fmt::format_error`) a brace that is neither doubled nor part of such a field, an argument
name followed by a character other than a colon or the closing brace, and a name that is
not among the named arguments `names`.  The characters of a format specification are not
checked; the specifications of the source are `10`, `#0x`, `#05x` and `#08x`. -/
def fmt_scan (names : List (List Char)) : fmt_scan_state → List Char → Bool
  | fmt_scan_state.text, [] => true
  | fmt_scan_state.text, c :: cs =>
    if c.toNat = 0x7b then fmt_scan names fmt_scan_state.opened cs
    else if c.toNat = 0x7d then fmt_scan names fmt_scan_state.closed cs
    else fmt_scan names fmt_scan_state.text cs
  | fmt_scan_state.opened, [] => false
  | fmt_scan_state.opened, c :: cs =>
    if c.toNat = 0x7b then fmt_scan names fmt_scan_state.text cs
    else if c.toNat = 0x7d then fmt_scan names fmt_scan_state.text cs
    else if c.toNat = 0x3a then fmt_scan names fmt_scan_state.spec cs
    else if fmt_id_start c = true then fmt_scan names (fmt_scan_state.arg_id [c]) cs
    else false
  | fmt_scan_state.arg_id _, [] => false
  | fmt_scan_state.arg_id name, c :: cs =>
    if fmt_id_continue c = true then fmt_scan names (fmt_scan_state.arg_id (name ++ [c])) cs
    else if c.toNat = 0x7d then
      if names.contains name then fmt_scan names fmt_scan_state.text cs else false
    else if c.toNat = 0x3a then
      if names.contains name then fmt_scan names fmt_scan_state.spec cs else false
    else false
  | fmt_scan_state.spec, [] => false
  | fmt_scan_state.spec, c :: cs =>
    if c.toNat = 0x7d then fmt_scan names fmt_scan_state.text cs
    else if c.toNat = 0x7b then false
    else fmt_scan names fmt_scan_state.spec cs
  | fmt_scan_state.closed, [] => false
  | fmt_scan_state.closed, c :: cs =>
    if c.toNat = 0x7d then fmt_scan names fmt_scan_state.text cs else false

/-- Whether `fmt::format` returns for the format string `fs` and named arguments with the
names `names`; otherwise it throws. -/
def fmt_accepts (fs : String) (names : List String) : Bool :=
  fmt_scan (names.map String.toList) fmt_scan_state.text fs.toList

/-- The format string and the names of the `fmt::arg` arguments of the `fmt::format` call
in the disassembly branch of each handler, as written in the source.  The handlers of
FENCE, FENCE.I, ECALL, EBREAK, URET, SRET, MRET, WFI, SFENCE.VMA, C.NOP, C.EBREAK and DII
pass a literal text to `print_disass` and `illegal_intruction` has no disassembly branch:
they have no such call. -/
def disass_format (f : compile_func) : Option (String × List String) :=
  match f with
  | compile_func.__mul =>
    some ("\x7bmnemonic:10\x7d \x7brd\x7d, \x7brs1\x7d, \x7brs2\x7d", ["mnemonic", "rd", "rs1", "rs2"])
  | compile_func.__mulh =>
    some ("\x7bmnemonic:10\x7d \x7brd\x7d, \x7brs1\x7d, \x7brs2\x7d", ["mnemonic", "rd", "rs1", "rs2"])
  | compile_func.__mulhsu =>
    some ("\x7bmnemonic:10\x7d \x7brd\x7d, \x7brs1\x7d, \x7brs2\x7d", ["mnemonic", "rd", "rs1", "rs2"])
  | compile_func.__mulhu =>
    some ("\x7bmnemonic:10\x7d \x7brd\x7d, \x7brs1\x7d, \x7brs2\x7d", ["mnemonic", "rd", "rs1", "rs2"])
  | compile_func.__div =>
    some ("\x7bmnemonic:10\x7d \x7brd\x7d, \x7brs1\x7d, \x7brs2\x7d", ["mnemonic", "rd", "rs1", "rs2"])
  | compile_func.__divu =>
    some ("\x7bmnemonic:10\x7d \x7brd\x7d, \x7brs1\x7d, \x7brs2\x7d", ["mnemonic", "rd", "rs1", "rs2"])
  | compile_func.__rem =>
    some ("\x7bmnemonic:10\x7d \x7brd\x7d, \x7brs1\x7d, \x7brs2\x7d", ["mnemonic", "rd", "rs1", "rs2"])
  | compile_func.__remu =>
    some ("\x7bmnemonic:10\x7d \x7brd\x7d, \x7brs1\x7d, \x7brs2\x7d", ["mnemonic", "rd", "rs1", "rs2"])
  | compile_func.__lr_w =>
    some ("\x7bmnemonic:10\x7d \x7brd\x7d, \x7brs1\x7d", ["mnemonic", "rd", "rs1"])
  | compile_func.__sc_w =>
    some ("\x7bmnemonic:10\x7d \x7brd\x7d, \x7brs1\x7d, \x7brs2\x7d", ["mnemonic", "rd", "rs1", "rs2"])
  | compile_func.__amoswap_w =>
    some ("\x7bmnemonic:10\x7d \x7brd\x7d, \x7brs1\x7d, \x7brs2\x7d (aqu=\x7baq\x7d,rel=\x7brl\x7d)", ["mnemonic", "rd", "rs1", "rs2", "aq", "rl"])
  | compile_func.__amoadd_w =>
    some ("\x7bmnemonic:10\x7d \x7brd\x7d, \x7brs1\x7d, \x7brs2\x7d (aqu=\x7baq\x7d,rel=\x7brl\x7d)", ["mnemonic", "rd", "rs1", "rs2", "aq", "rl"])
  | compile_func.__amoxor_w =>
    some ("\x7bmnemonic:10\x7d \x7brd\x7d, \x7brs1\x7d, \x7brs2\x7d (aqu=\x7baq\x7d,rel=\x7brl\x7d)", ["mnemonic", "rd", "rs1", "rs2", "aq", "rl"])
  | compile_func.__amoand_w =>
    some ("\x7bmnemonic:10\x7d \x7brd\x7d, \x7brs1\x7d, \x7brs2\x7d (aqu=\x7baq\x7d,rel=\x7brl\x7d)", ["mnemonic", "rd", "rs1", "rs2", "aq", "rl"])
  | compile_func.__amoor_w =>
    some ("\x7bmnemonic:10\x7d \x7brd\x7d, \x7brs1\x7d, \x7brs2\x7d (aqu=\x7baq\x7d,rel=\x7brl\x7d)", ["mnemonic", "rd", "rs1", "rs2", "aq", "rl"])
  | compile_func.__amomin_w =>
    some ("\x7bmnemonic:10\x7d \x7brd\x7d, \x7brs1\x7d, \x7brs2\x7d (aqu=\x7baq\x7d,rel=\x7brl\x7d)", ["mnemonic", "rd", "rs1", "rs2", "aq", "rl"])
  | compile_func.__amomax_w =>
    some ("\x7bmnemonic:10\x7d \x7brd\x7d, \x7brs1\x7d, \x7brs2\x7d (aqu=\x7baq\x7d,rel=\x7brl\x7d)", ["mnemonic", "rd", "rs1", "rs2", "aq", "rl"])
  | compile_func.__amominu_w =>
    some ("\x7bmnemonic:10\x7d \x7brd\x7d, \x7brs1\x7d, \x7brs2\x7d (aqu=\x7baq\x7d,rel=\x7brl\x7d)", ["mnemonic", "rd", "rs1", "rs2", "aq", "rl"])
  | compile_func.__amomaxu_w =>
    some ("\x7bmnemonic:10\x7d \x7brd\x7d, \x7brs1\x7d, \x7brs2\x7d (aqu=\x7baq\x7d,rel=\x7brl\x7d)", ["mnemonic", "rd", "rs1", "rs2", "aq", "rl"])
  | compile_func.__lui =>
    some ("\x7bmnemonic:10\x7d \x7brd\x7d, \x7bimm:#05x\x7d", ["mnemonic", "rd", "imm"])
  | compile_func.__auipc =>
    some ("\x7bmnemonic:10\x7d \x7brd\x7d, \x7bimm:#08x\x7d", ["mnemonic", "rd", "imm"])
  | compile_func.__jal =>
    some ("\x7bmnemonic:10\x7d \x7brd\x7d, \x7bimm:#0x\x7d", ["mnemonic", "rd", "imm"])
  | compile_func.__beq =>
    some ("\x7bmnemonic:10\x7d \x7brs1\x7d, \x7brs2\x7d, \x7bimm:#0x\x7d", ["mnemonic", "rs1", "rs2", "imm"])
  | compile_func.__bne =>
    some ("\x7bmnemonic:10\x7d \x7brs1\x7d, \x7brs2\x7d, \x7bimm:#0x\x7d", ["mnemonic", "rs1", "rs2", "imm"])
  | compile_func.__blt =>
    some ("\x7bmnemonic:10\x7d \x7brs1\x7d, \x7brs2\x7d, \x7bimm:#0x\x7d", ["mnemonic", "rs1", "rs2", "imm"])
  | compile_func.__bge =>
    some ("\x7bmnemonic:10\x7d \x7brs1\x7d, \x7brs2\x7d, \x7bimm:#0x\x7d", ["mnemonic", "rs1", "rs2", "imm"])
  | compile_func.__bltu =>
    some ("\x7bmnemonic:10\x7d \x7brs1\x7d, \x7brs2\x7d, \x7bimm:#0x\x7d", ["mnemonic", "rs1", "rs2", "imm"])
  | compile_func.__bgeu =>
    some ("\x7bmnemonic:10\x7d \x7brs1\x7d, \x7brs2\x7d, \x7bimm:#0x\x7d", ["mnemonic", "rs1", "rs2", "imm"])
  | compile_func.__lb =>
    some ("\x7bmnemonic:10\x7d \x7brd\x7d, \x7bimm\x7d(\x7brs1\x7d)", ["mnemonic", "rd", "imm", "rs1"])
  | compile_func.__lh =>
    some ("\x7bmnemonic:10\x7d \x7brd\x7d, \x7bimm\x7d(\x7brs1\x7d)", ["mnemonic", "rd", "imm", "rs1"])
  | compile_func.__lw =>
    some ("\x7bmnemonic:10\x7d \x7brd\x7d, \x7bimm\x7d(\x7brs1\x7d)", ["mnemonic", "rd", "imm", "rs1"])
  | compile_func.__lbu =>
    some ("\x7bmnemonic:10\x7d \x7brd\x7d, \x7bimm\x7d(\x7brs1\x7d)", ["mnemonic", "rd", "imm", "rs1"])
  | compile_func.__lhu =>
    some ("\x7bmnemonic:10\x7d \x7brd\x7d, \x7bimm\x7d(\x7brs1\x7d)", ["mnemonic", "rd", "imm", "rs1"])
  | compile_func.__sb =>
    some ("\x7bmnemonic:10\x7d \x7brs2\x7d, \x7bimm\x7d(\x7brs1\x7d)", ["mnemonic", "rs2", "imm", "rs1"])
  | compile_func.__sh =>
    some ("\x7bmnemonic:10\x7d \x7brs2\x7d, \x7bimm\x7d(\x7brs1\x7d)", ["mnemonic", "rs2", "imm", "rs1"])
  | compile_func.__sw =>
    some ("\x7bmnemonic:10\x7d \x7brs2\x7d, \x7bimm\x7d(\x7brs1\x7d)", ["mnemonic", "rs2", "imm", "rs1"])
  | compile_func.__addi =>
    some ("\x7bmnemonic:10\x7d \x7brd\x7d, \x7brs1\x7d, \x7bimm\x7d", ["mnemonic", "rd", "rs1", "imm"])
  | compile_func.__slti =>
    some ("\x7bmnemonic:10\x7d \x7brd\x7d, \x7brs1\x7d, \x7bimm\x7d", ["mnemonic", "rd", "rs1", "imm"])
  | compile_func.__sltiu =>
    some ("\x7bmnemonic:10\x7d \x7brd\x7d, \x7brs1\x7d, \x7bimm\x7d", ["mnemonic", "rd", "rs1", "imm"])
  | compile_func.__xori =>
    some ("\x7bmnemonic:10\x7d \x7brd\x7d, \x7brs1\x7d, \x7bimm\x7d", ["mnemonic", "rd", "rs1", "imm"])
  | compile_func.__ori =>
    some ("\x7bmnemonic:10\x7d \x7brd\x7d, \x7brs1\x7d, \x7bimm\x7d", ["mnemonic", "rd", "rs1", "imm"])
  | compile_func.__andi =>
    some ("\x7bmnemonic:10\x7d \x7brd\x7d, \x7brs1\x7d, \x7bimm\x7d", ["mnemonic", "rd", "rs1", "imm"])
  | compile_func.__slli =>
    some ("\x7bmnemonic:10\x7d \x7brd\x7d, \x7brs1\x7d, \x7bshamt\x7d", ["mnemonic", "rd", "rs1", "shamt"])
  | compile_func.__srli =>
    some ("\x7bmnemonic:10\x7d \x7brd\x7d, \x7brs1\x7d, \x7bshamt\x7d", ["mnemonic", "rd", "rs1", "shamt"])
  | compile_func.__srai =>
    some ("\x7bmnemonic:10\x7d \x7brd\x7d, \x7brs1\x7d, \x7bshamt\x7d", ["mnemonic", "rd", "rs1", "shamt"])
  | compile_func.__add =>
    some ("\x7bmnemonic:10\x7d \x7brd\x7d, \x7brs1\x7d, \x7brs2\x7d", ["mnemonic", "rd", "rs1", "rs2"])
  | compile_func.__sub =>
    some ("\x7bmnemonic:10\x7d \x7brd\x7d, \x7brs1\x7d, \x7brs2\x7d", ["mnemonic", "rd", "rs1", "rs2"])
  | compile_func.__sll =>
    some ("\x7bmnemonic:10\x7d \x7brd\x7d, \x7brs1\x7d, \x7brs2\x7d", ["mnemonic", "rd", "rs1", "rs2"])
  | compile_func.__slt =>
    some ("\x7bmnemonic:10\x7d \x7brd\x7d, \x7brs1\x7d, \x7brs2\x7d", ["mnemonic", "rd", "rs1", "rs2"])
  | compile_func.__sltu =>
    some ("\x7bmnemonic:10\x7d \x7brd\x7d, \x7brs1\x7d, \x7brs2\x7d", ["mnemonic", "rd", "rs1", "rs2"])
  | compile_func.__xor =>
    some ("\x7bmnemonic:10\x7d \x7brd\x7d, \x7brs1\x7d, \x7brs2\x7d", ["mnemonic", "rd", "rs1", "rs2"])
  | compile_func.__srl =>
    some ("\x7bmnemonic:10\x7d \x7brd\x7d, \x7brs1\x7d, \x7brs2\x7d", ["mnemonic", "rd", "rs1", "rs2"])
  | compile_func.__sra =>
    some ("\x7bmnemonic:10\x7d \x7brd\x7d, \x7brs1\x7d, \x7brs2\x7d", ["mnemonic", "rd", "rs1", "rs2"])
  | compile_func.__or =>
    some ("\x7bmnemonic:10\x7d \x7brd\x7d, \x7brs1\x7d, \x7brs2\x7d", ["mnemonic", "rd", "rs1", "rs2"])
  | compile_func.__and =>
    some ("\x7bmnemonic:10\x7d \x7brd\x7d, \x7brs1\x7d, \x7brs2\x7d", ["mnemonic", "rd", "rs1", "rs2"])
  | compile_func.__csrrw =>
    some ("\x7bmnemonic:10\x7d \x7brd\x7d, \x7bcsr\x7d, \x7brs1\x7d", ["mnemonic", "rd", "csr", "rs1"])
  | compile_func.__csrrs =>
    some ("\x7bmnemonic:10\x7d \x7brd\x7d, \x7bcsr\x7d, \x7brs1\x7d", ["mnemonic", "rd", "csr", "rs1"])
  | compile_func.__csrrc =>
    some ("\x7bmnemonic:10\x7d \x7brd\x7d, \x7bcsr\x7d, \x7brs1\x7d", ["mnemonic", "rd", "csr", "rs1"])
  | compile_func.__csrrwi =>
    some ("\x7bmnemonic:10\x7d \x7brd\x7d, \x7bcsr\x7d, \x7bzimm:#0x\x7d", ["mnemonic", "rd", "csr", "zimm"])
  | compile_func.__csrrsi =>
    some ("\x7bmnemonic:10\x7d \x7brd\x7d, \x7bcsr\x7d, \x7bzimm:#0x\x7d", ["mnemonic", "rd", "csr", "zimm"])
  | compile_func.__csrrci =>
    some ("\x7bmnemonic:10\x7d \x7brd\x7d, \x7bcsr\x7d, \x7bzimm:#0x\x7d", ["mnemonic", "rd", "csr", "zimm"])
  | compile_func.__flw =>
    some ("\x7bmnemonic:10\x7d f\x7brd\x7d, \x7bimm\x7d(\x7brs1\x7d)", ["mnemonic", "rd", "imm", "rs1"])
  | compile_func.__fsw =>
    some ("\x7bmnemonic:10\x7d f\x7brs2\x7d, \x7bimm\x7d(\x7bname(rs1)])", ["mnemonic", "rs2", "imm"])
  | compile_func.__fmadd_s =>
    some ("\x7bmnemonic:10\x7d \x7brd\x7d, f\x7brs1\x7d, f\x7brs2\x7d, f\x7brs3\x7d", ["mnemonic", "rd", "rs1", "rs2", "rs3"])
  | compile_func.__fmsub_s =>
    some ("\x7bmnemonic:10\x7d \x7brd\x7d, f\x7brs1\x7d, f\x7brs2\x7d, f\x7brs3\x7d", ["mnemonic", "rd", "rs1", "rs2", "rs3"])
  | compile_func.__fnmadd_s =>
    some ("\x7bmnemonic:10\x7d name(rd), f\x7brs1\x7d, f\x7brs2\x7d, f\x7brs3\x7d", ["mnemonic", "rs1", "rs2", "rs3"])
  | compile_func.__fnmsub_s =>
    some ("\x7bmnemonic:10\x7d \x7brd\x7d, f\x7brs1\x7d, f\x7brs2\x7d, f\x7brs3\x7d", ["mnemonic", "rd", "rs1", "rs2", "rs3"])
  | compile_func.__fadd_s =>
    some ("\x7bmnemonic:10\x7d f\x7brd\x7d, f\x7brs1\x7d, f\x7brs2\x7d", ["mnemonic", "rd", "rs1", "rs2"])
  | compile_func.__fsub_s =>
    some ("\x7bmnemonic:10\x7d f\x7brd\x7d, f\x7brs1\x7d, f\x7brs2\x7d", ["mnemonic", "rd", "rs1", "rs2"])
  | compile_func.__fmul_s =>
    some ("\x7bmnemonic:10\x7d f\x7brd\x7d, f\x7brs1\x7d, f\x7brs2\x7d", ["mnemonic", "rd", "rs1", "rs2"])
  | compile_func.__fdiv_s =>
    some ("\x7bmnemonic:10\x7d f\x7brd\x7d, f\x7brs1\x7d, f\x7brs2\x7d", ["mnemonic", "rd", "rs1", "rs2"])
  | compile_func.__fsqrt_s =>
    some ("\x7bmnemonic:10\x7d f\x7brd\x7d, f\x7brs1\x7d", ["mnemonic", "rd", "rs1"])
  | compile_func.__fsgnj_s =>
    some ("\x7bmnemonic:10\x7d f\x7brd\x7d, f\x7brs1\x7d, f\x7brs2\x7d", ["mnemonic", "rd", "rs1", "rs2"])
  | compile_func.__fsgnjn_s =>
    some ("\x7bmnemonic:10\x7d f\x7brd\x7d, f\x7brs1\x7d, f\x7brs2\x7d", ["mnemonic", "rd", "rs1", "rs2"])
  | compile_func.__fsgnjx_s =>
    some ("\x7bmnemonic:10\x7d f\x7brd\x7d, f\x7brs1\x7d, f\x7brs2\x7d", ["mnemonic", "rd", "rs1", "rs2"])
  | compile_func.__fmin_s =>
    some ("\x7bmnemonic:10\x7d f\x7brd\x7d, f\x7brs1\x7d, f\x7brs2\x7d", ["mnemonic", "rd", "rs1", "rs2"])
  | compile_func.__fmax_s =>
    some ("\x7bmnemonic:10\x7d f\x7brd\x7d, f\x7brs1\x7d, f\x7brs2\x7d", ["mnemonic", "rd", "rs1", "rs2"])
  | compile_func.__fcvt_w_s =>
    some ("\x7bmnemonic:10\x7d \x7brd\x7d, f\x7brs1\x7d", ["mnemonic", "rd", "rs1"])
  | compile_func.__fcvt_wu_s =>
    some ("\x7bmnemonic:10\x7d \x7brd\x7d, f\x7brs1\x7d", ["mnemonic", "rd", "rs1"])
  | compile_func.__feq_s =>
    some ("\x7bmnemonic:10\x7d \x7brd\x7d, f\x7brs1\x7d, f\x7brs2\x7d", ["mnemonic", "rd", "rs1", "rs2"])
  | compile_func.__flt_s =>
    some ("\x7bmnemonic:10\x7d \x7brd\x7d, f\x7brs1\x7d, f\x7brs2\x7d", ["mnemonic", "rd", "rs1", "rs2"])
  | compile_func.__fle_s =>
    some ("\x7bmnemonic:10\x7d \x7brd\x7d, f\x7brs1\x7d, f\x7brs2\x7d", ["mnemonic", "rd", "rs1", "rs2"])
  | compile_func.__fclass_s =>
    some ("\x7bmnemonic:10\x7d \x7brd\x7d, f\x7brs1\x7d", ["mnemonic", "rd", "rs1"])
  | compile_func.__fcvt_s_w =>
    some ("\x7bmnemonic:10\x7d f\x7brd\x7d, \x7brs1\x7d", ["mnemonic", "rd", "rs1"])
  | compile_func.__fcvt_s_wu =>
    some ("\x7bmnemonic:10\x7d f\x7brd\x7d, \x7brs1\x7d", ["mnemonic", "rd", "rs1"])
  | compile_func.__fmv_x_w =>
    some ("\x7bmnemonic:10\x7d \x7brd\x7d, f\x7brs1\x7d", ["mnemonic", "rd", "rs1"])
  | compile_func.__fmv_w_x =>
    some ("\x7bmnemonic:10\x7d f\x7brd\x7d, \x7brs1\x7d", ["mnemonic", "rd", "rs1"])
  | compile_func.__fld =>
    some ("\x7bmnemonic:10\x7d f\x7brd\x7d, \x7bimm\x7d(\x7brs1\x7d)", ["mnemonic", "rd", "imm", "rs1"])
  | compile_func.__fsd =>
    some ("\x7bmnemonic:10\x7d f\x7brs2\x7d, \x7bimm\x7d(\x7brs1\x7d)", ["mnemonic", "rs2", "imm", "rs1"])
  | compile_func.__fmadd_d =>
    some ("\x7bmnemonic:10\x7d \x7brd\x7d, f\x7brs1\x7d, f\x7brs2\x7d, f\x7brs3\x7d", ["mnemonic", "rd", "rs1", "rs2", "rs3"])
  | compile_func.__fmsub_d =>
    some ("\x7bmnemonic:10\x7d \x7brd\x7d, f\x7brs1\x7d, f\x7brs2\x7d, f\x7brs3\x7d", ["mnemonic", "rd", "rs1", "rs2", "rs3"])
  | compile_func.__fnmadd_d =>
    some ("\x7bmnemonic:10\x7d \x7brd\x7d, f\x7brs1\x7d, f\x7brs2\x7d, f\x7brs3\x7d", ["mnemonic", "rd", "rs1", "rs2", "rs3"])
  | compile_func.__fnmsub_d =>
    some ("\x7bmnemonic:10\x7d \x7brd\x7d, f\x7brs1\x7d, f\x7brs2\x7d, f\x7brs3\x7d", ["mnemonic", "rd", "rs1", "rs2", "rs3"])
  | compile_func.__fadd_d =>
    some ("\x7bmnemonic:10\x7d \x7brd\x7d, f\x7brs1\x7d, f\x7brs2\x7d", ["mnemonic", "rd", "rs1", "rs2"])
  | compile_func.__fsub_d =>
    some ("\x7bmnemonic:10\x7d \x7brd\x7d, f\x7brs1\x7d, f\x7brs2\x7d", ["mnemonic", "rd", "rs1", "rs2"])
  | compile_func.__fmul_d =>
    some ("\x7bmnemonic:10\x7d \x7brd\x7d, f\x7brs1\x7d, f\x7brs2\x7d", ["mnemonic", "rd", "rs1", "rs2"])
  | compile_func.__fdiv_d =>
    some ("\x7bmnemonic:10\x7d \x7brd\x7d, f\x7brs1\x7d, f\x7brs2\x7d", ["mnemonic", "rd", "rs1", "rs2"])
  | compile_func.__fsqrt_d =>
    some ("\x7bmnemonic:10\x7d \x7brd\x7d, f\x7brs1\x7d", ["mnemonic", "rd", "rs1"])
  | compile_func.__fsgnj_d =>
    some ("\x7bmnemonic:10\x7d f\x7brd\x7d, f\x7brs1\x7d, f\x7brs2\x7d", ["mnemonic", "rd", "rs1", "rs2"])
  | compile_func.__fsgnjn_d =>
    some ("\x7bmnemonic:10\x7d f\x7brd\x7d, f\x7brs1\x7d, f\x7brs2\x7d", ["mnemonic", "rd", "rs1", "rs2"])
  | compile_func.__fsgnjx_d =>
    some ("\x7bmnemonic:10\x7d f\x7brd\x7d, f\x7brs1\x7d, f\x7brs2\x7d", ["mnemonic", "rd", "rs1", "rs2"])
  | compile_func.__fmin_d =>
    some ("\x7bmnemonic:10\x7d f\x7brd\x7d, f\x7brs1\x7d, f\x7brs2\x7d", ["mnemonic", "rd", "rs1", "rs2"])
  | compile_func.__fmax_d =>
    some ("\x7bmnemonic:10\x7d f\x7brd\x7d, f\x7brs1\x7d, f\x7brs2\x7d", ["mnemonic", "rd", "rs1", "rs2"])
  | compile_func.__fcvt_s_d =>
    some ("\x7bmnemonic:10\x7d f\x7brd\x7d, f\x7brs1\x7d", ["mnemonic", "rd", "rs1"])
  | compile_func.__fcvt_d_s =>
    some ("\x7bmnemonic:10\x7d f\x7brd\x7d, f\x7brs1\x7d", ["mnemonic", "rd", "rs1"])
  | compile_func.__feq_d =>
    some ("\x7bmnemonic:10\x7d \x7brd\x7d, f\x7brs1\x7d, f\x7brs2\x7d", ["mnemonic", "rd", "rs1", "rs2"])
  | compile_func.__flt_d =>
    some ("\x7bmnemonic:10\x7d \x7brd\x7d, f\x7brs1\x7d, f\x7brs2\x7d", ["mnemonic", "rd", "rs1", "rs2"])
  | compile_func.__fle_d =>
    some ("\x7bmnemonic:10\x7d \x7brd\x7d, f\x7brs1\x7d, f\x7brs2\x7d", ["mnemonic", "rd", "rs1", "rs2"])
  | compile_func.__fclass_d =>
    some ("\x7bmnemonic:10\x7d \x7brd\x7d, f\x7brs1\x7d", ["mnemonic", "rd", "rs1"])
  | compile_func.__fcvt_w_d =>
    some ("\x7bmnemonic:10\x7d \x7brd\x7d, f\x7brs1\x7d", ["mnemonic", "rd", "rs1"])
  | compile_func.__fcvt_wu_d =>
    some ("\x7bmnemonic:10\x7d \x7brd\x7d, f\x7brs1\x7d", ["mnemonic", "rd", "rs1"])
  | compile_func.__fcvt_d_w =>
    some ("\x7bmnemonic:10\x7d f\x7brd\x7d, \x7brs1\x7d", ["mnemonic", "rd", "rs1"])
  | compile_func.__fcvt_d_wu =>
    some ("\x7bmnemonic:10\x7d f\x7brd\x7d, \x7brs1\x7d", ["mnemonic", "rd", "rs1"])
  | compile_func.__jalr =>
    some ("\x7bmnemonic:10\x7d \x7brd\x7d, \x7brs1\x7d, \x7bimm:#0x\x7d", ["mnemonic", "rd", "rs1", "imm"])
  | compile_func.__c_addi4spn =>
    some ("\x7bmnemonic:10\x7d \x7brd\x7d, \x7bimm:#05x\x7d", ["mnemonic", "rd", "imm"])
  | compile_func.__c_lw =>
    some ("\x7bmnemonic:10\x7d \x7brd\x7d, \x7buimm:#05x\x7d(\x7brs1\x7d)", ["mnemonic", "rd", "uimm", "rs1"])
  | compile_func.__c_sw =>
    some ("\x7bmnemonic:10\x7d \x7brs2\x7d, \x7buimm:#05x\x7d(\x7brs1\x7d)", ["mnemonic", "rs2", "uimm", "rs1"])
  | compile_func.__c_addi =>
    some ("\x7bmnemonic:10\x7d \x7brs1\x7d, \x7bimm:#05x\x7d", ["mnemonic", "rs1", "imm"])
  | compile_func.__c_jal =>
    some ("\x7bmnemonic:10\x7d \x7bimm:#05x\x7d", ["mnemonic", "imm"])
  | compile_func.__c_li =>
    some ("\x7bmnemonic:10\x7d \x7brd\x7d, \x7bimm:#05x\x7d", ["mnemonic", "rd", "imm"])
  | compile_func.__c_lui =>
    some ("\x7bmnemonic:10\x7d \x7brd\x7d, \x7bimm:#05x\x7d", ["mnemonic", "rd", "imm"])
  | compile_func.__c_addi16sp =>
    some ("\x7bmnemonic:10\x7d \x7bimm:#05x\x7d", ["mnemonic", "imm"])
  | compile_func.__c_srli =>
    some ("\x7bmnemonic:10\x7d \x7brs1\x7d, \x7bshamt\x7d", ["mnemonic", "rs1", "shamt"])
  | compile_func.__c_srai =>
    some ("\x7bmnemonic:10\x7d \x7brs1\x7d, \x7bshamt\x7d", ["mnemonic", "rs1", "shamt"])
  | compile_func.__c_andi =>
    some ("\x7bmnemonic:10\x7d \x7brs1\x7d, \x7bimm:#05x\x7d", ["mnemonic", "rs1", "imm"])
  | compile_func.__c_sub =>
    some ("\x7bmnemonic:10\x7d \x7brd\x7d, \x7brs2\x7d", ["mnemonic", "rd", "rs2"])
  | compile_func.__c_xor =>
    some ("\x7bmnemonic:10\x7d \x7brd\x7d, \x7brs2\x7d", ["mnemonic", "rd", "rs2"])
  | compile_func.__c_or =>
    some ("\x7bmnemonic:10\x7d \x7brd\x7d, \x7brs2\x7d", ["mnemonic", "rd", "rs2"])
  | compile_func.__c_and =>
    some ("\x7bmnemonic:10\x7d \x7brd\x7d, \x7brs2\x7d", ["mnemonic", "rd", "rs2"])
  | compile_func.__c_j =>
    some ("\x7bmnemonic:10\x7d \x7bimm:#05x\x7d", ["mnemonic", "imm"])
  | compile_func.__c_beqz =>
    some ("\x7bmnemonic:10\x7d \x7brs1\x7d, \x7bimm:#05x\x7d", ["mnemonic", "rs1", "imm"])
  | compile_func.__c_bnez =>
    some ("\x7bmnemonic:10\x7d \x7brs1\x7d, \x7bimm:#05x\x7d", ["mnemonic", "rs1", "imm"])
  | compile_func.__c_slli =>
    some ("\x7bmnemonic:10\x7d \x7brs1\x7d, \x7bshamt\x7d", ["mnemonic", "rs1", "shamt"])
  | compile_func.__c_lwsp =>
    some ("\x7bmnemonic:10\x7d \x7brd\x7d, sp, \x7buimm:#05x\x7d", ["mnemonic", "rd", "uimm"])
  | compile_func.__c_mv =>
    some ("\x7bmnemonic:10\x7d \x7brd\x7d, \x7brs2\x7d", ["mnemonic", "rd", "rs2"])
  | compile_func.__c_jr =>
    some ("\x7bmnemonic:10\x7d \x7brs1\x7d", ["mnemonic", "rs1"])
  | compile_func.__c_add =>
    some ("\x7bmnemonic:10\x7d \x7brd\x7d, \x7brs2\x7d", ["mnemonic", "rd", "rs2"])
  | compile_func.__c_jalr =>
    some ("\x7bmnemonic:10\x7d \x7brs1\x7d", ["mnemonic", "rs1"])
  | compile_func.__c_swsp =>
    some ("\x7bmnemonic:10\x7d \x7brs2\x7d, \x7buimm:#05x\x7d(sp)", ["mnemonic", "rs2", "uimm"])
  | compile_func.__c_flw =>
    some ("\x7bmnemonic:10\x7d f(8+\x7brd\x7d), \x7buimm\x7d(\x7brs1\x7d)", ["mnemonic", "rd", "uimm", "rs1"])
  | compile_func.__c_fsw =>
    some ("\x7bmnemonic:10\x7d f(8+\x7brs2\x7d), \x7buimm\x7d(\x7brs1\x7d)", ["mnemonic", "rs2", "uimm", "rs1"])
  | compile_func.__c_flwsp =>
    some ("\x7bmnemonic:10\x7d f\x7brd\x7d, \x7buimm\x7d(x2)", ["mnemonic", "rd", "uimm"])
  | compile_func.__c_fswsp =>
    some ("\x7bmnemonic:10\x7d f\x7brs2\x7d, \x7buimm\x7d(x2), ", ["mnemonic", "rs2", "uimm"])
  | compile_func.__c_fld =>
    some ("\x7bmnemonic:10\x7d f(8+\x7brd\x7d), \x7buimm\x7d(\x7brs1\x7d)", ["mnemonic", "rd", "uimm", "rs1"])
  | compile_func.__c_fsd =>
    some ("\x7bmnemonic:10\x7d f(8+\x7brs2\x7d), \x7buimm\x7d(\x7brs1\x7d)", ["mnemonic", "rs2", "uimm", "rs1"])
  | compile_func.__c_fldsp =>
    some ("\x7bmnemonic:10\x7d f\x7brd\x7d, \x7buimm\x7d(x2)", ["mnemonic", "rd", "uimm"])
  | compile_func.__c_fsdsp =>
    some ("\x7bmnemonic:10\x7d f\x7brs2\x7d, \x7buimm\x7d(x2), ", ["mnemonic", "rs2", "uimm"])
  | _ => none

/-- Whether the `fmt::format` call of the handler's disassembly branch returns. -/
def disass_format_ok (f : compile_func) : Bool :=
  match disass_format f with
  | none => true
  | some p => fmt_accepts p.1 p.2

/-- The handler call with the formatting of the disassembly text taken into account.  The
handler definitions record the `print_disass` line as emitted, which is what the source
does when its `fmt::format` call returns.  When disassembly is enabled and the call throws,
the exception leaves the handler before the `print_disass` line, the advance of `pc` and
the `return`, and passes through `gen_single_inst_behavior`, which has no handler for it:
the call has no result, `none`. -/
def invoke_checked (f : compile_func) (disass_enabled : Bool) (pc : Nat) (instr : Nat)
    (tu : tu_builder) : Option handler_ret :=
  if disass_enabled = true ∧ disass_format_ok f = false then none
  else some (invoke f disass_enabled pc instr tu)
/-! ## Decode tables: how one descriptor is expanded -/

theorem and_two_pow_eq_zero (m p : Nat) : m &&& 2 ^ p = 0 ↔ m.testBit p = false := by
  rw [Nat.and_two_pow]
  cases h : m.testBit p <;> simp

theorem and_one_shiftLeft_eq_zero (m p : Nat) : m &&& (1 <<< p) = 0 ↔ m.testBit p = false := by
  rw [Nat.one_shiftLeft, and_two_pow_eq_zero]

theorem agree_below_zero (mask valid value val : Nat) : agree_below 0 mask valid value val := by
  intro p hp; omega

theorem agree_below_succ (n mask valid value val : Nat) :
    agree_below (n + 1) mask valid value val ↔
      ((mask.testBit n = true → valid.testBit n = true → value.testBit n = val.testBit n) ∧
        agree_below n mask valid value val) := by
  constructor
  · intro h
    exact ⟨h n (by omega), fun p hp => h p (by omega)⟩
  · rintro ⟨h0, h⟩ p hp
    rcases Nat.lt_succ_iff_lt_or_eq.mp hp with hlt | heq
    · exact h p hlt
    · subst heq; exact h0

/-- What `expand_bit_mask` leaves at the slot that `extract_fields` computes for `val`. -/
theorem expand_at_extract (mask value valid val : Nat) (f : compile_func) :
    ∀ (n idx acc : Nat) (lut : lut_t),
      expand_bit_mask_pos n mask value valid idx lut f (extract_fields_pos n val mask acc) =
        if idx = acc ∧ agree_below n mask valid value val then some f
        else lut (extract_fields_pos n val mask acc) := by
  intro n
  induction n with
  | zero =>
    intro idx acc lut
    simp only [expand_bit_mask_pos, extract_fields_pos, agree_below_zero, and_true]
    by_cases h : idx = acc
    · subst h; simp
    · simp [h, Function.update_noteq (Ne.symm h)]
  | succ p ih =>
    intro idx acc lut
    simp only [expand_bit_mask_pos, extract_fields_pos, agree_below_succ,
      and_one_shiftLeft_eq_zero, ne_eq]
    have hsh : ∀ x : Nat, x <<< 1 = x * 2 := fun x => by simp [Nat.shiftLeft_eq]
    simp only [hsh]
    cases hm : mask.testBit p
    · simp [ih]
    · cases hv : valid.testBit p
      · simp only [if_true, Bool.false_eq_true, if_false, Bool.not_eq_false, reduceCtorEq,
          false_implies, implies_true, true_and, ih]
        cases hb : val.testBit p
        · simp only [Bool.false_eq_true, not_false_eq_true, not_true_eq_false, if_false, if_true]
          by_cases hi : idx = acc
          · subst hi; simp
          · have h1 : ¬ (idx * 2 + 1 = acc * 2) := by omega
            have h2 : ¬ (idx * 2 = acc * 2) := by omega
            simp [hi, h1, h2]
        · simp only [not_true_eq_false, not_false_eq_true, if_true, if_false]
          by_cases hi : idx = acc
          · subst hi; simp
          · have h1 : ¬ (idx * 2 + 1 = acc * 2 + 1) := by omega
            have h2 : ¬ (idx * 2 = acc * 2 + 1) := by omega
            simp [hi, h1, h2]
      · simp only [Bool.true_eq_false, if_false, Bool.not_eq_false, true_implies, ih]
        cases hb : val.testBit p <;> cases hd : value.testBit p <;>
          by_cases hi : idx = acc <;> simp [hi] <;> omega

theorem lutmasks_eq (q : Nat) : lutmasks q = lookup_mask q >>> 2 := by
  unfold lutmasks lookup_mask EXTR_MASK16 EXTR_MASK32
  split <;> rfl

theorem lookup_mask_lt (q : Nat) : lookup_mask q < 2 ^ 32 := by
  unfold lookup_mask MASK16 MASK32
  split <;> decide

theorem testBit_low_of_and_three {a b : Nat} (h : a &&& 3 = b &&& 3) (i : Nat) (hi : i < 2) :
    a.testBit i = b.testBit i := by
  have h3 : (3 : Nat).testBit i = true := by
    interval_cases i <;> decide
  have := congrArg (fun x => x.testBit i) h
  simpa [Nat.testBit_and, h3] using this

/-- The positional agreement tested by the expansion is agreement of the two words on the
bits selected by the descriptor mask and the lookup mask. -/
theorem agree_below_iff (q dv dm w : Nat) (hq : dv &&& 3 = w &&& 3) :
    agree_below 30 (lutmasks q) (dm >>> 2) (dv >>> 2) (w >>> 2) ↔
      (dv ^^^ w) &&& (dm &&& lookup_mask q) = 0 := by
  constructor
  · intro h
    apply Nat.eq_of_testBit_eq
    intro i
    simp only [Nat.testBit_and, Nat.testBit_xor, Nat.zero_testBit]
    by_cases hi : i < 2
    · simp [testBit_low_of_and_three hq i hi]
    · obtain ⟨p, rfl⟩ : ∃ p, i = 2 + p := ⟨i - 2, by omega⟩
      by_cases hp : p < 30
      · have := h p hp
        simp only [lutmasks_eq, Nat.testBit_shiftRight] at this
        cases h1 : (lookup_mask q).testBit (2 + p) <;> cases h2 : dm.testBit (2 + p) <;>
          simp_all
      · have hlt : lookup_mask q < 2 ^ (2 + p) :=
          lt_of_lt_of_le (lookup_mask_lt q) (Nat.pow_le_pow_right (by decide) (by omega))
        simp [Nat.testBit_lt_two_pow hlt]
  · intro h p _ hm hv
    have := congrArg (fun x => x.testBit (2 + p)) h
    simp only [Nat.testBit_and, Nat.testBit_xor, Nat.zero_testBit] at this
    simp only [lutmasks_eq, Nat.testBit_shiftRight] at hm hv ⊢
    simp only [hm, hv, Bool.and_true] at this
    cases h1 : dv.testBit (2 + p) <;> cases h2 : w.testBit (2 + p) <;> simp_all

/-- One constructor iteration, read at the slot of a fetched word. -/
theorem vm_impl_step_at (T : qlut_t) (d : InstructionDesriptor) (w : Nat) :
    vm_impl_step T d (w &&& 0x3) (extract_fields w) =
      if slot_match w d = true then some d.op else T (w &&& 0x3) (extract_fields w) := by
  unfold vm_impl_step slot_match
  by_cases hq : d.value &&& 0x3 = w &&& 0x3
  · have h30 : ((29 : Int) + 1).toNat = 30 := by decide
    simp only [hq, Function.update_same, expand_bit_mask, extract_fields, extract_fields_at, h30,
      expand_at_extract, true_and, agree_below_iff _ _ _ _ hq, beq_self_eq_true, Bool.true_and,
      beq_iff_eq]
  · have hne : w &&& 0x3 ≠ d.value &&& 0x3 := fun h => hq h.symm
    simp [Function.update_noteq hne, hq]

/-- The table entry at the slot of a fetched word is the handler of the last candidate
descriptor, and the initial entry when there is none. -/
theorem build_at (w : Nat) : ∀ (descr : List InstructionDesriptor) (T : qlut_t),
    descr.foldl vm_impl_step T (w &&& 0x3) (extract_fields w) =
      match descr.reverse.find? (slot_match w) with
      | some d => some d.op
      | none => T (w &&& 0x3) (extract_fields w) := by
  intro descr
  induction descr with
  | nil => intro T; simp
  | cons d rest ih =>
    intro T
    rw [List.foldl_cons, ih, List.reverse_cons, List.find?_append]
    cases hfind : rest.reverse.find? (slot_match w) with
    | some d1 => simp
    | none =>
      simp only [Option.none_or, List.find?_cons, List.find?_nil, vm_impl_step_at]
      cases hs : slot_match w d <;> simp

theorem qlut_at (w : Nat) :
    qlut (w &&& 0x3) (extract_fields w) =
      (instr_descr.reverse.find? (slot_match w)).map InstructionDesriptor.op := by
  unfold qlut build_qlut
  rw [build_at]
  cases instr_descr.reverse.find? (slot_match w) <;> simp [qlut_null]
/-! ## Builder operations append lines -/

@[simp] theorem raw_lines (tu : tu_builder) (l : line) : (tu.raw l).lines = tu.lines ++ [l] := rfl

@[simp] theorem raw_serial (tu : tu_builder) (l : line) : (tu.raw l).serial = tu.serial := rfl

@[simp] theorem open_scope_lines (tu : tu_builder) :
    tu.open_scope.lines = tu.lines ++ [line.open_scope] := rfl

@[simp] theorem open_scope_serial (tu : tu_builder) : tu.open_scope.serial = tu.serial := rfl

@[simp] theorem close_scope_lines (tu : tu_builder) :
    tu.close_scope.lines = tu.lines ++ [line.close_scope] := rfl

@[simp] theorem close_scope_serial (tu : tu_builder) : tu.close_scope.serial = tu.serial := rfl

@[simp] theorem assignment_fst (tu : tu_builder) (v : value) (w : Nat) :
    (tu.assignment v w).1 = value.ref (local_name.tmp tu.serial) w := rfl

@[simp] theorem assignment_lines (tu : tu_builder) (v : value) (w : Nat) :
    (tu.assignment v w).2.lines =
      tu.lines ++ [line.assignment (local_name.tmp tu.serial) v w] := rfl

@[simp] theorem assignment_serial (tu : tu_builder) (v : value) (w : Nat) :
    (tu.assignment v w).2.serial = tu.serial + 1 := rfl

@[simp] theorem assignment_named_fst (tu : tu_builder) (n : String) (v : value) (w : Nat) :
    (tu.assignment_named n v w).1 = value.ref (local_name.named n) w := rfl

@[simp] theorem assignment_named_lines (tu : tu_builder) (n : String) (v : value) (w : Nat) :
    (tu.assignment_named n v w).2.lines =
      tu.lines ++ [line.assignment (local_name.named n) v w] := rfl

@[simp] theorem assignment_named_serial (tu : tu_builder) (n : String) (v : value) (w : Nat) :
    (tu.assignment_named n v w).2.serial = tu.serial := rfl

@[simp] theorem store_lines (tu : tu_builder) (v : value) (r : reg_e) :
    (tu.store v r).lines = tu.lines ++ [line.store v r] := rfl

@[simp] theorem store_serial (tu : tu_builder) (v : value) (r : reg_e) :
    (tu.store v r).serial = tu.serial := rfl

@[simp] theorem write_mem_lines (tu : tu_builder) (t : mem_type_e) (a v : value) :
    (tu.write_mem t a v).lines = tu.lines ++ [line.write_mem t a v] := rfl

@[simp] theorem write_mem_serial (tu : tu_builder) (t : mem_type_e) (a v : value) :
    (tu.write_mem t a v).serial = tu.serial := rfl

@[simp] theorem gen_sync_lines (tu : tu_builder) (s : sync_type) (i : Nat) :
    (gen_sync tu s i).lines = tu.lines ++ [line.sync s i] := rfl

@[simp] theorem gen_sync_serial (tu : tu_builder) (s : sync_type) (i : Nat) :
    (gen_sync tu s i).serial = tu.serial := rfl

@[simp] theorem gen_trap_check_lines (tu : tu_builder) :
    (gen_trap_check tu).lines = tu.lines ++ [line.trap_check] := rfl

@[simp] theorem gen_trap_check_serial (tu : tu_builder) : (gen_trap_check tu).serial = tu.serial :=
  rfl

@[simp] theorem gen_set_pc_next_lines (tu : tu_builder) (pc : Nat) :
    (gen_set_pc tu pc reg_e.NEXT_PC).lines = tu.lines ++ [line.set_pc reg_e.NEXT_PC pc] := rfl

@[simp] theorem gen_set_pc_next_serial (tu : tu_builder) (pc : Nat) :
    (gen_set_pc tu pc reg_e.NEXT_PC).serial = tu.serial := rfl

@[simp] theorem gen_raise_trap_lines (tu : tu_builder) (t c : Nat) :
    (gen_raise_trap tu t c).lines =
      tu.lines ++ [line.trap_state
          (int_t 32 ((((0x80 <<< 24) ||| (uint_t 16 c <<< 16)) ||| uint_t 16 t : Nat) : Int)),
        line.store (value.constant 4294967295 32) reg_e.LAST_BRANCH] := by
  simp [gen_raise_trap, tu_builder.store, tu_builder.raw]

@[simp] theorem gen_raise_trap_serial (tu : tu_builder) (t c : Nat) :
    (gen_raise_trap tu t c).serial = tu.serial := rfl

@[simp] theorem gen_leave_trap_lines (tu : tu_builder) (lvl : Nat) :
    (gen_leave_trap tu lvl).lines =
      tu.lines ++ [line.leave_trap lvl,
        line.store (value.read_mem_at mem_type_e.CSR ((lvl <<< 8) + 0x41) XLEN) reg_e.NEXT_PC,
        line.store (value.constant 4294967295 32) reg_e.LAST_BRANCH] := by
  simp [gen_leave_trap, tu_builder.store, tu_builder.raw]

@[simp] theorem gen_leave_trap_serial (tu : tu_builder) (lvl : Nat) :
    (gen_leave_trap tu lvl).serial = tu.serial := rfl

@[simp] theorem gen_wait_eq (tu : tu_builder) (t : Nat) : gen_wait tu t = tu := rfl

@[simp] theorem ite_lines (c : Prop) [Decidable c] (a b : tu_builder) :
    (if c then a else b).lines = if c then a.lines else b.lines := by
  split <;> rfl

@[simp] theorem ite_serial (c : Prop) [Decidable c] (a b : tu_builder) :
    (if c then a else b).serial = if c then a.serial else b.serial := by
  split <;> rfl

/-- A conditional whose branches both extend `l` extends `l` by a conditional. -/
@[simp]
theorem ite_append_append (c : Prop) [Decidable c] (l a b : List line) :
    (if c then l ++ a else l ++ b) = l ++ (if c then a else b) := by
  split <;> rfl

@[simp] theorem ite_append_self (c : Prop) [Decidable c] (l a : List line) :
    (if c then l ++ a else l) = l ++ (if c then a else []) := by
  split <;> simp

@[simp] theorem ite_self_append (c : Prop) [Decidable c] (l b : List line) :
    (if c then l else l ++ b) = l ++ (if c then [] else b) := by
  split <;> simp

@[simp] theorem ite_cons_cons (c : Prop) [Decidable c] (x : line) (a b : List line) :
    (if c then x :: a else x :: b) = x :: (if c then a else b) := by
  split <;> rfl

/-- The rewriting rules that bring the lines of a handler's result into the form
`tu.lines ++ ...`, bundled for use by `simp only`. -/
theorem tu_simps :
    (∀ (tu : tu_builder) (l : line), (tu.raw l).lines = tu.lines ++ [l]) ∧
    (∀ (tu : tu_builder) (l : line), (tu.raw l).serial = tu.serial) ∧
    (∀ tu : tu_builder, tu.open_scope.lines = tu.lines ++ [line.open_scope]) ∧
    (∀ tu : tu_builder, tu.open_scope.serial = tu.serial) ∧
    (∀ tu : tu_builder, tu.close_scope.lines = tu.lines ++ [line.close_scope]) ∧
    (∀ tu : tu_builder, tu.close_scope.serial = tu.serial) ∧
    (∀ (tu : tu_builder) (v : value) (w : Nat),
      (tu.assignment v w).1 = value.ref (local_name.tmp tu.serial) w) ∧
    (∀ (tu : tu_builder) (v : value) (w : Nat),
      (tu.assignment v w).2.lines =
        tu.lines ++ [line.assignment (local_name.tmp tu.serial) v w]) ∧
    (∀ (tu : tu_builder) (v : value) (w : Nat), (tu.assignment v w).2.serial = tu.serial + 1) ∧
    (∀ (tu : tu_builder) (n : String) (v : value) (w : Nat),
      (tu.assignment_named n v w).1 = value.ref (local_name.named n) w) ∧
    (∀ (tu : tu_builder) (n : String) (v : value) (w : Nat),
      (tu.assignment_named n v w).2.lines =
        tu.lines ++ [line.assignment (local_name.named n) v w]) ∧
    (∀ (tu : tu_builder) (n : String) (v : value) (w : Nat),
      (tu.assignment_named n v w).2.serial = tu.serial) ∧
    (∀ (tu : tu_builder) (v : value) (r : reg_e),
      (tu.store v r).lines = tu.lines ++ [line.store v r]) ∧
    (∀ (tu : tu_builder) (v : value) (r : reg_e), (tu.store v r).serial = tu.serial) ∧
    (∀ (tu : tu_builder) (t : mem_type_e) (a v : value),
      (tu.write_mem t a v).lines = tu.lines ++ [line.write_mem t a v]) ∧
    (∀ (tu : tu_builder) (t : mem_type_e) (a v : value),
      (tu.write_mem t a v).serial = tu.serial) ∧
    (∀ (tu : tu_builder) (s : sync_type) (i : Nat),
      (gen_sync tu s i).lines = tu.lines ++ [line.sync s i]) ∧
    (∀ (tu : tu_builder) (s : sync_type) (i : Nat), (gen_sync tu s i).serial = tu.serial) ∧
    (∀ tu : tu_builder, (gen_trap_check tu).lines = tu.lines ++ [line.trap_check]) ∧
    (∀ tu : tu_builder, (gen_trap_check tu).serial = tu.serial) ∧
    (∀ (tu : tu_builder) (pc : Nat),
      (gen_set_pc tu pc reg_e.NEXT_PC).lines = tu.lines ++ [line.set_pc reg_e.NEXT_PC pc]) ∧
    (∀ (tu : tu_builder) (pc : Nat), (gen_set_pc tu pc reg_e.NEXT_PC).serial = tu.serial) ∧
    (∀ (tu : tu_builder) (t c : Nat),
      (gen_raise_trap tu t c).lines =
        tu.lines ++ [line.trap_state
            (int_t 32 ((((0x80 <<< 24) ||| (uint_t 16 c <<< 16)) ||| uint_t 16 t : Nat) : Int)),
          line.store (value.constant 4294967295 32) reg_e.LAST_BRANCH]) ∧
    (∀ (tu : tu_builder) (t c : Nat), (gen_raise_trap tu t c).serial = tu.serial) ∧
    (∀ (tu : tu_builder) (lvl : Nat),
      (gen_leave_trap tu lvl).lines =
        tu.lines ++ [line.leave_trap lvl,
          line.store (value.read_mem_at mem_type_e.CSR ((lvl <<< 8) + 0x41) XLEN) reg_e.NEXT_PC,
          line.store (value.constant 4294967295 32) reg_e.LAST_BRANCH]) ∧
    (∀ (tu : tu_builder) (lvl : Nat), (gen_leave_trap tu lvl).serial = tu.serial) ∧
    (∀ (tu : tu_builder) (t : Nat), gen_wait tu t = tu) ∧
    (∀ (c : Prop) [Decidable c] (a b : tu_builder),
      (if c then a else b).lines = if c then a.lines else b.lines) ∧
    (∀ (c : Prop) [Decidable c] (a b : tu_builder),
      (if c then a else b).serial = if c then a.serial else b.serial) ∧
    (∀ (c : Prop) [Decidable c] (l a b : List line),
      (if c then l ++ a else l ++ b) = l ++ (if c then a else b)) ∧
    (∀ (c : Prop) [Decidable c] (l a : List line),
      (if c then l ++ a else l) = l ++ (if c then a else [])) ∧
    (∀ (c : Prop) [Decidable c] (l b : List line),
      (if c then l else l ++ b) = l ++ (if c then [] else b)) ∧
    (∀ (c : Prop) [Decidable c] (x : line) (a b : List line),
      (if c then x :: a else x :: b) = x :: (if c then a else b)) ∧
    (∀ (a b c : List line), a ++ b ++ c = a ++ (b ++ c)) ∧
    (∀ (x : line) (a b : List line), (x :: a) ++ b = x :: (a ++ b)) ∧
    (∀ (a : List line), [] ++ a = a) ∧
    (∀ (a b : List line), List.drop a.length (a ++ b) = b) ∧
    (∀ (c : Prop) [Decidable c] (n : Nat), (if c then n else n) = n) :=
  ⟨raw_lines, raw_serial, open_scope_lines, open_scope_serial, close_scope_lines,
    close_scope_serial, assignment_fst, assignment_lines, assignment_serial,
    assignment_named_fst, assignment_named_lines, assignment_named_serial, store_lines,
    store_serial, write_mem_lines, write_mem_serial, gen_sync_lines, gen_sync_serial,
    gen_trap_check_lines, gen_trap_check_serial, gen_set_pc_next_lines, gen_set_pc_next_serial,
    gen_raise_trap_lines, gen_raise_trap_serial, gen_leave_trap_lines, gen_leave_trap_serial,
    gen_wait_eq, ite_lines, ite_serial, ite_append_append, ite_append_self, ite_self_append,
    ite_cons_cons, List.append_assoc, List.cons_append, List.nil_append,
    fun _ _ => List.drop_left _ _, fun _ _ _ => ite_self _⟩

theorem suffix_cons_of_suffix {l1 l2 : List line} (a : line) (h : l1 <:+ l2) :
    l1 <:+ a :: l2 :=
  h.trans (List.suffix_cons a l2)

theorem suffix_append_of_suffix {l1 l2 : List line} (l3 : List line) (h : l1 <:+ l2) :
    l1 <:+ l3 ++ l2 :=
  h.trans (List.suffix_append l3 l2)

/-! ## The envelope of every handler -/

theorem __mul_ret (dis : Bool) (pc instr : Nat) (tu : tu_builder) :
    (__mul dis pc instr tu).cont = continuation_e.CONT ∧
      (__mul dis pc instr tu).pc = pc + 4 :=
  ⟨rfl, rfl⟩

theorem __mul_env (dis : Bool) (pc instr : Nat) (tu : tu_builder) :
    envelope 0 "MUL" pc (pc + 4) tu (__mul dis pc instr tu) := by
  refine ⟨_, ?body, rfl, ?h1, ?h2⟩
  case h1 =>
    simp only [tu_simps]
    exact rfl
  case h2 =>
    simp [line.is_marker, List.filter_cons, apply_ite (List.filter line.is_marker)]

theorem __mulh_ret (dis : Bool) (pc instr : Nat) (tu : tu_builder) :
    (__mulh dis pc instr tu).cont = continuation_e.CONT ∧
      (__mulh dis pc instr tu).pc = pc + 4 :=
  ⟨rfl, rfl⟩

theorem __mulh_env (dis : Bool) (pc instr : Nat) (tu : tu_builder) :
    envelope 1 "MULH" pc (pc + 4) tu (__mulh dis pc instr tu) := by
  refine ⟨_, ?body, rfl, ?h1, ?h2⟩
  case h1 =>
    simp only [tu_simps]
    exact rfl
  case h2 =>
    simp [line.is_marker, List.filter_cons, apply_ite (List.filter line.is_marker)]

theorem __mulhsu_ret (dis : Bool) (pc instr : Nat) (tu : tu_builder) :
    (__mulhsu dis pc instr tu).cont = continuation_e.CONT ∧
      (__mulhsu dis pc instr tu).pc = pc + 4 :=
  ⟨rfl, rfl⟩

theorem __mulhsu_env (dis : Bool) (pc instr : Nat) (tu : tu_builder) :
    envelope 2 "MULHSU" pc (pc + 4) tu (__mulhsu dis pc instr tu) := by
  refine ⟨_, ?body, rfl, ?h1, ?h2⟩
  case h1 =>
    simp only [tu_simps]
    exact rfl
  case h2 =>
    simp [line.is_marker, List.filter_cons, apply_ite (List.filter line.is_marker)]

theorem __mulhu_ret (dis : Bool) (pc instr : Nat) (tu : tu_builder) :
    (__mulhu dis pc instr tu).cont = continuation_e.CONT ∧
      (__mulhu dis pc instr tu).pc = pc + 4 :=
  ⟨rfl, rfl⟩

theorem __mulhu_env (dis : Bool) (pc instr : Nat) (tu : tu_builder) :
    envelope 3 "MULHU" pc (pc + 4) tu (__mulhu dis pc instr tu) := by
  refine ⟨_, ?body, rfl, ?h1, ?h2⟩
  case h1 =>
    simp only [tu_simps]
    exact rfl
  case h2 =>
    simp [line.is_marker, List.filter_cons, apply_ite (List.filter line.is_marker)]

theorem __div_ret (dis : Bool) (pc instr : Nat) (tu : tu_builder) :
    (__div dis pc instr tu).cont = continuation_e.CONT ∧
      (__div dis pc instr tu).pc = pc + 4 :=
  ⟨rfl, rfl⟩

theorem __div_env (dis : Bool) (pc instr : Nat) (tu : tu_builder) :
    envelope 4 "DIV" pc (pc + 4) tu (__div dis pc instr tu) := by
  refine ⟨_, ?body, rfl, ?h1, ?h2⟩
  case h1 =>
    simp only [tu_simps]
    exact rfl
  case h2 =>
    simp [line.is_marker, List.filter_cons, apply_ite (List.filter line.is_marker)]

theorem __divu_ret (dis : Bool) (pc instr : Nat) (tu : tu_builder) :
    (__divu dis pc instr tu).cont = continuation_e.CONT ∧
      (__divu dis pc instr tu).pc = pc + 4 :=
  ⟨rfl, rfl⟩

theorem __divu_env (dis : Bool) (pc instr : Nat) (tu : tu_builder) :
    envelope 5 "DIVU" pc (pc + 4) tu (__divu dis pc instr tu) := by
  refine ⟨_, ?body, rfl, ?h1, ?h2⟩
  case h1 =>
    simp only [tu_simps]
    exact rfl
  case h2 =>
    simp [line.is_marker, List.filter_cons, apply_ite (List.filter line.is_marker)]

theorem __rem_ret (dis : Bool) (pc instr : Nat) (tu : tu_builder) :
    (__rem dis pc instr tu).cont = continuation_e.CONT ∧
      (__rem dis pc instr tu).pc = pc + 4 :=
  ⟨rfl, rfl⟩

theorem __rem_env (dis : Bool) (pc instr : Nat) (tu : tu_builder) :
    envelope 6 "REM" pc (pc + 4) tu (__rem dis pc instr tu) := by
  refine ⟨_, ?body, rfl, ?h1, ?h2⟩
  case h1 =>
    simp only [tu_simps]
    exact rfl
  case h2 =>
    simp [line.is_marker, List.filter_cons, apply_ite (List.filter line.is_marker)]

theorem __remu_ret (dis : Bool) (pc instr : Nat) (tu : tu_builder) :
    (__remu dis pc instr tu).cont = continuation_e.CONT ∧
      (__remu dis pc instr tu).pc = pc + 4 :=
  ⟨rfl, rfl⟩

theorem __remu_env (dis : Bool) (pc instr : Nat) (tu : tu_builder) :
    envelope 7 "REMU" pc (pc + 4) tu (__remu dis pc instr tu) := by
  refine ⟨_, ?body, rfl, ?h1, ?h2⟩
  case h1 =>
    simp only [tu_simps]
    exact rfl
  case h2 =>
    simp [line.is_marker, List.filter_cons, apply_ite (List.filter line.is_marker)]

theorem __lr_w_ret (dis : Bool) (pc instr : Nat) (tu : tu_builder) :
    (__lr_w dis pc instr tu).cont = continuation_e.CONT ∧
      (__lr_w dis pc instr tu).pc = pc + 4 :=
  ⟨rfl, rfl⟩

theorem __lr_w_env (dis : Bool) (pc instr : Nat) (tu : tu_builder) :
    envelope 8 "LR_W" pc (pc + 4) tu (__lr_w dis pc instr tu) := by
  refine ⟨_, ?body, rfl, ?h1, ?h2⟩
  case h1 =>
    simp only [tu_simps]
    exact rfl
  case h2 =>
    simp [line.is_marker, List.filter_cons, apply_ite (List.filter line.is_marker)]

theorem __sc_w_ret (dis : Bool) (pc instr : Nat) (tu : tu_builder) :
    (__sc_w dis pc instr tu).cont = continuation_e.CONT ∧
      (__sc_w dis pc instr tu).pc = pc + 4 :=
  ⟨rfl, rfl⟩

theorem __sc_w_env (dis : Bool) (pc instr : Nat) (tu : tu_builder) :
    envelope 9 "SC_W" pc (pc + 4) tu (__sc_w dis pc instr tu) := by
  refine ⟨_, ?body, rfl, ?h1, ?h2⟩
  case h1 =>
    simp only [tu_simps]
    exact rfl
  case h2 =>
    simp [line.is_marker, List.filter_cons, apply_ite (List.filter line.is_marker)]

theorem __amoswap_w_ret (dis : Bool) (pc instr : Nat) (tu : tu_builder) :
    (__amoswap_w dis pc instr tu).cont = continuation_e.CONT ∧
      (__amoswap_w dis pc instr tu).pc = pc + 4 :=
  ⟨rfl, rfl⟩

theorem __amoswap_w_env (dis : Bool) (pc instr : Nat) (tu : tu_builder) :
    envelope 10 "AMOSWAP_W" pc (pc + 4) tu (__amoswap_w dis pc instr tu) := by
  refine ⟨_, ?body, rfl, ?h1, ?h2⟩
  case h1 =>
    simp only [tu_simps]
    exact rfl
  case h2 =>
    simp [line.is_marker, List.filter_cons, apply_ite (List.filter line.is_marker)]

theorem __amoadd_w_ret (dis : Bool) (pc instr : Nat) (tu : tu_builder) :
    (__amoadd_w dis pc instr tu).cont = continuation_e.CONT ∧
      (__amoadd_w dis pc instr tu).pc = pc + 4 :=
  ⟨rfl, rfl⟩

theorem __amoadd_w_env (dis : Bool) (pc instr : Nat) (tu : tu_builder) :
    envelope 11 "AMOADD_W" pc (pc + 4) tu (__amoadd_w dis pc instr tu) := by
  refine ⟨_, ?body, rfl, ?h1, ?h2⟩
  case h1 =>
    simp only [tu_simps]
    exact rfl
  case h2 =>
    simp [line.is_marker, List.filter_cons, apply_ite (List.filter line.is_marker)]

theorem __amoxor_w_ret (dis : Bool) (pc instr : Nat) (tu : tu_builder) :
    (__amoxor_w dis pc instr tu).cont = continuation_e.CONT ∧
      (__amoxor_w dis pc instr tu).pc = pc + 4 :=
  ⟨rfl, rfl⟩

theorem __amoxor_w_env (dis : Bool) (pc instr : Nat) (tu : tu_builder) :
    envelope 12 "AMOXOR_W" pc (pc + 4) tu (__amoxor_w dis pc instr tu) := by
  refine ⟨_, ?body, rfl, ?h1, ?h2⟩
  case h1 =>
    simp only [tu_simps]
    exact rfl
  case h2 =>
    simp [line.is_marker, List.filter_cons, apply_ite (List.filter line.is_marker)]

theorem __amoand_w_ret (dis : Bool) (pc instr : Nat) (tu : tu_builder) :
    (__amoand_w dis pc instr tu).cont = continuation_e.CONT ∧
      (__amoand_w dis pc instr tu).pc = pc + 4 :=
  ⟨rfl, rfl⟩

theorem __amoand_w_env (dis : Bool) (pc instr : Nat) (tu : tu_builder) :
    envelope 13 "AMOAND_W" pc (pc + 4) tu (__amoand_w dis pc instr tu) := by
  refine ⟨_, ?body, rfl, ?h1, ?h2⟩
  case h1 =>
    simp only [tu_simps]
    exact rfl
  case h2 =>
    simp [line.is_marker, List.filter_cons, apply_ite (List.filter line.is_marker)]

theorem __amoor_w_ret (dis : Bool) (pc instr : Nat) (tu : tu_builder) :
    (__amoor_w dis pc instr tu).cont = continuation_e.CONT ∧
      (__amoor_w dis pc instr tu).pc = pc + 4 :=
  ⟨rfl, rfl⟩

theorem __amoor_w_env (dis : Bool) (pc instr : Nat) (tu : tu_builder) :
    envelope 14 "AMOOR_W" pc (pc + 4) tu (__amoor_w dis pc instr tu) := by
  refine ⟨_, ?body, rfl, ?h1, ?h2⟩
  case h1 =>
    simp only [tu_simps]
    exact rfl
  case h2 =>
    simp [line.is_marker, List.filter_cons, apply_ite (List.filter line.is_marker)]

theorem __amomin_w_ret (dis : Bool) (pc instr : Nat) (tu : tu_builder) :
    (__amomin_w dis pc instr tu).cont = continuation_e.CONT ∧
      (__amomin_w dis pc instr tu).pc = pc + 4 :=
  ⟨rfl, rfl⟩

theorem __amomin_w_env (dis : Bool) (pc instr : Nat) (tu : tu_builder) :
    envelope 15 "AMOMIN_W" pc (pc + 4) tu (__amomin_w dis pc instr tu) := by
  refine ⟨_, ?body, rfl, ?h1, ?h2⟩
  case h1 =>
    simp only [tu_simps]
    exact rfl
  case h2 =>
    simp [line.is_marker, List.filter_cons, apply_ite (List.filter line.is_marker)]

theorem __amomax_w_ret (dis : Bool) (pc instr : Nat) (tu : tu_builder) :
    (__amomax_w dis pc instr tu).cont = continuation_e.CONT ∧
      (__amomax_w dis pc instr tu).pc = pc + 4 :=
  ⟨rfl, rfl⟩

theorem __amomax_w_env (dis : Bool) (pc instr : Nat) (tu : tu_builder) :
    envelope 16 "AMOMAX_W" pc (pc + 4) tu (__amomax_w dis pc instr tu) := by
  refine ⟨_, ?body, rfl, ?h1, ?h2⟩
  case h1 =>
    simp only [tu_simps]
    exact rfl
  case h2 =>
    simp [line.is_marker, List.filter_cons, apply_ite (List.filter line.is_marker)]

theorem __amominu_w_ret (dis : Bool) (pc instr : Nat) (tu : tu_builder) :
    (__amominu_w dis pc instr tu).cont = continuation_e.CONT ∧
      (__amominu_w dis pc instr tu).pc = pc + 4 :=
  ⟨rfl, rfl⟩

theorem __amominu_w_env (dis : Bool) (pc instr : Nat) (tu : tu_builder) :
    envelope 17 "AMOMINU_W" pc (pc + 4) tu (__amominu_w dis pc instr tu) := by
  refine ⟨_, ?body, rfl, ?h1, ?h2⟩
  case h1 =>
    simp only [tu_simps]
    exact rfl
  case h2 =>
    simp [line.is_marker, List.filter_cons, apply_ite (List.filter line.is_marker)]

theorem __amomaxu_w_ret (dis : Bool) (pc instr : Nat) (tu : tu_builder) :
    (__amomaxu_w dis pc instr tu).cont = continuation_e.CONT ∧
      (__amomaxu_w dis pc instr tu).pc = pc + 4 :=
  ⟨rfl, rfl⟩

theorem __amomaxu_w_env (dis : Bool) (pc instr : Nat) (tu : tu_builder) :
    envelope 18 "AMOMAXU_W" pc (pc + 4) tu (__amomaxu_w dis pc instr tu) := by
  refine ⟨_, ?body, rfl, ?h1, ?h2⟩
  case h1 =>
    simp only [tu_simps]
    exact rfl
  case h2 =>
    simp [line.is_marker, List.filter_cons, apply_ite (List.filter line.is_marker)]

theorem __lui_ret (dis : Bool) (pc instr : Nat) (tu : tu_builder) :
    (__lui dis pc instr tu).cont = continuation_e.CONT ∧
      (__lui dis pc instr tu).pc = pc + 4 :=
  ⟨rfl, rfl⟩

theorem __lui_env (dis : Bool) (pc instr : Nat) (tu : tu_builder) :
    envelope 19 "LUI" pc (pc + 4) tu (__lui dis pc instr tu) := by
  refine ⟨_, ?body, rfl, ?h1, ?h2⟩
  case h1 =>
    simp only [tu_simps]
    exact rfl
  case h2 =>
    simp [line.is_marker, List.filter_cons, apply_ite (List.filter line.is_marker)]

theorem __auipc_ret (dis : Bool) (pc instr : Nat) (tu : tu_builder) :
    (__auipc dis pc instr tu).cont = continuation_e.CONT ∧
      (__auipc dis pc instr tu).pc = pc + 4 :=
  ⟨rfl, rfl⟩

theorem __auipc_env (dis : Bool) (pc instr : Nat) (tu : tu_builder) :
    envelope 20 "AUIPC" pc (pc + 4) tu (__auipc dis pc instr tu) := by
  refine ⟨_, ?body, rfl, ?h1, ?h2⟩
  case h1 =>
    simp only [tu_simps]
    exact rfl
  case h2 =>
    simp [line.is_marker, List.filter_cons, apply_ite (List.filter line.is_marker)]

theorem __jal_ret (dis : Bool) (pc instr : Nat) (tu : tu_builder) :
    (__jal dis pc instr tu).cont = continuation_e.BRANCH ∧
      (__jal dis pc instr tu).pc = pc + 4 :=
  ⟨rfl, rfl⟩

theorem __beq_ret (dis : Bool) (pc instr : Nat) (tu : tu_builder) :
    (__beq dis pc instr tu).cont = continuation_e.BRANCH ∧
      (__beq dis pc instr tu).pc = pc + 4 :=
  ⟨rfl, rfl⟩

theorem __bne_ret (dis : Bool) (pc instr : Nat) (tu : tu_builder) :
    (__bne dis pc instr tu).cont = continuation_e.BRANCH ∧
      (__bne dis pc instr tu).pc = pc + 4 :=
  ⟨rfl, rfl⟩

theorem __blt_ret (dis : Bool) (pc instr : Nat) (tu : tu_builder) :
    (__blt dis pc instr tu).cont = continuation_e.BRANCH ∧
      (__blt dis pc instr tu).pc = pc + 4 :=
  ⟨rfl, rfl⟩

theorem __bge_ret (dis : Bool) (pc instr : Nat) (tu : tu_builder) :
    (__bge dis pc instr tu).cont = continuation_e.BRANCH ∧
      (__bge dis pc instr tu).pc = pc + 4 :=
  ⟨rfl, rfl⟩

theorem __bltu_ret (dis : Bool) (pc instr : Nat) (tu : tu_builder) :
    (__bltu dis pc instr tu).cont = continuation_e.BRANCH ∧
      (__bltu dis pc instr tu).pc = pc + 4 :=
  ⟨rfl, rfl⟩

theorem __bgeu_ret (dis : Bool) (pc instr : Nat) (tu : tu_builder) :
    (__bgeu dis pc instr tu).cont = continuation_e.BRANCH ∧
      (__bgeu dis pc instr tu).pc = pc + 4 :=
  ⟨rfl, rfl⟩

theorem __lb_ret (dis : Bool) (pc instr : Nat) (tu : tu_builder) :
    (__lb dis pc instr tu).cont = continuation_e.CONT ∧
      (__lb dis pc instr tu).pc = pc + 4 :=
  ⟨rfl, rfl⟩

theorem __lb_env (dis : Bool) (pc instr : Nat) (tu : tu_builder) :
    envelope 28 "LB" pc (pc + 4) tu (__lb dis pc instr tu) := by
  refine ⟨_, ?body, rfl, ?h1, ?h2⟩
  case h1 =>
    simp only [tu_simps]
    exact rfl
  case h2 =>
    simp [line.is_marker, List.filter_cons, apply_ite (List.filter line.is_marker)]

theorem __lh_ret (dis : Bool) (pc instr : Nat) (tu : tu_builder) :
    (__lh dis pc instr tu).cont = continuation_e.CONT ∧
      (__lh dis pc instr tu).pc = pc + 4 :=
  ⟨rfl, rfl⟩

theorem __lh_env (dis : Bool) (pc instr : Nat) (tu : tu_builder) :
    envelope 29 "LH" pc (pc + 4) tu (__lh dis pc instr tu) := by
  refine ⟨_, ?body, rfl, ?h1, ?h2⟩
  case h1 =>
    simp only [tu_simps]
    exact rfl
  case h2 =>
    simp [line.is_marker, List.filter_cons, apply_ite (List.filter line.is_marker)]

theorem __lw_ret (dis : Bool) (pc instr : Nat) (tu : tu_builder) :
    (__lw dis pc instr tu).cont = continuation_e.CONT ∧
      (__lw dis pc instr tu).pc = pc + 4 :=
  ⟨rfl, rfl⟩

theorem __lw_env (dis : Bool) (pc instr : Nat) (tu : tu_builder) :
    envelope 30 "LW" pc (pc + 4) tu (__lw dis pc instr tu) := by
  refine ⟨_, ?body, rfl, ?h1, ?h2⟩
  case h1 =>
    simp only [tu_simps]
    exact rfl
  case h2 =>
    simp [line.is_marker, List.filter_cons, apply_ite (List.filter line.is_marker)]

theorem __lbu_ret (dis : Bool) (pc instr : Nat) (tu : tu_builder) :
    (__lbu dis pc instr tu).cont = continuation_e.CONT ∧
      (__lbu dis pc instr tu).pc = pc + 4 :=
  ⟨rfl, rfl⟩

theorem __lbu_env (dis : Bool) (pc instr : Nat) (tu : tu_builder) :
    envelope 31 "LBU" pc (pc + 4) tu (__lbu dis pc instr tu) := by
  refine ⟨_, ?body, rfl, ?h1, ?h2⟩
  case h1 =>
    simp only [tu_simps]
    exact rfl
  case h2 =>
    simp [line.is_marker, List.filter_cons, apply_ite (List.filter line.is_marker)]

theorem __lhu_ret (dis : Bool) (pc instr : Nat) (tu : tu_builder) :
    (__lhu dis pc instr tu).cont = continuation_e.CONT ∧
      (__lhu dis pc instr tu).pc = pc + 4 :=
  ⟨rfl, rfl⟩

theorem __lhu_env (dis : Bool) (pc instr : Nat) (tu : tu_builder) :
    envelope 32 "LHU" pc (pc + 4) tu (__lhu dis pc instr tu) := by
  refine ⟨_, ?body, rfl, ?h1, ?h2⟩
  case h1 =>
    simp only [tu_simps]
    exact rfl
  case h2 =>
    simp [line.is_marker, List.filter_cons, apply_ite (List.filter line.is_marker)]

theorem __sb_ret (dis : Bool) (pc instr : Nat) (tu : tu_builder) :
    (__sb dis pc instr tu).cont = continuation_e.CONT ∧
      (__sb dis pc instr tu).pc = pc + 4 :=
  ⟨rfl, rfl⟩

theorem __sb_env (dis : Bool) (pc instr : Nat) (tu : tu_builder) :
    envelope 33 "SB" pc (pc + 4) tu (__sb dis pc instr tu) := by
  refine ⟨_, ?body, rfl, ?h1, ?h2⟩
  case h1 =>
    simp only [tu_simps]
    exact rfl
  case h2 =>
    simp [line.is_marker, List.filter_cons, apply_ite (List.filter line.is_marker)]

theorem __sh_ret (dis : Bool) (pc instr : Nat) (tu : tu_builder) :
    (__sh dis pc instr tu).cont = continuation_e.CONT ∧
      (__sh dis pc instr tu).pc = pc + 4 :=
  ⟨rfl, rfl⟩

theorem __sh_env (dis : Bool) (pc instr : Nat) (tu : tu_builder) :
    envelope 34 "SH" pc (pc + 4) tu (__sh dis pc instr tu) := by
  refine ⟨_, ?body, rfl, ?h1, ?h2⟩
  case h1 =>
    simp only [tu_simps]
    exact rfl
  case h2 =>
    simp [line.is_marker, List.filter_cons, apply_ite (List.filter line.is_marker)]

theorem __sw_ret (dis : Bool) (pc instr : Nat) (tu : tu_builder) :
    (__sw dis pc instr tu).cont = continuation_e.CONT ∧
      (__sw dis pc instr tu).pc = pc + 4 :=
  ⟨rfl, rfl⟩

theorem __sw_env (dis : Bool) (pc instr : Nat) (tu : tu_builder) :
    envelope 35 "SW" pc (pc + 4) tu (__sw dis pc instr tu) := by
  refine ⟨_, ?body, rfl, ?h1, ?h2⟩
  case h1 =>
    simp only [tu_simps]
    exact rfl
  case h2 =>
    simp [line.is_marker, List.filter_cons, apply_ite (List.filter line.is_marker)]

theorem __addi_ret (dis : Bool) (pc instr : Nat) (tu : tu_builder) :
    (__addi dis pc instr tu).cont = continuation_e.CONT ∧
      (__addi dis pc instr tu).pc = pc + 4 :=
  ⟨rfl, rfl⟩

theorem __addi_env (dis : Bool) (pc instr : Nat) (tu : tu_builder) :
    envelope 36 "ADDI" pc (pc + 4) tu (__addi dis pc instr tu) := by
  refine ⟨_, ?body, rfl, ?h1, ?h2⟩
  case h1 =>
    simp only [tu_simps]
    exact rfl
  case h2 =>
    simp [line.is_marker, List.filter_cons, apply_ite (List.filter line.is_marker)]

theorem __slti_ret (dis : Bool) (pc instr : Nat) (tu : tu_builder) :
    (__slti dis pc instr tu).cont = continuation_e.CONT ∧
      (__slti dis pc instr tu).pc = pc + 4 :=
  ⟨rfl, rfl⟩

theorem __slti_env (dis : Bool) (pc instr : Nat) (tu : tu_builder) :
    envelope 37 "SLTI" pc (pc + 4) tu (__slti dis pc instr tu) := by
  refine ⟨_, ?body, rfl, ?h1, ?h2⟩
  case h1 =>
    simp only [tu_simps]
    exact rfl
  case h2 =>
    simp [line.is_marker, List.filter_cons, apply_ite (List.filter line.is_marker)]

theorem __sltiu_ret (dis : Bool) (pc instr : Nat) (tu : tu_builder) :
    (__sltiu dis pc instr tu).cont = continuation_e.CONT ∧
      (__sltiu dis pc instr tu).pc = pc + 4 :=
  ⟨rfl, rfl⟩

theorem __sltiu_env (dis : Bool) (pc instr : Nat) (tu : tu_builder) :
    envelope 38 "SLTIU" pc (pc + 4) tu (__sltiu dis pc instr tu) := by
  refine ⟨_, ?body, rfl, ?h1, ?h2⟩
  case h1 =>
    simp only [tu_simps]
    exact rfl
  case h2 =>
    simp [line.is_marker, List.filter_cons, apply_ite (List.filter line.is_marker)]

theorem __xori_ret (dis : Bool) (pc instr : Nat) (tu : tu_builder) :
    (__xori dis pc instr tu).cont = continuation_e.CONT ∧
      (__xori dis pc instr tu).pc = pc + 4 :=
  ⟨rfl, rfl⟩

theorem __xori_env (dis : Bool) (pc instr : Nat) (tu : tu_builder) :
    envelope 39 "XORI" pc (pc + 4) tu (__xori dis pc instr tu) := by
  refine ⟨_, ?body, rfl, ?h1, ?h2⟩
  case h1 =>
    simp only [tu_simps]
    exact rfl
  case h2 =>
    simp [line.is_marker, List.filter_cons, apply_ite (List.filter line.is_marker)]

theorem __ori_ret (dis : Bool) (pc instr : Nat) (tu : tu_builder) :
    (__ori dis pc instr tu).cont = continuation_e.CONT ∧
      (__ori dis pc instr tu).pc = pc + 4 :=
  ⟨rfl, rfl⟩

theorem __ori_env (dis : Bool) (pc instr : Nat) (tu : tu_builder) :
    envelope 40 "ORI" pc (pc + 4) tu (__ori dis pc instr tu) := by
  refine ⟨_, ?body, rfl, ?h1, ?h2⟩
  case h1 =>
    simp only [tu_simps]
    exact rfl
  case h2 =>
    simp [line.is_marker, List.filter_cons, apply_ite (List.filter line.is_marker)]

theorem __andi_ret (dis : Bool) (pc instr : Nat) (tu : tu_builder) :
    (__andi dis pc instr tu).cont = continuation_e.CONT ∧
      (__andi dis pc instr tu).pc = pc + 4 :=
  ⟨rfl, rfl⟩

theorem __andi_env (dis : Bool) (pc instr : Nat) (tu : tu_builder) :
    envelope 41 "ANDI" pc (pc + 4) tu (__andi dis pc instr tu) := by
  refine ⟨_, ?body, rfl, ?h1, ?h2⟩
  case h1 =>
    simp only [tu_simps]
    exact rfl
  case h2 =>
    simp [line.is_marker, List.filter_cons, apply_ite (List.filter line.is_marker)]

theorem __slli_ret (dis : Bool) (pc instr : Nat) (tu : tu_builder) :
    (__slli dis pc instr tu).cont = continuation_e.CONT ∧
      (__slli dis pc instr tu).pc = pc + 4 :=
  ⟨rfl, rfl⟩

theorem __slli_env (dis : Bool) (pc instr : Nat) (tu : tu_builder) :
    envelope 42 "SLLI" pc (pc + 4) tu (__slli dis pc instr tu) := by
  refine ⟨_, ?body, rfl, ?h1, ?h2⟩
  case h1 =>
    simp only [tu_simps]
    exact rfl
  case h2 =>
    simp [line.is_marker, List.filter_cons, apply_ite (List.filter line.is_marker)]

theorem __srli_ret (dis : Bool) (pc instr : Nat) (tu : tu_builder) :
    (__srli dis pc instr tu).cont = continuation_e.CONT ∧
      (__srli dis pc instr tu).pc = pc + 4 :=
  ⟨rfl, rfl⟩

theorem __srli_env (dis : Bool) (pc instr : Nat) (tu : tu_builder) :
    envelope 43 "SRLI" pc (pc + 4) tu (__srli dis pc instr tu) := by
  refine ⟨_, ?body, rfl, ?h1, ?h2⟩
  case h1 =>
    simp only [tu_simps]
    exact rfl
  case h2 =>
    simp [line.is_marker, List.filter_cons, apply_ite (List.filter line.is_marker)]

theorem __srai_ret (dis : Bool) (pc instr : Nat) (tu : tu_builder) :
    (__srai dis pc instr tu).cont = continuation_e.CONT ∧
      (__srai dis pc instr tu).pc = pc + 4 :=
  ⟨rfl, rfl⟩

theorem __srai_env (dis : Bool) (pc instr : Nat) (tu : tu_builder) :
    envelope 44 "SRAI" pc (pc + 4) tu (__srai dis pc instr tu) := by
  refine ⟨_, ?body, rfl, ?h1, ?h2⟩
  case h1 =>
    simp only [tu_simps]
    exact rfl
  case h2 =>
    simp [line.is_marker, List.filter_cons, apply_ite (List.filter line.is_marker)]

theorem __add_ret (dis : Bool) (pc instr : Nat) (tu : tu_builder) :
    (__add dis pc instr tu).cont = continuation_e.CONT ∧
      (__add dis pc instr tu).pc = pc + 4 :=
  ⟨rfl, rfl⟩

theorem __add_env (dis : Bool) (pc instr : Nat) (tu : tu_builder) :
    envelope 45 "ADD" pc (pc + 4) tu (__add dis pc instr tu) := by
  refine ⟨_, ?body, rfl, ?h1, ?h2⟩
  case h1 =>
    simp only [tu_simps]
    exact rfl
  case h2 =>
    simp [line.is_marker, List.filter_cons, apply_ite (List.filter line.is_marker)]

theorem __sub_ret (dis : Bool) (pc instr : Nat) (tu : tu_builder) :
    (__sub dis pc instr tu).cont = continuation_e.CONT ∧
      (__sub dis pc instr tu).pc = pc + 4 :=
  ⟨rfl, rfl⟩

theorem __sub_env (dis : Bool) (pc instr : Nat) (tu : tu_builder) :
    envelope 46 "SUB" pc (pc + 4) tu (__sub dis pc instr tu) := by
  refine ⟨_, ?body, rfl, ?h1, ?h2⟩
  case h1 =>
    simp only [tu_simps]
    exact rfl
  case h2 =>
    simp [line.is_marker, List.filter_cons, apply_ite (List.filter line.is_marker)]

theorem __sll_ret (dis : Bool) (pc instr : Nat) (tu : tu_builder) :
    (__sll dis pc instr tu).cont = continuation_e.CONT ∧
      (__sll dis pc instr tu).pc = pc + 4 :=
  ⟨rfl, rfl⟩

theorem __sll_env (dis : Bool) (pc instr : Nat) (tu : tu_builder) :
    envelope 47 "SLL" pc (pc + 4) tu (__sll dis pc instr tu) := by
  refine ⟨_, ?body, rfl, ?h1, ?h2⟩
  case h1 =>
    simp only [tu_simps]
    exact rfl
  case h2 =>
    simp [line.is_marker, List.filter_cons, apply_ite (List.filter line.is_marker)]

theorem __slt_ret (dis : Bool) (pc instr : Nat) (tu : tu_builder) :
    (__slt dis pc instr tu).cont = continuation_e.CONT ∧
      (__slt dis pc instr tu).pc = pc + 4 :=
  ⟨rfl, rfl⟩

theorem __slt_env (dis : Bool) (pc instr : Nat) (tu : tu_builder) :
    envelope 48 "SLT" pc (pc + 4) tu (__slt dis pc instr tu) := by
  refine ⟨_, ?body, rfl, ?h1, ?h2⟩
  case h1 =>
    simp only [tu_simps]
    exact rfl
  case h2 =>
    simp [line.is_marker, List.filter_cons, apply_ite (List.filter line.is_marker)]

theorem __sltu_ret (dis : Bool) (pc instr : Nat) (tu : tu_builder) :
    (__sltu dis pc instr tu).cont = continuation_e.CONT ∧
      (__sltu dis pc instr tu).pc = pc + 4 :=
  ⟨rfl, rfl⟩

theorem __sltu_env (dis : Bool) (pc instr : Nat) (tu : tu_builder) :
    envelope 49 "SLTU" pc (pc + 4) tu (__sltu dis pc instr tu) := by
  refine ⟨_, ?body, rfl, ?h1, ?h2⟩
  case h1 =>
    simp only [tu_simps]
    exact rfl
  case h2 =>
    simp [line.is_marker, List.filter_cons, apply_ite (List.filter line.is_marker)]

theorem __xor_ret (dis : Bool) (pc instr : Nat) (tu : tu_builder) :
    (__xor dis pc instr tu).cont = continuation_e.CONT ∧
      (__xor dis pc instr tu).pc = pc + 4 :=
  ⟨rfl, rfl⟩

theorem __xor_env (dis : Bool) (pc instr : Nat) (tu : tu_builder) :
    envelope 50 "XOR" pc (pc + 4) tu (__xor dis pc instr tu) := by
  refine ⟨_, ?body, rfl, ?h1, ?h2⟩
  case h1 =>
    simp only [tu_simps]
    exact rfl
  case h2 =>
    simp [line.is_marker, List.filter_cons, apply_ite (List.filter line.is_marker)]

theorem __srl_ret (dis : Bool) (pc instr : Nat) (tu : tu_builder) :
    (__srl dis pc instr tu).cont = continuation_e.CONT ∧
      (__srl dis pc instr tu).pc = pc + 4 :=
  ⟨rfl, rfl⟩

theorem __srl_env (dis : Bool) (pc instr : Nat) (tu : tu_builder) :
    envelope 51 "SRL" pc (pc + 4) tu (__srl dis pc instr tu) := by
  refine ⟨_, ?body, rfl, ?h1, ?h2⟩
  case h1 =>
    simp only [tu_simps]
    exact rfl
  case h2 =>
    simp [line.is_marker, List.filter_cons, apply_ite (List.filter line.is_marker)]

theorem __sra_ret (dis : Bool) (pc instr : Nat) (tu : tu_builder) :
    (__sra dis pc instr tu).cont = continuation_e.CONT ∧
      (__sra dis pc instr tu).pc = pc + 4 :=
  ⟨rfl, rfl⟩

theorem __sra_env (dis : Bool) (pc instr : Nat) (tu : tu_builder) :
    envelope 52 "SRA" pc (pc + 4) tu (__sra dis pc instr tu) := by
  refine ⟨_, ?body, rfl, ?h1, ?h2⟩
  case h1 =>
    simp only [tu_simps]
    exact rfl
  case h2 =>
    simp [line.is_marker, List.filter_cons, apply_ite (List.filter line.is_marker)]

theorem __or_ret (dis : Bool) (pc instr : Nat) (tu : tu_builder) :
    (__or dis pc instr tu).cont = continuation_e.CONT ∧
      (__or dis pc instr tu).pc = pc + 4 :=
  ⟨rfl, rfl⟩

theorem __or_env (dis : Bool) (pc instr : Nat) (tu : tu_builder) :
    envelope 53 "OR" pc (pc + 4) tu (__or dis pc instr tu) := by
  refine ⟨_, ?body, rfl, ?h1, ?h2⟩
  case h1 =>
    simp only [tu_simps]
    exact rfl
  case h2 =>
    simp [line.is_marker, List.filter_cons, apply_ite (List.filter line.is_marker)]

theorem __and_ret (dis : Bool) (pc instr : Nat) (tu : tu_builder) :
    (__and dis pc instr tu).cont = continuation_e.CONT ∧
      (__and dis pc instr tu).pc = pc + 4 :=
  ⟨rfl, rfl⟩

theorem __and_env (dis : Bool) (pc instr : Nat) (tu : tu_builder) :
    envelope 54 "AND" pc (pc + 4) tu (__and dis pc instr tu) := by
  refine ⟨_, ?body, rfl, ?h1, ?h2⟩
  case h1 =>
    simp only [tu_simps]
    exact rfl
  case h2 =>
    simp [line.is_marker, List.filter_cons, apply_ite (List.filter line.is_marker)]

theorem __fence_ret (dis : Bool) (pc instr : Nat) (tu : tu_builder) :
    (__fence dis pc instr tu).cont = continuation_e.CONT ∧
      (__fence dis pc instr tu).pc = pc + 4 :=
  ⟨rfl, rfl⟩

theorem __fence_env (dis : Bool) (pc instr : Nat) (tu : tu_builder) :
    envelope 55 "FENCE" pc (pc + 4) tu (__fence dis pc instr tu) := by
  refine ⟨_, ?body, rfl, ?h1, ?h2⟩
  case h1 =>
    simp only [tu_simps]
    exact rfl
  case h2 =>
    simp [line.is_marker, List.filter_cons, apply_ite (List.filter line.is_marker)]

theorem __fence_i_ret (dis : Bool) (pc instr : Nat) (tu : tu_builder) :
    (__fence_i dis pc instr tu).cont = continuation_e.FLUSH ∧
      (__fence_i dis pc instr tu).pc = pc + 4 :=
  ⟨rfl, rfl⟩

theorem __ecall_ret (dis : Bool) (pc instr : Nat) (tu : tu_builder) :
    (__ecall dis pc instr tu).cont = continuation_e.BRANCH ∧
      (__ecall dis pc instr tu).pc = pc + 4 :=
  ⟨rfl, rfl⟩

theorem __ebreak_ret (dis : Bool) (pc instr : Nat) (tu : tu_builder) :
    (__ebreak dis pc instr tu).cont = continuation_e.BRANCH ∧
      (__ebreak dis pc instr tu).pc = pc + 4 :=
  ⟨rfl, rfl⟩

theorem __uret_ret (dis : Bool) (pc instr : Nat) (tu : tu_builder) :
    (__uret dis pc instr tu).cont = continuation_e.BRANCH ∧
      (__uret dis pc instr tu).pc = pc + 4 :=
  ⟨rfl, rfl⟩

theorem __sret_ret (dis : Bool) (pc instr : Nat) (tu : tu_builder) :
    (__sret dis pc instr tu).cont = continuation_e.BRANCH ∧
      (__sret dis pc instr tu).pc = pc + 4 :=
  ⟨rfl, rfl⟩

theorem __mret_ret (dis : Bool) (pc instr : Nat) (tu : tu_builder) :
    (__mret dis pc instr tu).cont = continuation_e.BRANCH ∧
      (__mret dis pc instr tu).pc = pc + 4 :=
  ⟨rfl, rfl⟩

theorem __wfi_ret (dis : Bool) (pc instr : Nat) (tu : tu_builder) :
    (__wfi dis pc instr tu).cont = continuation_e.CONT ∧
      (__wfi dis pc instr tu).pc = pc + 4 :=
  ⟨rfl, rfl⟩

theorem __wfi_env (dis : Bool) (pc instr : Nat) (tu : tu_builder) :
    envelope 62 "WFI" pc (pc + 4) tu (__wfi dis pc instr tu) := by
  refine ⟨_, ?body, rfl, ?h1, ?h2⟩
  case h1 =>
    simp only [tu_simps]
    exact rfl
  case h2 =>
    simp [line.is_marker, List.filter_cons, apply_ite (List.filter line.is_marker)]

theorem __sfence_vma_ret (dis : Bool) (pc instr : Nat) (tu : tu_builder) :
    (__sfence_vma dis pc instr tu).cont = continuation_e.CONT ∧
      (__sfence_vma dis pc instr tu).pc = pc + 4 :=
  ⟨rfl, rfl⟩

theorem __sfence_vma_env (dis : Bool) (pc instr : Nat) (tu : tu_builder) :
    envelope 63 "SFENCE_VMA" pc (pc + 4) tu (__sfence_vma dis pc instr tu) := by
  refine ⟨_, ?body, rfl, ?h1, ?h2⟩
  case h1 =>
    simp only [tu_simps]
    exact rfl
  case h2 =>
    simp [line.is_marker, List.filter_cons, apply_ite (List.filter line.is_marker)]

theorem __csrrw_ret (dis : Bool) (pc instr : Nat) (tu : tu_builder) :
    (__csrrw dis pc instr tu).cont = continuation_e.CONT ∧
      (__csrrw dis pc instr tu).pc = pc + 4 :=
  ⟨rfl, rfl⟩

theorem __csrrw_env (dis : Bool) (pc instr : Nat) (tu : tu_builder) :
    envelope 64 "CSRRW" pc (pc + 4) tu (__csrrw dis pc instr tu) := by
  refine ⟨_, ?body, rfl, ?h1, ?h2⟩
  case h1 =>
    simp only [tu_simps]
    exact rfl
  case h2 =>
    simp [line.is_marker, List.filter_cons, apply_ite (List.filter line.is_marker)]

theorem __csrrs_ret (dis : Bool) (pc instr : Nat) (tu : tu_builder) :
    (__csrrs dis pc instr tu).cont = continuation_e.CONT ∧
      (__csrrs dis pc instr tu).pc = pc + 4 :=
  ⟨rfl, rfl⟩

theorem __csrrs_env (dis : Bool) (pc instr : Nat) (tu : tu_builder) :
    envelope 65 "CSRRS" pc (pc + 4) tu (__csrrs dis pc instr tu) := by
  refine ⟨_, ?body, rfl, ?h1, ?h2⟩
  case h1 =>
    simp only [tu_simps]
    exact rfl
  case h2 =>
    simp [line.is_marker, List.filter_cons, apply_ite (List.filter line.is_marker)]

theorem __csrrc_ret (dis : Bool) (pc instr : Nat) (tu : tu_builder) :
    (__csrrc dis pc instr tu).cont = continuation_e.CONT ∧
      (__csrrc dis pc instr tu).pc = pc + 4 :=
  ⟨rfl, rfl⟩

theorem __csrrc_env (dis : Bool) (pc instr : Nat) (tu : tu_builder) :
    envelope 66 "CSRRC" pc (pc + 4) tu (__csrrc dis pc instr tu) := by
  refine ⟨_, ?body, rfl, ?h1, ?h2⟩
  case h1 =>
    simp only [tu_simps]
    exact rfl
  case h2 =>
    simp [line.is_marker, List.filter_cons, apply_ite (List.filter line.is_marker)]

theorem __csrrwi_ret (dis : Bool) (pc instr : Nat) (tu : tu_builder) :
    (__csrrwi dis pc instr tu).cont = continuation_e.CONT ∧
      (__csrrwi dis pc instr tu).pc = pc + 4 :=
  ⟨rfl, rfl⟩

theorem __csrrwi_env (dis : Bool) (pc instr : Nat) (tu : tu_builder) :
    envelope 67 "CSRRWI" pc (pc + 4) tu (__csrrwi dis pc instr tu) := by
  refine ⟨_, ?body, rfl, ?h1, ?h2⟩
  case h1 =>
    simp only [tu_simps]
    exact rfl
  case h2 =>
    simp [line.is_marker, List.filter_cons, apply_ite (List.filter line.is_marker)]

theorem __csrrsi_ret (dis : Bool) (pc instr : Nat) (tu : tu_builder) :
    (__csrrsi dis pc instr tu).cont = continuation_e.CONT ∧
      (__csrrsi dis pc instr tu).pc = pc + 4 :=
  ⟨rfl, rfl⟩

theorem __csrrsi_env (dis : Bool) (pc instr : Nat) (tu : tu_builder) :
    envelope 68 "CSRRSI" pc (pc + 4) tu (__csrrsi dis pc instr tu) := by
  refine ⟨_, ?body, rfl, ?h1, ?h2⟩
  case h1 =>
    simp only [tu_simps]
    exact rfl
  case h2 =>
    simp [line.is_marker, List.filter_cons, apply_ite (List.filter line.is_marker)]

theorem __csrrci_ret (dis : Bool) (pc instr : Nat) (tu : tu_builder) :
    (__csrrci dis pc instr tu).cont = continuation_e.CONT ∧
      (__csrrci dis pc instr tu).pc = pc + 4 :=
  ⟨rfl, rfl⟩

theorem __csrrci_env (dis : Bool) (pc instr : Nat) (tu : tu_builder) :
    envelope 69 "CSRRCI" pc (pc + 4) tu (__csrrci dis pc instr tu) := by
  refine ⟨_, ?body, rfl, ?h1, ?h2⟩
  case h1 =>
    simp only [tu_simps]
    exact rfl
  case h2 =>
    simp [line.is_marker, List.filter_cons, apply_ite (List.filter line.is_marker)]

theorem __flw_ret (dis : Bool) (pc instr : Nat) (tu : tu_builder) :
    (__flw dis pc instr tu).cont = continuation_e.CONT ∧
      (__flw dis pc instr tu).pc = pc + 4 :=
  ⟨rfl, rfl⟩

theorem __flw_env (dis : Bool) (pc instr : Nat) (tu : tu_builder) :
    envelope 70 "FLW" pc (pc + 4) tu (__flw dis pc instr tu) := by
  refine ⟨_, ?body, rfl, ?h1, ?h2⟩
  case h1 =>
    simp only [tu_simps]
    exact rfl
  case h2 =>
    simp [line.is_marker, List.filter_cons, apply_ite (List.filter line.is_marker)]

theorem __fsw_ret (dis : Bool) (pc instr : Nat) (tu : tu_builder) :
    (__fsw dis pc instr tu).cont = continuation_e.CONT ∧
      (__fsw dis pc instr tu).pc = pc + 4 :=
  ⟨rfl, rfl⟩

theorem __fsw_env (dis : Bool) (pc instr : Nat) (tu : tu_builder) :
    envelope 71 "FSW" pc (pc + 4) tu (__fsw dis pc instr tu) := by
  refine ⟨_, ?body, rfl, ?h1, ?h2⟩
  case h1 =>
    simp only [tu_simps]
    exact rfl
  case h2 =>
    simp [line.is_marker, List.filter_cons, apply_ite (List.filter line.is_marker)]

theorem __fmadd_s_ret (dis : Bool) (pc instr : Nat) (tu : tu_builder) :
    (__fmadd_s dis pc instr tu).cont = continuation_e.CONT ∧
      (__fmadd_s dis pc instr tu).pc = pc + 4 :=
  ⟨rfl, rfl⟩

theorem __fmadd_s_env (dis : Bool) (pc instr : Nat) (tu : tu_builder) :
    envelope 72 "FMADD_S" pc (pc + 4) tu (__fmadd_s dis pc instr tu) := by
  refine ⟨_, ?body, rfl, ?h1, ?h2⟩
  case h1 =>
    simp only [tu_simps]
    exact rfl
  case h2 =>
    simp [line.is_marker, List.filter_cons, apply_ite (List.filter line.is_marker)]

theorem __fmsub_s_ret (dis : Bool) (pc instr : Nat) (tu : tu_builder) :
    (__fmsub_s dis pc instr tu).cont = continuation_e.CONT ∧
      (__fmsub_s dis pc instr tu).pc = pc + 4 :=
  ⟨rfl, rfl⟩

theorem __fmsub_s_env (dis : Bool) (pc instr : Nat) (tu : tu_builder) :
    envelope 73 "FMSUB_S" pc (pc + 4) tu (__fmsub_s dis pc instr tu) := by
  refine ⟨_, ?body, rfl, ?h1, ?h2⟩
  case h1 =>
    simp only [tu_simps]
    exact rfl
  case h2 =>
    simp [line.is_marker, List.filter_cons, apply_ite (List.filter line.is_marker)]

theorem __fnmadd_s_ret (dis : Bool) (pc instr : Nat) (tu : tu_builder) :
    (__fnmadd_s dis pc instr tu).cont = continuation_e.CONT ∧
      (__fnmadd_s dis pc instr tu).pc = pc + 4 :=
  ⟨rfl, rfl⟩

theorem __fnmadd_s_env (dis : Bool) (pc instr : Nat) (tu : tu_builder) :
    envelope 74 "FNMADD_S" pc (pc + 4) tu (__fnmadd_s dis pc instr tu) := by
  refine ⟨_, ?body, rfl, ?h1, ?h2⟩
  case h1 =>
    simp only [tu_simps]
    exact rfl
  case h2 =>
    simp [line.is_marker, List.filter_cons, apply_ite (List.filter line.is_marker)]

theorem __fnmsub_s_ret (dis : Bool) (pc instr : Nat) (tu : tu_builder) :
    (__fnmsub_s dis pc instr tu).cont = continuation_e.CONT ∧
      (__fnmsub_s dis pc instr tu).pc = pc + 4 :=
  ⟨rfl, rfl⟩

theorem __fnmsub_s_env (dis : Bool) (pc instr : Nat) (tu : tu_builder) :
    envelope 75 "FNMSUB_S" pc (pc + 4) tu (__fnmsub_s dis pc instr tu) := by
  refine ⟨_, ?body, rfl, ?h1, ?h2⟩
  case h1 =>
    simp only [tu_simps]
    exact rfl
  case h2 =>
    simp [line.is_marker, List.filter_cons, apply_ite (List.filter line.is_marker)]

theorem __fadd_s_ret (dis : Bool) (pc instr : Nat) (tu : tu_builder) :
    (__fadd_s dis pc instr tu).cont = continuation_e.CONT ∧
      (__fadd_s dis pc instr tu).pc = pc + 4 :=
  ⟨rfl, rfl⟩

theorem __fadd_s_env (dis : Bool) (pc instr : Nat) (tu : tu_builder) :
    envelope 76 "FADD_S" pc (pc + 4) tu (__fadd_s dis pc instr tu) := by
  refine ⟨_, ?body, rfl, ?h1, ?h2⟩
  case h1 =>
    simp only [tu_simps]
    exact rfl
  case h2 =>
    simp [line.is_marker, List.filter_cons, apply_ite (List.filter line.is_marker)]

theorem __fsub_s_ret (dis : Bool) (pc instr : Nat) (tu : tu_builder) :
    (__fsub_s dis pc instr tu).cont = continuation_e.CONT ∧
      (__fsub_s dis pc instr tu).pc = pc + 4 :=
  ⟨rfl, rfl⟩

theorem __fsub_s_env (dis : Bool) (pc instr : Nat) (tu : tu_builder) :
    envelope 77 "FSUB_S" pc (pc + 4) tu (__fsub_s dis pc instr tu) := by
  refine ⟨_, ?body, rfl, ?h1, ?h2⟩
  case h1 =>
    simp only [tu_simps]
    exact rfl
  case h2 =>
    simp [line.is_marker, List.filter_cons, apply_ite (List.filter line.is_marker)]

theorem __fmul_s_ret (dis : Bool) (pc instr : Nat) (tu : tu_builder) :
    (__fmul_s dis pc instr tu).cont = continuation_e.CONT ∧
      (__fmul_s dis pc instr tu).pc = pc + 4 :=
  ⟨rfl, rfl⟩

theorem __fmul_s_env (dis : Bool) (pc instr : Nat) (tu : tu_builder) :
    envelope 78 "FMUL_S" pc (pc + 4) tu (__fmul_s dis pc instr tu) := by
  refine ⟨_, ?body, rfl, ?h1, ?h2⟩
  case h1 =>
    simp only [tu_simps]
    exact rfl
  case h2 =>
    simp [line.is_marker, List.filter_cons, apply_ite (List.filter line.is_marker)]

theorem __fdiv_s_ret (dis : Bool) (pc instr : Nat) (tu : tu_builder) :
    (__fdiv_s dis pc instr tu).cont = continuation_e.CONT ∧
      (__fdiv_s dis pc instr tu).pc = pc + 4 :=
  ⟨rfl, rfl⟩

theorem __fdiv_s_env (dis : Bool) (pc instr : Nat) (tu : tu_builder) :
    envelope 79 "FDIV_S" pc (pc + 4) tu (__fdiv_s dis pc instr tu) := by
  refine ⟨_, ?body, rfl, ?h1, ?h2⟩
  case h1 =>
    simp only [tu_simps]
    exact rfl
  case h2 =>
    simp [line.is_marker, List.filter_cons, apply_ite (List.filter line.is_marker)]

theorem __fsqrt_s_ret (dis : Bool) (pc instr : Nat) (tu : tu_builder) :
    (__fsqrt_s dis pc instr tu).cont = continuation_e.CONT ∧
      (__fsqrt_s dis pc instr tu).pc = pc + 4 :=
  ⟨rfl, rfl⟩

theorem __fsqrt_s_env (dis : Bool) (pc instr : Nat) (tu : tu_builder) :
    envelope 80 "FSQRT_S" pc (pc + 4) tu (__fsqrt_s dis pc instr tu) := by
  refine ⟨_, ?body, rfl, ?h1, ?h2⟩
  case h1 =>
    simp only [tu_simps]
    exact rfl
  case h2 =>
    simp [line.is_marker, List.filter_cons, apply_ite (List.filter line.is_marker)]

theorem __fsgnj_s_ret (dis : Bool) (pc instr : Nat) (tu : tu_builder) :
    (__fsgnj_s dis pc instr tu).cont = continuation_e.CONT ∧
      (__fsgnj_s dis pc instr tu).pc = pc + 4 :=
  ⟨rfl, rfl⟩

theorem __fsgnj_s_env (dis : Bool) (pc instr : Nat) (tu : tu_builder) :
    envelope 81 "FSGNJ_S" pc (pc + 4) tu (__fsgnj_s dis pc instr tu) := by
  refine ⟨_, ?body, rfl, ?h1, ?h2⟩
  case h1 =>
    simp only [tu_simps]
    exact rfl
  case h2 =>
    simp [line.is_marker, List.filter_cons, apply_ite (List.filter line.is_marker)]

theorem __fsgnjn_s_ret (dis : Bool) (pc instr : Nat) (tu : tu_builder) :
    (__fsgnjn_s dis pc instr tu).cont = continuation_e.CONT ∧
      (__fsgnjn_s dis pc instr tu).pc = pc + 4 :=
  ⟨rfl, rfl⟩

theorem __fsgnjn_s_env (dis : Bool) (pc instr : Nat) (tu : tu_builder) :
    envelope 82 "FSGNJN_S" pc (pc + 4) tu (__fsgnjn_s dis pc instr tu) := by
  refine ⟨_, ?body, rfl, ?h1, ?h2⟩
  case h1 =>
    simp only [tu_simps]
    exact rfl
  case h2 =>
    simp [line.is_marker, List.filter_cons, apply_ite (List.filter line.is_marker)]

theorem __fsgnjx_s_ret (dis : Bool) (pc instr : Nat) (tu : tu_builder) :
    (__fsgnjx_s dis pc instr tu).cont = continuation_e.CONT ∧
      (__fsgnjx_s dis pc instr tu).pc = pc + 4 :=
  ⟨rfl, rfl⟩

theorem __fsgnjx_s_env (dis : Bool) (pc instr : Nat) (tu : tu_builder) :
    envelope 83 "FSGNJX_S" pc (pc + 4) tu (__fsgnjx_s dis pc instr tu) := by
  refine ⟨_, ?body, rfl, ?h1, ?h2⟩
  case h1 =>
    simp only [tu_simps]
    exact rfl
  case h2 =>
    simp [line.is_marker, List.filter_cons, apply_ite (List.filter line.is_marker)]

theorem __fmin_s_ret (dis : Bool) (pc instr : Nat) (tu : tu_builder) :
    (__fmin_s dis pc instr tu).cont = continuation_e.CONT ∧
      (__fmin_s dis pc instr tu).pc = pc + 4 :=
  ⟨rfl, rfl⟩

theorem __fmin_s_env (dis : Bool) (pc instr : Nat) (tu : tu_builder) :
    envelope 84 "FMIN_S" pc (pc + 4) tu (__fmin_s dis pc instr tu) := by
  refine ⟨_, ?body, rfl, ?h1, ?h2⟩
  case h1 =>
    simp only [tu_simps]
    exact rfl
  case h2 =>
    simp [line.is_marker, List.filter_cons, apply_ite (List.filter line.is_marker)]

theorem __fmax_s_ret (dis : Bool) (pc instr : Nat) (tu : tu_builder) :
    (__fmax_s dis pc instr tu).cont = continuation_e.CONT ∧
      (__fmax_s dis pc instr tu).pc = pc + 4 :=
  ⟨rfl, rfl⟩

theorem __fmax_s_env (dis : Bool) (pc instr : Nat) (tu : tu_builder) :
    envelope 85 "FMAX_S" pc (pc + 4) tu (__fmax_s dis pc instr tu) := by
  refine ⟨_, ?body, rfl, ?h1, ?h2⟩
  case h1 =>
    simp only [tu_simps]
    exact rfl
  case h2 =>
    simp [line.is_marker, List.filter_cons, apply_ite (List.filter line.is_marker)]

theorem __fcvt_w_s_ret (dis : Bool) (pc instr : Nat) (tu : tu_builder) :
    (__fcvt_w_s dis pc instr tu).cont = continuation_e.CONT ∧
      (__fcvt_w_s dis pc instr tu).pc = pc + 4 :=
  ⟨rfl, rfl⟩

theorem __fcvt_w_s_env (dis : Bool) (pc instr : Nat) (tu : tu_builder) :
    envelope 86 "FCVT_W_S" pc (pc + 4) tu (__fcvt_w_s dis pc instr tu) := by
  refine ⟨_, ?body, rfl, ?h1, ?h2⟩
  case h1 =>
    simp only [tu_simps]
    exact rfl
  case h2 =>
    simp [line.is_marker, List.filter_cons, apply_ite (List.filter line.is_marker)]

theorem __fcvt_wu_s_ret (dis : Bool) (pc instr : Nat) (tu : tu_builder) :
    (__fcvt_wu_s dis pc instr tu).cont = continuation_e.CONT ∧
      (__fcvt_wu_s dis pc instr tu).pc = pc + 4 :=
  ⟨rfl, rfl⟩

theorem __fcvt_wu_s_env (dis : Bool) (pc instr : Nat) (tu : tu_builder) :
    envelope 87 "FCVT_WU_S" pc (pc + 4) tu (__fcvt_wu_s dis pc instr tu) := by
  refine ⟨_, ?body, rfl, ?h1, ?h2⟩
  case h1 =>
    simp only [tu_simps]
    exact rfl
  case h2 =>
    simp [line.is_marker, List.filter_cons, apply_ite (List.filter line.is_marker)]

theorem __feq_s_ret (dis : Bool) (pc instr : Nat) (tu : tu_builder) :
    (__feq_s dis pc instr tu).cont = continuation_e.CONT ∧
      (__feq_s dis pc instr tu).pc = pc + 4 :=
  ⟨rfl, rfl⟩

theorem __feq_s_env (dis : Bool) (pc instr : Nat) (tu : tu_builder) :
    envelope 88 "FEQ_S" pc (pc + 4) tu (__feq_s dis pc instr tu) := by
  refine ⟨_, ?body, rfl, ?h1, ?h2⟩
  case h1 =>
    simp only [tu_simps]
    exact rfl
  case h2 =>
    simp [line.is_marker, List.filter_cons, apply_ite (List.filter line.is_marker)]

theorem __flt_s_ret (dis : Bool) (pc instr : Nat) (tu : tu_builder) :
    (__flt_s dis pc instr tu).cont = continuation_e.CONT ∧
      (__flt_s dis pc instr tu).pc = pc + 4 :=
  ⟨rfl, rfl⟩

theorem __flt_s_env (dis : Bool) (pc instr : Nat) (tu : tu_builder) :
    envelope 89 "FLT_S" pc (pc + 4) tu (__flt_s dis pc instr tu) := by
  refine ⟨_, ?body, rfl, ?h1, ?h2⟩
  case h1 =>
    simp only [tu_simps]
    exact rfl
  case h2 =>
    simp [line.is_marker, List.filter_cons, apply_ite (List.filter line.is_marker)]

theorem __fle_s_ret (dis : Bool) (pc instr : Nat) (tu : tu_builder) :
    (__fle_s dis pc instr tu).cont = continuation_e.CONT ∧
      (__fle_s dis pc instr tu).pc = pc + 4 :=
  ⟨rfl, rfl⟩

theorem __fle_s_env (dis : Bool) (pc instr : Nat) (tu : tu_builder) :
    envelope 90 "FLE_S" pc (pc + 4) tu (__fle_s dis pc instr tu) := by
  refine ⟨_, ?body, rfl, ?h1, ?h2⟩
  case h1 =>
    simp only [tu_simps]
    exact rfl
  case h2 =>
    simp [line.is_marker, List.filter_cons, apply_ite (List.filter line.is_marker)]

theorem __fclass_s_ret (dis : Bool) (pc instr : Nat) (tu : tu_builder) :
    (__fclass_s dis pc instr tu).cont = continuation_e.CONT ∧
      (__fclass_s dis pc instr tu).pc = pc + 4 :=
  ⟨rfl, rfl⟩

theorem __fclass_s_env (dis : Bool) (pc instr : Nat) (tu : tu_builder) :
    envelope 91 "FCLASS_S" pc (pc + 4) tu (__fclass_s dis pc instr tu) := by
  refine ⟨_, ?body, rfl, ?h1, ?h2⟩
  case h1 =>
    simp only [tu_simps]
    exact rfl
  case h2 =>
    simp [line.is_marker, List.filter_cons, apply_ite (List.filter line.is_marker)]

theorem __fcvt_s_w_ret (dis : Bool) (pc instr : Nat) (tu : tu_builder) :
    (__fcvt_s_w dis pc instr tu).cont = continuation_e.CONT ∧
      (__fcvt_s_w dis pc instr tu).pc = pc + 4 :=
  ⟨rfl, rfl⟩

theorem __fcvt_s_w_env (dis : Bool) (pc instr : Nat) (tu : tu_builder) :
    envelope 92 "FCVT_S_W" pc (pc + 4) tu (__fcvt_s_w dis pc instr tu) := by
  refine ⟨_, ?body, rfl, ?h1, ?h2⟩
  case h1 =>
    simp only [tu_simps]
    exact rfl
  case h2 =>
    simp [line.is_marker, List.filter_cons, apply_ite (List.filter line.is_marker)]

theorem __fcvt_s_wu_ret (dis : Bool) (pc instr : Nat) (tu : tu_builder) :
    (__fcvt_s_wu dis pc instr tu).cont = continuation_e.CONT ∧
      (__fcvt_s_wu dis pc instr tu).pc = pc + 4 :=
  ⟨rfl, rfl⟩

theorem __fcvt_s_wu_env (dis : Bool) (pc instr : Nat) (tu : tu_builder) :
    envelope 93 "FCVT_S_WU" pc (pc + 4) tu (__fcvt_s_wu dis pc instr tu) := by
  refine ⟨_, ?body, rfl, ?h1, ?h2⟩
  case h1 =>
    simp only [tu_simps]
    exact rfl
  case h2 =>
    simp [line.is_marker, List.filter_cons, apply_ite (List.filter line.is_marker)]

theorem __fmv_x_w_ret (dis : Bool) (pc instr : Nat) (tu : tu_builder) :
    (__fmv_x_w dis pc instr tu).cont = continuation_e.CONT ∧
      (__fmv_x_w dis pc instr tu).pc = pc + 4 :=
  ⟨rfl, rfl⟩

theorem __fmv_x_w_env (dis : Bool) (pc instr : Nat) (tu : tu_builder) :
    envelope 94 "FMV_X_W" pc (pc + 4) tu (__fmv_x_w dis pc instr tu) := by
  refine ⟨_, ?body, rfl, ?h1, ?h2⟩
  case h1 =>
    simp only [tu_simps]
    exact rfl
  case h2 =>
    simp [line.is_marker, List.filter_cons, apply_ite (List.filter line.is_marker)]

theorem __fmv_w_x_ret (dis : Bool) (pc instr : Nat) (tu : tu_builder) :
    (__fmv_w_x dis pc instr tu).cont = continuation_e.CONT ∧
      (__fmv_w_x dis pc instr tu).pc = pc + 4 :=
  ⟨rfl, rfl⟩

theorem __fmv_w_x_env (dis : Bool) (pc instr : Nat) (tu : tu_builder) :
    envelope 95 "FMV_W_X" pc (pc + 4) tu (__fmv_w_x dis pc instr tu) := by
  refine ⟨_, ?body, rfl, ?h1, ?h2⟩
  case h1 =>
    simp only [tu_simps]
    exact rfl
  case h2 =>
    simp [line.is_marker, List.filter_cons, apply_ite (List.filter line.is_marker)]

theorem __fld_ret (dis : Bool) (pc instr : Nat) (tu : tu_builder) :
    (__fld dis pc instr tu).cont = continuation_e.CONT ∧
      (__fld dis pc instr tu).pc = pc + 4 :=
  ⟨rfl, rfl⟩

theorem __fld_env (dis : Bool) (pc instr : Nat) (tu : tu_builder) :
    envelope 96 "FLD" pc (pc + 4) tu (__fld dis pc instr tu) := by
  refine ⟨_, ?body, rfl, ?h1, ?h2⟩
  case h1 =>
    simp only [tu_simps]
    exact rfl
  case h2 =>
    simp [line.is_marker, List.filter_cons, apply_ite (List.filter line.is_marker)]

theorem __fsd_ret (dis : Bool) (pc instr : Nat) (tu : tu_builder) :
    (__fsd dis pc instr tu).cont = continuation_e.CONT ∧
      (__fsd dis pc instr tu).pc = pc + 4 :=
  ⟨rfl, rfl⟩

theorem __fsd_env (dis : Bool) (pc instr : Nat) (tu : tu_builder) :
    envelope 97 "FSD" pc (pc + 4) tu (__fsd dis pc instr tu) := by
  refine ⟨_, ?body, rfl, ?h1, ?h2⟩
  case h1 =>
    simp only [tu_simps]
    exact rfl
  case h2 =>
    simp [line.is_marker, List.filter_cons, apply_ite (List.filter line.is_marker)]

theorem __fmadd_d_ret (dis : Bool) (pc instr : Nat) (tu : tu_builder) :
    (__fmadd_d dis pc instr tu).cont = continuation_e.CONT ∧
      (__fmadd_d dis pc instr tu).pc = pc + 4 :=
  ⟨rfl, rfl⟩

theorem __fmadd_d_env (dis : Bool) (pc instr : Nat) (tu : tu_builder) :
    envelope 98 "FMADD_D" pc (pc + 4) tu (__fmadd_d dis pc instr tu) := by
  refine ⟨_, ?body, rfl, ?h1, ?h2⟩
  case h1 =>
    simp only [tu_simps]
    exact rfl
  case h2 =>
    simp [line.is_marker, List.filter_cons, apply_ite (List.filter line.is_marker)]

theorem __fmsub_d_ret (dis : Bool) (pc instr : Nat) (tu : tu_builder) :
    (__fmsub_d dis pc instr tu).cont = continuation_e.CONT ∧
      (__fmsub_d dis pc instr tu).pc = pc + 4 :=
  ⟨rfl, rfl⟩

theorem __fmsub_d_env (dis : Bool) (pc instr : Nat) (tu : tu_builder) :
    envelope 99 "FMSUB_D" pc (pc + 4) tu (__fmsub_d dis pc instr tu) := by
  refine ⟨_, ?body, rfl, ?h1, ?h2⟩
  case h1 =>
    simp only [tu_simps]
    exact rfl
  case h2 =>
    simp [line.is_marker, List.filter_cons, apply_ite (List.filter line.is_marker)]

theorem __fnmadd_d_ret (dis : Bool) (pc instr : Nat) (tu : tu_builder) :
    (__fnmadd_d dis pc instr tu).cont = continuation_e.CONT ∧
      (__fnmadd_d dis pc instr tu).pc = pc + 4 :=
  ⟨rfl, rfl⟩

theorem __fnmadd_d_env (dis : Bool) (pc instr : Nat) (tu : tu_builder) :
    envelope 100 "FNMADD_D" pc (pc + 4) tu (__fnmadd_d dis pc instr tu) := by
  refine ⟨_, ?body, rfl, ?h1, ?h2⟩
  case h1 =>
    simp only [tu_simps]
    exact rfl
  case h2 =>
    simp [line.is_marker, List.filter_cons, apply_ite (List.filter line.is_marker)]

theorem __fnmsub_d_ret (dis : Bool) (pc instr : Nat) (tu : tu_builder) :
    (__fnmsub_d dis pc instr tu).cont = continuation_e.CONT ∧
      (__fnmsub_d dis pc instr tu).pc = pc + 4 :=
  ⟨rfl, rfl⟩

theorem __fnmsub_d_env (dis : Bool) (pc instr : Nat) (tu : tu_builder) :
    envelope 101 "FNMSUB_D" pc (pc + 4) tu (__fnmsub_d dis pc instr tu) := by
  refine ⟨_, ?body, rfl, ?h1, ?h2⟩
  case h1 =>
    simp only [tu_simps]
    exact rfl
  case h2 =>
    simp [line.is_marker, List.filter_cons, apply_ite (List.filter line.is_marker)]

theorem __fadd_d_ret (dis : Bool) (pc instr : Nat) (tu : tu_builder) :
    (__fadd_d dis pc instr tu).cont = continuation_e.CONT ∧
      (__fadd_d dis pc instr tu).pc = pc + 4 :=
  ⟨rfl, rfl⟩

theorem __fadd_d_env (dis : Bool) (pc instr : Nat) (tu : tu_builder) :
    envelope 102 "FADD_D" pc (pc + 4) tu (__fadd_d dis pc instr tu) := by
  refine ⟨_, ?body, rfl, ?h1, ?h2⟩
  case h1 =>
    simp only [tu_simps]
    exact rfl
  case h2 =>
    simp [line.is_marker, List.filter_cons, apply_ite (List.filter line.is_marker)]

theorem __fsub_d_ret (dis : Bool) (pc instr : Nat) (tu : tu_builder) :
    (__fsub_d dis pc instr tu).cont = continuation_e.CONT ∧
      (__fsub_d dis pc instr tu).pc = pc + 4 :=
  ⟨rfl, rfl⟩

theorem __fsub_d_env (dis : Bool) (pc instr : Nat) (tu : tu_builder) :
    envelope 103 "FSUB_D" pc (pc + 4) tu (__fsub_d dis pc instr tu) := by
  refine ⟨_, ?body, rfl, ?h1, ?h2⟩
  case h1 =>
    simp only [tu_simps]
    exact rfl
  case h2 =>
    simp [line.is_marker, List.filter_cons, apply_ite (List.filter line.is_marker)]

theorem __fmul_d_ret (dis : Bool) (pc instr : Nat) (tu : tu_builder) :
    (__fmul_d dis pc instr tu).cont = continuation_e.CONT ∧
      (__fmul_d dis pc instr tu).pc = pc + 4 :=
  ⟨rfl, rfl⟩

theorem __fmul_d_env (dis : Bool) (pc instr : Nat) (tu : tu_builder) :
    envelope 104 "FMUL_D" pc (pc + 4) tu (__fmul_d dis pc instr tu) := by
  refine ⟨_, ?body, rfl, ?h1, ?h2⟩
  case h1 =>
    simp only [tu_simps]
    exact rfl
  case h2 =>
    simp [line.is_marker, List.filter_cons, apply_ite (List.filter line.is_marker)]

theorem __fdiv_d_ret (dis : Bool) (pc instr : Nat) (tu : tu_builder) :
    (__fdiv_d dis pc instr tu).cont = continuation_e.CONT ∧
      (__fdiv_d dis pc instr tu).pc = pc + 4 :=
  ⟨rfl, rfl⟩

theorem __fdiv_d_env (dis : Bool) (pc instr : Nat) (tu : tu_builder) :
    envelope 105 "FDIV_D" pc (pc + 4) tu (__fdiv_d dis pc instr tu) := by
  refine ⟨_, ?body, rfl, ?h1, ?h2⟩
  case h1 =>
    simp only [tu_simps]
    exact rfl
  case h2 =>
    simp [line.is_marker, List.filter_cons, apply_ite (List.filter line.is_marker)]

theorem __fsqrt_d_ret (dis : Bool) (pc instr : Nat) (tu : tu_builder) :
    (__fsqrt_d dis pc instr tu).cont = continuation_e.CONT ∧
      (__fsqrt_d dis pc instr tu).pc = pc + 4 :=
  ⟨rfl, rfl⟩

theorem __fsqrt_d_env (dis : Bool) (pc instr : Nat) (tu : tu_builder) :
    envelope 106 "FSQRT_D" pc (pc + 4) tu (__fsqrt_d dis pc instr tu) := by
  refine ⟨_, ?body, rfl, ?h1, ?h2⟩
  case h1 =>
    simp only [tu_simps]
    exact rfl
  case h2 =>
    simp [line.is_marker, List.filter_cons, apply_ite (List.filter line.is_marker)]

theorem __fsgnj_d_ret (dis : Bool) (pc instr : Nat) (tu : tu_builder) :
    (__fsgnj_d dis pc instr tu).cont = continuation_e.CONT ∧
      (__fsgnj_d dis pc instr tu).pc = pc + 4 :=
  ⟨rfl, rfl⟩

theorem __fsgnj_d_env (dis : Bool) (pc instr : Nat) (tu : tu_builder) :
    envelope 107 "FSGNJ_D" pc (pc + 4) tu (__fsgnj_d dis pc instr tu) := by
  refine ⟨_, ?body, rfl, ?h1, ?h2⟩
  case h1 =>
    simp only [tu_simps]
    exact rfl
  case h2 =>
    simp [line.is_marker, List.filter_cons, apply_ite (List.filter line.is_marker)]

theorem __fsgnjn_d_ret (dis : Bool) (pc instr : Nat) (tu : tu_builder) :
    (__fsgnjn_d dis pc instr tu).cont = continuation_e.CONT ∧
      (__fsgnjn_d dis pc instr tu).pc = pc + 4 :=
  ⟨rfl, rfl⟩

theorem __fsgnjn_d_env (dis : Bool) (pc instr : Nat) (tu : tu_builder) :
    envelope 108 "FSGNJN_D" pc (pc + 4) tu (__fsgnjn_d dis pc instr tu) := by
  refine ⟨_, ?body, rfl, ?h1, ?h2⟩
  case h1 =>
    simp only [tu_simps]
    exact rfl
  case h2 =>
    simp [line.is_marker, List.filter_cons, apply_ite (List.filter line.is_marker)]

theorem __fsgnjx_d_ret (dis : Bool) (pc instr : Nat) (tu : tu_builder) :
    (__fsgnjx_d dis pc instr tu).cont = continuation_e.CONT ∧
      (__fsgnjx_d dis pc instr tu).pc = pc + 4 :=
  ⟨rfl, rfl⟩

theorem __fsgnjx_d_env (dis : Bool) (pc instr : Nat) (tu : tu_builder) :
    envelope 109 "FSGNJX_D" pc (pc + 4) tu (__fsgnjx_d dis pc instr tu) := by
  refine ⟨_, ?body, rfl, ?h1, ?h2⟩
  case h1 =>
    simp only [tu_simps]
    exact rfl
  case h2 =>
    simp [line.is_marker, List.filter_cons, apply_ite (List.filter line.is_marker)]

theorem __fmin_d_ret (dis : Bool) (pc instr : Nat) (tu : tu_builder) :
    (__fmin_d dis pc instr tu).cont = continuation_e.CONT ∧
      (__fmin_d dis pc instr tu).pc = pc + 4 :=
  ⟨rfl, rfl⟩

theorem __fmin_d_env (dis : Bool) (pc instr : Nat) (tu : tu_builder) :
    envelope 110 "FMIN_D" pc (pc + 4) tu (__fmin_d dis pc instr tu) := by
  refine ⟨_, ?body, rfl, ?h1, ?h2⟩
  case h1 =>
    simp only [tu_simps]
    exact rfl
  case h2 =>
    simp [line.is_marker, List.filter_cons, apply_ite (List.filter line.is_marker)]

theorem __fmax_d_ret (dis : Bool) (pc instr : Nat) (tu : tu_builder) :
    (__fmax_d dis pc instr tu).cont = continuation_e.CONT ∧
      (__fmax_d dis pc instr tu).pc = pc + 4 :=
  ⟨rfl, rfl⟩

theorem __fmax_d_env (dis : Bool) (pc instr : Nat) (tu : tu_builder) :
    envelope 111 "FMAX_D" pc (pc + 4) tu (__fmax_d dis pc instr tu) := by
  refine ⟨_, ?body, rfl, ?h1, ?h2⟩
  case h1 =>
    simp only [tu_simps]
    exact rfl
  case h2 =>
    simp [line.is_marker, List.filter_cons, apply_ite (List.filter line.is_marker)]

theorem __fcvt_s_d_ret (dis : Bool) (pc instr : Nat) (tu : tu_builder) :
    (__fcvt_s_d dis pc instr tu).cont = continuation_e.CONT ∧
      (__fcvt_s_d dis pc instr tu).pc = pc + 4 :=
  ⟨rfl, rfl⟩

theorem __fcvt_s_d_env (dis : Bool) (pc instr : Nat) (tu : tu_builder) :
    envelope 112 "FCVT_S_D" pc (pc + 4) tu (__fcvt_s_d dis pc instr tu) := by
  refine ⟨_, ?body, rfl, ?h1, ?h2⟩
  case h1 =>
    simp only [tu_simps]
    exact rfl
  case h2 =>
    simp [line.is_marker, List.filter_cons, apply_ite (List.filter line.is_marker)]

theorem __fcvt_d_s_ret (dis : Bool) (pc instr : Nat) (tu : tu_builder) :
    (__fcvt_d_s dis pc instr tu).cont = continuation_e.CONT ∧
      (__fcvt_d_s dis pc instr tu).pc = pc + 4 :=
  ⟨rfl, rfl⟩

theorem __fcvt_d_s_env (dis : Bool) (pc instr : Nat) (tu : tu_builder) :
    envelope 113 "FCVT_D_S" pc (pc + 4) tu (__fcvt_d_s dis pc instr tu) := by
  refine ⟨_, ?body, rfl, ?h1, ?h2⟩
  case h1 =>
    simp only [tu_simps]
    exact rfl
  case h2 =>
    simp [line.is_marker, List.filter_cons, apply_ite (List.filter line.is_marker)]

theorem __feq_d_ret (dis : Bool) (pc instr : Nat) (tu : tu_builder) :
    (__feq_d dis pc instr tu).cont = continuation_e.CONT ∧
      (__feq_d dis pc instr tu).pc = pc + 4 :=
  ⟨rfl, rfl⟩

theorem __feq_d_env (dis : Bool) (pc instr : Nat) (tu : tu_builder) :
    envelope 114 "FEQ_D" pc (pc + 4) tu (__feq_d dis pc instr tu) := by
  refine ⟨_, ?body, rfl, ?h1, ?h2⟩
  case h1 =>
    simp only [tu_simps]
    exact rfl
  case h2 =>
    simp [line.is_marker, List.filter_cons, apply_ite (List.filter line.is_marker)]

theorem __flt_d_ret (dis : Bool) (pc instr : Nat) (tu : tu_builder) :
    (__flt_d dis pc instr tu).cont = continuation_e.CONT ∧
      (__flt_d dis pc instr tu).pc = pc + 4 :=
  ⟨rfl, rfl⟩

theorem __flt_d_env (dis : Bool) (pc instr : Nat) (tu : tu_builder) :
    envelope 115 "FLT_D" pc (pc + 4) tu (__flt_d dis pc instr tu) := by
  refine ⟨_, ?body, rfl, ?h1, ?h2⟩
  case h1 =>
    simp only [tu_simps]
    exact rfl
  case h2 =>
    simp [line.is_marker, List.filter_cons, apply_ite (List.filter line.is_marker)]

theorem __fle_d_ret (dis : Bool) (pc instr : Nat) (tu : tu_builder) :
    (__fle_d dis pc instr tu).cont = continuation_e.CONT ∧
      (__fle_d dis pc instr tu).pc = pc + 4 :=
  ⟨rfl, rfl⟩

theorem __fle_d_env (dis : Bool) (pc instr : Nat) (tu : tu_builder) :
    envelope 116 "FLE_D" pc (pc + 4) tu (__fle_d dis pc instr tu) := by
  refine ⟨_, ?body, rfl, ?h1, ?h2⟩
  case h1 =>
    simp only [tu_simps]
    exact rfl
  case h2 =>
    simp [line.is_marker, List.filter_cons, apply_ite (List.filter line.is_marker)]

theorem __fclass_d_ret (dis : Bool) (pc instr : Nat) (tu : tu_builder) :
    (__fclass_d dis pc instr tu).cont = continuation_e.CONT ∧
      (__fclass_d dis pc instr tu).pc = pc + 4 :=
  ⟨rfl, rfl⟩

theorem __fclass_d_env (dis : Bool) (pc instr : Nat) (tu : tu_builder) :
    envelope 117 "FCLASS_D" pc (pc + 4) tu (__fclass_d dis pc instr tu) := by
  refine ⟨_, ?body, rfl, ?h1, ?h2⟩
  case h1 =>
    simp only [tu_simps]
    exact rfl
  case h2 =>
    simp [line.is_marker, List.filter_cons, apply_ite (List.filter line.is_marker)]

theorem __fcvt_w_d_ret (dis : Bool) (pc instr : Nat) (tu : tu_builder) :
    (__fcvt_w_d dis pc instr tu).cont = continuation_e.CONT ∧
      (__fcvt_w_d dis pc instr tu).pc = pc + 4 :=
  ⟨rfl, rfl⟩

theorem __fcvt_w_d_env (dis : Bool) (pc instr : Nat) (tu : tu_builder) :
    envelope 118 "FCVT_W_D" pc (pc + 4) tu (__fcvt_w_d dis pc instr tu) := by
  refine ⟨_, ?body, rfl, ?h1, ?h2⟩
  case h1 =>
    simp only [tu_simps]
    exact rfl
  case h2 =>
    simp [line.is_marker, List.filter_cons, apply_ite (List.filter line.is_marker)]

theorem __fcvt_wu_d_ret (dis : Bool) (pc instr : Nat) (tu : tu_builder) :
    (__fcvt_wu_d dis pc instr tu).cont = continuation_e.CONT ∧
      (__fcvt_wu_d dis pc instr tu).pc = pc + 4 :=
  ⟨rfl, rfl⟩

theorem __fcvt_wu_d_env (dis : Bool) (pc instr : Nat) (tu : tu_builder) :
    envelope 119 "FCVT_WU_D" pc (pc + 4) tu (__fcvt_wu_d dis pc instr tu) := by
  refine ⟨_, ?body, rfl, ?h1, ?h2⟩
  case h1 =>
    simp only [tu_simps]
    exact rfl
  case h2 =>
    simp [line.is_marker, List.filter_cons, apply_ite (List.filter line.is_marker)]

theorem __fcvt_d_w_ret (dis : Bool) (pc instr : Nat) (tu : tu_builder) :
    (__fcvt_d_w dis pc instr tu).cont = continuation_e.CONT ∧
      (__fcvt_d_w dis pc instr tu).pc = pc + 4 :=
  ⟨rfl, rfl⟩

theorem __fcvt_d_w_env (dis : Bool) (pc instr : Nat) (tu : tu_builder) :
    envelope 120 "FCVT_D_W" pc (pc + 4) tu (__fcvt_d_w dis pc instr tu) := by
  refine ⟨_, ?body, rfl, ?h1, ?h2⟩
  case h1 =>
    simp only [tu_simps]
    exact rfl
  case h2 =>
    simp [line.is_marker, List.filter_cons, apply_ite (List.filter line.is_marker)]

theorem __fcvt_d_wu_ret (dis : Bool) (pc instr : Nat) (tu : tu_builder) :
    (__fcvt_d_wu dis pc instr tu).cont = continuation_e.CONT ∧
      (__fcvt_d_wu dis pc instr tu).pc = pc + 4 :=
  ⟨rfl, rfl⟩

theorem __fcvt_d_wu_env (dis : Bool) (pc instr : Nat) (tu : tu_builder) :
    envelope 121 "FCVT_D_WU" pc (pc + 4) tu (__fcvt_d_wu dis pc instr tu) := by
  refine ⟨_, ?body, rfl, ?h1, ?h2⟩
  case h1 =>
    simp only [tu_simps]
    exact rfl
  case h2 =>
    simp [line.is_marker, List.filter_cons, apply_ite (List.filter line.is_marker)]

theorem __jalr_ret (dis : Bool) (pc instr : Nat) (tu : tu_builder) :
    (__jalr dis pc instr tu).cont = continuation_e.BRANCH ∧
      (__jalr dis pc instr tu).pc = pc + 4 :=
  ⟨rfl, rfl⟩

theorem __c_addi4spn_ret (dis : Bool) (pc instr : Nat) (tu : tu_builder) :
    (__c_addi4spn dis pc instr tu).cont = continuation_e.CONT ∧
      (__c_addi4spn dis pc instr tu).pc = pc + 2 :=
  ⟨rfl, rfl⟩

theorem __c_addi4spn_env (dis : Bool) (pc instr : Nat) (tu : tu_builder) :
    envelope 123 "C_ADDI4SPN" pc (pc + 2) tu (__c_addi4spn dis pc instr tu) := by
  refine ⟨_, ?body, rfl, ?h1, ?h2⟩
  case h1 =>
    simp only [tu_simps]
    exact rfl
  case h2 =>
    simp [line.is_marker, List.filter_cons, apply_ite (List.filter line.is_marker)]

theorem __c_lw_ret (dis : Bool) (pc instr : Nat) (tu : tu_builder) :
    (__c_lw dis pc instr tu).cont = continuation_e.CONT ∧
      (__c_lw dis pc instr tu).pc = pc + 2 :=
  ⟨rfl, rfl⟩

theorem __c_lw_env (dis : Bool) (pc instr : Nat) (tu : tu_builder) :
    envelope 124 "C_LW" pc (pc + 2) tu (__c_lw dis pc instr tu) := by
  refine ⟨_, ?body, rfl, ?h1, ?h2⟩
  case h1 =>
    simp only [tu_simps]
    exact rfl
  case h2 =>
    simp [line.is_marker, List.filter_cons, apply_ite (List.filter line.is_marker)]

theorem __c_sw_ret (dis : Bool) (pc instr : Nat) (tu : tu_builder) :
    (__c_sw dis pc instr tu).cont = continuation_e.CONT ∧
      (__c_sw dis pc instr tu).pc = pc + 2 :=
  ⟨rfl, rfl⟩

theorem __c_sw_env (dis : Bool) (pc instr : Nat) (tu : tu_builder) :
    envelope 125 "C_SW" pc (pc + 2) tu (__c_sw dis pc instr tu) := by
  refine ⟨_, ?body, rfl, ?h1, ?h2⟩
  case h1 =>
    simp only [tu_simps]
    exact rfl
  case h2 =>
    simp [line.is_marker, List.filter_cons, apply_ite (List.filter line.is_marker)]

theorem __c_addi_ret (dis : Bool) (pc instr : Nat) (tu : tu_builder) :
    (__c_addi dis pc instr tu).cont = continuation_e.CONT ∧
      (__c_addi dis pc instr tu).pc = pc + 2 :=
  ⟨rfl, rfl⟩

theorem __c_addi_env (dis : Bool) (pc instr : Nat) (tu : tu_builder) :
    envelope 126 "C_ADDI" pc (pc + 2) tu (__c_addi dis pc instr tu) := by
  refine ⟨_, ?body, rfl, ?h1, ?h2⟩
  case h1 =>
    simp only [tu_simps]
    exact rfl
  case h2 =>
    simp [line.is_marker, List.filter_cons, apply_ite (List.filter line.is_marker)]

theorem __c_nop_ret (dis : Bool) (pc instr : Nat) (tu : tu_builder) :
    (__c_nop dis pc instr tu).cont = continuation_e.CONT ∧
      (__c_nop dis pc instr tu).pc = pc + 2 :=
  ⟨rfl, rfl⟩

theorem __c_nop_env (dis : Bool) (pc instr : Nat) (tu : tu_builder) :
    envelope 127 "C_NOP" pc (pc + 2) tu (__c_nop dis pc instr tu) := by
  refine ⟨_, ?body, rfl, ?h1, ?h2⟩
  case h1 =>
    simp only [tu_simps]
    exact rfl
  case h2 =>
    simp [line.is_marker, List.filter_cons, apply_ite (List.filter line.is_marker)]

theorem __c_jal_ret (dis : Bool) (pc instr : Nat) (tu : tu_builder) :
    (__c_jal dis pc instr tu).cont = continuation_e.BRANCH ∧
      (__c_jal dis pc instr tu).pc = pc + 2 :=
  ⟨rfl, rfl⟩

theorem __c_li_ret (dis : Bool) (pc instr : Nat) (tu : tu_builder) :
    (__c_li dis pc instr tu).cont = continuation_e.CONT ∧
      (__c_li dis pc instr tu).pc = pc + 2 :=
  ⟨rfl, rfl⟩

theorem __c_li_env (dis : Bool) (pc instr : Nat) (tu : tu_builder) :
    envelope 129 "C_LI" pc (pc + 2) tu (__c_li dis pc instr tu) := by
  refine ⟨_, ?body, rfl, ?h1, ?h2⟩
  case h1 =>
    simp only [tu_simps]
    exact rfl
  case h2 =>
    simp [line.is_marker, List.filter_cons, apply_ite (List.filter line.is_marker)]

theorem __c_lui_ret (dis : Bool) (pc instr : Nat) (tu : tu_builder) :
    (__c_lui dis pc instr tu).cont = continuation_e.CONT ∧
      (__c_lui dis pc instr tu).pc = pc + 2 :=
  ⟨rfl, rfl⟩

theorem __c_lui_env (dis : Bool) (pc instr : Nat) (tu : tu_builder) :
    envelope 130 "C_LUI" pc (pc + 2) tu (__c_lui dis pc instr tu) := by
  refine ⟨_, ?body, rfl, ?h1, ?h2⟩
  case h1 =>
    simp only [tu_simps]
    exact rfl
  case h2 =>
    simp [line.is_marker, List.filter_cons, apply_ite (List.filter line.is_marker)]

theorem __c_addi16sp_ret (dis : Bool) (pc instr : Nat) (tu : tu_builder) :
    (__c_addi16sp dis pc instr tu).cont = continuation_e.CONT ∧
      (__c_addi16sp dis pc instr tu).pc = pc + 2 :=
  ⟨rfl, rfl⟩

theorem __c_addi16sp_env (dis : Bool) (pc instr : Nat) (tu : tu_builder) :
    envelope 131 "C_ADDI16SP" pc (pc + 2) tu (__c_addi16sp dis pc instr tu) := by
  refine ⟨_, ?body, rfl, ?h1, ?h2⟩
  case h1 =>
    simp only [tu_simps]
    exact rfl
  case h2 =>
    simp [line.is_marker, List.filter_cons, apply_ite (List.filter line.is_marker)]

theorem __c_srli_ret (dis : Bool) (pc instr : Nat) (tu : tu_builder) :
    (__c_srli dis pc instr tu).cont = continuation_e.CONT ∧
      (__c_srli dis pc instr tu).pc = pc + 2 :=
  ⟨rfl, rfl⟩

theorem __c_srli_env (dis : Bool) (pc instr : Nat) (tu : tu_builder) :
    envelope 132 "C_SRLI" pc (pc + 2) tu (__c_srli dis pc instr tu) := by
  refine ⟨_, ?body, rfl, ?h1, ?h2⟩
  case h1 =>
    simp only [tu_simps]
    exact rfl
  case h2 =>
    simp [line.is_marker, List.filter_cons, apply_ite (List.filter line.is_marker)]

theorem __c_srai_ret (dis : Bool) (pc instr : Nat) (tu : tu_builder) :
    (__c_srai dis pc instr tu).cont = continuation_e.CONT ∧
      (__c_srai dis pc instr tu).pc = pc + 2 :=
  ⟨rfl, rfl⟩

theorem __c_srai_env (dis : Bool) (pc instr : Nat) (tu : tu_builder) :
    envelope 133 "C_SRAI" pc (pc + 2) tu (__c_srai dis pc instr tu) := by
  refine ⟨_, ?body, rfl, ?h1, ?h2⟩
  case h1 =>
    simp only [tu_simps]
    exact rfl
  case h2 =>
    simp [line.is_marker, List.filter_cons, apply_ite (List.filter line.is_marker)]

theorem __c_andi_ret (dis : Bool) (pc instr : Nat) (tu : tu_builder) :
    (__c_andi dis pc instr tu).cont = continuation_e.CONT ∧
      (__c_andi dis pc instr tu).pc = pc + 2 :=
  ⟨rfl, rfl⟩

theorem __c_andi_env (dis : Bool) (pc instr : Nat) (tu : tu_builder) :
    envelope 134 "C_ANDI" pc (pc + 2) tu (__c_andi dis pc instr tu) := by
  refine ⟨_, ?body, rfl, ?h1, ?h2⟩
  case h1 =>
    simp only [tu_simps]
    exact rfl
  case h2 =>
    simp [line.is_marker, List.filter_cons, apply_ite (List.filter line.is_marker)]

theorem __c_sub_ret (dis : Bool) (pc instr : Nat) (tu : tu_builder) :
    (__c_sub dis pc instr tu).cont = continuation_e.CONT ∧
      (__c_sub dis pc instr tu).pc = pc + 2 :=
  ⟨rfl, rfl⟩

theorem __c_sub_env (dis : Bool) (pc instr : Nat) (tu : tu_builder) :
    envelope 135 "C_SUB" pc (pc + 2) tu (__c_sub dis pc instr tu) := by
  refine ⟨_, ?body, rfl, ?h1, ?h2⟩
  case h1 =>
    simp only [tu_simps]
    exact rfl
  case h2 =>
    simp [line.is_marker, List.filter_cons, apply_ite (List.filter line.is_marker)]

theorem __c_xor_ret (dis : Bool) (pc instr : Nat) (tu : tu_builder) :
    (__c_xor dis pc instr tu).cont = continuation_e.CONT ∧
      (__c_xor dis pc instr tu).pc = pc + 2 :=
  ⟨rfl, rfl⟩

theorem __c_xor_env (dis : Bool) (pc instr : Nat) (tu : tu_builder) :
    envelope 136 "C_XOR" pc (pc + 2) tu (__c_xor dis pc instr tu) := by
  refine ⟨_, ?body, rfl, ?h1, ?h2⟩
  case h1 =>
    simp only [tu_simps]
    exact rfl
  case h2 =>
    simp [line.is_marker, List.filter_cons, apply_ite (List.filter line.is_marker)]

theorem __c_or_ret (dis : Bool) (pc instr : Nat) (tu : tu_builder) :
    (__c_or dis pc instr tu).cont = continuation_e.CONT ∧
      (__c_or dis pc instr tu).pc = pc + 2 :=
  ⟨rfl, rfl⟩

theorem __c_or_env (dis : Bool) (pc instr : Nat) (tu : tu_builder) :
    envelope 137 "C_OR" pc (pc + 2) tu (__c_or dis pc instr tu) := by
  refine ⟨_, ?body, rfl, ?h1, ?h2⟩
  case h1 =>
    simp only [tu_simps]
    exact rfl
  case h2 =>
    simp [line.is_marker, List.filter_cons, apply_ite (List.filter line.is_marker)]

theorem __c_and_ret (dis : Bool) (pc instr : Nat) (tu : tu_builder) :
    (__c_and dis pc instr tu).cont = continuation_e.CONT ∧
      (__c_and dis pc instr tu).pc = pc + 2 :=
  ⟨rfl, rfl⟩

theorem __c_and_env (dis : Bool) (pc instr : Nat) (tu : tu_builder) :
    envelope 138 "C_AND" pc (pc + 2) tu (__c_and dis pc instr tu) := by
  refine ⟨_, ?body, rfl, ?h1, ?h2⟩
  case h1 =>
    simp only [tu_simps]
    exact rfl
  case h2 =>
    simp [line.is_marker, List.filter_cons, apply_ite (List.filter line.is_marker)]

theorem __c_j_ret (dis : Bool) (pc instr : Nat) (tu : tu_builder) :
    (__c_j dis pc instr tu).cont = continuation_e.BRANCH ∧
      (__c_j dis pc instr tu).pc = pc + 2 :=
  ⟨rfl, rfl⟩

theorem __c_beqz_ret (dis : Bool) (pc instr : Nat) (tu : tu_builder) :
    (__c_beqz dis pc instr tu).cont = continuation_e.BRANCH ∧
      (__c_beqz dis pc instr tu).pc = pc + 2 :=
  ⟨rfl, rfl⟩

theorem __c_bnez_ret (dis : Bool) (pc instr : Nat) (tu : tu_builder) :
    (__c_bnez dis pc instr tu).cont = continuation_e.BRANCH ∧
      (__c_bnez dis pc instr tu).pc = pc + 2 :=
  ⟨rfl, rfl⟩

theorem __c_slli_ret (dis : Bool) (pc instr : Nat) (tu : tu_builder) :
    (__c_slli dis pc instr tu).cont = continuation_e.CONT ∧
      (__c_slli dis pc instr tu).pc = pc + 2 :=
  ⟨rfl, rfl⟩

theorem __c_slli_env (dis : Bool) (pc instr : Nat) (tu : tu_builder) :
    envelope 142 "C_SLLI" pc (pc + 2) tu (__c_slli dis pc instr tu) := by
  refine ⟨_, ?body, rfl, ?h1, ?h2⟩
  case h1 =>
    simp only [tu_simps]
    exact rfl
  case h2 =>
    simp [line.is_marker, List.filter_cons, apply_ite (List.filter line.is_marker)]

theorem __c_lwsp_ret (dis : Bool) (pc instr : Nat) (tu : tu_builder) :
    (__c_lwsp dis pc instr tu).cont = continuation_e.CONT ∧
      (__c_lwsp dis pc instr tu).pc = pc + 2 :=
  ⟨rfl, rfl⟩

theorem __c_lwsp_env (dis : Bool) (pc instr : Nat) (tu : tu_builder) :
    envelope 143 "C_LWSP" pc (pc + 2) tu (__c_lwsp dis pc instr tu) := by
  refine ⟨_, ?body, rfl, ?h1, ?h2⟩
  case h1 =>
    simp only [tu_simps]
    exact rfl
  case h2 =>
    simp [line.is_marker, List.filter_cons, apply_ite (List.filter line.is_marker)]

theorem __c_mv_ret (dis : Bool) (pc instr : Nat) (tu : tu_builder) :
    (__c_mv dis pc instr tu).cont = continuation_e.CONT ∧
      (__c_mv dis pc instr tu).pc = pc + 2 :=
  ⟨rfl, rfl⟩

theorem __c_mv_env (dis : Bool) (pc instr : Nat) (tu : tu_builder) :
    envelope 144 "C_MV" pc (pc + 2) tu (__c_mv dis pc instr tu) := by
  refine ⟨_, ?body, rfl, ?h1, ?h2⟩
  case h1 =>
    simp only [tu_simps]
    exact rfl
  case h2 =>
    simp [line.is_marker, List.filter_cons, apply_ite (List.filter line.is_marker)]

theorem __c_jr_ret (dis : Bool) (pc instr : Nat) (tu : tu_builder) :
    (__c_jr dis pc instr tu).cont = continuation_e.BRANCH ∧
      (__c_jr dis pc instr tu).pc = pc + 2 :=
  ⟨rfl, rfl⟩

theorem __c_add_ret (dis : Bool) (pc instr : Nat) (tu : tu_builder) :
    (__c_add dis pc instr tu).cont = continuation_e.CONT ∧
      (__c_add dis pc instr tu).pc = pc + 2 :=
  ⟨rfl, rfl⟩

theorem __c_add_env (dis : Bool) (pc instr : Nat) (tu : tu_builder) :
    envelope 146 "C_ADD" pc (pc + 2) tu (__c_add dis pc instr tu) := by
  refine ⟨_, ?body, rfl, ?h1, ?h2⟩
  case h1 =>
    simp only [tu_simps]
    exact rfl
  case h2 =>
    simp [line.is_marker, List.filter_cons, apply_ite (List.filter line.is_marker)]

theorem __c_jalr_ret (dis : Bool) (pc instr : Nat) (tu : tu_builder) :
    (__c_jalr dis pc instr tu).cont = continuation_e.BRANCH ∧
      (__c_jalr dis pc instr tu).pc = pc + 2 :=
  ⟨rfl, rfl⟩

theorem __c_ebreak_ret (dis : Bool) (pc instr : Nat) (tu : tu_builder) :
    (__c_ebreak dis pc instr tu).cont = continuation_e.BRANCH ∧
      (__c_ebreak dis pc instr tu).pc = pc + 2 :=
  ⟨rfl, rfl⟩

theorem __c_swsp_ret (dis : Bool) (pc instr : Nat) (tu : tu_builder) :
    (__c_swsp dis pc instr tu).cont = continuation_e.CONT ∧
      (__c_swsp dis pc instr tu).pc = pc + 2 :=
  ⟨rfl, rfl⟩

theorem __c_swsp_env (dis : Bool) (pc instr : Nat) (tu : tu_builder) :
    envelope 149 "C_SWSP" pc (pc + 2) tu (__c_swsp dis pc instr tu) := by
  refine ⟨_, ?body, rfl, ?h1, ?h2⟩
  case h1 =>
    simp only [tu_simps]
    exact rfl
  case h2 =>
    simp [line.is_marker, List.filter_cons, apply_ite (List.filter line.is_marker)]

theorem __dii_ret (dis : Bool) (pc instr : Nat) (tu : tu_builder) :
    (__dii dis pc instr tu).cont = continuation_e.BRANCH ∧
      (__dii dis pc instr tu).pc = pc + 2 :=
  ⟨rfl, rfl⟩

theorem __c_flw_ret (dis : Bool) (pc instr : Nat) (tu : tu_builder) :
    (__c_flw dis pc instr tu).cont = continuation_e.CONT ∧
      (__c_flw dis pc instr tu).pc = pc + 2 :=
  ⟨rfl, rfl⟩

theorem __c_flw_env (dis : Bool) (pc instr : Nat) (tu : tu_builder) :
    envelope 151 "C_FLW" pc (pc + 2) tu (__c_flw dis pc instr tu) := by
  refine ⟨_, ?body, rfl, ?h1, ?h2⟩
  case h1 =>
    simp only [tu_simps]
    exact rfl
  case h2 =>
    simp [line.is_marker, List.filter_cons, apply_ite (List.filter line.is_marker)]

theorem __c_fsw_ret (dis : Bool) (pc instr : Nat) (tu : tu_builder) :
    (__c_fsw dis pc instr tu).cont = continuation_e.CONT ∧
      (__c_fsw dis pc instr tu).pc = pc + 2 :=
  ⟨rfl, rfl⟩

theorem __c_fsw_env (dis : Bool) (pc instr : Nat) (tu : tu_builder) :
    envelope 152 "C_FSW" pc (pc + 2) tu (__c_fsw dis pc instr tu) := by
  refine ⟨_, ?body, rfl, ?h1, ?h2⟩
  case h1 =>
    simp only [tu_simps]
    exact rfl
  case h2 =>
    simp [line.is_marker, List.filter_cons, apply_ite (List.filter line.is_marker)]

theorem __c_flwsp_ret (dis : Bool) (pc instr : Nat) (tu : tu_builder) :
    (__c_flwsp dis pc instr tu).cont = continuation_e.CONT ∧
      (__c_flwsp dis pc instr tu).pc = pc + 2 :=
  ⟨rfl, rfl⟩

theorem __c_flwsp_env (dis : Bool) (pc instr : Nat) (tu : tu_builder) :
    envelope 153 "C_FLWSP" pc (pc + 2) tu (__c_flwsp dis pc instr tu) := by
  refine ⟨_, ?body, rfl, ?h1, ?h2⟩
  case h1 =>
    simp only [tu_simps]
    exact rfl
  case h2 =>
    simp [line.is_marker, List.filter_cons, apply_ite (List.filter line.is_marker)]

theorem __c_fswsp_ret (dis : Bool) (pc instr : Nat) (tu : tu_builder) :
    (__c_fswsp dis pc instr tu).cont = continuation_e.CONT ∧
      (__c_fswsp dis pc instr tu).pc = pc + 2 :=
  ⟨rfl, rfl⟩

theorem __c_fswsp_env (dis : Bool) (pc instr : Nat) (tu : tu_builder) :
    envelope 154 "C_FSWSP" pc (pc + 2) tu (__c_fswsp dis pc instr tu) := by
  refine ⟨_, ?body, rfl, ?h1, ?h2⟩
  case h1 =>
    simp only [tu_simps]
    exact rfl
  case h2 =>
    simp [line.is_marker, List.filter_cons, apply_ite (List.filter line.is_marker)]

theorem __c_fld_ret (dis : Bool) (pc instr : Nat) (tu : tu_builder) :
    (__c_fld dis pc instr tu).cont = continuation_e.CONT ∧
      (__c_fld dis pc instr tu).pc = pc + 2 :=
  ⟨rfl, rfl⟩

theorem __c_fld_env (dis : Bool) (pc instr : Nat) (tu : tu_builder) :
    envelope 155 "C_FLD" pc (pc + 2) tu (__c_fld dis pc instr tu) := by
  refine ⟨_, ?body, rfl, ?h1, ?h2⟩
  case h1 =>
    simp only [tu_simps]
    exact rfl
  case h2 =>
    simp [line.is_marker, List.filter_cons, apply_ite (List.filter line.is_marker)]

theorem __c_fsd_ret (dis : Bool) (pc instr : Nat) (tu : tu_builder) :
    (__c_fsd dis pc instr tu).cont = continuation_e.CONT ∧
      (__c_fsd dis pc instr tu).pc = pc + 2 :=
  ⟨rfl, rfl⟩

theorem __c_fsd_env (dis : Bool) (pc instr : Nat) (tu : tu_builder) :
    envelope 156 "C_FSD" pc (pc + 2) tu (__c_fsd dis pc instr tu) := by
  refine ⟨_, ?body, rfl, ?h1, ?h2⟩
  case h1 =>
    simp only [tu_simps]
    exact rfl
  case h2 =>
    simp [line.is_marker, List.filter_cons, apply_ite (List.filter line.is_marker)]

theorem __c_fldsp_ret (dis : Bool) (pc instr : Nat) (tu : tu_builder) :
    (__c_fldsp dis pc instr tu).cont = continuation_e.CONT ∧
      (__c_fldsp dis pc instr tu).pc = pc + 2 :=
  ⟨rfl, rfl⟩

theorem __c_fldsp_env (dis : Bool) (pc instr : Nat) (tu : tu_builder) :
    envelope 157 "C_FLDSP" pc (pc + 2) tu (__c_fldsp dis pc instr tu) := by
  refine ⟨_, ?body, rfl, ?h1, ?h2⟩
  case h1 =>
    simp only [tu_simps]
    exact rfl
  case h2 =>
    simp [line.is_marker, List.filter_cons, apply_ite (List.filter line.is_marker)]

theorem __c_fsdsp_ret (dis : Bool) (pc instr : Nat) (tu : tu_builder) :
    (__c_fsdsp dis pc instr tu).cont = continuation_e.CONT ∧
      (__c_fsdsp dis pc instr tu).pc = pc + 2 :=
  ⟨rfl, rfl⟩

theorem __c_fsdsp_env (dis : Bool) (pc instr : Nat) (tu : tu_builder) :
    envelope 158 "C_FSDSP" pc (pc + 2) tu (__c_fsdsp dis pc instr tu) := by
  refine ⟨_, ?body, rfl, ?h1, ?h2⟩
  case h1 =>
    simp only [tu_simps]
    exact rfl
  case h2 =>
    simp [line.is_marker, List.filter_cons, apply_ite (List.filter line.is_marker)]

theorem invoke_pc (f : compile_func) (hf : f ≠ compile_func.illegal_intruction) (dis : Bool)
    (pc instr : Nat) (tu : tu_builder) :
    (invoke f dis pc instr tu).pc = pc + handler_advance f := by
  cases f <;> first | rfl | exact absurd rfl hf

theorem invoke_envelope (f : compile_func) (dis : Bool) (pc instr : Nat) (tu : tu_builder)
    (h : (invoke f dis pc instr tu).cont = continuation_e.CONT) :
    ∃ i mnemonic, envelope i mnemonic pc (invoke f dis pc instr tu).pc tu
      (invoke f dis pc instr tu) :=
  match f with
  | compile_func.__mul => ⟨0, "MUL", __mul_env dis pc instr tu⟩
  | compile_func.__mulh => ⟨1, "MULH", __mulh_env dis pc instr tu⟩
  | compile_func.__mulhsu => ⟨2, "MULHSU", __mulhsu_env dis pc instr tu⟩
  | compile_func.__mulhu => ⟨3, "MULHU", __mulhu_env dis pc instr tu⟩
  | compile_func.__div => ⟨4, "DIV", __div_env dis pc instr tu⟩
  | compile_func.__divu => ⟨5, "DIVU", __divu_env dis pc instr tu⟩
  | compile_func.__rem => ⟨6, "REM", __rem_env dis pc instr tu⟩
  | compile_func.__remu => ⟨7, "REMU", __remu_env dis pc instr tu⟩
  | compile_func.__lr_w => ⟨8, "LR_W", __lr_w_env dis pc instr tu⟩
  | compile_func.__sc_w => ⟨9, "SC_W", __sc_w_env dis pc instr tu⟩
  | compile_func.__amoswap_w => ⟨10, "AMOSWAP_W", __amoswap_w_env dis pc instr tu⟩
  | compile_func.__amoadd_w => ⟨11, "AMOADD_W", __amoadd_w_env dis pc instr tu⟩
  | compile_func.__amoxor_w => ⟨12, "AMOXOR_W", __amoxor_w_env dis pc instr tu⟩
  | compile_func.__amoand_w => ⟨13, "AMOAND_W", __amoand_w_env dis pc instr tu⟩
  | compile_func.__amoor_w => ⟨14, "AMOOR_W", __amoor_w_env dis pc instr tu⟩
  | compile_func.__amomin_w => ⟨15, "AMOMIN_W", __amomin_w_env dis pc instr tu⟩
  | compile_func.__amomax_w => ⟨16, "AMOMAX_W", __amomax_w_env dis pc instr tu⟩
  | compile_func.__amominu_w => ⟨17, "AMOMINU_W", __amominu_w_env dis pc instr tu⟩
  | compile_func.__amomaxu_w => ⟨18, "AMOMAXU_W", __amomaxu_w_env dis pc instr tu⟩
  | compile_func.__lui => ⟨19, "LUI", __lui_env dis pc instr tu⟩
  | compile_func.__auipc => ⟨20, "AUIPC", __auipc_env dis pc instr tu⟩
  | compile_func.__jal =>
    continuation_e.noConfusion ((__jal_ret dis pc instr tu).1.symm.trans h)
  | compile_func.__beq =>
    continuation_e.noConfusion ((__beq_ret dis pc instr tu).1.symm.trans h)
  | compile_func.__bne =>
    continuation_e.noConfusion ((__bne_ret dis pc instr tu).1.symm.trans h)
  | compile_func.__blt =>
    continuation_e.noConfusion ((__blt_ret dis pc instr tu).1.symm.trans h)
  | compile_func.__bge =>
    continuation_e.noConfusion ((__bge_ret dis pc instr tu).1.symm.trans h)
  | compile_func.__bltu =>
    continuation_e.noConfusion ((__bltu_ret dis pc instr tu).1.symm.trans h)
  | compile_func.__bgeu =>
    continuation_e.noConfusion ((__bgeu_ret dis pc instr tu).1.symm.trans h)
  | compile_func.__lb => ⟨28, "LB", __lb_env dis pc instr tu⟩
  | compile_func.__lh => ⟨29, "LH", __lh_env dis pc instr tu⟩
  | compile_func.__lw => ⟨30, "LW", __lw_env dis pc instr tu⟩
  | compile_func.__lbu => ⟨31, "LBU", __lbu_env dis pc instr tu⟩
  | compile_func.__lhu => ⟨32, "LHU", __lhu_env dis pc instr tu⟩
  | compile_func.__sb => ⟨33, "SB", __sb_env dis pc instr tu⟩
  | compile_func.__sh => ⟨34, "SH", __sh_env dis pc instr tu⟩
  | compile_func.__sw => ⟨35, "SW", __sw_env dis pc instr tu⟩
  | compile_func.__addi => ⟨36, "ADDI", __addi_env dis pc instr tu⟩
  | compile_func.__slti => ⟨37, "SLTI", __slti_env dis pc instr tu⟩
  | compile_func.__sltiu => ⟨38, "SLTIU", __sltiu_env dis pc instr tu⟩
  | compile_func.__xori => ⟨39, "XORI", __xori_env dis pc instr tu⟩
  | compile_func.__ori => ⟨40, "ORI", __ori_env dis pc instr tu⟩
  | compile_func.__andi => ⟨41, "ANDI", __andi_env dis pc instr tu⟩
  | compile_func.__slli => ⟨42, "SLLI", __slli_env dis pc instr tu⟩
  | compile_func.__srli => ⟨43, "SRLI", __srli_env dis pc instr tu⟩
  | compile_func.__srai => ⟨44, "SRAI", __srai_env dis pc instr tu⟩
  | compile_func.__add => ⟨45, "ADD", __add_env dis pc instr tu⟩
  | compile_func.__sub => ⟨46, "SUB", __sub_env dis pc instr tu⟩
  | compile_func.__sll => ⟨47, "SLL", __sll_env dis pc instr tu⟩
  | compile_func.__slt => ⟨48, "SLT", __slt_env dis pc instr tu⟩
  | compile_func.__sltu => ⟨49, "SLTU", __sltu_env dis pc instr tu⟩
  | compile_func.__xor => ⟨50, "XOR", __xor_env dis pc instr tu⟩
  | compile_func.__srl => ⟨51, "SRL", __srl_env dis pc instr tu⟩
  | compile_func.__sra => ⟨52, "SRA", __sra_env dis pc instr tu⟩
  | compile_func.__or => ⟨53, "OR", __or_env dis pc instr tu⟩
  | compile_func.__and => ⟨54, "AND", __and_env dis pc instr tu⟩
  | compile_func.__fence => ⟨55, "FENCE", __fence_env dis pc instr tu⟩
  | compile_func.__fence_i =>
    continuation_e.noConfusion ((__fence_i_ret dis pc instr tu).1.symm.trans h)
  | compile_func.__ecall =>
    continuation_e.noConfusion ((__ecall_ret dis pc instr tu).1.symm.trans h)
  | compile_func.__ebreak =>
    continuation_e.noConfusion ((__ebreak_ret dis pc instr tu).1.symm.trans h)
  | compile_func.__uret =>
    continuation_e.noConfusion ((__uret_ret dis pc instr tu).1.symm.trans h)
  | compile_func.__sret =>
    continuation_e.noConfusion ((__sret_ret dis pc instr tu).1.symm.trans h)
  | compile_func.__mret =>
    continuation_e.noConfusion ((__mret_ret dis pc instr tu).1.symm.trans h)
  | compile_func.__wfi => ⟨62, "WFI", __wfi_env dis pc instr tu⟩
  | compile_func.__sfence_vma => ⟨63, "SFENCE_VMA", __sfence_vma_env dis pc instr tu⟩
  | compile_func.__csrrw => ⟨64, "CSRRW", __csrrw_env dis pc instr tu⟩
  | compile_func.__csrrs => ⟨65, "CSRRS", __csrrs_env dis pc instr tu⟩
  | compile_func.__csrrc => ⟨66, "CSRRC", __csrrc_env dis pc instr tu⟩
  | compile_func.__csrrwi => ⟨67, "CSRRWI", __csrrwi_env dis pc instr tu⟩
  | compile_func.__csrrsi => ⟨68, "CSRRSI", __csrrsi_env dis pc instr tu⟩
  | compile_func.__csrrci => ⟨69, "CSRRCI", __csrrci_env dis pc instr tu⟩
  | compile_func.__flw => ⟨70, "FLW", __flw_env dis pc instr tu⟩
  | compile_func.__fsw => ⟨71, "FSW", __fsw_env dis pc instr tu⟩
  | compile_func.__fmadd_s => ⟨72, "FMADD_S", __fmadd_s_env dis pc instr tu⟩
  | compile_func.__fmsub_s => ⟨73, "FMSUB_S", __fmsub_s_env dis pc instr tu⟩
  | compile_func.__fnmadd_s => ⟨74, "FNMADD_S", __fnmadd_s_env dis pc instr tu⟩
  | compile_func.__fnmsub_s => ⟨75, "FNMSUB_S", __fnmsub_s_env dis pc instr tu⟩
  | compile_func.__fadd_s => ⟨76, "FADD_S", __fadd_s_env dis pc instr tu⟩
  | compile_func.__fsub_s => ⟨77, "FSUB_S", __fsub_s_env dis pc instr tu⟩
  | compile_func.__fmul_s => ⟨78, "FMUL_S", __fmul_s_env dis pc instr tu⟩
  | compile_func.__fdiv_s => ⟨79, "FDIV_S", __fdiv_s_env dis pc instr tu⟩
  | compile_func.__fsqrt_s => ⟨80, "FSQRT_S", __fsqrt_s_env dis pc instr tu⟩
  | compile_func.__fsgnj_s => ⟨81, "FSGNJ_S", __fsgnj_s_env dis pc instr tu⟩
  | compile_func.__fsgnjn_s => ⟨82, "FSGNJN_S", __fsgnjn_s_env dis pc instr tu⟩
  | compile_func.__fsgnjx_s => ⟨83, "FSGNJX_S", __fsgnjx_s_env dis pc instr tu⟩
  | compile_func.__fmin_s => ⟨84, "FMIN_S", __fmin_s_env dis pc instr tu⟩
  | compile_func.__fmax_s => ⟨85, "FMAX_S", __fmax_s_env dis pc instr tu⟩
  | compile_func.__fcvt_w_s => ⟨86, "FCVT_W_S", __fcvt_w_s_env dis pc instr tu⟩
  | compile_func.__fcvt_wu_s => ⟨87, "FCVT_WU_S", __fcvt_wu_s_env dis pc instr tu⟩
  | compile_func.__feq_s => ⟨88, "FEQ_S", __feq_s_env dis pc instr tu⟩
  | compile_func.__flt_s => ⟨89, "FLT_S", __flt_s_env dis pc instr tu⟩
  | compile_func.__fle_s => ⟨90, "FLE_S", __fle_s_env dis pc instr tu⟩
  | compile_func.__fclass_s => ⟨91, "FCLASS_S", __fclass_s_env dis pc instr tu⟩
  | compile_func.__fcvt_s_w => ⟨92, "FCVT_S_W", __fcvt_s_w_env dis pc instr tu⟩
  | compile_func.__fcvt_s_wu => ⟨93, "FCVT_S_WU", __fcvt_s_wu_env dis pc instr tu⟩
  | compile_func.__fmv_x_w => ⟨94, "FMV_X_W", __fmv_x_w_env dis pc instr tu⟩
  | compile_func.__fmv_w_x => ⟨95, "FMV_W_X", __fmv_w_x_env dis pc instr tu⟩
  | compile_func.__fld => ⟨96, "FLD", __fld_env dis pc instr tu⟩
  | compile_func.__fsd => ⟨97, "FSD", __fsd_env dis pc instr tu⟩
  | compile_func.__fmadd_d => ⟨98, "FMADD_D", __fmadd_d_env dis pc instr tu⟩
  | compile_func.__fmsub_d => ⟨99, "FMSUB_D", __fmsub_d_env dis pc instr tu⟩
  | compile_func.__fnmadd_d => ⟨100, "FNMADD_D", __fnmadd_d_env dis pc instr tu⟩
  | compile_func.__fnmsub_d => ⟨101, "FNMSUB_D", __fnmsub_d_env dis pc instr tu⟩
  | compile_func.__fadd_d => ⟨102, "FADD_D", __fadd_d_env dis pc instr tu⟩
  | compile_func.__fsub_d => ⟨103, "FSUB_D", __fsub_d_env dis pc instr tu⟩
  | compile_func.__fmul_d => ⟨104, "FMUL_D", __fmul_d_env dis pc instr tu⟩
  | compile_func.__fdiv_d => ⟨105, "FDIV_D", __fdiv_d_env dis pc instr tu⟩
  | compile_func.__fsqrt_d => ⟨106, "FSQRT_D", __fsqrt_d_env dis pc instr tu⟩
  | compile_func.__fsgnj_d => ⟨107, "FSGNJ_D", __fsgnj_d_env dis pc instr tu⟩
  | compile_func.__fsgnjn_d => ⟨108, "FSGNJN_D", __fsgnjn_d_env dis pc instr tu⟩
  | compile_func.__fsgnjx_d => ⟨109, "FSGNJX_D", __fsgnjx_d_env dis pc instr tu⟩
  | compile_func.__fmin_d => ⟨110, "FMIN_D", __fmin_d_env dis pc instr tu⟩
  | compile_func.__fmax_d => ⟨111, "FMAX_D", __fmax_d_env dis pc instr tu⟩
  | compile_func.__fcvt_s_d => ⟨112, "FCVT_S_D", __fcvt_s_d_env dis pc instr tu⟩
  | compile_func.__fcvt_d_s => ⟨113, "FCVT_D_S", __fcvt_d_s_env dis pc instr tu⟩
  | compile_func.__feq_d => ⟨114, "FEQ_D", __feq_d_env dis pc instr tu⟩
  | compile_func.__flt_d => ⟨115, "FLT_D", __flt_d_env dis pc instr tu⟩
  | compile_func.__fle_d => ⟨116, "FLE_D", __fle_d_env dis pc instr tu⟩
  | compile_func.__fclass_d => ⟨117, "FCLASS_D", __fclass_d_env dis pc instr tu⟩
  | compile_func.__fcvt_w_d => ⟨118, "FCVT_W_D", __fcvt_w_d_env dis pc instr tu⟩
  | compile_func.__fcvt_wu_d => ⟨119, "FCVT_WU_D", __fcvt_wu_d_env dis pc instr tu⟩
  | compile_func.__fcvt_d_w => ⟨120, "FCVT_D_W", __fcvt_d_w_env dis pc instr tu⟩
  | compile_func.__fcvt_d_wu => ⟨121, "FCVT_D_WU", __fcvt_d_wu_env dis pc instr tu⟩
  | compile_func.__jalr =>
    continuation_e.noConfusion ((__jalr_ret dis pc instr tu).1.symm.trans h)
  | compile_func.__c_addi4spn => ⟨123, "C_ADDI4SPN", __c_addi4spn_env dis pc instr tu⟩
  | compile_func.__c_lw => ⟨124, "C_LW", __c_lw_env dis pc instr tu⟩
  | compile_func.__c_sw => ⟨125, "C_SW", __c_sw_env dis pc instr tu⟩
  | compile_func.__c_addi => ⟨126, "C_ADDI", __c_addi_env dis pc instr tu⟩
  | compile_func.__c_nop => ⟨127, "C_NOP", __c_nop_env dis pc instr tu⟩
  | compile_func.__c_jal =>
    continuation_e.noConfusion ((__c_jal_ret dis pc instr tu).1.symm.trans h)
  | compile_func.__c_li => ⟨129, "C_LI", __c_li_env dis pc instr tu⟩
  | compile_func.__c_lui => ⟨130, "C_LUI", __c_lui_env dis pc instr tu⟩
  | compile_func.__c_addi16sp => ⟨131, "C_ADDI16SP", __c_addi16sp_env dis pc instr tu⟩
  | compile_func.__c_srli => ⟨132, "C_SRLI", __c_srli_env dis pc instr tu⟩
  | compile_func.__c_srai => ⟨133, "C_SRAI", __c_srai_env dis pc instr tu⟩
  | compile_func.__c_andi => ⟨134, "C_ANDI", __c_andi_env dis pc instr tu⟩
  | compile_func.__c_sub => ⟨135, "C_SUB", __c_sub_env dis pc instr tu⟩
  | compile_func.__c_xor => ⟨136, "C_XOR", __c_xor_env dis pc instr tu⟩
  | compile_func.__c_or => ⟨137, "C_OR", __c_or_env dis pc instr tu⟩
  | compile_func.__c_and => ⟨138, "C_AND", __c_and_env dis pc instr tu⟩
  | compile_func.__c_j =>
    continuation_e.noConfusion ((__c_j_ret dis pc instr tu).1.symm.trans h)
  | compile_func.__c_beqz =>
    continuation_e.noConfusion ((__c_beqz_ret dis pc instr tu).1.symm.trans h)
  | compile_func.__c_bnez =>
    continuation_e.noConfusion ((__c_bnez_ret dis pc instr tu).1.symm.trans h)
  | compile_func.__c_slli => ⟨142, "C_SLLI", __c_slli_env dis pc instr tu⟩
  | compile_func.__c_lwsp => ⟨143, "C_LWSP", __c_lwsp_env dis pc instr tu⟩
  | compile_func.__c_mv => ⟨144, "C_MV", __c_mv_env dis pc instr tu⟩
  | compile_func.__c_jr =>
    continuation_e.noConfusion ((__c_jr_ret dis pc instr tu).1.symm.trans h)
  | compile_func.__c_add => ⟨146, "C_ADD", __c_add_env dis pc instr tu⟩
  | compile_func.__c_jalr =>
    continuation_e.noConfusion ((__c_jalr_ret dis pc instr tu).1.symm.trans h)
  | compile_func.__c_ebreak =>
    continuation_e.noConfusion ((__c_ebreak_ret dis pc instr tu).1.symm.trans h)
  | compile_func.__c_swsp => ⟨149, "C_SWSP", __c_swsp_env dis pc instr tu⟩
  | compile_func.__dii =>
    continuation_e.noConfusion ((__dii_ret dis pc instr tu).1.symm.trans h)
  | compile_func.__c_flw => ⟨151, "C_FLW", __c_flw_env dis pc instr tu⟩
  | compile_func.__c_fsw => ⟨152, "C_FSW", __c_fsw_env dis pc instr tu⟩
  | compile_func.__c_flwsp => ⟨153, "C_FLWSP", __c_flwsp_env dis pc instr tu⟩
  | compile_func.__c_fswsp => ⟨154, "C_FSWSP", __c_fswsp_env dis pc instr tu⟩
  | compile_func.__c_fld => ⟨155, "C_FLD", __c_fld_env dis pc instr tu⟩
  | compile_func.__c_fsd => ⟨156, "C_FSD", __c_fsd_env dis pc instr tu⟩
  | compile_func.__c_fldsp => ⟨157, "C_FLDSP", __c_fldsp_env dis pc instr tu⟩
  | compile_func.__c_fsdsp => ⟨158, "C_FSDSP", __c_fsdsp_env dis pc instr tu⟩
  | compile_func.illegal_intruction => continuation_e.noConfusion h
/-! ## Facts about the descriptor list -/

theorem descr_value_sub_mask :
    ∀ d ∈ instr_descr, d.value &&& d.mask = d.value := by
  decide!

theorem descr_16_mask_lt :
    ∀ d ∈ instr_descr, d.length = 16 → d.mask < 2 ^ 16 := by
  decide!

theorem descr_16_quadrant :
    ∀ d ∈ instr_descr, d.length = 16 → d.value &&& 3 ≠ 3 := by
  decide!

/-- Two distinct quadrant-3 descriptors: the later-listed candidate either has its whole
mask inside the lookup mask, or the two differ on a bit that both masks and the lookup
mask select. -/
theorem descr_pairs :
    ∀ d ∈ instr_descr, ∀ d' ∈ instr_descr, d.value &&& 3 = 3 → d'.value &&& 3 = 3 → d ≠ d' →
      (d'.mask &&& MASK32 = d'.mask ∨
        (d.value ^^^ d'.value) &&& (d.mask &&& (d'.mask &&& MASK32)) ≠ 0) := by
  decide!

theorem xor_and_eq_zero_of_and_eq {w m v : Nat} (h : w &&& m = v) : (v ^^^ w) &&& m = 0 := by
  subst h
  apply Nat.eq_of_testBit_eq
  intro i
  simp only [Nat.testBit_and, Nat.testBit_xor, Nat.zero_testBit]
  cases w.testBit i <;> cases m.testBit i <;> rfl

theorem and_and_eq_zero {x m : Nat} (l : Nat) (h : x &&& m = 0) : x &&& (m &&& l) = 0 := by
  apply Nat.eq_of_testBit_eq
  intro i
  have := congrArg (fun y => y.testBit i) h
  simp only [Nat.testBit_and, Nat.zero_testBit] at this ⊢
  cases hx : x.testBit i <;> cases hm : m.testBit i <;> simp_all

theorem and_low16_and {w m : Nat} (hm : m < 2 ^ 16) : (w &&& 0xFFFF) &&& m = w &&& m := by
  apply Nat.eq_of_testBit_eq
  intro i
  simp only [Nat.testBit_and]
  by_cases hi : i < 16
  · have : (0xFFFF : Nat).testBit i = true := by
      have h := Nat.testBit_two_pow_sub_one 16 i
      simpa [hi] using h
    simp [this]
  · have : m.testBit i = false :=
      Nat.testBit_lt_two_pow (lt_of_lt_of_le hm (Nat.pow_le_pow_right (by decide) (by omega)))
    simp [this]

/-- A descriptor of the list that matches a word on its full mask is a candidate for the
word's slot. -/
theorem slot_match_of_full_match {w : Nat} {d : InstructionDesriptor} (hd : d ∈ instr_descr)
    (h : full_match w d = true) : slot_match w d = true := by
  unfold full_match at h
  unfold slot_match
  simp only [Bool.and_eq_true, beq_iff_eq] at h ⊢
  refine ⟨h.1, ?_⟩
  have hw : w &&& d.mask = d.value := by
    by_cases h16 : d.length = 16
    · have := h.2
      rw [if_pos h16, and_low16_and (descr_16_mask_lt d hd h16)] at this
      exact this
    · have := h.2
      rw [if_neg h16] at this
      exact this
  exact and_and_eq_zero _ (xor_and_eq_zero_of_and_eq hw)

/-- Agreement with two descriptors on their selected bits forces the two descriptors to
agree on the bits that both select. -/
theorem xor_and_of_two {a b w m1 m2 l : Nat} (h1 : (a ^^^ w) &&& (m1 &&& l) = 0)
    (h2 : (b ^^^ w) &&& (m2 &&& l) = 0) : (a ^^^ b) &&& (m1 &&& (m2 &&& l)) = 0 := by
  apply Nat.eq_of_testBit_eq
  intro i
  have e1 := congrArg (fun y => y.testBit i) h1
  have e2 := congrArg (fun y => y.testBit i) h2
  simp only [Nat.testBit_and, Nat.testBit_xor, Nat.zero_testBit] at e1 e2 ⊢
  cases ha : a.testBit i <;> cases hb : b.testBit i <;> cases hw : w.testBit i <;>
    cases hm1 : m1.testBit i <;> cases hm2 : m2.testBit i <;> cases hl : l.testBit i <;>
    simp_all

theorem slot_match_iff (w : Nat) (d : InstructionDesriptor) :
    slot_match w d = true ↔
      (d.value &&& 0x3 = w &&& 0x3 ∧
        ∀ i, d.mask.testBit i = true → (lookup_mask (w &&& 0x3)).testBit i = true →
          d.value.testBit i = w.testBit i) := by
  unfold slot_match
  simp only [Bool.and_eq_true, beq_iff_eq]
  constructor
  · rintro ⟨hq, h⟩
    refine ⟨hq, fun i hm hl => ?_⟩
    have := congrArg (fun y => y.testBit i) h
    simp only [Nat.testBit_and, Nat.testBit_xor, Nat.zero_testBit, hm, hl, Bool.and_true]
      at this
    cases hv : d.value.testBit i <;> cases hw : w.testBit i <;> simp_all
  · rintro ⟨hq, h⟩
    refine ⟨hq, ?_⟩
    apply Nat.eq_of_testBit_eq
    intro i
    simp only [Nat.testBit_and, Nat.testBit_xor, Nat.zero_testBit]
    cases hm : d.mask.testBit i
    · simp
    · cases hl : (lookup_mask (w &&& 0x3)).testBit i
      · simp
      · simp [h i hm hl]

/-! ## Arithmetic of the decoded fields and of wrapped values -/

theorem bit_sub_eq (lo width v : Nat) : bit_sub lo width v = v / 2 ^ lo % 2 ^ width := by
  unfold bit_sub
  rw [Nat.one_shiftLeft, Nat.and_pow_two_sub_one_eq_mod, Nat.shiftRight_eq_div_pow]

theorem bit_sub_lt (lo width v : Nat) : bit_sub lo width v < 2 ^ width := by
  rw [bit_sub_eq]
  exact Nat.mod_lt _ (Nat.two_pow_pos width)

theorem uint_t_of_lt {bits v : Nat} (h : v < 2 ^ bits) : uint_t bits v = v :=
  Nat.mod_eq_of_lt h

/-- A field of at most eight bits is unchanged by its storage in a `uint8_t`. -/
theorem uint_t_8_bit_sub (lo width v : Nat) (hw : width ≤ 8) :
    uint_t 8 (bit_sub lo width v) = bit_sub lo width v :=
  uint_t_of_lt (lt_of_lt_of_le (bit_sub_lt lo width v) (Nat.pow_le_pow_right (by decide) hw))

theorem uint_of_int_natCast (bits v : Nat) : uint_of_int bits (v : Int) = uint_t bits v := by
  unfold uint_of_int uint_t
  have : ((v : Int) % 2 ^ bits) = ((v % 2 ^ bits : Nat) : Int) := by
    push_cast
    rfl
  rw [this, Int.toNat_natCast]

theorem uint_of_int_lt (bits : Nat) (v : Int) : uint_of_int bits v < 2 ^ bits := by
  unfold uint_of_int
  have hpos : (0 : Int) < 2 ^ bits := by positivity
  have h1 : 0 ≤ v % 2 ^ bits := Int.emod_nonneg _ (ne_of_gt hpos)
  have h2 : v % 2 ^ bits < 2 ^ bits := Int.emod_lt_of_pos _ hpos
  have : ((v % 2 ^ bits).toNat : Int) < ((2 ^ bits : Nat) : Int) := by
    rw [Int.toNat_of_nonneg h1]
    push_cast
    exact h2
  exact_mod_cast this

theorem uint_of_int_cast (bits : Nat) (v : Int) :
    ((uint_of_int bits v : Nat) : Int) = v % 2 ^ bits := by
  unfold uint_of_int
  have hpos : (0 : Int) < 2 ^ bits := by positivity
  exact Int.toNat_of_nonneg (Int.emod_nonneg _ (ne_of_gt hpos))

/-- Addition of two wrapped values, wrapped again, is the wrapped sum. -/
theorem uint_t_add_uint_of_int (bits : Nat) (a b : Int) :
    uint_t bits (uint_of_int bits a + uint_of_int bits b) = uint_of_int bits (a + b) := by
  have h : ((uint_t bits (uint_of_int bits a + uint_of_int bits b) : Nat) : Int) =
      ((uint_of_int bits (a + b) : Nat) : Int) := by
    rw [uint_of_int_cast]
    unfold uint_t
    push_cast
    rw [uint_of_int_cast, uint_of_int_cast]
    exact (Int.add_emod a b (2 ^ bits)).symm
  exact_mod_cast h

theorem uint_t_idem (bits v : Nat) : uint_t bits (uint_t bits v) = uint_t bits v :=
  Nat.mod_mod _ _

theorem uint_t_uint_of_int (bits : Nat) (v : Int) :
    uint_t bits (uint_of_int bits v) = uint_of_int bits v :=
  uint_t_of_lt (uint_of_int_lt bits v)

theorem uint_t_lt (bits v : Nat) : uint_t bits v < 2 ^ bits :=
  Nat.mod_lt _ (Nat.two_pow_pos bits)

/-! ## Running emitted lines -/

theorem uint_of_int_32_one : uint_of_int 32 1 = 1 := by decide

theorem uint_of_int_32_max : uint_of_int 32 4294967295 = 4294967295 := by decide

theorem uint_of_int_32_zero : uint_of_int 32 0 = 0 := by decide

theorem uint_of_int_32_four : uint_of_int 32 4 = 4 := by decide

theorem uint_t_32_max : uint_t 32 4294967295 = 4294967295 := by decide

theorem uint_t_and_of_lt {bits a b : Nat} (h : b < 2 ^ bits) : uint_t bits (a &&& b) = a &&& b :=
  uint_t_of_lt (lt_of_le_of_lt Nat.and_le_right h)

theorem ite_one_zero_ne_zero (c : Prop) [Decidable c] :
    ((if c then 1 else 0 : Nat) ≠ 0) ↔ c := by
  split <;> simp [*]

theorem ite_zero_one_eq (c : Prop) [Decidable c] :
    (if c then (0 : Nat) else 1) = if ¬ c then 1 else 0 := by
  split <;> simp [*]

/-- Reading a pattern as signed and wrapping it again gives the pattern back. -/
theorem uint_of_int_int_t (bits : Nat) (v : Int) :
    uint_of_int bits (int_t bits v) = uint_of_int bits v := by
  have h : ((uint_of_int bits (int_t bits v) : Nat) : Int) = ((uint_of_int bits v : Nat) : Int) := by
    rw [uint_of_int_cast, uint_of_int_cast]
    unfold int_t
    simp only
    split
    · exact Int.emod_emod_of_dvd v (dvd_refl _)
    · rw [Int.sub_emod, Int.emod_self, sub_zero, Int.emod_emod_of_dvd _ (dvd_refl _),
        Int.emod_emod_of_dvd _ (dvd_refl _)]
  exact_mod_cast h

theorem uint_t_pc_add_four (pc : Nat) :
    uint_t 32 (uint_of_int 32 (pc : Int) + 4) = uint_t 32 (pc + 4) := by
  have := uint_t_add_uint_of_int 32 (pc : Int) 4
  rw [uint_of_int_32_four] at this
  rw [this, ← uint_of_int_natCast]
  push_cast
  rfl

theorem uint_t_reg_add_imm (x : Nat) (imm : Int) :
    uint_t 32 (uint_t 32 x + uint_of_int 32 imm) = uint_of_int 32 ((x : Int) + imm) := by
  have := uint_t_add_uint_of_int 32 (x : Int) imm
  rwa [uint_of_int_natCast] at this

theorem uint_t_pc_add_imm (pc : Nat) (imm : Int) :
    uint_t 32 (uint_of_int 32 (pc : Int) + uint_of_int 32 imm) =
      uint_of_int 32 ((pc : Int) + imm) :=
  uint_t_add_uint_of_int 32 (pc : Int) imm

theorem uint_of_int_uint_of_int (bits : Nat) (v : Int) :
    uint_of_int bits ((uint_of_int bits v : Nat) : Int) = uint_of_int bits v := by
  rw [uint_of_int_natCast, uint_t_uint_of_int]

theorem uint_of_int_uint_t (bits v : Nat) :
    uint_of_int bits ((uint_t bits v : Nat) : Int) = uint_t bits v := by
  rw [uint_of_int_natCast, uint_t_idem]

/-- The registers after running what `__jalr` emits. -/
theorem jalr_run (dis : Bool) (pc instr : Nat) (tu : tu_builder) (σ : arch_state) :
    (run σ (emitted tu (__jalr dis pc instr tu))).reg =
      Function.update
        (Function.update
          (if bit_sub 7 5 instr = 0 then σ.reg
            else Function.update σ.reg (reg_e.X (bit_sub 7 5 instr)) (uint_t 32 (pc + 4)))
          reg_e.NEXT_PC
          (uint_of_int 32 ((σ.reg (reg_e.X (bit_sub 15 5 instr)) : Int) +
            signextend 16 12 (bit_sub 20 12 instr)) &&& 0xFFFFFFFE))
        reg_e.LAST_BRANCH 0xFFFFFFFF := by
  simp only [__jalr, emitted, tu_simps, uint_t_8_bit_sub _ _ _ (by decide : 5 ≤ 8)]
  generalize bit_sub 7 5 instr = rd
  generalize bit_sub 15 5 instr = rs1
  generalize signextend 16 12 (bit_sub 20 12 instr) = imm
  cases dis <;> by_cases hrd : rd = 0 <;>
    simp [hrd, run, exec_lines, exec_line, exec_state.running, value.eval, value.size,
      reg_bit_widths, apply_ite exec_state.σ, uint_t_idem, uint_t_uint_of_int,
      uint_of_int_int_t, uint_of_int_uint_t,
      uint_of_int_32_one, uint_of_int_32_max, uint_of_int_32_four, uint_t_32_max,
      uint_t_reg_add_imm, uint_t_pc_add_four, uint_t_and_of_lt]

theorem uint_of_int_pc_add (pc k : Nat) :
    uint_of_int 32 ((pc : Int) + (k : Int)) = uint_t 32 (pc + k) := by
  rw [← uint_of_int_natCast]
  push_cast
  rfl

theorem uint_of_int_pc_add_four (pc : Nat) :
    uint_of_int 32 ((pc : Int) + 4) = uint_t 32 (pc + 4) :=
  uint_of_int_pc_add pc 4

theorem uint_of_int_pc_add_two (pc : Nat) :
    uint_of_int 32 ((pc : Int) + 2) = uint_t 32 (pc + 2) :=
  uint_of_int_pc_add pc 2

theorem uint_t_32_one : uint_t 32 1 = 1 := by decide

theorem uint_t_32_zero : uint_t 32 0 = 0 := by decide

/-! ## The conditional branches -/

/-- The registers after running what `__beq` emits. -/
theorem beq_run (dis : Bool) (pc instr : Nat) (tu : tu_builder) (σ : arch_state) :
    (run σ (emitted tu (__beq dis pc instr tu))).reg =
      Function.update
        (Function.update σ.reg reg_e.NEXT_PC
          (if uint_t 32 (σ.reg (reg_e.X (bit_sub 15 5 instr))) = uint_t 32 (σ.reg (reg_e.X (bit_sub 20 5 instr)))
            then uint_of_int 32 ((pc : Int) + branch_imm instr) else uint_t 32 (pc + 4)))
        reg_e.LAST_BRANCH
        (if (if uint_t 32 (σ.reg (reg_e.X (bit_sub 15 5 instr))) = uint_t 32 (σ.reg (reg_e.X (bit_sub 20 5 instr)))
            then uint_of_int 32 ((pc : Int) + branch_imm instr) else uint_t 32 (pc + 4)) =
            uint_t 32 (pc + 4) then 1 else 0) := by
  simp only [__beq, emitted, tu_simps, uint_t_8_bit_sub _ _ _ (by decide : 5 ≤ 8), branch_imm]
  generalize bit_sub 15 5 instr = rs1
  generalize bit_sub 20 5 instr = rs2
  generalize signextend 16 13 _ = imm
  by_cases hc : uint_t 32 (σ.reg (reg_e.X rs1)) = uint_t 32 (σ.reg (reg_e.X rs2)) <;>
  cases dis <;>
    simp [hc, run, exec_lines, exec_line, exec_state.running, value.eval, value.size,
      reg_bit_widths, apply_ite exec_state.σ, uint_t_idem, uint_t_uint_of_int,
      uint_of_int_32_one, uint_of_int_32_max, uint_of_int_32_four, uint_t_32_max,
      uint_of_int_32_zero, uint_t_pc_add_imm, uint_t_pc_add_four, uint_t_and_of_lt,
      ICmpInst.holds, uint_of_int_int_t, uint_of_int_pc_add_four, apply_ite (uint_t 32),
      uint_of_int_uint_of_int, uint_of_int_uint_t, uint_t_32_one, uint_t_32_zero]

/-- The registers after running what `__bne` emits. -/
theorem bne_run (dis : Bool) (pc instr : Nat) (tu : tu_builder) (σ : arch_state) :
    (run σ (emitted tu (__bne dis pc instr tu))).reg =
      Function.update
        (Function.update σ.reg reg_e.NEXT_PC
          (if uint_t 32 (σ.reg (reg_e.X (bit_sub 15 5 instr))) ≠ uint_t 32 (σ.reg (reg_e.X (bit_sub 20 5 instr)))
            then uint_of_int 32 ((pc : Int) + branch_imm instr) else uint_t 32 (pc + 4)))
        reg_e.LAST_BRANCH
        (if (if uint_t 32 (σ.reg (reg_e.X (bit_sub 15 5 instr))) ≠ uint_t 32 (σ.reg (reg_e.X (bit_sub 20 5 instr)))
            then uint_of_int 32 ((pc : Int) + branch_imm instr) else uint_t 32 (pc + 4)) =
            uint_t 32 (pc + 4) then 1 else 0) := by
  simp only [__bne, emitted, tu_simps, uint_t_8_bit_sub _ _ _ (by decide : 5 ≤ 8), branch_imm]
  generalize bit_sub 15 5 instr = rs1
  generalize bit_sub 20 5 instr = rs2
  generalize signextend 16 13 _ = imm
  by_cases hc : uint_t 32 (σ.reg (reg_e.X rs1)) ≠ uint_t 32 (σ.reg (reg_e.X rs2)) <;>
  cases dis <;>
    simp [hc, run, exec_lines, exec_line, exec_state.running, value.eval, value.size,
      reg_bit_widths, apply_ite exec_state.σ, uint_t_idem, uint_t_uint_of_int,
      uint_of_int_32_one, uint_of_int_32_max, uint_of_int_32_four, uint_t_32_max,
      uint_of_int_32_zero, uint_t_pc_add_imm, uint_t_pc_add_four, uint_t_and_of_lt,
      ICmpInst.holds, uint_of_int_int_t, uint_of_int_pc_add_four, apply_ite (uint_t 32),
      uint_of_int_uint_of_int, uint_of_int_uint_t, uint_t_32_one, uint_t_32_zero]

/-- The registers after running what `__blt` emits. -/
theorem blt_run (dis : Bool) (pc instr : Nat) (tu : tu_builder) (σ : arch_state) :
    (run σ (emitted tu (__blt dis pc instr tu))).reg =
      Function.update
        (Function.update σ.reg reg_e.NEXT_PC
          (if int_t 32 (uint_t 32 (σ.reg (reg_e.X (bit_sub 15 5 instr))) : Nat) < int_t 32 (uint_t 32 (σ.reg (reg_e.X (bit_sub 20 5 instr))) : Nat)
            then uint_of_int 32 ((pc : Int) + branch_imm instr) else uint_t 32 (pc + 4)))
        reg_e.LAST_BRANCH
        (if (if int_t 32 (uint_t 32 (σ.reg (reg_e.X (bit_sub 15 5 instr))) : Nat) < int_t 32 (uint_t 32 (σ.reg (reg_e.X (bit_sub 20 5 instr))) : Nat)
            then uint_of_int 32 ((pc : Int) + branch_imm instr) else uint_t 32 (pc + 4)) =
            uint_t 32 (pc + 4) then 1 else 0) := by
  simp only [__blt, emitted, tu_simps, uint_t_8_bit_sub _ _ _ (by decide : 5 ≤ 8), branch_imm]
  generalize bit_sub 15 5 instr = rs1
  generalize bit_sub 20 5 instr = rs2
  generalize signextend 16 13 _ = imm
  by_cases hc : int_t 32 (uint_t 32 (σ.reg (reg_e.X rs1)) : Nat) < int_t 32 (uint_t 32 (σ.reg (reg_e.X rs2)) : Nat) <;>
  cases dis <;>
    simp [hc, run, exec_lines, exec_line, exec_state.running, value.eval, value.size,
      reg_bit_widths, apply_ite exec_state.σ, uint_t_idem, uint_t_uint_of_int,
      uint_of_int_32_one, uint_of_int_32_max, uint_of_int_32_four, uint_t_32_max,
      uint_of_int_32_zero, uint_t_pc_add_imm, uint_t_pc_add_four, uint_t_and_of_lt,
      ICmpInst.holds, uint_of_int_int_t, uint_of_int_pc_add_four, apply_ite (uint_t 32),
      uint_of_int_uint_of_int, uint_of_int_uint_t, uint_t_32_one, uint_t_32_zero]

/-- The registers after running what `__bge` emits. -/
theorem bge_run (dis : Bool) (pc instr : Nat) (tu : tu_builder) (σ : arch_state) :
    (run σ (emitted tu (__bge dis pc instr tu))).reg =
      Function.update
        (Function.update σ.reg reg_e.NEXT_PC
          (if int_t 32 (uint_t 32 (σ.reg (reg_e.X (bit_sub 15 5 instr))) : Nat) ≥ int_t 32 (uint_t 32 (σ.reg (reg_e.X (bit_sub 20 5 instr))) : Nat)
            then uint_of_int 32 ((pc : Int) + branch_imm instr) else uint_t 32 (pc + 4)))
        reg_e.LAST_BRANCH
        (if (if int_t 32 (uint_t 32 (σ.reg (reg_e.X (bit_sub 15 5 instr))) : Nat) ≥ int_t 32 (uint_t 32 (σ.reg (reg_e.X (bit_sub 20 5 instr))) : Nat)
            then uint_of_int 32 ((pc : Int) + branch_imm instr) else uint_t 32 (pc + 4)) =
            uint_t 32 (pc + 4) then 1 else 0) := by
  simp only [__bge, emitted, tu_simps, uint_t_8_bit_sub _ _ _ (by decide : 5 ≤ 8), branch_imm]
  generalize bit_sub 15 5 instr = rs1
  generalize bit_sub 20 5 instr = rs2
  generalize signextend 16 13 _ = imm
  by_cases hc : int_t 32 (uint_t 32 (σ.reg (reg_e.X rs1)) : Nat) ≥ int_t 32 (uint_t 32 (σ.reg (reg_e.X rs2)) : Nat) <;>
  cases dis <;>
    simp [hc, run, exec_lines, exec_line, exec_state.running, value.eval, value.size,
      reg_bit_widths, apply_ite exec_state.σ, uint_t_idem, uint_t_uint_of_int,
      uint_of_int_32_one, uint_of_int_32_max, uint_of_int_32_four, uint_t_32_max,
      uint_of_int_32_zero, uint_t_pc_add_imm, uint_t_pc_add_four, uint_t_and_of_lt,
      ICmpInst.holds, uint_of_int_int_t, uint_of_int_pc_add_four, apply_ite (uint_t 32),
      uint_of_int_uint_of_int, uint_of_int_uint_t, uint_t_32_one, uint_t_32_zero]

/-- The registers after running what `__bltu` emits. -/
theorem bltu_run (dis : Bool) (pc instr : Nat) (tu : tu_builder) (σ : arch_state) :
    (run σ (emitted tu (__bltu dis pc instr tu))).reg =
      Function.update
        (Function.update σ.reg reg_e.NEXT_PC
          (if uint_t 32 (σ.reg (reg_e.X (bit_sub 15 5 instr))) < uint_t 32 (σ.reg (reg_e.X (bit_sub 20 5 instr)))
            then uint_of_int 32 ((pc : Int) + branch_imm instr) else uint_t 32 (pc + 4)))
        reg_e.LAST_BRANCH
        (if (if uint_t 32 (σ.reg (reg_e.X (bit_sub 15 5 instr))) < uint_t 32 (σ.reg (reg_e.X (bit_sub 20 5 instr)))
            then uint_of_int 32 ((pc : Int) + branch_imm instr) else uint_t 32 (pc + 4)) =
            uint_t 32 (pc + 4) then 1 else 0) := by
  simp only [__bltu, emitted, tu_simps, uint_t_8_bit_sub _ _ _ (by decide : 5 ≤ 8), branch_imm]
  generalize bit_sub 15 5 instr = rs1
  generalize bit_sub 20 5 instr = rs2
  generalize signextend 16 13 _ = imm
  by_cases hc : uint_t 32 (σ.reg (reg_e.X rs1)) < uint_t 32 (σ.reg (reg_e.X rs2)) <;>
  cases dis <;>
    simp [hc, run, exec_lines, exec_line, exec_state.running, value.eval, value.size,
      reg_bit_widths, apply_ite exec_state.σ, uint_t_idem, uint_t_uint_of_int,
      uint_of_int_32_one, uint_of_int_32_max, uint_of_int_32_four, uint_t_32_max,
      uint_of_int_32_zero, uint_t_pc_add_imm, uint_t_pc_add_four, uint_t_and_of_lt,
      ICmpInst.holds, uint_of_int_int_t, uint_of_int_pc_add_four, apply_ite (uint_t 32),
      uint_of_int_uint_of_int, uint_of_int_uint_t, uint_t_32_one, uint_t_32_zero]

/-- The registers after running what `__bgeu` emits. -/
theorem bgeu_run (dis : Bool) (pc instr : Nat) (tu : tu_builder) (σ : arch_state) :
    (run σ (emitted tu (__bgeu dis pc instr tu))).reg =
      Function.update
        (Function.update σ.reg reg_e.NEXT_PC
          (if uint_t 32 (σ.reg (reg_e.X (bit_sub 15 5 instr))) ≥ uint_t 32 (σ.reg (reg_e.X (bit_sub 20 5 instr)))
            then uint_of_int 32 ((pc : Int) + branch_imm instr) else uint_t 32 (pc + 4)))
        reg_e.LAST_BRANCH
        (if (if uint_t 32 (σ.reg (reg_e.X (bit_sub 15 5 instr))) ≥ uint_t 32 (σ.reg (reg_e.X (bit_sub 20 5 instr)))
            then uint_of_int 32 ((pc : Int) + branch_imm instr) else uint_t 32 (pc + 4)) =
            uint_t 32 (pc + 4) then 1 else 0) := by
  simp only [__bgeu, emitted, tu_simps, uint_t_8_bit_sub _ _ _ (by decide : 5 ≤ 8), branch_imm]
  generalize bit_sub 15 5 instr = rs1
  generalize bit_sub 20 5 instr = rs2
  generalize signextend 16 13 _ = imm
  by_cases hc : uint_t 32 (σ.reg (reg_e.X rs1)) ≥ uint_t 32 (σ.reg (reg_e.X rs2)) <;>
  cases dis <;>
    simp [hc, run, exec_lines, exec_line, exec_state.running, value.eval, value.size,
      reg_bit_widths, apply_ite exec_state.σ, uint_t_idem, uint_t_uint_of_int,
      uint_of_int_32_one, uint_of_int_32_max, uint_of_int_32_four, uint_t_32_max,
      uint_of_int_32_zero, uint_t_pc_add_imm, uint_t_pc_add_four, uint_t_and_of_lt,
      ICmpInst.holds, uint_of_int_int_t, uint_of_int_pc_add_four, apply_ite (uint_t 32),
      uint_of_int_uint_of_int, uint_of_int_uint_t, uint_t_32_one, uint_t_32_zero]
theorem signextend_32_21 (v : Nat) : signextend 32 21 v = sext 21 v := by
  unfold signextend sext int_t
  simp only [Nat.reducePow, Nat.reduceSub]
  norm_num
  have h := Nat.mod_lt v (by decide : 0 < 2097152)
  split_ifs <;> omega

theorem signextend_16_12 (v : Nat) : signextend 16 12 v = sext 12 v := by
  unfold signextend sext int_t
  simp only [Nat.reducePow, Nat.reduceSub]
  norm_num
  have h := Nat.mod_lt v (by decide : 0 < 4096)
  split_ifs <;> omega

theorem or_shift_eq_add (a b k : Nat) (hb : b < 2 ^ k) : (a <<< k) ||| b = a * 2 ^ k + b := by
  rw [Nat.shiftLeft_eq, Nat.mul_comm a, ← Nat.mul_add_lt_is_or hb]

/-- The J-immediate assembled by `__jal` is the RISC-V J-immediate. -/
theorem jal_imm_eq (w : Nat) :
    signextend 32 21
        (((((bit_sub 12 8 w) <<< 12) ||| ((bit_sub 20 1 w) <<< 11)) |||
          ((bit_sub 21 10 w) <<< 1)) ||| ((bit_sub 31 1 w) <<< 20)) = j_imm w := by
  rw [signextend_32_21]
  unfold j_imm
  congr 1
  have ha := bit_sub_lt 12 8 w
  have hb := bit_sub_lt 20 1 w
  have hc := bit_sub_lt 21 10 w
  have hd := bit_sub_lt 31 1 w
  have e1 : ((bit_sub 20 1 w) <<< 11) ||| ((bit_sub 21 10 w) <<< 1) =
      bit_sub 20 1 w * 2 ^ 11 + bit_sub 21 10 w * 2 ^ 1 := by
    rw [or_shift_eq_add _ _ _ (by rw [Nat.shiftLeft_eq]; omega), Nat.shiftLeft_eq]
  have e2 : ((bit_sub 12 8 w) <<< 12) ||| (bit_sub 20 1 w * 2 ^ 11 + bit_sub 21 10 w * 2 ^ 1) =
      bit_sub 12 8 w * 2 ^ 12 + (bit_sub 20 1 w * 2 ^ 11 + bit_sub 21 10 w * 2 ^ 1) :=
    or_shift_eq_add _ _ _ (by omega)
  have e3 : ((bit_sub 31 1 w) <<< 20) |||
      (bit_sub 12 8 w * 2 ^ 12 + (bit_sub 20 1 w * 2 ^ 11 + bit_sub 21 10 w * 2 ^ 1)) =
      bit_sub 31 1 w * 2 ^ 20 +
        (bit_sub 12 8 w * 2 ^ 12 + (bit_sub 20 1 w * 2 ^ 11 + bit_sub 21 10 w * 2 ^ 1)) :=
    or_shift_eq_add _ _ _ (by omega)
  rw [Nat.lor_comm _ ((bit_sub 31 1 w) <<< 20), Nat.lor_assoc, e1, e2, e3]
  simp only [bit_sub_eq]
  omega
/-- The registers after running what `__jal` emits. -/
theorem jal_run (dis : Bool) (pc instr : Nat) (tu : tu_builder) (σ : arch_state) :
    (run σ (emitted tu (__jal dis pc instr tu))).reg =
      Function.update
        (Function.update
          (if bit_sub 7 5 instr = 0 then σ.reg
            else Function.update σ.reg (reg_e.X (bit_sub 7 5 instr)) (uint_t 32 (pc + 4)))
          reg_e.NEXT_PC (uint_of_int 32 ((pc : Int) + j_imm instr)))
        reg_e.LAST_BRANCH
        (if uint_of_int 32 ((pc : Int) + j_imm instr) = uint_t 32 (pc + 4) then 1 else 0) := by
  simp only [__jal, emitted, tu_simps, uint_t_8_bit_sub _ _ _ (by decide : 5 ≤ 8), jal_imm_eq]
  generalize bit_sub 7 5 instr = rd
  generalize j_imm instr = imm
  by_cases hc : uint_of_int 32 ((pc : Int) + imm) = uint_t 32 (pc + 4) <;>
  cases dis <;> by_cases hrd : rd = 0 <;>
    simp [hc, hrd, run, exec_lines, exec_line, exec_state.running, value.eval, value.size,
      reg_bit_widths, apply_ite exec_state.σ, uint_t_idem, uint_t_uint_of_int,
      uint_of_int_32_one, uint_of_int_32_max, uint_of_int_32_four, uint_t_32_max,
      uint_of_int_32_zero, uint_t_pc_add_imm, uint_t_pc_add_four, uint_t_and_of_lt,
      ICmpInst.holds, uint_of_int_int_t, uint_of_int_pc_add_four, apply_ite (uint_t 32),
      uint_of_int_uint_of_int, uint_of_int_uint_t, uint_t_32_one, uint_t_32_zero]

/-- The lines `__jal` emits. -/
theorem jal_emitted (dis : Bool) (pc instr : Nat) (tu : tu_builder) :
    emitted tu (__jal dis pc instr tu) =
      line.label "JAL" pc :: line.sync sync_type.PRE_SYNC 21 ::
        ((if dis = true then
            [line.print_disass pc "jal" [((bit_sub 7 5 instr : Nat) : Int), j_imm instr]]
          else []) ++
          line.open_scope ::
            ((if bit_sub 7 5 instr ≠ 0 then
                [line.store (value.add (value.constant (pc : Nat) 32) (value.constant 4 32))
                  (reg_e.X (bit_sub 7 5 instr))]
              else []) ++
              [line.assignment (local_name.named "PC_val")
                  (value.add (value.ext (value.constant (pc : Nat) 32) 32 false)
                    (value.constant (j_imm instr) 32))
                  32,
                line.store (value.ref (local_name.named "PC_val") 32) reg_e.NEXT_PC,
                line.store
                  (value.choose
                    (value.icmp ICmpInst.ICMP_NE
                      (value.ext (value.ref (local_name.named "PC_val") 32) 32 true)
                      (value.constant ((pc + 4 : Nat) : Int) 32))
                    (value.constant 0 32) (value.constant 1 32))
                  reg_e.LAST_BRANCH,
                line.close_scope, line.sync sync_type.POST_SYNC 21, line.trap_check])) := by
  simp only [__jal, emitted, tu_simps, uint_t_8_bit_sub _ _ _ (by decide : 5 ≤ 8), jal_imm_eq,
    reg_bit_widths]

/-- The lines a handler with the envelope shape has emitted. -/
theorem envelope_emitted {i : Nat} {mnemonic : String} {pc next : Nat} {tu : tu_builder}
    {r : handler_ret} (h : envelope i mnemonic pc next tu r) :
    ∃ body : List line,
      emitted tu r = line.label mnemonic pc :: line.sync sync_type.PRE_SYNC i ::
          (body ++ [line.set_pc reg_e.NEXT_PC next, line.sync sync_type.POST_SYNC i,
            line.trap_check]) ∧
        body.filter line.is_marker = [] := by
  obtain ⟨mid, body, hr, hmid, hbody⟩ := h
  refine ⟨body, ?_, hbody⟩
  unfold emitted
  rw [hr]
  simp only [gen_trap_check, gen_sync, gen_set_pc, tu_builder.raw, hmid, List.append_assoc,
    List.drop_left, List.cons_append, List.nil_append]

/-- The fetch fails only with an access trap. -/
theorem fetch_error (core : arch_if) (pc : Nat) (e : exception)
    (h : (fetch core pc).insn = Except.error e) : e = exception.trap_access (1 <<< 16) pc := by
  unfold fetch at h
  simp only at h
  split at h
  · split at h
    · simp only [Except.error.injEq] at h
      exact h.symm
    · split at h <;> simp at h
  · split at h
    · simp only [Except.error.injEq] at h
      exact h.symm
    · simp at h

theorem descr_op_ne_illegal :
    ∀ d ∈ instr_descr, d.op ≠ compile_func.illegal_intruction := by
  decide!

theorem find_last (p : InstructionDesriptor → Bool) (pre post : List InstructionDesriptor)
    (d : InstructionDesriptor) (hd : p d = true) (hpost : ∀ d' ∈ post, p d' = false) :
    (pre ++ d :: post).reverse.find? p = some d := by
  have hnone : post.reverse.find? p = none := by
    rw [List.find?_eq_none]
    intro x hx
    simp [hpost x (List.mem_reverse.mp hx)]
  simp [List.find?_append, hnone, List.find?_cons, hd]

theorem select_handler_eq (w : Nat) :
    select_handler w =
      match instr_descr.reverse.find? (slot_match w) with
      | some d => d.op
      | none => compile_func.illegal_intruction := by
  unfold select_handler
  simp only [qlut_at]
  cases instr_descr.reverse.find? (slot_match w) <;> rfl

/-- What `gen_single_inst_behavior` returns when the fetch succeeded and the guard does
not stop the simulation. -/
theorem gen_single_inst_behavior_ok (core : arch_if) (dis : Bool) (pc inst_cnt : Nat)
    (tu : tu_builder) (w : Nat) (hfetch : (fetch core pc).insn = Except.ok w)
    (hguard : ¬(w = 0x0000006f ∨ w &&& 0xffff = 0xa001)) :
    gen_single_inst_behavior core dis pc inst_cnt tu =
      gen_ret.mk (Except.ok (invoke (select_handler w) dis pc w tu).cont)
        (invoke (select_handler w) dis pc w tu).pc (uint_t 32 (inst_cnt + 1))
        (invoke (select_handler w) dis pc w tu).tu := by
  unfold gen_single_inst_behavior
  rw [hfetch]
  simp only [if_neg hguard]

/-- What `gen_single_inst_behavior` returns when the fetch failed. -/
theorem gen_single_inst_behavior_error (core : arch_if) (dis : Bool) (pc inst_cnt : Nat)
    (tu : tu_builder) (e : exception) (hfetch : (fetch core pc).insn = Except.error e) :
    gen_single_inst_behavior core dis pc inst_cnt tu = gen_ret.mk (Except.error e) pc inst_cnt tu := by
  unfold gen_single_inst_behavior
  rw [hfetch]

/-- A null table entry selects `illegal_intruction`. -/
theorem select_handler_of_none (w : Nat) (h : qlut (w &&& 0x3) (extract_fields w) = none) :
    select_handler w = compile_func.illegal_intruction := by
  unfold select_handler
  simp only [h]

/-- A word that matches a descriptor on its full mask, where every other descriptor of the
quadrant differs from it on a bit that both masks and the lookup mask select, is
dispatched to the handler of that descriptor. -/
theorem select_handler_of_full_match (w : Nat) (d : InstructionDesriptor)
    (hd : d ∈ instr_descr) (hm : full_match w d = true)
    (hdis : ∀ d' ∈ instr_descr, d' ≠ d → d'.value &&& 0x3 = d.value &&& 0x3 →
      (d.value ^^^ d'.value) &&&
        (d.mask &&& (d'.mask &&& lookup_mask (d.value &&& 0x3))) ≠ 0) :
    select_handler w = d.op := by
  rw [select_handler_eq]
  have hs := slot_match_of_full_match hd hm
  cases hf : instr_descr.reverse.find? (slot_match w) with
  | none =>
    have := (List.find?_eq_none.mp hf) d (List.mem_reverse.mpr hd)
    exact absurd hs this
  | some d' =>
    have hd' : d' ∈ instr_descr := List.mem_reverse.mp (List.mem_of_find?_eq_some hf)
    have hs' : slot_match w d' = true := List.find?_some hf
    by_cases hdd : d' = d
    · subst hdd; rfl
    · exfalso
      unfold slot_match at hs hs'
      simp only [Bool.and_eq_true, beq_iff_eq] at hs hs'
      have hq : d'.value &&& 0x3 = d.value &&& 0x3 := hs'.1.trans hs.1.symm
      have h2 := hs'.2
      have h1 := hs.2
      rw [← hs.1] at h1 h2
      exact hdis d' hd' hdd hq (xor_and_of_two h1 h2)
/-! ## The trap word -/

/-- The trap word of `gen_raise_trap` for a 16-bit trap id and an 8-bit cause. -/
theorem raise_trap_or (trap_id cause : Nat) (hid : trap_id < 2 ^ 16) (hc : cause < 2 ^ 8) :
    (((0x80 <<< 24) ||| (cause <<< 16)) ||| trap_id : Nat) =
      0x80 * 2 ^ 24 + cause * 2 ^ 16 + trap_id := by
  have e1 : ((0x80 <<< 24) ||| (cause <<< 16) : Nat) = 0x80 * 2 ^ 24 + cause * 2 ^ 16 := by
    rw [or_shift_eq_add _ _ _ (by rw [Nat.shiftLeft_eq]; omega), Nat.shiftLeft_eq]
  rw [e1]
  have e2 := or_shift_eq_add (0x80 * 2 ^ 8 + cause) trap_id 16 hid
  rw [Nat.shiftLeft_eq] at e2
  have e3 : (0x80 * 2 ^ 8 + cause) * 2 ^ 16 = 0x80 * 2 ^ 24 + cause * 2 ^ 16 := by ring
  rw [e3] at e2
  exact e2

/-- The trap word of `gen_raise_trap`, read as a 32-bit word. -/
theorem trap_word_eq (trap_id cause : Nat) (hid : trap_id < 2 ^ 16)
    (hc : cause < 2 ^ 8) :
    uint_of_int 32
        (int_t 32
          ((((0x80 <<< 24) ||| (uint_t 16 cause <<< 16)) ||| uint_t 16 trap_id : Nat) : Int)) =
      0x80 * 2 ^ 24 + cause * 2 ^ 16 + trap_id := by
  rw [uint_of_int_int_t, uint_of_int_natCast, uint_t_of_lt hid,
    uint_t_of_lt (lt_trans hc (by norm_num)), raise_trap_or trap_id cause hid hc]
  apply uint_t_of_lt
  omega

/-- The lines `gen_raise_trap` appends. -/
theorem raise_trap_lines (tu : tu_builder) (trap_id cause : Nat) :
    (gen_raise_trap tu trap_id cause).lines =
      tu.lines ++
        [line.trap_state
            (int_t 32
              ((((0x80 <<< 24) ||| (uint_t 16 cause <<< 16)) ||| uint_t 16 trap_id : Nat) :
                Int)),
          line.store (value.constant 4294967295 32) reg_e.LAST_BRANCH] := by
  simp only [gen_raise_trap, tu_simps]

/-- The effect of the two lines of `gen_raise_trap`. -/
theorem raise_trap_run (v : Int) (σ : arch_state) :
    (run σ [line.trap_state v,
        line.store (value.constant 4294967295 32) reg_e.LAST_BRANCH]).trap_state =
        uint_of_int 32 v ∧
      (run σ [line.trap_state v,
        line.store (value.constant 4294967295 32) reg_e.LAST_BRANCH]).reg
          reg_e.LAST_BRANCH = 0xFFFFFFFF := by
  constructor
  · simp [run, exec_lines, exec_line, exec_state.running]
  · simp [run, exec_lines, exec_line, exec_state.running, value.eval, reg_bit_widths,
      uint_of_int_32_max, uint_t_32_max]

/-! ## The loads -/

/-- The shape of what `__lb` emits. -/
theorem lb_shape : load_shape __lb 8 false := by
  intro dis pc instr tu
  simp only [__lb, emitted, tu_simps, uint_t_8_bit_sub _ _ _ (by decide : 5 ≤ 8),
    signextend_16_12]
  refine ⟨by cases dis <;> simp, ?_⟩
  intro v n
  by_cases hrd : bit_sub 7 5 instr = 0
  · cases dis <;> simp [hrd] <;> intro h1 h2 <;> exact absurd h1 h2
  · cases dis <;> simp [hrd] <;> constructor <;>
      first
        | (rintro ⟨h1, h2⟩; exact ⟨h2, by rw [h2]; exact hrd, h1⟩)
        | (rintro ⟨h1, _, h2⟩; exact ⟨h2, h1⟩)

/-- The shape of what `__lh` emits. -/
theorem lh_shape : load_shape __lh 16 false := by
  intro dis pc instr tu
  simp only [__lh, emitted, tu_simps, uint_t_8_bit_sub _ _ _ (by decide : 5 ≤ 8),
    signextend_16_12]
  refine ⟨by cases dis <;> simp, ?_⟩
  intro v n
  by_cases hrd : bit_sub 7 5 instr = 0
  · cases dis <;> simp [hrd] <;> intro h1 h2 <;> exact absurd h1 h2
  · cases dis <;> simp [hrd] <;> constructor <;>
      first
        | (rintro ⟨h1, h2⟩; exact ⟨h2, by rw [h2]; exact hrd, h1⟩)
        | (rintro ⟨h1, _, h2⟩; exact ⟨h2, h1⟩)

/-- The shape of what `__lw` emits. -/
theorem lw_shape : load_shape __lw 32 false := by
  intro dis pc instr tu
  simp only [__lw, emitted, tu_simps, uint_t_8_bit_sub _ _ _ (by decide : 5 ≤ 8),
    signextend_16_12]
  refine ⟨by cases dis <;> simp, ?_⟩
  intro v n
  by_cases hrd : bit_sub 7 5 instr = 0
  · cases dis <;> simp [hrd] <;> intro h1 h2 <;> exact absurd h1 h2
  · cases dis <;> simp [hrd] <;> constructor <;>
      first
        | (rintro ⟨h1, h2⟩; exact ⟨h2, by rw [h2]; exact hrd, h1⟩)
        | (rintro ⟨h1, _, h2⟩; exact ⟨h2, h1⟩)

/-- The shape of what `__lbu` emits. -/
theorem lbu_shape : load_shape __lbu 8 true := by
  intro dis pc instr tu
  simp only [__lbu, emitted, tu_simps, uint_t_8_bit_sub _ _ _ (by decide : 5 ≤ 8),
    signextend_16_12]
  refine ⟨by cases dis <;> simp, ?_⟩
  intro v n
  by_cases hrd : bit_sub 7 5 instr = 0
  · cases dis <;> simp [hrd] <;> intro h1 h2 <;> exact absurd h1 h2
  · cases dis <;> simp [hrd] <;> constructor <;>
      first
        | (rintro ⟨h1, h2⟩; exact ⟨h2, by rw [h2]; exact hrd, h1⟩)
        | (rintro ⟨h1, _, h2⟩; exact ⟨h2, h1⟩)

/-- The shape of what `__lhu` emits. -/
theorem lhu_shape : load_shape __lhu 16 true := by
  intro dis pc instr tu
  simp only [__lhu, emitted, tu_simps, uint_t_8_bit_sub _ _ _ (by decide : 5 ≤ 8),
    signextend_16_12]
  refine ⟨by cases dis <;> simp, ?_⟩
  intro v n
  by_cases hrd : bit_sub 7 5 instr = 0
  · cases dis <;> simp [hrd] <;> intro h1 h2 <;> exact absurd h1 h2
  · cases dis <;> simp [hrd] <;> constructor <;>
      first
        | (rintro ⟨h1, h2⟩; exact ⟨h2, by rw [h2]; exact hrd, h1⟩)
        | (rintro ⟨h1, _, h2⟩; exact ⟨h2, h1⟩)

/-! ## NaN-boxing of single-precision results -/

theorem uint_of_int_64_neg_one : uint_of_int 64 (-1) = 18446744073709551615 := by decide

/-- The stores of `__flw` to F registers. -/
theorem flw_boxed (dis : Bool) (pc instr : Nat) (tu : tu_builder) :
    ((emitted tu (__flw dis pc instr tu)).filter line.is_f_store).map
      line.is_nan_boxed_store = [true] := by
  simp only [__flw, emitted, tu_simps, uint_of_int_64_neg_one,
    if_neg (by decide : ¬((64 : Nat) = 32))]
  cases dis <;>
    simp [line.is_f_store, line.is_nan_boxed_store, value.is_nan_boxed, nan_box_upper,
      List.filter_cons, apply_ite (List.filter line.is_f_store)]

/-- The stores of `__c_flw` to F registers. -/
theorem c_flw_boxed (dis : Bool) (pc instr : Nat) (tu : tu_builder) :
    ((emitted tu (__c_flw dis pc instr tu)).filter line.is_f_store).map
      line.is_nan_boxed_store = [true] := by
  simp only [__c_flw, emitted, tu_simps, uint_of_int_64_neg_one,
    if_neg (by decide : ¬((64 : Nat) = 32))]
  cases dis <;>
    simp [line.is_f_store, line.is_nan_boxed_store, value.is_nan_boxed, nan_box_upper,
      List.filter_cons, apply_ite (List.filter line.is_f_store)]

/-- The stores of `__c_flwsp` to F registers. -/
theorem c_flwsp_boxed (dis : Bool) (pc instr : Nat) (tu : tu_builder) :
    ((emitted tu (__c_flwsp dis pc instr tu)).filter line.is_f_store).map
      line.is_nan_boxed_store = [true] := by
  simp only [__c_flwsp, emitted, tu_simps, uint_of_int_64_neg_one,
    if_neg (by decide : ¬((64 : Nat) = 32))]
  cases dis <;>
    simp [line.is_f_store, line.is_nan_boxed_store, value.is_nan_boxed, nan_box_upper,
      List.filter_cons, apply_ite (List.filter line.is_f_store)]

/-- The stores of `__fmadd_s` to F registers. -/
theorem fmadd_s_boxed (dis : Bool) (pc instr : Nat) (tu : tu_builder) :
    ((emitted tu (__fmadd_s dis pc instr tu)).filter line.is_f_store).map
      line.is_nan_boxed_store = [true] := by
  simp only [__fmadd_s, emitted, tu_simps, uint_of_int_64_neg_one,
    if_neg (by decide : ¬((64 : Nat) = 32))]
  cases dis <;>
    simp [line.is_f_store, line.is_nan_boxed_store, value.is_nan_boxed, nan_box_upper,
      List.filter_cons, apply_ite (List.filter line.is_f_store)]

/-- The stores of `__fmsub_s` to F registers. -/
theorem fmsub_s_boxed (dis : Bool) (pc instr : Nat) (tu : tu_builder) :
    ((emitted tu (__fmsub_s dis pc instr tu)).filter line.is_f_store).map
      line.is_nan_boxed_store = [true] := by
  simp only [__fmsub_s, emitted, tu_simps, uint_of_int_64_neg_one,
    if_neg (by decide : ¬((64 : Nat) = 32))]
  cases dis <;>
    simp [line.is_f_store, line.is_nan_boxed_store, value.is_nan_boxed, nan_box_upper,
      List.filter_cons, apply_ite (List.filter line.is_f_store)]

/-- The stores of `__fnmadd_s` to F registers. -/
theorem fnmadd_s_boxed (dis : Bool) (pc instr : Nat) (tu : tu_builder) :
    ((emitted tu (__fnmadd_s dis pc instr tu)).filter line.is_f_store).map
      line.is_nan_boxed_store = [true] := by
  simp only [__fnmadd_s, emitted, tu_simps, uint_of_int_64_neg_one,
    if_neg (by decide : ¬((64 : Nat) = 32))]
  cases dis <;>
    simp [line.is_f_store, line.is_nan_boxed_store, value.is_nan_boxed, nan_box_upper,
      List.filter_cons, apply_ite (List.filter line.is_f_store)]

/-- The stores of `__fnmsub_s` to F registers. -/
theorem fnmsub_s_boxed (dis : Bool) (pc instr : Nat) (tu : tu_builder) :
    ((emitted tu (__fnmsub_s dis pc instr tu)).filter line.is_f_store).map
      line.is_nan_boxed_store = [true] := by
  simp only [__fnmsub_s, emitted, tu_simps, uint_of_int_64_neg_one,
    if_neg (by decide : ¬((64 : Nat) = 32))]
  cases dis <;>
    simp [line.is_f_store, line.is_nan_boxed_store, value.is_nan_boxed, nan_box_upper,
      List.filter_cons, apply_ite (List.filter line.is_f_store)]

/-- The stores of `__fadd_s` to F registers. -/
theorem fadd_s_boxed (dis : Bool) (pc instr : Nat) (tu : tu_builder) :
    ((emitted tu (__fadd_s dis pc instr tu)).filter line.is_f_store).map
      line.is_nan_boxed_store = [true] := by
  simp only [__fadd_s, emitted, tu_simps, uint_of_int_64_neg_one,
    if_neg (by decide : ¬((64 : Nat) = 32))]
  cases dis <;>
    simp [line.is_f_store, line.is_nan_boxed_store, value.is_nan_boxed, nan_box_upper,
      List.filter_cons, apply_ite (List.filter line.is_f_store)]

/-- The stores of `__fsub_s` to F registers. -/
theorem fsub_s_boxed (dis : Bool) (pc instr : Nat) (tu : tu_builder) :
    ((emitted tu (__fsub_s dis pc instr tu)).filter line.is_f_store).map
      line.is_nan_boxed_store = [true] := by
  simp only [__fsub_s, emitted, tu_simps, uint_of_int_64_neg_one,
    if_neg (by decide : ¬((64 : Nat) = 32))]
  cases dis <;>
    simp [line.is_f_store, line.is_nan_boxed_store, value.is_nan_boxed, nan_box_upper,
      List.filter_cons, apply_ite (List.filter line.is_f_store)]

/-- The stores of `__fmul_s` to F registers. -/
theorem fmul_s_boxed (dis : Bool) (pc instr : Nat) (tu : tu_builder) :
    ((emitted tu (__fmul_s dis pc instr tu)).filter line.is_f_store).map
      line.is_nan_boxed_store = [true] := by
  simp only [__fmul_s, emitted, tu_simps, uint_of_int_64_neg_one,
    if_neg (by decide : ¬((64 : Nat) = 32))]
  cases dis <;>
    simp [line.is_f_store, line.is_nan_boxed_store, value.is_nan_boxed, nan_box_upper,
      List.filter_cons, apply_ite (List.filter line.is_f_store)]

/-- The stores of `__fdiv_s` to F registers. -/
theorem fdiv_s_boxed (dis : Bool) (pc instr : Nat) (tu : tu_builder) :
    ((emitted tu (__fdiv_s dis pc instr tu)).filter line.is_f_store).map
      line.is_nan_boxed_store = [true] := by
  simp only [__fdiv_s, emitted, tu_simps, uint_of_int_64_neg_one,
    if_neg (by decide : ¬((64 : Nat) = 32))]
  cases dis <;>
    simp [line.is_f_store, line.is_nan_boxed_store, value.is_nan_boxed, nan_box_upper,
      List.filter_cons, apply_ite (List.filter line.is_f_store)]

/-- The stores of `__fsqrt_s` to F registers. -/
theorem fsqrt_s_boxed (dis : Bool) (pc instr : Nat) (tu : tu_builder) :
    ((emitted tu (__fsqrt_s dis pc instr tu)).filter line.is_f_store).map
      line.is_nan_boxed_store = [true] := by
  simp only [__fsqrt_s, emitted, tu_simps, uint_of_int_64_neg_one,
    if_neg (by decide : ¬((64 : Nat) = 32))]
  cases dis <;>
    simp [line.is_f_store, line.is_nan_boxed_store, value.is_nan_boxed, nan_box_upper,
      List.filter_cons, apply_ite (List.filter line.is_f_store)]

/-- The stores of `__fsgnj_s` to F registers. -/
theorem fsgnj_s_boxed (dis : Bool) (pc instr : Nat) (tu : tu_builder) :
    ((emitted tu (__fsgnj_s dis pc instr tu)).filter line.is_f_store).map
      line.is_nan_boxed_store = [true] := by
  simp only [__fsgnj_s, emitted, tu_simps, uint_of_int_64_neg_one,
    if_neg (by decide : ¬((64 : Nat) = 32))]
  cases dis <;>
    simp [line.is_f_store, line.is_nan_boxed_store, value.is_nan_boxed, nan_box_upper,
      List.filter_cons, apply_ite (List.filter line.is_f_store)]

/-- The stores of `__fsgnjn_s` to F registers. -/
theorem fsgnjn_s_boxed (dis : Bool) (pc instr : Nat) (tu : tu_builder) :
    ((emitted tu (__fsgnjn_s dis pc instr tu)).filter line.is_f_store).map
      line.is_nan_boxed_store = [true] := by
  simp only [__fsgnjn_s, emitted, tu_simps, uint_of_int_64_neg_one,
    if_neg (by decide : ¬((64 : Nat) = 32))]
  cases dis <;>
    simp [line.is_f_store, line.is_nan_boxed_store, value.is_nan_boxed, nan_box_upper,
      List.filter_cons, apply_ite (List.filter line.is_f_store)]

/-- The stores of `__fsgnjx_s` to F registers. -/
theorem fsgnjx_s_boxed (dis : Bool) (pc instr : Nat) (tu : tu_builder) :
    ((emitted tu (__fsgnjx_s dis pc instr tu)).filter line.is_f_store).map
      line.is_nan_boxed_store = [true] := by
  simp only [__fsgnjx_s, emitted, tu_simps, uint_of_int_64_neg_one,
    if_neg (by decide : ¬((64 : Nat) = 32))]
  cases dis <;>
    simp [line.is_f_store, line.is_nan_boxed_store, value.is_nan_boxed, nan_box_upper,
      List.filter_cons, apply_ite (List.filter line.is_f_store)]

/-- The stores of `__fmin_s` to F registers. -/
theorem fmin_s_boxed (dis : Bool) (pc instr : Nat) (tu : tu_builder) :
    ((emitted tu (__fmin_s dis pc instr tu)).filter line.is_f_store).map
      line.is_nan_boxed_store = [true] := by
  simp only [__fmin_s, emitted, tu_simps, uint_of_int_64_neg_one,
    if_neg (by decide : ¬((64 : Nat) = 32))]
  cases dis <;>
    simp [line.is_f_store, line.is_nan_boxed_store, value.is_nan_boxed, nan_box_upper,
      List.filter_cons, apply_ite (List.filter line.is_f_store)]

/-- The stores of `__fmax_s` to F registers. -/
theorem fmax_s_boxed (dis : Bool) (pc instr : Nat) (tu : tu_builder) :
    ((emitted tu (__fmax_s dis pc instr tu)).filter line.is_f_store).map
      line.is_nan_boxed_store = [true] := by
  simp only [__fmax_s, emitted, tu_simps, uint_of_int_64_neg_one,
    if_neg (by decide : ¬((64 : Nat) = 32))]
  cases dis <;>
    simp [line.is_f_store, line.is_nan_boxed_store, value.is_nan_boxed, nan_box_upper,
      List.filter_cons, apply_ite (List.filter line.is_f_store)]

/-- The stores of `__fcvt_s_w` to F registers. -/
theorem fcvt_s_w_boxed (dis : Bool) (pc instr : Nat) (tu : tu_builder) :
    ((emitted tu (__fcvt_s_w dis pc instr tu)).filter line.is_f_store).map
      line.is_nan_boxed_store = [true] := by
  simp only [__fcvt_s_w, emitted, tu_simps, uint_of_int_64_neg_one,
    if_neg (by decide : ¬((64 : Nat) = 32))]
  cases dis <;>
    simp [line.is_f_store, line.is_nan_boxed_store, value.is_nan_boxed, nan_box_upper,
      List.filter_cons, apply_ite (List.filter line.is_f_store)]

/-- The stores of `__fcvt_s_wu` to F registers. -/
theorem fcvt_s_wu_boxed (dis : Bool) (pc instr : Nat) (tu : tu_builder) :
    ((emitted tu (__fcvt_s_wu dis pc instr tu)).filter line.is_f_store).map
      line.is_nan_boxed_store = [true] := by
  simp only [__fcvt_s_wu, emitted, tu_simps, uint_of_int_64_neg_one,
    if_neg (by decide : ¬((64 : Nat) = 32))]
  cases dis <;>
    simp [line.is_f_store, line.is_nan_boxed_store, value.is_nan_boxed, nan_box_upper,
      List.filter_cons, apply_ite (List.filter line.is_f_store)]

/-- The stores of `__fcvt_s_d` to F registers. -/
theorem fcvt_s_d_boxed (dis : Bool) (pc instr : Nat) (tu : tu_builder) :
    ((emitted tu (__fcvt_s_d dis pc instr tu)).filter line.is_f_store).map
      line.is_nan_boxed_store = [true] := by
  simp only [__fcvt_s_d, emitted, tu_simps, uint_of_int_64_neg_one,
    if_neg (by decide : ¬((64 : Nat) = 32))]
  cases dis <;>
    simp [line.is_f_store, line.is_nan_boxed_store, value.is_nan_boxed, nan_box_upper,
      List.filter_cons, apply_ite (List.filter line.is_f_store)]

/-- The stores of `__fmv_w_x` to F registers. -/
theorem fmv_w_x_boxed (dis : Bool) (pc instr : Nat) (tu : tu_builder) :
    ((emitted tu (__fmv_w_x dis pc instr tu)).filter line.is_f_store).map
      line.is_nan_boxed_store = [true] := by
  simp only [__fmv_w_x, emitted, tu_simps, uint_of_int_64_neg_one,
    if_neg (by decide : ¬((64 : Nat) = 32))]
  cases dis <;>
    simp [line.is_f_store, line.is_nan_boxed_store, value.is_nan_boxed, nan_box_upper,
      List.filter_cons, apply_ite (List.filter line.is_f_store)]

/-- The value of `nan_box_upper`. -/
theorem nan_box_upper_eval (σ : arch_state) :
    nan_box_upper.eval σ = 0xFFFFFFFF00000000 := by
  simp only [nan_box_upper, value.eval, value.size]
  decide

/-- An OR with `0xFFFFFFFF00000000` of a 64-bit value has all ones in its upper half. -/
theorem or_upper_div (b : Nat) (hb : b < 2 ^ 64) :
    uint_t 64 (0xFFFFFFFF00000000 ||| b) / 2 ^ 32 = 0xFFFFFFFF := by
  have hlt : 0xFFFFFFFF00000000 ||| b < 2 ^ 64 := Nat.or_lt_two_pow (by decide) hb
  rw [uint_t_of_lt hlt, ← Nat.shiftRight_eq_div_pow]
  apply Nat.eq_of_testBit_eq
  intro i
  rw [Nat.testBit_shiftRight, Nat.testBit_or]
  by_cases hi : i < 32
  · have h1 : (0xFFFFFFFF00000000 : Nat).testBit (32 + i) = true := by
      interval_cases i <;> decide
    have h2 : (0xFFFFFFFF : Nat).testBit i = true := by
      interval_cases i <;> decide
    rw [h1, h2, Bool.true_or]
  · have h1 : (0xFFFFFFFF00000000 : Nat).testBit (32 + i) = false :=
      Nat.testBit_lt_two_pow (lt_of_lt_of_le (by decide : 0xFFFFFFFF00000000 < 2 ^ 64)
        (Nat.pow_le_pow_right (by decide) (by omega)))
    have h2 : b.testBit (32 + i) = false :=
      Nat.testBit_lt_two_pow (lt_of_lt_of_le hb
        (Nat.pow_le_pow_right (by decide) (by omega)))
    have h3 : (0xFFFFFFFF : Nat).testBit i = false :=
      Nat.testBit_lt_two_pow (lt_of_lt_of_le (by decide : 0xFFFFFFFF < 2 ^ 32)
        (Nat.pow_le_pow_right (by decide) (by omega)))
    rw [h1, h2, h3, Bool.false_or]

/-- The upper half of the value a NaN-boxed expression denotes, as stored in a 64-bit
register. -/
theorem nan_boxed_eval (v : value) (σ : arch_state) (h : v.is_nan_boxed = true) :
    uint_t 64 (v.eval σ) / 2 ^ 32 = 0xFFFFFFFF := by
  unfold value.is_nan_boxed at h
  split at h
  · rename_i a x
    have ha : a = nan_box_upper := by simpa using h
    subst ha
    simp only [value.eval, nan_box_upper_eval, Bool.true_eq_false, if_false]
    exact or_upper_div _ (uint_t_lt 64 _)
  · exact absurd h (by simp)
/-! ## The CSR instructions -/

theorem uint_t_16_bit_sub (lo width v : Nat) (hw : width ≤ 16) :
    uint_t 16 (bit_sub lo width v) = bit_sub lo width v :=
  uint_t_of_lt (lt_of_lt_of_le (bit_sub_lt lo width v) (Nat.pow_le_pow_right (by decide) hw))

theorem uint_of_int_16_bit_sub (lo width v : Nat) (hw : width ≤ 16) :
    uint_of_int 16 ((bit_sub lo width v : Nat) : Int) = bit_sub lo width v := by
  rw [uint_of_int_natCast, uint_t_16_bit_sub lo width v hw]

theorem uint_t_32_bit_sub (lo width v : Nat) (hw : width ≤ 32) :
    uint_t 32 (bit_sub lo width v) = bit_sub lo width v :=
  uint_t_of_lt (lt_of_lt_of_le (bit_sub_lt lo width v) (Nat.pow_le_pow_right (by decide) hw))

theorem uint_of_int_32_bit_sub (lo width v : Nat) (hw : width ≤ 32) :
    uint_of_int 32 ((bit_sub lo width v : Nat) : Int) = bit_sub lo width v := by
  rw [uint_of_int_natCast, uint_t_32_bit_sub lo width v hw]

theorem uint_t_or_of_lt {bits a b : Nat} (ha : a < 2 ^ bits) (hb : b < 2 ^ bits) :
    uint_t bits (a ||| b) = a ||| b :=
  uint_t_of_lt (Nat.or_lt_two_pow ha hb)

theorem uint_t_32_or_uint_t (a b : Nat) :
    uint_t 32 (uint_t 32 a ||| uint_t 32 b) = uint_t 32 a ||| uint_t 32 b :=
  uint_t_or_of_lt (uint_t_lt 32 a) (uint_t_lt 32 b)

theorem uint_t_32_and_not (a x : Nat) :
    uint_t 32 (a &&& (4294967295 - x)) = a &&& (4294967295 - x) :=
  uint_t_and_of_lt (by omega)

/-- What `__csrrw` does. -/
theorem csrrw_spec : csr_spec __csrrw (fun _ => true) (fun rd => decide (rd ≠ 0))
    (fun σ rs1 => uint_t 32 (σ.reg (reg_e.X rs1))) (fun _ x => x) := by
  intro dis pc instr tu σ
  simp only [__csrrw, emitted, tu_simps, uint_t_8_bit_sub _ _ _ (by decide : 5 ≤ 8),
    uint_t_16_bit_sub _ _ _ (by decide : 12 ≤ 16)]
  have hc := uint_of_int_16_bit_sub 20 12 instr (by decide)
  have hz := uint_of_int_32_bit_sub 15 5 instr (by decide)
  have hz2 := uint_t_32_bit_sub 15 5 instr (by decide)
  have hor : ∀ a : Nat, uint_t 32 (uint_t 32 a ||| bit_sub 15 5 instr) =
      uint_t 32 a ||| bit_sub 15 5 instr := fun a =>
    uint_t_or_of_lt (uint_t_lt 32 a)
      (lt_of_lt_of_le (bit_sub_lt 15 5 instr) (by norm_num))
  generalize bit_sub 7 5 instr = rd
  generalize bit_sub 15 5 instr = f at hz hz2 hor ⊢
  generalize bit_sub 20 12 instr = csr at hc ⊢
  refine ⟨?_, ?_, ?_, ?_⟩
  · by_cases hrd : rd = 0 <;> by_cases hf : f = 0 <;> cases dis <;>
      simp [hrd, hf, line.is_write_mem, List.filter_cons, apply_ite (List.filter _)]
  · by_cases hrd : rd = 0 <;> by_cases hf : f = 0 <;> cases dis <;>
      simp [hrd, hf, line.reads, value.reads]
  · by_cases hrd : rd = 0 <;> by_cases hf : f = 0 <;> cases dis <;>
      simp [hrd, hf, hc, hz, hz2, run, exec_lines, exec_line, exec_state.running, value.eval,
        value.size, reg_bit_widths, apply_ite exec_state.σ, uint_t_idem, Function.update,
        uint_of_int_int_t, uint_t_32_or_uint_t, uint_t_32_and_not, hor, uint_of_int_32_zero,
        uint_t_32_zero]
  · intro hrd
    by_cases hf : f = 0 <;> cases dis <;>
      simp [hrd, hf, hc, hz, hz2, run, exec_lines, exec_line, exec_state.running, value.eval,
        value.size, reg_bit_widths, apply_ite exec_state.σ, uint_t_idem, Function.update,
        uint_of_int_int_t]

/-- What `__csrrs` does. -/
theorem csrrs_spec : csr_spec __csrrs (fun f => decide (f ≠ 0)) (fun _ => true)
    (fun σ rs1 => uint_t 32 (σ.reg (reg_e.X rs1))) (fun old x => old ||| x) := by
  intro dis pc instr tu σ
  simp only [__csrrs, emitted, tu_simps, uint_t_8_bit_sub _ _ _ (by decide : 5 ≤ 8),
    uint_t_16_bit_sub _ _ _ (by decide : 12 ≤ 16)]
  have hc := uint_of_int_16_bit_sub 20 12 instr (by decide)
  have hz := uint_of_int_32_bit_sub 15 5 instr (by decide)
  have hz2 := uint_t_32_bit_sub 15 5 instr (by decide)
  have hor : ∀ a : Nat, uint_t 32 (uint_t 32 a ||| bit_sub 15 5 instr) =
      uint_t 32 a ||| bit_sub 15 5 instr := fun a =>
    uint_t_or_of_lt (uint_t_lt 32 a)
      (lt_of_lt_of_le (bit_sub_lt 15 5 instr) (by norm_num))
  generalize bit_sub 7 5 instr = rd
  generalize bit_sub 15 5 instr = f at hz hz2 hor ⊢
  generalize bit_sub 20 12 instr = csr at hc ⊢
  refine ⟨?_, ?_, ?_, ?_⟩
  · by_cases hrd : rd = 0 <;> by_cases hf : f = 0 <;> cases dis <;>
      simp [hrd, hf, line.is_write_mem, List.filter_cons, apply_ite (List.filter _)]
  · by_cases hrd : rd = 0 <;> by_cases hf : f = 0 <;> cases dis <;>
      simp [hrd, hf, line.reads, value.reads]
  · by_cases hrd : rd = 0 <;> by_cases hf : f = 0 <;> cases dis <;>
      simp [hrd, hf, hc, hz, hz2, run, exec_lines, exec_line, exec_state.running, value.eval,
        value.size, reg_bit_widths, apply_ite exec_state.σ, uint_t_idem, Function.update,
        uint_of_int_int_t, uint_t_32_or_uint_t, uint_t_32_and_not, hor, uint_of_int_32_zero,
        uint_t_32_zero]
  · intro hrd
    by_cases hf : f = 0 <;> cases dis <;>
      simp [hrd, hf, hc, hz, hz2, run, exec_lines, exec_line, exec_state.running, value.eval,
        value.size, reg_bit_widths, apply_ite exec_state.σ, uint_t_idem, Function.update,
        uint_of_int_int_t]

/-- What `__csrrc` does. -/
theorem csrrc_spec : csr_spec __csrrc (fun f => decide (f ≠ 0)) (fun _ => true)
    (fun σ rs1 => uint_t 32 (σ.reg (reg_e.X rs1))) (fun old x => old &&& (0xFFFFFFFF - x)) := by
  intro dis pc instr tu σ
  simp only [__csrrc, emitted, tu_simps, uint_t_8_bit_sub _ _ _ (by decide : 5 ≤ 8),
    uint_t_16_bit_sub _ _ _ (by decide : 12 ≤ 16)]
  have hc := uint_of_int_16_bit_sub 20 12 instr (by decide)
  have hz := uint_of_int_32_bit_sub 15 5 instr (by decide)
  have hz2 := uint_t_32_bit_sub 15 5 instr (by decide)
  have hor : ∀ a : Nat, uint_t 32 (uint_t 32 a ||| bit_sub 15 5 instr) =
      uint_t 32 a ||| bit_sub 15 5 instr := fun a =>
    uint_t_or_of_lt (uint_t_lt 32 a)
      (lt_of_lt_of_le (bit_sub_lt 15 5 instr) (by norm_num))
  generalize bit_sub 7 5 instr = rd
  generalize bit_sub 15 5 instr = f at hz hz2 hor ⊢
  generalize bit_sub 20 12 instr = csr at hc ⊢
  refine ⟨?_, ?_, ?_, ?_⟩
  · by_cases hrd : rd = 0 <;> by_cases hf : f = 0 <;> cases dis <;>
      simp [hrd, hf, line.is_write_mem, List.filter_cons, apply_ite (List.filter _)]
  · by_cases hrd : rd = 0 <;> by_cases hf : f = 0 <;> cases dis <;>
      simp [hrd, hf, line.reads, value.reads]
  · by_cases hrd : rd = 0 <;> by_cases hf : f = 0 <;> cases dis <;>
      simp [hrd, hf, hc, hz, hz2, run, exec_lines, exec_line, exec_state.running, value.eval,
        value.size, reg_bit_widths, apply_ite exec_state.σ, uint_t_idem, Function.update,
        uint_of_int_int_t, uint_t_32_or_uint_t, uint_t_32_and_not, hor, uint_of_int_32_zero,
        uint_t_32_zero]
  · intro hrd
    by_cases hf : f = 0 <;> cases dis <;>
      simp [hrd, hf, hc, hz, hz2, run, exec_lines, exec_line, exec_state.running, value.eval,
        value.size, reg_bit_widths, apply_ite exec_state.σ, uint_t_idem, Function.update,
        uint_of_int_int_t]

/-- What `__csrrwi` does. -/
theorem csrrwi_spec : csr_spec __csrrwi (fun _ => true) (fun rd => decide (rd ≠ 0))
    (fun _ zimm => zimm) (fun _ x => x) := by
  intro dis pc instr tu σ
  simp only [__csrrwi, emitted, tu_simps, uint_t_8_bit_sub _ _ _ (by decide : 5 ≤ 8),
    uint_t_16_bit_sub _ _ _ (by decide : 12 ≤ 16)]
  have hc := uint_of_int_16_bit_sub 20 12 instr (by decide)
  have hz := uint_of_int_32_bit_sub 15 5 instr (by decide)
  have hz2 := uint_t_32_bit_sub 15 5 instr (by decide)
  have hor : ∀ a : Nat, uint_t 32 (uint_t 32 a ||| bit_sub 15 5 instr) =
      uint_t 32 a ||| bit_sub 15 5 instr := fun a =>
    uint_t_or_of_lt (uint_t_lt 32 a)
      (lt_of_lt_of_le (bit_sub_lt 15 5 instr) (by norm_num))
  generalize bit_sub 7 5 instr = rd
  generalize bit_sub 15 5 instr = f at hz hz2 hor ⊢
  generalize bit_sub 20 12 instr = csr at hc ⊢
  refine ⟨?_, ?_, ?_, ?_⟩
  · by_cases hrd : rd = 0 <;> by_cases hf : f = 0 <;> cases dis <;>
      simp [hrd, hf, line.is_write_mem, List.filter_cons, apply_ite (List.filter _)]
  · by_cases hrd : rd = 0 <;> by_cases hf : f = 0 <;> cases dis <;>
      simp [hrd, hf, line.reads, value.reads]
  · by_cases hrd : rd = 0 <;> by_cases hf : f = 0 <;> cases dis <;>
      simp [hrd, hf, hc, hz, hz2, run, exec_lines, exec_line, exec_state.running, value.eval,
        value.size, reg_bit_widths, apply_ite exec_state.σ, uint_t_idem, Function.update,
        uint_of_int_int_t, uint_t_32_or_uint_t, uint_t_32_and_not, hor, uint_of_int_32_zero,
        uint_t_32_zero]
  · intro hrd
    by_cases hf : f = 0 <;> cases dis <;>
      simp [hrd, hf, hc, hz, hz2, run, exec_lines, exec_line, exec_state.running, value.eval,
        value.size, reg_bit_widths, apply_ite exec_state.σ, uint_t_idem, Function.update,
        uint_of_int_int_t]

/-- What `__csrrsi` does. -/
theorem csrrsi_spec : csr_spec __csrrsi (fun f => decide (f ≠ 0)) (fun _ => true)
    (fun _ zimm => zimm) (fun old x => old ||| x) := by
  intro dis pc instr tu σ
  simp only [__csrrsi, emitted, tu_simps, uint_t_8_bit_sub _ _ _ (by decide : 5 ≤ 8),
    uint_t_16_bit_sub _ _ _ (by decide : 12 ≤ 16)]
  have hc := uint_of_int_16_bit_sub 20 12 instr (by decide)
  have hz := uint_of_int_32_bit_sub 15 5 instr (by decide)
  have hz2 := uint_t_32_bit_sub 15 5 instr (by decide)
  have hor : ∀ a : Nat, uint_t 32 (uint_t 32 a ||| bit_sub 15 5 instr) =
      uint_t 32 a ||| bit_sub 15 5 instr := fun a =>
    uint_t_or_of_lt (uint_t_lt 32 a)
      (lt_of_lt_of_le (bit_sub_lt 15 5 instr) (by norm_num))
  generalize bit_sub 7 5 instr = rd
  generalize bit_sub 15 5 instr = f at hz hz2 hor ⊢
  generalize bit_sub 20 12 instr = csr at hc ⊢
  refine ⟨?_, ?_, ?_, ?_⟩
  · by_cases hrd : rd = 0 <;> by_cases hf : f = 0 <;> cases dis <;>
      simp [hrd, hf, line.is_write_mem, List.filter_cons, apply_ite (List.filter _)]
  · by_cases hrd : rd = 0 <;> by_cases hf : f = 0 <;> cases dis <;>
      simp [hrd, hf, line.reads, value.reads]
  · by_cases hrd : rd = 0 <;> by_cases hf : f = 0 <;> cases dis <;>
      simp [hrd, hf, hc, hz, hz2, run, exec_lines, exec_line, exec_state.running, value.eval,
        value.size, reg_bit_widths, apply_ite exec_state.σ, uint_t_idem, Function.update,
        uint_of_int_int_t, uint_t_32_or_uint_t, uint_t_32_and_not, hor, uint_of_int_32_zero,
        uint_t_32_zero]
  · intro hrd
    by_cases hf : f = 0 <;> cases dis <;>
      simp [hrd, hf, hc, hz, hz2, run, exec_lines, exec_line, exec_state.running, value.eval,
        value.size, reg_bit_widths, apply_ite exec_state.σ, uint_t_idem, Function.update,
        uint_of_int_int_t]

/-- What `__csrrci` does. -/
theorem csrrci_spec : csr_spec __csrrci (fun f => decide (f ≠ 0)) (fun _ => true)
    (fun _ zimm => zimm) (fun old x => old &&& (0xFFFFFFFF - x)) := by
  intro dis pc instr tu σ
  simp only [__csrrci, emitted, tu_simps, uint_t_8_bit_sub _ _ _ (by decide : 5 ≤ 8),
    uint_t_16_bit_sub _ _ _ (by decide : 12 ≤ 16)]
  have hc := uint_of_int_16_bit_sub 20 12 instr (by decide)
  have hz := uint_of_int_32_bit_sub 15 5 instr (by decide)
  have hz2 := uint_t_32_bit_sub 15 5 instr (by decide)
  have hor : ∀ a : Nat, uint_t 32 (uint_t 32 a ||| bit_sub 15 5 instr) =
      uint_t 32 a ||| bit_sub 15 5 instr := fun a =>
    uint_t_or_of_lt (uint_t_lt 32 a)
      (lt_of_lt_of_le (bit_sub_lt 15 5 instr) (by norm_num))
  generalize bit_sub 7 5 instr = rd
  generalize bit_sub 15 5 instr = f at hz hz2 hor ⊢
  generalize bit_sub 20 12 instr = csr at hc ⊢
  refine ⟨?_, ?_, ?_, ?_⟩
  · by_cases hrd : rd = 0 <;> by_cases hf : f = 0 <;> cases dis <;>
      simp [hrd, hf, line.is_write_mem, List.filter_cons, apply_ite (List.filter _)]
  · by_cases hrd : rd = 0 <;> by_cases hf : f = 0 <;> cases dis <;>
      simp [hrd, hf, line.reads, value.reads]
  · by_cases hrd : rd = 0 <;> by_cases hf : f = 0 <;> cases dis <;>
      simp [hrd, hf, hc, hz, hz2, run, exec_lines, exec_line, exec_state.running, value.eval,
        value.size, reg_bit_widths, apply_ite exec_state.σ, uint_t_idem, Function.update,
        uint_of_int_int_t, uint_t_32_or_uint_t, uint_t_32_and_not, hor, uint_of_int_32_zero,
        uint_t_32_zero]
  · intro hrd
    by_cases hf : f = 0 <;> cases dis <;>
      simp [hrd, hf, hc, hz, hz2, run, exec_lines, exec_line, exec_state.running, value.eval,
        value.size, reg_bit_widths, apply_ite exec_state.σ, uint_t_idem, Function.update,
        uint_of_int_int_t]

/-! ## Multiplication and division -/

theorem cast_uint_t (bits n : Nat) : ((uint_t bits n : Nat) : Int) = (n : Int) % 2 ^ bits := by
  unfold uint_t
  push_cast
  rfl

theorem uint_of_int_32_int_t_64 (v : Int) : uint_of_int 32 (int_t 64 v) = uint_of_int 32 v := by
  apply Int.ofNat_inj.mp
  rw [uint_of_int_cast, uint_of_int_cast]
  unfold int_t
  simp only
  norm_num
  split_ifs <;> omega

theorem int_t_32_uint_t (n : Nat) : int_t 32 ((uint_t 32 n : Nat) : Int) = int_t 32 (n : Int) := by
  rw [cast_uint_t]
  unfold int_t
  simp only [Int.emod_emod_of_dvd _ (dvd_refl _)]

theorem int_t_32_emod (v : Int) : int_t 32 v % 2 ^ 32 = v % 2 ^ 32 := by
  unfold int_t
  simp only
  norm_num
  split_ifs <;> omega

/-- What the code of `__mul` computes. -/
theorem mul_code_eq (a b : Nat) :
    uint_t 32 (uint_t 64 (uint_t 64 (uint_t 32 a) * uint_t 64 (uint_t 32 b))) =
      uint_t 32 (uint_t 32 a * uint_t 32 b) := by
  have ha := uint_t_lt 32 a
  have hb := uint_t_lt 32 b
  generalize uint_t 32 a = x at ha ⊢
  generalize uint_t 32 b = y at hb ⊢
  have hx : uint_t 64 x = x := uint_t_of_lt (lt_trans ha (by norm_num))
  have hy : uint_t 64 y = y := uint_t_of_lt (lt_trans hb (by norm_num))
  have hxy : uint_t 64 (x * y) = x * y := by
    apply uint_t_of_lt
    calc x * y < 2 ^ 32 * 2 ^ 32 := Nat.mul_lt_mul'' ha hb
      _ = 2 ^ 64 := by norm_num
  rw [hx, hy, hxy]

/-- What the code of `__mulh` computes. -/
theorem mulh_code_eq (a b : Nat) :
    uint_t 32 (uint_t 64 (uint_of_int 64 (int_t 32 (a : Nat)) * uint_of_int 64 (int_t 32 (b : Nat))) >>> 32) =
      uint_of_int 32 (int_t 32 (a : Nat) * int_t 32 (b : Nat) / 2 ^ 32) := by
  apply Int.ofNat_inj.mp
  rw [uint_of_int_cast, cast_uint_t, Nat.shiftRight_eq_div_pow]
  push_cast
  rw [cast_uint_t]
  push_cast
  rw [uint_of_int_cast, uint_of_int_cast]
  generalize int_t 32 (a : Int) = s
  generalize int_t 32 (b : Int) = t
  have e64 : (2 : Int) ^ 64 = 18446744073709551616 := by norm_num
  simp only [e64]
  rw [← Int.mul_emod]
  generalize s * t = p
  omega

/-- What the code of `__mulhu` computes. -/
theorem mulhu_code_eq (a b : Nat) :
    uint_t 32 (uint_t 64 (uint_t 64 (uint_t 32 a) * uint_t 64 (uint_t 32 b)) >>> 32) =
      uint_t 32 (uint_t 32 a * uint_t 32 b / 2 ^ 32) := by
  have ha := uint_t_lt 32 a
  have hb := uint_t_lt 32 b
  generalize uint_t 32 a = x at ha ⊢
  generalize uint_t 32 b = y at hb ⊢
  have hx : uint_t 64 x = x := uint_t_of_lt (lt_trans ha (by norm_num))
  have hy : uint_t 64 y = y := uint_t_of_lt (lt_trans hb (by norm_num))
  have hxy : uint_t 64 (x * y) = x * y := by
    apply uint_t_of_lt
    calc x * y < 2 ^ 32 * 2 ^ 32 := Nat.mul_lt_mul'' ha hb
      _ = 2 ^ 64 := by norm_num
  rw [hx, hy, hxy, Nat.shiftRight_eq_div_pow]

/-- What the code of `__mulhsu` computes. -/
theorem mulhsu_code_eq (a b : Nat) :
    uint_t 32 (uint_t 64 (uint_of_int 64 (int_t 32 (a : Nat)) * uint_t 64 (uint_t 32 b)) >>> 32) =
      uint_of_int 32 (int_t 32 (a : Nat) * ((uint_t 32 b : Nat) : Int) / 2 ^ 32) := by
  apply Int.ofNat_inj.mp
  rw [uint_of_int_cast, cast_uint_t, Nat.shiftRight_eq_div_pow]
  push_cast
  rw [cast_uint_t]
  push_cast
  rw [uint_of_int_cast, cast_uint_t]
  have hb : (0 : Int) ≤ ((uint_t 32 b : Nat) : Int) := Int.natCast_nonneg _
  generalize ((uint_t 32 b : Nat) : Int) = y at hb ⊢
  generalize int_t 32 (a : Int) = s
  have e64 : (2 : Int) ^ 64 = 18446744073709551616 := by norm_num
  simp only [e64]
  rw [← Int.mul_emod]
  generalize s * y = p
  omega

theorem uint_of_int_32_32 : uint_of_int 32 32 = 32 := by decide

/-- The register written by the lines `__mul` emits. -/
theorem mul_run (dis : Bool) (pc instr : Nat) (tu : tu_builder) (σ : arch_state)
    (hrd : bit_sub 7 5 instr ≠ 0) :
    (run σ (emitted tu (__mul dis pc instr tu))).reg (reg_e.X (bit_sub 7 5 instr)) =
      uint_t 32 (uint_t 32 (σ.reg (reg_e.X (bit_sub 15 5 instr))) *
        uint_t 32 (σ.reg (reg_e.X (bit_sub 20 5 instr)))) := by
  simp only [__mul, emitted, tu_simps, uint_t_8_bit_sub _ _ _ (by decide : 5 ≤ 8)]
  generalize bit_sub 7 5 instr = rd at hrd ⊢
  generalize bit_sub 15 5 instr = rs1
  generalize bit_sub 20 5 instr = rs2
  cases dis <;>
    simp [hrd, run, exec_lines, exec_line, exec_state.running, value.eval, value.size,
      reg_bit_widths, apply_ite exec_state.σ, uint_t_idem, Function.update, mul_code_eq,
      uint_of_int_32_32]

/-- The register written by the lines `__mulh` emits: the high half of the product of the
operands sign-extended. -/
theorem mulh_run (dis : Bool) (pc instr : Nat) (tu : tu_builder) (σ : arch_state)
    (hrd : bit_sub 7 5 instr ≠ 0) :
    (run σ (emitted tu (__mulh dis pc instr tu))).reg (reg_e.X (bit_sub 7 5 instr)) =
      mulh_result (σ.reg (reg_e.X (bit_sub 15 5 instr)))
        (σ.reg (reg_e.X (bit_sub 20 5 instr))) := by
  simp only [__mulh, emitted, tu_simps, uint_t_8_bit_sub _ _ _ (by decide : 5 ≤ 8),
    mulh_result]
  generalize bit_sub 7 5 instr = rd at hrd ⊢
  generalize bit_sub 15 5 instr = rs1
  generalize bit_sub 20 5 instr = rs2
  cases dis <;>
    simp [hrd, run, exec_lines, exec_line, exec_state.running, value.eval, value.size,
      reg_bit_widths, apply_ite exec_state.σ, uint_t_idem, Function.update, mulh_code_eq,
      uint_of_int_32_32, int_t_32_uint_t, uint_t_uint_of_int]

/-- The register written by the lines `__mulhu` emits: the high half of the product of the
operands zero-extended. -/
theorem mulhu_run (dis : Bool) (pc instr : Nat) (tu : tu_builder) (σ : arch_state)
    (hrd : bit_sub 7 5 instr ≠ 0) :
    (run σ (emitted tu (__mulhu dis pc instr tu))).reg (reg_e.X (bit_sub 7 5 instr)) =
      mulhu_result (σ.reg (reg_e.X (bit_sub 15 5 instr)))
        (σ.reg (reg_e.X (bit_sub 20 5 instr))) := by
  simp only [__mulhu, emitted, tu_simps, uint_t_8_bit_sub _ _ _ (by decide : 5 ≤ 8),
    mulhu_result]
  generalize bit_sub 7 5 instr = rd at hrd ⊢
  generalize bit_sub 15 5 instr = rs1
  generalize bit_sub 20 5 instr = rs2
  cases dis <;>
    simp [hrd, run, exec_lines, exec_line, exec_state.running, value.eval, value.size,
      reg_bit_widths, apply_ite exec_state.σ, uint_t_idem, Function.update, mulhu_code_eq,
      uint_of_int_32_32]

/-- The register written by the lines `__mulhsu` emits: the high half of the product of
`X[rs1]` sign-extended and `X[rs2]` zero-extended. -/
theorem mulhsu_run (dis : Bool) (pc instr : Nat) (tu : tu_builder) (σ : arch_state)
    (hrd : bit_sub 7 5 instr ≠ 0) :
    (run σ (emitted tu (__mulhsu dis pc instr tu))).reg (reg_e.X (bit_sub 7 5 instr)) =
      mulhsu_result (σ.reg (reg_e.X (bit_sub 15 5 instr)))
        (σ.reg (reg_e.X (bit_sub 20 5 instr))) := by
  simp only [__mulhsu, emitted, tu_simps, uint_t_8_bit_sub _ _ _ (by decide : 5 ≤ 8),
    mulhsu_result]
  generalize bit_sub 7 5 instr = rd at hrd ⊢
  generalize bit_sub 15 5 instr = rs1
  generalize bit_sub 20 5 instr = rs2
  cases dis <;>
    simp [hrd, run, exec_lines, exec_line, exec_state.running, value.eval, value.size,
      reg_bit_widths, apply_ite exec_state.σ, uint_t_idem, Function.update, mulhsu_code_eq,
      uint_of_int_32_32, int_t_32_uint_t, uint_t_uint_of_int]

theorem mmin_val_8 :
    uint_t 32 (uint_t 32 1 <<< uint_of_int 8 ((32 : Int) - (1 : Int))) = 0x80000000 := by
  decide

theorem mmin_val_32 :
    uint_t 32 (uint_t 32 1 <<< uint_of_int 32 ((32 : Int) - (1 : Int))) = 0x80000000 := by
  decide

theorem uint_of_int_32_neg_one : uint_of_int 32 (-1) = 0xFFFFFFFF := by decide

theorem uint_of_int_32_mmin : uint_of_int 32 2147483648 = 2147483648 := by decide

theorem uint_t_32_mmin : uint_t 32 2147483648 = 2147483648 := by decide

theorem uint_t_32_div (a b : Nat) : uint_t 32 (uint_t 32 a / b) = uint_t 32 a / b :=
  uint_t_of_lt (lt_of_le_of_lt (Nat.div_le_self _ _) (uint_t_lt 32 a))

theorem uint_t_32_mod (a b : Nat) : uint_t 32 (uint_t 32 a % b) = uint_t 32 a % b :=
  uint_t_of_lt (lt_of_le_of_lt (Nat.mod_le _ _) (uint_t_lt 32 a))

theorem int_t_32_eq_min (x : Nat) :
    int_t 32 ((uint_t 32 x : Nat) : Int) = -2147483648 ↔ uint_t 32 x = 2147483648 := by
  have h := uint_t_lt 32 x
  generalize uint_t 32 x = a at h ⊢
  unfold int_t
  simp only
  norm_num at h ⊢
  split_ifs <;> omega

theorem int_t_32_eq_neg_one (x : Nat) :
    int_t 32 ((uint_t 32 x : Nat) : Int) = -1 ↔ uint_t 32 x = 4294967295 := by
  have h := uint_t_lt 32 x
  generalize uint_t 32 x = a at h ⊢
  unfold int_t
  simp only
  norm_num at h ⊢
  split_ifs <;> omega

/-- The register written by the lines `__div` emits. -/
theorem div_run (dis : Bool) (pc instr : Nat) (tu : tu_builder) (σ : arch_state)
    (hrd : bit_sub 7 5 instr ≠ 0) :
    (run σ (emitted tu (__div dis pc instr tu))).reg (reg_e.X (bit_sub 7 5 instr)) =
      div_result (uint_t 32 (σ.reg (reg_e.X (bit_sub 15 5 instr))))
        (uint_t 32 (σ.reg (reg_e.X (bit_sub 20 5 instr)))) := by
  simp only [__div, emitted, tu_simps, uint_t_8_bit_sub _ _ _ (by decide : 5 ≤ 8),
    mmin_val_8, mmin_val_32, uint_of_int_32_neg_one, div_result]
  generalize bit_sub 7 5 instr = rd at hrd ⊢
  generalize bit_sub 15 5 instr = rs1
  generalize bit_sub 20 5 instr = rs2
  by_cases hb : uint_t 32 (σ.reg (reg_e.X rs2)) = 0
  · cases dis <;>
    simp [hrd, hb, run, exec_lines, exec_line, exec_state.running, value.eval,
      value.size, reg_bit_widths, apply_ite exec_state.σ, uint_t_idem, Function.update,
      ICmpInst.holds, uint_of_int_32_zero, uint_of_int_32_one, uint_of_int_32_max,
      uint_t_32_max, uint_of_int_32_neg_one, uint_of_int_32_mmin, uint_t_32_mmin,
      uint_t_uint_of_int, uint_t_32_zero, uint_t_32_div, uint_t_32_mod,
      uint_of_int_int_t, uint_of_int_uint_t]
  · by_cases h1 : uint_t 32 (σ.reg (reg_e.X rs1)) = 0x80000000 <;>
    by_cases h2 : uint_t 32 (σ.reg (reg_e.X rs2)) = 0xFFFFFFFF <;>
    cases dis <;>
    simp [hrd, hb, h1, h2, run, exec_lines, exec_line, exec_state.running, value.eval,
      value.size, reg_bit_widths, apply_ite exec_state.σ, uint_t_idem, Function.update,
      ICmpInst.holds, uint_of_int_32_zero, uint_of_int_32_one, uint_of_int_32_max,
      uint_t_32_max, uint_of_int_32_neg_one, uint_of_int_32_mmin, uint_t_32_mmin,
      uint_t_uint_of_int, uint_t_32_zero, uint_t_32_div, uint_t_32_mod,
      uint_of_int_int_t, uint_of_int_uint_t]

/-- The lines `__div` emits execute no faulting division or remainder. -/
theorem div_no_fault (dis : Bool) (pc instr : Nat) (tu : tu_builder) (σ : arch_state) :
    div_faults (exec_state.mk σ [] false) (emitted tu (__div dis pc instr tu)) = false := by
  simp only [__div, emitted, tu_simps, uint_t_8_bit_sub _ _ _ (by decide : 5 ≤ 8),
    mmin_val_8, mmin_val_32, uint_of_int_32_neg_one]
  generalize bit_sub 7 5 instr = rd
  generalize bit_sub 15 5 instr = rs1
  generalize bit_sub 20 5 instr = rs2
  by_cases hrd : rd = 0
  · cases dis <;>
    simp [hrd, div_faults, line.div_fault, value.div_fault, exec_line, exec_state.running]
  by_cases hb : uint_t 32 (σ.reg (reg_e.X rs2)) = 0
  · cases dis <;>
    simp [hrd, hb, div_faults, line.div_fault, value.div_fault, exec_line,
      exec_state.running, value.eval, value.size, reg_bit_widths, apply_ite exec_state.σ,
      uint_t_idem, Function.update, ICmpInst.holds, uint_of_int_32_zero, uint_of_int_32_one,
      uint_of_int_32_max, uint_t_32_max, uint_of_int_32_neg_one, uint_of_int_32_mmin,
      uint_t_32_mmin, uint_t_uint_of_int, int_t_32_eq_min, int_t_32_eq_neg_one, uint_t_32_zero,
      uint_of_int_int_t, uint_of_int_uint_t]
  · by_cases h1 : uint_t 32 (σ.reg (reg_e.X rs1)) = 0x80000000 <;>
    by_cases h2 : uint_t 32 (σ.reg (reg_e.X rs2)) = 0xFFFFFFFF <;>
    cases dis <;>
    simp [hrd, hb, h1, h2, div_faults, line.div_fault, value.div_fault, exec_line,
      exec_state.running, value.eval, value.size, reg_bit_widths, apply_ite exec_state.σ,
      uint_t_idem, Function.update, ICmpInst.holds, uint_of_int_32_zero, uint_of_int_32_one,
      uint_of_int_32_max, uint_t_32_max, uint_of_int_32_neg_one, uint_of_int_32_mmin,
      uint_t_32_mmin, uint_t_uint_of_int, int_t_32_eq_min, int_t_32_eq_neg_one, uint_t_32_zero,
      uint_of_int_int_t, uint_of_int_uint_t]

/-- The register written by the lines `__divu` emits. -/
theorem divu_run (dis : Bool) (pc instr : Nat) (tu : tu_builder) (σ : arch_state)
    (hrd : bit_sub 7 5 instr ≠ 0) :
    (run σ (emitted tu (__divu dis pc instr tu))).reg (reg_e.X (bit_sub 7 5 instr)) =
      divu_result (uint_t 32 (σ.reg (reg_e.X (bit_sub 15 5 instr))))
        (uint_t 32 (σ.reg (reg_e.X (bit_sub 20 5 instr)))) := by
  simp only [__divu, emitted, tu_simps, uint_t_8_bit_sub _ _ _ (by decide : 5 ≤ 8),
    mmin_val_8, mmin_val_32, uint_of_int_32_neg_one, divu_result]
  generalize bit_sub 7 5 instr = rd at hrd ⊢
  generalize bit_sub 15 5 instr = rs1
  generalize bit_sub 20 5 instr = rs2
  by_cases hb : uint_t 32 (σ.reg (reg_e.X rs2)) = 0 <;> cases dis <;>
    simp [hrd, hb, run, exec_lines, exec_line, exec_state.running, value.eval,
      value.size, reg_bit_widths, apply_ite exec_state.σ, uint_t_idem, Function.update,
      ICmpInst.holds, uint_of_int_32_zero, uint_of_int_32_one, uint_of_int_32_max,
      uint_t_32_max, uint_of_int_32_neg_one, uint_of_int_32_mmin, uint_t_32_mmin,
      uint_t_uint_of_int, uint_t_32_zero, uint_t_32_div, uint_t_32_mod,
      uint_of_int_int_t, uint_of_int_uint_t]

/-- The lines `__divu` emits execute no faulting division or remainder. -/
theorem divu_no_fault (dis : Bool) (pc instr : Nat) (tu : tu_builder) (σ : arch_state) :
    div_faults (exec_state.mk σ [] false) (emitted tu (__divu dis pc instr tu)) = false := by
  simp only [__divu, emitted, tu_simps, uint_t_8_bit_sub _ _ _ (by decide : 5 ≤ 8),
    mmin_val_8, mmin_val_32, uint_of_int_32_neg_one]
  generalize bit_sub 7 5 instr = rd
  generalize bit_sub 15 5 instr = rs1
  generalize bit_sub 20 5 instr = rs2
  by_cases hrd : rd = 0
  · cases dis <;>
    simp [hrd, div_faults, line.div_fault, value.div_fault, exec_line, exec_state.running]
  by_cases hb : uint_t 32 (σ.reg (reg_e.X rs2)) = 0 <;> cases dis <;>
    simp [hrd, hb, div_faults, line.div_fault, value.div_fault, exec_line,
      exec_state.running, value.eval, value.size, reg_bit_widths, apply_ite exec_state.σ,
      uint_t_idem, Function.update, ICmpInst.holds, uint_of_int_32_zero, uint_of_int_32_one,
      uint_of_int_32_max, uint_t_32_max, uint_of_int_32_neg_one, uint_of_int_32_mmin,
      uint_t_32_mmin, uint_t_uint_of_int, int_t_32_eq_min, int_t_32_eq_neg_one, uint_t_32_zero,
      uint_of_int_int_t, uint_of_int_uint_t]

/-- The register written by the lines `__rem` emits. -/
theorem rem_run (dis : Bool) (pc instr : Nat) (tu : tu_builder) (σ : arch_state)
    (hrd : bit_sub 7 5 instr ≠ 0) :
    (run σ (emitted tu (__rem dis pc instr tu))).reg (reg_e.X (bit_sub 7 5 instr)) =
      rem_result (uint_t 32 (σ.reg (reg_e.X (bit_sub 15 5 instr))))
        (uint_t 32 (σ.reg (reg_e.X (bit_sub 20 5 instr)))) := by
  simp only [__rem, emitted, tu_simps, uint_t_8_bit_sub _ _ _ (by decide : 5 ≤ 8),
    mmin_val_8, mmin_val_32, uint_of_int_32_neg_one, rem_result]
  generalize bit_sub 7 5 instr = rd at hrd ⊢
  generalize bit_sub 15 5 instr = rs1
  generalize bit_sub 20 5 instr = rs2
  by_cases hb : uint_t 32 (σ.reg (reg_e.X rs2)) = 0
  · cases dis <;>
    simp [hrd, hb, run, exec_lines, exec_line, exec_state.running, value.eval,
      value.size, reg_bit_widths, apply_ite exec_state.σ, uint_t_idem, Function.update,
      ICmpInst.holds, uint_of_int_32_zero, uint_of_int_32_one, uint_of_int_32_max,
      uint_t_32_max, uint_of_int_32_neg_one, uint_of_int_32_mmin, uint_t_32_mmin,
      uint_t_uint_of_int, uint_t_32_zero, uint_t_32_div, uint_t_32_mod,
      uint_of_int_int_t, uint_of_int_uint_t]
  · by_cases h1 : uint_t 32 (σ.reg (reg_e.X rs1)) = 0x80000000 <;>
    by_cases h2 : uint_t 32 (σ.reg (reg_e.X rs2)) = 0xFFFFFFFF <;>
    cases dis <;>
    simp [hrd, hb, h1, h2, run, exec_lines, exec_line, exec_state.running, value.eval,
      value.size, reg_bit_widths, apply_ite exec_state.σ, uint_t_idem, Function.update,
      ICmpInst.holds, uint_of_int_32_zero, uint_of_int_32_one, uint_of_int_32_max,
      uint_t_32_max, uint_of_int_32_neg_one, uint_of_int_32_mmin, uint_t_32_mmin,
      uint_t_uint_of_int, uint_t_32_zero, uint_t_32_div, uint_t_32_mod,
      uint_of_int_int_t, uint_of_int_uint_t]

/-- The lines `__rem` emits execute no faulting division or remainder. -/
theorem rem_no_fault (dis : Bool) (pc instr : Nat) (tu : tu_builder) (σ : arch_state) :
    div_faults (exec_state.mk σ [] false) (emitted tu (__rem dis pc instr tu)) = false := by
  simp only [__rem, emitted, tu_simps, uint_t_8_bit_sub _ _ _ (by decide : 5 ≤ 8),
    mmin_val_8, mmin_val_32, uint_of_int_32_neg_one]
  generalize bit_sub 7 5 instr = rd
  generalize bit_sub 15 5 instr = rs1
  generalize bit_sub 20 5 instr = rs2
  by_cases hrd : rd = 0
  · cases dis <;>
    simp [hrd, div_faults, line.div_fault, value.div_fault, exec_line, exec_state.running]
  by_cases hb : uint_t 32 (σ.reg (reg_e.X rs2)) = 0
  · cases dis <;>
    simp [hrd, hb, div_faults, line.div_fault, value.div_fault, exec_line,
      exec_state.running, value.eval, value.size, reg_bit_widths, apply_ite exec_state.σ,
      uint_t_idem, Function.update, ICmpInst.holds, uint_of_int_32_zero, uint_of_int_32_one,
      uint_of_int_32_max, uint_t_32_max, uint_of_int_32_neg_one, uint_of_int_32_mmin,
      uint_t_32_mmin, uint_t_uint_of_int, int_t_32_eq_min, int_t_32_eq_neg_one, uint_t_32_zero,
      uint_of_int_int_t, uint_of_int_uint_t]
  · by_cases h1 : uint_t 32 (σ.reg (reg_e.X rs1)) = 0x80000000 <;>
    by_cases h2 : uint_t 32 (σ.reg (reg_e.X rs2)) = 0xFFFFFFFF <;>
    cases dis <;>
    simp [hrd, hb, h1, h2, div_faults, line.div_fault, value.div_fault, exec_line,
      exec_state.running, value.eval, value.size, reg_bit_widths, apply_ite exec_state.σ,
      uint_t_idem, Function.update, ICmpInst.holds, uint_of_int_32_zero, uint_of_int_32_one,
      uint_of_int_32_max, uint_t_32_max, uint_of_int_32_neg_one, uint_of_int_32_mmin,
      uint_t_32_mmin, uint_t_uint_of_int, int_t_32_eq_min, int_t_32_eq_neg_one, uint_t_32_zero,
      uint_of_int_int_t, uint_of_int_uint_t]

/-- The register written by the lines `__remu` emits. -/
theorem remu_run (dis : Bool) (pc instr : Nat) (tu : tu_builder) (σ : arch_state)
    (hrd : bit_sub 7 5 instr ≠ 0) :
    (run σ (emitted tu (__remu dis pc instr tu))).reg (reg_e.X (bit_sub 7 5 instr)) =
      remu_result (uint_t 32 (σ.reg (reg_e.X (bit_sub 15 5 instr))))
        (uint_t 32 (σ.reg (reg_e.X (bit_sub 20 5 instr)))) := by
  simp only [__remu, emitted, tu_simps, uint_t_8_bit_sub _ _ _ (by decide : 5 ≤ 8),
    mmin_val_8, mmin_val_32, uint_of_int_32_neg_one, remu_result]
  generalize bit_sub 7 5 instr = rd at hrd ⊢
  generalize bit_sub 15 5 instr = rs1
  generalize bit_sub 20 5 instr = rs2
  by_cases hb : uint_t 32 (σ.reg (reg_e.X rs2)) = 0 <;> cases dis <;>
    simp [hrd, hb, run, exec_lines, exec_line, exec_state.running, value.eval,
      value.size, reg_bit_widths, apply_ite exec_state.σ, uint_t_idem, Function.update,
      ICmpInst.holds, uint_of_int_32_zero, uint_of_int_32_one, uint_of_int_32_max,
      uint_t_32_max, uint_of_int_32_neg_one, uint_of_int_32_mmin, uint_t_32_mmin,
      uint_t_uint_of_int, uint_t_32_zero, uint_t_32_div, uint_t_32_mod,
      uint_of_int_int_t, uint_of_int_uint_t]

/-- The lines `__remu` emits execute no faulting division or remainder. -/
theorem remu_no_fault (dis : Bool) (pc instr : Nat) (tu : tu_builder) (σ : arch_state) :
    div_faults (exec_state.mk σ [] false) (emitted tu (__remu dis pc instr tu)) = false := by
  simp only [__remu, emitted, tu_simps, uint_t_8_bit_sub _ _ _ (by decide : 5 ≤ 8),
    mmin_val_8, mmin_val_32, uint_of_int_32_neg_one]
  generalize bit_sub 7 5 instr = rd
  generalize bit_sub 15 5 instr = rs1
  generalize bit_sub 20 5 instr = rs2
  by_cases hrd : rd = 0
  · cases dis <;>
    simp [hrd, div_faults, line.div_fault, value.div_fault, exec_line, exec_state.running]
  by_cases hb : uint_t 32 (σ.reg (reg_e.X rs2)) = 0 <;> cases dis <;>
    simp [hrd, hb, div_faults, line.div_fault, value.div_fault, exec_line,
      exec_state.running, value.eval, value.size, reg_bit_widths, apply_ite exec_state.σ,
      uint_t_idem, Function.update, ICmpInst.holds, uint_of_int_32_zero, uint_of_int_32_one,
      uint_of_int_32_max, uint_t_32_max, uint_of_int_32_neg_one, uint_of_int_32_mmin,
      uint_t_32_mmin, uint_t_uint_of_int, int_t_32_eq_min, int_t_32_eq_neg_one, uint_t_32_zero,
      uint_of_int_int_t, uint_of_int_uint_t]

/-! ## LUI and ADDI -/

/-- A word with the LUI opcode is dispatched to `__lui`. -/
theorem select_handler_lui (w : Nat) (hw : w &&& 0x7f = 0x37) :
    select_handler w = compile_func.__lui := by
  have hq : w &&& 0x3 = 0x3 := by
    have : (w &&& 0x7f) &&& 0x3 = w &&& 0x3 := by rw [Nat.and_assoc]; rfl
    rw [← this, hw]; rfl
  apply select_handler_of_full_match w
    (InstructionDesriptor.mk 32 0b00000000000000000000000000110111
      0b00000000000000000000000001111111 compile_func.__lui)
  · decide!
  · unfold full_match
    simp only [Bool.and_eq_true, beq_iff_eq]
    exact ⟨hq.symm, hw⟩
  · decide!

/-- A word with the ADDI opcode and function code is dispatched to `__addi`. -/
theorem select_handler_addi (w : Nat) (hw : w &&& 0x707f = 0x13) :
    select_handler w = compile_func.__addi := by
  have hq : w &&& 0x3 = 0x3 := by
    have : (w &&& 0x707f) &&& 0x3 = w &&& 0x3 := by rw [Nat.and_assoc]; rfl
    rw [← this, hw]; rfl
  apply select_handler_of_full_match w
    (InstructionDesriptor.mk 32 0b00000000000000000000000000010011
      0b00000000000000000111000001111111 compile_func.__addi)
  · decide!
  · unfold full_match
    simp only [Bool.and_eq_true, beq_iff_eq]
    exact ⟨hq.symm, hw⟩
  · decide!

theorem uint_of_int_signextend_32_32 (v : Nat) :
    uint_of_int 32 (signextend 32 32 v) = uint_t 32 v := by
  unfold signextend
  simp only
  rw [uint_of_int_int_t]
  apply Int.ofNat_inj.mp
  rw [uint_of_int_cast, cast_uint_t]
  norm_num
  split_ifs <;> omega

/-- The upper immediate of LUI is the word with its low 12 bits cleared. -/
theorem lui_imm_eq (w : Nat) : uint_t 32 ((bit_sub 12 20 w) <<< 12) = w &&& 0xFFFFF000 := by
  have hlt : (bit_sub 12 20 w) <<< 12 < 2 ^ 32 := by
    have := bit_sub_lt 12 20 w
    rw [Nat.shiftLeft_eq]
    omega
  rw [uint_t_of_lt hlt]
  apply Nat.eq_of_testBit_eq
  intro i
  have hm : (0xFFFFF000 : Nat) = (2 ^ 20 - 1) <<< 12 := by decide
  rw [hm, Nat.testBit_and, Nat.testBit_shiftLeft, Nat.testBit_shiftLeft,
    Nat.testBit_two_pow_sub_one, bit_sub, Nat.testBit_and, Nat.testBit_shiftRight]
  have hm2 : (1 <<< 20 - 1 : Nat) = 2 ^ 20 - 1 := by decide
  rw [hm2, Nat.testBit_two_pow_sub_one]
  by_cases h12 : 12 ≤ i
  · have : 12 + (i - 12) = i := by omega
    rw [this]
    cases w.testBit i <;> simp [h12]
  · simp [h12]
/-- The register written by the lines `__addi` emits. -/
theorem addi_run (dis : Bool) (pc instr : Nat) (tu : tu_builder) (σ : arch_state)
    (hrd : bit_sub 7 5 instr ≠ 0) :
    (run σ (emitted tu (__addi dis pc instr tu))).reg (reg_e.X (bit_sub 7 5 instr)) =
      uint_of_int 32 ((σ.reg (reg_e.X (bit_sub 15 5 instr)) : Int) +
        sext 12 (bit_sub 20 12 instr)) := by
  simp only [__addi, emitted, tu_simps, uint_t_8_bit_sub _ _ _ (by decide : 5 ≤ 8),
    signextend_16_12]
  generalize bit_sub 7 5 instr = rd at hrd ⊢
  generalize bit_sub 15 5 instr = rs1
  generalize sext 12 (bit_sub 20 12 instr) = imm
  cases dis <;>
    simp [hrd, run, exec_lines, exec_line, exec_state.running, value.eval, value.size,
      reg_bit_widths, apply_ite exec_state.σ, uint_t_idem, Function.update,
      uint_t_uint_of_int, uint_t_reg_add_imm, uint_of_int_int_t, uint_of_int_uint_t]

/-- The register written by the lines `__lui` emits. -/
theorem lui_run (dis : Bool) (pc instr : Nat) (tu : tu_builder) (σ : arch_state)
    (hrd : bit_sub 7 5 instr ≠ 0) :
    (run σ (emitted tu (__lui dis pc instr tu))).reg (reg_e.X (bit_sub 7 5 instr)) =
      instr &&& 0xFFFFF000 := by
  simp only [__lui, emitted, tu_simps, uint_t_8_bit_sub _ _ _ (by decide : 5 ≤ 8)]
  rw [← lui_imm_eq]
  generalize bit_sub 7 5 instr = rd at hrd ⊢
  generalize bit_sub 12 20 instr <<< 12 = imm
  cases dis <;>
    simp [hrd, run, exec_lines, exec_line, exec_state.running, value.eval, value.size,
      reg_bit_widths, apply_ite exec_state.σ, uint_t_idem, Function.update,
      uint_t_uint_of_int, uint_of_int_signextend_32_32]

theorem uint_of_int_uint_t_add (bits n : Nat) (imm : Int) :
    uint_of_int bits (((uint_t bits n : Nat) : Int) + imm) = uint_of_int bits ((n : Int) + imm) := by
  apply Int.ofNat_inj.mp
  rw [uint_of_int_cast, uint_of_int_cast, cast_uint_t, Int.emod_add_emod]

/-- The state after running the lines of LUI followed by ADDI on the same register. -/
theorem lui_addi_run (dis : Bool) (pc w1 w2 rd : Nat) (tu : tu_builder) (σ : arch_state)
    (hrd1 : bit_sub 7 5 w1 = rd) (hrd2 : bit_sub 7 5 w2 = rd) (hrs1 : bit_sub 15 5 w2 = rd)
    (hrd : rd ≠ 0) (htrap : σ.trap_state = 0) :
    (__addi dis (__lui dis pc w1 tu).pc w2 (__lui dis pc w1 tu).tu).pc = pc + 8 ∧
      (exec_lines (exec_state.mk σ [] false)
          (emitted tu (__addi dis (__lui dis pc w1 tu).pc w2 (__lui dis pc w1 tu).tu))).σ.reg
        (reg_e.X rd) =
        uint_of_int 32 (((w1 &&& 0xFFFFF000 : Nat) : Int) + sext 12 (bit_sub 20 12 w2)) ∧
      (exec_lines (exec_state.mk σ [] false)
          (emitted tu (__addi dis (__lui dis pc w1 tu).pc w2 (__lui dis pc w1 tu).tu))).σ.reg
        reg_e.NEXT_PC = uint_t 32 (pc + 8) ∧
      (exec_lines (exec_state.mk σ [] false)
          (emitted tu (__addi dis (__lui dis pc w1 tu).pc w2
            (__lui dis pc w1 tu).tu))).σ.trap_state = 0 ∧
      (exec_lines (exec_state.mk σ [] false)
          (emitted tu (__addi dis (__lui dis pc w1 tu).pc w2 (__lui dis pc w1 tu).tu))).left =
        false := by
  refine ⟨rfl, ?_⟩
  simp only [__addi, __lui, emitted, tu_simps, uint_t_8_bit_sub _ _ _ (by decide : 5 ≤ 8),
    signextend_16_12]
  simp only [hrd1, hrd2, hrs1]
  rw [← lui_imm_eq]
  generalize bit_sub 12 20 w1 <<< 12 = hi
  generalize sext 12 (bit_sub 20 12 w2) = imm
  refine ⟨?_, ?_, ?_, ?_⟩ <;> cases dis <;>
    simp [hrd, htrap, exec_lines, exec_line, exec_state.running, value.eval, value.size,
      reg_bit_widths, apply_ite exec_state.σ, uint_t_idem, Function.update,
      uint_t_uint_of_int, uint_of_int_signextend_32_32, uint_t_reg_add_imm,
      uint_of_int_uint_t_add, uint_of_int_int_t, uint_of_int_uint_t]
/-! ## The disassembly switch -/

theorem __mul_dis (pc instr : Nat) (tu : tu_builder) :
    disass_inserted (emitted tu (__mul true pc instr tu))
      (emitted tu (__mul false pc instr tu)) := by
  simp only [__mul, emitted, tu_simps, eq_self_iff_true, if_true, Bool.false_eq_true,
    if_false]
  refine ⟨[line.label "MUL" pc, line.sync sync_type.PRE_SYNC 0], _, _,
    rfl, rfl, rfl, ?_⟩
  simp [line.is_print_disass, List.filter_cons, apply_ite (List.filter line.is_print_disass)]

theorem __mulh_dis (pc instr : Nat) (tu : tu_builder) :
    disass_inserted (emitted tu (__mulh true pc instr tu))
      (emitted tu (__mulh false pc instr tu)) := by
  simp only [__mulh, emitted, tu_simps, eq_self_iff_true, if_true, Bool.false_eq_true,
    if_false]
  refine ⟨[line.label "MULH" pc, line.sync sync_type.PRE_SYNC 1], _, _,
    rfl, rfl, rfl, ?_⟩
  simp [line.is_print_disass, List.filter_cons, apply_ite (List.filter line.is_print_disass)]

theorem __mulhsu_dis (pc instr : Nat) (tu : tu_builder) :
    disass_inserted (emitted tu (__mulhsu true pc instr tu))
      (emitted tu (__mulhsu false pc instr tu)) := by
  simp only [__mulhsu, emitted, tu_simps, eq_self_iff_true, if_true, Bool.false_eq_true,
    if_false]
  refine ⟨[line.label "MULHSU" pc, line.sync sync_type.PRE_SYNC 2], _, _,
    rfl, rfl, rfl, ?_⟩
  simp [line.is_print_disass, List.filter_cons, apply_ite (List.filter line.is_print_disass)]

theorem __mulhu_dis (pc instr : Nat) (tu : tu_builder) :
    disass_inserted (emitted tu (__mulhu true pc instr tu))
      (emitted tu (__mulhu false pc instr tu)) := by
  simp only [__mulhu, emitted, tu_simps, eq_self_iff_true, if_true, Bool.false_eq_true,
    if_false]
  refine ⟨[line.label "MULHU" pc, line.sync sync_type.PRE_SYNC 3], _, _,
    rfl, rfl, rfl, ?_⟩
  simp [line.is_print_disass, List.filter_cons, apply_ite (List.filter line.is_print_disass)]

theorem __div_dis (pc instr : Nat) (tu : tu_builder) :
    disass_inserted (emitted tu (__div true pc instr tu))
      (emitted tu (__div false pc instr tu)) := by
  simp only [__div, emitted, tu_simps, eq_self_iff_true, if_true, Bool.false_eq_true,
    if_false]
  refine ⟨[line.label "DIV" pc, line.sync sync_type.PRE_SYNC 4], _, _,
    rfl, rfl, rfl, ?_⟩
  simp [line.is_print_disass, List.filter_cons, apply_ite (List.filter line.is_print_disass)]

theorem __divu_dis (pc instr : Nat) (tu : tu_builder) :
    disass_inserted (emitted tu (__divu true pc instr tu))
      (emitted tu (__divu false pc instr tu)) := by
  simp only [__divu, emitted, tu_simps, eq_self_iff_true, if_true, Bool.false_eq_true,
    if_false]
  refine ⟨[line.label "DIVU" pc, line.sync sync_type.PRE_SYNC 5], _, _,
    rfl, rfl, rfl, ?_⟩
  simp [line.is_print_disass, List.filter_cons, apply_ite (List.filter line.is_print_disass)]

theorem __rem_dis (pc instr : Nat) (tu : tu_builder) :
    disass_inserted (emitted tu (__rem true pc instr tu))
      (emitted tu (__rem false pc instr tu)) := by
  simp only [__rem, emitted, tu_simps, eq_self_iff_true, if_true, Bool.false_eq_true,
    if_false]
  refine ⟨[line.label "REM" pc, line.sync sync_type.PRE_SYNC 6], _, _,
    rfl, rfl, rfl, ?_⟩
  simp [line.is_print_disass, List.filter_cons, apply_ite (List.filter line.is_print_disass)]

theorem __remu_dis (pc instr : Nat) (tu : tu_builder) :
    disass_inserted (emitted tu (__remu true pc instr tu))
      (emitted tu (__remu false pc instr tu)) := by
  simp only [__remu, emitted, tu_simps, eq_self_iff_true, if_true, Bool.false_eq_true,
    if_false]
  refine ⟨[line.label "REMU" pc, line.sync sync_type.PRE_SYNC 7], _, _,
    rfl, rfl, rfl, ?_⟩
  simp [line.is_print_disass, List.filter_cons, apply_ite (List.filter line.is_print_disass)]

theorem __lr_w_dis (pc instr : Nat) (tu : tu_builder) :
    disass_inserted (emitted tu (__lr_w true pc instr tu))
      (emitted tu (__lr_w false pc instr tu)) := by
  simp only [__lr_w, emitted, tu_simps, eq_self_iff_true, if_true, Bool.false_eq_true,
    if_false]
  refine ⟨[line.label "LR_W" pc, line.sync sync_type.PRE_SYNC 8], _, _,
    rfl, rfl, rfl, ?_⟩
  simp [line.is_print_disass, List.filter_cons, apply_ite (List.filter line.is_print_disass)]

theorem __sc_w_dis (pc instr : Nat) (tu : tu_builder) :
    disass_inserted (emitted tu (__sc_w true pc instr tu))
      (emitted tu (__sc_w false pc instr tu)) := by
  simp only [__sc_w, emitted, tu_simps, eq_self_iff_true, if_true, Bool.false_eq_true,
    if_false]
  refine ⟨[line.label "SC_W" pc, line.sync sync_type.PRE_SYNC 9], _, _,
    rfl, rfl, rfl, ?_⟩
  simp [line.is_print_disass, List.filter_cons, apply_ite (List.filter line.is_print_disass)]

theorem __amoswap_w_dis (pc instr : Nat) (tu : tu_builder) :
    disass_inserted (emitted tu (__amoswap_w true pc instr tu))
      (emitted tu (__amoswap_w false pc instr tu)) := by
  simp only [__amoswap_w, emitted, tu_simps, eq_self_iff_true, if_true, Bool.false_eq_true,
    if_false]
  refine ⟨[line.label "AMOSWAP_W" pc, line.sync sync_type.PRE_SYNC 10], _, _,
    rfl, rfl, rfl, ?_⟩
  simp [line.is_print_disass, List.filter_cons, apply_ite (List.filter line.is_print_disass)]

theorem __amoadd_w_dis (pc instr : Nat) (tu : tu_builder) :
    disass_inserted (emitted tu (__amoadd_w true pc instr tu))
      (emitted tu (__amoadd_w false pc instr tu)) := by
  simp only [__amoadd_w, emitted, tu_simps, eq_self_iff_true, if_true, Bool.false_eq_true,
    if_false]
  refine ⟨[line.label "AMOADD_W" pc, line.sync sync_type.PRE_SYNC 11], _, _,
    rfl, rfl, rfl, ?_⟩
  simp [line.is_print_disass, List.filter_cons, apply_ite (List.filter line.is_print_disass)]

theorem __amoxor_w_dis (pc instr : Nat) (tu : tu_builder) :
    disass_inserted (emitted tu (__amoxor_w true pc instr tu))
      (emitted tu (__amoxor_w false pc instr tu)) := by
  simp only [__amoxor_w, emitted, tu_simps, eq_self_iff_true, if_true, Bool.false_eq_true,
    if_false]
  refine ⟨[line.label "AMOXOR_W" pc, line.sync sync_type.PRE_SYNC 12], _, _,
    rfl, rfl, rfl, ?_⟩
  simp [line.is_print_disass, List.filter_cons, apply_ite (List.filter line.is_print_disass)]

theorem __amoand_w_dis (pc instr : Nat) (tu : tu_builder) :
    disass_inserted (emitted tu (__amoand_w true pc instr tu))
      (emitted tu (__amoand_w false pc instr tu)) := by
  simp only [__amoand_w, emitted, tu_simps, eq_self_iff_true, if_true, Bool.false_eq_true,
    if_false]
  refine ⟨[line.label "AMOAND_W" pc, line.sync sync_type.PRE_SYNC 13], _, _,
    rfl, rfl, rfl, ?_⟩
  simp [line.is_print_disass, List.filter_cons, apply_ite (List.filter line.is_print_disass)]

theorem __amoor_w_dis (pc instr : Nat) (tu : tu_builder) :
    disass_inserted (emitted tu (__amoor_w true pc instr tu))
      (emitted tu (__amoor_w false pc instr tu)) := by
  simp only [__amoor_w, emitted, tu_simps, eq_self_iff_true, if_true, Bool.false_eq_true,
    if_false]
  refine ⟨[line.label "AMOOR_W" pc, line.sync sync_type.PRE_SYNC 14], _, _,
    rfl, rfl, rfl, ?_⟩
  simp [line.is_print_disass, List.filter_cons, apply_ite (List.filter line.is_print_disass)]

theorem __amomin_w_dis (pc instr : Nat) (tu : tu_builder) :
    disass_inserted (emitted tu (__amomin_w true pc instr tu))
      (emitted tu (__amomin_w false pc instr tu)) := by
  simp only [__amomin_w, emitted, tu_simps, eq_self_iff_true, if_true, Bool.false_eq_true,
    if_false]
  refine ⟨[line.label "AMOMIN_W" pc, line.sync sync_type.PRE_SYNC 15], _, _,
    rfl, rfl, rfl, ?_⟩
  simp [line.is_print_disass, List.filter_cons, apply_ite (List.filter line.is_print_disass)]

theorem __amomax_w_dis (pc instr : Nat) (tu : tu_builder) :
    disass_inserted (emitted tu (__amomax_w true pc instr tu))
      (emitted tu (__amomax_w false pc instr tu)) := by
  simp only [__amomax_w, emitted, tu_simps, eq_self_iff_true, if_true, Bool.false_eq_true,
    if_false]
  refine ⟨[line.label "AMOMAX_W" pc, line.sync sync_type.PRE_SYNC 16], _, _,
    rfl, rfl, rfl, ?_⟩
  simp [line.is_print_disass, List.filter_cons, apply_ite (List.filter line.is_print_disass)]

theorem __amominu_w_dis (pc instr : Nat) (tu : tu_builder) :
    disass_inserted (emitted tu (__amominu_w true pc instr tu))
      (emitted tu (__amominu_w false pc instr tu)) := by
  simp only [__amominu_w, emitted, tu_simps, eq_self_iff_true, if_true, Bool.false_eq_true,
    if_false]
  refine ⟨[line.label "AMOMINU_W" pc, line.sync sync_type.PRE_SYNC 17], _, _,
    rfl, rfl, rfl, ?_⟩
  simp [line.is_print_disass, List.filter_cons, apply_ite (List.filter line.is_print_disass)]

theorem __amomaxu_w_dis (pc instr : Nat) (tu : tu_builder) :
    disass_inserted (emitted tu (__amomaxu_w true pc instr tu))
      (emitted tu (__amomaxu_w false pc instr tu)) := by
  simp only [__amomaxu_w, emitted, tu_simps, eq_self_iff_true, if_true, Bool.false_eq_true,
    if_false]
  refine ⟨[line.label "AMOMAXU_W" pc, line.sync sync_type.PRE_SYNC 18], _, _,
    rfl, rfl, rfl, ?_⟩
  simp [line.is_print_disass, List.filter_cons, apply_ite (List.filter line.is_print_disass)]

theorem __lui_dis (pc instr : Nat) (tu : tu_builder) :
    disass_inserted (emitted tu (__lui true pc instr tu))
      (emitted tu (__lui false pc instr tu)) := by
  simp only [__lui, emitted, tu_simps, eq_self_iff_true, if_true, Bool.false_eq_true,
    if_false]
  refine ⟨[line.label "LUI" pc, line.sync sync_type.PRE_SYNC 19], _, _,
    rfl, rfl, rfl, ?_⟩
  simp [line.is_print_disass, List.filter_cons, apply_ite (List.filter line.is_print_disass)]

theorem __auipc_dis (pc instr : Nat) (tu : tu_builder) :
    disass_inserted (emitted tu (__auipc true pc instr tu))
      (emitted tu (__auipc false pc instr tu)) := by
  simp only [__auipc, emitted, tu_simps, eq_self_iff_true, if_true, Bool.false_eq_true,
    if_false]
  refine ⟨[line.label "AUIPC" pc, line.sync sync_type.PRE_SYNC 20], _, _,
    rfl, rfl, rfl, ?_⟩
  simp [line.is_print_disass, List.filter_cons, apply_ite (List.filter line.is_print_disass)]

theorem __jal_dis (pc instr : Nat) (tu : tu_builder) :
    disass_inserted (emitted tu (__jal true pc instr tu))
      (emitted tu (__jal false pc instr tu)) := by
  simp only [__jal, emitted, tu_simps, eq_self_iff_true, if_true, Bool.false_eq_true,
    if_false]
  refine ⟨[line.label "JAL" pc, line.sync sync_type.PRE_SYNC 21], _, _,
    rfl, rfl, rfl, ?_⟩
  simp [line.is_print_disass, List.filter_cons, apply_ite (List.filter line.is_print_disass)]

theorem __beq_dis (pc instr : Nat) (tu : tu_builder) :
    disass_inserted (emitted tu (__beq true pc instr tu))
      (emitted tu (__beq false pc instr tu)) := by
  simp only [__beq, emitted, tu_simps, eq_self_iff_true, if_true, Bool.false_eq_true,
    if_false]
  refine ⟨[line.label "BEQ" pc, line.sync sync_type.PRE_SYNC 22], _, _,
    rfl, rfl, rfl, ?_⟩
  simp [line.is_print_disass, List.filter_cons, apply_ite (List.filter line.is_print_disass)]

theorem __bne_dis (pc instr : Nat) (tu : tu_builder) :
    disass_inserted (emitted tu (__bne true pc instr tu))
      (emitted tu (__bne false pc instr tu)) := by
  simp only [__bne, emitted, tu_simps, eq_self_iff_true, if_true, Bool.false_eq_true,
    if_false]
  refine ⟨[line.label "BNE" pc, line.sync sync_type.PRE_SYNC 23], _, _,
    rfl, rfl, rfl, ?_⟩
  simp [line.is_print_disass, List.filter_cons, apply_ite (List.filter line.is_print_disass)]

theorem __blt_dis (pc instr : Nat) (tu : tu_builder) :
    disass_inserted (emitted tu (__blt true pc instr tu))
      (emitted tu (__blt false pc instr tu)) := by
  simp only [__blt, emitted, tu_simps, eq_self_iff_true, if_true, Bool.false_eq_true,
    if_false]
  refine ⟨[line.label "BLT" pc, line.sync sync_type.PRE_SYNC 24], _, _,
    rfl, rfl, rfl, ?_⟩
  simp [line.is_print_disass, List.filter_cons, apply_ite (List.filter line.is_print_disass)]

theorem __bge_dis (pc instr : Nat) (tu : tu_builder) :
    disass_inserted (emitted tu (__bge true pc instr tu))
      (emitted tu (__bge false pc instr tu)) := by
  simp only [__bge, emitted, tu_simps, eq_self_iff_true, if_true, Bool.false_eq_true,
    if_false]
  refine ⟨[line.label "BGE" pc, line.sync sync_type.PRE_SYNC 25], _, _,
    rfl, rfl, rfl, ?_⟩
  simp [line.is_print_disass, List.filter_cons, apply_ite (List.filter line.is_print_disass)]

theorem __bltu_dis (pc instr : Nat) (tu : tu_builder) :
    disass_inserted (emitted tu (__bltu true pc instr tu))
      (emitted tu (__bltu false pc instr tu)) := by
  simp only [__bltu, emitted, tu_simps, eq_self_iff_true, if_true, Bool.false_eq_true,
    if_false]
  refine ⟨[line.label "BLTU" pc, line.sync sync_type.PRE_SYNC 26], _, _,
    rfl, rfl, rfl, ?_⟩
  simp [line.is_print_disass, List.filter_cons, apply_ite (List.filter line.is_print_disass)]

theorem __bgeu_dis (pc instr : Nat) (tu : tu_builder) :
    disass_inserted (emitted tu (__bgeu true pc instr tu))
      (emitted tu (__bgeu false pc instr tu)) := by
  simp only [__bgeu, emitted, tu_simps, eq_self_iff_true, if_true, Bool.false_eq_true,
    if_false]
  refine ⟨[line.label "BGEU" pc, line.sync sync_type.PRE_SYNC 27], _, _,
    rfl, rfl, rfl, ?_⟩
  simp [line.is_print_disass, List.filter_cons, apply_ite (List.filter line.is_print_disass)]

theorem __lb_dis (pc instr : Nat) (tu : tu_builder) :
    disass_inserted (emitted tu (__lb true pc instr tu))
      (emitted tu (__lb false pc instr tu)) := by
  simp only [__lb, emitted, tu_simps, eq_self_iff_true, if_true, Bool.false_eq_true,
    if_false]
  refine ⟨[line.label "LB" pc, line.sync sync_type.PRE_SYNC 28], _, _,
    rfl, rfl, rfl, ?_⟩
  simp [line.is_print_disass, List.filter_cons, apply_ite (List.filter line.is_print_disass)]

theorem __lh_dis (pc instr : Nat) (tu : tu_builder) :
    disass_inserted (emitted tu (__lh true pc instr tu))
      (emitted tu (__lh false pc instr tu)) := by
  simp only [__lh, emitted, tu_simps, eq_self_iff_true, if_true, Bool.false_eq_true,
    if_false]
  refine ⟨[line.label "LH" pc, line.sync sync_type.PRE_SYNC 29], _, _,
    rfl, rfl, rfl, ?_⟩
  simp [line.is_print_disass, List.filter_cons, apply_ite (List.filter line.is_print_disass)]

theorem __lw_dis (pc instr : Nat) (tu : tu_builder) :
    disass_inserted (emitted tu (__lw true pc instr tu))
      (emitted tu (__lw false pc instr tu)) := by
  simp only [__lw, emitted, tu_simps, eq_self_iff_true, if_true, Bool.false_eq_true,
    if_false]
  refine ⟨[line.label "LW" pc, line.sync sync_type.PRE_SYNC 30], _, _,
    rfl, rfl, rfl, ?_⟩
  simp [line.is_print_disass, List.filter_cons, apply_ite (List.filter line.is_print_disass)]

theorem __lbu_dis (pc instr : Nat) (tu : tu_builder) :
    disass_inserted (emitted tu (__lbu true pc instr tu))
      (emitted tu (__lbu false pc instr tu)) := by
  simp only [__lbu, emitted, tu_simps, eq_self_iff_true, if_true, Bool.false_eq_true,
    if_false]
  refine ⟨[line.label "LBU" pc, line.sync sync_type.PRE_SYNC 31], _, _,
    rfl, rfl, rfl, ?_⟩
  simp [line.is_print_disass, List.filter_cons, apply_ite (List.filter line.is_print_disass)]

theorem __lhu_dis (pc instr : Nat) (tu : tu_builder) :
    disass_inserted (emitted tu (__lhu true pc instr tu))
      (emitted tu (__lhu false pc instr tu)) := by
  simp only [__lhu, emitted, tu_simps, eq_self_iff_true, if_true, Bool.false_eq_true,
    if_false]
  refine ⟨[line.label "LHU" pc, line.sync sync_type.PRE_SYNC 32], _, _,
    rfl, rfl, rfl, ?_⟩
  simp [line.is_print_disass, List.filter_cons, apply_ite (List.filter line.is_print_disass)]

theorem __sb_dis (pc instr : Nat) (tu : tu_builder) :
    disass_inserted (emitted tu (__sb true pc instr tu))
      (emitted tu (__sb false pc instr tu)) := by
  simp only [__sb, emitted, tu_simps, eq_self_iff_true, if_true, Bool.false_eq_true,
    if_false]
  refine ⟨[line.label "SB" pc, line.sync sync_type.PRE_SYNC 33], _, _,
    rfl, rfl, rfl, ?_⟩
  simp [line.is_print_disass, List.filter_cons, apply_ite (List.filter line.is_print_disass)]

theorem __sh_dis (pc instr : Nat) (tu : tu_builder) :
    disass_inserted (emitted tu (__sh true pc instr tu))
      (emitted tu (__sh false pc instr tu)) := by
  simp only [__sh, emitted, tu_simps, eq_self_iff_true, if_true, Bool.false_eq_true,
    if_false]
  refine ⟨[line.label "SH" pc, line.sync sync_type.PRE_SYNC 34], _, _,
    rfl, rfl, rfl, ?_⟩
  simp [line.is_print_disass, List.filter_cons, apply_ite (List.filter line.is_print_disass)]

theorem __sw_dis (pc instr : Nat) (tu : tu_builder) :
    disass_inserted (emitted tu (__sw true pc instr tu))
      (emitted tu (__sw false pc instr tu)) := by
  simp only [__sw, emitted, tu_simps, eq_self_iff_true, if_true, Bool.false_eq_true,
    if_false]
  refine ⟨[line.label "SW" pc, line.sync sync_type.PRE_SYNC 35], _, _,
    rfl, rfl, rfl, ?_⟩
  simp [line.is_print_disass, List.filter_cons, apply_ite (List.filter line.is_print_disass)]

theorem __addi_dis (pc instr : Nat) (tu : tu_builder) :
    disass_inserted (emitted tu (__addi true pc instr tu))
      (emitted tu (__addi false pc instr tu)) := by
  simp only [__addi, emitted, tu_simps, eq_self_iff_true, if_true, Bool.false_eq_true,
    if_false]
  refine ⟨[line.label "ADDI" pc, line.sync sync_type.PRE_SYNC 36], _, _,
    rfl, rfl, rfl, ?_⟩
  simp [line.is_print_disass, List.filter_cons, apply_ite (List.filter line.is_print_disass)]

theorem __slti_dis (pc instr : Nat) (tu : tu_builder) :
    disass_inserted (emitted tu (__slti true pc instr tu))
      (emitted tu (__slti false pc instr tu)) := by
  simp only [__slti, emitted, tu_simps, eq_self_iff_true, if_true, Bool.false_eq_true,
    if_false]
  refine ⟨[line.label "SLTI" pc, line.sync sync_type.PRE_SYNC 37], _, _,
    rfl, rfl, rfl, ?_⟩
  simp [line.is_print_disass, List.filter_cons, apply_ite (List.filter line.is_print_disass)]

theorem __sltiu_dis (pc instr : Nat) (tu : tu_builder) :
    disass_inserted (emitted tu (__sltiu true pc instr tu))
      (emitted tu (__sltiu false pc instr tu)) := by
  simp only [__sltiu, emitted, tu_simps, eq_self_iff_true, if_true, Bool.false_eq_true,
    if_false]
  refine ⟨[line.label "SLTIU" pc, line.sync sync_type.PRE_SYNC 38], _, _,
    rfl, rfl, rfl, ?_⟩
  simp [line.is_print_disass, List.filter_cons, apply_ite (List.filter line.is_print_disass)]

theorem __xori_dis (pc instr : Nat) (tu : tu_builder) :
    disass_inserted (emitted tu (__xori true pc instr tu))
      (emitted tu (__xori false pc instr tu)) := by
  simp only [__xori, emitted, tu_simps, eq_self_iff_true, if_true, Bool.false_eq_true,
    if_false]
  refine ⟨[line.label "XORI" pc, line.sync sync_type.PRE_SYNC 39], _, _,
    rfl, rfl, rfl, ?_⟩
  simp [line.is_print_disass, List.filter_cons, apply_ite (List.filter line.is_print_disass)]

theorem __ori_dis (pc instr : Nat) (tu : tu_builder) :
    disass_inserted (emitted tu (__ori true pc instr tu))
      (emitted tu (__ori false pc instr tu)) := by
  simp only [__ori, emitted, tu_simps, eq_self_iff_true, if_true, Bool.false_eq_true,
    if_false]
  refine ⟨[line.label "ORI" pc, line.sync sync_type.PRE_SYNC 40], _, _,
    rfl, rfl, rfl, ?_⟩
  simp [line.is_print_disass, List.filter_cons, apply_ite (List.filter line.is_print_disass)]

theorem __andi_dis (pc instr : Nat) (tu : tu_builder) :
    disass_inserted (emitted tu (__andi true pc instr tu))
      (emitted tu (__andi false pc instr tu)) := by
  simp only [__andi, emitted, tu_simps, eq_self_iff_true, if_true, Bool.false_eq_true,
    if_false]
  refine ⟨[line.label "ANDI" pc, line.sync sync_type.PRE_SYNC 41], _, _,
    rfl, rfl, rfl, ?_⟩
  simp [line.is_print_disass, List.filter_cons, apply_ite (List.filter line.is_print_disass)]

theorem __slli_dis (pc instr : Nat) (tu : tu_builder) :
    disass_inserted (emitted tu (__slli true pc instr tu))
      (emitted tu (__slli false pc instr tu)) := by
  simp only [__slli, emitted, tu_simps, eq_self_iff_true, if_true, Bool.false_eq_true,
    if_false]
  refine ⟨[line.label "SLLI" pc, line.sync sync_type.PRE_SYNC 42], _, _,
    rfl, rfl, rfl, ?_⟩
  simp [line.is_print_disass, List.filter_cons, apply_ite (List.filter line.is_print_disass)]

theorem __srli_dis (pc instr : Nat) (tu : tu_builder) :
    disass_inserted (emitted tu (__srli true pc instr tu))
      (emitted tu (__srli false pc instr tu)) := by
  simp only [__srli, emitted, tu_simps, eq_self_iff_true, if_true, Bool.false_eq_true,
    if_false]
  refine ⟨[line.label "SRLI" pc, line.sync sync_type.PRE_SYNC 43], _, _,
    rfl, rfl, rfl, ?_⟩
  simp [line.is_print_disass, List.filter_cons, apply_ite (List.filter line.is_print_disass)]

theorem __srai_dis (pc instr : Nat) (tu : tu_builder) :
    disass_inserted (emitted tu (__srai true pc instr tu))
      (emitted tu (__srai false pc instr tu)) := by
  simp only [__srai, emitted, tu_simps, eq_self_iff_true, if_true, Bool.false_eq_true,
    if_false]
  refine ⟨[line.label "SRAI" pc, line.sync sync_type.PRE_SYNC 44], _, _,
    rfl, rfl, rfl, ?_⟩
  simp [line.is_print_disass, List.filter_cons, apply_ite (List.filter line.is_print_disass)]

theorem __add_dis (pc instr : Nat) (tu : tu_builder) :
    disass_inserted (emitted tu (__add true pc instr tu))
      (emitted tu (__add false pc instr tu)) := by
  simp only [__add, emitted, tu_simps, eq_self_iff_true, if_true, Bool.false_eq_true,
    if_false]
  refine ⟨[line.label "ADD" pc, line.sync sync_type.PRE_SYNC 45], _, _,
    rfl, rfl, rfl, ?_⟩
  simp [line.is_print_disass, List.filter_cons, apply_ite (List.filter line.is_print_disass)]

theorem __sub_dis (pc instr : Nat) (tu : tu_builder) :
    disass_inserted (emitted tu (__sub true pc instr tu))
      (emitted tu (__sub false pc instr tu)) := by
  simp only [__sub, emitted, tu_simps, eq_self_iff_true, if_true, Bool.false_eq_true,
    if_false]
  refine ⟨[line.label "SUB" pc, line.sync sync_type.PRE_SYNC 46], _, _,
    rfl, rfl, rfl, ?_⟩
  simp [line.is_print_disass, List.filter_cons, apply_ite (List.filter line.is_print_disass)]

theorem __sll_dis (pc instr : Nat) (tu : tu_builder) :
    disass_inserted (emitted tu (__sll true pc instr tu))
      (emitted tu (__sll false pc instr tu)) := by
  simp only [__sll, emitted, tu_simps, eq_self_iff_true, if_true, Bool.false_eq_true,
    if_false]
  refine ⟨[line.label "SLL" pc, line.sync sync_type.PRE_SYNC 47], _, _,
    rfl, rfl, rfl, ?_⟩
  simp [line.is_print_disass, List.filter_cons, apply_ite (List.filter line.is_print_disass)]

theorem __slt_dis (pc instr : Nat) (tu : tu_builder) :
    disass_inserted (emitted tu (__slt true pc instr tu))
      (emitted tu (__slt false pc instr tu)) := by
  simp only [__slt, emitted, tu_simps, eq_self_iff_true, if_true, Bool.false_eq_true,
    if_false]
  refine ⟨[line.label "SLT" pc, line.sync sync_type.PRE_SYNC 48], _, _,
    rfl, rfl, rfl, ?_⟩
  simp [line.is_print_disass, List.filter_cons, apply_ite (List.filter line.is_print_disass)]

theorem __sltu_dis (pc instr : Nat) (tu : tu_builder) :
    disass_inserted (emitted tu (__sltu true pc instr tu))
      (emitted tu (__sltu false pc instr tu)) := by
  simp only [__sltu, emitted, tu_simps, eq_self_iff_true, if_true, Bool.false_eq_true,
    if_false]
  refine ⟨[line.label "SLTU" pc, line.sync sync_type.PRE_SYNC 49], _, _,
    rfl, rfl, rfl, ?_⟩
  simp [line.is_print_disass, List.filter_cons, apply_ite (List.filter line.is_print_disass)]

theorem __xor_dis (pc instr : Nat) (tu : tu_builder) :
    disass_inserted (emitted tu (__xor true pc instr tu))
      (emitted tu (__xor false pc instr tu)) := by
  simp only [__xor, emitted, tu_simps, eq_self_iff_true, if_true, Bool.false_eq_true,
    if_false]
  refine ⟨[line.label "XOR" pc, line.sync sync_type.PRE_SYNC 50], _, _,
    rfl, rfl, rfl, ?_⟩
  simp [line.is_print_disass, List.filter_cons, apply_ite (List.filter line.is_print_disass)]

theorem __srl_dis (pc instr : Nat) (tu : tu_builder) :
    disass_inserted (emitted tu (__srl true pc instr tu))
      (emitted tu (__srl false pc instr tu)) := by
  simp only [__srl, emitted, tu_simps, eq_self_iff_true, if_true, Bool.false_eq_true,
    if_false]
  refine ⟨[line.label "SRL" pc, line.sync sync_type.PRE_SYNC 51], _, _,
    rfl, rfl, rfl, ?_⟩
  simp [line.is_print_disass, List.filter_cons, apply_ite (List.filter line.is_print_disass)]

theorem __sra_dis (pc instr : Nat) (tu : tu_builder) :
    disass_inserted (emitted tu (__sra true pc instr tu))
      (emitted tu (__sra false pc instr tu)) := by
  simp only [__sra, emitted, tu_simps, eq_self_iff_true, if_true, Bool.false_eq_true,
    if_false]
  refine ⟨[line.label "SRA" pc, line.sync sync_type.PRE_SYNC 52], _, _,
    rfl, rfl, rfl, ?_⟩
  simp [line.is_print_disass, List.filter_cons, apply_ite (List.filter line.is_print_disass)]

theorem __or_dis (pc instr : Nat) (tu : tu_builder) :
    disass_inserted (emitted tu (__or true pc instr tu))
      (emitted tu (__or false pc instr tu)) := by
  simp only [__or, emitted, tu_simps, eq_self_iff_true, if_true, Bool.false_eq_true,
    if_false]
  refine ⟨[line.label "OR" pc, line.sync sync_type.PRE_SYNC 53], _, _,
    rfl, rfl, rfl, ?_⟩
  simp [line.is_print_disass, List.filter_cons, apply_ite (List.filter line.is_print_disass)]

theorem __and_dis (pc instr : Nat) (tu : tu_builder) :
    disass_inserted (emitted tu (__and true pc instr tu))
      (emitted tu (__and false pc instr tu)) := by
  simp only [__and, emitted, tu_simps, eq_self_iff_true, if_true, Bool.false_eq_true,
    if_false]
  refine ⟨[line.label "AND" pc, line.sync sync_type.PRE_SYNC 54], _, _,
    rfl, rfl, rfl, ?_⟩
  simp [line.is_print_disass, List.filter_cons, apply_ite (List.filter line.is_print_disass)]

theorem __fence_dis (pc instr : Nat) (tu : tu_builder) :
    disass_inserted (emitted tu (__fence true pc instr tu))
      (emitted tu (__fence false pc instr tu)) := by
  simp only [__fence, emitted, tu_simps, eq_self_iff_true, if_true, Bool.false_eq_true,
    if_false]
  refine ⟨[line.label "FENCE" pc, line.sync sync_type.PRE_SYNC 55], _, _,
    rfl, rfl, rfl, ?_⟩
  simp [line.is_print_disass, List.filter_cons, apply_ite (List.filter line.is_print_disass)]

theorem __fence_i_dis (pc instr : Nat) (tu : tu_builder) :
    disass_inserted (emitted tu (__fence_i true pc instr tu))
      (emitted tu (__fence_i false pc instr tu)) := by
  simp only [__fence_i, emitted, tu_simps, eq_self_iff_true, if_true, Bool.false_eq_true,
    if_false]
  refine ⟨[line.label "FENCE_I" pc, line.sync sync_type.PRE_SYNC 56], _, _,
    rfl, rfl, rfl, ?_⟩
  simp [line.is_print_disass, List.filter_cons, apply_ite (List.filter line.is_print_disass)]

theorem __ecall_dis (pc instr : Nat) (tu : tu_builder) :
    disass_inserted (emitted tu (__ecall true pc instr tu))
      (emitted tu (__ecall false pc instr tu)) := by
  simp only [__ecall, emitted, tu_simps, eq_self_iff_true, if_true, Bool.false_eq_true,
    if_false]
  refine ⟨[line.label "ECALL" pc, line.sync sync_type.PRE_SYNC 57], _, _,
    rfl, rfl, rfl, ?_⟩
  simp [line.is_print_disass, List.filter_cons, apply_ite (List.filter line.is_print_disass)]

theorem __ebreak_dis (pc instr : Nat) (tu : tu_builder) :
    disass_inserted (emitted tu (__ebreak true pc instr tu))
      (emitted tu (__ebreak false pc instr tu)) := by
  simp only [__ebreak, emitted, tu_simps, eq_self_iff_true, if_true, Bool.false_eq_true,
    if_false]
  refine ⟨[line.label "EBREAK" pc, line.sync sync_type.PRE_SYNC 58], _, _,
    rfl, rfl, rfl, ?_⟩
  simp [line.is_print_disass, List.filter_cons, apply_ite (List.filter line.is_print_disass)]

theorem __uret_dis (pc instr : Nat) (tu : tu_builder) :
    disass_inserted (emitted tu (__uret true pc instr tu))
      (emitted tu (__uret false pc instr tu)) := by
  simp only [__uret, emitted, tu_simps, eq_self_iff_true, if_true, Bool.false_eq_true,
    if_false]
  refine ⟨[line.label "URET" pc, line.sync sync_type.PRE_SYNC 59], _, _,
    rfl, rfl, rfl, ?_⟩
  simp [line.is_print_disass, List.filter_cons, apply_ite (List.filter line.is_print_disass)]

theorem __sret_dis (pc instr : Nat) (tu : tu_builder) :
    disass_inserted (emitted tu (__sret true pc instr tu))
      (emitted tu (__sret false pc instr tu)) := by
  simp only [__sret, emitted, tu_simps, eq_self_iff_true, if_true, Bool.false_eq_true,
    if_false]
  refine ⟨[line.label "SRET" pc, line.sync sync_type.PRE_SYNC 60], _, _,
    rfl, rfl, rfl, ?_⟩
  simp [line.is_print_disass, List.filter_cons, apply_ite (List.filter line.is_print_disass)]

theorem __mret_dis (pc instr : Nat) (tu : tu_builder) :
    disass_inserted (emitted tu (__mret true pc instr tu))
      (emitted tu (__mret false pc instr tu)) := by
  simp only [__mret, emitted, tu_simps, eq_self_iff_true, if_true, Bool.false_eq_true,
    if_false]
  refine ⟨[line.label "MRET" pc, line.sync sync_type.PRE_SYNC 61], _, _,
    rfl, rfl, rfl, ?_⟩
  simp [line.is_print_disass, List.filter_cons, apply_ite (List.filter line.is_print_disass)]

theorem __wfi_dis (pc instr : Nat) (tu : tu_builder) :
    disass_inserted (emitted tu (__wfi true pc instr tu))
      (emitted tu (__wfi false pc instr tu)) := by
  simp only [__wfi, emitted, tu_simps, eq_self_iff_true, if_true, Bool.false_eq_true,
    if_false]
  refine ⟨[line.label "WFI" pc, line.sync sync_type.PRE_SYNC 62], _, _,
    rfl, rfl, rfl, ?_⟩
  simp [line.is_print_disass, List.filter_cons, apply_ite (List.filter line.is_print_disass)]

theorem __sfence_vma_dis (pc instr : Nat) (tu : tu_builder) :
    disass_inserted (emitted tu (__sfence_vma true pc instr tu))
      (emitted tu (__sfence_vma false pc instr tu)) := by
  simp only [__sfence_vma, emitted, tu_simps, eq_self_iff_true, if_true, Bool.false_eq_true,
    if_false]
  refine ⟨[line.label "SFENCE_VMA" pc, line.sync sync_type.PRE_SYNC 63], _, _,
    rfl, rfl, rfl, ?_⟩
  simp [line.is_print_disass, List.filter_cons, apply_ite (List.filter line.is_print_disass)]

theorem __csrrw_dis (pc instr : Nat) (tu : tu_builder) :
    disass_inserted (emitted tu (__csrrw true pc instr tu))
      (emitted tu (__csrrw false pc instr tu)) := by
  simp only [__csrrw, emitted, tu_simps, eq_self_iff_true, if_true, Bool.false_eq_true,
    if_false]
  refine ⟨[line.label "CSRRW" pc, line.sync sync_type.PRE_SYNC 64], _, _,
    rfl, rfl, rfl, ?_⟩
  simp [line.is_print_disass, List.filter_cons, apply_ite (List.filter line.is_print_disass)]

theorem __csrrs_dis (pc instr : Nat) (tu : tu_builder) :
    disass_inserted (emitted tu (__csrrs true pc instr tu))
      (emitted tu (__csrrs false pc instr tu)) := by
  simp only [__csrrs, emitted, tu_simps, eq_self_iff_true, if_true, Bool.false_eq_true,
    if_false]
  refine ⟨[line.label "CSRRS" pc, line.sync sync_type.PRE_SYNC 65], _, _,
    rfl, rfl, rfl, ?_⟩
  simp [line.is_print_disass, List.filter_cons, apply_ite (List.filter line.is_print_disass)]

theorem __csrrc_dis (pc instr : Nat) (tu : tu_builder) :
    disass_inserted (emitted tu (__csrrc true pc instr tu))
      (emitted tu (__csrrc false pc instr tu)) := by
  simp only [__csrrc, emitted, tu_simps, eq_self_iff_true, if_true, Bool.false_eq_true,
    if_false]
  refine ⟨[line.label "CSRRC" pc, line.sync sync_type.PRE_SYNC 66], _, _,
    rfl, rfl, rfl, ?_⟩
  simp [line.is_print_disass, List.filter_cons, apply_ite (List.filter line.is_print_disass)]

theorem __csrrwi_dis (pc instr : Nat) (tu : tu_builder) :
    disass_inserted (emitted tu (__csrrwi true pc instr tu))
      (emitted tu (__csrrwi false pc instr tu)) := by
  simp only [__csrrwi, emitted, tu_simps, eq_self_iff_true, if_true, Bool.false_eq_true,
    if_false]
  refine ⟨[line.label "CSRRWI" pc, line.sync sync_type.PRE_SYNC 67], _, _,
    rfl, rfl, rfl, ?_⟩
  simp [line.is_print_disass, List.filter_cons, apply_ite (List.filter line.is_print_disass)]

theorem __csrrsi_dis (pc instr : Nat) (tu : tu_builder) :
    disass_inserted (emitted tu (__csrrsi true pc instr tu))
      (emitted tu (__csrrsi false pc instr tu)) := by
  simp only [__csrrsi, emitted, tu_simps, eq_self_iff_true, if_true, Bool.false_eq_true,
    if_false]
  refine ⟨[line.label "CSRRSI" pc, line.sync sync_type.PRE_SYNC 68], _, _,
    rfl, rfl, rfl, ?_⟩
  simp [line.is_print_disass, List.filter_cons, apply_ite (List.filter line.is_print_disass)]

theorem __csrrci_dis (pc instr : Nat) (tu : tu_builder) :
    disass_inserted (emitted tu (__csrrci true pc instr tu))
      (emitted tu (__csrrci false pc instr tu)) := by
  simp only [__csrrci, emitted, tu_simps, eq_self_iff_true, if_true, Bool.false_eq_true,
    if_false]
  refine ⟨[line.label "CSRRCI" pc, line.sync sync_type.PRE_SYNC 69], _, _,
    rfl, rfl, rfl, ?_⟩
  simp [line.is_print_disass, List.filter_cons, apply_ite (List.filter line.is_print_disass)]

theorem __flw_dis (pc instr : Nat) (tu : tu_builder) :
    disass_inserted (emitted tu (__flw true pc instr tu))
      (emitted tu (__flw false pc instr tu)) := by
  simp only [__flw, emitted, tu_simps, eq_self_iff_true, if_true, Bool.false_eq_true,
    if_false]
  refine ⟨[line.label "FLW" pc, line.sync sync_type.PRE_SYNC 70], _, _,
    rfl, rfl, rfl, ?_⟩
  simp [line.is_print_disass, List.filter_cons, apply_ite (List.filter line.is_print_disass)]

theorem __fsw_dis (pc instr : Nat) (tu : tu_builder) :
    disass_inserted (emitted tu (__fsw true pc instr tu))
      (emitted tu (__fsw false pc instr tu)) := by
  simp only [__fsw, emitted, tu_simps, eq_self_iff_true, if_true, Bool.false_eq_true,
    if_false]
  refine ⟨[line.label "FSW" pc, line.sync sync_type.PRE_SYNC 71], _, _,
    rfl, rfl, rfl, ?_⟩
  simp [line.is_print_disass, List.filter_cons, apply_ite (List.filter line.is_print_disass)]

theorem __fmadd_s_dis (pc instr : Nat) (tu : tu_builder) :
    disass_inserted (emitted tu (__fmadd_s true pc instr tu))
      (emitted tu (__fmadd_s false pc instr tu)) := by
  simp only [__fmadd_s, emitted, tu_simps, eq_self_iff_true, if_true, Bool.false_eq_true,
    if_false]
  refine ⟨[line.label "FMADD_S" pc, line.sync sync_type.PRE_SYNC 72], _, _,
    rfl, rfl, rfl, ?_⟩
  simp [line.is_print_disass, List.filter_cons, apply_ite (List.filter line.is_print_disass)]

theorem __fmsub_s_dis (pc instr : Nat) (tu : tu_builder) :
    disass_inserted (emitted tu (__fmsub_s true pc instr tu))
      (emitted tu (__fmsub_s false pc instr tu)) := by
  simp only [__fmsub_s, emitted, tu_simps, eq_self_iff_true, if_true, Bool.false_eq_true,
    if_false]
  refine ⟨[line.label "FMSUB_S" pc, line.sync sync_type.PRE_SYNC 73], _, _,
    rfl, rfl, rfl, ?_⟩
  simp [line.is_print_disass, List.filter_cons, apply_ite (List.filter line.is_print_disass)]

theorem __fnmadd_s_dis (pc instr : Nat) (tu : tu_builder) :
    disass_inserted (emitted tu (__fnmadd_s true pc instr tu))
      (emitted tu (__fnmadd_s false pc instr tu)) := by
  simp only [__fnmadd_s, emitted, tu_simps, eq_self_iff_true, if_true, Bool.false_eq_true,
    if_false]
  refine ⟨[line.label "FNMADD_S" pc, line.sync sync_type.PRE_SYNC 74], _, _,
    rfl, rfl, rfl, ?_⟩
  simp [line.is_print_disass, List.filter_cons, apply_ite (List.filter line.is_print_disass)]

theorem __fnmsub_s_dis (pc instr : Nat) (tu : tu_builder) :
    disass_inserted (emitted tu (__fnmsub_s true pc instr tu))
      (emitted tu (__fnmsub_s false pc instr tu)) := by
  simp only [__fnmsub_s, emitted, tu_simps, eq_self_iff_true, if_true, Bool.false_eq_true,
    if_false]
  refine ⟨[line.label "FNMSUB_S" pc, line.sync sync_type.PRE_SYNC 75], _, _,
    rfl, rfl, rfl, ?_⟩
  simp [line.is_print_disass, List.filter_cons, apply_ite (List.filter line.is_print_disass)]

theorem __fadd_s_dis (pc instr : Nat) (tu : tu_builder) :
    disass_inserted (emitted tu (__fadd_s true pc instr tu))
      (emitted tu (__fadd_s false pc instr tu)) := by
  simp only [__fadd_s, emitted, tu_simps, eq_self_iff_true, if_true, Bool.false_eq_true,
    if_false]
  refine ⟨[line.label "FADD_S" pc, line.sync sync_type.PRE_SYNC 76], _, _,
    rfl, rfl, rfl, ?_⟩
  simp [line.is_print_disass, List.filter_cons, apply_ite (List.filter line.is_print_disass)]

theorem __fsub_s_dis (pc instr : Nat) (tu : tu_builder) :
    disass_inserted (emitted tu (__fsub_s true pc instr tu))
      (emitted tu (__fsub_s false pc instr tu)) := by
  simp only [__fsub_s, emitted, tu_simps, eq_self_iff_true, if_true, Bool.false_eq_true,
    if_false]
  refine ⟨[line.label "FSUB_S" pc, line.sync sync_type.PRE_SYNC 77], _, _,
    rfl, rfl, rfl, ?_⟩
  simp [line.is_print_disass, List.filter_cons, apply_ite (List.filter line.is_print_disass)]

theorem __fmul_s_dis (pc instr : Nat) (tu : tu_builder) :
    disass_inserted (emitted tu (__fmul_s true pc instr tu))
      (emitted tu (__fmul_s false pc instr tu)) := by
  simp only [__fmul_s, emitted, tu_simps, eq_self_iff_true, if_true, Bool.false_eq_true,
    if_false]
  refine ⟨[line.label "FMUL_S" pc, line.sync sync_type.PRE_SYNC 78], _, _,
    rfl, rfl, rfl, ?_⟩
  simp [line.is_print_disass, List.filter_cons, apply_ite (List.filter line.is_print_disass)]

theorem __fdiv_s_dis (pc instr : Nat) (tu : tu_builder) :
    disass_inserted (emitted tu (__fdiv_s true pc instr tu))
      (emitted tu (__fdiv_s false pc instr tu)) := by
  simp only [__fdiv_s, emitted, tu_simps, eq_self_iff_true, if_true, Bool.false_eq_true,
    if_false]
  refine ⟨[line.label "FDIV_S" pc, line.sync sync_type.PRE_SYNC 79], _, _,
    rfl, rfl, rfl, ?_⟩
  simp [line.is_print_disass, List.filter_cons, apply_ite (List.filter line.is_print_disass)]

theorem __fsqrt_s_dis (pc instr : Nat) (tu : tu_builder) :
    disass_inserted (emitted tu (__fsqrt_s true pc instr tu))
      (emitted tu (__fsqrt_s false pc instr tu)) := by
  simp only [__fsqrt_s, emitted, tu_simps, eq_self_iff_true, if_true, Bool.false_eq_true,
    if_false]
  refine ⟨[line.label "FSQRT_S" pc, line.sync sync_type.PRE_SYNC 80], _, _,
    rfl, rfl, rfl, ?_⟩
  simp [line.is_print_disass, List.filter_cons, apply_ite (List.filter line.is_print_disass)]

theorem __fsgnj_s_dis (pc instr : Nat) (tu : tu_builder) :
    disass_inserted (emitted tu (__fsgnj_s true pc instr tu))
      (emitted tu (__fsgnj_s false pc instr tu)) := by
  simp only [__fsgnj_s, emitted, tu_simps, eq_self_iff_true, if_true, Bool.false_eq_true,
    if_false]
  refine ⟨[line.label "FSGNJ_S" pc, line.sync sync_type.PRE_SYNC 81], _, _,
    rfl, rfl, rfl, ?_⟩
  simp [line.is_print_disass, List.filter_cons, apply_ite (List.filter line.is_print_disass)]

theorem __fsgnjn_s_dis (pc instr : Nat) (tu : tu_builder) :
    disass_inserted (emitted tu (__fsgnjn_s true pc instr tu))
      (emitted tu (__fsgnjn_s false pc instr tu)) := by
  simp only [__fsgnjn_s, emitted, tu_simps, eq_self_iff_true, if_true, Bool.false_eq_true,
    if_false]
  refine ⟨[line.label "FSGNJN_S" pc, line.sync sync_type.PRE_SYNC 82], _, _,
    rfl, rfl, rfl, ?_⟩
  simp [line.is_print_disass, List.filter_cons, apply_ite (List.filter line.is_print_disass)]

theorem __fsgnjx_s_dis (pc instr : Nat) (tu : tu_builder) :
    disass_inserted (emitted tu (__fsgnjx_s true pc instr tu))
      (emitted tu (__fsgnjx_s false pc instr tu)) := by
  simp only [__fsgnjx_s, emitted, tu_simps, eq_self_iff_true, if_true, Bool.false_eq_true,
    if_false]
  refine ⟨[line.label "FSGNJX_S" pc, line.sync sync_type.PRE_SYNC 83], _, _,
    rfl, rfl, rfl, ?_⟩
  simp [line.is_print_disass, List.filter_cons, apply_ite (List.filter line.is_print_disass)]

theorem __fmin_s_dis (pc instr : Nat) (tu : tu_builder) :
    disass_inserted (emitted tu (__fmin_s true pc instr tu))
      (emitted tu (__fmin_s false pc instr tu)) := by
  simp only [__fmin_s, emitted, tu_simps, eq_self_iff_true, if_true, Bool.false_eq_true,
    if_false]
  refine ⟨[line.label "FMIN_S" pc, line.sync sync_type.PRE_SYNC 84], _, _,
    rfl, rfl, rfl, ?_⟩
  simp [line.is_print_disass, List.filter_cons, apply_ite (List.filter line.is_print_disass)]

theorem __fmax_s_dis (pc instr : Nat) (tu : tu_builder) :
    disass_inserted (emitted tu (__fmax_s true pc instr tu))
      (emitted tu (__fmax_s false pc instr tu)) := by
  simp only [__fmax_s, emitted, tu_simps, eq_self_iff_true, if_true, Bool.false_eq_true,
    if_false]
  refine ⟨[line.label "FMAX_S" pc, line.sync sync_type.PRE_SYNC 85], _, _,
    rfl, rfl, rfl, ?_⟩
  simp [line.is_print_disass, List.filter_cons, apply_ite (List.filter line.is_print_disass)]

theorem __fcvt_w_s_dis (pc instr : Nat) (tu : tu_builder) :
    disass_inserted (emitted tu (__fcvt_w_s true pc instr tu))
      (emitted tu (__fcvt_w_s false pc instr tu)) := by
  simp only [__fcvt_w_s, emitted, tu_simps, eq_self_iff_true, if_true, Bool.false_eq_true,
    if_false]
  refine ⟨[line.label "FCVT_W_S" pc, line.sync sync_type.PRE_SYNC 86], _, _,
    rfl, rfl, rfl, ?_⟩
  simp [line.is_print_disass, List.filter_cons, apply_ite (List.filter line.is_print_disass)]

theorem __fcvt_wu_s_dis (pc instr : Nat) (tu : tu_builder) :
    disass_inserted (emitted tu (__fcvt_wu_s true pc instr tu))
      (emitted tu (__fcvt_wu_s false pc instr tu)) := by
  simp only [__fcvt_wu_s, emitted, tu_simps, eq_self_iff_true, if_true, Bool.false_eq_true,
    if_false]
  refine ⟨[line.label "FCVT_WU_S" pc, line.sync sync_type.PRE_SYNC 87], _, _,
    rfl, rfl, rfl, ?_⟩
  simp [line.is_print_disass, List.filter_cons, apply_ite (List.filter line.is_print_disass)]

theorem __feq_s_dis (pc instr : Nat) (tu : tu_builder) :
    disass_inserted (emitted tu (__feq_s true pc instr tu))
      (emitted tu (__feq_s false pc instr tu)) := by
  simp only [__feq_s, emitted, tu_simps, eq_self_iff_true, if_true, Bool.false_eq_true,
    if_false]
  refine ⟨[line.label "FEQ_S" pc, line.sync sync_type.PRE_SYNC 88], _, _,
    rfl, rfl, rfl, ?_⟩
  simp [line.is_print_disass, List.filter_cons, apply_ite (List.filter line.is_print_disass)]

theorem __flt_s_dis (pc instr : Nat) (tu : tu_builder) :
    disass_inserted (emitted tu (__flt_s true pc instr tu))
      (emitted tu (__flt_s false pc instr tu)) := by
  simp only [__flt_s, emitted, tu_simps, eq_self_iff_true, if_true, Bool.false_eq_true,
    if_false]
  refine ⟨[line.label "FLT_S" pc, line.sync sync_type.PRE_SYNC 89], _, _,
    rfl, rfl, rfl, ?_⟩
  simp [line.is_print_disass, List.filter_cons, apply_ite (List.filter line.is_print_disass)]

theorem __fle_s_dis (pc instr : Nat) (tu : tu_builder) :
    disass_inserted (emitted tu (__fle_s true pc instr tu))
      (emitted tu (__fle_s false pc instr tu)) := by
  simp only [__fle_s, emitted, tu_simps, eq_self_iff_true, if_true, Bool.false_eq_true,
    if_false]
  refine ⟨[line.label "FLE_S" pc, line.sync sync_type.PRE_SYNC 90], _, _,
    rfl, rfl, rfl, ?_⟩
  simp [line.is_print_disass, List.filter_cons, apply_ite (List.filter line.is_print_disass)]

theorem __fclass_s_dis (pc instr : Nat) (tu : tu_builder) :
    disass_inserted (emitted tu (__fclass_s true pc instr tu))
      (emitted tu (__fclass_s false pc instr tu)) := by
  simp only [__fclass_s, emitted, tu_simps, eq_self_iff_true, if_true, Bool.false_eq_true,
    if_false]
  refine ⟨[line.label "FCLASS_S" pc, line.sync sync_type.PRE_SYNC 91], _, _,
    rfl, rfl, rfl, ?_⟩
  simp [line.is_print_disass, List.filter_cons, apply_ite (List.filter line.is_print_disass)]

theorem __fcvt_s_w_dis (pc instr : Nat) (tu : tu_builder) :
    disass_inserted (emitted tu (__fcvt_s_w true pc instr tu))
      (emitted tu (__fcvt_s_w false pc instr tu)) := by
  simp only [__fcvt_s_w, emitted, tu_simps, eq_self_iff_true, if_true, Bool.false_eq_true,
    if_false]
  refine ⟨[line.label "FCVT_S_W" pc, line.sync sync_type.PRE_SYNC 92], _, _,
    rfl, rfl, rfl, ?_⟩
  simp [line.is_print_disass, List.filter_cons, apply_ite (List.filter line.is_print_disass)]

theorem __fcvt_s_wu_dis (pc instr : Nat) (tu : tu_builder) :
    disass_inserted (emitted tu (__fcvt_s_wu true pc instr tu))
      (emitted tu (__fcvt_s_wu false pc instr tu)) := by
  simp only [__fcvt_s_wu, emitted, tu_simps, eq_self_iff_true, if_true, Bool.false_eq_true,
    if_false]
  refine ⟨[line.label "FCVT_S_WU" pc, line.sync sync_type.PRE_SYNC 93], _, _,
    rfl, rfl, rfl, ?_⟩
  simp [line.is_print_disass, List.filter_cons, apply_ite (List.filter line.is_print_disass)]

theorem __fmv_x_w_dis (pc instr : Nat) (tu : tu_builder) :
    disass_inserted (emitted tu (__fmv_x_w true pc instr tu))
      (emitted tu (__fmv_x_w false pc instr tu)) := by
  simp only [__fmv_x_w, emitted, tu_simps, eq_self_iff_true, if_true, Bool.false_eq_true,
    if_false]
  refine ⟨[line.label "FMV_X_W" pc, line.sync sync_type.PRE_SYNC 94], _, _,
    rfl, rfl, rfl, ?_⟩
  simp [line.is_print_disass, List.filter_cons, apply_ite (List.filter line.is_print_disass)]

theorem __fmv_w_x_dis (pc instr : Nat) (tu : tu_builder) :
    disass_inserted (emitted tu (__fmv_w_x true pc instr tu))
      (emitted tu (__fmv_w_x false pc instr tu)) := by
  simp only [__fmv_w_x, emitted, tu_simps, eq_self_iff_true, if_true, Bool.false_eq_true,
    if_false]
  refine ⟨[line.label "FMV_W_X" pc, line.sync sync_type.PRE_SYNC 95], _, _,
    rfl, rfl, rfl, ?_⟩
  simp [line.is_print_disass, List.filter_cons, apply_ite (List.filter line.is_print_disass)]

theorem __fld_dis (pc instr : Nat) (tu : tu_builder) :
    disass_inserted (emitted tu (__fld true pc instr tu))
      (emitted tu (__fld false pc instr tu)) := by
  simp only [__fld, emitted, tu_simps, eq_self_iff_true, if_true, Bool.false_eq_true,
    if_false]
  refine ⟨[line.label "FLD" pc, line.sync sync_type.PRE_SYNC 96], _, _,
    rfl, rfl, rfl, ?_⟩
  simp [line.is_print_disass, List.filter_cons, apply_ite (List.filter line.is_print_disass)]

theorem __fsd_dis (pc instr : Nat) (tu : tu_builder) :
    disass_inserted (emitted tu (__fsd true pc instr tu))
      (emitted tu (__fsd false pc instr tu)) := by
  simp only [__fsd, emitted, tu_simps, eq_self_iff_true, if_true, Bool.false_eq_true,
    if_false]
  refine ⟨[line.label "FSD" pc, line.sync sync_type.PRE_SYNC 97], _, _,
    rfl, rfl, rfl, ?_⟩
  simp [line.is_print_disass, List.filter_cons, apply_ite (List.filter line.is_print_disass)]

theorem __fmadd_d_dis (pc instr : Nat) (tu : tu_builder) :
    disass_inserted (emitted tu (__fmadd_d true pc instr tu))
      (emitted tu (__fmadd_d false pc instr tu)) := by
  simp only [__fmadd_d, emitted, tu_simps, eq_self_iff_true, if_true, Bool.false_eq_true,
    if_false]
  refine ⟨[line.label "FMADD_D" pc, line.sync sync_type.PRE_SYNC 98], _, _,
    rfl, rfl, rfl, ?_⟩
  simp [line.is_print_disass, List.filter_cons, apply_ite (List.filter line.is_print_disass)]

theorem __fmsub_d_dis (pc instr : Nat) (tu : tu_builder) :
    disass_inserted (emitted tu (__fmsub_d true pc instr tu))
      (emitted tu (__fmsub_d false pc instr tu)) := by
  simp only [__fmsub_d, emitted, tu_simps, eq_self_iff_true, if_true, Bool.false_eq_true,
    if_false]
  refine ⟨[line.label "FMSUB_D" pc, line.sync sync_type.PRE_SYNC 99], _, _,
    rfl, rfl, rfl, ?_⟩
  simp [line.is_print_disass, List.filter_cons, apply_ite (List.filter line.is_print_disass)]

theorem __fnmadd_d_dis (pc instr : Nat) (tu : tu_builder) :
    disass_inserted (emitted tu (__fnmadd_d true pc instr tu))
      (emitted tu (__fnmadd_d false pc instr tu)) := by
  simp only [__fnmadd_d, emitted, tu_simps, eq_self_iff_true, if_true, Bool.false_eq_true,
    if_false]
  refine ⟨[line.label "FNMADD_D" pc, line.sync sync_type.PRE_SYNC 100], _, _,
    rfl, rfl, rfl, ?_⟩
  simp [line.is_print_disass, List.filter_cons, apply_ite (List.filter line.is_print_disass)]

theorem __fnmsub_d_dis (pc instr : Nat) (tu : tu_builder) :
    disass_inserted (emitted tu (__fnmsub_d true pc instr tu))
      (emitted tu (__fnmsub_d false pc instr tu)) := by
  simp only [__fnmsub_d, emitted, tu_simps, eq_self_iff_true, if_true, Bool.false_eq_true,
    if_false]
  refine ⟨[line.label "FNMSUB_D" pc, line.sync sync_type.PRE_SYNC 101], _, _,
    rfl, rfl, rfl, ?_⟩
  simp [line.is_print_disass, List.filter_cons, apply_ite (List.filter line.is_print_disass)]

theorem __fadd_d_dis (pc instr : Nat) (tu : tu_builder) :
    disass_inserted (emitted tu (__fadd_d true pc instr tu))
      (emitted tu (__fadd_d false pc instr tu)) := by
  simp only [__fadd_d, emitted, tu_simps, eq_self_iff_true, if_true, Bool.false_eq_true,
    if_false]
  refine ⟨[line.label "FADD_D" pc, line.sync sync_type.PRE_SYNC 102], _, _,
    rfl, rfl, rfl, ?_⟩
  simp [line.is_print_disass, List.filter_cons, apply_ite (List.filter line.is_print_disass)]

theorem __fsub_d_dis (pc instr : Nat) (tu : tu_builder) :
    disass_inserted (emitted tu (__fsub_d true pc instr tu))
      (emitted tu (__fsub_d false pc instr tu)) := by
  simp only [__fsub_d, emitted, tu_simps, eq_self_iff_true, if_true, Bool.false_eq_true,
    if_false]
  refine ⟨[line.label "FSUB_D" pc, line.sync sync_type.PRE_SYNC 103], _, _,
    rfl, rfl, rfl, ?_⟩
  simp [line.is_print_disass, List.filter_cons, apply_ite (List.filter line.is_print_disass)]

theorem __fmul_d_dis (pc instr : Nat) (tu : tu_builder) :
    disass_inserted (emitted tu (__fmul_d true pc instr tu))
      (emitted tu (__fmul_d false pc instr tu)) := by
  simp only [__fmul_d, emitted, tu_simps, eq_self_iff_true, if_true, Bool.false_eq_true,
    if_false]
  refine ⟨[line.label "FMUL_D" pc, line.sync sync_type.PRE_SYNC 104], _, _,
    rfl, rfl, rfl, ?_⟩
  simp [line.is_print_disass, List.filter_cons, apply_ite (List.filter line.is_print_disass)]

theorem __fdiv_d_dis (pc instr : Nat) (tu : tu_builder) :
    disass_inserted (emitted tu (__fdiv_d true pc instr tu))
      (emitted tu (__fdiv_d false pc instr tu)) := by
  simp only [__fdiv_d, emitted, tu_simps, eq_self_iff_true, if_true, Bool.false_eq_true,
    if_false]
  refine ⟨[line.label "FDIV_D" pc, line.sync sync_type.PRE_SYNC 105], _, _,
    rfl, rfl, rfl, ?_⟩
  simp [line.is_print_disass, List.filter_cons, apply_ite (List.filter line.is_print_disass)]

theorem __fsqrt_d_dis (pc instr : Nat) (tu : tu_builder) :
    disass_inserted (emitted tu (__fsqrt_d true pc instr tu))
      (emitted tu (__fsqrt_d false pc instr tu)) := by
  simp only [__fsqrt_d, emitted, tu_simps, eq_self_iff_true, if_true, Bool.false_eq_true,
    if_false]
  refine ⟨[line.label "FSQRT_D" pc, line.sync sync_type.PRE_SYNC 106], _, _,
    rfl, rfl, rfl, ?_⟩
  simp [line.is_print_disass, List.filter_cons, apply_ite (List.filter line.is_print_disass)]

theorem __fsgnj_d_dis (pc instr : Nat) (tu : tu_builder) :
    disass_inserted (emitted tu (__fsgnj_d true pc instr tu))
      (emitted tu (__fsgnj_d false pc instr tu)) := by
  simp only [__fsgnj_d, emitted, tu_simps, eq_self_iff_true, if_true, Bool.false_eq_true,
    if_false]
  refine ⟨[line.label "FSGNJ_D" pc, line.sync sync_type.PRE_SYNC 107], _, _,
    rfl, rfl, rfl, ?_⟩
  simp [line.is_print_disass, List.filter_cons, apply_ite (List.filter line.is_print_disass)]

theorem __fsgnjn_d_dis (pc instr : Nat) (tu : tu_builder) :
    disass_inserted (emitted tu (__fsgnjn_d true pc instr tu))
      (emitted tu (__fsgnjn_d false pc instr tu)) := by
  simp only [__fsgnjn_d, emitted, tu_simps, eq_self_iff_true, if_true, Bool.false_eq_true,
    if_false]
  refine ⟨[line.label "FSGNJN_D" pc, line.sync sync_type.PRE_SYNC 108], _, _,
    rfl, rfl, rfl, ?_⟩
  simp [line.is_print_disass, List.filter_cons, apply_ite (List.filter line.is_print_disass)]

theorem __fsgnjx_d_dis (pc instr : Nat) (tu : tu_builder) :
    disass_inserted (emitted tu (__fsgnjx_d true pc instr tu))
      (emitted tu (__fsgnjx_d false pc instr tu)) := by
  simp only [__fsgnjx_d, emitted, tu_simps, eq_self_iff_true, if_true, Bool.false_eq_true,
    if_false]
  refine ⟨[line.label "FSGNJX_D" pc, line.sync sync_type.PRE_SYNC 109], _, _,
    rfl, rfl, rfl, ?_⟩
  simp [line.is_print_disass, List.filter_cons, apply_ite (List.filter line.is_print_disass)]

theorem __fmin_d_dis (pc instr : Nat) (tu : tu_builder) :
    disass_inserted (emitted tu (__fmin_d true pc instr tu))
      (emitted tu (__fmin_d false pc instr tu)) := by
  simp only [__fmin_d, emitted, tu_simps, eq_self_iff_true, if_true, Bool.false_eq_true,
    if_false]
  refine ⟨[line.label "FMIN_D" pc, line.sync sync_type.PRE_SYNC 110], _, _,
    rfl, rfl, rfl, ?_⟩
  simp [line.is_print_disass, List.filter_cons, apply_ite (List.filter line.is_print_disass)]

theorem __fmax_d_dis (pc instr : Nat) (tu : tu_builder) :
    disass_inserted (emitted tu (__fmax_d true pc instr tu))
      (emitted tu (__fmax_d false pc instr tu)) := by
  simp only [__fmax_d, emitted, tu_simps, eq_self_iff_true, if_true, Bool.false_eq_true,
    if_false]
  refine ⟨[line.label "FMAX_D" pc, line.sync sync_type.PRE_SYNC 111], _, _,
    rfl, rfl, rfl, ?_⟩
  simp [line.is_print_disass, List.filter_cons, apply_ite (List.filter line.is_print_disass)]

theorem __fcvt_s_d_dis (pc instr : Nat) (tu : tu_builder) :
    disass_inserted (emitted tu (__fcvt_s_d true pc instr tu))
      (emitted tu (__fcvt_s_d false pc instr tu)) := by
  simp only [__fcvt_s_d, emitted, tu_simps, eq_self_iff_true, if_true, Bool.false_eq_true,
    if_false]
  refine ⟨[line.label "FCVT_S_D" pc, line.sync sync_type.PRE_SYNC 112], _, _,
    rfl, rfl, rfl, ?_⟩
  simp [line.is_print_disass, List.filter_cons, apply_ite (List.filter line.is_print_disass)]

theorem __fcvt_d_s_dis (pc instr : Nat) (tu : tu_builder) :
    disass_inserted (emitted tu (__fcvt_d_s true pc instr tu))
      (emitted tu (__fcvt_d_s false pc instr tu)) := by
  simp only [__fcvt_d_s, emitted, tu_simps, eq_self_iff_true, if_true, Bool.false_eq_true,
    if_false]
  refine ⟨[line.label "FCVT_D_S" pc, line.sync sync_type.PRE_SYNC 113], _, _,
    rfl, rfl, rfl, ?_⟩
  simp [line.is_print_disass, List.filter_cons, apply_ite (List.filter line.is_print_disass)]

theorem __feq_d_dis (pc instr : Nat) (tu : tu_builder) :
    disass_inserted (emitted tu (__feq_d true pc instr tu))
      (emitted tu (__feq_d false pc instr tu)) := by
  simp only [__feq_d, emitted, tu_simps, eq_self_iff_true, if_true, Bool.false_eq_true,
    if_false]
  refine ⟨[line.label "FEQ_D" pc, line.sync sync_type.PRE_SYNC 114], _, _,
    rfl, rfl, rfl, ?_⟩
  simp [line.is_print_disass, List.filter_cons, apply_ite (List.filter line.is_print_disass)]

theorem __flt_d_dis (pc instr : Nat) (tu : tu_builder) :
    disass_inserted (emitted tu (__flt_d true pc instr tu))
      (emitted tu (__flt_d false pc instr tu)) := by
  simp only [__flt_d, emitted, tu_simps, eq_self_iff_true, if_true, Bool.false_eq_true,
    if_false]
  refine ⟨[line.label "FLT_D" pc, line.sync sync_type.PRE_SYNC 115], _, _,
    rfl, rfl, rfl, ?_⟩
  simp [line.is_print_disass, List.filter_cons, apply_ite (List.filter line.is_print_disass)]

theorem __fle_d_dis (pc instr : Nat) (tu : tu_builder) :
    disass_inserted (emitted tu (__fle_d true pc instr tu))
      (emitted tu (__fle_d false pc instr tu)) := by
  simp only [__fle_d, emitted, tu_simps, eq_self_iff_true, if_true, Bool.false_eq_true,
    if_false]
  refine ⟨[line.label "FLE_D" pc, line.sync sync_type.PRE_SYNC 116], _, _,
    rfl, rfl, rfl, ?_⟩
  simp [line.is_print_disass, List.filter_cons, apply_ite (List.filter line.is_print_disass)]

theorem __fclass_d_dis (pc instr : Nat) (tu : tu_builder) :
    disass_inserted (emitted tu (__fclass_d true pc instr tu))
      (emitted tu (__fclass_d false pc instr tu)) := by
  simp only [__fclass_d, emitted, tu_simps, eq_self_iff_true, if_true, Bool.false_eq_true,
    if_false]
  refine ⟨[line.label "FCLASS_D" pc, line.sync sync_type.PRE_SYNC 117], _, _,
    rfl, rfl, rfl, ?_⟩
  simp [line.is_print_disass, List.filter_cons, apply_ite (List.filter line.is_print_disass)]

theorem __fcvt_w_d_dis (pc instr : Nat) (tu : tu_builder) :
    disass_inserted (emitted tu (__fcvt_w_d true pc instr tu))
      (emitted tu (__fcvt_w_d false pc instr tu)) := by
  simp only [__fcvt_w_d, emitted, tu_simps, eq_self_iff_true, if_true, Bool.false_eq_true,
    if_false]
  refine ⟨[line.label "FCVT_W_D" pc, line.sync sync_type.PRE_SYNC 118], _, _,
    rfl, rfl, rfl, ?_⟩
  simp [line.is_print_disass, List.filter_cons, apply_ite (List.filter line.is_print_disass)]

theorem __fcvt_wu_d_dis (pc instr : Nat) (tu : tu_builder) :
    disass_inserted (emitted tu (__fcvt_wu_d true pc instr tu))
      (emitted tu (__fcvt_wu_d false pc instr tu)) := by
  simp only [__fcvt_wu_d, emitted, tu_simps, eq_self_iff_true, if_true, Bool.false_eq_true,
    if_false]
  refine ⟨[line.label "FCVT_WU_D" pc, line.sync sync_type.PRE_SYNC 119], _, _,
    rfl, rfl, rfl, ?_⟩
  simp [line.is_print_disass, List.filter_cons, apply_ite (List.filter line.is_print_disass)]

theorem __fcvt_d_w_dis (pc instr : Nat) (tu : tu_builder) :
    disass_inserted (emitted tu (__fcvt_d_w true pc instr tu))
      (emitted tu (__fcvt_d_w false pc instr tu)) := by
  simp only [__fcvt_d_w, emitted, tu_simps, eq_self_iff_true, if_true, Bool.false_eq_true,
    if_false]
  refine ⟨[line.label "FCVT_D_W" pc, line.sync sync_type.PRE_SYNC 120], _, _,
    rfl, rfl, rfl, ?_⟩
  simp [line.is_print_disass, List.filter_cons, apply_ite (List.filter line.is_print_disass)]

theorem __fcvt_d_wu_dis (pc instr : Nat) (tu : tu_builder) :
    disass_inserted (emitted tu (__fcvt_d_wu true pc instr tu))
      (emitted tu (__fcvt_d_wu false pc instr tu)) := by
  simp only [__fcvt_d_wu, emitted, tu_simps, eq_self_iff_true, if_true, Bool.false_eq_true,
    if_false]
  refine ⟨[line.label "FCVT_D_WU" pc, line.sync sync_type.PRE_SYNC 121], _, _,
    rfl, rfl, rfl, ?_⟩
  simp [line.is_print_disass, List.filter_cons, apply_ite (List.filter line.is_print_disass)]

theorem __jalr_dis (pc instr : Nat) (tu : tu_builder) :
    disass_inserted (emitted tu (__jalr true pc instr tu))
      (emitted tu (__jalr false pc instr tu)) := by
  simp only [__jalr, emitted, tu_simps, eq_self_iff_true, if_true, Bool.false_eq_true,
    if_false]
  refine ⟨[line.label "JALR" pc, line.sync sync_type.PRE_SYNC 122], _, _,
    rfl, rfl, rfl, ?_⟩
  simp [line.is_print_disass, List.filter_cons, apply_ite (List.filter line.is_print_disass)]

theorem __c_addi4spn_dis (pc instr : Nat) (tu : tu_builder) :
    disass_inserted (emitted tu (__c_addi4spn true pc instr tu))
      (emitted tu (__c_addi4spn false pc instr tu)) := by
  simp only [__c_addi4spn, emitted, tu_simps, eq_self_iff_true, if_true, Bool.false_eq_true,
    if_false]
  refine ⟨[line.label "C_ADDI4SPN" pc, line.sync sync_type.PRE_SYNC 123], _, _,
    rfl, rfl, rfl, ?_⟩
  simp [line.is_print_disass, List.filter_cons, apply_ite (List.filter line.is_print_disass)]

theorem __c_lw_dis (pc instr : Nat) (tu : tu_builder) :
    disass_inserted (emitted tu (__c_lw true pc instr tu))
      (emitted tu (__c_lw false pc instr tu)) := by
  simp only [__c_lw, emitted, tu_simps, eq_self_iff_true, if_true, Bool.false_eq_true,
    if_false]
  refine ⟨[line.label "C_LW" pc, line.sync sync_type.PRE_SYNC 124], _, _,
    rfl, rfl, rfl, ?_⟩
  simp [line.is_print_disass, List.filter_cons, apply_ite (List.filter line.is_print_disass)]

theorem __c_sw_dis (pc instr : Nat) (tu : tu_builder) :
    disass_inserted (emitted tu (__c_sw true pc instr tu))
      (emitted tu (__c_sw false pc instr tu)) := by
  simp only [__c_sw, emitted, tu_simps, eq_self_iff_true, if_true, Bool.false_eq_true,
    if_false]
  refine ⟨[line.label "C_SW" pc, line.sync sync_type.PRE_SYNC 125], _, _,
    rfl, rfl, rfl, ?_⟩
  simp [line.is_print_disass, List.filter_cons, apply_ite (List.filter line.is_print_disass)]

theorem __c_addi_dis (pc instr : Nat) (tu : tu_builder) :
    disass_inserted (emitted tu (__c_addi true pc instr tu))
      (emitted tu (__c_addi false pc instr tu)) := by
  simp only [__c_addi, emitted, tu_simps, eq_self_iff_true, if_true, Bool.false_eq_true,
    if_false]
  refine ⟨[line.label "C_ADDI" pc, line.sync sync_type.PRE_SYNC 126], _, _,
    rfl, rfl, rfl, ?_⟩
  simp [line.is_print_disass, List.filter_cons, apply_ite (List.filter line.is_print_disass)]

theorem __c_nop_dis (pc instr : Nat) (tu : tu_builder) :
    disass_inserted (emitted tu (__c_nop true pc instr tu))
      (emitted tu (__c_nop false pc instr tu)) := by
  simp only [__c_nop, emitted, tu_simps, eq_self_iff_true, if_true, Bool.false_eq_true,
    if_false]
  refine ⟨[line.label "C_NOP" pc, line.sync sync_type.PRE_SYNC 127], _, _,
    rfl, rfl, rfl, ?_⟩
  simp [line.is_print_disass, List.filter_cons, apply_ite (List.filter line.is_print_disass)]

theorem __c_jal_dis (pc instr : Nat) (tu : tu_builder) :
    disass_inserted (emitted tu (__c_jal true pc instr tu))
      (emitted tu (__c_jal false pc instr tu)) := by
  simp only [__c_jal, emitted, tu_simps, eq_self_iff_true, if_true, Bool.false_eq_true,
    if_false]
  refine ⟨[line.label "C_JAL" pc, line.sync sync_type.PRE_SYNC 128], _, _,
    rfl, rfl, rfl, ?_⟩
  simp [line.is_print_disass, List.filter_cons, apply_ite (List.filter line.is_print_disass)]

theorem __c_li_dis (pc instr : Nat) (tu : tu_builder) :
    disass_inserted (emitted tu (__c_li true pc instr tu))
      (emitted tu (__c_li false pc instr tu)) := by
  simp only [__c_li, emitted, tu_simps, eq_self_iff_true, if_true, Bool.false_eq_true,
    if_false]
  refine ⟨[line.label "C_LI" pc, line.sync sync_type.PRE_SYNC 129], _, _,
    rfl, rfl, rfl, ?_⟩
  simp [line.is_print_disass, List.filter_cons, apply_ite (List.filter line.is_print_disass)]

theorem __c_lui_dis (pc instr : Nat) (tu : tu_builder) :
    disass_inserted (emitted tu (__c_lui true pc instr tu))
      (emitted tu (__c_lui false pc instr tu)) := by
  simp only [__c_lui, emitted, tu_simps, eq_self_iff_true, if_true, Bool.false_eq_true,
    if_false]
  refine ⟨[line.label "C_LUI" pc, line.sync sync_type.PRE_SYNC 130], _, _,
    rfl, rfl, rfl, ?_⟩
  simp [line.is_print_disass, List.filter_cons, apply_ite (List.filter line.is_print_disass)]

theorem __c_addi16sp_dis (pc instr : Nat) (tu : tu_builder) :
    disass_inserted (emitted tu (__c_addi16sp true pc instr tu))
      (emitted tu (__c_addi16sp false pc instr tu)) := by
  simp only [__c_addi16sp, emitted, tu_simps, eq_self_iff_true, if_true, Bool.false_eq_true,
    if_false]
  refine ⟨[line.label "C_ADDI16SP" pc, line.sync sync_type.PRE_SYNC 131], _, _,
    rfl, rfl, rfl, ?_⟩
  simp [line.is_print_disass, List.filter_cons, apply_ite (List.filter line.is_print_disass)]

theorem __c_srli_dis (pc instr : Nat) (tu : tu_builder) :
    disass_inserted (emitted tu (__c_srli true pc instr tu))
      (emitted tu (__c_srli false pc instr tu)) := by
  simp only [__c_srli, emitted, tu_simps, eq_self_iff_true, if_true, Bool.false_eq_true,
    if_false]
  refine ⟨[line.label "C_SRLI" pc, line.sync sync_type.PRE_SYNC 132], _, _,
    rfl, rfl, rfl, ?_⟩
  simp [line.is_print_disass, List.filter_cons, apply_ite (List.filter line.is_print_disass)]

theorem __c_srai_dis (pc instr : Nat) (tu : tu_builder) :
    disass_inserted (emitted tu (__c_srai true pc instr tu))
      (emitted tu (__c_srai false pc instr tu)) := by
  simp only [__c_srai, emitted, tu_simps, eq_self_iff_true, if_true, Bool.false_eq_true,
    if_false]
  refine ⟨[line.label "C_SRAI" pc, line.sync sync_type.PRE_SYNC 133], _, _,
    rfl, rfl, rfl, ?_⟩
  simp [line.is_print_disass, List.filter_cons, apply_ite (List.filter line.is_print_disass)]

theorem __c_andi_dis (pc instr : Nat) (tu : tu_builder) :
    disass_inserted (emitted tu (__c_andi true pc instr tu))
      (emitted tu (__c_andi false pc instr tu)) := by
  simp only [__c_andi, emitted, tu_simps, eq_self_iff_true, if_true, Bool.false_eq_true,
    if_false]
  refine ⟨[line.label "C_ANDI" pc, line.sync sync_type.PRE_SYNC 134], _, _,
    rfl, rfl, rfl, ?_⟩
  simp [line.is_print_disass, List.filter_cons, apply_ite (List.filter line.is_print_disass)]

theorem __c_sub_dis (pc instr : Nat) (tu : tu_builder) :
    disass_inserted (emitted tu (__c_sub true pc instr tu))
      (emitted tu (__c_sub false pc instr tu)) := by
  simp only [__c_sub, emitted, tu_simps, eq_self_iff_true, if_true, Bool.false_eq_true,
    if_false]
  refine ⟨[line.label "C_SUB" pc, line.sync sync_type.PRE_SYNC 135], _, _,
    rfl, rfl, rfl, ?_⟩
  simp [line.is_print_disass, List.filter_cons, apply_ite (List.filter line.is_print_disass)]

theorem __c_xor_dis (pc instr : Nat) (tu : tu_builder) :
    disass_inserted (emitted tu (__c_xor true pc instr tu))
      (emitted tu (__c_xor false pc instr tu)) := by
  simp only [__c_xor, emitted, tu_simps, eq_self_iff_true, if_true, Bool.false_eq_true,
    if_false]
  refine ⟨[line.label "C_XOR" pc, line.sync sync_type.PRE_SYNC 136], _, _,
    rfl, rfl, rfl, ?_⟩
  simp [line.is_print_disass, List.filter_cons, apply_ite (List.filter line.is_print_disass)]

theorem __c_or_dis (pc instr : Nat) (tu : tu_builder) :
    disass_inserted (emitted tu (__c_or true pc instr tu))
      (emitted tu (__c_or false pc instr tu)) := by
  simp only [__c_or, emitted, tu_simps, eq_self_iff_true, if_true, Bool.false_eq_true,
    if_false]
  refine ⟨[line.label "C_OR" pc, line.sync sync_type.PRE_SYNC 137], _, _,
    rfl, rfl, rfl, ?_⟩
  simp [line.is_print_disass, List.filter_cons, apply_ite (List.filter line.is_print_disass)]

theorem __c_and_dis (pc instr : Nat) (tu : tu_builder) :
    disass_inserted (emitted tu (__c_and true pc instr tu))
      (emitted tu (__c_and false pc instr tu)) := by
  simp only [__c_and, emitted, tu_simps, eq_self_iff_true, if_true, Bool.false_eq_true,
    if_false]
  refine ⟨[line.label "C_AND" pc, line.sync sync_type.PRE_SYNC 138], _, _,
    rfl, rfl, rfl, ?_⟩
  simp [line.is_print_disass, List.filter_cons, apply_ite (List.filter line.is_print_disass)]

theorem __c_j_dis (pc instr : Nat) (tu : tu_builder) :
    disass_inserted (emitted tu (__c_j true pc instr tu))
      (emitted tu (__c_j false pc instr tu)) := by
  simp only [__c_j, emitted, tu_simps, eq_self_iff_true, if_true, Bool.false_eq_true,
    if_false]
  refine ⟨[line.label "C_J" pc, line.sync sync_type.PRE_SYNC 139], _, _,
    rfl, rfl, rfl, ?_⟩
  simp [line.is_print_disass, List.filter_cons, apply_ite (List.filter line.is_print_disass)]

theorem __c_beqz_dis (pc instr : Nat) (tu : tu_builder) :
    disass_inserted (emitted tu (__c_beqz true pc instr tu))
      (emitted tu (__c_beqz false pc instr tu)) := by
  simp only [__c_beqz, emitted, tu_simps, eq_self_iff_true, if_true, Bool.false_eq_true,
    if_false]
  refine ⟨[line.label "C_BEQZ" pc, line.sync sync_type.PRE_SYNC 140], _, _,
    rfl, rfl, rfl, ?_⟩
  simp [line.is_print_disass, List.filter_cons, apply_ite (List.filter line.is_print_disass)]

theorem __c_bnez_dis (pc instr : Nat) (tu : tu_builder) :
    disass_inserted (emitted tu (__c_bnez true pc instr tu))
      (emitted tu (__c_bnez false pc instr tu)) := by
  simp only [__c_bnez, emitted, tu_simps, eq_self_iff_true, if_true, Bool.false_eq_true,
    if_false]
  refine ⟨[line.label "C_BNEZ" pc, line.sync sync_type.PRE_SYNC 141], _, _,
    rfl, rfl, rfl, ?_⟩
  simp [line.is_print_disass, List.filter_cons, apply_ite (List.filter line.is_print_disass)]

theorem __c_slli_dis (pc instr : Nat) (tu : tu_builder) :
    disass_inserted (emitted tu (__c_slli true pc instr tu))
      (emitted tu (__c_slli false pc instr tu)) := by
  simp only [__c_slli, emitted, tu_simps, eq_self_iff_true, if_true, Bool.false_eq_true,
    if_false]
  refine ⟨[line.label "C_SLLI" pc, line.sync sync_type.PRE_SYNC 142], _, _,
    rfl, rfl, rfl, ?_⟩
  simp [line.is_print_disass, List.filter_cons, apply_ite (List.filter line.is_print_disass)]

theorem __c_lwsp_dis (pc instr : Nat) (tu : tu_builder) :
    disass_inserted (emitted tu (__c_lwsp true pc instr tu))
      (emitted tu (__c_lwsp false pc instr tu)) := by
  simp only [__c_lwsp, emitted, tu_simps, eq_self_iff_true, if_true, Bool.false_eq_true,
    if_false]
  refine ⟨[line.label "C_LWSP" pc, line.sync sync_type.PRE_SYNC 143], _, _,
    rfl, rfl, rfl, ?_⟩
  simp [line.is_print_disass, List.filter_cons, apply_ite (List.filter line.is_print_disass)]

theorem __c_mv_dis (pc instr : Nat) (tu : tu_builder) :
    disass_inserted (emitted tu (__c_mv true pc instr tu))
      (emitted tu (__c_mv false pc instr tu)) := by
  simp only [__c_mv, emitted, tu_simps, eq_self_iff_true, if_true, Bool.false_eq_true,
    if_false]
  refine ⟨[line.label "C_MV" pc, line.sync sync_type.PRE_SYNC 144], _, _,
    rfl, rfl, rfl, ?_⟩
  simp [line.is_print_disass, List.filter_cons, apply_ite (List.filter line.is_print_disass)]

theorem __c_jr_dis (pc instr : Nat) (tu : tu_builder) :
    disass_inserted (emitted tu (__c_jr true pc instr tu))
      (emitted tu (__c_jr false pc instr tu)) := by
  simp only [__c_jr, emitted, tu_simps, eq_self_iff_true, if_true, Bool.false_eq_true,
    if_false]
  refine ⟨[line.label "C_JR" pc, line.sync sync_type.PRE_SYNC 145], _, _,
    rfl, rfl, rfl, ?_⟩
  simp [line.is_print_disass, List.filter_cons, apply_ite (List.filter line.is_print_disass)]

theorem __c_add_dis (pc instr : Nat) (tu : tu_builder) :
    disass_inserted (emitted tu (__c_add true pc instr tu))
      (emitted tu (__c_add false pc instr tu)) := by
  simp only [__c_add, emitted, tu_simps, eq_self_iff_true, if_true, Bool.false_eq_true,
    if_false]
  refine ⟨[line.label "C_ADD" pc, line.sync sync_type.PRE_SYNC 146], _, _,
    rfl, rfl, rfl, ?_⟩
  simp [line.is_print_disass, List.filter_cons, apply_ite (List.filter line.is_print_disass)]

theorem __c_jalr_dis (pc instr : Nat) (tu : tu_builder) :
    disass_inserted (emitted tu (__c_jalr true pc instr tu))
      (emitted tu (__c_jalr false pc instr tu)) := by
  simp only [__c_jalr, emitted, tu_simps, eq_self_iff_true, if_true, Bool.false_eq_true,
    if_false]
  refine ⟨[line.label "C_JALR" pc, line.sync sync_type.PRE_SYNC 147], _, _,
    rfl, rfl, rfl, ?_⟩
  simp [line.is_print_disass, List.filter_cons, apply_ite (List.filter line.is_print_disass)]

theorem __c_ebreak_dis (pc instr : Nat) (tu : tu_builder) :
    disass_inserted (emitted tu (__c_ebreak true pc instr tu))
      (emitted tu (__c_ebreak false pc instr tu)) := by
  simp only [__c_ebreak, emitted, tu_simps, eq_self_iff_true, if_true, Bool.false_eq_true,
    if_false]
  refine ⟨[line.label "C_EBREAK" pc, line.sync sync_type.PRE_SYNC 148], _, _,
    rfl, rfl, rfl, ?_⟩
  simp [line.is_print_disass, List.filter_cons, apply_ite (List.filter line.is_print_disass)]

theorem __c_swsp_dis (pc instr : Nat) (tu : tu_builder) :
    disass_inserted (emitted tu (__c_swsp true pc instr tu))
      (emitted tu (__c_swsp false pc instr tu)) := by
  simp only [__c_swsp, emitted, tu_simps, eq_self_iff_true, if_true, Bool.false_eq_true,
    if_false]
  refine ⟨[line.label "C_SWSP" pc, line.sync sync_type.PRE_SYNC 149], _, _,
    rfl, rfl, rfl, ?_⟩
  simp [line.is_print_disass, List.filter_cons, apply_ite (List.filter line.is_print_disass)]

theorem __dii_dis (pc instr : Nat) (tu : tu_builder) :
    disass_inserted (emitted tu (__dii true pc instr tu))
      (emitted tu (__dii false pc instr tu)) := by
  simp only [__dii, emitted, tu_simps, eq_self_iff_true, if_true, Bool.false_eq_true,
    if_false]
  refine ⟨[line.label "DII" pc, line.sync sync_type.PRE_SYNC 150], _, _,
    rfl, rfl, rfl, ?_⟩
  simp [line.is_print_disass, List.filter_cons, apply_ite (List.filter line.is_print_disass)]

theorem __c_flw_dis (pc instr : Nat) (tu : tu_builder) :
    disass_inserted (emitted tu (__c_flw true pc instr tu))
      (emitted tu (__c_flw false pc instr tu)) := by
  simp only [__c_flw, emitted, tu_simps, eq_self_iff_true, if_true, Bool.false_eq_true,
    if_false]
  refine ⟨[line.label "C_FLW" pc, line.sync sync_type.PRE_SYNC 151], _, _,
    rfl, rfl, rfl, ?_⟩
  simp [line.is_print_disass, List.filter_cons, apply_ite (List.filter line.is_print_disass)]

theorem __c_fsw_dis (pc instr : Nat) (tu : tu_builder) :
    disass_inserted (emitted tu (__c_fsw true pc instr tu))
      (emitted tu (__c_fsw false pc instr tu)) := by
  simp only [__c_fsw, emitted, tu_simps, eq_self_iff_true, if_true, Bool.false_eq_true,
    if_false]
  refine ⟨[line.label "C_FSW" pc, line.sync sync_type.PRE_SYNC 152], _, _,
    rfl, rfl, rfl, ?_⟩
  simp [line.is_print_disass, List.filter_cons, apply_ite (List.filter line.is_print_disass)]

theorem __c_flwsp_dis (pc instr : Nat) (tu : tu_builder) :
    disass_inserted (emitted tu (__c_flwsp true pc instr tu))
      (emitted tu (__c_flwsp false pc instr tu)) := by
  simp only [__c_flwsp, emitted, tu_simps, eq_self_iff_true, if_true, Bool.false_eq_true,
    if_false]
  refine ⟨[line.label "C_FLWSP" pc, line.sync sync_type.PRE_SYNC 153], _, _,
    rfl, rfl, rfl, ?_⟩
  simp [line.is_print_disass, List.filter_cons, apply_ite (List.filter line.is_print_disass)]

theorem __c_fswsp_dis (pc instr : Nat) (tu : tu_builder) :
    disass_inserted (emitted tu (__c_fswsp true pc instr tu))
      (emitted tu (__c_fswsp false pc instr tu)) := by
  simp only [__c_fswsp, emitted, tu_simps, eq_self_iff_true, if_true, Bool.false_eq_true,
    if_false]
  refine ⟨[line.label "C_FSWSP" pc, line.sync sync_type.PRE_SYNC 154], _, _,
    rfl, rfl, rfl, ?_⟩
  simp [line.is_print_disass, List.filter_cons, apply_ite (List.filter line.is_print_disass)]

theorem __c_fld_dis (pc instr : Nat) (tu : tu_builder) :
    disass_inserted (emitted tu (__c_fld true pc instr tu))
      (emitted tu (__c_fld false pc instr tu)) := by
  simp only [__c_fld, emitted, tu_simps, eq_self_iff_true, if_true, Bool.false_eq_true,
    if_false]
  refine ⟨[line.label "C_FLD" pc, line.sync sync_type.PRE_SYNC 155], _, _,
    rfl, rfl, rfl, ?_⟩
  simp [line.is_print_disass, List.filter_cons, apply_ite (List.filter line.is_print_disass)]

theorem __c_fsd_dis (pc instr : Nat) (tu : tu_builder) :
    disass_inserted (emitted tu (__c_fsd true pc instr tu))
      (emitted tu (__c_fsd false pc instr tu)) := by
  simp only [__c_fsd, emitted, tu_simps, eq_self_iff_true, if_true, Bool.false_eq_true,
    if_false]
  refine ⟨[line.label "C_FSD" pc, line.sync sync_type.PRE_SYNC 156], _, _,
    rfl, rfl, rfl, ?_⟩
  simp [line.is_print_disass, List.filter_cons, apply_ite (List.filter line.is_print_disass)]

theorem __c_fldsp_dis (pc instr : Nat) (tu : tu_builder) :
    disass_inserted (emitted tu (__c_fldsp true pc instr tu))
      (emitted tu (__c_fldsp false pc instr tu)) := by
  simp only [__c_fldsp, emitted, tu_simps, eq_self_iff_true, if_true, Bool.false_eq_true,
    if_false]
  refine ⟨[line.label "C_FLDSP" pc, line.sync sync_type.PRE_SYNC 157], _, _,
    rfl, rfl, rfl, ?_⟩
  simp [line.is_print_disass, List.filter_cons, apply_ite (List.filter line.is_print_disass)]

theorem __c_fsdsp_dis (pc instr : Nat) (tu : tu_builder) :
    disass_inserted (emitted tu (__c_fsdsp true pc instr tu))
      (emitted tu (__c_fsdsp false pc instr tu)) := by
  simp only [__c_fsdsp, emitted, tu_simps, eq_self_iff_true, if_true, Bool.false_eq_true,
    if_false]
  refine ⟨[line.label "C_FSDSP" pc, line.sync sync_type.PRE_SYNC 158], _, _,
    rfl, rfl, rfl, ?_⟩
  simp [line.is_print_disass, List.filter_cons, apply_ite (List.filter line.is_print_disass)]

/-- Every handler of the descriptor list emits, with disassembly enabled, the lines it
emits with disassembly disabled and one `print_disass` line more. -/
theorem invoke_disass (f : compile_func) (hf : f ≠ compile_func.illegal_intruction)
    (pc instr : Nat) (tu : tu_builder) :
    disass_inserted (emitted tu (invoke f true pc instr tu))
      (emitted tu (invoke f false pc instr tu)) :=
  match f with
  | compile_func.__mul => __mul_dis pc instr tu
  | compile_func.__mulh => __mulh_dis pc instr tu
  | compile_func.__mulhsu => __mulhsu_dis pc instr tu
  | compile_func.__mulhu => __mulhu_dis pc instr tu
  | compile_func.__div => __div_dis pc instr tu
  | compile_func.__divu => __divu_dis pc instr tu
  | compile_func.__rem => __rem_dis pc instr tu
  | compile_func.__remu => __remu_dis pc instr tu
  | compile_func.__lr_w => __lr_w_dis pc instr tu
  | compile_func.__sc_w => __sc_w_dis pc instr tu
  | compile_func.__amoswap_w => __amoswap_w_dis pc instr tu
  | compile_func.__amoadd_w => __amoadd_w_dis pc instr tu
  | compile_func.__amoxor_w => __amoxor_w_dis pc instr tu
  | compile_func.__amoand_w => __amoand_w_dis pc instr tu
  | compile_func.__amoor_w => __amoor_w_dis pc instr tu
  | compile_func.__amomin_w => __amomin_w_dis pc instr tu
  | compile_func.__amomax_w => __amomax_w_dis pc instr tu
  | compile_func.__amominu_w => __amominu_w_dis pc instr tu
  | compile_func.__amomaxu_w => __amomaxu_w_dis pc instr tu
  | compile_func.__lui => __lui_dis pc instr tu
  | compile_func.__auipc => __auipc_dis pc instr tu
  | compile_func.__jal => __jal_dis pc instr tu
  | compile_func.__beq => __beq_dis pc instr tu
  | compile_func.__bne => __bne_dis pc instr tu
  | compile_func.__blt => __blt_dis pc instr tu
  | compile_func.__bge => __bge_dis pc instr tu
  | compile_func.__bltu => __bltu_dis pc instr tu
  | compile_func.__bgeu => __bgeu_dis pc instr tu
  | compile_func.__lb => __lb_dis pc instr tu
  | compile_func.__lh => __lh_dis pc instr tu
  | compile_func.__lw => __lw_dis pc instr tu
  | compile_func.__lbu => __lbu_dis pc instr tu
  | compile_func.__lhu => __lhu_dis pc instr tu
  | compile_func.__sb => __sb_dis pc instr tu
  | compile_func.__sh => __sh_dis pc instr tu
  | compile_func.__sw => __sw_dis pc instr tu
  | compile_func.__addi => __addi_dis pc instr tu
  | compile_func.__slti => __slti_dis pc instr tu
  | compile_func.__sltiu => __sltiu_dis pc instr tu
  | compile_func.__xori => __xori_dis pc instr tu
  | compile_func.__ori => __ori_dis pc instr tu
  | compile_func.__andi => __andi_dis pc instr tu
  | compile_func.__slli => __slli_dis pc instr tu
  | compile_func.__srli => __srli_dis pc instr tu
  | compile_func.__srai => __srai_dis pc instr tu
  | compile_func.__add => __add_dis pc instr tu
  | compile_func.__sub => __sub_dis pc instr tu
  | compile_func.__sll => __sll_dis pc instr tu
  | compile_func.__slt => __slt_dis pc instr tu
  | compile_func.__sltu => __sltu_dis pc instr tu
  | compile_func.__xor => __xor_dis pc instr tu
  | compile_func.__srl => __srl_dis pc instr tu
  | compile_func.__sra => __sra_dis pc instr tu
  | compile_func.__or => __or_dis pc instr tu
  | compile_func.__and => __and_dis pc instr tu
  | compile_func.__fence => __fence_dis pc instr tu
  | compile_func.__fence_i => __fence_i_dis pc instr tu
  | compile_func.__ecall => __ecall_dis pc instr tu
  | compile_func.__ebreak => __ebreak_dis pc instr tu
  | compile_func.__uret => __uret_dis pc instr tu
  | compile_func.__sret => __sret_dis pc instr tu
  | compile_func.__mret => __mret_dis pc instr tu
  | compile_func.__wfi => __wfi_dis pc instr tu
  | compile_func.__sfence_vma => __sfence_vma_dis pc instr tu
  | compile_func.__csrrw => __csrrw_dis pc instr tu
  | compile_func.__csrrs => __csrrs_dis pc instr tu
  | compile_func.__csrrc => __csrrc_dis pc instr tu
  | compile_func.__csrrwi => __csrrwi_dis pc instr tu
  | compile_func.__csrrsi => __csrrsi_dis pc instr tu
  | compile_func.__csrrci => __csrrci_dis pc instr tu
  | compile_func.__flw => __flw_dis pc instr tu
  | compile_func.__fsw => __fsw_dis pc instr tu
  | compile_func.__fmadd_s => __fmadd_s_dis pc instr tu
  | compile_func.__fmsub_s => __fmsub_s_dis pc instr tu
  | compile_func.__fnmadd_s => __fnmadd_s_dis pc instr tu
  | compile_func.__fnmsub_s => __fnmsub_s_dis pc instr tu
  | compile_func.__fadd_s => __fadd_s_dis pc instr tu
  | compile_func.__fsub_s => __fsub_s_dis pc instr tu
  | compile_func.__fmul_s => __fmul_s_dis pc instr tu
  | compile_func.__fdiv_s => __fdiv_s_dis pc instr tu
  | compile_func.__fsqrt_s => __fsqrt_s_dis pc instr tu
  | compile_func.__fsgnj_s => __fsgnj_s_dis pc instr tu
  | compile_func.__fsgnjn_s => __fsgnjn_s_dis pc instr tu
  | compile_func.__fsgnjx_s => __fsgnjx_s_dis pc instr tu
  | compile_func.__fmin_s => __fmin_s_dis pc instr tu
  | compile_func.__fmax_s => __fmax_s_dis pc instr tu
  | compile_func.__fcvt_w_s => __fcvt_w_s_dis pc instr tu
  | compile_func.__fcvt_wu_s => __fcvt_wu_s_dis pc instr tu
  | compile_func.__feq_s => __feq_s_dis pc instr tu
  | compile_func.__flt_s => __flt_s_dis pc instr tu
  | compile_func.__fle_s => __fle_s_dis pc instr tu
  | compile_func.__fclass_s => __fclass_s_dis pc instr tu
  | compile_func.__fcvt_s_w => __fcvt_s_w_dis pc instr tu
  | compile_func.__fcvt_s_wu => __fcvt_s_wu_dis pc instr tu
  | compile_func.__fmv_x_w => __fmv_x_w_dis pc instr tu
  | compile_func.__fmv_w_x => __fmv_w_x_dis pc instr tu
  | compile_func.__fld => __fld_dis pc instr tu
  | compile_func.__fsd => __fsd_dis pc instr tu
  | compile_func.__fmadd_d => __fmadd_d_dis pc instr tu
  | compile_func.__fmsub_d => __fmsub_d_dis pc instr tu
  | compile_func.__fnmadd_d => __fnmadd_d_dis pc instr tu
  | compile_func.__fnmsub_d => __fnmsub_d_dis pc instr tu
  | compile_func.__fadd_d => __fadd_d_dis pc instr tu
  | compile_func.__fsub_d => __fsub_d_dis pc instr tu
  | compile_func.__fmul_d => __fmul_d_dis pc instr tu
  | compile_func.__fdiv_d => __fdiv_d_dis pc instr tu
  | compile_func.__fsqrt_d => __fsqrt_d_dis pc instr tu
  | compile_func.__fsgnj_d => __fsgnj_d_dis pc instr tu
  | compile_func.__fsgnjn_d => __fsgnjn_d_dis pc instr tu
  | compile_func.__fsgnjx_d => __fsgnjx_d_dis pc instr tu
  | compile_func.__fmin_d => __fmin_d_dis pc instr tu
  | compile_func.__fmax_d => __fmax_d_dis pc instr tu
  | compile_func.__fcvt_s_d => __fcvt_s_d_dis pc instr tu
  | compile_func.__fcvt_d_s => __fcvt_d_s_dis pc instr tu
  | compile_func.__feq_d => __feq_d_dis pc instr tu
  | compile_func.__flt_d => __flt_d_dis pc instr tu
  | compile_func.__fle_d => __fle_d_dis pc instr tu
  | compile_func.__fclass_d => __fclass_d_dis pc instr tu
  | compile_func.__fcvt_w_d => __fcvt_w_d_dis pc instr tu
  | compile_func.__fcvt_wu_d => __fcvt_wu_d_dis pc instr tu
  | compile_func.__fcvt_d_w => __fcvt_d_w_dis pc instr tu
  | compile_func.__fcvt_d_wu => __fcvt_d_wu_dis pc instr tu
  | compile_func.__jalr => __jalr_dis pc instr tu
  | compile_func.__c_addi4spn => __c_addi4spn_dis pc instr tu
  | compile_func.__c_lw => __c_lw_dis pc instr tu
  | compile_func.__c_sw => __c_sw_dis pc instr tu
  | compile_func.__c_addi => __c_addi_dis pc instr tu
  | compile_func.__c_nop => __c_nop_dis pc instr tu
  | compile_func.__c_jal => __c_jal_dis pc instr tu
  | compile_func.__c_li => __c_li_dis pc instr tu
  | compile_func.__c_lui => __c_lui_dis pc instr tu
  | compile_func.__c_addi16sp => __c_addi16sp_dis pc instr tu
  | compile_func.__c_srli => __c_srli_dis pc instr tu
  | compile_func.__c_srai => __c_srai_dis pc instr tu
  | compile_func.__c_andi => __c_andi_dis pc instr tu
  | compile_func.__c_sub => __c_sub_dis pc instr tu
  | compile_func.__c_xor => __c_xor_dis pc instr tu
  | compile_func.__c_or => __c_or_dis pc instr tu
  | compile_func.__c_and => __c_and_dis pc instr tu
  | compile_func.__c_j => __c_j_dis pc instr tu
  | compile_func.__c_beqz => __c_beqz_dis pc instr tu
  | compile_func.__c_bnez => __c_bnez_dis pc instr tu
  | compile_func.__c_slli => __c_slli_dis pc instr tu
  | compile_func.__c_lwsp => __c_lwsp_dis pc instr tu
  | compile_func.__c_mv => __c_mv_dis pc instr tu
  | compile_func.__c_jr => __c_jr_dis pc instr tu
  | compile_func.__c_add => __c_add_dis pc instr tu
  | compile_func.__c_jalr => __c_jalr_dis pc instr tu
  | compile_func.__c_ebreak => __c_ebreak_dis pc instr tu
  | compile_func.__c_swsp => __c_swsp_dis pc instr tu
  | compile_func.__dii => __dii_dis pc instr tu
  | compile_func.__c_flw => __c_flw_dis pc instr tu
  | compile_func.__c_fsw => __c_fsw_dis pc instr tu
  | compile_func.__c_flwsp => __c_flwsp_dis pc instr tu
  | compile_func.__c_fswsp => __c_fswsp_dis pc instr tu
  | compile_func.__c_fld => __c_fld_dis pc instr tu
  | compile_func.__c_fsd => __c_fsd_dis pc instr tu
  | compile_func.__c_fldsp => __c_fldsp_dis pc instr tu
  | compile_func.__c_fsdsp => __c_fsdsp_dis pc instr tu
  | compile_func.illegal_intruction => absurd rfl hf

/-- The termination kind does not depend on the arguments of the handler. -/
theorem invoke_cont (f : compile_func) (dis : Bool) (pc instr : Nat) (tu : tu_builder) :
    (invoke f dis pc instr tu).cont = handler_kind f := by
  cases f <;> rfl

/-- Removing the inserted line gives the lines emitted with disassembly disabled. -/
theorem disass_inserted_filter {enabled disabled : List line}
    (h : disass_inserted enabled disabled) :
    enabled.filter (fun l => !l.is_print_disass) = disabled ∧
      (enabled.filter line.is_print_disass).length = 1 ∧
      enabled.length = disabled.length + 1 := by
  obtain ⟨pre, post, l, h1, h2, h3, h4⟩ := h
  subst h1 h2
  rw [List.filter_append, List.append_eq_nil] at h4
  have hpre : ∀ x ∈ pre, x.is_print_disass = false := by
    intro x hx
    have := List.filter_eq_nil_iff.mp h4.1 x hx
    simpa using this
  have hpost : ∀ x ∈ post, x.is_print_disass = false := by
    intro x hx
    have := List.filter_eq_nil_iff.mp h4.2 x hx
    simpa using this
  have e1 : pre.filter (fun l => !l.is_print_disass) = pre :=
    List.filter_eq_self.mpr (fun x hx => by simp [hpre x hx])
  have e2 : post.filter (fun l => !l.is_print_disass) = post :=
    List.filter_eq_self.mpr (fun x hx => by simp [hpost x hx])
  refine ⟨?_, ?_, ?_⟩
  · rw [List.filter_append, List.filter_cons, e1, e2]
    simp [h3]
  · rw [List.filter_append, List.filter_cons, h4.1, h4.2]
    simp [h3]
  · simp [List.length_append]
    omega
/-! ## Table sizes -/

/-- The index computed by `extract_fields_pos` has one bit per mask bit below `p` on top
of the bits of `acc`. -/
theorem extract_fields_pos_lt (p val mask acc : Nat) :
    extract_fields_pos p val mask acc < (acc + 1) * 2 ^ bit_count_below p mask := by
  induction p generalizing acc with
  | zero => simp [extract_fields_pos, bit_count_below]
  | succ p ih =>
    unfold extract_fields_pos bit_count_below
    simp only
    by_cases hb : mask.testBit p = true
    · have hm : ¬(mask &&& 1 <<< p = 0) := by
        intro h
        rw [and_one_shiftLeft_eq_zero] at h
        rw [h] at hb
        exact absurd hb (by decide)
      rw [if_neg hm, if_pos hb]
      have hsh : acc <<< 1 = acc * 2 := by rw [Nat.shiftLeft_eq]
      split
      · refine lt_of_lt_of_le (ih _) ?_
        rw [hsh, Nat.pow_add]
        apply le_of_eq
        ring
      · refine lt_of_lt_of_le (ih _) ?_
        rw [hsh, Nat.pow_add]
        have : 0 < 2 ^ bit_count_below p mask := by positivity
        nlinarith
    · have hb' : mask.testBit p = false := by simpa using hb
      have hm : mask &&& 1 <<< p = 0 := by
        rw [and_one_shiftLeft_eq_zero]
        exact hb'
      rw [if_pos hm, if_neg hb, Nat.zero_add]
      exact ih acc

/-- The lookup index of a word is below the size of the array of its quadrant. -/
theorem extract_fields_lt (w : Nat) : extract_fields w < lut_size (w &&& 0x3) := by
  unfold extract_fields extract_fields_at
  have h := extract_fields_pos_lt 30 (w >>> 2) (lutmasks (w &&& 0x3)) 0
  have hq : w &&& 0x3 < 4 := Nat.lt_of_le_of_lt Nat.and_le_right (by decide)
  have hs : (0 + 1) * 2 ^ bit_count_below 30 (lutmasks (w &&& 0x3)) = lut_size (w &&& 0x3) := by
    generalize w &&& 0x3 = q at hq
    interval_cases q <;> decide
  rw [hs] at h
  exact h
/-! ## Trap lines of the compressed handlers -/

theorem trap_word_0_2 :
    int_t 32 ((((0x80 <<< 24) ||| (uint_t 16 2 <<< 16)) ||| uint_t 16 0 : Nat) : Int) =
      -2147352576 := by
  decide

/-- The trap lines of `__c_li`. -/
theorem c_li_raise (dis : Bool) (pc instr : Nat) (tu : tu_builder) :
    (emitted tu (__c_li dis pc instr tu)).filter line.is_trap_state =
      if bit_sub 7 5 instr = 0 then [line.trap_state (-2147352576)] else [] := by
  simp only [__c_li, emitted, tu_simps, uint_t_8_bit_sub _ _ _ (by decide : 5 ≤ 8),
    trap_word_0_2]
  by_cases h : bit_sub 7 5 instr = 0 <;> cases dis <;>
    simp [h, line.is_trap_state, List.filter_cons]

/-- The trap lines of `__c_slli`. -/
theorem c_slli_raise (dis : Bool) (pc instr : Nat) (tu : tu_builder) :
    (emitted tu (__c_slli dis pc instr tu)).filter line.is_trap_state =
      if bit_sub 7 5 instr = 0 then [line.trap_state (-2147352576)] else [] := by
  simp only [__c_slli, emitted, tu_simps, uint_t_8_bit_sub _ _ _ (by decide : 5 ≤ 8),
    trap_word_0_2]
  by_cases h : bit_sub 7 5 instr = 0 <;> cases dis <;>
    simp [h, line.is_trap_state, List.filter_cons]

/-- The trap lines of `__c_addi4spn`. -/
theorem c_addi4spn_raise (dis : Bool) (pc instr : Nat) (tu : tu_builder) :
    (emitted tu (__c_addi4spn dis pc instr tu)).filter line.is_trap_state =
      if c_addi4spn_imm instr = 0 then [line.trap_state (-2147352576)] else [] := by
  simp only [__c_addi4spn, emitted, tu_simps, uint_t_8_bit_sub _ _ _ (by decide : 3 ≤ 8),
    trap_word_0_2]
  rw [show uint_t 16
    (((((bit_sub 5 1 instr) <<< 3) ||| ((bit_sub 6 1 instr) <<< 2)) |||
      ((bit_sub 7 4 instr) <<< 6)) ||| ((bit_sub 11 2 instr) <<< 4)) = c_addi4spn_imm instr from rfl]
  generalize c_addi4spn_imm instr = imm
  by_cases h : imm = 0 <;> cases dis <;>
    simp [h, line.is_trap_state, List.filter_cons]

/-- The trap lines of `__c_lui`: one for `rd = 0` and one for `imm = 0`. -/
theorem c_lui_raise (dis : Bool) (pc instr : Nat) (tu : tu_builder) :
    (emitted tu (__c_lui dis pc instr tu)).filter line.is_trap_state =
      (if bit_sub 7 5 instr = 0 then [line.trap_state (-2147352576)] else []) ++
        (if c_lui_imm instr = 0 then [line.trap_state (-2147352576)] else []) := by
  simp only [__c_lui, emitted, tu_simps, uint_t_8_bit_sub _ _ _ (by decide : 5 ≤ 8),
    trap_word_0_2]
  rw [show signextend 32 18 (((bit_sub 2 5 instr) <<< 12) ||| ((bit_sub 12 1 instr) <<< 17)) =
    c_lui_imm instr from rfl]
  generalize c_lui_imm instr = imm
  by_cases h : bit_sub 7 5 instr = 0 <;> by_cases h2 : imm = 0 <;> cases dis <;>
    simp [h, h2, line.is_trap_state, List.filter_cons]

/-! ## Handlers that emit no trap -/

theorem __mul_no_trap (dis : Bool) (pc instr : Nat) (tu : tu_builder) :
    (emitted tu (__mul dis pc instr tu)).filter line.is_trap_state = [] := by
  simp only [__mul, emitted, tu_simps]
  cases dis <;>
    simp [line.is_trap_state, List.filter_cons, apply_ite (List.filter line.is_trap_state)]

theorem __mulh_no_trap (dis : Bool) (pc instr : Nat) (tu : tu_builder) :
    (emitted tu (__mulh dis pc instr tu)).filter line.is_trap_state = [] := by
  simp only [__mulh, emitted, tu_simps]
  cases dis <;>
    simp [line.is_trap_state, List.filter_cons, apply_ite (List.filter line.is_trap_state)]

theorem __mulhsu_no_trap (dis : Bool) (pc instr : Nat) (tu : tu_builder) :
    (emitted tu (__mulhsu dis pc instr tu)).filter line.is_trap_state = [] := by
  simp only [__mulhsu, emitted, tu_simps]
  cases dis <;>
    simp [line.is_trap_state, List.filter_cons, apply_ite (List.filter line.is_trap_state)]

theorem __mulhu_no_trap (dis : Bool) (pc instr : Nat) (tu : tu_builder) :
    (emitted tu (__mulhu dis pc instr tu)).filter line.is_trap_state = [] := by
  simp only [__mulhu, emitted, tu_simps]
  cases dis <;>
    simp [line.is_trap_state, List.filter_cons, apply_ite (List.filter line.is_trap_state)]

theorem __div_no_trap (dis : Bool) (pc instr : Nat) (tu : tu_builder) :
    (emitted tu (__div dis pc instr tu)).filter line.is_trap_state = [] := by
  simp only [__div, emitted, tu_simps]
  cases dis <;>
    simp [line.is_trap_state, List.filter_cons, apply_ite (List.filter line.is_trap_state)]

theorem __divu_no_trap (dis : Bool) (pc instr : Nat) (tu : tu_builder) :
    (emitted tu (__divu dis pc instr tu)).filter line.is_trap_state = [] := by
  simp only [__divu, emitted, tu_simps]
  cases dis <;>
    simp [line.is_trap_state, List.filter_cons, apply_ite (List.filter line.is_trap_state)]

theorem __rem_no_trap (dis : Bool) (pc instr : Nat) (tu : tu_builder) :
    (emitted tu (__rem dis pc instr tu)).filter line.is_trap_state = [] := by
  simp only [__rem, emitted, tu_simps]
  cases dis <;>
    simp [line.is_trap_state, List.filter_cons, apply_ite (List.filter line.is_trap_state)]

theorem __remu_no_trap (dis : Bool) (pc instr : Nat) (tu : tu_builder) :
    (emitted tu (__remu dis pc instr tu)).filter line.is_trap_state = [] := by
  simp only [__remu, emitted, tu_simps]
  cases dis <;>
    simp [line.is_trap_state, List.filter_cons, apply_ite (List.filter line.is_trap_state)]

theorem __lr_w_no_trap (dis : Bool) (pc instr : Nat) (tu : tu_builder) :
    (emitted tu (__lr_w dis pc instr tu)).filter line.is_trap_state = [] := by
  simp only [__lr_w, emitted, tu_simps]
  cases dis <;>
    simp [line.is_trap_state, List.filter_cons, apply_ite (List.filter line.is_trap_state)]

theorem __sc_w_no_trap (dis : Bool) (pc instr : Nat) (tu : tu_builder) :
    (emitted tu (__sc_w dis pc instr tu)).filter line.is_trap_state = [] := by
  simp only [__sc_w, emitted, tu_simps]
  cases dis <;>
    simp [line.is_trap_state, List.filter_cons, apply_ite (List.filter line.is_trap_state)]

theorem __amoswap_w_no_trap (dis : Bool) (pc instr : Nat) (tu : tu_builder) :
    (emitted tu (__amoswap_w dis pc instr tu)).filter line.is_trap_state = [] := by
  simp only [__amoswap_w, emitted, tu_simps]
  cases dis <;>
    simp [line.is_trap_state, List.filter_cons, apply_ite (List.filter line.is_trap_state)]

theorem __amoadd_w_no_trap (dis : Bool) (pc instr : Nat) (tu : tu_builder) :
    (emitted tu (__amoadd_w dis pc instr tu)).filter line.is_trap_state = [] := by
  simp only [__amoadd_w, emitted, tu_simps]
  cases dis <;>
    simp [line.is_trap_state, List.filter_cons, apply_ite (List.filter line.is_trap_state)]

theorem __amoxor_w_no_trap (dis : Bool) (pc instr : Nat) (tu : tu_builder) :
    (emitted tu (__amoxor_w dis pc instr tu)).filter line.is_trap_state = [] := by
  simp only [__amoxor_w, emitted, tu_simps]
  cases dis <;>
    simp [line.is_trap_state, List.filter_cons, apply_ite (List.filter line.is_trap_state)]

theorem __amoand_w_no_trap (dis : Bool) (pc instr : Nat) (tu : tu_builder) :
    (emitted tu (__amoand_w dis pc instr tu)).filter line.is_trap_state = [] := by
  simp only [__amoand_w, emitted, tu_simps]
  cases dis <;>
    simp [line.is_trap_state, List.filter_cons, apply_ite (List.filter line.is_trap_state)]

theorem __amoor_w_no_trap (dis : Bool) (pc instr : Nat) (tu : tu_builder) :
    (emitted tu (__amoor_w dis pc instr tu)).filter line.is_trap_state = [] := by
  simp only [__amoor_w, emitted, tu_simps]
  cases dis <;>
    simp [line.is_trap_state, List.filter_cons, apply_ite (List.filter line.is_trap_state)]

theorem __amomin_w_no_trap (dis : Bool) (pc instr : Nat) (tu : tu_builder) :
    (emitted tu (__amomin_w dis pc instr tu)).filter line.is_trap_state = [] := by
  simp only [__amomin_w, emitted, tu_simps]
  cases dis <;>
    simp [line.is_trap_state, List.filter_cons, apply_ite (List.filter line.is_trap_state)]

theorem __amomax_w_no_trap (dis : Bool) (pc instr : Nat) (tu : tu_builder) :
    (emitted tu (__amomax_w dis pc instr tu)).filter line.is_trap_state = [] := by
  simp only [__amomax_w, emitted, tu_simps]
  cases dis <;>
    simp [line.is_trap_state, List.filter_cons, apply_ite (List.filter line.is_trap_state)]

theorem __amominu_w_no_trap (dis : Bool) (pc instr : Nat) (tu : tu_builder) :
    (emitted tu (__amominu_w dis pc instr tu)).filter line.is_trap_state = [] := by
  simp only [__amominu_w, emitted, tu_simps]
  cases dis <;>
    simp [line.is_trap_state, List.filter_cons, apply_ite (List.filter line.is_trap_state)]

theorem __amomaxu_w_no_trap (dis : Bool) (pc instr : Nat) (tu : tu_builder) :
    (emitted tu (__amomaxu_w dis pc instr tu)).filter line.is_trap_state = [] := by
  simp only [__amomaxu_w, emitted, tu_simps]
  cases dis <;>
    simp [line.is_trap_state, List.filter_cons, apply_ite (List.filter line.is_trap_state)]

theorem __lui_no_trap (dis : Bool) (pc instr : Nat) (tu : tu_builder) :
    (emitted tu (__lui dis pc instr tu)).filter line.is_trap_state = [] := by
  simp only [__lui, emitted, tu_simps]
  cases dis <;>
    simp [line.is_trap_state, List.filter_cons, apply_ite (List.filter line.is_trap_state)]

theorem __auipc_no_trap (dis : Bool) (pc instr : Nat) (tu : tu_builder) :
    (emitted tu (__auipc dis pc instr tu)).filter line.is_trap_state = [] := by
  simp only [__auipc, emitted, tu_simps]
  cases dis <;>
    simp [line.is_trap_state, List.filter_cons, apply_ite (List.filter line.is_trap_state)]

theorem __jal_no_trap (dis : Bool) (pc instr : Nat) (tu : tu_builder) :
    (emitted tu (__jal dis pc instr tu)).filter line.is_trap_state = [] := by
  simp only [__jal, emitted, tu_simps]
  cases dis <;>
    simp [line.is_trap_state, List.filter_cons, apply_ite (List.filter line.is_trap_state)]

theorem __beq_no_trap (dis : Bool) (pc instr : Nat) (tu : tu_builder) :
    (emitted tu (__beq dis pc instr tu)).filter line.is_trap_state = [] := by
  simp only [__beq, emitted, tu_simps]
  cases dis <;>
    simp [line.is_trap_state, List.filter_cons, apply_ite (List.filter line.is_trap_state)]

theorem __bne_no_trap (dis : Bool) (pc instr : Nat) (tu : tu_builder) :
    (emitted tu (__bne dis pc instr tu)).filter line.is_trap_state = [] := by
  simp only [__bne, emitted, tu_simps]
  cases dis <;>
    simp [line.is_trap_state, List.filter_cons, apply_ite (List.filter line.is_trap_state)]

theorem __blt_no_trap (dis : Bool) (pc instr : Nat) (tu : tu_builder) :
    (emitted tu (__blt dis pc instr tu)).filter line.is_trap_state = [] := by
  simp only [__blt, emitted, tu_simps]
  cases dis <;>
    simp [line.is_trap_state, List.filter_cons, apply_ite (List.filter line.is_trap_state)]

theorem __bge_no_trap (dis : Bool) (pc instr : Nat) (tu : tu_builder) :
    (emitted tu (__bge dis pc instr tu)).filter line.is_trap_state = [] := by
  simp only [__bge, emitted, tu_simps]
  cases dis <;>
    simp [line.is_trap_state, List.filter_cons, apply_ite (List.filter line.is_trap_state)]

theorem __bltu_no_trap (dis : Bool) (pc instr : Nat) (tu : tu_builder) :
    (emitted tu (__bltu dis pc instr tu)).filter line.is_trap_state = [] := by
  simp only [__bltu, emitted, tu_simps]
  cases dis <;>
    simp [line.is_trap_state, List.filter_cons, apply_ite (List.filter line.is_trap_state)]

theorem __bgeu_no_trap (dis : Bool) (pc instr : Nat) (tu : tu_builder) :
    (emitted tu (__bgeu dis pc instr tu)).filter line.is_trap_state = [] := by
  simp only [__bgeu, emitted, tu_simps]
  cases dis <;>
    simp [line.is_trap_state, List.filter_cons, apply_ite (List.filter line.is_trap_state)]

theorem __lb_no_trap (dis : Bool) (pc instr : Nat) (tu : tu_builder) :
    (emitted tu (__lb dis pc instr tu)).filter line.is_trap_state = [] := by
  simp only [__lb, emitted, tu_simps]
  cases dis <;>
    simp [line.is_trap_state, List.filter_cons, apply_ite (List.filter line.is_trap_state)]

theorem __lh_no_trap (dis : Bool) (pc instr : Nat) (tu : tu_builder) :
    (emitted tu (__lh dis pc instr tu)).filter line.is_trap_state = [] := by
  simp only [__lh, emitted, tu_simps]
  cases dis <;>
    simp [line.is_trap_state, List.filter_cons, apply_ite (List.filter line.is_trap_state)]

theorem __lw_no_trap (dis : Bool) (pc instr : Nat) (tu : tu_builder) :
    (emitted tu (__lw dis pc instr tu)).filter line.is_trap_state = [] := by
  simp only [__lw, emitted, tu_simps]
  cases dis <;>
    simp [line.is_trap_state, List.filter_cons, apply_ite (List.filter line.is_trap_state)]

theorem __lbu_no_trap (dis : Bool) (pc instr : Nat) (tu : tu_builder) :
    (emitted tu (__lbu dis pc instr tu)).filter line.is_trap_state = [] := by
  simp only [__lbu, emitted, tu_simps]
  cases dis <;>
    simp [line.is_trap_state, List.filter_cons, apply_ite (List.filter line.is_trap_state)]

theorem __lhu_no_trap (dis : Bool) (pc instr : Nat) (tu : tu_builder) :
    (emitted tu (__lhu dis pc instr tu)).filter line.is_trap_state = [] := by
  simp only [__lhu, emitted, tu_simps]
  cases dis <;>
    simp [line.is_trap_state, List.filter_cons, apply_ite (List.filter line.is_trap_state)]

theorem __sb_no_trap (dis : Bool) (pc instr : Nat) (tu : tu_builder) :
    (emitted tu (__sb dis pc instr tu)).filter line.is_trap_state = [] := by
  simp only [__sb, emitted, tu_simps]
  cases dis <;>
    simp [line.is_trap_state, List.filter_cons, apply_ite (List.filter line.is_trap_state)]

theorem __sh_no_trap (dis : Bool) (pc instr : Nat) (tu : tu_builder) :
    (emitted tu (__sh dis pc instr tu)).filter line.is_trap_state = [] := by
  simp only [__sh, emitted, tu_simps]
  cases dis <;>
    simp [line.is_trap_state, List.filter_cons, apply_ite (List.filter line.is_trap_state)]

theorem __sw_no_trap (dis : Bool) (pc instr : Nat) (tu : tu_builder) :
    (emitted tu (__sw dis pc instr tu)).filter line.is_trap_state = [] := by
  simp only [__sw, emitted, tu_simps]
  cases dis <;>
    simp [line.is_trap_state, List.filter_cons, apply_ite (List.filter line.is_trap_state)]

theorem __addi_no_trap (dis : Bool) (pc instr : Nat) (tu : tu_builder) :
    (emitted tu (__addi dis pc instr tu)).filter line.is_trap_state = [] := by
  simp only [__addi, emitted, tu_simps]
  cases dis <;>
    simp [line.is_trap_state, List.filter_cons, apply_ite (List.filter line.is_trap_state)]

theorem __slti_no_trap (dis : Bool) (pc instr : Nat) (tu : tu_builder) :
    (emitted tu (__slti dis pc instr tu)).filter line.is_trap_state = [] := by
  simp only [__slti, emitted, tu_simps]
  cases dis <;>
    simp [line.is_trap_state, List.filter_cons, apply_ite (List.filter line.is_trap_state)]

theorem __sltiu_no_trap (dis : Bool) (pc instr : Nat) (tu : tu_builder) :
    (emitted tu (__sltiu dis pc instr tu)).filter line.is_trap_state = [] := by
  simp only [__sltiu, emitted, tu_simps]
  cases dis <;>
    simp [line.is_trap_state, List.filter_cons, apply_ite (List.filter line.is_trap_state)]

theorem __xori_no_trap (dis : Bool) (pc instr : Nat) (tu : tu_builder) :
    (emitted tu (__xori dis pc instr tu)).filter line.is_trap_state = [] := by
  simp only [__xori, emitted, tu_simps]
  cases dis <;>
    simp [line.is_trap_state, List.filter_cons, apply_ite (List.filter line.is_trap_state)]

theorem __ori_no_trap (dis : Bool) (pc instr : Nat) (tu : tu_builder) :
    (emitted tu (__ori dis pc instr tu)).filter line.is_trap_state = [] := by
  simp only [__ori, emitted, tu_simps]
  cases dis <;>
    simp [line.is_trap_state, List.filter_cons, apply_ite (List.filter line.is_trap_state)]

theorem __andi_no_trap (dis : Bool) (pc instr : Nat) (tu : tu_builder) :
    (emitted tu (__andi dis pc instr tu)).filter line.is_trap_state = [] := by
  simp only [__andi, emitted, tu_simps]
  cases dis <;>
    simp [line.is_trap_state, List.filter_cons, apply_ite (List.filter line.is_trap_state)]

theorem __slli_no_trap (dis : Bool) (pc instr : Nat) (tu : tu_builder) :
    (emitted tu (__slli dis pc instr tu)).filter line.is_trap_state = [] := by
  have hlt : ¬(bit_sub 20 5 instr > 31) := by
    have := bit_sub_lt 20 5 instr
    norm_num at this
    omega
  simp only [__slli, emitted, tu_simps, uint_t_8_bit_sub _ _ _ (by decide : 5 ≤ 8), if_neg hlt]
  cases dis <;>
    simp [line.is_trap_state, List.filter_cons, apply_ite (List.filter line.is_trap_state)]

theorem __srli_no_trap (dis : Bool) (pc instr : Nat) (tu : tu_builder) :
    (emitted tu (__srli dis pc instr tu)).filter line.is_trap_state = [] := by
  have hlt : ¬(bit_sub 20 5 instr > 31) := by
    have := bit_sub_lt 20 5 instr
    norm_num at this
    omega
  simp only [__srli, emitted, tu_simps, uint_t_8_bit_sub _ _ _ (by decide : 5 ≤ 8), if_neg hlt]
  cases dis <;>
    simp [line.is_trap_state, List.filter_cons, apply_ite (List.filter line.is_trap_state)]

theorem __srai_no_trap (dis : Bool) (pc instr : Nat) (tu : tu_builder) :
    (emitted tu (__srai dis pc instr tu)).filter line.is_trap_state = [] := by
  have hlt : ¬(bit_sub 20 5 instr > 31) := by
    have := bit_sub_lt 20 5 instr
    norm_num at this
    omega
  simp only [__srai, emitted, tu_simps, uint_t_8_bit_sub _ _ _ (by decide : 5 ≤ 8), if_neg hlt]
  cases dis <;>
    simp [line.is_trap_state, List.filter_cons, apply_ite (List.filter line.is_trap_state)]

theorem __add_no_trap (dis : Bool) (pc instr : Nat) (tu : tu_builder) :
    (emitted tu (__add dis pc instr tu)).filter line.is_trap_state = [] := by
  simp only [__add, emitted, tu_simps]
  cases dis <;>
    simp [line.is_trap_state, List.filter_cons, apply_ite (List.filter line.is_trap_state)]

theorem __sub_no_trap (dis : Bool) (pc instr : Nat) (tu : tu_builder) :
    (emitted tu (__sub dis pc instr tu)).filter line.is_trap_state = [] := by
  simp only [__sub, emitted, tu_simps]
  cases dis <;>
    simp [line.is_trap_state, List.filter_cons, apply_ite (List.filter line.is_trap_state)]

theorem __sll_no_trap (dis : Bool) (pc instr : Nat) (tu : tu_builder) :
    (emitted tu (__sll dis pc instr tu)).filter line.is_trap_state = [] := by
  simp only [__sll, emitted, tu_simps]
  cases dis <;>
    simp [line.is_trap_state, List.filter_cons, apply_ite (List.filter line.is_trap_state)]

theorem __slt_no_trap (dis : Bool) (pc instr : Nat) (tu : tu_builder) :
    (emitted tu (__slt dis pc instr tu)).filter line.is_trap_state = [] := by
  simp only [__slt, emitted, tu_simps]
  cases dis <;>
    simp [line.is_trap_state, List.filter_cons, apply_ite (List.filter line.is_trap_state)]

theorem __sltu_no_trap (dis : Bool) (pc instr : Nat) (tu : tu_builder) :
    (emitted tu (__sltu dis pc instr tu)).filter line.is_trap_state = [] := by
  simp only [__sltu, emitted, tu_simps]
  cases dis <;>
    simp [line.is_trap_state, List.filter_cons, apply_ite (List.filter line.is_trap_state)]

theorem __xor_no_trap (dis : Bool) (pc instr : Nat) (tu : tu_builder) :
    (emitted tu (__xor dis pc instr tu)).filter line.is_trap_state = [] := by
  simp only [__xor, emitted, tu_simps]
  cases dis <;>
    simp [line.is_trap_state, List.filter_cons, apply_ite (List.filter line.is_trap_state)]

theorem __srl_no_trap (dis : Bool) (pc instr : Nat) (tu : tu_builder) :
    (emitted tu (__srl dis pc instr tu)).filter line.is_trap_state = [] := by
  simp only [__srl, emitted, tu_simps]
  cases dis <;>
    simp [line.is_trap_state, List.filter_cons, apply_ite (List.filter line.is_trap_state)]

theorem __sra_no_trap (dis : Bool) (pc instr : Nat) (tu : tu_builder) :
    (emitted tu (__sra dis pc instr tu)).filter line.is_trap_state = [] := by
  simp only [__sra, emitted, tu_simps]
  cases dis <;>
    simp [line.is_trap_state, List.filter_cons, apply_ite (List.filter line.is_trap_state)]

theorem __or_no_trap (dis : Bool) (pc instr : Nat) (tu : tu_builder) :
    (emitted tu (__or dis pc instr tu)).filter line.is_trap_state = [] := by
  simp only [__or, emitted, tu_simps]
  cases dis <;>
    simp [line.is_trap_state, List.filter_cons, apply_ite (List.filter line.is_trap_state)]

theorem __and_no_trap (dis : Bool) (pc instr : Nat) (tu : tu_builder) :
    (emitted tu (__and dis pc instr tu)).filter line.is_trap_state = [] := by
  simp only [__and, emitted, tu_simps]
  cases dis <;>
    simp [line.is_trap_state, List.filter_cons, apply_ite (List.filter line.is_trap_state)]

theorem __fence_no_trap (dis : Bool) (pc instr : Nat) (tu : tu_builder) :
    (emitted tu (__fence dis pc instr tu)).filter line.is_trap_state = [] := by
  simp only [__fence, emitted, tu_simps]
  cases dis <;>
    simp [line.is_trap_state, List.filter_cons, apply_ite (List.filter line.is_trap_state)]

theorem __fence_i_no_trap (dis : Bool) (pc instr : Nat) (tu : tu_builder) :
    (emitted tu (__fence_i dis pc instr tu)).filter line.is_trap_state = [] := by
  simp only [__fence_i, emitted, tu_simps]
  cases dis <;>
    simp [line.is_trap_state, List.filter_cons, apply_ite (List.filter line.is_trap_state)]

theorem __uret_no_trap (dis : Bool) (pc instr : Nat) (tu : tu_builder) :
    (emitted tu (__uret dis pc instr tu)).filter line.is_trap_state = [] := by
  simp only [__uret, emitted, tu_simps]
  cases dis <;>
    simp [line.is_trap_state, List.filter_cons, apply_ite (List.filter line.is_trap_state)]

theorem __sret_no_trap (dis : Bool) (pc instr : Nat) (tu : tu_builder) :
    (emitted tu (__sret dis pc instr tu)).filter line.is_trap_state = [] := by
  simp only [__sret, emitted, tu_simps]
  cases dis <;>
    simp [line.is_trap_state, List.filter_cons, apply_ite (List.filter line.is_trap_state)]

theorem __mret_no_trap (dis : Bool) (pc instr : Nat) (tu : tu_builder) :
    (emitted tu (__mret dis pc instr tu)).filter line.is_trap_state = [] := by
  simp only [__mret, emitted, tu_simps]
  cases dis <;>
    simp [line.is_trap_state, List.filter_cons, apply_ite (List.filter line.is_trap_state)]

theorem __wfi_no_trap (dis : Bool) (pc instr : Nat) (tu : tu_builder) :
    (emitted tu (__wfi dis pc instr tu)).filter line.is_trap_state = [] := by
  simp only [__wfi, emitted, tu_simps]
  cases dis <;>
    simp [line.is_trap_state, List.filter_cons, apply_ite (List.filter line.is_trap_state)]

theorem __sfence_vma_no_trap (dis : Bool) (pc instr : Nat) (tu : tu_builder) :
    (emitted tu (__sfence_vma dis pc instr tu)).filter line.is_trap_state = [] := by
  simp only [__sfence_vma, emitted, tu_simps]
  cases dis <;>
    simp [line.is_trap_state, List.filter_cons, apply_ite (List.filter line.is_trap_state)]

theorem __csrrw_no_trap (dis : Bool) (pc instr : Nat) (tu : tu_builder) :
    (emitted tu (__csrrw dis pc instr tu)).filter line.is_trap_state = [] := by
  simp only [__csrrw, emitted, tu_simps]
  cases dis <;>
    simp [line.is_trap_state, List.filter_cons, apply_ite (List.filter line.is_trap_state)]

theorem __csrrs_no_trap (dis : Bool) (pc instr : Nat) (tu : tu_builder) :
    (emitted tu (__csrrs dis pc instr tu)).filter line.is_trap_state = [] := by
  simp only [__csrrs, emitted, tu_simps]
  cases dis <;>
    simp [line.is_trap_state, List.filter_cons, apply_ite (List.filter line.is_trap_state)]

theorem __csrrc_no_trap (dis : Bool) (pc instr : Nat) (tu : tu_builder) :
    (emitted tu (__csrrc dis pc instr tu)).filter line.is_trap_state = [] := by
  simp only [__csrrc, emitted, tu_simps]
  cases dis <;>
    simp [line.is_trap_state, List.filter_cons, apply_ite (List.filter line.is_trap_state)]

theorem __csrrwi_no_trap (dis : Bool) (pc instr : Nat) (tu : tu_builder) :
    (emitted tu (__csrrwi dis pc instr tu)).filter line.is_trap_state = [] := by
  simp only [__csrrwi, emitted, tu_simps]
  cases dis <;>
    simp [line.is_trap_state, List.filter_cons, apply_ite (List.filter line.is_trap_state)]

theorem __csrrsi_no_trap (dis : Bool) (pc instr : Nat) (tu : tu_builder) :
    (emitted tu (__csrrsi dis pc instr tu)).filter line.is_trap_state = [] := by
  simp only [__csrrsi, emitted, tu_simps]
  cases dis <;>
    simp [line.is_trap_state, List.filter_cons, apply_ite (List.filter line.is_trap_state)]

theorem __csrrci_no_trap (dis : Bool) (pc instr : Nat) (tu : tu_builder) :
    (emitted tu (__csrrci dis pc instr tu)).filter line.is_trap_state = [] := by
  simp only [__csrrci, emitted, tu_simps]
  cases dis <;>
    simp [line.is_trap_state, List.filter_cons, apply_ite (List.filter line.is_trap_state)]

theorem __flw_no_trap (dis : Bool) (pc instr : Nat) (tu : tu_builder) :
    (emitted tu (__flw dis pc instr tu)).filter line.is_trap_state = [] := by
  simp only [__flw, emitted, tu_simps]
  cases dis <;>
    simp [line.is_trap_state, List.filter_cons, apply_ite (List.filter line.is_trap_state)]

theorem __fsw_no_trap (dis : Bool) (pc instr : Nat) (tu : tu_builder) :
    (emitted tu (__fsw dis pc instr tu)).filter line.is_trap_state = [] := by
  simp only [__fsw, emitted, tu_simps]
  cases dis <;>
    simp [line.is_trap_state, List.filter_cons, apply_ite (List.filter line.is_trap_state)]

theorem __fmadd_s_no_trap (dis : Bool) (pc instr : Nat) (tu : tu_builder) :
    (emitted tu (__fmadd_s dis pc instr tu)).filter line.is_trap_state = [] := by
  simp only [__fmadd_s, emitted, tu_simps]
  cases dis <;>
    simp [line.is_trap_state, List.filter_cons, apply_ite (List.filter line.is_trap_state)]

theorem __fmsub_s_no_trap (dis : Bool) (pc instr : Nat) (tu : tu_builder) :
    (emitted tu (__fmsub_s dis pc instr tu)).filter line.is_trap_state = [] := by
  simp only [__fmsub_s, emitted, tu_simps]
  cases dis <;>
    simp [line.is_trap_state, List.filter_cons, apply_ite (List.filter line.is_trap_state)]

theorem __fnmadd_s_no_trap (dis : Bool) (pc instr : Nat) (tu : tu_builder) :
    (emitted tu (__fnmadd_s dis pc instr tu)).filter line.is_trap_state = [] := by
  simp only [__fnmadd_s, emitted, tu_simps]
  cases dis <;>
    simp [line.is_trap_state, List.filter_cons, apply_ite (List.filter line.is_trap_state)]

theorem __fnmsub_s_no_trap (dis : Bool) (pc instr : Nat) (tu : tu_builder) :
    (emitted tu (__fnmsub_s dis pc instr tu)).filter line.is_trap_state = [] := by
  simp only [__fnmsub_s, emitted, tu_simps]
  cases dis <;>
    simp [line.is_trap_state, List.filter_cons, apply_ite (List.filter line.is_trap_state)]

theorem __fadd_s_no_trap (dis : Bool) (pc instr : Nat) (tu : tu_builder) :
    (emitted tu (__fadd_s dis pc instr tu)).filter line.is_trap_state = [] := by
  simp only [__fadd_s, emitted, tu_simps]
  cases dis <;>
    simp [line.is_trap_state, List.filter_cons, apply_ite (List.filter line.is_trap_state)]

theorem __fsub_s_no_trap (dis : Bool) (pc instr : Nat) (tu : tu_builder) :
    (emitted tu (__fsub_s dis pc instr tu)).filter line.is_trap_state = [] := by
  simp only [__fsub_s, emitted, tu_simps]
  cases dis <;>
    simp [line.is_trap_state, List.filter_cons, apply_ite (List.filter line.is_trap_state)]

theorem __fmul_s_no_trap (dis : Bool) (pc instr : Nat) (tu : tu_builder) :
    (emitted tu (__fmul_s dis pc instr tu)).filter line.is_trap_state = [] := by
  simp only [__fmul_s, emitted, tu_simps]
  cases dis <;>
    simp [line.is_trap_state, List.filter_cons, apply_ite (List.filter line.is_trap_state)]

theorem __fdiv_s_no_trap (dis : Bool) (pc instr : Nat) (tu : tu_builder) :
    (emitted tu (__fdiv_s dis pc instr tu)).filter line.is_trap_state = [] := by
  simp only [__fdiv_s, emitted, tu_simps]
  cases dis <;>
    simp [line.is_trap_state, List.filter_cons, apply_ite (List.filter line.is_trap_state)]

theorem __fsqrt_s_no_trap (dis : Bool) (pc instr : Nat) (tu : tu_builder) :
    (emitted tu (__fsqrt_s dis pc instr tu)).filter line.is_trap_state = [] := by
  simp only [__fsqrt_s, emitted, tu_simps]
  cases dis <;>
    simp [line.is_trap_state, List.filter_cons, apply_ite (List.filter line.is_trap_state)]

theorem __fsgnj_s_no_trap (dis : Bool) (pc instr : Nat) (tu : tu_builder) :
    (emitted tu (__fsgnj_s dis pc instr tu)).filter line.is_trap_state = [] := by
  simp only [__fsgnj_s, emitted, tu_simps]
  cases dis <;>
    simp [line.is_trap_state, List.filter_cons, apply_ite (List.filter line.is_trap_state)]

theorem __fsgnjn_s_no_trap (dis : Bool) (pc instr : Nat) (tu : tu_builder) :
    (emitted tu (__fsgnjn_s dis pc instr tu)).filter line.is_trap_state = [] := by
  simp only [__fsgnjn_s, emitted, tu_simps]
  cases dis <;>
    simp [line.is_trap_state, List.filter_cons, apply_ite (List.filter line.is_trap_state)]

theorem __fsgnjx_s_no_trap (dis : Bool) (pc instr : Nat) (tu : tu_builder) :
    (emitted tu (__fsgnjx_s dis pc instr tu)).filter line.is_trap_state = [] := by
  simp only [__fsgnjx_s, emitted, tu_simps]
  cases dis <;>
    simp [line.is_trap_state, List.filter_cons, apply_ite (List.filter line.is_trap_state)]

theorem __fmin_s_no_trap (dis : Bool) (pc instr : Nat) (tu : tu_builder) :
    (emitted tu (__fmin_s dis pc instr tu)).filter line.is_trap_state = [] := by
  simp only [__fmin_s, emitted, tu_simps]
  cases dis <;>
    simp [line.is_trap_state, List.filter_cons, apply_ite (List.filter line.is_trap_state)]

theorem __fmax_s_no_trap (dis : Bool) (pc instr : Nat) (tu : tu_builder) :
    (emitted tu (__fmax_s dis pc instr tu)).filter line.is_trap_state = [] := by
  simp only [__fmax_s, emitted, tu_simps]
  cases dis <;>
    simp [line.is_trap_state, List.filter_cons, apply_ite (List.filter line.is_trap_state)]

theorem __fcvt_w_s_no_trap (dis : Bool) (pc instr : Nat) (tu : tu_builder) :
    (emitted tu (__fcvt_w_s dis pc instr tu)).filter line.is_trap_state = [] := by
  simp only [__fcvt_w_s, emitted, tu_simps]
  cases dis <;>
    simp [line.is_trap_state, List.filter_cons, apply_ite (List.filter line.is_trap_state)]

theorem __fcvt_wu_s_no_trap (dis : Bool) (pc instr : Nat) (tu : tu_builder) :
    (emitted tu (__fcvt_wu_s dis pc instr tu)).filter line.is_trap_state = [] := by
  simp only [__fcvt_wu_s, emitted, tu_simps]
  cases dis <;>
    simp [line.is_trap_state, List.filter_cons, apply_ite (List.filter line.is_trap_state)]

theorem __feq_s_no_trap (dis : Bool) (pc instr : Nat) (tu : tu_builder) :
    (emitted tu (__feq_s dis pc instr tu)).filter line.is_trap_state = [] := by
  simp only [__feq_s, emitted, tu_simps]
  cases dis <;>
    simp [line.is_trap_state, List.filter_cons, apply_ite (List.filter line.is_trap_state)]

theorem __flt_s_no_trap (dis : Bool) (pc instr : Nat) (tu : tu_builder) :
    (emitted tu (__flt_s dis pc instr tu)).filter line.is_trap_state = [] := by
  simp only [__flt_s, emitted, tu_simps]
  cases dis <;>
    simp [line.is_trap_state, List.filter_cons, apply_ite (List.filter line.is_trap_state)]

theorem __fle_s_no_trap (dis : Bool) (pc instr : Nat) (tu : tu_builder) :
    (emitted tu (__fle_s dis pc instr tu)).filter line.is_trap_state = [] := by
  simp only [__fle_s, emitted, tu_simps]
  cases dis <;>
    simp [line.is_trap_state, List.filter_cons, apply_ite (List.filter line.is_trap_state)]

theorem __fclass_s_no_trap (dis : Bool) (pc instr : Nat) (tu : tu_builder) :
    (emitted tu (__fclass_s dis pc instr tu)).filter line.is_trap_state = [] := by
  simp only [__fclass_s, emitted, tu_simps]
  cases dis <;>
    simp [line.is_trap_state, List.filter_cons, apply_ite (List.filter line.is_trap_state)]

theorem __fcvt_s_w_no_trap (dis : Bool) (pc instr : Nat) (tu : tu_builder) :
    (emitted tu (__fcvt_s_w dis pc instr tu)).filter line.is_trap_state = [] := by
  simp only [__fcvt_s_w, emitted, tu_simps]
  cases dis <;>
    simp [line.is_trap_state, List.filter_cons, apply_ite (List.filter line.is_trap_state)]

theorem __fcvt_s_wu_no_trap (dis : Bool) (pc instr : Nat) (tu : tu_builder) :
    (emitted tu (__fcvt_s_wu dis pc instr tu)).filter line.is_trap_state = [] := by
  simp only [__fcvt_s_wu, emitted, tu_simps]
  cases dis <;>
    simp [line.is_trap_state, List.filter_cons, apply_ite (List.filter line.is_trap_state)]

theorem __fmv_x_w_no_trap (dis : Bool) (pc instr : Nat) (tu : tu_builder) :
    (emitted tu (__fmv_x_w dis pc instr tu)).filter line.is_trap_state = [] := by
  simp only [__fmv_x_w, emitted, tu_simps]
  cases dis <;>
    simp [line.is_trap_state, List.filter_cons, apply_ite (List.filter line.is_trap_state)]

theorem __fmv_w_x_no_trap (dis : Bool) (pc instr : Nat) (tu : tu_builder) :
    (emitted tu (__fmv_w_x dis pc instr tu)).filter line.is_trap_state = [] := by
  simp only [__fmv_w_x, emitted, tu_simps]
  cases dis <;>
    simp [line.is_trap_state, List.filter_cons, apply_ite (List.filter line.is_trap_state)]

theorem __fld_no_trap (dis : Bool) (pc instr : Nat) (tu : tu_builder) :
    (emitted tu (__fld dis pc instr tu)).filter line.is_trap_state = [] := by
  simp only [__fld, emitted, tu_simps]
  cases dis <;>
    simp [line.is_trap_state, List.filter_cons, apply_ite (List.filter line.is_trap_state)]

theorem __fsd_no_trap (dis : Bool) (pc instr : Nat) (tu : tu_builder) :
    (emitted tu (__fsd dis pc instr tu)).filter line.is_trap_state = [] := by
  simp only [__fsd, emitted, tu_simps]
  cases dis <;>
    simp [line.is_trap_state, List.filter_cons, apply_ite (List.filter line.is_trap_state)]

theorem __fmadd_d_no_trap (dis : Bool) (pc instr : Nat) (tu : tu_builder) :
    (emitted tu (__fmadd_d dis pc instr tu)).filter line.is_trap_state = [] := by
  simp only [__fmadd_d, emitted, tu_simps]
  cases dis <;>
    simp [line.is_trap_state, List.filter_cons, apply_ite (List.filter line.is_trap_state)]

theorem __fmsub_d_no_trap (dis : Bool) (pc instr : Nat) (tu : tu_builder) :
    (emitted tu (__fmsub_d dis pc instr tu)).filter line.is_trap_state = [] := by
  simp only [__fmsub_d, emitted, tu_simps]
  cases dis <;>
    simp [line.is_trap_state, List.filter_cons, apply_ite (List.filter line.is_trap_state)]

theorem __fnmadd_d_no_trap (dis : Bool) (pc instr : Nat) (tu : tu_builder) :
    (emitted tu (__fnmadd_d dis pc instr tu)).filter line.is_trap_state = [] := by
  simp only [__fnmadd_d, emitted, tu_simps]
  cases dis <;>
    simp [line.is_trap_state, List.filter_cons, apply_ite (List.filter line.is_trap_state)]

theorem __fnmsub_d_no_trap (dis : Bool) (pc instr : Nat) (tu : tu_builder) :
    (emitted tu (__fnmsub_d dis pc instr tu)).filter line.is_trap_state = [] := by
  simp only [__fnmsub_d, emitted, tu_simps]
  cases dis <;>
    simp [line.is_trap_state, List.filter_cons, apply_ite (List.filter line.is_trap_state)]

theorem __fadd_d_no_trap (dis : Bool) (pc instr : Nat) (tu : tu_builder) :
    (emitted tu (__fadd_d dis pc instr tu)).filter line.is_trap_state = [] := by
  simp only [__fadd_d, emitted, tu_simps]
  cases dis <;>
    simp [line.is_trap_state, List.filter_cons, apply_ite (List.filter line.is_trap_state)]

theorem __fsub_d_no_trap (dis : Bool) (pc instr : Nat) (tu : tu_builder) :
    (emitted tu (__fsub_d dis pc instr tu)).filter line.is_trap_state = [] := by
  simp only [__fsub_d, emitted, tu_simps]
  cases dis <;>
    simp [line.is_trap_state, List.filter_cons, apply_ite (List.filter line.is_trap_state)]

theorem __fmul_d_no_trap (dis : Bool) (pc instr : Nat) (tu : tu_builder) :
    (emitted tu (__fmul_d dis pc instr tu)).filter line.is_trap_state = [] := by
  simp only [__fmul_d, emitted, tu_simps]
  cases dis <;>
    simp [line.is_trap_state, List.filter_cons, apply_ite (List.filter line.is_trap_state)]

theorem __fdiv_d_no_trap (dis : Bool) (pc instr : Nat) (tu : tu_builder) :
    (emitted tu (__fdiv_d dis pc instr tu)).filter line.is_trap_state = [] := by
  simp only [__fdiv_d, emitted, tu_simps]
  cases dis <;>
    simp [line.is_trap_state, List.filter_cons, apply_ite (List.filter line.is_trap_state)]

theorem __fsqrt_d_no_trap (dis : Bool) (pc instr : Nat) (tu : tu_builder) :
    (emitted tu (__fsqrt_d dis pc instr tu)).filter line.is_trap_state = [] := by
  simp only [__fsqrt_d, emitted, tu_simps]
  cases dis <;>
    simp [line.is_trap_state, List.filter_cons, apply_ite (List.filter line.is_trap_state)]

theorem __fsgnj_d_no_trap (dis : Bool) (pc instr : Nat) (tu : tu_builder) :
    (emitted tu (__fsgnj_d dis pc instr tu)).filter line.is_trap_state = [] := by
  simp only [__fsgnj_d, emitted, tu_simps]
  cases dis <;>
    simp [line.is_trap_state, List.filter_cons, apply_ite (List.filter line.is_trap_state)]

theorem __fsgnjn_d_no_trap (dis : Bool) (pc instr : Nat) (tu : tu_builder) :
    (emitted tu (__fsgnjn_d dis pc instr tu)).filter line.is_trap_state = [] := by
  simp only [__fsgnjn_d, emitted, tu_simps]
  cases dis <;>
    simp [line.is_trap_state, List.filter_cons, apply_ite (List.filter line.is_trap_state)]

theorem __fsgnjx_d_no_trap (dis : Bool) (pc instr : Nat) (tu : tu_builder) :
    (emitted tu (__fsgnjx_d dis pc instr tu)).filter line.is_trap_state = [] := by
  simp only [__fsgnjx_d, emitted, tu_simps]
  cases dis <;>
    simp [line.is_trap_state, List.filter_cons, apply_ite (List.filter line.is_trap_state)]

theorem __fmin_d_no_trap (dis : Bool) (pc instr : Nat) (tu : tu_builder) :
    (emitted tu (__fmin_d dis pc instr tu)).filter line.is_trap_state = [] := by
  simp only [__fmin_d, emitted, tu_simps]
  cases dis <;>
    simp [line.is_trap_state, List.filter_cons, apply_ite (List.filter line.is_trap_state)]

theorem __fmax_d_no_trap (dis : Bool) (pc instr : Nat) (tu : tu_builder) :
    (emitted tu (__fmax_d dis pc instr tu)).filter line.is_trap_state = [] := by
  simp only [__fmax_d, emitted, tu_simps]
  cases dis <;>
    simp [line.is_trap_state, List.filter_cons, apply_ite (List.filter line.is_trap_state)]

theorem __fcvt_s_d_no_trap (dis : Bool) (pc instr : Nat) (tu : tu_builder) :
    (emitted tu (__fcvt_s_d dis pc instr tu)).filter line.is_trap_state = [] := by
  simp only [__fcvt_s_d, emitted, tu_simps]
  cases dis <;>
    simp [line.is_trap_state, List.filter_cons, apply_ite (List.filter line.is_trap_state)]

theorem __fcvt_d_s_no_trap (dis : Bool) (pc instr : Nat) (tu : tu_builder) :
    (emitted tu (__fcvt_d_s dis pc instr tu)).filter line.is_trap_state = [] := by
  simp only [__fcvt_d_s, emitted, tu_simps]
  cases dis <;>
    simp [line.is_trap_state, List.filter_cons, apply_ite (List.filter line.is_trap_state)]

theorem __feq_d_no_trap (dis : Bool) (pc instr : Nat) (tu : tu_builder) :
    (emitted tu (__feq_d dis pc instr tu)).filter line.is_trap_state = [] := by
  simp only [__feq_d, emitted, tu_simps]
  cases dis <;>
    simp [line.is_trap_state, List.filter_cons, apply_ite (List.filter line.is_trap_state)]

theorem __flt_d_no_trap (dis : Bool) (pc instr : Nat) (tu : tu_builder) :
    (emitted tu (__flt_d dis pc instr tu)).filter line.is_trap_state = [] := by
  simp only [__flt_d, emitted, tu_simps]
  cases dis <;>
    simp [line.is_trap_state, List.filter_cons, apply_ite (List.filter line.is_trap_state)]

theorem __fle_d_no_trap (dis : Bool) (pc instr : Nat) (tu : tu_builder) :
    (emitted tu (__fle_d dis pc instr tu)).filter line.is_trap_state = [] := by
  simp only [__fle_d, emitted, tu_simps]
  cases dis <;>
    simp [line.is_trap_state, List.filter_cons, apply_ite (List.filter line.is_trap_state)]

theorem __fclass_d_no_trap (dis : Bool) (pc instr : Nat) (tu : tu_builder) :
    (emitted tu (__fclass_d dis pc instr tu)).filter line.is_trap_state = [] := by
  simp only [__fclass_d, emitted, tu_simps]
  cases dis <;>
    simp [line.is_trap_state, List.filter_cons, apply_ite (List.filter line.is_trap_state)]

theorem __fcvt_w_d_no_trap (dis : Bool) (pc instr : Nat) (tu : tu_builder) :
    (emitted tu (__fcvt_w_d dis pc instr tu)).filter line.is_trap_state = [] := by
  simp only [__fcvt_w_d, emitted, tu_simps]
  cases dis <;>
    simp [line.is_trap_state, List.filter_cons, apply_ite (List.filter line.is_trap_state)]

theorem __fcvt_wu_d_no_trap (dis : Bool) (pc instr : Nat) (tu : tu_builder) :
    (emitted tu (__fcvt_wu_d dis pc instr tu)).filter line.is_trap_state = [] := by
  simp only [__fcvt_wu_d, emitted, tu_simps]
  cases dis <;>
    simp [line.is_trap_state, List.filter_cons, apply_ite (List.filter line.is_trap_state)]

theorem __fcvt_d_w_no_trap (dis : Bool) (pc instr : Nat) (tu : tu_builder) :
    (emitted tu (__fcvt_d_w dis pc instr tu)).filter line.is_trap_state = [] := by
  simp only [__fcvt_d_w, emitted, tu_simps]
  cases dis <;>
    simp [line.is_trap_state, List.filter_cons, apply_ite (List.filter line.is_trap_state)]

theorem __fcvt_d_wu_no_trap (dis : Bool) (pc instr : Nat) (tu : tu_builder) :
    (emitted tu (__fcvt_d_wu dis pc instr tu)).filter line.is_trap_state = [] := by
  simp only [__fcvt_d_wu, emitted, tu_simps]
  cases dis <;>
    simp [line.is_trap_state, List.filter_cons, apply_ite (List.filter line.is_trap_state)]

theorem __jalr_no_trap (dis : Bool) (pc instr : Nat) (tu : tu_builder) :
    (emitted tu (__jalr dis pc instr tu)).filter line.is_trap_state = [] := by
  simp only [__jalr, emitted, tu_simps]
  cases dis <;>
    simp [line.is_trap_state, List.filter_cons, apply_ite (List.filter line.is_trap_state)]

theorem __c_lw_no_trap (dis : Bool) (pc instr : Nat) (tu : tu_builder) :
    (emitted tu (__c_lw dis pc instr tu)).filter line.is_trap_state = [] := by
  simp only [__c_lw, emitted, tu_simps]
  cases dis <;>
    simp [line.is_trap_state, List.filter_cons, apply_ite (List.filter line.is_trap_state)]

theorem __c_sw_no_trap (dis : Bool) (pc instr : Nat) (tu : tu_builder) :
    (emitted tu (__c_sw dis pc instr tu)).filter line.is_trap_state = [] := by
  simp only [__c_sw, emitted, tu_simps]
  cases dis <;>
    simp [line.is_trap_state, List.filter_cons, apply_ite (List.filter line.is_trap_state)]

theorem __c_addi_no_trap (dis : Bool) (pc instr : Nat) (tu : tu_builder) :
    (emitted tu (__c_addi dis pc instr tu)).filter line.is_trap_state = [] := by
  simp only [__c_addi, emitted, tu_simps]
  cases dis <;>
    simp [line.is_trap_state, List.filter_cons, apply_ite (List.filter line.is_trap_state)]

theorem __c_nop_no_trap (dis : Bool) (pc instr : Nat) (tu : tu_builder) :
    (emitted tu (__c_nop dis pc instr tu)).filter line.is_trap_state = [] := by
  simp only [__c_nop, emitted, tu_simps]
  cases dis <;>
    simp [line.is_trap_state, List.filter_cons, apply_ite (List.filter line.is_trap_state)]

theorem __c_jal_no_trap (dis : Bool) (pc instr : Nat) (tu : tu_builder) :
    (emitted tu (__c_jal dis pc instr tu)).filter line.is_trap_state = [] := by
  simp only [__c_jal, emitted, tu_simps]
  cases dis <;>
    simp [line.is_trap_state, List.filter_cons, apply_ite (List.filter line.is_trap_state)]

theorem __c_addi16sp_no_trap (dis : Bool) (pc instr : Nat) (tu : tu_builder) :
    (emitted tu (__c_addi16sp dis pc instr tu)).filter line.is_trap_state = [] := by
  simp only [__c_addi16sp, emitted, tu_simps]
  cases dis <;>
    simp [line.is_trap_state, List.filter_cons, apply_ite (List.filter line.is_trap_state)]

theorem __c_srli_no_trap (dis : Bool) (pc instr : Nat) (tu : tu_builder) :
    (emitted tu (__c_srli dis pc instr tu)).filter line.is_trap_state = [] := by
  simp only [__c_srli, emitted, tu_simps]
  cases dis <;>
    simp [line.is_trap_state, List.filter_cons, apply_ite (List.filter line.is_trap_state)]

theorem __c_srai_no_trap (dis : Bool) (pc instr : Nat) (tu : tu_builder) :
    (emitted tu (__c_srai dis pc instr tu)).filter line.is_trap_state = [] := by
  simp only [__c_srai, emitted, tu_simps]
  cases dis <;>
    simp [line.is_trap_state, List.filter_cons, apply_ite (List.filter line.is_trap_state)]

theorem __c_andi_no_trap (dis : Bool) (pc instr : Nat) (tu : tu_builder) :
    (emitted tu (__c_andi dis pc instr tu)).filter line.is_trap_state = [] := by
  simp only [__c_andi, emitted, tu_simps]
  cases dis <;>
    simp [line.is_trap_state, List.filter_cons, apply_ite (List.filter line.is_trap_state)]

theorem __c_sub_no_trap (dis : Bool) (pc instr : Nat) (tu : tu_builder) :
    (emitted tu (__c_sub dis pc instr tu)).filter line.is_trap_state = [] := by
  simp only [__c_sub, emitted, tu_simps]
  cases dis <;>
    simp [line.is_trap_state, List.filter_cons, apply_ite (List.filter line.is_trap_state)]

theorem __c_xor_no_trap (dis : Bool) (pc instr : Nat) (tu : tu_builder) :
    (emitted tu (__c_xor dis pc instr tu)).filter line.is_trap_state = [] := by
  simp only [__c_xor, emitted, tu_simps]
  cases dis <;>
    simp [line.is_trap_state, List.filter_cons, apply_ite (List.filter line.is_trap_state)]

theorem __c_or_no_trap (dis : Bool) (pc instr : Nat) (tu : tu_builder) :
    (emitted tu (__c_or dis pc instr tu)).filter line.is_trap_state = [] := by
  simp only [__c_or, emitted, tu_simps]
  cases dis <;>
    simp [line.is_trap_state, List.filter_cons, apply_ite (List.filter line.is_trap_state)]

theorem __c_and_no_trap (dis : Bool) (pc instr : Nat) (tu : tu_builder) :
    (emitted tu (__c_and dis pc instr tu)).filter line.is_trap_state = [] := by
  simp only [__c_and, emitted, tu_simps]
  cases dis <;>
    simp [line.is_trap_state, List.filter_cons, apply_ite (List.filter line.is_trap_state)]

theorem __c_j_no_trap (dis : Bool) (pc instr : Nat) (tu : tu_builder) :
    (emitted tu (__c_j dis pc instr tu)).filter line.is_trap_state = [] := by
  simp only [__c_j, emitted, tu_simps]
  cases dis <;>
    simp [line.is_trap_state, List.filter_cons, apply_ite (List.filter line.is_trap_state)]

theorem __c_beqz_no_trap (dis : Bool) (pc instr : Nat) (tu : tu_builder) :
    (emitted tu (__c_beqz dis pc instr tu)).filter line.is_trap_state = [] := by
  simp only [__c_beqz, emitted, tu_simps]
  cases dis <;>
    simp [line.is_trap_state, List.filter_cons, apply_ite (List.filter line.is_trap_state)]

theorem __c_bnez_no_trap (dis : Bool) (pc instr : Nat) (tu : tu_builder) :
    (emitted tu (__c_bnez dis pc instr tu)).filter line.is_trap_state = [] := by
  simp only [__c_bnez, emitted, tu_simps]
  cases dis <;>
    simp [line.is_trap_state, List.filter_cons, apply_ite (List.filter line.is_trap_state)]

theorem __c_lwsp_no_trap (dis : Bool) (pc instr : Nat) (tu : tu_builder) :
    (emitted tu (__c_lwsp dis pc instr tu)).filter line.is_trap_state = [] := by
  simp only [__c_lwsp, emitted, tu_simps]
  cases dis <;>
    simp [line.is_trap_state, List.filter_cons, apply_ite (List.filter line.is_trap_state)]

theorem __c_mv_no_trap (dis : Bool) (pc instr : Nat) (tu : tu_builder) :
    (emitted tu (__c_mv dis pc instr tu)).filter line.is_trap_state = [] := by
  simp only [__c_mv, emitted, tu_simps]
  cases dis <;>
    simp [line.is_trap_state, List.filter_cons, apply_ite (List.filter line.is_trap_state)]

theorem __c_jr_no_trap (dis : Bool) (pc instr : Nat) (tu : tu_builder) :
    (emitted tu (__c_jr dis pc instr tu)).filter line.is_trap_state = [] := by
  simp only [__c_jr, emitted, tu_simps]
  cases dis <;>
    simp [line.is_trap_state, List.filter_cons, apply_ite (List.filter line.is_trap_state)]

theorem __c_add_no_trap (dis : Bool) (pc instr : Nat) (tu : tu_builder) :
    (emitted tu (__c_add dis pc instr tu)).filter line.is_trap_state = [] := by
  simp only [__c_add, emitted, tu_simps]
  cases dis <;>
    simp [line.is_trap_state, List.filter_cons, apply_ite (List.filter line.is_trap_state)]

theorem __c_jalr_no_trap (dis : Bool) (pc instr : Nat) (tu : tu_builder) :
    (emitted tu (__c_jalr dis pc instr tu)).filter line.is_trap_state = [] := by
  simp only [__c_jalr, emitted, tu_simps]
  cases dis <;>
    simp [line.is_trap_state, List.filter_cons, apply_ite (List.filter line.is_trap_state)]

theorem __c_swsp_no_trap (dis : Bool) (pc instr : Nat) (tu : tu_builder) :
    (emitted tu (__c_swsp dis pc instr tu)).filter line.is_trap_state = [] := by
  simp only [__c_swsp, emitted, tu_simps]
  cases dis <;>
    simp [line.is_trap_state, List.filter_cons, apply_ite (List.filter line.is_trap_state)]

theorem __c_flw_no_trap (dis : Bool) (pc instr : Nat) (tu : tu_builder) :
    (emitted tu (__c_flw dis pc instr tu)).filter line.is_trap_state = [] := by
  simp only [__c_flw, emitted, tu_simps]
  cases dis <;>
    simp [line.is_trap_state, List.filter_cons, apply_ite (List.filter line.is_trap_state)]

theorem __c_fsw_no_trap (dis : Bool) (pc instr : Nat) (tu : tu_builder) :
    (emitted tu (__c_fsw dis pc instr tu)).filter line.is_trap_state = [] := by
  simp only [__c_fsw, emitted, tu_simps]
  cases dis <;>
    simp [line.is_trap_state, List.filter_cons, apply_ite (List.filter line.is_trap_state)]

theorem __c_flwsp_no_trap (dis : Bool) (pc instr : Nat) (tu : tu_builder) :
    (emitted tu (__c_flwsp dis pc instr tu)).filter line.is_trap_state = [] := by
  simp only [__c_flwsp, emitted, tu_simps]
  cases dis <;>
    simp [line.is_trap_state, List.filter_cons, apply_ite (List.filter line.is_trap_state)]

theorem __c_fswsp_no_trap (dis : Bool) (pc instr : Nat) (tu : tu_builder) :
    (emitted tu (__c_fswsp dis pc instr tu)).filter line.is_trap_state = [] := by
  simp only [__c_fswsp, emitted, tu_simps]
  cases dis <;>
    simp [line.is_trap_state, List.filter_cons, apply_ite (List.filter line.is_trap_state)]

theorem __c_fld_no_trap (dis : Bool) (pc instr : Nat) (tu : tu_builder) :
    (emitted tu (__c_fld dis pc instr tu)).filter line.is_trap_state = [] := by
  simp only [__c_fld, emitted, tu_simps]
  cases dis <;>
    simp [line.is_trap_state, List.filter_cons, apply_ite (List.filter line.is_trap_state)]

theorem __c_fsd_no_trap (dis : Bool) (pc instr : Nat) (tu : tu_builder) :
    (emitted tu (__c_fsd dis pc instr tu)).filter line.is_trap_state = [] := by
  simp only [__c_fsd, emitted, tu_simps]
  cases dis <;>
    simp [line.is_trap_state, List.filter_cons, apply_ite (List.filter line.is_trap_state)]

theorem __c_fldsp_no_trap (dis : Bool) (pc instr : Nat) (tu : tu_builder) :
    (emitted tu (__c_fldsp dis pc instr tu)).filter line.is_trap_state = [] := by
  simp only [__c_fldsp, emitted, tu_simps]
  cases dis <;>
    simp [line.is_trap_state, List.filter_cons, apply_ite (List.filter line.is_trap_state)]

theorem __c_fsdsp_no_trap (dis : Bool) (pc instr : Nat) (tu : tu_builder) :
    (emitted tu (__c_fsdsp dis pc instr tu)).filter line.is_trap_state = [] := by
  simp only [__c_fsdsp, emitted, tu_simps]
  cases dis <;>
    simp [line.is_trap_state, List.filter_cons, apply_ite (List.filter line.is_trap_state)]

/-- A handler other than the eight that call `gen_raise_trap` emits no trap line. -/
theorem invoke_no_trap (f : compile_func) (dis : Bool) (pc instr : Nat) (tu : tu_builder)
    (hf : f ∉ [compile_func.__c_addi4spn, compile_func.__c_li, compile_func.__c_lui,
      compile_func.__c_slli, compile_func.__ecall, compile_func.__ebreak,
      compile_func.__c_ebreak, compile_func.__dii, compile_func.illegal_intruction]) :
    (emitted tu (invoke f dis pc instr tu)).filter line.is_trap_state = [] :=
  match f, hf with
  | compile_func.__mul, _ => __mul_no_trap dis pc instr tu
  | compile_func.__mulh, _ => __mulh_no_trap dis pc instr tu
  | compile_func.__mulhsu, _ => __mulhsu_no_trap dis pc instr tu
  | compile_func.__mulhu, _ => __mulhu_no_trap dis pc instr tu
  | compile_func.__div, _ => __div_no_trap dis pc instr tu
  | compile_func.__divu, _ => __divu_no_trap dis pc instr tu
  | compile_func.__rem, _ => __rem_no_trap dis pc instr tu
  | compile_func.__remu, _ => __remu_no_trap dis pc instr tu
  | compile_func.__lr_w, _ => __lr_w_no_trap dis pc instr tu
  | compile_func.__sc_w, _ => __sc_w_no_trap dis pc instr tu
  | compile_func.__amoswap_w, _ => __amoswap_w_no_trap dis pc instr tu
  | compile_func.__amoadd_w, _ => __amoadd_w_no_trap dis pc instr tu
  | compile_func.__amoxor_w, _ => __amoxor_w_no_trap dis pc instr tu
  | compile_func.__amoand_w, _ => __amoand_w_no_trap dis pc instr tu
  | compile_func.__amoor_w, _ => __amoor_w_no_trap dis pc instr tu
  | compile_func.__amomin_w, _ => __amomin_w_no_trap dis pc instr tu
  | compile_func.__amomax_w, _ => __amomax_w_no_trap dis pc instr tu
  | compile_func.__amominu_w, _ => __amominu_w_no_trap dis pc instr tu
  | compile_func.__amomaxu_w, _ => __amomaxu_w_no_trap dis pc instr tu
  | compile_func.__lui, _ => __lui_no_trap dis pc instr tu
  | compile_func.__auipc, _ => __auipc_no_trap dis pc instr tu
  | compile_func.__jal, _ => __jal_no_trap dis pc instr tu
  | compile_func.__beq, _ => __beq_no_trap dis pc instr tu
  | compile_func.__bne, _ => __bne_no_trap dis pc instr tu
  | compile_func.__blt, _ => __blt_no_trap dis pc instr tu
  | compile_func.__bge, _ => __bge_no_trap dis pc instr tu
  | compile_func.__bltu, _ => __bltu_no_trap dis pc instr tu
  | compile_func.__bgeu, _ => __bgeu_no_trap dis pc instr tu
  | compile_func.__lb, _ => __lb_no_trap dis pc instr tu
  | compile_func.__lh, _ => __lh_no_trap dis pc instr tu
  | compile_func.__lw, _ => __lw_no_trap dis pc instr tu
  | compile_func.__lbu, _ => __lbu_no_trap dis pc instr tu
  | compile_func.__lhu, _ => __lhu_no_trap dis pc instr tu
  | compile_func.__sb, _ => __sb_no_trap dis pc instr tu
  | compile_func.__sh, _ => __sh_no_trap dis pc instr tu
  | compile_func.__sw, _ => __sw_no_trap dis pc instr tu
  | compile_func.__addi, _ => __addi_no_trap dis pc instr tu
  | compile_func.__slti, _ => __slti_no_trap dis pc instr tu
  | compile_func.__sltiu, _ => __sltiu_no_trap dis pc instr tu
  | compile_func.__xori, _ => __xori_no_trap dis pc instr tu
  | compile_func.__ori, _ => __ori_no_trap dis pc instr tu
  | compile_func.__andi, _ => __andi_no_trap dis pc instr tu
  | compile_func.__slli, _ => __slli_no_trap dis pc instr tu
  | compile_func.__srli, _ => __srli_no_trap dis pc instr tu
  | compile_func.__srai, _ => __srai_no_trap dis pc instr tu
  | compile_func.__add, _ => __add_no_trap dis pc instr tu
  | compile_func.__sub, _ => __sub_no_trap dis pc instr tu
  | compile_func.__sll, _ => __sll_no_trap dis pc instr tu
  | compile_func.__slt, _ => __slt_no_trap dis pc instr tu
  | compile_func.__sltu, _ => __sltu_no_trap dis pc instr tu
  | compile_func.__xor, _ => __xor_no_trap dis pc instr tu
  | compile_func.__srl, _ => __srl_no_trap dis pc instr tu
  | compile_func.__sra, _ => __sra_no_trap dis pc instr tu
  | compile_func.__or, _ => __or_no_trap dis pc instr tu
  | compile_func.__and, _ => __and_no_trap dis pc instr tu
  | compile_func.__fence, _ => __fence_no_trap dis pc instr tu
  | compile_func.__fence_i, _ => __fence_i_no_trap dis pc instr tu
  | compile_func.__uret, _ => __uret_no_trap dis pc instr tu
  | compile_func.__sret, _ => __sret_no_trap dis pc instr tu
  | compile_func.__mret, _ => __mret_no_trap dis pc instr tu
  | compile_func.__wfi, _ => __wfi_no_trap dis pc instr tu
  | compile_func.__sfence_vma, _ => __sfence_vma_no_trap dis pc instr tu
  | compile_func.__csrrw, _ => __csrrw_no_trap dis pc instr tu
  | compile_func.__csrrs, _ => __csrrs_no_trap dis pc instr tu
  | compile_func.__csrrc, _ => __csrrc_no_trap dis pc instr tu
  | compile_func.__csrrwi, _ => __csrrwi_no_trap dis pc instr tu
  | compile_func.__csrrsi, _ => __csrrsi_no_trap dis pc instr tu
  | compile_func.__csrrci, _ => __csrrci_no_trap dis pc instr tu
  | compile_func.__flw, _ => __flw_no_trap dis pc instr tu
  | compile_func.__fsw, _ => __fsw_no_trap dis pc instr tu
  | compile_func.__fmadd_s, _ => __fmadd_s_no_trap dis pc instr tu
  | compile_func.__fmsub_s, _ => __fmsub_s_no_trap dis pc instr tu
  | compile_func.__fnmadd_s, _ => __fnmadd_s_no_trap dis pc instr tu
  | compile_func.__fnmsub_s, _ => __fnmsub_s_no_trap dis pc instr tu
  | compile_func.__fadd_s, _ => __fadd_s_no_trap dis pc instr tu
  | compile_func.__fsub_s, _ => __fsub_s_no_trap dis pc instr tu
  | compile_func.__fmul_s, _ => __fmul_s_no_trap dis pc instr tu
  | compile_func.__fdiv_s, _ => __fdiv_s_no_trap dis pc instr tu
  | compile_func.__fsqrt_s, _ => __fsqrt_s_no_trap dis pc instr tu
  | compile_func.__fsgnj_s, _ => __fsgnj_s_no_trap dis pc instr tu
  | compile_func.__fsgnjn_s, _ => __fsgnjn_s_no_trap dis pc instr tu
  | compile_func.__fsgnjx_s, _ => __fsgnjx_s_no_trap dis pc instr tu
  | compile_func.__fmin_s, _ => __fmin_s_no_trap dis pc instr tu
  | compile_func.__fmax_s, _ => __fmax_s_no_trap dis pc instr tu
  | compile_func.__fcvt_w_s, _ => __fcvt_w_s_no_trap dis pc instr tu
  | compile_func.__fcvt_wu_s, _ => __fcvt_wu_s_no_trap dis pc instr tu
  | compile_func.__feq_s, _ => __feq_s_no_trap dis pc instr tu
  | compile_func.__flt_s, _ => __flt_s_no_trap dis pc instr tu
  | compile_func.__fle_s, _ => __fle_s_no_trap dis pc instr tu
  | compile_func.__fclass_s, _ => __fclass_s_no_trap dis pc instr tu
  | compile_func.__fcvt_s_w, _ => __fcvt_s_w_no_trap dis pc instr tu
  | compile_func.__fcvt_s_wu, _ => __fcvt_s_wu_no_trap dis pc instr tu
  | compile_func.__fmv_x_w, _ => __fmv_x_w_no_trap dis pc instr tu
  | compile_func.__fmv_w_x, _ => __fmv_w_x_no_trap dis pc instr tu
  | compile_func.__fld, _ => __fld_no_trap dis pc instr tu
  | compile_func.__fsd, _ => __fsd_no_trap dis pc instr tu
  | compile_func.__fmadd_d, _ => __fmadd_d_no_trap dis pc instr tu
  | compile_func.__fmsub_d, _ => __fmsub_d_no_trap dis pc instr tu
  | compile_func.__fnmadd_d, _ => __fnmadd_d_no_trap dis pc instr tu
  | compile_func.__fnmsub_d, _ => __fnmsub_d_no_trap dis pc instr tu
  | compile_func.__fadd_d, _ => __fadd_d_no_trap dis pc instr tu
  | compile_func.__fsub_d, _ => __fsub_d_no_trap dis pc instr tu
  | compile_func.__fmul_d, _ => __fmul_d_no_trap dis pc instr tu
  | compile_func.__fdiv_d, _ => __fdiv_d_no_trap dis pc instr tu
  | compile_func.__fsqrt_d, _ => __fsqrt_d_no_trap dis pc instr tu
  | compile_func.__fsgnj_d, _ => __fsgnj_d_no_trap dis pc instr tu
  | compile_func.__fsgnjn_d, _ => __fsgnjn_d_no_trap dis pc instr tu
  | compile_func.__fsgnjx_d, _ => __fsgnjx_d_no_trap dis pc instr tu
  | compile_func.__fmin_d, _ => __fmin_d_no_trap dis pc instr tu
  | compile_func.__fmax_d, _ => __fmax_d_no_trap dis pc instr tu
  | compile_func.__fcvt_s_d, _ => __fcvt_s_d_no_trap dis pc instr tu
  | compile_func.__fcvt_d_s, _ => __fcvt_d_s_no_trap dis pc instr tu
  | compile_func.__feq_d, _ => __feq_d_no_trap dis pc instr tu
  | compile_func.__flt_d, _ => __flt_d_no_trap dis pc instr tu
  | compile_func.__fle_d, _ => __fle_d_no_trap dis pc instr tu
  | compile_func.__fclass_d, _ => __fclass_d_no_trap dis pc instr tu
  | compile_func.__fcvt_w_d, _ => __fcvt_w_d_no_trap dis pc instr tu
  | compile_func.__fcvt_wu_d, _ => __fcvt_wu_d_no_trap dis pc instr tu
  | compile_func.__fcvt_d_w, _ => __fcvt_d_w_no_trap dis pc instr tu
  | compile_func.__fcvt_d_wu, _ => __fcvt_d_wu_no_trap dis pc instr tu
  | compile_func.__jalr, _ => __jalr_no_trap dis pc instr tu
  | compile_func.__c_lw, _ => __c_lw_no_trap dis pc instr tu
  | compile_func.__c_sw, _ => __c_sw_no_trap dis pc instr tu
  | compile_func.__c_addi, _ => __c_addi_no_trap dis pc instr tu
  | compile_func.__c_nop, _ => __c_nop_no_trap dis pc instr tu
  | compile_func.__c_jal, _ => __c_jal_no_trap dis pc instr tu
  | compile_func.__c_addi16sp, _ => __c_addi16sp_no_trap dis pc instr tu
  | compile_func.__c_srli, _ => __c_srli_no_trap dis pc instr tu
  | compile_func.__c_srai, _ => __c_srai_no_trap dis pc instr tu
  | compile_func.__c_andi, _ => __c_andi_no_trap dis pc instr tu
  | compile_func.__c_sub, _ => __c_sub_no_trap dis pc instr tu
  | compile_func.__c_xor, _ => __c_xor_no_trap dis pc instr tu
  | compile_func.__c_or, _ => __c_or_no_trap dis pc instr tu
  | compile_func.__c_and, _ => __c_and_no_trap dis pc instr tu
  | compile_func.__c_j, _ => __c_j_no_trap dis pc instr tu
  | compile_func.__c_beqz, _ => __c_beqz_no_trap dis pc instr tu
  | compile_func.__c_bnez, _ => __c_bnez_no_trap dis pc instr tu
  | compile_func.__c_lwsp, _ => __c_lwsp_no_trap dis pc instr tu
  | compile_func.__c_mv, _ => __c_mv_no_trap dis pc instr tu
  | compile_func.__c_jr, _ => __c_jr_no_trap dis pc instr tu
  | compile_func.__c_add, _ => __c_add_no_trap dis pc instr tu
  | compile_func.__c_jalr, _ => __c_jalr_no_trap dis pc instr tu
  | compile_func.__c_swsp, _ => __c_swsp_no_trap dis pc instr tu
  | compile_func.__c_flw, _ => __c_flw_no_trap dis pc instr tu
  | compile_func.__c_fsw, _ => __c_fsw_no_trap dis pc instr tu
  | compile_func.__c_flwsp, _ => __c_flwsp_no_trap dis pc instr tu
  | compile_func.__c_fswsp, _ => __c_fswsp_no_trap dis pc instr tu
  | compile_func.__c_fld, _ => __c_fld_no_trap dis pc instr tu
  | compile_func.__c_fsd, _ => __c_fsd_no_trap dis pc instr tu
  | compile_func.__c_fldsp, _ => __c_fldsp_no_trap dis pc instr tu
  | compile_func.__c_fsdsp, _ => __c_fsdsp_no_trap dis pc instr tu
  | compile_func.__c_addi4spn, hf => absurd (by decide) hf
  | compile_func.__c_ebreak, hf => absurd (by decide) hf
  | compile_func.__c_li, hf => absurd (by decide) hf
  | compile_func.__c_lui, hf => absurd (by decide) hf
  | compile_func.__c_slli, hf => absurd (by decide) hf
  | compile_func.__dii, hf => absurd (by decide) hf
  | compile_func.__ebreak, hf => absurd (by decide) hf
  | compile_func.__ecall, hf => absurd (by decide) hf
  | compile_func.illegal_intruction, hf => absurd (by decide) hf
/-! ## C.JR and C.JALR -/

theorem uint_of_int_32_two : uint_of_int 32 2 = 2 := by decide

theorem uint_t_pc_add_two (pc : Nat) :
    uint_t 32 (uint_of_int 32 (pc : Int) + 2) = uint_t 32 (pc + 2) := by
  have := uint_t_add_uint_of_int 32 (pc : Int) 2
  rw [uint_of_int_32_two] at this
  rw [this, ← uint_of_int_natCast]
  push_cast
  rfl

/-- The registers after running what `__c_jr` emits. -/
theorem c_jr_run (dis : Bool) (pc instr : Nat) (tu : tu_builder) (σ : arch_state) :
    (run σ (emitted tu (__c_jr dis pc instr tu))).reg =
      Function.update
        (Function.update σ.reg reg_e.NEXT_PC (uint_t 32 (σ.reg (reg_e.X (bit_sub 7 5 instr)))))
        reg_e.LAST_BRANCH 0xFFFFFFFF := by
  simp only [__c_jr, emitted, tu_simps, uint_t_8_bit_sub _ _ _ (by decide : 5 ≤ 8)]
  generalize bit_sub 7 5 instr = rs1
  cases dis <;>
    simp [run, exec_lines, exec_line, exec_state.running, value.eval, value.size,
      reg_bit_widths, apply_ite exec_state.σ, uint_t_idem, uint_of_int_32_max, uint_t_32_max]

/-- The registers after running what `__c_jalr` emits: `X[1]` is written before `X[rs1]`
is read. -/
theorem c_jalr_run (dis : Bool) (pc instr : Nat) (tu : tu_builder) (σ : arch_state) :
    (run σ (emitted tu (__c_jalr dis pc instr tu))).reg =
      Function.update
        (Function.update
          (Function.update σ.reg (reg_e.X 1) (uint_t 32 (pc + 2)))
          reg_e.NEXT_PC
          (if bit_sub 7 5 instr = 1 then uint_t 32 (pc + 2)
            else uint_t 32 (σ.reg (reg_e.X (bit_sub 7 5 instr)))))
        reg_e.LAST_BRANCH 0xFFFFFFFF := by
  simp only [__c_jalr, emitted, tu_simps, uint_t_8_bit_sub _ _ _ (by decide : 5 ≤ 8)]
  generalize bit_sub 7 5 instr = rs1
  by_cases h : rs1 = 1 <;> cases dis <;>
    simp [h, run, exec_lines, exec_line, exec_state.running, value.eval, value.size,
      reg_bit_widths, apply_ite exec_state.σ, uint_t_idem, uint_of_int_32_max, uint_t_32_max,
      uint_t_uint_of_int, uint_of_int_32_two, uint_t_pc_add_two]
/-! ## LR.W and SC.W -/

/-- The lines `__lr_w` emits. -/
theorem lr_w_emitted (dis : Bool) (pc instr : Nat) (tu : tu_builder) :
    emitted tu (__lr_w dis pc instr tu) =
      line.label "LR_W" pc :: line.sync sync_type.PRE_SYNC 8 ::
        ((if dis = true then
            [line.print_disass pc "lr.w"
              [((bit_sub 7 5 instr : Nat) : Int), ((bit_sub 15 5 instr : Nat) : Int)]]
          else []) ++
          line.open_scope ::
            ((if bit_sub 7 5 instr ≠ 0 then
                [line.assignment (local_name.tmp tu.serial)
                    (value.load (reg_e.X (bit_sub 15 5 instr)) 0) 32,
                  line.store
                    (value.ext
                      (value.read_mem mem_type_e.MEM (value.ref (local_name.tmp tu.serial) 32) 32)
                      32 false)
                    (reg_e.X (bit_sub 7 5 instr)),
                  line.write_mem mem_type_e.RES (value.ref (local_name.tmp tu.serial) 32)
                    (value.trunc (value.ext (value.neg (value.constant 1 8)) 32 false) 32)]
              else []) ++
              [line.close_scope, line.set_pc reg_e.NEXT_PC (pc + 4),
                line.sync sync_type.POST_SYNC 8, line.trap_check])) := by
  simp only [__lr_w, emitted, tu_simps, uint_t_8_bit_sub _ _ _ (by decide : 5 ≤ 8)]

/-- The lines `__sc_w` emits. -/
theorem sc_w_emitted (dis : Bool) (pc instr : Nat) (tu : tu_builder) :
    emitted tu (__sc_w dis pc instr tu) =
      line.label "SC_W" pc :: line.sync sync_type.PRE_SYNC 9 ::
        ((if dis = true then
            [line.print_disass pc "sc.w"
              [((bit_sub 7 5 instr : Nat) : Int), ((bit_sub 15 5 instr : Nat) : Int),
                ((bit_sub 20 5 instr : Nat) : Int)]]
          else []) ++
          line.open_scope ::
            line.assignment (local_name.tmp tu.serial)
              (value.load (reg_e.X (bit_sub 15 5 instr)) 0) 32 ::
            line.assignment (local_name.tmp (tu.serial + 1))
              (value.read_mem mem_type_e.RES (value.ref (local_name.tmp tu.serial) 32) 32) 32 ::
            line.if_open
              (value.icmp ICmpInst.ICMP_NE (value.ref (local_name.tmp (tu.serial + 1)) 32)
                (value.constant 0 32)) ::
            line.write_mem mem_type_e.MEM (value.ref (local_name.tmp tu.serial) 32)
              (value.trunc (value.load (reg_e.X (bit_sub 20 5 instr)) 0) 32) ::
            line.close_scope ::
            ((if bit_sub 7 5 instr ≠ 0 then
                [line.store
                  (value.choose
                    (value.icmp ICmpInst.ICMP_NE
                      (value.ref (local_name.tmp (tu.serial + 1)) 32)
                      (value.ext (value.constant 0 32) 32 true))
                    (value.constant 0 32) (value.constant 1 32))
                  (reg_e.X (bit_sub 7 5 instr))]
              else []) ++
              [line.close_scope, line.set_pc reg_e.NEXT_PC (pc + 4),
                line.sync sync_type.POST_SYNC 9, line.trap_check])) := by
  simp only [__sc_w, emitted, tu_simps, uint_t_8_bit_sub _ _ _ (by decide : 5 ≤ 8)]

/-- The state after running what `__sc_w` emits. -/
theorem sc_w_run (dis : Bool) (pc instr : Nat) (tu : tu_builder) (σ : arch_state) :
    (run σ (emitted tu (__sc_w dis pc instr tu))).mem mem_type_e.MEM =
        (if uint_t 32 (σ.mem mem_type_e.RES (uint_t 32 (σ.reg (reg_e.X (bit_sub 15 5 instr))))) ≠ 0
          then Function.update (σ.mem mem_type_e.MEM)
            (uint_t 32 (σ.reg (reg_e.X (bit_sub 15 5 instr))))
            (uint_t 32 (σ.reg (reg_e.X (bit_sub 20 5 instr))))
          else σ.mem mem_type_e.MEM) ∧
      (bit_sub 7 5 instr ≠ 0 →
        (run σ (emitted tu (__sc_w dis pc instr tu))).reg (reg_e.X (bit_sub 7 5 instr)) =
          if uint_t 32
              (σ.mem mem_type_e.RES (uint_t 32 (σ.reg (reg_e.X (bit_sub 15 5 instr))))) ≠ 0
            then 0 else 1) := by
  rw [sc_w_emitted]
  generalize bit_sub 7 5 instr = rd
  generalize bit_sub 15 5 instr = rs1
  generalize bit_sub 20 5 instr = rs2
  constructor
  · by_cases hrd : rd = 0 <;>
    by_cases hres : uint_t 32 (σ.mem mem_type_e.RES (uint_t 32 (σ.reg (reg_e.X rs1)))) = 0 <;>
    cases dis <;>
      simp [hrd, hres, run, exec_lines, exec_line, exec_state.running, value.eval, value.size,
        reg_bit_widths, apply_ite exec_state.σ, uint_t_idem, Function.update,
        ICmpInst.holds, uint_of_int_32_zero, uint_of_int_32_one, uint_t_32_zero, uint_t_32_one,
        uint_of_int_int_t]
  · intro hrd
    by_cases hres : uint_t 32 (σ.mem mem_type_e.RES (uint_t 32 (σ.reg (reg_e.X rs1)))) = 0 <;>
    cases dis <;>
      simp [hrd, hres, run, exec_lines, exec_line, exec_state.running, value.eval, value.size,
        reg_bit_widths, apply_ite exec_state.σ, uint_t_idem, Function.update,
        ICmpInst.holds, uint_of_int_32_zero, uint_of_int_32_one, uint_t_32_zero, uint_t_32_one,
        uint_of_int_int_t]

/-- The reservation word of `__lr_w`: an 8-bit `-1` extended by its sign to 32 bits. -/
theorem lr_w_res_word :
    uint_t 32 (uint_of_int 32 (int_t 8 ((uint_of_int 8 (-((uint_of_int 8 1 : Nat) : Int)) : Nat) : Int))) =
      0xFFFFFFFF := by
  decide

/-- The state after running what `__lr_w` emits for `rd ≠ 0`. -/
theorem lr_w_run (dis : Bool) (pc instr : Nat) (tu : tu_builder) (σ : arch_state)
    (hrd : bit_sub 7 5 instr ≠ 0) :
    (run σ (emitted tu (__lr_w dis pc instr tu))).reg (reg_e.X (bit_sub 7 5 instr)) =
        uint_t 32 (σ.mem mem_type_e.MEM (uint_t 32 (σ.reg (reg_e.X (bit_sub 15 5 instr))))) ∧
      (run σ (emitted tu (__lr_w dis pc instr tu))).mem mem_type_e.RES
        (uint_t 32 (σ.reg (reg_e.X (bit_sub 15 5 instr)))) = 0xFFFFFFFF := by
  rw [lr_w_emitted]
  generalize bit_sub 7 5 instr = rd at hrd ⊢
  generalize bit_sub 15 5 instr = rs1
  constructor <;> cases dis <;>
    simp [hrd, run, exec_lines, exec_line, exec_state.running, value.eval, value.size,
      reg_bit_widths, apply_ite exec_state.σ, uint_t_idem, Function.update,
      uint_of_int_32_one, lr_w_res_word, uint_of_int_int_t, uint_of_int_uint_t]
/-! ## Floating-point conversions and comparisons: the FCSR flag update -/

/-- The lines `__fcvt_w_s` emits. -/
theorem fcvt_w_s_emitted (dis : Bool) (pc instr : Nat) (tu : tu_builder) :
    emitted tu (__fcvt_w_s dis pc instr tu) =
      line.label "FCVT_W_S" pc :: line.sync sync_type.PRE_SYNC 86 ::
        ((if dis = true then
            [line.print_disass pc "fcvt.w.s"
              [((bit_sub 7 5 instr : Nat) : Int), ((bit_sub 15 5 instr : Nat) : Int)]]
          else []) ++
          line.open_scope ::
            line.assignment (local_name.tmp tu.serial)
              (value.callf "unbox_s"
                (value.arg (value.load (reg_e.F (bit_sub 15 5 instr)) 0) value.noarg)) 32 ::
            line.store
              (value.ext
                (value.callf "fcvt_s"
                  (value.arg (value.ref (local_name.tmp tu.serial) 32)
                    (value.arg (value.ext (value.constant 0 64) 32 true)
                      (value.arg (value.constant ((bit_sub 12 3 instr : Nat) : Int) 8)
                        value.noarg))))
                32 false)
              (reg_e.X (bit_sub 7 5 instr)) ::
            (fcsr_update (tu.serial + 1) ++
              [line.close_scope, line.set_pc reg_e.NEXT_PC (pc + 4),
                line.sync sync_type.POST_SYNC 86, line.trap_check])) := by
  simp only [__fcvt_w_s, emitted, tu_simps, fcsr_update, uint_t_8_bit_sub _ _ _ (by decide : 5 ≤ 8),
    uint_t_8_bit_sub _ _ _ (by decide : 3 ≤ 8), if_neg (by decide : ¬((64 : Nat) = 32))]

/-- The lines `__fcvt_wu_s` emits. -/
theorem fcvt_wu_s_emitted (dis : Bool) (pc instr : Nat) (tu : tu_builder) :
    emitted tu (__fcvt_wu_s dis pc instr tu) =
      line.label "FCVT_WU_S" pc :: line.sync sync_type.PRE_SYNC 87 ::
        ((if dis = true then
            [line.print_disass pc "fcvt.wu.s"
              [((bit_sub 7 5 instr : Nat) : Int), ((bit_sub 15 5 instr : Nat) : Int)]]
          else []) ++
          line.open_scope ::
            line.assignment (local_name.tmp tu.serial)
              (value.callf "unbox_s"
                (value.arg (value.load (reg_e.F (bit_sub 15 5 instr)) 0) value.noarg)) 32 ::
            line.store
              (value.ext
                (value.callf "fcvt_s"
                  (value.arg (value.ref (local_name.tmp tu.serial) 32)
                    (value.arg (value.ext (value.constant 1 64) 32 true)
                      (value.arg (value.constant ((bit_sub 12 3 instr : Nat) : Int) 8)
                        value.noarg))))
                32 false)
              (reg_e.X (bit_sub 7 5 instr)) ::
            (fcsr_update (tu.serial + 1) ++
              [line.close_scope, line.set_pc reg_e.NEXT_PC (pc + 4),
                line.sync sync_type.POST_SYNC 87, line.trap_check])) := by
  simp only [__fcvt_wu_s, emitted, tu_simps, fcsr_update, uint_t_8_bit_sub _ _ _ (by decide : 5 ≤ 8),
    uint_t_8_bit_sub _ _ _ (by decide : 3 ≤ 8), if_neg (by decide : ¬((64 : Nat) = 32))]

/-- The lines `__fcvt_w_d` emits. -/
theorem fcvt_w_d_emitted (dis : Bool) (pc instr : Nat) (tu : tu_builder) :
    emitted tu (__fcvt_w_d dis pc instr tu) =
      line.label "FCVT_W_D" pc :: line.sync sync_type.PRE_SYNC 118 ::
        ((if dis = true then
            [line.print_disass pc "fcvt.w.d"
              [((bit_sub 7 5 instr : Nat) : Int), ((bit_sub 15 5 instr : Nat) : Int)]]
          else []) ++
          line.open_scope ::
            line.store
              (value.ext
                (value.callf "fcvt_64_32"
                  (value.arg (value.trunc (value.load (reg_e.F (bit_sub 15 5 instr)) 0) 64)
                    (value.arg (value.ext (value.constant 0 64) 32 true)
                      (value.arg (value.constant ((bit_sub 12 3 instr : Nat) : Int) 8)
                        value.noarg))))
                32 false)
              (reg_e.X (bit_sub 7 5 instr)) ::
            (fcsr_update tu.serial ++
              [line.close_scope, line.set_pc reg_e.NEXT_PC (pc + 4),
                line.sync sync_type.POST_SYNC 118, line.trap_check])) := by
  simp only [__fcvt_w_d, emitted, tu_simps, fcsr_update, uint_t_8_bit_sub _ _ _ (by decide : 5 ≤ 8),
    uint_t_8_bit_sub _ _ _ (by decide : 3 ≤ 8), if_neg (by decide : ¬((64 : Nat) = 32))]

/-- The lines `__fcvt_wu_d` emits. -/
theorem fcvt_wu_d_emitted (dis : Bool) (pc instr : Nat) (tu : tu_builder) :
    emitted tu (__fcvt_wu_d dis pc instr tu) =
      line.label "FCVT_WU_D" pc :: line.sync sync_type.PRE_SYNC 119 ::
        ((if dis = true then
            [line.print_disass pc "fcvt.wu.d"
              [((bit_sub 7 5 instr : Nat) : Int), ((bit_sub 15 5 instr : Nat) : Int)]]
          else []) ++
          line.open_scope ::
            line.store
              (value.ext
                (value.callf "fcvt_64_32"
                  (value.arg (value.trunc (value.load (reg_e.F (bit_sub 15 5 instr)) 0) 64)
                    (value.arg (value.ext (value.constant 1 64) 32 true)
                      (value.arg (value.constant ((bit_sub 12 3 instr : Nat) : Int) 8)
                        value.noarg))))
                32 false)
              (reg_e.X (bit_sub 7 5 instr)) ::
            (fcsr_update tu.serial ++
              [line.close_scope, line.set_pc reg_e.NEXT_PC (pc + 4),
                line.sync sync_type.POST_SYNC 119, line.trap_check])) := by
  simp only [__fcvt_wu_d, emitted, tu_simps, fcsr_update, uint_t_8_bit_sub _ _ _ (by decide : 5 ≤ 8),
    uint_t_8_bit_sub _ _ _ (by decide : 3 ≤ 8), if_neg (by decide : ¬((64 : Nat) = 32))]

/-- No line `__fcvt_s_w` emits calls `fget_flags` or stores to FCSR. -/
theorem fcvt_s_w_no_fcsr (dis : Bool) (pc instr : Nat) (tu : tu_builder) :
    (emitted tu (__fcvt_s_w dis pc instr tu)).any
      (fun l => l.calls "fget_flags" || l.is_store_to reg_e.FCSR) = false := by
  simp only [__fcvt_s_w, emitted, tu_simps, uint_of_int_64_neg_one,
    if_neg (by decide : ¬((64 : Nat) = 32))]
  cases dis <;> simp [line.calls, value.calls, line.is_store_to]

/-- No line `__fcvt_s_wu` emits calls `fget_flags` or stores to FCSR. -/
theorem fcvt_s_wu_no_fcsr (dis : Bool) (pc instr : Nat) (tu : tu_builder) :
    (emitted tu (__fcvt_s_wu dis pc instr tu)).any
      (fun l => l.calls "fget_flags" || l.is_store_to reg_e.FCSR) = false := by
  simp only [__fcvt_s_wu, emitted, tu_simps, uint_of_int_64_neg_one,
    if_neg (by decide : ¬((64 : Nat) = 32))]
  cases dis <;> simp [line.calls, value.calls, line.is_store_to]

/-- No line `__fcvt_s_d` emits calls `fget_flags` or stores to FCSR. -/
theorem fcvt_s_d_no_fcsr (dis : Bool) (pc instr : Nat) (tu : tu_builder) :
    (emitted tu (__fcvt_s_d dis pc instr tu)).any
      (fun l => l.calls "fget_flags" || l.is_store_to reg_e.FCSR) = false := by
  simp only [__fcvt_s_d, emitted, tu_simps, uint_of_int_64_neg_one,
    if_neg (by decide : ¬((64 : Nat) = 32))]
  cases dis <;> simp [line.calls, value.calls, line.is_store_to]

/-- No line `__fcvt_d_s` emits calls `fget_flags` or stores to FCSR. -/
theorem fcvt_d_s_no_fcsr (dis : Bool) (pc instr : Nat) (tu : tu_builder) :
    (emitted tu (__fcvt_d_s dis pc instr tu)).any
      (fun l => l.calls "fget_flags" || l.is_store_to reg_e.FCSR) = false := by
  simp only [__fcvt_d_s, emitted, tu_simps, uint_of_int_64_neg_one,
    if_neg (by decide : ¬((64 : Nat) = 32))]
  cases dis <;> simp [line.calls, value.calls, line.is_store_to]

/-- No line `__fcvt_d_w` emits calls `fget_flags` or stores to FCSR. -/
theorem fcvt_d_w_no_fcsr (dis : Bool) (pc instr : Nat) (tu : tu_builder) :
    (emitted tu (__fcvt_d_w dis pc instr tu)).any
      (fun l => l.calls "fget_flags" || l.is_store_to reg_e.FCSR) = false := by
  simp only [__fcvt_d_w, emitted, tu_simps, uint_of_int_64_neg_one,
    if_neg (by decide : ¬((64 : Nat) = 32))]
  cases dis <;> simp [line.calls, value.calls, line.is_store_to]

/-- No line `__fcvt_d_wu` emits calls `fget_flags` or stores to FCSR. -/
theorem fcvt_d_wu_no_fcsr (dis : Bool) (pc instr : Nat) (tu : tu_builder) :
    (emitted tu (__fcvt_d_wu dis pc instr tu)).any
      (fun l => l.calls "fget_flags" || l.is_store_to reg_e.FCSR) = false := by
  simp only [__fcvt_d_wu, emitted, tu_simps, uint_of_int_64_neg_one,
    if_neg (by decide : ¬((64 : Nat) = 32))]
  cases dis <;> simp [line.calls, value.calls, line.is_store_to]

/-- The lines `__feq_s` emits. -/
theorem feq_s_emitted (dis : Bool) (pc instr : Nat) (tu : tu_builder) :
    emitted tu (__feq_s dis pc instr tu) =
      line.label "FEQ_S" pc :: line.sync sync_type.PRE_SYNC 88 ::
        ((if dis = true then
            [line.print_disass pc "feq.s"
              [((bit_sub 7 5 instr : Nat) : Int), ((bit_sub 15 5 instr : Nat) : Int),
                ((bit_sub 20 5 instr : Nat) : Int)]]
          else []) ++
          line.open_scope ::
            line.assignment (local_name.tmp tu.serial)
              (value.callf "unbox_s"
                (value.arg (value.load (reg_e.F (bit_sub 15 5 instr)) 0) value.noarg)) 32 ::
            line.assignment (local_name.tmp (tu.serial + 1))
              (value.callf "unbox_s"
                (value.arg (value.load (reg_e.F (bit_sub 20 5 instr)) 0) value.noarg)) 32 ::
            line.store
              (value.ext
                (value.callf "fcmp_s"
                  (value.arg (value.ref (local_name.tmp tu.serial) 32)
                    (value.arg (value.ref (local_name.tmp (tu.serial + 1)) 32)
                      (value.arg (value.ext (value.constant 0 64) 32 true) value.noarg))))
                32 true)
              (reg_e.X (bit_sub 7 5 instr)) ::
            (fcsr_update (tu.serial + 2) ++
              [line.close_scope, line.set_pc reg_e.NEXT_PC (pc + 4),
                line.sync sync_type.POST_SYNC 88, line.trap_check])) := by
  simp only [__feq_s, emitted, tu_simps, fcsr_update, uint_t_8_bit_sub _ _ _ (by decide : 5 ≤ 8),
    if_neg (by decide : ¬((64 : Nat) = 32))]

/-- The lines `__flt_s` emits. -/
theorem flt_s_emitted (dis : Bool) (pc instr : Nat) (tu : tu_builder) :
    emitted tu (__flt_s dis pc instr tu) =
      line.label "FLT_S" pc :: line.sync sync_type.PRE_SYNC 89 ::
        ((if dis = true then
            [line.print_disass pc "flt.s"
              [((bit_sub 7 5 instr : Nat) : Int), ((bit_sub 15 5 instr : Nat) : Int),
                ((bit_sub 20 5 instr : Nat) : Int)]]
          else []) ++
          line.open_scope ::
            line.assignment (local_name.tmp tu.serial)
              (value.callf "unbox_s"
                (value.arg (value.load (reg_e.F (bit_sub 15 5 instr)) 0) value.noarg)) 32 ::
            line.assignment (local_name.tmp (tu.serial + 1))
              (value.callf "unbox_s"
                (value.arg (value.load (reg_e.F (bit_sub 20 5 instr)) 0) value.noarg)) 32 ::
            line.store
              (value.ext
                (value.callf "fcmp_s"
                  (value.arg (value.ref (local_name.tmp tu.serial) 32)
                    (value.arg (value.ref (local_name.tmp (tu.serial + 1)) 32)
                      (value.arg (value.ext (value.constant 2 64) 32 true) value.noarg))))
                32 true)
              (reg_e.X (bit_sub 7 5 instr)) ::
            line.store
              (value.callf "fcmp_s"
                (value.arg (value.trunc (value.load (reg_e.F (bit_sub 15 5 instr)) 0) 32)
                  (value.arg (value.trunc (value.load (reg_e.F (bit_sub 20 5 instr)) 0) 32)
                    (value.arg (value.ext (value.constant 2 64) 32 true) value.noarg))))
              (reg_e.X (bit_sub 7 5 instr)) ::
            (fcsr_update (tu.serial + 2) ++
              [line.close_scope, line.set_pc reg_e.NEXT_PC (pc + 4),
                line.sync sync_type.POST_SYNC 89, line.trap_check])) := by
  simp only [__flt_s, emitted, tu_simps, fcsr_update, uint_t_8_bit_sub _ _ _ (by decide : 5 ≤ 8),
    if_neg (by decide : ¬((64 : Nat) = 32))]

/-- The lines `__fle_s` emits. -/
theorem fle_s_emitted (dis : Bool) (pc instr : Nat) (tu : tu_builder) :
    emitted tu (__fle_s dis pc instr tu) =
      line.label "FLE_S" pc :: line.sync sync_type.PRE_SYNC 90 ::
        ((if dis = true then
            [line.print_disass pc "fle.s"
              [((bit_sub 7 5 instr : Nat) : Int), ((bit_sub 15 5 instr : Nat) : Int),
                ((bit_sub 20 5 instr : Nat) : Int)]]
          else []) ++
          line.open_scope ::
            line.assignment (local_name.tmp tu.serial)
              (value.callf "unbox_s"
                (value.arg (value.load (reg_e.F (bit_sub 15 5 instr)) 0) value.noarg)) 32 ::
            line.assignment (local_name.tmp (tu.serial + 1))
              (value.callf "unbox_s"
                (value.arg (value.load (reg_e.F (bit_sub 20 5 instr)) 0) value.noarg)) 32 ::
            line.store
              (value.ext
                (value.callf "fcmp_s"
                  (value.arg (value.ref (local_name.tmp tu.serial) 32)
                    (value.arg (value.ref (local_name.tmp (tu.serial + 1)) 32)
                      (value.arg (value.ext (value.constant 1 64) 32 true) value.noarg))))
                32 true)
              (reg_e.X (bit_sub 7 5 instr)) ::
            (fcsr_update (tu.serial + 2) ++
              [line.close_scope, line.set_pc reg_e.NEXT_PC (pc + 4),
                line.sync sync_type.POST_SYNC 90, line.trap_check])) := by
  simp only [__fle_s, emitted, tu_simps, fcsr_update, uint_t_8_bit_sub _ _ _ (by decide : 5 ≤ 8),
    if_neg (by decide : ¬((64 : Nat) = 32))]

/-- The lines before and after a block that follows two body lines. -/
theorem split_after_two (a b o x : line) (d mid tail : List line) :
    a :: b :: (d ++ o :: x :: (mid ++ tail)) = (a :: b :: (d ++ [o, x])) ++ mid ++ tail := by
  simp

/-- The lines before and after a block that follows three body lines. -/
theorem split_after_three (a b o x y : line) (d mid tail : List line) :
    a :: b :: (d ++ o :: x :: y :: (mid ++ tail)) =
      (a :: b :: (d ++ [o, x, y])) ++ mid ++ tail := by
  simp

/-- The lines before and after a block that follows five body lines. -/
theorem split_after_five (a b o x y z w : line) (d mid tail : List line) :
    a :: b :: (d ++ o :: x :: y :: z :: w :: (mid ++ tail)) =
      (a :: b :: (d ++ [o, x, y, z, w])) ++ mid ++ tail := by
  simp

/-! ## FENCE.I and the FLUSH kind -/

/-- The lines `__fence_i` emits. -/
theorem fence_i_emitted (dis : Bool) (pc instr : Nat) (tu : tu_builder) :
    emitted tu (__fence_i dis pc instr tu) =
      line.label "FENCE_I" pc :: line.sync sync_type.PRE_SYNC 56 ::
        ((if dis = true then [line.print_disass pc "fence_i" []] else []) ++
          [line.open_scope,
            line.write_mem mem_type_e.FENCE (value.constant 1 64)
              (value.trunc (value.constant ((uint_t 16 (bit_sub 20 12 instr) : Nat) : Int) 32) 32),
            line.close_scope,
            line.store (value.constant 4294967295 32) reg_e.LAST_BRANCH,
            line.set_pc reg_e.NEXT_PC (pc + 4),
            line.sync sync_type.POST_SYNC 56, line.trap_check]) := by
  simp only [__fence_i, emitted, tu_simps]

/-- Only `__fence_i` has the kind FLUSH. -/
theorem handler_kind_flush (f : compile_func) :
    handler_kind f = continuation_e.FLUSH ↔ f = compile_func.__fence_i := by
  cases f <;> decide
/-! ## Running FENCE.I; membership of trap lines -/

theorem uint_of_int_64_one : uint_of_int 64 1 = 1 := by decide

/-- The state after running what `__fence_i` emits. -/
theorem fence_i_run (dis : Bool) (pc instr : Nat) (tu : tu_builder) (σ : arch_state) :
    (run σ (emitted tu (__fence_i dis pc instr tu))).mem mem_type_e.FENCE 1 =
        bit_sub 20 12 instr ∧
      (run σ (emitted tu (__fence_i dis pc instr tu))).reg reg_e.LAST_BRANCH = 0xFFFFFFFF ∧
      (run σ (emitted tu (__fence_i dis pc instr tu))).reg reg_e.NEXT_PC = uint_t 32 (pc + 4) := by
  rw [fence_i_emitted, uint_t_16_bit_sub _ _ _ (by decide : 12 ≤ 16)]
  have hlt : bit_sub 20 12 instr < 2 ^ 32 :=
    Nat.lt_of_lt_of_le (bit_sub_lt 20 12 instr) (by norm_num)
  have h32 : uint_t 32 (bit_sub 20 12 instr) = bit_sub 20 12 instr := uint_t_of_lt hlt
  generalize bit_sub 20 12 instr = imm at h32
  refine ⟨?_, ?_, ?_⟩ <;> cases dis <;>
    simp [run, exec_lines, exec_line, exec_state.running, value.eval, value.size,
      reg_bit_widths, apply_ite exec_state.σ, uint_t_idem, uint_of_int_32_max, uint_t_32_max,
      uint_t_uint_of_int, uint_of_int_natCast, h32, uint_of_int_64_one]

/-- A trap line is among the lines exactly when it is among the filtered trap lines. -/
theorem mem_filter_trap_state (v : Int) (ls : List line) :
    line.trap_state v ∈ ls ↔ line.trap_state v ∈ ls.filter line.is_trap_state := by
  simp [List.mem_filter, line.is_trap_state]

/-- A handler that returns `CONT` ends its lines with the trap check. -/
theorem cont_last_line (f : compile_func) (dis : Bool) (pc instr : Nat) (tu : tu_builder)
    (h : (invoke f dis pc instr tu).cont = continuation_e.CONT) :
    (emitted tu (invoke f dis pc instr tu)).getLast? = some line.trap_check := by
  obtain ⟨i, mnemonic, henv⟩ := invoke_envelope f dis pc instr tu h
  obtain ⟨body, hem, _⟩ := envelope_emitted henv
  rw [hem]
  have hsplit : line.label mnemonic pc :: line.sync sync_type.PRE_SYNC i ::
      (body ++ [line.set_pc reg_e.NEXT_PC (invoke f dis pc instr tu).pc,
        line.sync sync_type.POST_SYNC i, line.trap_check]) =
      (line.label mnemonic pc :: line.sync sync_type.PRE_SYNC i ::
        (body ++ [line.set_pc reg_e.NEXT_PC (invoke f dis pc instr tu).pc,
          line.sync sync_type.POST_SYNC i])) ++ [line.trap_check] := by
    simp
  rw [hsplit, List.getLast?_concat]
/-! ## Shift-immediate handlers -/

theorem shamt_le (instr : Nat) : ¬(bit_sub 20 5 instr > 31) := by
  have := bit_sub_lt 20 5 instr
  norm_num at this
  omega

/-- The lines `__slli` emits. -/
theorem slli_emitted (dis : Bool) (pc instr : Nat) (tu : tu_builder) :
    emitted tu (__slli dis pc instr tu) =
      line.label "SLLI" pc :: line.sync sync_type.PRE_SYNC 42 ::
        ((if dis = true then
            [line.print_disass pc "slli"
              [((bit_sub 7 5 instr : Nat) : Int), ((bit_sub 15 5 instr : Nat) : Int),
                ((bit_sub 20 5 instr : Nat) : Int)]]
          else []) ++
          line.open_scope ::
            ((if bit_sub 7 5 instr ≠ 0 then
                [line.store
                  (value.shl (value.load (reg_e.X (bit_sub 15 5 instr)) 0)
                    (value.constant ((bit_sub 20 5 instr : Nat) : Int) 32))
                  (reg_e.X (bit_sub 7 5 instr))]
              else []) ++
              [line.close_scope, line.set_pc reg_e.NEXT_PC (pc + 4),
                line.sync sync_type.POST_SYNC 42, line.trap_check])) := by
  simp only [__slli, emitted, tu_simps, uint_t_8_bit_sub _ _ _ (by decide : 5 ≤ 8),
    if_neg (shamt_le instr)]

/-- The lines `__srli` emits. -/
theorem srli_emitted (dis : Bool) (pc instr : Nat) (tu : tu_builder) :
    emitted tu (__srli dis pc instr tu) =
      line.label "SRLI" pc :: line.sync sync_type.PRE_SYNC 43 ::
        ((if dis = true then
            [line.print_disass pc "srli"
              [((bit_sub 7 5 instr : Nat) : Int), ((bit_sub 15 5 instr : Nat) : Int),
                ((bit_sub 20 5 instr : Nat) : Int)]]
          else []) ++
          line.open_scope ::
            ((if bit_sub 7 5 instr ≠ 0 then
                [line.store
                  (value.lshr (value.load (reg_e.X (bit_sub 15 5 instr)) 0)
                    (value.constant ((bit_sub 20 5 instr : Nat) : Int) 32))
                  (reg_e.X (bit_sub 7 5 instr))]
              else []) ++
              [line.close_scope, line.set_pc reg_e.NEXT_PC (pc + 4),
                line.sync sync_type.POST_SYNC 43, line.trap_check])) := by
  simp only [__srli, emitted, tu_simps, uint_t_8_bit_sub _ _ _ (by decide : 5 ≤ 8),
    if_neg (shamt_le instr)]

/-- The lines `__srai` emits. -/
theorem srai_emitted (dis : Bool) (pc instr : Nat) (tu : tu_builder) :
    emitted tu (__srai dis pc instr tu) =
      line.label "SRAI" pc :: line.sync sync_type.PRE_SYNC 44 ::
        ((if dis = true then
            [line.print_disass pc "srai"
              [((bit_sub 7 5 instr : Nat) : Int), ((bit_sub 15 5 instr : Nat) : Int),
                ((bit_sub 20 5 instr : Nat) : Int)]]
          else []) ++
          line.open_scope ::
            ((if bit_sub 7 5 instr ≠ 0 then
                [line.store
                  (value.ashr (value.load (reg_e.X (bit_sub 15 5 instr)) 0)
                    (value.constant ((bit_sub 20 5 instr : Nat) : Int) 32))
                  (reg_e.X (bit_sub 7 5 instr))]
              else []) ++
              [line.close_scope, line.set_pc reg_e.NEXT_PC (pc + 4),
                line.sync sync_type.POST_SYNC 44, line.trap_check])) := by
  simp only [__srai, emitted, tu_simps, uint_t_8_bit_sub _ _ _ (by decide : 5 ≤ 8),
    if_neg (shamt_le instr)]

theorem uint_t_32_shamt (instr : Nat) : uint_t 32 (bit_sub 20 5 instr) = bit_sub 20 5 instr :=
  uint_t_of_lt (Nat.lt_of_lt_of_le (bit_sub_lt 20 5 instr) (by norm_num))

theorem uint_t_32_shiftRight (x s : Nat) :
    uint_t 32 (uint_t 32 x >>> s) = uint_t 32 x >>> s :=
  uint_t_of_lt (Nat.lt_of_le_of_lt
    (by rw [Nat.shiftRight_eq_div_pow]; exact Nat.div_le_self _ _) (uint_t_lt 32 x))

/-- The registers after running what the shift-immediate handlers emit, for `rd ≠ 0`. -/
theorem shift_imm_run (dis : Bool) (pc instr : Nat) (tu : tu_builder) (σ : arch_state)
    (hrd : bit_sub 7 5 instr ≠ 0) :
    (run σ (emitted tu (__slli dis pc instr tu))).reg (reg_e.X (bit_sub 7 5 instr)) =
        uint_t 32 (uint_t 32 (σ.reg (reg_e.X (bit_sub 15 5 instr))) <<< bit_sub 20 5 instr) ∧
      (run σ (emitted tu (__srli dis pc instr tu))).reg (reg_e.X (bit_sub 7 5 instr)) =
        uint_t 32 (σ.reg (reg_e.X (bit_sub 15 5 instr))) >>> bit_sub 20 5 instr ∧
      (run σ (emitted tu (__srai dis pc instr tu))).reg (reg_e.X (bit_sub 7 5 instr)) =
        uint_of_int 32
          (int_t 32 (uint_t 32 (σ.reg (reg_e.X (bit_sub 15 5 instr)))) /
            2 ^ bit_sub 20 5 instr) := by
  rw [slli_emitted, srli_emitted, srai_emitted]
  have hs := uint_t_32_shamt instr
  generalize bit_sub 7 5 instr = rd at hrd ⊢
  generalize bit_sub 15 5 instr = rs1
  generalize bit_sub 20 5 instr = shamt at hs
  refine ⟨?_, ?_, ?_⟩ <;> cases dis <;>
    simp [hrd, run, exec_lines, exec_line, exec_state.running, value.eval, value.size,
      reg_bit_widths, apply_ite exec_state.σ, uint_t_idem, uint_of_int_natCast, hs,
      uint_t_uint_of_int, uint_t_32_shiftRight]
/-! ## Branch and jump offsets -/

theorem signextend_16_13 (v : Nat) : signextend 16 13 v = sext 13 v := by
  unfold signextend sext int_t
  simp only [Nat.reducePow, Nat.reduceSub]
  norm_num
  have h := Nat.mod_lt v (by decide : 0 < 8192)
  split_ifs <;> omega

theorem signextend_16_9 (v : Nat) : signextend 16 9 v = sext 9 v := by
  unfold signextend sext int_t
  simp only [Nat.reducePow, Nat.reduceSub]
  norm_num
  have h := Nat.mod_lt v (by decide : 0 < 512)
  split_ifs <;> omega

/-- The offset assembled by the conditional branches is the RISC-V B-immediate. -/
theorem branch_imm_eq (w : Nat) : branch_imm w = b_imm w := by
  unfold branch_imm b_imm
  rw [signextend_16_13]
  congr 1
  have h0 := bit_sub_lt 31 1 w
  have h1 := bit_sub_lt 7 1 w
  have h2 := bit_sub_lt 25 6 w
  have h3 := bit_sub_lt 8 4 w
  have hre : (((((bit_sub 7 1 w) <<< 11) ||| ((bit_sub 8 4 w) <<< 1)) ||| ((bit_sub 25 6 w) <<< 5)) ||| ((bit_sub 31 1 w) <<< 12)) = (((bit_sub 31 1 w) <<< 12) ||| (((bit_sub 7 1 w) <<< 11) ||| (((bit_sub 25 6 w) <<< 5) ||| ((bit_sub 8 4 w) <<< 1)))) := by
    ac_rfl
  have e3 : ((bit_sub 8 4 w) <<< 1) = bit_sub 8 4 w * 2 ^ 1 := by
    rw [Nat.shiftLeft_eq]
  have e2 : (((bit_sub 25 6 w) <<< 5) ||| bit_sub 8 4 w * 2 ^ 1) = (bit_sub 25 6 w * 2 ^ 5 + bit_sub 8 4 w * 2 ^ 1) :=
    or_shift_eq_add _ _ _ (by omega)
  have e1 : (((bit_sub 7 1 w) <<< 11) ||| (bit_sub 25 6 w * 2 ^ 5 + bit_sub 8 4 w * 2 ^ 1)) = (bit_sub 7 1 w * 2 ^ 11 + (bit_sub 25 6 w * 2 ^ 5 + bit_sub 8 4 w * 2 ^ 1)) :=
    or_shift_eq_add _ _ _ (by omega)
  have e0 : (((bit_sub 31 1 w) <<< 12) ||| (bit_sub 7 1 w * 2 ^ 11 + (bit_sub 25 6 w * 2 ^ 5 + bit_sub 8 4 w * 2 ^ 1))) = (bit_sub 31 1 w * 2 ^ 12 + (bit_sub 7 1 w * 2 ^ 11 + (bit_sub 25 6 w * 2 ^ 5 + bit_sub 8 4 w * 2 ^ 1))) :=
    or_shift_eq_add _ _ _ (by omega)
  rw [hre, e3, e2, e1, e0]
  simp only [bit_sub_eq]
  omega

/-- The offset assembled by C.BEQZ and C.BNEZ is the RISC-V CB-immediate. -/
theorem c_branch_imm_eq (w : Nat) : c_branch_imm w = cb_imm w := by
  unfold c_branch_imm cb_imm
  rw [signextend_16_9]
  congr 1
  have h0 := bit_sub_lt 12 1 w
  have h1 := bit_sub_lt 5 2 w
  have h2 := bit_sub_lt 2 1 w
  have h3 := bit_sub_lt 10 2 w
  have h4 := bit_sub_lt 3 2 w
  have hre : ((((((bit_sub 2 1 w) <<< 5) ||| ((bit_sub 3 2 w) <<< 1)) ||| ((bit_sub 5 2 w) <<< 6)) ||| ((bit_sub 10 2 w) <<< 3)) ||| ((bit_sub 12 1 w) <<< 8)) = (((bit_sub 12 1 w) <<< 8) ||| (((bit_sub 5 2 w) <<< 6) ||| (((bit_sub 2 1 w) <<< 5) ||| (((bit_sub 10 2 w) <<< 3) ||| ((bit_sub 3 2 w) <<< 1))))) := by
    ac_rfl
  have e4 : ((bit_sub 3 2 w) <<< 1) = bit_sub 3 2 w * 2 ^ 1 := by
    rw [Nat.shiftLeft_eq]
  have e3 : (((bit_sub 10 2 w) <<< 3) ||| bit_sub 3 2 w * 2 ^ 1) = (bit_sub 10 2 w * 2 ^ 3 + bit_sub 3 2 w * 2 ^ 1) :=
    or_shift_eq_add _ _ _ (by omega)
  have e2 : (((bit_sub 2 1 w) <<< 5) ||| (bit_sub 10 2 w * 2 ^ 3 + bit_sub 3 2 w * 2 ^ 1)) = (bit_sub 2 1 w * 2 ^ 5 + (bit_sub 10 2 w * 2 ^ 3 + bit_sub 3 2 w * 2 ^ 1)) :=
    or_shift_eq_add _ _ _ (by omega)
  have e1 : (((bit_sub 5 2 w) <<< 6) ||| (bit_sub 2 1 w * 2 ^ 5 + (bit_sub 10 2 w * 2 ^ 3 + bit_sub 3 2 w * 2 ^ 1))) = (bit_sub 5 2 w * 2 ^ 6 + (bit_sub 2 1 w * 2 ^ 5 + (bit_sub 10 2 w * 2 ^ 3 + bit_sub 3 2 w * 2 ^ 1))) :=
    or_shift_eq_add _ _ _ (by omega)
  have e0 : (((bit_sub 12 1 w) <<< 8) ||| (bit_sub 5 2 w * 2 ^ 6 + (bit_sub 2 1 w * 2 ^ 5 + (bit_sub 10 2 w * 2 ^ 3 + bit_sub 3 2 w * 2 ^ 1)))) = (bit_sub 12 1 w * 2 ^ 8 + (bit_sub 5 2 w * 2 ^ 6 + (bit_sub 2 1 w * 2 ^ 5 + (bit_sub 10 2 w * 2 ^ 3 + bit_sub 3 2 w * 2 ^ 1)))) :=
    or_shift_eq_add _ _ _ (by omega)
  rw [hre, e4, e3, e2, e1, e0]
  simp only [bit_sub_eq]
  omega

/-- The offset assembled by C.J and C.JAL is the RISC-V CJ-immediate. -/
theorem c_jump_imm_eq (w : Nat) : c_jump_imm w = cj_imm w := by
  unfold c_jump_imm cj_imm
  rw [signextend_16_12]
  congr 1
  have h0 := bit_sub_lt 12 1 w
  have h1 := bit_sub_lt 8 1 w
  have h2 := bit_sub_lt 9 2 w
  have h3 := bit_sub_lt 6 1 w
  have h4 := bit_sub_lt 7 1 w
  have h5 := bit_sub_lt 2 1 w
  have h6 := bit_sub_lt 11 1 w
  have h7 := bit_sub_lt 3 3 w
  have hre : (((((((((bit_sub 2 1 w) <<< 5) ||| ((bit_sub 3 3 w) <<< 1)) ||| ((bit_sub 6 1 w) <<< 7)) ||| ((bit_sub 7 1 w) <<< 6)) ||| ((bit_sub 8 1 w) <<< 10)) ||| ((bit_sub 9 2 w) <<< 8)) ||| ((bit_sub 11 1 w) <<< 4)) ||| ((bit_sub 12 1 w) <<< 11)) = (((bit_sub 12 1 w) <<< 11) ||| (((bit_sub 8 1 w) <<< 10) ||| (((bit_sub 9 2 w) <<< 8) ||| (((bit_sub 6 1 w) <<< 7) ||| (((bit_sub 7 1 w) <<< 6) ||| (((bit_sub 2 1 w) <<< 5) ||| (((bit_sub 11 1 w) <<< 4) ||| ((bit_sub 3 3 w) <<< 1)))))))) := by
    ac_rfl
  have e7 : ((bit_sub 3 3 w) <<< 1) = bit_sub 3 3 w * 2 ^ 1 := by
    rw [Nat.shiftLeft_eq]
  have e6 : (((bit_sub 11 1 w) <<< 4) ||| bit_sub 3 3 w * 2 ^ 1) = (bit_sub 11 1 w * 2 ^ 4 + bit_sub 3 3 w * 2 ^ 1) :=
    or_shift_eq_add _ _ _ (by omega)
  have e5 : (((bit_sub 2 1 w) <<< 5) ||| (bit_sub 11 1 w * 2 ^ 4 + bit_sub 3 3 w * 2 ^ 1)) = (bit_sub 2 1 w * 2 ^ 5 + (bit_sub 11 1 w * 2 ^ 4 + bit_sub 3 3 w * 2 ^ 1)) :=
    or_shift_eq_add _ _ _ (by omega)
  have e4 : (((bit_sub 7 1 w) <<< 6) ||| (bit_sub 2 1 w * 2 ^ 5 + (bit_sub 11 1 w * 2 ^ 4 + bit_sub 3 3 w * 2 ^ 1))) = (bit_sub 7 1 w * 2 ^ 6 + (bit_sub 2 1 w * 2 ^ 5 + (bit_sub 11 1 w * 2 ^ 4 + bit_sub 3 3 w * 2 ^ 1))) :=
    or_shift_eq_add _ _ _ (by omega)
  have e3 : (((bit_sub 6 1 w) <<< 7) ||| (bit_sub 7 1 w * 2 ^ 6 + (bit_sub 2 1 w * 2 ^ 5 + (bit_sub 11 1 w * 2 ^ 4 + bit_sub 3 3 w * 2 ^ 1)))) = (bit_sub 6 1 w * 2 ^ 7 + (bit_sub 7 1 w * 2 ^ 6 + (bit_sub 2 1 w * 2 ^ 5 + (bit_sub 11 1 w * 2 ^ 4 + bit_sub 3 3 w * 2 ^ 1)))) :=
    or_shift_eq_add _ _ _ (by omega)
  have e2 : (((bit_sub 9 2 w) <<< 8) ||| (bit_sub 6 1 w * 2 ^ 7 + (bit_sub 7 1 w * 2 ^ 6 + (bit_sub 2 1 w * 2 ^ 5 + (bit_sub 11 1 w * 2 ^ 4 + bit_sub 3 3 w * 2 ^ 1))))) = (bit_sub 9 2 w * 2 ^ 8 + (bit_sub 6 1 w * 2 ^ 7 + (bit_sub 7 1 w * 2 ^ 6 + (bit_sub 2 1 w * 2 ^ 5 + (bit_sub 11 1 w * 2 ^ 4 + bit_sub 3 3 w * 2 ^ 1))))) :=
    or_shift_eq_add _ _ _ (by omega)
  have e1 : (((bit_sub 8 1 w) <<< 10) ||| (bit_sub 9 2 w * 2 ^ 8 + (bit_sub 6 1 w * 2 ^ 7 + (bit_sub 7 1 w * 2 ^ 6 + (bit_sub 2 1 w * 2 ^ 5 + (bit_sub 11 1 w * 2 ^ 4 + bit_sub 3 3 w * 2 ^ 1)))))) = (bit_sub 8 1 w * 2 ^ 10 + (bit_sub 9 2 w * 2 ^ 8 + (bit_sub 6 1 w * 2 ^ 7 + (bit_sub 7 1 w * 2 ^ 6 + (bit_sub 2 1 w * 2 ^ 5 + (bit_sub 11 1 w * 2 ^ 4 + bit_sub 3 3 w * 2 ^ 1)))))) :=
    or_shift_eq_add _ _ _ (by omega)
  have e0 : (((bit_sub 12 1 w) <<< 11) ||| (bit_sub 8 1 w * 2 ^ 10 + (bit_sub 9 2 w * 2 ^ 8 + (bit_sub 6 1 w * 2 ^ 7 + (bit_sub 7 1 w * 2 ^ 6 + (bit_sub 2 1 w * 2 ^ 5 + (bit_sub 11 1 w * 2 ^ 4 + bit_sub 3 3 w * 2 ^ 1))))))) = (bit_sub 12 1 w * 2 ^ 11 + (bit_sub 8 1 w * 2 ^ 10 + (bit_sub 9 2 w * 2 ^ 8 + (bit_sub 6 1 w * 2 ^ 7 + (bit_sub 7 1 w * 2 ^ 6 + (bit_sub 2 1 w * 2 ^ 5 + (bit_sub 11 1 w * 2 ^ 4 + bit_sub 3 3 w * 2 ^ 1))))))) :=
    or_shift_eq_add _ _ _ (by omega)
  rw [hre, e7, e6, e5, e4, e3, e2, e1, e0]
  simp only [bit_sub_eq]
  omega

/-- The write of `NEXT_PC` by `__c_j`. -/
theorem c_j_run (dis : Bool) (pc instr : Nat) (tu : tu_builder) (σ : arch_state) :
    (run σ (emitted tu (__c_j dis pc instr tu))).reg reg_e.NEXT_PC =
      uint_of_int 32 ((pc : Int) + c_jump_imm instr) := by
  simp only [__c_j, emitted, tu_simps]
  rw [show signextend 16 12
    (((((((((bit_sub 2 1 instr) <<< 5) ||| ((bit_sub 3 3 instr) <<< 1)) |||
      ((bit_sub 6 1 instr) <<< 7)) ||| ((bit_sub 7 1 instr) <<< 6)) |||
      ((bit_sub 8 1 instr) <<< 10)) ||| ((bit_sub 9 2 instr) <<< 8)) |||
      ((bit_sub 11 1 instr) <<< 4)) ||| ((bit_sub 12 1 instr) <<< 11)) = c_jump_imm instr from rfl]
  generalize c_jump_imm instr = imm
  by_cases hc : uint_of_int 32 ((pc : Int) + imm) = uint_t 32 (pc + 2) <;>
  cases dis <;>
    simp [hc, run, exec_lines, exec_line, exec_state.running, value.eval, value.size,
      reg_bit_widths, apply_ite exec_state.σ, uint_t_idem, uint_t_uint_of_int,
      uint_of_int_32_one, uint_of_int_32_max, uint_t_32_max,
      uint_of_int_32_zero, uint_t_pc_add_imm, uint_t_and_of_lt,
      ICmpInst.holds, uint_of_int_int_t, uint_of_int_pc_add_two, apply_ite (uint_t 32),
      uint_of_int_uint_of_int, uint_of_int_uint_t, uint_t_32_one, uint_t_32_zero]

/-- The writes of `NEXT_PC` and `X[1]` by `__c_jal`. -/
theorem c_jal_run (dis : Bool) (pc instr : Nat) (tu : tu_builder) (σ : arch_state) :
    (run σ (emitted tu (__c_jal dis pc instr tu))).reg reg_e.NEXT_PC =
        uint_of_int 32 ((pc : Int) + c_jump_imm instr) ∧
      (run σ (emitted tu (__c_jal dis pc instr tu))).reg (reg_e.X 1) = uint_t 32 (pc + 2) := by
  simp only [__c_jal, emitted, tu_simps]
  rw [show signextend 16 12
    (((((((((bit_sub 2 1 instr) <<< 5) ||| ((bit_sub 3 3 instr) <<< 1)) |||
      ((bit_sub 6 1 instr) <<< 7)) ||| ((bit_sub 7 1 instr) <<< 6)) |||
      ((bit_sub 8 1 instr) <<< 10)) ||| ((bit_sub 9 2 instr) <<< 8)) |||
      ((bit_sub 11 1 instr) <<< 4)) ||| ((bit_sub 12 1 instr) <<< 11)) = c_jump_imm instr from rfl]
  generalize c_jump_imm instr = imm
  constructor <;>
  by_cases hc : uint_of_int 32 ((pc : Int) + imm) = uint_t 32 (pc + 2) <;>
  cases dis <;>
    simp [hc, run, exec_lines, exec_line, exec_state.running, value.eval, value.size,
      reg_bit_widths, apply_ite exec_state.σ, uint_t_idem, uint_t_uint_of_int,
      uint_of_int_32_one, uint_of_int_32_max, uint_t_32_max,
      uint_of_int_32_zero, uint_t_pc_add_imm, uint_t_and_of_lt,
      ICmpInst.holds, uint_of_int_int_t, uint_of_int_pc_add_two, apply_ite (uint_t 32),
      uint_of_int_uint_of_int, uint_of_int_uint_t, uint_t_32_one, uint_t_32_zero,
      uint_of_int_32_two, uint_t_pc_add_two]

/-- The write of `NEXT_PC` by `__c_beqz`. -/
theorem c_beqz_run (dis : Bool) (pc instr : Nat) (tu : tu_builder) (σ : arch_state) :
    (run σ (emitted tu (__c_beqz dis pc instr tu))).reg reg_e.NEXT_PC =
      if uint_t 32 (σ.reg (reg_e.X (bit_sub 7 3 instr + 8))) = 0
        then uint_of_int 32 ((pc : Int) + c_branch_imm instr) else uint_t 32 (pc + 2) := by
  simp only [__c_beqz, emitted, tu_simps, uint_t_8_bit_sub _ _ _ (by decide : 3 ≤ 8)]
  rw [show signextend 16 9
    ((((((bit_sub 2 1 instr) <<< 5) ||| ((bit_sub 3 2 instr) <<< 1)) |||
      ((bit_sub 5 2 instr) <<< 6)) ||| ((bit_sub 10 2 instr) <<< 3)) |||
      ((bit_sub 12 1 instr) <<< 8)) = c_branch_imm instr from rfl]
  generalize c_branch_imm instr = imm
  generalize bit_sub 7 3 instr = rs1
  by_cases hz : uint_t 32 (σ.reg (reg_e.X (rs1 + 8))) = 0 <;>
  by_cases hc : uint_of_int 32 ((pc : Int) + imm) = uint_t 32 (pc + 2) <;>
  cases dis <;>
    simp [hz, hc, run, exec_lines, exec_line, exec_state.running, value.eval, value.size,
      reg_bit_widths, apply_ite exec_state.σ, uint_t_idem, uint_t_uint_of_int,
      uint_of_int_32_one, uint_of_int_32_max, uint_t_32_max,
      uint_of_int_32_zero, uint_t_pc_add_imm, uint_t_and_of_lt,
      ICmpInst.holds, uint_of_int_int_t, uint_of_int_pc_add_two, apply_ite (uint_t 32),
      uint_of_int_uint_of_int, uint_of_int_uint_t, uint_t_32_one, uint_t_32_zero,
      uint_of_int_32_two, uint_t_pc_add_two]

/-- The write of `NEXT_PC` by `__c_bnez`. -/
theorem c_bnez_run (dis : Bool) (pc instr : Nat) (tu : tu_builder) (σ : arch_state) :
    (run σ (emitted tu (__c_bnez dis pc instr tu))).reg reg_e.NEXT_PC =
      if uint_t 32 (σ.reg (reg_e.X (bit_sub 7 3 instr + 8))) ≠ 0
        then uint_of_int 32 ((pc : Int) + c_branch_imm instr) else uint_t 32 (pc + 2) := by
  simp only [__c_bnez, emitted, tu_simps, uint_t_8_bit_sub _ _ _ (by decide : 3 ≤ 8)]
  rw [show signextend 16 9
    ((((((bit_sub 2 1 instr) <<< 5) ||| ((bit_sub 3 2 instr) <<< 1)) |||
      ((bit_sub 5 2 instr) <<< 6)) ||| ((bit_sub 10 2 instr) <<< 3)) |||
      ((bit_sub 12 1 instr) <<< 8)) = c_branch_imm instr from rfl]
  generalize c_branch_imm instr = imm
  generalize bit_sub 7 3 instr = rs1
  by_cases hz : uint_t 32 (σ.reg (reg_e.X (rs1 + 8))) = 0 <;>
  by_cases hc : uint_of_int 32 ((pc : Int) + imm) = uint_t 32 (pc + 2) <;>
  cases dis <;>
    simp [hz, hc, run, exec_lines, exec_line, exec_state.running, value.eval, value.size,
      reg_bit_widths, apply_ite exec_state.σ, uint_t_idem, uint_t_uint_of_int,
      uint_of_int_32_one, uint_of_int_32_max, uint_t_32_max,
      uint_of_int_32_zero, uint_t_pc_add_imm, uint_t_and_of_lt,
      ICmpInst.holds, uint_of_int_int_t, uint_of_int_pc_add_two, apply_ite (uint_t 32),
      uint_of_int_uint_of_int, uint_of_int_uint_t, uint_t_32_one, uint_t_32_zero,
      uint_of_int_32_two, uint_t_pc_add_two]

/-- The B-immediate is even and lies in the range of 13 bits. -/
theorem sext_even_range_b_imm (w : Nat) :
    -4096 ≤ b_imm w ∧ b_imm w ≤ 4094 ∧ b_imm w % 2 = 0 := by
  unfold b_imm
  generalize w / 2 ^ 31 % 2 = a1
  generalize w / 2 ^ 7 % 2 = a2
  generalize w / 2 ^ 25 % 2 ^ 6 = a3
  generalize w / 2 ^ 8 % 2 ^ 4 = a4
  generalize hx : a1 * 2 ^ 12 + a2 * 2 ^ 11 + a3 * 2 ^ 5 + a4 * 2 ^ 1 = x
  have hx2 : x % 2 = 0 := by rw [← hx]; omega
  unfold sext
  norm_num
  split_ifs <;> omega

/-- The CB-immediate is even and lies in the range of 9 bits. -/
theorem sext_even_range_cb_imm (w : Nat) :
    -256 ≤ cb_imm w ∧ cb_imm w ≤ 254 ∧ cb_imm w % 2 = 0 := by
  unfold cb_imm
  generalize w / 2 ^ 12 % 2 = a1
  generalize w / 2 ^ 5 % 2 ^ 2 = a2
  generalize w / 2 ^ 2 % 2 = a3
  generalize w / 2 ^ 10 % 2 ^ 2 = a4
  generalize w / 2 ^ 3 % 2 ^ 2 = a5
  generalize hx : a1 * 2 ^ 8 + a2 * 2 ^ 6 + a3 * 2 ^ 5 + a4 * 2 ^ 3 + a5 * 2 ^ 1 = x
  have hx2 : x % 2 = 0 := by rw [← hx]; omega
  unfold sext
  norm_num
  split_ifs <;> omega

/-- The CJ-immediate is even and lies in the range of 12 bits. -/
theorem sext_even_range_cj_imm (w : Nat) :
    -2048 ≤ cj_imm w ∧ cj_imm w ≤ 2046 ∧ cj_imm w % 2 = 0 := by
  unfold cj_imm
  generalize w / 2 ^ 12 % 2 = a1
  generalize w / 2 ^ 8 % 2 = a2
  generalize w / 2 ^ 9 % 2 ^ 2 = a3
  generalize w / 2 ^ 6 % 2 = a4
  generalize w / 2 ^ 7 % 2 = a5
  generalize w / 2 ^ 2 % 2 = a6
  generalize w / 2 ^ 11 % 2 = a7
  generalize w / 2 ^ 3 % 2 ^ 3 = a8
  generalize hx : a1 * 2 ^ 11 + a2 * 2 ^ 10 + a3 * 2 ^ 8 + a4 * 2 ^ 7 + a5 * 2 ^ 6 +
    a6 * 2 ^ 5 + a7 * 2 ^ 4 + a8 * 2 ^ 1 = x
  have hx2 : x % 2 = 0 := by rw [← hx]; omega
  unfold sext
  norm_num
  split_ifs <;> omega
/-! ## AMO with rd = rs2 -/

/-- The memory word and `X[rd]` after running what `__amoswap_w` emits, for rd = rs2 ≠ 0. -/
theorem amoswap_w_alias_run (dis : Bool) (pc instr : Nat) (tu : tu_builder) (σ : arch_state)
    (hrd : bit_sub 7 5 instr ≠ 0) (hrs : bit_sub 20 5 instr = bit_sub 7 5 instr) :
    (run σ (emitted tu (__amoswap_w dis pc instr tu))).mem mem_type_e.MEM
        (uint_t 32 (σ.reg (reg_e.X (bit_sub 15 5 instr)))) = uint_t 32 (σ.mem mem_type_e.MEM (uint_t 32 (σ.reg (reg_e.X (bit_sub 15 5 instr))))) ∧
      (run σ (emitted tu (__amoswap_w dis pc instr tu))).reg (reg_e.X (bit_sub 7 5 instr)) =
        uint_t 32 (σ.mem mem_type_e.MEM (uint_t 32 (σ.reg (reg_e.X (bit_sub 15 5 instr))))) := by
  simp only [__amoswap_w, emitted, tu_simps, uint_t_8_bit_sub _ _ _ (by decide : 5 ≤ 8), hrs]
  generalize bit_sub 7 5 instr = rd at hrd ⊢
  generalize bit_sub 15 5 instr = rs1
  have hs1 : ¬(tu.serial = tu.serial + 1 + 1) := by omega
  have hs2 : ¬(tu.serial = tu.serial + 1) := by omega
  have hs3 : ¬(tu.serial + 1 = tu.serial + 1 + 1) := by omega
  constructor <;> cases dis <;>
    simp [hrd, hs1, hs2, hs3, uint_t_32_zero, run, exec_lines, exec_line, exec_state.running, value.eval, value.size,
      reg_bit_widths, apply_ite exec_state.σ, uint_t_idem, Function.update, ICmpInst.holds,
      uint_of_int_int_t, uint_of_int_uint_t]

/-- The memory word and `X[rd]` after running what `__amoadd_w` emits, for rd = rs2 ≠ 0. -/
theorem amoadd_w_alias_run (dis : Bool) (pc instr : Nat) (tu : tu_builder) (σ : arch_state)
    (hrd : bit_sub 7 5 instr ≠ 0) (hrs : bit_sub 20 5 instr = bit_sub 7 5 instr) :
    (run σ (emitted tu (__amoadd_w dis pc instr tu))).mem mem_type_e.MEM
        (uint_t 32 (σ.reg (reg_e.X (bit_sub 15 5 instr)))) = uint_t 32 (uint_t 32 (σ.mem mem_type_e.MEM (uint_t 32 (σ.reg (reg_e.X (bit_sub 15 5 instr))))) +
          uint_t 32 (σ.mem mem_type_e.MEM (uint_t 32 (σ.reg (reg_e.X (bit_sub 15 5 instr)))))) ∧
      (run σ (emitted tu (__amoadd_w dis pc instr tu))).reg (reg_e.X (bit_sub 7 5 instr)) =
        uint_t 32 (σ.mem mem_type_e.MEM (uint_t 32 (σ.reg (reg_e.X (bit_sub 15 5 instr))))) := by
  simp only [__amoadd_w, emitted, tu_simps, uint_t_8_bit_sub _ _ _ (by decide : 5 ≤ 8), hrs]
  generalize bit_sub 7 5 instr = rd at hrd ⊢
  generalize bit_sub 15 5 instr = rs1
  have hs1 : ¬(tu.serial = tu.serial + 1 + 1) := by omega
  have hs2 : ¬(tu.serial = tu.serial + 1) := by omega
  have hs3 : ¬(tu.serial + 1 = tu.serial + 1 + 1) := by omega
  constructor <;> cases dis <;>
    simp [hrd, hs1, hs2, hs3, uint_t_32_zero, run, exec_lines, exec_line, exec_state.running, value.eval, value.size,
      reg_bit_widths, apply_ite exec_state.σ, uint_t_idem, Function.update, ICmpInst.holds,
      uint_of_int_int_t, uint_of_int_uint_t]

/-- The memory word and `X[rd]` after running what `__amoxor_w` emits, for rd = rs2 ≠ 0. -/
theorem amoxor_w_alias_run (dis : Bool) (pc instr : Nat) (tu : tu_builder) (σ : arch_state)
    (hrd : bit_sub 7 5 instr ≠ 0) (hrs : bit_sub 20 5 instr = bit_sub 7 5 instr) :
    (run σ (emitted tu (__amoxor_w dis pc instr tu))).mem mem_type_e.MEM
        (uint_t 32 (σ.reg (reg_e.X (bit_sub 15 5 instr)))) = 0 ∧
      (run σ (emitted tu (__amoxor_w dis pc instr tu))).reg (reg_e.X (bit_sub 7 5 instr)) =
        uint_t 32 (σ.mem mem_type_e.MEM (uint_t 32 (σ.reg (reg_e.X (bit_sub 15 5 instr))))) := by
  simp only [__amoxor_w, emitted, tu_simps, uint_t_8_bit_sub _ _ _ (by decide : 5 ≤ 8), hrs]
  generalize bit_sub 7 5 instr = rd at hrd ⊢
  generalize bit_sub 15 5 instr = rs1
  have hs1 : ¬(tu.serial = tu.serial + 1 + 1) := by omega
  have hs2 : ¬(tu.serial = tu.serial + 1) := by omega
  have hs3 : ¬(tu.serial + 1 = tu.serial + 1 + 1) := by omega
  constructor <;> cases dis <;>
    simp [hrd, hs1, hs2, hs3, uint_t_32_zero, run, exec_lines, exec_line, exec_state.running, value.eval, value.size,
      reg_bit_widths, apply_ite exec_state.σ, uint_t_idem, Function.update, ICmpInst.holds,
      uint_of_int_int_t, uint_of_int_uint_t]

/-- The memory word and `X[rd]` after running what `__amoand_w` emits, for rd = rs2 ≠ 0. -/
theorem amoand_w_alias_run (dis : Bool) (pc instr : Nat) (tu : tu_builder) (σ : arch_state)
    (hrd : bit_sub 7 5 instr ≠ 0) (hrs : bit_sub 20 5 instr = bit_sub 7 5 instr) :
    (run σ (emitted tu (__amoand_w dis pc instr tu))).mem mem_type_e.MEM
        (uint_t 32 (σ.reg (reg_e.X (bit_sub 15 5 instr)))) = uint_t 32 (σ.mem mem_type_e.MEM (uint_t 32 (σ.reg (reg_e.X (bit_sub 15 5 instr))))) ∧
      (run σ (emitted tu (__amoand_w dis pc instr tu))).reg (reg_e.X (bit_sub 7 5 instr)) =
        uint_t 32 (σ.mem mem_type_e.MEM (uint_t 32 (σ.reg (reg_e.X (bit_sub 15 5 instr))))) := by
  simp only [__amoand_w, emitted, tu_simps, uint_t_8_bit_sub _ _ _ (by decide : 5 ≤ 8), hrs]
  generalize bit_sub 7 5 instr = rd at hrd ⊢
  generalize bit_sub 15 5 instr = rs1
  have hs1 : ¬(tu.serial = tu.serial + 1 + 1) := by omega
  have hs2 : ¬(tu.serial = tu.serial + 1) := by omega
  have hs3 : ¬(tu.serial + 1 = tu.serial + 1 + 1) := by omega
  constructor <;> cases dis <;>
    simp [hrd, hs1, hs2, hs3, uint_t_32_zero, run, exec_lines, exec_line, exec_state.running, value.eval, value.size,
      reg_bit_widths, apply_ite exec_state.σ, uint_t_idem, Function.update, ICmpInst.holds,
      uint_of_int_int_t, uint_of_int_uint_t]

/-- The memory word and `X[rd]` after running what `__amoor_w` emits, for rd = rs2 ≠ 0. -/
theorem amoor_w_alias_run (dis : Bool) (pc instr : Nat) (tu : tu_builder) (σ : arch_state)
    (hrd : bit_sub 7 5 instr ≠ 0) (hrs : bit_sub 20 5 instr = bit_sub 7 5 instr) :
    (run σ (emitted tu (__amoor_w dis pc instr tu))).mem mem_type_e.MEM
        (uint_t 32 (σ.reg (reg_e.X (bit_sub 15 5 instr)))) = uint_t 32 (σ.mem mem_type_e.MEM (uint_t 32 (σ.reg (reg_e.X (bit_sub 15 5 instr))))) ∧
      (run σ (emitted tu (__amoor_w dis pc instr tu))).reg (reg_e.X (bit_sub 7 5 instr)) =
        uint_t 32 (σ.mem mem_type_e.MEM (uint_t 32 (σ.reg (reg_e.X (bit_sub 15 5 instr))))) := by
  simp only [__amoor_w, emitted, tu_simps, uint_t_8_bit_sub _ _ _ (by decide : 5 ≤ 8), hrs]
  generalize bit_sub 7 5 instr = rd at hrd ⊢
  generalize bit_sub 15 5 instr = rs1
  have hs1 : ¬(tu.serial = tu.serial + 1 + 1) := by omega
  have hs2 : ¬(tu.serial = tu.serial + 1) := by omega
  have hs3 : ¬(tu.serial + 1 = tu.serial + 1 + 1) := by omega
  constructor <;> cases dis <;>
    simp [hrd, hs1, hs2, hs3, uint_t_32_zero, run, exec_lines, exec_line, exec_state.running, value.eval, value.size,
      reg_bit_widths, apply_ite exec_state.σ, uint_t_idem, Function.update, ICmpInst.holds,
      uint_of_int_int_t, uint_of_int_uint_t]

/-- The memory word and `X[rd]` after running what `__amomin_w` emits, for rd = rs2 ≠ 0. -/
theorem amomin_w_alias_run (dis : Bool) (pc instr : Nat) (tu : tu_builder) (σ : arch_state)
    (hrd : bit_sub 7 5 instr ≠ 0) (hrs : bit_sub 20 5 instr = bit_sub 7 5 instr) :
    (run σ (emitted tu (__amomin_w dis pc instr tu))).mem mem_type_e.MEM
        (uint_t 32 (σ.reg (reg_e.X (bit_sub 15 5 instr)))) = uint_t 32 (σ.mem mem_type_e.MEM (uint_t 32 (σ.reg (reg_e.X (bit_sub 15 5 instr))))) ∧
      (run σ (emitted tu (__amomin_w dis pc instr tu))).reg (reg_e.X (bit_sub 7 5 instr)) =
        uint_t 32 (σ.mem mem_type_e.MEM (uint_t 32 (σ.reg (reg_e.X (bit_sub 15 5 instr))))) := by
  simp only [__amomin_w, emitted, tu_simps, uint_t_8_bit_sub _ _ _ (by decide : 5 ≤ 8), hrs]
  generalize bit_sub 7 5 instr = rd at hrd ⊢
  generalize bit_sub 15 5 instr = rs1
  have hs1 : ¬(tu.serial = tu.serial + 1 + 1) := by omega
  have hs2 : ¬(tu.serial = tu.serial + 1) := by omega
  have hs3 : ¬(tu.serial + 1 = tu.serial + 1 + 1) := by omega
  constructor <;> cases dis <;>
    simp [hrd, hs1, hs2, hs3, uint_t_32_zero, run, exec_lines, exec_line, exec_state.running, value.eval, value.size,
      reg_bit_widths, apply_ite exec_state.σ, uint_t_idem, Function.update, ICmpInst.holds,
      uint_of_int_int_t, uint_of_int_uint_t]

/-- The memory word and `X[rd]` after running what `__amomax_w` emits, for rd = rs2 ≠ 0. -/
theorem amomax_w_alias_run (dis : Bool) (pc instr : Nat) (tu : tu_builder) (σ : arch_state)
    (hrd : bit_sub 7 5 instr ≠ 0) (hrs : bit_sub 20 5 instr = bit_sub 7 5 instr) :
    (run σ (emitted tu (__amomax_w dis pc instr tu))).mem mem_type_e.MEM
        (uint_t 32 (σ.reg (reg_e.X (bit_sub 15 5 instr)))) = uint_t 32 (σ.mem mem_type_e.MEM (uint_t 32 (σ.reg (reg_e.X (bit_sub 15 5 instr))))) ∧
      (run σ (emitted tu (__amomax_w dis pc instr tu))).reg (reg_e.X (bit_sub 7 5 instr)) =
        uint_t 32 (σ.mem mem_type_e.MEM (uint_t 32 (σ.reg (reg_e.X (bit_sub 15 5 instr))))) := by
  simp only [__amomax_w, emitted, tu_simps, uint_t_8_bit_sub _ _ _ (by decide : 5 ≤ 8), hrs]
  generalize bit_sub 7 5 instr = rd at hrd ⊢
  generalize bit_sub 15 5 instr = rs1
  have hs1 : ¬(tu.serial = tu.serial + 1 + 1) := by omega
  have hs2 : ¬(tu.serial = tu.serial + 1) := by omega
  have hs3 : ¬(tu.serial + 1 = tu.serial + 1 + 1) := by omega
  constructor <;> cases dis <;>
    simp [hrd, hs1, hs2, hs3, uint_t_32_zero, run, exec_lines, exec_line, exec_state.running, value.eval, value.size,
      reg_bit_widths, apply_ite exec_state.σ, uint_t_idem, Function.update, ICmpInst.holds,
      uint_of_int_int_t, uint_of_int_uint_t]

/-- The memory word and `X[rd]` after running what `__amominu_w` emits, for rd = rs2 ≠ 0. -/
theorem amominu_w_alias_run (dis : Bool) (pc instr : Nat) (tu : tu_builder) (σ : arch_state)
    (hrd : bit_sub 7 5 instr ≠ 0) (hrs : bit_sub 20 5 instr = bit_sub 7 5 instr) :
    (run σ (emitted tu (__amominu_w dis pc instr tu))).mem mem_type_e.MEM
        (uint_t 32 (σ.reg (reg_e.X (bit_sub 15 5 instr)))) = uint_t 32 (σ.mem mem_type_e.MEM (uint_t 32 (σ.reg (reg_e.X (bit_sub 15 5 instr))))) ∧
      (run σ (emitted tu (__amominu_w dis pc instr tu))).reg (reg_e.X (bit_sub 7 5 instr)) =
        uint_t 32 (σ.mem mem_type_e.MEM (uint_t 32 (σ.reg (reg_e.X (bit_sub 15 5 instr))))) := by
  simp only [__amominu_w, emitted, tu_simps, uint_t_8_bit_sub _ _ _ (by decide : 5 ≤ 8), hrs]
  generalize bit_sub 7 5 instr = rd at hrd ⊢
  generalize bit_sub 15 5 instr = rs1
  have hs1 : ¬(tu.serial = tu.serial + 1 + 1) := by omega
  have hs2 : ¬(tu.serial = tu.serial + 1) := by omega
  have hs3 : ¬(tu.serial + 1 = tu.serial + 1 + 1) := by omega
  constructor <;> cases dis <;>
    simp [hrd, hs1, hs2, hs3, uint_t_32_zero, run, exec_lines, exec_line, exec_state.running, value.eval, value.size,
      reg_bit_widths, apply_ite exec_state.σ, uint_t_idem, Function.update, ICmpInst.holds,
      uint_of_int_int_t, uint_of_int_uint_t]

/-- The memory word and `X[rd]` after running what `__amomaxu_w` emits, for rd = rs2 ≠ 0. -/
theorem amomaxu_w_alias_run (dis : Bool) (pc instr : Nat) (tu : tu_builder) (σ : arch_state)
    (hrd : bit_sub 7 5 instr ≠ 0) (hrs : bit_sub 20 5 instr = bit_sub 7 5 instr) :
    (run σ (emitted tu (__amomaxu_w dis pc instr tu))).mem mem_type_e.MEM
        (uint_t 32 (σ.reg (reg_e.X (bit_sub 15 5 instr)))) = uint_t 32 (σ.mem mem_type_e.MEM (uint_t 32 (σ.reg (reg_e.X (bit_sub 15 5 instr))))) ∧
      (run σ (emitted tu (__amomaxu_w dis pc instr tu))).reg (reg_e.X (bit_sub 7 5 instr)) =
        uint_t 32 (σ.mem mem_type_e.MEM (uint_t 32 (σ.reg (reg_e.X (bit_sub 15 5 instr))))) := by
  simp only [__amomaxu_w, emitted, tu_simps, uint_t_8_bit_sub _ _ _ (by decide : 5 ≤ 8), hrs]
  generalize bit_sub 7 5 instr = rd at hrd ⊢
  generalize bit_sub 15 5 instr = rs1
  have hs1 : ¬(tu.serial = tu.serial + 1 + 1) := by omega
  have hs2 : ¬(tu.serial = tu.serial + 1) := by omega
  have hs3 : ¬(tu.serial + 1 = tu.serial + 1 + 1) := by omega
  constructor <;> cases dis <;>
    simp [hrd, hs1, hs2, hs3, uint_t_32_zero, run, exec_lines, exec_line, exec_state.running, value.eval, value.size,
      reg_bit_widths, apply_ite exec_state.σ, uint_t_idem, Function.update, ICmpInst.holds,
      uint_of_int_int_t, uint_of_int_uint_t]
/-! ## No store to an integer register when the rd field is 0 -/

theorem uint_t_8_zero : uint_t 8 0 = 0 := rfl

theorem __mul_rd_zero (dis : Bool) (pc instr : Nat) (tu : tu_builder)
    (hrd : bit_sub 7 5 instr = 0) :
    (emitted tu (__mul dis pc instr tu)).filter line.is_x_store = [] := by
  simp only [__mul, emitted, tu_simps, uint_t_8_bit_sub _ _ _ (by decide : 5 ≤ 8), hrd,
    uint_t_8_zero]
  cases dis <;>
    simp [line.is_x_store, List.filter_cons, apply_ite (List.filter line.is_x_store),
      uint_t_8_zero]

theorem __mulh_rd_zero (dis : Bool) (pc instr : Nat) (tu : tu_builder)
    (hrd : bit_sub 7 5 instr = 0) :
    (emitted tu (__mulh dis pc instr tu)).filter line.is_x_store = [] := by
  simp only [__mulh, emitted, tu_simps, uint_t_8_bit_sub _ _ _ (by decide : 5 ≤ 8), hrd,
    uint_t_8_zero]
  cases dis <;>
    simp [line.is_x_store, List.filter_cons, apply_ite (List.filter line.is_x_store),
      uint_t_8_zero]

theorem __mulhsu_rd_zero (dis : Bool) (pc instr : Nat) (tu : tu_builder)
    (hrd : bit_sub 7 5 instr = 0) :
    (emitted tu (__mulhsu dis pc instr tu)).filter line.is_x_store = [] := by
  simp only [__mulhsu, emitted, tu_simps, uint_t_8_bit_sub _ _ _ (by decide : 5 ≤ 8), hrd,
    uint_t_8_zero]
  cases dis <;>
    simp [line.is_x_store, List.filter_cons, apply_ite (List.filter line.is_x_store),
      uint_t_8_zero]

theorem __mulhu_rd_zero (dis : Bool) (pc instr : Nat) (tu : tu_builder)
    (hrd : bit_sub 7 5 instr = 0) :
    (emitted tu (__mulhu dis pc instr tu)).filter line.is_x_store = [] := by
  simp only [__mulhu, emitted, tu_simps, uint_t_8_bit_sub _ _ _ (by decide : 5 ≤ 8), hrd,
    uint_t_8_zero]
  cases dis <;>
    simp [line.is_x_store, List.filter_cons, apply_ite (List.filter line.is_x_store),
      uint_t_8_zero]

theorem __div_rd_zero (dis : Bool) (pc instr : Nat) (tu : tu_builder)
    (hrd : bit_sub 7 5 instr = 0) :
    (emitted tu (__div dis pc instr tu)).filter line.is_x_store = [] := by
  simp only [__div, emitted, tu_simps, uint_t_8_bit_sub _ _ _ (by decide : 5 ≤ 8), hrd,
    uint_t_8_zero]
  cases dis <;>
    simp [line.is_x_store, List.filter_cons, apply_ite (List.filter line.is_x_store),
      uint_t_8_zero]

theorem __divu_rd_zero (dis : Bool) (pc instr : Nat) (tu : tu_builder)
    (hrd : bit_sub 7 5 instr = 0) :
    (emitted tu (__divu dis pc instr tu)).filter line.is_x_store = [] := by
  simp only [__divu, emitted, tu_simps, uint_t_8_bit_sub _ _ _ (by decide : 5 ≤ 8), hrd,
    uint_t_8_zero]
  cases dis <;>
    simp [line.is_x_store, List.filter_cons, apply_ite (List.filter line.is_x_store),
      uint_t_8_zero]

theorem __rem_rd_zero (dis : Bool) (pc instr : Nat) (tu : tu_builder)
    (hrd : bit_sub 7 5 instr = 0) :
    (emitted tu (__rem dis pc instr tu)).filter line.is_x_store = [] := by
  simp only [__rem, emitted, tu_simps, uint_t_8_bit_sub _ _ _ (by decide : 5 ≤ 8), hrd,
    uint_t_8_zero]
  cases dis <;>
    simp [line.is_x_store, List.filter_cons, apply_ite (List.filter line.is_x_store),
      uint_t_8_zero]

theorem __remu_rd_zero (dis : Bool) (pc instr : Nat) (tu : tu_builder)
    (hrd : bit_sub 7 5 instr = 0) :
    (emitted tu (__remu dis pc instr tu)).filter line.is_x_store = [] := by
  simp only [__remu, emitted, tu_simps, uint_t_8_bit_sub _ _ _ (by decide : 5 ≤ 8), hrd,
    uint_t_8_zero]
  cases dis <;>
    simp [line.is_x_store, List.filter_cons, apply_ite (List.filter line.is_x_store),
      uint_t_8_zero]

theorem __lr_w_rd_zero (dis : Bool) (pc instr : Nat) (tu : tu_builder)
    (hrd : bit_sub 7 5 instr = 0) :
    (emitted tu (__lr_w dis pc instr tu)).filter line.is_x_store = [] := by
  simp only [__lr_w, emitted, tu_simps, uint_t_8_bit_sub _ _ _ (by decide : 5 ≤ 8), hrd,
    uint_t_8_zero]
  cases dis <;>
    simp [line.is_x_store, List.filter_cons, apply_ite (List.filter line.is_x_store),
      uint_t_8_zero]

theorem __sc_w_rd_zero (dis : Bool) (pc instr : Nat) (tu : tu_builder)
    (hrd : bit_sub 7 5 instr = 0) :
    (emitted tu (__sc_w dis pc instr tu)).filter line.is_x_store = [] := by
  simp only [__sc_w, emitted, tu_simps, uint_t_8_bit_sub _ _ _ (by decide : 5 ≤ 8), hrd,
    uint_t_8_zero]
  cases dis <;>
    simp [line.is_x_store, List.filter_cons, apply_ite (List.filter line.is_x_store),
      uint_t_8_zero]

theorem __amoswap_w_rd_zero (dis : Bool) (pc instr : Nat) (tu : tu_builder)
    (hrd : bit_sub 7 5 instr = 0) :
    (emitted tu (__amoswap_w dis pc instr tu)).filter line.is_x_store = [] := by
  simp only [__amoswap_w, emitted, tu_simps, uint_t_8_bit_sub _ _ _ (by decide : 5 ≤ 8), hrd,
    uint_t_8_zero]
  cases dis <;>
    simp [line.is_x_store, List.filter_cons, apply_ite (List.filter line.is_x_store),
      uint_t_8_zero]

theorem __amoadd_w_rd_zero (dis : Bool) (pc instr : Nat) (tu : tu_builder)
    (hrd : bit_sub 7 5 instr = 0) :
    (emitted tu (__amoadd_w dis pc instr tu)).filter line.is_x_store = [] := by
  simp only [__amoadd_w, emitted, tu_simps, uint_t_8_bit_sub _ _ _ (by decide : 5 ≤ 8), hrd,
    uint_t_8_zero]
  cases dis <;>
    simp [line.is_x_store, List.filter_cons, apply_ite (List.filter line.is_x_store),
      uint_t_8_zero]

theorem __amoxor_w_rd_zero (dis : Bool) (pc instr : Nat) (tu : tu_builder)
    (hrd : bit_sub 7 5 instr = 0) :
    (emitted tu (__amoxor_w dis pc instr tu)).filter line.is_x_store = [] := by
  simp only [__amoxor_w, emitted, tu_simps, uint_t_8_bit_sub _ _ _ (by decide : 5 ≤ 8), hrd,
    uint_t_8_zero]
  cases dis <;>
    simp [line.is_x_store, List.filter_cons, apply_ite (List.filter line.is_x_store),
      uint_t_8_zero]

theorem __amoand_w_rd_zero (dis : Bool) (pc instr : Nat) (tu : tu_builder)
    (hrd : bit_sub 7 5 instr = 0) :
    (emitted tu (__amoand_w dis pc instr tu)).filter line.is_x_store = [] := by
  simp only [__amoand_w, emitted, tu_simps, uint_t_8_bit_sub _ _ _ (by decide : 5 ≤ 8), hrd,
    uint_t_8_zero]
  cases dis <;>
    simp [line.is_x_store, List.filter_cons, apply_ite (List.filter line.is_x_store),
      uint_t_8_zero]

theorem __amoor_w_rd_zero (dis : Bool) (pc instr : Nat) (tu : tu_builder)
    (hrd : bit_sub 7 5 instr = 0) :
    (emitted tu (__amoor_w dis pc instr tu)).filter line.is_x_store = [] := by
  simp only [__amoor_w, emitted, tu_simps, uint_t_8_bit_sub _ _ _ (by decide : 5 ≤ 8), hrd,
    uint_t_8_zero]
  cases dis <;>
    simp [line.is_x_store, List.filter_cons, apply_ite (List.filter line.is_x_store),
      uint_t_8_zero]

theorem __amomin_w_rd_zero (dis : Bool) (pc instr : Nat) (tu : tu_builder)
    (hrd : bit_sub 7 5 instr = 0) :
    (emitted tu (__amomin_w dis pc instr tu)).filter line.is_x_store = [] := by
  simp only [__amomin_w, emitted, tu_simps, uint_t_8_bit_sub _ _ _ (by decide : 5 ≤ 8), hrd,
    uint_t_8_zero]
  cases dis <;>
    simp [line.is_x_store, List.filter_cons, apply_ite (List.filter line.is_x_store),
      uint_t_8_zero]

theorem __amomax_w_rd_zero (dis : Bool) (pc instr : Nat) (tu : tu_builder)
    (hrd : bit_sub 7 5 instr = 0) :
    (emitted tu (__amomax_w dis pc instr tu)).filter line.is_x_store = [] := by
  simp only [__amomax_w, emitted, tu_simps, uint_t_8_bit_sub _ _ _ (by decide : 5 ≤ 8), hrd,
    uint_t_8_zero]
  cases dis <;>
    simp [line.is_x_store, List.filter_cons, apply_ite (List.filter line.is_x_store),
      uint_t_8_zero]

theorem __amominu_w_rd_zero (dis : Bool) (pc instr : Nat) (tu : tu_builder)
    (hrd : bit_sub 7 5 instr = 0) :
    (emitted tu (__amominu_w dis pc instr tu)).filter line.is_x_store = [] := by
  simp only [__amominu_w, emitted, tu_simps, uint_t_8_bit_sub _ _ _ (by decide : 5 ≤ 8), hrd,
    uint_t_8_zero]
  cases dis <;>
    simp [line.is_x_store, List.filter_cons, apply_ite (List.filter line.is_x_store),
      uint_t_8_zero]

theorem __amomaxu_w_rd_zero (dis : Bool) (pc instr : Nat) (tu : tu_builder)
    (hrd : bit_sub 7 5 instr = 0) :
    (emitted tu (__amomaxu_w dis pc instr tu)).filter line.is_x_store = [] := by
  simp only [__amomaxu_w, emitted, tu_simps, uint_t_8_bit_sub _ _ _ (by decide : 5 ≤ 8), hrd,
    uint_t_8_zero]
  cases dis <;>
    simp [line.is_x_store, List.filter_cons, apply_ite (List.filter line.is_x_store),
      uint_t_8_zero]

theorem __lui_rd_zero (dis : Bool) (pc instr : Nat) (tu : tu_builder)
    (hrd : bit_sub 7 5 instr = 0) :
    (emitted tu (__lui dis pc instr tu)).filter line.is_x_store = [] := by
  simp only [__lui, emitted, tu_simps, uint_t_8_bit_sub _ _ _ (by decide : 5 ≤ 8), hrd,
    uint_t_8_zero]
  cases dis <;>
    simp [line.is_x_store, List.filter_cons, apply_ite (List.filter line.is_x_store),
      uint_t_8_zero]

theorem __auipc_rd_zero (dis : Bool) (pc instr : Nat) (tu : tu_builder)
    (hrd : bit_sub 7 5 instr = 0) :
    (emitted tu (__auipc dis pc instr tu)).filter line.is_x_store = [] := by
  simp only [__auipc, emitted, tu_simps, uint_t_8_bit_sub _ _ _ (by decide : 5 ≤ 8), hrd,
    uint_t_8_zero]
  cases dis <;>
    simp [line.is_x_store, List.filter_cons, apply_ite (List.filter line.is_x_store),
      uint_t_8_zero]

theorem __jal_rd_zero (dis : Bool) (pc instr : Nat) (tu : tu_builder)
    (hrd : bit_sub 7 5 instr = 0) :
    (emitted tu (__jal dis pc instr tu)).filter line.is_x_store = [] := by
  simp only [__jal, emitted, tu_simps, uint_t_8_bit_sub _ _ _ (by decide : 5 ≤ 8), hrd,
    uint_t_8_zero]
  cases dis <;>
    simp [line.is_x_store, List.filter_cons, apply_ite (List.filter line.is_x_store),
      uint_t_8_zero]

theorem __beq_rd_zero (dis : Bool) (pc instr : Nat) (tu : tu_builder)
    (_hrd : bit_sub 7 5 instr = 0) :
    (emitted tu (__beq dis pc instr tu)).filter line.is_x_store = [] := by
  simp only [__beq, emitted, tu_simps, uint_t_8_bit_sub _ _ _ (by decide : 5 ≤ 8),
    uint_t_8_zero]
  cases dis <;>
    simp [line.is_x_store, List.filter_cons, apply_ite (List.filter line.is_x_store),
      uint_t_8_zero]

theorem __bne_rd_zero (dis : Bool) (pc instr : Nat) (tu : tu_builder)
    (_hrd : bit_sub 7 5 instr = 0) :
    (emitted tu (__bne dis pc instr tu)).filter line.is_x_store = [] := by
  simp only [__bne, emitted, tu_simps, uint_t_8_bit_sub _ _ _ (by decide : 5 ≤ 8),
    uint_t_8_zero]
  cases dis <;>
    simp [line.is_x_store, List.filter_cons, apply_ite (List.filter line.is_x_store),
      uint_t_8_zero]

theorem __blt_rd_zero (dis : Bool) (pc instr : Nat) (tu : tu_builder)
    (_hrd : bit_sub 7 5 instr = 0) :
    (emitted tu (__blt dis pc instr tu)).filter line.is_x_store = [] := by
  simp only [__blt, emitted, tu_simps, uint_t_8_bit_sub _ _ _ (by decide : 5 ≤ 8),
    uint_t_8_zero]
  cases dis <;>
    simp [line.is_x_store, List.filter_cons, apply_ite (List.filter line.is_x_store),
      uint_t_8_zero]

theorem __bge_rd_zero (dis : Bool) (pc instr : Nat) (tu : tu_builder)
    (_hrd : bit_sub 7 5 instr = 0) :
    (emitted tu (__bge dis pc instr tu)).filter line.is_x_store = [] := by
  simp only [__bge, emitted, tu_simps, uint_t_8_bit_sub _ _ _ (by decide : 5 ≤ 8),
    uint_t_8_zero]
  cases dis <;>
    simp [line.is_x_store, List.filter_cons, apply_ite (List.filter line.is_x_store),
      uint_t_8_zero]

theorem __bltu_rd_zero (dis : Bool) (pc instr : Nat) (tu : tu_builder)
    (_hrd : bit_sub 7 5 instr = 0) :
    (emitted tu (__bltu dis pc instr tu)).filter line.is_x_store = [] := by
  simp only [__bltu, emitted, tu_simps, uint_t_8_bit_sub _ _ _ (by decide : 5 ≤ 8),
    uint_t_8_zero]
  cases dis <;>
    simp [line.is_x_store, List.filter_cons, apply_ite (List.filter line.is_x_store),
      uint_t_8_zero]

theorem __bgeu_rd_zero (dis : Bool) (pc instr : Nat) (tu : tu_builder)
    (_hrd : bit_sub 7 5 instr = 0) :
    (emitted tu (__bgeu dis pc instr tu)).filter line.is_x_store = [] := by
  simp only [__bgeu, emitted, tu_simps, uint_t_8_bit_sub _ _ _ (by decide : 5 ≤ 8),
    uint_t_8_zero]
  cases dis <;>
    simp [line.is_x_store, List.filter_cons, apply_ite (List.filter line.is_x_store),
      uint_t_8_zero]

theorem __lb_rd_zero (dis : Bool) (pc instr : Nat) (tu : tu_builder)
    (hrd : bit_sub 7 5 instr = 0) :
    (emitted tu (__lb dis pc instr tu)).filter line.is_x_store = [] := by
  simp only [__lb, emitted, tu_simps, uint_t_8_bit_sub _ _ _ (by decide : 5 ≤ 8), hrd,
    uint_t_8_zero]
  cases dis <;>
    simp [line.is_x_store, List.filter_cons, apply_ite (List.filter line.is_x_store),
      uint_t_8_zero]

theorem __lh_rd_zero (dis : Bool) (pc instr : Nat) (tu : tu_builder)
    (hrd : bit_sub 7 5 instr = 0) :
    (emitted tu (__lh dis pc instr tu)).filter line.is_x_store = [] := by
  simp only [__lh, emitted, tu_simps, uint_t_8_bit_sub _ _ _ (by decide : 5 ≤ 8), hrd,
    uint_t_8_zero]
  cases dis <;>
    simp [line.is_x_store, List.filter_cons, apply_ite (List.filter line.is_x_store),
      uint_t_8_zero]

theorem __lw_rd_zero (dis : Bool) (pc instr : Nat) (tu : tu_builder)
    (hrd : bit_sub 7 5 instr = 0) :
    (emitted tu (__lw dis pc instr tu)).filter line.is_x_store = [] := by
  simp only [__lw, emitted, tu_simps, uint_t_8_bit_sub _ _ _ (by decide : 5 ≤ 8), hrd,
    uint_t_8_zero]
  cases dis <;>
    simp [line.is_x_store, List.filter_cons, apply_ite (List.filter line.is_x_store),
      uint_t_8_zero]

theorem __lbu_rd_zero (dis : Bool) (pc instr : Nat) (tu : tu_builder)
    (hrd : bit_sub 7 5 instr = 0) :
    (emitted tu (__lbu dis pc instr tu)).filter line.is_x_store = [] := by
  simp only [__lbu, emitted, tu_simps, uint_t_8_bit_sub _ _ _ (by decide : 5 ≤ 8), hrd,
    uint_t_8_zero]
  cases dis <;>
    simp [line.is_x_store, List.filter_cons, apply_ite (List.filter line.is_x_store),
      uint_t_8_zero]

theorem __lhu_rd_zero (dis : Bool) (pc instr : Nat) (tu : tu_builder)
    (hrd : bit_sub 7 5 instr = 0) :
    (emitted tu (__lhu dis pc instr tu)).filter line.is_x_store = [] := by
  simp only [__lhu, emitted, tu_simps, uint_t_8_bit_sub _ _ _ (by decide : 5 ≤ 8), hrd,
    uint_t_8_zero]
  cases dis <;>
    simp [line.is_x_store, List.filter_cons, apply_ite (List.filter line.is_x_store),
      uint_t_8_zero]

theorem __sb_rd_zero (dis : Bool) (pc instr : Nat) (tu : tu_builder)
    (hrd : bit_sub 7 5 instr = 0) :
    (emitted tu (__sb dis pc instr tu)).filter line.is_x_store = [] := by
  simp only [__sb, emitted, tu_simps, uint_t_8_bit_sub _ _ _ (by decide : 5 ≤ 8), hrd,
    uint_t_8_zero]
  cases dis <;>
    simp [line.is_x_store, List.filter_cons, apply_ite (List.filter line.is_x_store),
      uint_t_8_zero]

theorem __sh_rd_zero (dis : Bool) (pc instr : Nat) (tu : tu_builder)
    (hrd : bit_sub 7 5 instr = 0) :
    (emitted tu (__sh dis pc instr tu)).filter line.is_x_store = [] := by
  simp only [__sh, emitted, tu_simps, uint_t_8_bit_sub _ _ _ (by decide : 5 ≤ 8), hrd,
    uint_t_8_zero]
  cases dis <;>
    simp [line.is_x_store, List.filter_cons, apply_ite (List.filter line.is_x_store),
      uint_t_8_zero]

theorem __sw_rd_zero (dis : Bool) (pc instr : Nat) (tu : tu_builder)
    (hrd : bit_sub 7 5 instr = 0) :
    (emitted tu (__sw dis pc instr tu)).filter line.is_x_store = [] := by
  simp only [__sw, emitted, tu_simps, uint_t_8_bit_sub _ _ _ (by decide : 5 ≤ 8), hrd,
    uint_t_8_zero]
  cases dis <;>
    simp [line.is_x_store, List.filter_cons, apply_ite (List.filter line.is_x_store),
      uint_t_8_zero]

theorem __addi_rd_zero (dis : Bool) (pc instr : Nat) (tu : tu_builder)
    (hrd : bit_sub 7 5 instr = 0) :
    (emitted tu (__addi dis pc instr tu)).filter line.is_x_store = [] := by
  simp only [__addi, emitted, tu_simps, uint_t_8_bit_sub _ _ _ (by decide : 5 ≤ 8), hrd,
    uint_t_8_zero]
  cases dis <;>
    simp [line.is_x_store, List.filter_cons, apply_ite (List.filter line.is_x_store),
      uint_t_8_zero]

theorem __slti_rd_zero (dis : Bool) (pc instr : Nat) (tu : tu_builder)
    (hrd : bit_sub 7 5 instr = 0) :
    (emitted tu (__slti dis pc instr tu)).filter line.is_x_store = [] := by
  simp only [__slti, emitted, tu_simps, uint_t_8_bit_sub _ _ _ (by decide : 5 ≤ 8), hrd,
    uint_t_8_zero]
  cases dis <;>
    simp [line.is_x_store, List.filter_cons, apply_ite (List.filter line.is_x_store),
      uint_t_8_zero]

theorem __sltiu_rd_zero (dis : Bool) (pc instr : Nat) (tu : tu_builder)
    (hrd : bit_sub 7 5 instr = 0) :
    (emitted tu (__sltiu dis pc instr tu)).filter line.is_x_store = [] := by
  simp only [__sltiu, emitted, tu_simps, uint_t_8_bit_sub _ _ _ (by decide : 5 ≤ 8), hrd,
    uint_t_8_zero]
  cases dis <;>
    simp [line.is_x_store, List.filter_cons, apply_ite (List.filter line.is_x_store),
      uint_t_8_zero]

theorem __xori_rd_zero (dis : Bool) (pc instr : Nat) (tu : tu_builder)
    (hrd : bit_sub 7 5 instr = 0) :
    (emitted tu (__xori dis pc instr tu)).filter line.is_x_store = [] := by
  simp only [__xori, emitted, tu_simps, uint_t_8_bit_sub _ _ _ (by decide : 5 ≤ 8), hrd,
    uint_t_8_zero]
  cases dis <;>
    simp [line.is_x_store, List.filter_cons, apply_ite (List.filter line.is_x_store),
      uint_t_8_zero]

theorem __ori_rd_zero (dis : Bool) (pc instr : Nat) (tu : tu_builder)
    (hrd : bit_sub 7 5 instr = 0) :
    (emitted tu (__ori dis pc instr tu)).filter line.is_x_store = [] := by
  simp only [__ori, emitted, tu_simps, uint_t_8_bit_sub _ _ _ (by decide : 5 ≤ 8), hrd,
    uint_t_8_zero]
  cases dis <;>
    simp [line.is_x_store, List.filter_cons, apply_ite (List.filter line.is_x_store),
      uint_t_8_zero]

theorem __andi_rd_zero (dis : Bool) (pc instr : Nat) (tu : tu_builder)
    (hrd : bit_sub 7 5 instr = 0) :
    (emitted tu (__andi dis pc instr tu)).filter line.is_x_store = [] := by
  simp only [__andi, emitted, tu_simps, uint_t_8_bit_sub _ _ _ (by decide : 5 ≤ 8), hrd,
    uint_t_8_zero]
  cases dis <;>
    simp [line.is_x_store, List.filter_cons, apply_ite (List.filter line.is_x_store),
      uint_t_8_zero]

theorem __slli_rd_zero (dis : Bool) (pc instr : Nat) (tu : tu_builder)
    (hrd : bit_sub 7 5 instr = 0) :
    (emitted tu (__slli dis pc instr tu)).filter line.is_x_store = [] := by
  simp only [__slli, emitted, tu_simps, uint_t_8_bit_sub _ _ _ (by decide : 5 ≤ 8), hrd,
    uint_t_8_zero]
  cases dis <;>
    simp [line.is_x_store, List.filter_cons, apply_ite (List.filter line.is_x_store),
      uint_t_8_zero]

theorem __srli_rd_zero (dis : Bool) (pc instr : Nat) (tu : tu_builder)
    (hrd : bit_sub 7 5 instr = 0) :
    (emitted tu (__srli dis pc instr tu)).filter line.is_x_store = [] := by
  simp only [__srli, emitted, tu_simps, uint_t_8_bit_sub _ _ _ (by decide : 5 ≤ 8), hrd,
    uint_t_8_zero]
  cases dis <;>
    simp [line.is_x_store, List.filter_cons, apply_ite (List.filter line.is_x_store),
      uint_t_8_zero]

theorem __srai_rd_zero (dis : Bool) (pc instr : Nat) (tu : tu_builder)
    (hrd : bit_sub 7 5 instr = 0) :
    (emitted tu (__srai dis pc instr tu)).filter line.is_x_store = [] := by
  simp only [__srai, emitted, tu_simps, uint_t_8_bit_sub _ _ _ (by decide : 5 ≤ 8), hrd,
    uint_t_8_zero]
  cases dis <;>
    simp [line.is_x_store, List.filter_cons, apply_ite (List.filter line.is_x_store),
      uint_t_8_zero]

theorem __add_rd_zero (dis : Bool) (pc instr : Nat) (tu : tu_builder)
    (hrd : bit_sub 7 5 instr = 0) :
    (emitted tu (__add dis pc instr tu)).filter line.is_x_store = [] := by
  simp only [__add, emitted, tu_simps, uint_t_8_bit_sub _ _ _ (by decide : 5 ≤ 8), hrd,
    uint_t_8_zero]
  cases dis <;>
    simp [line.is_x_store, List.filter_cons, apply_ite (List.filter line.is_x_store),
      uint_t_8_zero]

theorem __sub_rd_zero (dis : Bool) (pc instr : Nat) (tu : tu_builder)
    (hrd : bit_sub 7 5 instr = 0) :
    (emitted tu (__sub dis pc instr tu)).filter line.is_x_store = [] := by
  simp only [__sub, emitted, tu_simps, uint_t_8_bit_sub _ _ _ (by decide : 5 ≤ 8), hrd,
    uint_t_8_zero]
  cases dis <;>
    simp [line.is_x_store, List.filter_cons, apply_ite (List.filter line.is_x_store),
      uint_t_8_zero]

theorem __sll_rd_zero (dis : Bool) (pc instr : Nat) (tu : tu_builder)
    (hrd : bit_sub 7 5 instr = 0) :
    (emitted tu (__sll dis pc instr tu)).filter line.is_x_store = [] := by
  simp only [__sll, emitted, tu_simps, uint_t_8_bit_sub _ _ _ (by decide : 5 ≤ 8), hrd,
    uint_t_8_zero]
  cases dis <;>
    simp [line.is_x_store, List.filter_cons, apply_ite (List.filter line.is_x_store),
      uint_t_8_zero]

theorem __slt_rd_zero (dis : Bool) (pc instr : Nat) (tu : tu_builder)
    (hrd : bit_sub 7 5 instr = 0) :
    (emitted tu (__slt dis pc instr tu)).filter line.is_x_store = [] := by
  simp only [__slt, emitted, tu_simps, uint_t_8_bit_sub _ _ _ (by decide : 5 ≤ 8), hrd,
    uint_t_8_zero]
  cases dis <;>
    simp [line.is_x_store, List.filter_cons, apply_ite (List.filter line.is_x_store),
      uint_t_8_zero]

theorem __sltu_rd_zero (dis : Bool) (pc instr : Nat) (tu : tu_builder)
    (hrd : bit_sub 7 5 instr = 0) :
    (emitted tu (__sltu dis pc instr tu)).filter line.is_x_store = [] := by
  simp only [__sltu, emitted, tu_simps, uint_t_8_bit_sub _ _ _ (by decide : 5 ≤ 8), hrd,
    uint_t_8_zero]
  cases dis <;>
    simp [line.is_x_store, List.filter_cons, apply_ite (List.filter line.is_x_store),
      uint_t_8_zero]

theorem __xor_rd_zero (dis : Bool) (pc instr : Nat) (tu : tu_builder)
    (hrd : bit_sub 7 5 instr = 0) :
    (emitted tu (__xor dis pc instr tu)).filter line.is_x_store = [] := by
  simp only [__xor, emitted, tu_simps, uint_t_8_bit_sub _ _ _ (by decide : 5 ≤ 8), hrd,
    uint_t_8_zero]
  cases dis <;>
    simp [line.is_x_store, List.filter_cons, apply_ite (List.filter line.is_x_store),
      uint_t_8_zero]

theorem __srl_rd_zero (dis : Bool) (pc instr : Nat) (tu : tu_builder)
    (hrd : bit_sub 7 5 instr = 0) :
    (emitted tu (__srl dis pc instr tu)).filter line.is_x_store = [] := by
  simp only [__srl, emitted, tu_simps, uint_t_8_bit_sub _ _ _ (by decide : 5 ≤ 8), hrd,
    uint_t_8_zero]
  cases dis <;>
    simp [line.is_x_store, List.filter_cons, apply_ite (List.filter line.is_x_store),
      uint_t_8_zero]

theorem __sra_rd_zero (dis : Bool) (pc instr : Nat) (tu : tu_builder)
    (hrd : bit_sub 7 5 instr = 0) :
    (emitted tu (__sra dis pc instr tu)).filter line.is_x_store = [] := by
  simp only [__sra, emitted, tu_simps, uint_t_8_bit_sub _ _ _ (by decide : 5 ≤ 8), hrd,
    uint_t_8_zero]
  cases dis <;>
    simp [line.is_x_store, List.filter_cons, apply_ite (List.filter line.is_x_store),
      uint_t_8_zero]

theorem __or_rd_zero (dis : Bool) (pc instr : Nat) (tu : tu_builder)
    (hrd : bit_sub 7 5 instr = 0) :
    (emitted tu (__or dis pc instr tu)).filter line.is_x_store = [] := by
  simp only [__or, emitted, tu_simps, uint_t_8_bit_sub _ _ _ (by decide : 5 ≤ 8), hrd,
    uint_t_8_zero]
  cases dis <;>
    simp [line.is_x_store, List.filter_cons, apply_ite (List.filter line.is_x_store),
      uint_t_8_zero]

theorem __and_rd_zero (dis : Bool) (pc instr : Nat) (tu : tu_builder)
    (hrd : bit_sub 7 5 instr = 0) :
    (emitted tu (__and dis pc instr tu)).filter line.is_x_store = [] := by
  simp only [__and, emitted, tu_simps, uint_t_8_bit_sub _ _ _ (by decide : 5 ≤ 8), hrd,
    uint_t_8_zero]
  cases dis <;>
    simp [line.is_x_store, List.filter_cons, apply_ite (List.filter line.is_x_store),
      uint_t_8_zero]

theorem __fence_rd_zero (dis : Bool) (pc instr : Nat) (tu : tu_builder)
    (_hrd : bit_sub 7 5 instr = 0) :
    (emitted tu (__fence dis pc instr tu)).filter line.is_x_store = [] := by
  simp only [__fence, emitted, tu_simps, uint_t_8_bit_sub _ _ _ (by decide : 5 ≤ 8),
    uint_t_8_zero]
  cases dis <;>
    simp [line.is_x_store, List.filter_cons, apply_ite (List.filter line.is_x_store),
      uint_t_8_zero]

theorem __fence_i_rd_zero (dis : Bool) (pc instr : Nat) (tu : tu_builder)
    (_hrd : bit_sub 7 5 instr = 0) :
    (emitted tu (__fence_i dis pc instr tu)).filter line.is_x_store = [] := by
  simp only [__fence_i, emitted, tu_simps, uint_t_8_bit_sub _ _ _ (by decide : 5 ≤ 8),
    uint_t_8_zero]
  cases dis <;>
    simp [line.is_x_store, List.filter_cons, apply_ite (List.filter line.is_x_store),
      uint_t_8_zero]

theorem __ecall_rd_zero (dis : Bool) (pc instr : Nat) (tu : tu_builder)
    (_hrd : bit_sub 7 5 instr = 0) :
    (emitted tu (__ecall dis pc instr tu)).filter line.is_x_store = [] := by
  simp only [__ecall, emitted, tu_simps, uint_t_8_bit_sub _ _ _ (by decide : 5 ≤ 8),
    uint_t_8_zero]
  cases dis <;>
    simp [line.is_x_store, List.filter_cons, apply_ite (List.filter line.is_x_store),
      uint_t_8_zero]

theorem __ebreak_rd_zero (dis : Bool) (pc instr : Nat) (tu : tu_builder)
    (_hrd : bit_sub 7 5 instr = 0) :
    (emitted tu (__ebreak dis pc instr tu)).filter line.is_x_store = [] := by
  simp only [__ebreak, emitted, tu_simps, uint_t_8_bit_sub _ _ _ (by decide : 5 ≤ 8),
    uint_t_8_zero]
  cases dis <;>
    simp [line.is_x_store, List.filter_cons, apply_ite (List.filter line.is_x_store),
      uint_t_8_zero]

theorem __uret_rd_zero (dis : Bool) (pc instr : Nat) (tu : tu_builder)
    (_hrd : bit_sub 7 5 instr = 0) :
    (emitted tu (__uret dis pc instr tu)).filter line.is_x_store = [] := by
  simp only [__uret, emitted, tu_simps, uint_t_8_bit_sub _ _ _ (by decide : 5 ≤ 8),
    uint_t_8_zero]
  cases dis <;>
    simp [line.is_x_store, List.filter_cons, apply_ite (List.filter line.is_x_store),
      uint_t_8_zero]

theorem __sret_rd_zero (dis : Bool) (pc instr : Nat) (tu : tu_builder)
    (_hrd : bit_sub 7 5 instr = 0) :
    (emitted tu (__sret dis pc instr tu)).filter line.is_x_store = [] := by
  simp only [__sret, emitted, tu_simps, uint_t_8_bit_sub _ _ _ (by decide : 5 ≤ 8),
    uint_t_8_zero]
  cases dis <;>
    simp [line.is_x_store, List.filter_cons, apply_ite (List.filter line.is_x_store),
      uint_t_8_zero]

theorem __mret_rd_zero (dis : Bool) (pc instr : Nat) (tu : tu_builder)
    (_hrd : bit_sub 7 5 instr = 0) :
    (emitted tu (__mret dis pc instr tu)).filter line.is_x_store = [] := by
  simp only [__mret, emitted, tu_simps, uint_t_8_bit_sub _ _ _ (by decide : 5 ≤ 8),
    uint_t_8_zero]
  cases dis <;>
    simp [line.is_x_store, List.filter_cons, apply_ite (List.filter line.is_x_store),
      uint_t_8_zero]

theorem __wfi_rd_zero (dis : Bool) (pc instr : Nat) (tu : tu_builder)
    (_hrd : bit_sub 7 5 instr = 0) :
    (emitted tu (__wfi dis pc instr tu)).filter line.is_x_store = [] := by
  simp only [__wfi, emitted, tu_simps, uint_t_8_bit_sub _ _ _ (by decide : 5 ≤ 8),
    uint_t_8_zero]
  cases dis <;>
    simp [line.is_x_store, List.filter_cons, apply_ite (List.filter line.is_x_store),
      uint_t_8_zero]

theorem __sfence_vma_rd_zero (dis : Bool) (pc instr : Nat) (tu : tu_builder)
    (_hrd : bit_sub 7 5 instr = 0) :
    (emitted tu (__sfence_vma dis pc instr tu)).filter line.is_x_store = [] := by
  simp only [__sfence_vma, emitted, tu_simps, uint_t_8_bit_sub _ _ _ (by decide : 5 ≤ 8),
    uint_t_8_zero]
  cases dis <;>
    simp [line.is_x_store, List.filter_cons, apply_ite (List.filter line.is_x_store),
      uint_t_8_zero]

theorem __csrrw_rd_zero (dis : Bool) (pc instr : Nat) (tu : tu_builder)
    (hrd : bit_sub 7 5 instr = 0) :
    (emitted tu (__csrrw dis pc instr tu)).filter line.is_x_store = [] := by
  simp only [__csrrw, emitted, tu_simps, uint_t_8_bit_sub _ _ _ (by decide : 5 ≤ 8), hrd,
    uint_t_8_zero]
  cases dis <;>
    simp [line.is_x_store, List.filter_cons, apply_ite (List.filter line.is_x_store),
      uint_t_8_zero]

theorem __csrrs_rd_zero (dis : Bool) (pc instr : Nat) (tu : tu_builder)
    (hrd : bit_sub 7 5 instr = 0) :
    (emitted tu (__csrrs dis pc instr tu)).filter line.is_x_store = [] := by
  simp only [__csrrs, emitted, tu_simps, uint_t_8_bit_sub _ _ _ (by decide : 5 ≤ 8), hrd,
    uint_t_8_zero]
  cases dis <;>
    simp [line.is_x_store, List.filter_cons, apply_ite (List.filter line.is_x_store),
      uint_t_8_zero]

theorem __csrrc_rd_zero (dis : Bool) (pc instr : Nat) (tu : tu_builder)
    (hrd : bit_sub 7 5 instr = 0) :
    (emitted tu (__csrrc dis pc instr tu)).filter line.is_x_store = [] := by
  simp only [__csrrc, emitted, tu_simps, uint_t_8_bit_sub _ _ _ (by decide : 5 ≤ 8), hrd,
    uint_t_8_zero]
  cases dis <;>
    simp [line.is_x_store, List.filter_cons, apply_ite (List.filter line.is_x_store),
      uint_t_8_zero]

theorem __csrrwi_rd_zero (dis : Bool) (pc instr : Nat) (tu : tu_builder)
    (hrd : bit_sub 7 5 instr = 0) :
    (emitted tu (__csrrwi dis pc instr tu)).filter line.is_x_store = [] := by
  simp only [__csrrwi, emitted, tu_simps, uint_t_8_bit_sub _ _ _ (by decide : 5 ≤ 8), hrd,
    uint_t_8_zero]
  cases dis <;>
    simp [line.is_x_store, List.filter_cons, apply_ite (List.filter line.is_x_store),
      uint_t_8_zero]

theorem __csrrsi_rd_zero (dis : Bool) (pc instr : Nat) (tu : tu_builder)
    (hrd : bit_sub 7 5 instr = 0) :
    (emitted tu (__csrrsi dis pc instr tu)).filter line.is_x_store = [] := by
  simp only [__csrrsi, emitted, tu_simps, uint_t_8_bit_sub _ _ _ (by decide : 5 ≤ 8), hrd,
    uint_t_8_zero]
  cases dis <;>
    simp [line.is_x_store, List.filter_cons, apply_ite (List.filter line.is_x_store),
      uint_t_8_zero]

theorem __csrrci_rd_zero (dis : Bool) (pc instr : Nat) (tu : tu_builder)
    (hrd : bit_sub 7 5 instr = 0) :
    (emitted tu (__csrrci dis pc instr tu)).filter line.is_x_store = [] := by
  simp only [__csrrci, emitted, tu_simps, uint_t_8_bit_sub _ _ _ (by decide : 5 ≤ 8), hrd,
    uint_t_8_zero]
  cases dis <;>
    simp [line.is_x_store, List.filter_cons, apply_ite (List.filter line.is_x_store),
      uint_t_8_zero]

theorem __jalr_rd_zero (dis : Bool) (pc instr : Nat) (tu : tu_builder)
    (hrd : bit_sub 7 5 instr = 0) :
    (emitted tu (__jalr dis pc instr tu)).filter line.is_x_store = [] := by
  simp only [__jalr, emitted, tu_simps, uint_t_8_bit_sub _ _ _ (by decide : 5 ≤ 8), hrd,
    uint_t_8_zero]
  cases dis <;>
    simp [line.is_x_store, List.filter_cons, apply_ite (List.filter line.is_x_store),
      uint_t_8_zero]

/-- The handlers of the descriptors MUL .. CSRRCI and JALR. -/
theorem rd_handlers_eq :
    rd_handlers = (instr_descr.take 70).map InstructionDesriptor.op ++ [compile_func.__jalr] := by
  decide

/-- A handler of MUL .. CSRRCI or JALR emits no store to an integer register when the rd
field is 0. -/
theorem invoke_rd_zero (f : compile_func) (hf : f ∈ rd_handlers) (dis : Bool)
    (pc instr : Nat) (tu : tu_builder) (hrd : bit_sub 7 5 instr = 0) :
    (emitted tu (invoke f dis pc instr tu)).filter line.is_x_store = [] := by
  simp only [rd_handlers, List.mem_cons, List.mem_singleton, List.not_mem_nil, or_false] at hf
  rcases hf with rfl | rfl | rfl | rfl | rfl | rfl | rfl | rfl | rfl | rfl | rfl | rfl | rfl | rfl | rfl | rfl | rfl | rfl | rfl | rfl | rfl | rfl | rfl | rfl | rfl | rfl | rfl | rfl | rfl | rfl | rfl | rfl | rfl | rfl | rfl | rfl | rfl | rfl | rfl | rfl | rfl | rfl | rfl | rfl | rfl | rfl | rfl | rfl | rfl | rfl | rfl | rfl | rfl | rfl | rfl | rfl | rfl | rfl | rfl | rfl | rfl | rfl | rfl | rfl | rfl | rfl | rfl | rfl | rfl | rfl | rfl
  · exact __mul_rd_zero dis pc instr tu hrd
  · exact __mulh_rd_zero dis pc instr tu hrd
  · exact __mulhsu_rd_zero dis pc instr tu hrd
  · exact __mulhu_rd_zero dis pc instr tu hrd
  · exact __div_rd_zero dis pc instr tu hrd
  · exact __divu_rd_zero dis pc instr tu hrd
  · exact __rem_rd_zero dis pc instr tu hrd
  · exact __remu_rd_zero dis pc instr tu hrd
  · exact __lr_w_rd_zero dis pc instr tu hrd
  · exact __sc_w_rd_zero dis pc instr tu hrd
  · exact __amoswap_w_rd_zero dis pc instr tu hrd
  · exact __amoadd_w_rd_zero dis pc instr tu hrd
  · exact __amoxor_w_rd_zero dis pc instr tu hrd
  · exact __amoand_w_rd_zero dis pc instr tu hrd
  · exact __amoor_w_rd_zero dis pc instr tu hrd
  · exact __amomin_w_rd_zero dis pc instr tu hrd
  · exact __amomax_w_rd_zero dis pc instr tu hrd
  · exact __amominu_w_rd_zero dis pc instr tu hrd
  · exact __amomaxu_w_rd_zero dis pc instr tu hrd
  · exact __lui_rd_zero dis pc instr tu hrd
  · exact __auipc_rd_zero dis pc instr tu hrd
  · exact __jal_rd_zero dis pc instr tu hrd
  · exact __beq_rd_zero dis pc instr tu hrd
  · exact __bne_rd_zero dis pc instr tu hrd
  · exact __blt_rd_zero dis pc instr tu hrd
  · exact __bge_rd_zero dis pc instr tu hrd
  · exact __bltu_rd_zero dis pc instr tu hrd
  · exact __bgeu_rd_zero dis pc instr tu hrd
  · exact __lb_rd_zero dis pc instr tu hrd
  · exact __lh_rd_zero dis pc instr tu hrd
  · exact __lw_rd_zero dis pc instr tu hrd
  · exact __lbu_rd_zero dis pc instr tu hrd
  · exact __lhu_rd_zero dis pc instr tu hrd
  · exact __sb_rd_zero dis pc instr tu hrd
  · exact __sh_rd_zero dis pc instr tu hrd
  · exact __sw_rd_zero dis pc instr tu hrd
  · exact __addi_rd_zero dis pc instr tu hrd
  · exact __slti_rd_zero dis pc instr tu hrd
  · exact __sltiu_rd_zero dis pc instr tu hrd
  · exact __xori_rd_zero dis pc instr tu hrd
  · exact __ori_rd_zero dis pc instr tu hrd
  · exact __andi_rd_zero dis pc instr tu hrd
  · exact __slli_rd_zero dis pc instr tu hrd
  · exact __srli_rd_zero dis pc instr tu hrd
  · exact __srai_rd_zero dis pc instr tu hrd
  · exact __add_rd_zero dis pc instr tu hrd
  · exact __sub_rd_zero dis pc instr tu hrd
  · exact __sll_rd_zero dis pc instr tu hrd
  · exact __slt_rd_zero dis pc instr tu hrd
  · exact __sltu_rd_zero dis pc instr tu hrd
  · exact __xor_rd_zero dis pc instr tu hrd
  · exact __srl_rd_zero dis pc instr tu hrd
  · exact __sra_rd_zero dis pc instr tu hrd
  · exact __or_rd_zero dis pc instr tu hrd
  · exact __and_rd_zero dis pc instr tu hrd
  · exact __fence_rd_zero dis pc instr tu hrd
  · exact __fence_i_rd_zero dis pc instr tu hrd
  · exact __ecall_rd_zero dis pc instr tu hrd
  · exact __ebreak_rd_zero dis pc instr tu hrd
  · exact __uret_rd_zero dis pc instr tu hrd
  · exact __sret_rd_zero dis pc instr tu hrd
  · exact __mret_rd_zero dis pc instr tu hrd
  · exact __wfi_rd_zero dis pc instr tu hrd
  · exact __sfence_vma_rd_zero dis pc instr tu hrd
  · exact __csrrw_rd_zero dis pc instr tu hrd
  · exact __csrrs_rd_zero dis pc instr tu hrd
  · exact __csrrc_rd_zero dis pc instr tu hrd
  · exact __csrrwi_rd_zero dis pc instr tu hrd
  · exact __csrrsi_rd_zero dis pc instr tu hrd
  · exact __csrrci_rd_zero dis pc instr tu hrd
  · exact __jalr_rd_zero dis pc instr tu hrd
/-! ## Block nesting of the handlers -/

theorem __mul_scope (dis : Bool) (pc instr : Nat) (tu : tu_builder) :
    scope_depth 0 (emitted tu (__mul dis pc instr tu)) = some 0 := by
  simp only [__mul, emitted, tu_simps]
  cases dis <;> (try split_ifs) <;> rfl

theorem __mulh_scope (dis : Bool) (pc instr : Nat) (tu : tu_builder) :
    scope_depth 0 (emitted tu (__mulh dis pc instr tu)) = some 0 := by
  simp only [__mulh, emitted, tu_simps]
  cases dis <;> (try split_ifs) <;> rfl

theorem __mulhsu_scope (dis : Bool) (pc instr : Nat) (tu : tu_builder) :
    scope_depth 0 (emitted tu (__mulhsu dis pc instr tu)) = some 0 := by
  simp only [__mulhsu, emitted, tu_simps]
  cases dis <;> (try split_ifs) <;> rfl

theorem __mulhu_scope (dis : Bool) (pc instr : Nat) (tu : tu_builder) :
    scope_depth 0 (emitted tu (__mulhu dis pc instr tu)) = some 0 := by
  simp only [__mulhu, emitted, tu_simps]
  cases dis <;> (try split_ifs) <;> rfl

theorem __div_scope (dis : Bool) (pc instr : Nat) (tu : tu_builder) :
    scope_depth 0 (emitted tu (__div dis pc instr tu)) = some 0 := by
  simp only [__div, emitted, tu_simps]
  cases dis <;> (try split_ifs) <;> rfl

theorem __divu_scope (dis : Bool) (pc instr : Nat) (tu : tu_builder) :
    scope_depth 0 (emitted tu (__divu dis pc instr tu)) = some 0 := by
  simp only [__divu, emitted, tu_simps]
  cases dis <;> (try split_ifs) <;> rfl

theorem __rem_scope (dis : Bool) (pc instr : Nat) (tu : tu_builder) :
    scope_depth 0 (emitted tu (__rem dis pc instr tu)) = some 0 := by
  simp only [__rem, emitted, tu_simps]
  cases dis <;> (try split_ifs) <;> rfl

theorem __remu_scope (dis : Bool) (pc instr : Nat) (tu : tu_builder) :
    scope_depth 0 (emitted tu (__remu dis pc instr tu)) = some 0 := by
  simp only [__remu, emitted, tu_simps]
  cases dis <;> (try split_ifs) <;> rfl

theorem __lr_w_scope (dis : Bool) (pc instr : Nat) (tu : tu_builder) :
    scope_depth 0 (emitted tu (__lr_w dis pc instr tu)) = some 0 := by
  simp only [__lr_w, emitted, tu_simps]
  cases dis <;> (try split_ifs) <;> rfl

theorem __sc_w_scope (dis : Bool) (pc instr : Nat) (tu : tu_builder) :
    scope_depth 0 (emitted tu (__sc_w dis pc instr tu)) = some 0 := by
  simp only [__sc_w, emitted, tu_simps]
  cases dis <;> (try split_ifs) <;> rfl

theorem __amoswap_w_scope (dis : Bool) (pc instr : Nat) (tu : tu_builder) :
    scope_depth 0 (emitted tu (__amoswap_w dis pc instr tu)) = some 0 := by
  simp only [__amoswap_w, emitted, tu_simps]
  cases dis <;> (try split_ifs) <;> rfl

theorem __amoadd_w_scope (dis : Bool) (pc instr : Nat) (tu : tu_builder) :
    scope_depth 0 (emitted tu (__amoadd_w dis pc instr tu)) = some 0 := by
  simp only [__amoadd_w, emitted, tu_simps]
  cases dis <;> (try split_ifs) <;> rfl

theorem __amoxor_w_scope (dis : Bool) (pc instr : Nat) (tu : tu_builder) :
    scope_depth 0 (emitted tu (__amoxor_w dis pc instr tu)) = some 0 := by
  simp only [__amoxor_w, emitted, tu_simps]
  cases dis <;> (try split_ifs) <;> rfl

theorem __amoand_w_scope (dis : Bool) (pc instr : Nat) (tu : tu_builder) :
    scope_depth 0 (emitted tu (__amoand_w dis pc instr tu)) = some 0 := by
  simp only [__amoand_w, emitted, tu_simps]
  cases dis <;> (try split_ifs) <;> rfl

theorem __amoor_w_scope (dis : Bool) (pc instr : Nat) (tu : tu_builder) :
    scope_depth 0 (emitted tu (__amoor_w dis pc instr tu)) = some 0 := by
  simp only [__amoor_w, emitted, tu_simps]
  cases dis <;> (try split_ifs) <;> rfl

theorem __amomin_w_scope (dis : Bool) (pc instr : Nat) (tu : tu_builder) :
    scope_depth 0 (emitted tu (__amomin_w dis pc instr tu)) = some 0 := by
  simp only [__amomin_w, emitted, tu_simps]
  cases dis <;> (try split_ifs) <;> rfl

theorem __amomax_w_scope (dis : Bool) (pc instr : Nat) (tu : tu_builder) :
    scope_depth 0 (emitted tu (__amomax_w dis pc instr tu)) = some 0 := by
  simp only [__amomax_w, emitted, tu_simps]
  cases dis <;> (try split_ifs) <;> rfl

theorem __amominu_w_scope (dis : Bool) (pc instr : Nat) (tu : tu_builder) :
    scope_depth 0 (emitted tu (__amominu_w dis pc instr tu)) = some 0 := by
  simp only [__amominu_w, emitted, tu_simps]
  cases dis <;> (try split_ifs) <;> rfl

theorem __amomaxu_w_scope (dis : Bool) (pc instr : Nat) (tu : tu_builder) :
    scope_depth 0 (emitted tu (__amomaxu_w dis pc instr tu)) = some 0 := by
  simp only [__amomaxu_w, emitted, tu_simps]
  cases dis <;> (try split_ifs) <;> rfl

theorem __lui_scope (dis : Bool) (pc instr : Nat) (tu : tu_builder) :
    scope_depth 0 (emitted tu (__lui dis pc instr tu)) = some 0 := by
  simp only [__lui, emitted, tu_simps]
  cases dis <;> (try split_ifs) <;> rfl

theorem __auipc_scope (dis : Bool) (pc instr : Nat) (tu : tu_builder) :
    scope_depth 0 (emitted tu (__auipc dis pc instr tu)) = some 0 := by
  simp only [__auipc, emitted, tu_simps]
  cases dis <;> (try split_ifs) <;> rfl

theorem __jal_scope (dis : Bool) (pc instr : Nat) (tu : tu_builder) :
    scope_depth 0 (emitted tu (__jal dis pc instr tu)) = some 0 := by
  simp only [__jal, emitted, tu_simps]
  cases dis <;> (try split_ifs) <;> rfl

theorem __beq_scope (dis : Bool) (pc instr : Nat) (tu : tu_builder) :
    scope_depth 0 (emitted tu (__beq dis pc instr tu)) = some 0 := by
  simp only [__beq, emitted, tu_simps]
  cases dis <;> (try split_ifs) <;> rfl

theorem __bne_scope (dis : Bool) (pc instr : Nat) (tu : tu_builder) :
    scope_depth 0 (emitted tu (__bne dis pc instr tu)) = some 0 := by
  simp only [__bne, emitted, tu_simps]
  cases dis <;> (try split_ifs) <;> rfl

theorem __blt_scope (dis : Bool) (pc instr : Nat) (tu : tu_builder) :
    scope_depth 0 (emitted tu (__blt dis pc instr tu)) = some 0 := by
  simp only [__blt, emitted, tu_simps]
  cases dis <;> (try split_ifs) <;> rfl

theorem __bge_scope (dis : Bool) (pc instr : Nat) (tu : tu_builder) :
    scope_depth 0 (emitted tu (__bge dis pc instr tu)) = some 0 := by
  simp only [__bge, emitted, tu_simps]
  cases dis <;> (try split_ifs) <;> rfl

theorem __bltu_scope (dis : Bool) (pc instr : Nat) (tu : tu_builder) :
    scope_depth 0 (emitted tu (__bltu dis pc instr tu)) = some 0 := by
  simp only [__bltu, emitted, tu_simps]
  cases dis <;> (try split_ifs) <;> rfl

theorem __bgeu_scope (dis : Bool) (pc instr : Nat) (tu : tu_builder) :
    scope_depth 0 (emitted tu (__bgeu dis pc instr tu)) = some 0 := by
  simp only [__bgeu, emitted, tu_simps]
  cases dis <;> (try split_ifs) <;> rfl

theorem __lb_scope (dis : Bool) (pc instr : Nat) (tu : tu_builder) :
    scope_depth 0 (emitted tu (__lb dis pc instr tu)) = some 0 := by
  simp only [__lb, emitted, tu_simps]
  cases dis <;> (try split_ifs) <;> rfl

theorem __lh_scope (dis : Bool) (pc instr : Nat) (tu : tu_builder) :
    scope_depth 0 (emitted tu (__lh dis pc instr tu)) = some 0 := by
  simp only [__lh, emitted, tu_simps]
  cases dis <;> (try split_ifs) <;> rfl

theorem __lw_scope (dis : Bool) (pc instr : Nat) (tu : tu_builder) :
    scope_depth 0 (emitted tu (__lw dis pc instr tu)) = some 0 := by
  simp only [__lw, emitted, tu_simps]
  cases dis <;> (try split_ifs) <;> rfl

theorem __lbu_scope (dis : Bool) (pc instr : Nat) (tu : tu_builder) :
    scope_depth 0 (emitted tu (__lbu dis pc instr tu)) = some 0 := by
  simp only [__lbu, emitted, tu_simps]
  cases dis <;> (try split_ifs) <;> rfl

theorem __lhu_scope (dis : Bool) (pc instr : Nat) (tu : tu_builder) :
    scope_depth 0 (emitted tu (__lhu dis pc instr tu)) = some 0 := by
  simp only [__lhu, emitted, tu_simps]
  cases dis <;> (try split_ifs) <;> rfl

theorem __sb_scope (dis : Bool) (pc instr : Nat) (tu : tu_builder) :
    scope_depth 0 (emitted tu (__sb dis pc instr tu)) = some 0 := by
  simp only [__sb, emitted, tu_simps]
  cases dis <;> (try split_ifs) <;> rfl

theorem __sh_scope (dis : Bool) (pc instr : Nat) (tu : tu_builder) :
    scope_depth 0 (emitted tu (__sh dis pc instr tu)) = some 0 := by
  simp only [__sh, emitted, tu_simps]
  cases dis <;> (try split_ifs) <;> rfl

theorem __sw_scope (dis : Bool) (pc instr : Nat) (tu : tu_builder) :
    scope_depth 0 (emitted tu (__sw dis pc instr tu)) = some 0 := by
  simp only [__sw, emitted, tu_simps]
  cases dis <;> (try split_ifs) <;> rfl

theorem __addi_scope (dis : Bool) (pc instr : Nat) (tu : tu_builder) :
    scope_depth 0 (emitted tu (__addi dis pc instr tu)) = some 0 := by
  simp only [__addi, emitted, tu_simps]
  cases dis <;> (try split_ifs) <;> rfl

theorem __slti_scope (dis : Bool) (pc instr : Nat) (tu : tu_builder) :
    scope_depth 0 (emitted tu (__slti dis pc instr tu)) = some 0 := by
  simp only [__slti, emitted, tu_simps]
  cases dis <;> (try split_ifs) <;> rfl

theorem __sltiu_scope (dis : Bool) (pc instr : Nat) (tu : tu_builder) :
    scope_depth 0 (emitted tu (__sltiu dis pc instr tu)) = some 0 := by
  simp only [__sltiu, emitted, tu_simps]
  cases dis <;> (try split_ifs) <;> rfl

theorem __xori_scope (dis : Bool) (pc instr : Nat) (tu : tu_builder) :
    scope_depth 0 (emitted tu (__xori dis pc instr tu)) = some 0 := by
  simp only [__xori, emitted, tu_simps]
  cases dis <;> (try split_ifs) <;> rfl

theorem __ori_scope (dis : Bool) (pc instr : Nat) (tu : tu_builder) :
    scope_depth 0 (emitted tu (__ori dis pc instr tu)) = some 0 := by
  simp only [__ori, emitted, tu_simps]
  cases dis <;> (try split_ifs) <;> rfl

theorem __andi_scope (dis : Bool) (pc instr : Nat) (tu : tu_builder) :
    scope_depth 0 (emitted tu (__andi dis pc instr tu)) = some 0 := by
  simp only [__andi, emitted, tu_simps]
  cases dis <;> (try split_ifs) <;> rfl

theorem __slli_scope (dis : Bool) (pc instr : Nat) (tu : tu_builder) :
    scope_depth 0 (emitted tu (__slli dis pc instr tu)) = some 0 := by
  simp only [__slli, emitted, tu_simps]
  cases dis <;> (try split_ifs) <;> rfl

theorem __srli_scope (dis : Bool) (pc instr : Nat) (tu : tu_builder) :
    scope_depth 0 (emitted tu (__srli dis pc instr tu)) = some 0 := by
  simp only [__srli, emitted, tu_simps]
  cases dis <;> (try split_ifs) <;> rfl

theorem __srai_scope (dis : Bool) (pc instr : Nat) (tu : tu_builder) :
    scope_depth 0 (emitted tu (__srai dis pc instr tu)) = some 0 := by
  simp only [__srai, emitted, tu_simps]
  cases dis <;> (try split_ifs) <;> rfl

theorem __add_scope (dis : Bool) (pc instr : Nat) (tu : tu_builder) :
    scope_depth 0 (emitted tu (__add dis pc instr tu)) = some 0 := by
  simp only [__add, emitted, tu_simps]
  cases dis <;> (try split_ifs) <;> rfl

theorem __sub_scope (dis : Bool) (pc instr : Nat) (tu : tu_builder) :
    scope_depth 0 (emitted tu (__sub dis pc instr tu)) = some 0 := by
  simp only [__sub, emitted, tu_simps]
  cases dis <;> (try split_ifs) <;> rfl

theorem __sll_scope (dis : Bool) (pc instr : Nat) (tu : tu_builder) :
    scope_depth 0 (emitted tu (__sll dis pc instr tu)) = some 0 := by
  simp only [__sll, emitted, tu_simps]
  cases dis <;> (try split_ifs) <;> rfl

theorem __slt_scope (dis : Bool) (pc instr : Nat) (tu : tu_builder) :
    scope_depth 0 (emitted tu (__slt dis pc instr tu)) = some 0 := by
  simp only [__slt, emitted, tu_simps]
  cases dis <;> (try split_ifs) <;> rfl

theorem __sltu_scope (dis : Bool) (pc instr : Nat) (tu : tu_builder) :
    scope_depth 0 (emitted tu (__sltu dis pc instr tu)) = some 0 := by
  simp only [__sltu, emitted, tu_simps]
  cases dis <;> (try split_ifs) <;> rfl

theorem __xor_scope (dis : Bool) (pc instr : Nat) (tu : tu_builder) :
    scope_depth 0 (emitted tu (__xor dis pc instr tu)) = some 0 := by
  simp only [__xor, emitted, tu_simps]
  cases dis <;> (try split_ifs) <;> rfl

theorem __srl_scope (dis : Bool) (pc instr : Nat) (tu : tu_builder) :
    scope_depth 0 (emitted tu (__srl dis pc instr tu)) = some 0 := by
  simp only [__srl, emitted, tu_simps]
  cases dis <;> (try split_ifs) <;> rfl

theorem __sra_scope (dis : Bool) (pc instr : Nat) (tu : tu_builder) :
    scope_depth 0 (emitted tu (__sra dis pc instr tu)) = some 0 := by
  simp only [__sra, emitted, tu_simps]
  cases dis <;> (try split_ifs) <;> rfl

theorem __or_scope (dis : Bool) (pc instr : Nat) (tu : tu_builder) :
    scope_depth 0 (emitted tu (__or dis pc instr tu)) = some 0 := by
  simp only [__or, emitted, tu_simps]
  cases dis <;> (try split_ifs) <;> rfl

theorem __and_scope (dis : Bool) (pc instr : Nat) (tu : tu_builder) :
    scope_depth 0 (emitted tu (__and dis pc instr tu)) = some 0 := by
  simp only [__and, emitted, tu_simps]
  cases dis <;> (try split_ifs) <;> rfl

theorem __fence_scope (dis : Bool) (pc instr : Nat) (tu : tu_builder) :
    scope_depth 0 (emitted tu (__fence dis pc instr tu)) = some 0 := by
  simp only [__fence, emitted, tu_simps]
  cases dis <;> (try split_ifs) <;> rfl

theorem __fence_i_scope (dis : Bool) (pc instr : Nat) (tu : tu_builder) :
    scope_depth 0 (emitted tu (__fence_i dis pc instr tu)) = some 0 := by
  simp only [__fence_i, emitted, tu_simps]
  cases dis <;> (try split_ifs) <;> rfl

theorem __ecall_scope (dis : Bool) (pc instr : Nat) (tu : tu_builder) :
    scope_depth 0 (emitted tu (__ecall dis pc instr tu)) = some 0 := by
  simp only [__ecall, emitted, tu_simps]
  cases dis <;> (try split_ifs) <;> rfl

theorem __ebreak_scope (dis : Bool) (pc instr : Nat) (tu : tu_builder) :
    scope_depth 0 (emitted tu (__ebreak dis pc instr tu)) = some 0 := by
  simp only [__ebreak, emitted, tu_simps]
  cases dis <;> (try split_ifs) <;> rfl

theorem __uret_scope (dis : Bool) (pc instr : Nat) (tu : tu_builder) :
    scope_depth 0 (emitted tu (__uret dis pc instr tu)) = some 0 := by
  simp only [__uret, emitted, tu_simps]
  cases dis <;> (try split_ifs) <;> rfl

theorem __sret_scope (dis : Bool) (pc instr : Nat) (tu : tu_builder) :
    scope_depth 0 (emitted tu (__sret dis pc instr tu)) = some 0 := by
  simp only [__sret, emitted, tu_simps]
  cases dis <;> (try split_ifs) <;> rfl

theorem __mret_scope (dis : Bool) (pc instr : Nat) (tu : tu_builder) :
    scope_depth 0 (emitted tu (__mret dis pc instr tu)) = some 0 := by
  simp only [__mret, emitted, tu_simps]
  cases dis <;> (try split_ifs) <;> rfl

theorem __wfi_scope (dis : Bool) (pc instr : Nat) (tu : tu_builder) :
    scope_depth 0 (emitted tu (__wfi dis pc instr tu)) = some 0 := by
  simp only [__wfi, emitted, tu_simps]
  cases dis <;> (try split_ifs) <;> rfl

theorem __sfence_vma_scope (dis : Bool) (pc instr : Nat) (tu : tu_builder) :
    scope_depth 0 (emitted tu (__sfence_vma dis pc instr tu)) = some 0 := by
  simp only [__sfence_vma, emitted, tu_simps]
  cases dis <;> (try split_ifs) <;> rfl

theorem __csrrw_scope (dis : Bool) (pc instr : Nat) (tu : tu_builder) :
    scope_depth 0 (emitted tu (__csrrw dis pc instr tu)) = some 0 := by
  simp only [__csrrw, emitted, tu_simps]
  cases dis <;> (try split_ifs) <;> rfl

theorem __csrrs_scope (dis : Bool) (pc instr : Nat) (tu : tu_builder) :
    scope_depth 0 (emitted tu (__csrrs dis pc instr tu)) = some 0 := by
  simp only [__csrrs, emitted, tu_simps]
  cases dis <;> (try split_ifs) <;> rfl

theorem __csrrc_scope (dis : Bool) (pc instr : Nat) (tu : tu_builder) :
    scope_depth 0 (emitted tu (__csrrc dis pc instr tu)) = some 0 := by
  simp only [__csrrc, emitted, tu_simps]
  cases dis <;> (try split_ifs) <;> rfl

theorem __csrrwi_scope (dis : Bool) (pc instr : Nat) (tu : tu_builder) :
    scope_depth 0 (emitted tu (__csrrwi dis pc instr tu)) = some 0 := by
  simp only [__csrrwi, emitted, tu_simps]
  cases dis <;> (try split_ifs) <;> rfl

theorem __csrrsi_scope (dis : Bool) (pc instr : Nat) (tu : tu_builder) :
    scope_depth 0 (emitted tu (__csrrsi dis pc instr tu)) = some 0 := by
  simp only [__csrrsi, emitted, tu_simps]
  cases dis <;> (try split_ifs) <;> rfl

theorem __csrrci_scope (dis : Bool) (pc instr : Nat) (tu : tu_builder) :
    scope_depth 0 (emitted tu (__csrrci dis pc instr tu)) = some 0 := by
  simp only [__csrrci, emitted, tu_simps]
  cases dis <;> (try split_ifs) <;> rfl

theorem __flw_scope (dis : Bool) (pc instr : Nat) (tu : tu_builder) :
    scope_depth 0 (emitted tu (__flw dis pc instr tu)) = some 0 := by
  simp only [__flw, emitted, tu_simps]
  cases dis <;> (try split_ifs) <;> rfl

theorem __fsw_scope (dis : Bool) (pc instr : Nat) (tu : tu_builder) :
    scope_depth 0 (emitted tu (__fsw dis pc instr tu)) = some 0 := by
  simp only [__fsw, emitted, tu_simps]
  cases dis <;> (try split_ifs) <;> rfl

theorem __fmadd_s_scope (dis : Bool) (pc instr : Nat) (tu : tu_builder) :
    scope_depth 0 (emitted tu (__fmadd_s dis pc instr tu)) = some 0 := by
  simp only [__fmadd_s, emitted, tu_simps]
  cases dis <;> (try split_ifs) <;> rfl

theorem __fmsub_s_scope (dis : Bool) (pc instr : Nat) (tu : tu_builder) :
    scope_depth 0 (emitted tu (__fmsub_s dis pc instr tu)) = some 0 := by
  simp only [__fmsub_s, emitted, tu_simps]
  cases dis <;> (try split_ifs) <;> rfl

theorem __fnmadd_s_scope (dis : Bool) (pc instr : Nat) (tu : tu_builder) :
    scope_depth 0 (emitted tu (__fnmadd_s dis pc instr tu)) = some 0 := by
  simp only [__fnmadd_s, emitted, tu_simps]
  cases dis <;> (try split_ifs) <;> rfl

theorem __fnmsub_s_scope (dis : Bool) (pc instr : Nat) (tu : tu_builder) :
    scope_depth 0 (emitted tu (__fnmsub_s dis pc instr tu)) = some 0 := by
  simp only [__fnmsub_s, emitted, tu_simps]
  cases dis <;> (try split_ifs) <;> rfl

theorem __fadd_s_scope (dis : Bool) (pc instr : Nat) (tu : tu_builder) :
    scope_depth 0 (emitted tu (__fadd_s dis pc instr tu)) = some 0 := by
  simp only [__fadd_s, emitted, tu_simps]
  cases dis <;> (try split_ifs) <;> rfl

theorem __fsub_s_scope (dis : Bool) (pc instr : Nat) (tu : tu_builder) :
    scope_depth 0 (emitted tu (__fsub_s dis pc instr tu)) = some 0 := by
  simp only [__fsub_s, emitted, tu_simps]
  cases dis <;> (try split_ifs) <;> rfl

theorem __fmul_s_scope (dis : Bool) (pc instr : Nat) (tu : tu_builder) :
    scope_depth 0 (emitted tu (__fmul_s dis pc instr tu)) = some 0 := by
  simp only [__fmul_s, emitted, tu_simps]
  cases dis <;> (try split_ifs) <;> rfl

theorem __fdiv_s_scope (dis : Bool) (pc instr : Nat) (tu : tu_builder) :
    scope_depth 0 (emitted tu (__fdiv_s dis pc instr tu)) = some 0 := by
  simp only [__fdiv_s, emitted, tu_simps]
  cases dis <;> (try split_ifs) <;> rfl

theorem __fsqrt_s_scope (dis : Bool) (pc instr : Nat) (tu : tu_builder) :
    scope_depth 0 (emitted tu (__fsqrt_s dis pc instr tu)) = some 0 := by
  simp only [__fsqrt_s, emitted, tu_simps]
  cases dis <;> (try split_ifs) <;> rfl

theorem __fsgnj_s_scope (dis : Bool) (pc instr : Nat) (tu : tu_builder) :
    scope_depth 0 (emitted tu (__fsgnj_s dis pc instr tu)) = some 0 := by
  simp only [__fsgnj_s, emitted, tu_simps]
  cases dis <;> (try split_ifs) <;> rfl

theorem __fsgnjn_s_scope (dis : Bool) (pc instr : Nat) (tu : tu_builder) :
    scope_depth 0 (emitted tu (__fsgnjn_s dis pc instr tu)) = some 0 := by
  simp only [__fsgnjn_s, emitted, tu_simps]
  cases dis <;> (try split_ifs) <;> rfl

theorem __fsgnjx_s_scope (dis : Bool) (pc instr : Nat) (tu : tu_builder) :
    scope_depth 0 (emitted tu (__fsgnjx_s dis pc instr tu)) = some 0 := by
  simp only [__fsgnjx_s, emitted, tu_simps]
  cases dis <;> (try split_ifs) <;> rfl

theorem __fmin_s_scope (dis : Bool) (pc instr : Nat) (tu : tu_builder) :
    scope_depth 0 (emitted tu (__fmin_s dis pc instr tu)) = some 0 := by
  simp only [__fmin_s, emitted, tu_simps]
  cases dis <;> (try split_ifs) <;> rfl

theorem __fmax_s_scope (dis : Bool) (pc instr : Nat) (tu : tu_builder) :
    scope_depth 0 (emitted tu (__fmax_s dis pc instr tu)) = some 0 := by
  simp only [__fmax_s, emitted, tu_simps]
  cases dis <;> (try split_ifs) <;> rfl

theorem __fcvt_w_s_scope (dis : Bool) (pc instr : Nat) (tu : tu_builder) :
    scope_depth 0 (emitted tu (__fcvt_w_s dis pc instr tu)) = some 0 := by
  simp only [__fcvt_w_s, emitted, tu_simps]
  cases dis <;> (try split_ifs) <;> rfl

theorem __fcvt_wu_s_scope (dis : Bool) (pc instr : Nat) (tu : tu_builder) :
    scope_depth 0 (emitted tu (__fcvt_wu_s dis pc instr tu)) = some 0 := by
  simp only [__fcvt_wu_s, emitted, tu_simps]
  cases dis <;> (try split_ifs) <;> rfl

theorem __feq_s_scope (dis : Bool) (pc instr : Nat) (tu : tu_builder) :
    scope_depth 0 (emitted tu (__feq_s dis pc instr tu)) = some 0 := by
  simp only [__feq_s, emitted, tu_simps]
  cases dis <;> (try split_ifs) <;> rfl

theorem __flt_s_scope (dis : Bool) (pc instr : Nat) (tu : tu_builder) :
    scope_depth 0 (emitted tu (__flt_s dis pc instr tu)) = some 0 := by
  simp only [__flt_s, emitted, tu_simps]
  cases dis <;> (try split_ifs) <;> rfl

theorem __fle_s_scope (dis : Bool) (pc instr : Nat) (tu : tu_builder) :
    scope_depth 0 (emitted tu (__fle_s dis pc instr tu)) = some 0 := by
  simp only [__fle_s, emitted, tu_simps]
  cases dis <;> (try split_ifs) <;> rfl

theorem __fclass_s_scope (dis : Bool) (pc instr : Nat) (tu : tu_builder) :
    scope_depth 0 (emitted tu (__fclass_s dis pc instr tu)) = some 0 := by
  simp only [__fclass_s, emitted, tu_simps]
  cases dis <;> (try split_ifs) <;> rfl

theorem __fcvt_s_w_scope (dis : Bool) (pc instr : Nat) (tu : tu_builder) :
    scope_depth 0 (emitted tu (__fcvt_s_w dis pc instr tu)) = some 0 := by
  simp only [__fcvt_s_w, emitted, tu_simps]
  cases dis <;> (try split_ifs) <;> rfl

theorem __fcvt_s_wu_scope (dis : Bool) (pc instr : Nat) (tu : tu_builder) :
    scope_depth 0 (emitted tu (__fcvt_s_wu dis pc instr tu)) = some 0 := by
  simp only [__fcvt_s_wu, emitted, tu_simps]
  cases dis <;> (try split_ifs) <;> rfl

theorem __fmv_x_w_scope (dis : Bool) (pc instr : Nat) (tu : tu_builder) :
    scope_depth 0 (emitted tu (__fmv_x_w dis pc instr tu)) = some 0 := by
  simp only [__fmv_x_w, emitted, tu_simps]
  cases dis <;> (try split_ifs) <;> rfl

theorem __fmv_w_x_scope (dis : Bool) (pc instr : Nat) (tu : tu_builder) :
    scope_depth 0 (emitted tu (__fmv_w_x dis pc instr tu)) = some 0 := by
  simp only [__fmv_w_x, emitted, tu_simps]
  cases dis <;> (try split_ifs) <;> rfl

theorem __fld_scope (dis : Bool) (pc instr : Nat) (tu : tu_builder) :
    scope_depth 0 (emitted tu (__fld dis pc instr tu)) = some 0 := by
  simp only [__fld, emitted, tu_simps]
  cases dis <;> (try split_ifs) <;> rfl

theorem __fsd_scope (dis : Bool) (pc instr : Nat) (tu : tu_builder) :
    scope_depth 0 (emitted tu (__fsd dis pc instr tu)) = some 0 := by
  simp only [__fsd, emitted, tu_simps]
  cases dis <;> (try split_ifs) <;> rfl

theorem __fmadd_d_scope (dis : Bool) (pc instr : Nat) (tu : tu_builder) :
    scope_depth 0 (emitted tu (__fmadd_d dis pc instr tu)) = some 0 := by
  simp only [__fmadd_d, emitted, tu_simps]
  cases dis <;> (try split_ifs) <;> rfl

theorem __fmsub_d_scope (dis : Bool) (pc instr : Nat) (tu : tu_builder) :
    scope_depth 0 (emitted tu (__fmsub_d dis pc instr tu)) = some 0 := by
  simp only [__fmsub_d, emitted, tu_simps]
  cases dis <;> (try split_ifs) <;> rfl

theorem __fnmadd_d_scope (dis : Bool) (pc instr : Nat) (tu : tu_builder) :
    scope_depth 0 (emitted tu (__fnmadd_d dis pc instr tu)) = some 0 := by
  simp only [__fnmadd_d, emitted, tu_simps]
  cases dis <;> (try split_ifs) <;> rfl

theorem __fnmsub_d_scope (dis : Bool) (pc instr : Nat) (tu : tu_builder) :
    scope_depth 0 (emitted tu (__fnmsub_d dis pc instr tu)) = some 0 := by
  simp only [__fnmsub_d, emitted, tu_simps]
  cases dis <;> (try split_ifs) <;> rfl

theorem __fadd_d_scope (dis : Bool) (pc instr : Nat) (tu : tu_builder) :
    scope_depth 0 (emitted tu (__fadd_d dis pc instr tu)) = some 0 := by
  simp only [__fadd_d, emitted, tu_simps]
  cases dis <;> (try split_ifs) <;> rfl

theorem __fsub_d_scope (dis : Bool) (pc instr : Nat) (tu : tu_builder) :
    scope_depth 0 (emitted tu (__fsub_d dis pc instr tu)) = some 0 := by
  simp only [__fsub_d, emitted, tu_simps]
  cases dis <;> (try split_ifs) <;> rfl

theorem __fmul_d_scope (dis : Bool) (pc instr : Nat) (tu : tu_builder) :
    scope_depth 0 (emitted tu (__fmul_d dis pc instr tu)) = some 0 := by
  simp only [__fmul_d, emitted, tu_simps]
  cases dis <;> (try split_ifs) <;> rfl

theorem __fdiv_d_scope (dis : Bool) (pc instr : Nat) (tu : tu_builder) :
    scope_depth 0 (emitted tu (__fdiv_d dis pc instr tu)) = some 0 := by
  simp only [__fdiv_d, emitted, tu_simps]
  cases dis <;> (try split_ifs) <;> rfl

theorem __fsqrt_d_scope (dis : Bool) (pc instr : Nat) (tu : tu_builder) :
    scope_depth 0 (emitted tu (__fsqrt_d dis pc instr tu)) = some 0 := by
  simp only [__fsqrt_d, emitted, tu_simps]
  cases dis <;> (try split_ifs) <;> rfl

theorem __fsgnj_d_scope (dis : Bool) (pc instr : Nat) (tu : tu_builder) :
    scope_depth 0 (emitted tu (__fsgnj_d dis pc instr tu)) = some 0 := by
  simp only [__fsgnj_d, emitted, tu_simps]
  cases dis <;> (try split_ifs) <;> rfl

theorem __fsgnjn_d_scope (dis : Bool) (pc instr : Nat) (tu : tu_builder) :
    scope_depth 0 (emitted tu (__fsgnjn_d dis pc instr tu)) = some 0 := by
  simp only [__fsgnjn_d, emitted, tu_simps]
  cases dis <;> (try split_ifs) <;> rfl

theorem __fsgnjx_d_scope (dis : Bool) (pc instr : Nat) (tu : tu_builder) :
    scope_depth 0 (emitted tu (__fsgnjx_d dis pc instr tu)) = some 0 := by
  simp only [__fsgnjx_d, emitted, tu_simps]
  cases dis <;> (try split_ifs) <;> rfl

theorem __fmin_d_scope (dis : Bool) (pc instr : Nat) (tu : tu_builder) :
    scope_depth 0 (emitted tu (__fmin_d dis pc instr tu)) = some 0 := by
  simp only [__fmin_d, emitted, tu_simps]
  cases dis <;> (try split_ifs) <;> rfl

theorem __fmax_d_scope (dis : Bool) (pc instr : Nat) (tu : tu_builder) :
    scope_depth 0 (emitted tu (__fmax_d dis pc instr tu)) = some 0 := by
  simp only [__fmax_d, emitted, tu_simps]
  cases dis <;> (try split_ifs) <;> rfl

theorem __fcvt_s_d_scope (dis : Bool) (pc instr : Nat) (tu : tu_builder) :
    scope_depth 0 (emitted tu (__fcvt_s_d dis pc instr tu)) = some 0 := by
  simp only [__fcvt_s_d, emitted, tu_simps]
  cases dis <;> (try split_ifs) <;> rfl

theorem __fcvt_d_s_scope (dis : Bool) (pc instr : Nat) (tu : tu_builder) :
    scope_depth 0 (emitted tu (__fcvt_d_s dis pc instr tu)) = some 0 := by
  simp only [__fcvt_d_s, emitted, tu_simps]
  cases dis <;> (try split_ifs) <;> rfl

theorem __feq_d_scope (dis : Bool) (pc instr : Nat) (tu : tu_builder) :
    scope_depth 0 (emitted tu (__feq_d dis pc instr tu)) = some 0 := by
  simp only [__feq_d, emitted, tu_simps]
  cases dis <;> (try split_ifs) <;> rfl

theorem __flt_d_scope (dis : Bool) (pc instr : Nat) (tu : tu_builder) :
    scope_depth 0 (emitted tu (__flt_d dis pc instr tu)) = some 0 := by
  simp only [__flt_d, emitted, tu_simps]
  cases dis <;> (try split_ifs) <;> rfl

theorem __fle_d_scope (dis : Bool) (pc instr : Nat) (tu : tu_builder) :
    scope_depth 0 (emitted tu (__fle_d dis pc instr tu)) = some 0 := by
  simp only [__fle_d, emitted, tu_simps]
  cases dis <;> (try split_ifs) <;> rfl

theorem __fclass_d_scope (dis : Bool) (pc instr : Nat) (tu : tu_builder) :
    scope_depth 0 (emitted tu (__fclass_d dis pc instr tu)) = some 0 := by
  simp only [__fclass_d, emitted, tu_simps]
  cases dis <;> (try split_ifs) <;> rfl

theorem __fcvt_w_d_scope (dis : Bool) (pc instr : Nat) (tu : tu_builder) :
    scope_depth 0 (emitted tu (__fcvt_w_d dis pc instr tu)) = some 0 := by
  simp only [__fcvt_w_d, emitted, tu_simps]
  cases dis <;> (try split_ifs) <;> rfl

theorem __fcvt_wu_d_scope (dis : Bool) (pc instr : Nat) (tu : tu_builder) :
    scope_depth 0 (emitted tu (__fcvt_wu_d dis pc instr tu)) = some 0 := by
  simp only [__fcvt_wu_d, emitted, tu_simps]
  cases dis <;> (try split_ifs) <;> rfl

theorem __fcvt_d_w_scope (dis : Bool) (pc instr : Nat) (tu : tu_builder) :
    scope_depth 0 (emitted tu (__fcvt_d_w dis pc instr tu)) = some 0 := by
  simp only [__fcvt_d_w, emitted, tu_simps]
  cases dis <;> (try split_ifs) <;> rfl

theorem __fcvt_d_wu_scope (dis : Bool) (pc instr : Nat) (tu : tu_builder) :
    scope_depth 0 (emitted tu (__fcvt_d_wu dis pc instr tu)) = some 0 := by
  simp only [__fcvt_d_wu, emitted, tu_simps]
  cases dis <;> (try split_ifs) <;> rfl

theorem __jalr_scope (dis : Bool) (pc instr : Nat) (tu : tu_builder) :
    scope_depth 0 (emitted tu (__jalr dis pc instr tu)) = some 0 := by
  simp only [__jalr, emitted, tu_simps]
  cases dis <;> (try split_ifs) <;> rfl

theorem __c_addi4spn_scope (dis : Bool) (pc instr : Nat) (tu : tu_builder) :
    scope_depth 0 (emitted tu (__c_addi4spn dis pc instr tu)) = some 0 := by
  simp only [__c_addi4spn, emitted, tu_simps]
  cases dis <;> (try split_ifs) <;> rfl

theorem __c_lw_scope (dis : Bool) (pc instr : Nat) (tu : tu_builder) :
    scope_depth 0 (emitted tu (__c_lw dis pc instr tu)) = some 0 := by
  simp only [__c_lw, emitted, tu_simps]
  cases dis <;> (try split_ifs) <;> rfl

theorem __c_sw_scope (dis : Bool) (pc instr : Nat) (tu : tu_builder) :
    scope_depth 0 (emitted tu (__c_sw dis pc instr tu)) = some 0 := by
  simp only [__c_sw, emitted, tu_simps]
  cases dis <;> (try split_ifs) <;> rfl

theorem __c_addi_scope (dis : Bool) (pc instr : Nat) (tu : tu_builder) :
    scope_depth 0 (emitted tu (__c_addi dis pc instr tu)) = some 0 := by
  simp only [__c_addi, emitted, tu_simps]
  cases dis <;> (try split_ifs) <;> rfl

theorem __c_nop_scope (dis : Bool) (pc instr : Nat) (tu : tu_builder) :
    scope_depth 0 (emitted tu (__c_nop dis pc instr tu)) = some 0 := by
  simp only [__c_nop, emitted, tu_simps]
  cases dis <;> (try split_ifs) <;> rfl

theorem __c_jal_scope (dis : Bool) (pc instr : Nat) (tu : tu_builder) :
    scope_depth 0 (emitted tu (__c_jal dis pc instr tu)) = some 0 := by
  simp only [__c_jal, emitted, tu_simps]
  cases dis <;> (try split_ifs) <;> rfl

theorem __c_li_scope (dis : Bool) (pc instr : Nat) (tu : tu_builder) :
    scope_depth 0 (emitted tu (__c_li dis pc instr tu)) = some 0 := by
  simp only [__c_li, emitted, tu_simps]
  cases dis <;> (try split_ifs) <;> rfl

theorem __c_lui_scope (dis : Bool) (pc instr : Nat) (tu : tu_builder) :
    scope_depth 0 (emitted tu (__c_lui dis pc instr tu)) = some 0 := by
  simp only [__c_lui, emitted, tu_simps]
  cases dis <;> (try split_ifs) <;> rfl

theorem __c_addi16sp_scope (dis : Bool) (pc instr : Nat) (tu : tu_builder) :
    scope_depth 0 (emitted tu (__c_addi16sp dis pc instr tu)) = some 0 := by
  simp only [__c_addi16sp, emitted, tu_simps]
  cases dis <;> (try split_ifs) <;> rfl

theorem __c_srli_scope (dis : Bool) (pc instr : Nat) (tu : tu_builder) :
    scope_depth 0 (emitted tu (__c_srli dis pc instr tu)) = some 0 := by
  simp only [__c_srli, emitted, tu_simps]
  cases dis <;> (try split_ifs) <;> rfl

theorem __c_srai_scope (dis : Bool) (pc instr : Nat) (tu : tu_builder) :
    scope_depth 0 (emitted tu (__c_srai dis pc instr tu)) = some 0 := by
  simp only [__c_srai, emitted, tu_simps]
  cases dis <;> (try split_ifs) <;> rfl

theorem __c_andi_scope (dis : Bool) (pc instr : Nat) (tu : tu_builder) :
    scope_depth 0 (emitted tu (__c_andi dis pc instr tu)) = some 0 := by
  simp only [__c_andi, emitted, tu_simps]
  cases dis <;> (try split_ifs) <;> rfl

theorem __c_sub_scope (dis : Bool) (pc instr : Nat) (tu : tu_builder) :
    scope_depth 0 (emitted tu (__c_sub dis pc instr tu)) = some 0 := by
  simp only [__c_sub, emitted, tu_simps]
  cases dis <;> (try split_ifs) <;> rfl

theorem __c_xor_scope (dis : Bool) (pc instr : Nat) (tu : tu_builder) :
    scope_depth 0 (emitted tu (__c_xor dis pc instr tu)) = some 0 := by
  simp only [__c_xor, emitted, tu_simps]
  cases dis <;> (try split_ifs) <;> rfl

theorem __c_or_scope (dis : Bool) (pc instr : Nat) (tu : tu_builder) :
    scope_depth 0 (emitted tu (__c_or dis pc instr tu)) = some 0 := by
  simp only [__c_or, emitted, tu_simps]
  cases dis <;> (try split_ifs) <;> rfl

theorem __c_and_scope (dis : Bool) (pc instr : Nat) (tu : tu_builder) :
    scope_depth 0 (emitted tu (__c_and dis pc instr tu)) = some 0 := by
  simp only [__c_and, emitted, tu_simps]
  cases dis <;> (try split_ifs) <;> rfl

theorem __c_j_scope (dis : Bool) (pc instr : Nat) (tu : tu_builder) :
    scope_depth 0 (emitted tu (__c_j dis pc instr tu)) = some 0 := by
  simp only [__c_j, emitted, tu_simps]
  cases dis <;> (try split_ifs) <;> rfl

theorem __c_beqz_scope (dis : Bool) (pc instr : Nat) (tu : tu_builder) :
    scope_depth 0 (emitted tu (__c_beqz dis pc instr tu)) = some 0 := by
  simp only [__c_beqz, emitted, tu_simps]
  cases dis <;> (try split_ifs) <;> rfl

theorem __c_bnez_scope (dis : Bool) (pc instr : Nat) (tu : tu_builder) :
    scope_depth 0 (emitted tu (__c_bnez dis pc instr tu)) = some 0 := by
  simp only [__c_bnez, emitted, tu_simps]
  cases dis <;> (try split_ifs) <;> rfl

theorem __c_slli_scope (dis : Bool) (pc instr : Nat) (tu : tu_builder) :
    scope_depth 0 (emitted tu (__c_slli dis pc instr tu)) = some 0 := by
  simp only [__c_slli, emitted, tu_simps]
  cases dis <;> (try split_ifs) <;> rfl

theorem __c_lwsp_scope (dis : Bool) (pc instr : Nat) (tu : tu_builder) :
    scope_depth 0 (emitted tu (__c_lwsp dis pc instr tu)) = some 0 := by
  simp only [__c_lwsp, emitted, tu_simps]
  cases dis <;> (try split_ifs) <;> rfl

theorem __c_mv_scope (dis : Bool) (pc instr : Nat) (tu : tu_builder) :
    scope_depth 0 (emitted tu (__c_mv dis pc instr tu)) = some 0 := by
  simp only [__c_mv, emitted, tu_simps]
  cases dis <;> (try split_ifs) <;> rfl

theorem __c_jr_scope (dis : Bool) (pc instr : Nat) (tu : tu_builder) :
    scope_depth 0 (emitted tu (__c_jr dis pc instr tu)) = some 0 := by
  simp only [__c_jr, emitted, tu_simps]
  cases dis <;> (try split_ifs) <;> rfl

theorem __c_add_scope (dis : Bool) (pc instr : Nat) (tu : tu_builder) :
    scope_depth 0 (emitted tu (__c_add dis pc instr tu)) = some 0 := by
  simp only [__c_add, emitted, tu_simps]
  cases dis <;> (try split_ifs) <;> rfl

theorem __c_jalr_scope (dis : Bool) (pc instr : Nat) (tu : tu_builder) :
    scope_depth 0 (emitted tu (__c_jalr dis pc instr tu)) = some 0 := by
  simp only [__c_jalr, emitted, tu_simps]
  cases dis <;> (try split_ifs) <;> rfl

theorem __c_ebreak_scope (dis : Bool) (pc instr : Nat) (tu : tu_builder) :
    scope_depth 0 (emitted tu (__c_ebreak dis pc instr tu)) = some 0 := by
  simp only [__c_ebreak, emitted, tu_simps]
  cases dis <;> (try split_ifs) <;> rfl

theorem __c_swsp_scope (dis : Bool) (pc instr : Nat) (tu : tu_builder) :
    scope_depth 0 (emitted tu (__c_swsp dis pc instr tu)) = some 0 := by
  simp only [__c_swsp, emitted, tu_simps]
  cases dis <;> (try split_ifs) <;> rfl

theorem __dii_scope (dis : Bool) (pc instr : Nat) (tu : tu_builder) :
    scope_depth 0 (emitted tu (__dii dis pc instr tu)) = some 0 := by
  simp only [__dii, emitted, tu_simps]
  cases dis <;> (try split_ifs) <;> rfl

theorem __c_flw_scope (dis : Bool) (pc instr : Nat) (tu : tu_builder) :
    scope_depth 0 (emitted tu (__c_flw dis pc instr tu)) = some 0 := by
  simp only [__c_flw, emitted, tu_simps]
  cases dis <;> (try split_ifs) <;> rfl

theorem __c_fsw_scope (dis : Bool) (pc instr : Nat) (tu : tu_builder) :
    scope_depth 0 (emitted tu (__c_fsw dis pc instr tu)) = some 0 := by
  simp only [__c_fsw, emitted, tu_simps]
  cases dis <;> (try split_ifs) <;> rfl

theorem __c_flwsp_scope (dis : Bool) (pc instr : Nat) (tu : tu_builder) :
    scope_depth 0 (emitted tu (__c_flwsp dis pc instr tu)) = some 0 := by
  simp only [__c_flwsp, emitted, tu_simps]
  cases dis <;> (try split_ifs) <;> rfl

theorem __c_fswsp_scope (dis : Bool) (pc instr : Nat) (tu : tu_builder) :
    scope_depth 0 (emitted tu (__c_fswsp dis pc instr tu)) = some 0 := by
  simp only [__c_fswsp, emitted, tu_simps]
  cases dis <;> (try split_ifs) <;> rfl

theorem __c_fld_scope (dis : Bool) (pc instr : Nat) (tu : tu_builder) :
    scope_depth 0 (emitted tu (__c_fld dis pc instr tu)) = some 0 := by
  simp only [__c_fld, emitted, tu_simps]
  cases dis <;> (try split_ifs) <;> rfl

theorem __c_fsd_scope (dis : Bool) (pc instr : Nat) (tu : tu_builder) :
    scope_depth 0 (emitted tu (__c_fsd dis pc instr tu)) = some 0 := by
  simp only [__c_fsd, emitted, tu_simps]
  cases dis <;> (try split_ifs) <;> rfl

theorem __c_fldsp_scope (dis : Bool) (pc instr : Nat) (tu : tu_builder) :
    scope_depth 0 (emitted tu (__c_fldsp dis pc instr tu)) = some 0 := by
  simp only [__c_fldsp, emitted, tu_simps]
  cases dis <;> (try split_ifs) <;> rfl

theorem __c_fsdsp_scope (dis : Bool) (pc instr : Nat) (tu : tu_builder) :
    scope_depth 0 (emitted tu (__c_fsdsp dis pc instr tu)) = some 0 := by
  simp only [__c_fsdsp, emitted, tu_simps]
  cases dis <;> (try split_ifs) <;> rfl

theorem illegal_intruction_scope (pc instr : Nat) (tu : tu_builder) :
    scope_depth 0 (emitted tu (illegal_intruction pc instr tu)) = some 0 := by
  simp only [illegal_intruction, emitted, tu_simps]
  rfl

/-- Every handler leaves the nesting depth where it found it and never closes a block it
did not open. -/
theorem invoke_scope (f : compile_func) (dis : Bool) (pc instr : Nat) (tu : tu_builder) :
    scope_depth 0 (emitted tu (invoke f dis pc instr tu)) = some 0 :=
  match f with
  | compile_func.__mul => __mul_scope dis pc instr tu
  | compile_func.__mulh => __mulh_scope dis pc instr tu
  | compile_func.__mulhsu => __mulhsu_scope dis pc instr tu
  | compile_func.__mulhu => __mulhu_scope dis pc instr tu
  | compile_func.__div => __div_scope dis pc instr tu
  | compile_func.__divu => __divu_scope dis pc instr tu
  | compile_func.__rem => __rem_scope dis pc instr tu
  | compile_func.__remu => __remu_scope dis pc instr tu
  | compile_func.__lr_w => __lr_w_scope dis pc instr tu
  | compile_func.__sc_w => __sc_w_scope dis pc instr tu
  | compile_func.__amoswap_w => __amoswap_w_scope dis pc instr tu
  | compile_func.__amoadd_w => __amoadd_w_scope dis pc instr tu
  | compile_func.__amoxor_w => __amoxor_w_scope dis pc instr tu
  | compile_func.__amoand_w => __amoand_w_scope dis pc instr tu
  | compile_func.__amoor_w => __amoor_w_scope dis pc instr tu
  | compile_func.__amomin_w => __amomin_w_scope dis pc instr tu
  | compile_func.__amomax_w => __amomax_w_scope dis pc instr tu
  | compile_func.__amominu_w => __amominu_w_scope dis pc instr tu
  | compile_func.__amomaxu_w => __amomaxu_w_scope dis pc instr tu
  | compile_func.__lui => __lui_scope dis pc instr tu
  | compile_func.__auipc => __auipc_scope dis pc instr tu
  | compile_func.__jal => __jal_scope dis pc instr tu
  | compile_func.__beq => __beq_scope dis pc instr tu
  | compile_func.__bne => __bne_scope dis pc instr tu
  | compile_func.__blt => __blt_scope dis pc instr tu
  | compile_func.__bge => __bge_scope dis pc instr tu
  | compile_func.__bltu => __bltu_scope dis pc instr tu
  | compile_func.__bgeu => __bgeu_scope dis pc instr tu
  | compile_func.__lb => __lb_scope dis pc instr tu
  | compile_func.__lh => __lh_scope dis pc instr tu
  | compile_func.__lw => __lw_scope dis pc instr tu
  | compile_func.__lbu => __lbu_scope dis pc instr tu
  | compile_func.__lhu => __lhu_scope dis pc instr tu
  | compile_func.__sb => __sb_scope dis pc instr tu
  | compile_func.__sh => __sh_scope dis pc instr tu
  | compile_func.__sw => __sw_scope dis pc instr tu
  | compile_func.__addi => __addi_scope dis pc instr tu
  | compile_func.__slti => __slti_scope dis pc instr tu
  | compile_func.__sltiu => __sltiu_scope dis pc instr tu
  | compile_func.__xori => __xori_scope dis pc instr tu
  | compile_func.__ori => __ori_scope dis pc instr tu
  | compile_func.__andi => __andi_scope dis pc instr tu
  | compile_func.__slli => __slli_scope dis pc instr tu
  | compile_func.__srli => __srli_scope dis pc instr tu
  | compile_func.__srai => __srai_scope dis pc instr tu
  | compile_func.__add => __add_scope dis pc instr tu
  | compile_func.__sub => __sub_scope dis pc instr tu
  | compile_func.__sll => __sll_scope dis pc instr tu
  | compile_func.__slt => __slt_scope dis pc instr tu
  | compile_func.__sltu => __sltu_scope dis pc instr tu
  | compile_func.__xor => __xor_scope dis pc instr tu
  | compile_func.__srl => __srl_scope dis pc instr tu
  | compile_func.__sra => __sra_scope dis pc instr tu
  | compile_func.__or => __or_scope dis pc instr tu
  | compile_func.__and => __and_scope dis pc instr tu
  | compile_func.__fence => __fence_scope dis pc instr tu
  | compile_func.__fence_i => __fence_i_scope dis pc instr tu
  | compile_func.__ecall => __ecall_scope dis pc instr tu
  | compile_func.__ebreak => __ebreak_scope dis pc instr tu
  | compile_func.__uret => __uret_scope dis pc instr tu
  | compile_func.__sret => __sret_scope dis pc instr tu
  | compile_func.__mret => __mret_scope dis pc instr tu
  | compile_func.__wfi => __wfi_scope dis pc instr tu
  | compile_func.__sfence_vma => __sfence_vma_scope dis pc instr tu
  | compile_func.__csrrw => __csrrw_scope dis pc instr tu
  | compile_func.__csrrs => __csrrs_scope dis pc instr tu
  | compile_func.__csrrc => __csrrc_scope dis pc instr tu
  | compile_func.__csrrwi => __csrrwi_scope dis pc instr tu
  | compile_func.__csrrsi => __csrrsi_scope dis pc instr tu
  | compile_func.__csrrci => __csrrci_scope dis pc instr tu
  | compile_func.__flw => __flw_scope dis pc instr tu
  | compile_func.__fsw => __fsw_scope dis pc instr tu
  | compile_func.__fmadd_s => __fmadd_s_scope dis pc instr tu
  | compile_func.__fmsub_s => __fmsub_s_scope dis pc instr tu
  | compile_func.__fnmadd_s => __fnmadd_s_scope dis pc instr tu
  | compile_func.__fnmsub_s => __fnmsub_s_scope dis pc instr tu
  | compile_func.__fadd_s => __fadd_s_scope dis pc instr tu
  | compile_func.__fsub_s => __fsub_s_scope dis pc instr tu
  | compile_func.__fmul_s => __fmul_s_scope dis pc instr tu
  | compile_func.__fdiv_s => __fdiv_s_scope dis pc instr tu
  | compile_func.__fsqrt_s => __fsqrt_s_scope dis pc instr tu
  | compile_func.__fsgnj_s => __fsgnj_s_scope dis pc instr tu
  | compile_func.__fsgnjn_s => __fsgnjn_s_scope dis pc instr tu
  | compile_func.__fsgnjx_s => __fsgnjx_s_scope dis pc instr tu
  | compile_func.__fmin_s => __fmin_s_scope dis pc instr tu
  | compile_func.__fmax_s => __fmax_s_scope dis pc instr tu
  | compile_func.__fcvt_w_s => __fcvt_w_s_scope dis pc instr tu
  | compile_func.__fcvt_wu_s => __fcvt_wu_s_scope dis pc instr tu
  | compile_func.__feq_s => __feq_s_scope dis pc instr tu
  | compile_func.__flt_s => __flt_s_scope dis pc instr tu
  | compile_func.__fle_s => __fle_s_scope dis pc instr tu
  | compile_func.__fclass_s => __fclass_s_scope dis pc instr tu
  | compile_func.__fcvt_s_w => __fcvt_s_w_scope dis pc instr tu
  | compile_func.__fcvt_s_wu => __fcvt_s_wu_scope dis pc instr tu
  | compile_func.__fmv_x_w => __fmv_x_w_scope dis pc instr tu
  | compile_func.__fmv_w_x => __fmv_w_x_scope dis pc instr tu
  | compile_func.__fld => __fld_scope dis pc instr tu
  | compile_func.__fsd => __fsd_scope dis pc instr tu
  | compile_func.__fmadd_d => __fmadd_d_scope dis pc instr tu
  | compile_func.__fmsub_d => __fmsub_d_scope dis pc instr tu
  | compile_func.__fnmadd_d => __fnmadd_d_scope dis pc instr tu
  | compile_func.__fnmsub_d => __fnmsub_d_scope dis pc instr tu
  | compile_func.__fadd_d => __fadd_d_scope dis pc instr tu
  | compile_func.__fsub_d => __fsub_d_scope dis pc instr tu
  | compile_func.__fmul_d => __fmul_d_scope dis pc instr tu
  | compile_func.__fdiv_d => __fdiv_d_scope dis pc instr tu
  | compile_func.__fsqrt_d => __fsqrt_d_scope dis pc instr tu
  | compile_func.__fsgnj_d => __fsgnj_d_scope dis pc instr tu
  | compile_func.__fsgnjn_d => __fsgnjn_d_scope dis pc instr tu
  | compile_func.__fsgnjx_d => __fsgnjx_d_scope dis pc instr tu
  | compile_func.__fmin_d => __fmin_d_scope dis pc instr tu
  | compile_func.__fmax_d => __fmax_d_scope dis pc instr tu
  | compile_func.__fcvt_s_d => __fcvt_s_d_scope dis pc instr tu
  | compile_func.__fcvt_d_s => __fcvt_d_s_scope dis pc instr tu
  | compile_func.__feq_d => __feq_d_scope dis pc instr tu
  | compile_func.__flt_d => __flt_d_scope dis pc instr tu
  | compile_func.__fle_d => __fle_d_scope dis pc instr tu
  | compile_func.__fclass_d => __fclass_d_scope dis pc instr tu
  | compile_func.__fcvt_w_d => __fcvt_w_d_scope dis pc instr tu
  | compile_func.__fcvt_wu_d => __fcvt_wu_d_scope dis pc instr tu
  | compile_func.__fcvt_d_w => __fcvt_d_w_scope dis pc instr tu
  | compile_func.__fcvt_d_wu => __fcvt_d_wu_scope dis pc instr tu
  | compile_func.__jalr => __jalr_scope dis pc instr tu
  | compile_func.__c_addi4spn => __c_addi4spn_scope dis pc instr tu
  | compile_func.__c_lw => __c_lw_scope dis pc instr tu
  | compile_func.__c_sw => __c_sw_scope dis pc instr tu
  | compile_func.__c_addi => __c_addi_scope dis pc instr tu
  | compile_func.__c_nop => __c_nop_scope dis pc instr tu
  | compile_func.__c_jal => __c_jal_scope dis pc instr tu
  | compile_func.__c_li => __c_li_scope dis pc instr tu
  | compile_func.__c_lui => __c_lui_scope dis pc instr tu
  | compile_func.__c_addi16sp => __c_addi16sp_scope dis pc instr tu
  | compile_func.__c_srli => __c_srli_scope dis pc instr tu
  | compile_func.__c_srai => __c_srai_scope dis pc instr tu
  | compile_func.__c_andi => __c_andi_scope dis pc instr tu
  | compile_func.__c_sub => __c_sub_scope dis pc instr tu
  | compile_func.__c_xor => __c_xor_scope dis pc instr tu
  | compile_func.__c_or => __c_or_scope dis pc instr tu
  | compile_func.__c_and => __c_and_scope dis pc instr tu
  | compile_func.__c_j => __c_j_scope dis pc instr tu
  | compile_func.__c_beqz => __c_beqz_scope dis pc instr tu
  | compile_func.__c_bnez => __c_bnez_scope dis pc instr tu
  | compile_func.__c_slli => __c_slli_scope dis pc instr tu
  | compile_func.__c_lwsp => __c_lwsp_scope dis pc instr tu
  | compile_func.__c_mv => __c_mv_scope dis pc instr tu
  | compile_func.__c_jr => __c_jr_scope dis pc instr tu
  | compile_func.__c_add => __c_add_scope dis pc instr tu
  | compile_func.__c_jalr => __c_jalr_scope dis pc instr tu
  | compile_func.__c_ebreak => __c_ebreak_scope dis pc instr tu
  | compile_func.__c_swsp => __c_swsp_scope dis pc instr tu
  | compile_func.__dii => __dii_scope dis pc instr tu
  | compile_func.__c_flw => __c_flw_scope dis pc instr tu
  | compile_func.__c_fsw => __c_fsw_scope dis pc instr tu
  | compile_func.__c_flwsp => __c_flwsp_scope dis pc instr tu
  | compile_func.__c_fswsp => __c_fswsp_scope dis pc instr tu
  | compile_func.__c_fld => __c_fld_scope dis pc instr tu
  | compile_func.__c_fsd => __c_fsd_scope dis pc instr tu
  | compile_func.__c_fldsp => __c_fldsp_scope dis pc instr tu
  | compile_func.__c_fsdsp => __c_fsdsp_scope dis pc instr tu
  | compile_func.illegal_intruction => illegal_intruction_scope pc instr tu

/-- One line moves a depth counted from `d + k` as it moves the depth counted from `k`. -/
theorem scope_step_add (d : Nat) (l : line) (k : Option Nat) (j : Nat)
    (h : scope_step k l = some j) :
    ∃ i, k = some i ∧ scope_step (some (d + i)) l = some (d + j) := by
  cases k with
  | none => cases l <;> simp [scope_step] at h
  | some i =>
    refine ⟨i, rfl, ?_⟩
    cases l <;> simp only [scope_step] at h ⊢ <;>
      cases i with
      | zero => simp_all [scope_step]
      | succ i => simp_all [scope_step]; try omega

/-- Lines that are balanced from depth 0 are balanced from every depth. -/
theorem scope_depth_add (d : Nat) (ls : List line) :
    ∀ (k j : Nat), scope_depth k ls = some j → scope_depth (d + k) ls = some (d + j) := by
  induction ls using List.reverseRecOn with
  | nil =>
    intro k j h
    simp only [scope_depth, List.foldl_nil, Option.some.injEq] at h ⊢
    omega
  | append_singleton ls l ih =>
    intro k j h
    simp only [scope_depth, List.foldl_append, List.foldl_cons, List.foldl_nil] at h ⊢
    obtain ⟨i, hi, hstep⟩ := scope_step_add d l _ j h
    have := ih k i hi
    simp only [scope_depth] at this
    rw [this]
    exact hstep


theorem scope_step_none (l : line) : scope_step none l = none := by
  cases l <;> rfl

theorem scope_foldl_none (ls : List line) : ls.foldl scope_step none = none := by
  induction ls with
  | nil => rfl
  | cons l ls ih => rw [List.foldl_cons, scope_step_none, ih]

/-- Lines that are balanced as a whole never close a block that is not open. -/
theorem scope_depth_take (d j : Nat) (ls : List line) (h : scope_depth d ls = some j)
    (k : Nat) : ∃ i, scope_depth d (ls.take k) = some i := by
  cases hp : scope_depth d (ls.take k) with
  | some i => exact ⟨i, rfl⟩
  | none =>
    exfalso
    have hsplit : scope_depth d ls = (ls.drop k).foldl scope_step (scope_depth d (ls.take k)) := by
      unfold scope_depth
      rw [← List.foldl_append, List.take_append_drop]
    rw [hsplit, hp, scope_foldl_none] at h
    exact absurd h (by simp)
/-! ## Compressed words: the lookup index and the bytes that follow -/

/-- With the mask of the compressed quadrants the index is built from the low 14 bits. -/
theorem extract_fields_pos_low (val : Nat) :
    ∀ (n acc : Nat), extract_fields_pos n val 16383 acc =
      acc * 2 ^ (min n 14) + val % 2 ^ (min n 14) := by
  intro n
  induction n with
  | zero =>
    intro acc
    simp [extract_fields_pos, Nat.mod_one]
  | succ p ih =>
    intro acc
    have hm : (16383 : Nat).testBit p = decide (p < 14) := by
      have := Nat.testBit_two_pow_sub_one 14 p
      simpa using this
    unfold extract_fields_pos
    by_cases hp : p < 14
    · have hmask : ¬((16383 : Nat) &&& 1 <<< p = 0) := by
        rw [and_one_shiftLeft_eq_zero, hm]
        simp [hp]
      simp only [hmask, if_false]
      rw [ih]
      have h1 : min p 14 = p := by omega
      have h2 : min (p + 1) 14 = p + 1 := by omega
      rw [h1, h2, Nat.mod_pow_succ, pow_succ]
      have hb : (if val &&& 1 <<< p ≠ 0 then acc <<< 1 + 1 else acc <<< 1) =
          acc * 2 + val / 2 ^ p % 2 := by
        have hsh : acc <<< 1 = acc * 2 := by rw [Nat.shiftLeft_eq, pow_one]
        rw [hsh]
        have hiff : val &&& 1 <<< p = 0 ↔ val.testBit p = false :=
          and_one_shiftLeft_eq_zero val p
        rw [Nat.testBit_to_div_mod] at hiff
        have hlt : val / 2 ^ p % 2 < 2 := Nat.mod_lt _ (by decide)
        by_cases hz : val &&& 1 <<< p = 0
        · have := hiff.mp hz
          simp only [decide_eq_false_iff_not] at this
          simp only [hz, ne_eq, not_true_eq_false, if_false]
          omega
        · have : val / 2 ^ p % 2 = 1 := by
            by_contra hne
            apply hz
            apply hiff.mpr
            simpa using hne
          simp only [hz, ne_eq, not_false_eq_true, if_true]
          omega
      rw [hb]
      ring
    · have hmask : (16383 : Nat) &&& 1 <<< p = 0 := by
        rw [and_one_shiftLeft_eq_zero, hm]
        simp [hp]
      simp only [hmask, if_true]
      rw [ih]
      have h1 : min p 14 = 14 := by omega
      have h2 : min (p + 1) 14 = 14 := by omega
      rw [h1, h2]

/-- The lookup index of a compressed word is `(w >> 2) & 0x3FFF`. -/
theorem extract_fields_compressed (w : Nat) (hc : w &&& 0x3 ≠ 0x3) :
    extract_fields w = (w >>> 2) &&& 0x3FFF := by
  have hq : w &&& 0x3 < 4 := Nat.lt_of_le_of_lt Nat.and_le_right (by decide)
  have hl : lutmasks (w &&& 0x3) = 16383 := by
    generalize w &&& 0x3 = q at hq hc
    interval_cases q
    · rfl
    · rfl
    · rfl
    · exact absurd rfl hc
  unfold extract_fields extract_fields_at
  rw [hl, show ((29 : Int) + 1).toNat = 30 from rfl, extract_fields_pos_low]
  have : (0x3FFF : Nat) = 2 ^ 14 - 1 := by norm_num
  rw [this, Nat.and_pow_two_sub_one_eq_mod]
  simp

/-- Words with equal low halfwords have equal bit fields below bit 16. -/
theorem bit_sub_low16 {w1 w2 : Nat} (h16 : w1 &&& 0xFFFF = w2 &&& 0xFFFF) (lo width : Nat)
    (h : lo + width ≤ 16) : bit_sub lo width w1 = bit_sub lo width w2 := by
  have hmod : w1 % 2 ^ 16 = w2 % 2 ^ 16 := by
    have e : (0xFFFF : Nat) = 2 ^ 16 - 1 := by norm_num
    rw [e, Nat.and_pow_two_sub_one_eq_mod, Nat.and_pow_two_sub_one_eq_mod] at h16
    exact h16
  have hbit : ∀ i, i < 16 → w1.testBit i = w2.testBit i := by
    intro i hi
    have h := congrArg (fun x => x.testBit i) hmod
    simp only [Nat.testBit_mod_two_pow, hi, decide_True, Bool.true_and] at h
    exact h
  unfold bit_sub
  apply Nat.eq_of_testBit_eq
  intro i
  rw [Nat.one_shiftLeft]
  simp only [Nat.testBit_and, Nat.testBit_shiftRight, Nat.testBit_two_pow_sub_one]
  by_cases hi : i < width
  · rw [hbit (lo + i) (by omega)]
  · simp [hi]

theorem low16_quadrant {w1 w2 : Nat} (h16 : w1 &&& 0xFFFF = w2 &&& 0xFFFF) :
    w1 &&& 0x3 = w2 &&& 0x3 := by
  have := bit_sub_low16 h16 0 2 (by decide)
  simpa [bit_sub] using this

theorem low16_index {w1 w2 : Nat} (h16 : w1 &&& 0xFFFF = w2 &&& 0xFFFF) :
    (w1 >>> 2) &&& 0x3FFF = (w2 >>> 2) &&& 0x3FFF := by
  have := bit_sub_low16 h16 2 14 (by decide)
  simpa [bit_sub] using this

/-- Compressed words with equal low halfwords select the same handler. -/
theorem select_handler_low16 {w1 w2 : Nat} (h16 : w1 &&& 0xFFFF = w2 &&& 0xFFFF)
    (hc : w1 &&& 0x3 ≠ 0x3) : select_handler w1 = select_handler w2 := by
  have hq := low16_quadrant h16
  have hc2 : w2 &&& 0x3 ≠ 0x3 := by rw [← hq]; exact hc
  unfold select_handler
  rw [extract_fields_compressed w1 hc, extract_fields_compressed w2 hc2, hq, low16_index h16]

/-! ## Compressed handlers read only the low halfword -/

theorem __c_addi4spn_low16 (dis : Bool) (pc : Nat) (tu : tu_builder) {w1 w2 : Nat}
    (h16 : w1 &&& 0xFFFF = w2 &&& 0xFFFF) : __c_addi4spn dis pc w1 tu = __c_addi4spn dis pc w2 tu := by
  simp only [__c_addi4spn, bit_sub_low16 h16 2 3 (by decide), bit_sub_low16 h16 5 1 (by decide), bit_sub_low16 h16 6 1 (by decide), bit_sub_low16 h16 7 4 (by decide), bit_sub_low16 h16 11 2 (by decide)]

theorem __c_lw_low16 (dis : Bool) (pc : Nat) (tu : tu_builder) {w1 w2 : Nat}
    (h16 : w1 &&& 0xFFFF = w2 &&& 0xFFFF) : __c_lw dis pc w1 tu = __c_lw dis pc w2 tu := by
  simp only [__c_lw, bit_sub_low16 h16 2 3 (by decide), bit_sub_low16 h16 5 1 (by decide), bit_sub_low16 h16 6 1 (by decide), bit_sub_low16 h16 7 3 (by decide), bit_sub_low16 h16 10 3 (by decide)]

theorem __c_sw_low16 (dis : Bool) (pc : Nat) (tu : tu_builder) {w1 w2 : Nat}
    (h16 : w1 &&& 0xFFFF = w2 &&& 0xFFFF) : __c_sw dis pc w1 tu = __c_sw dis pc w2 tu := by
  simp only [__c_sw, bit_sub_low16 h16 2 3 (by decide), bit_sub_low16 h16 5 1 (by decide), bit_sub_low16 h16 6 1 (by decide), bit_sub_low16 h16 7 3 (by decide), bit_sub_low16 h16 10 3 (by decide)]

theorem __c_addi_low16 (dis : Bool) (pc : Nat) (tu : tu_builder) {w1 w2 : Nat}
    (h16 : w1 &&& 0xFFFF = w2 &&& 0xFFFF) : __c_addi dis pc w1 tu = __c_addi dis pc w2 tu := by
  simp only [__c_addi, bit_sub_low16 h16 2 5 (by decide), bit_sub_low16 h16 7 5 (by decide), bit_sub_low16 h16 12 1 (by decide)]

theorem __c_nop_low16 (dis : Bool) (pc : Nat) (tu : tu_builder) {w1 w2 : Nat}
    (_h16 : w1 &&& 0xFFFF = w2 &&& 0xFFFF) : __c_nop dis pc w1 tu = __c_nop dis pc w2 tu :=
  rfl

theorem __c_jal_low16 (dis : Bool) (pc : Nat) (tu : tu_builder) {w1 w2 : Nat}
    (h16 : w1 &&& 0xFFFF = w2 &&& 0xFFFF) : __c_jal dis pc w1 tu = __c_jal dis pc w2 tu := by
  simp only [__c_jal, bit_sub_low16 h16 2 1 (by decide), bit_sub_low16 h16 3 3 (by decide), bit_sub_low16 h16 6 1 (by decide), bit_sub_low16 h16 7 1 (by decide), bit_sub_low16 h16 8 1 (by decide), bit_sub_low16 h16 9 2 (by decide), bit_sub_low16 h16 11 1 (by decide), bit_sub_low16 h16 12 1 (by decide)]

theorem __c_li_low16 (dis : Bool) (pc : Nat) (tu : tu_builder) {w1 w2 : Nat}
    (h16 : w1 &&& 0xFFFF = w2 &&& 0xFFFF) : __c_li dis pc w1 tu = __c_li dis pc w2 tu := by
  simp only [__c_li, bit_sub_low16 h16 2 5 (by decide), bit_sub_low16 h16 7 5 (by decide), bit_sub_low16 h16 12 1 (by decide)]

theorem __c_lui_low16 (dis : Bool) (pc : Nat) (tu : tu_builder) {w1 w2 : Nat}
    (h16 : w1 &&& 0xFFFF = w2 &&& 0xFFFF) : __c_lui dis pc w1 tu = __c_lui dis pc w2 tu := by
  simp only [__c_lui, bit_sub_low16 h16 2 5 (by decide), bit_sub_low16 h16 7 5 (by decide), bit_sub_low16 h16 12 1 (by decide)]

theorem __c_addi16sp_low16 (dis : Bool) (pc : Nat) (tu : tu_builder) {w1 w2 : Nat}
    (h16 : w1 &&& 0xFFFF = w2 &&& 0xFFFF) : __c_addi16sp dis pc w1 tu = __c_addi16sp dis pc w2 tu := by
  simp only [__c_addi16sp, bit_sub_low16 h16 2 1 (by decide), bit_sub_low16 h16 3 2 (by decide), bit_sub_low16 h16 5 1 (by decide), bit_sub_low16 h16 6 1 (by decide), bit_sub_low16 h16 12 1 (by decide)]

theorem __c_srli_low16 (dis : Bool) (pc : Nat) (tu : tu_builder) {w1 w2 : Nat}
    (h16 : w1 &&& 0xFFFF = w2 &&& 0xFFFF) : __c_srli dis pc w1 tu = __c_srli dis pc w2 tu := by
  simp only [__c_srli, bit_sub_low16 h16 2 5 (by decide), bit_sub_low16 h16 7 3 (by decide)]

theorem __c_srai_low16 (dis : Bool) (pc : Nat) (tu : tu_builder) {w1 w2 : Nat}
    (h16 : w1 &&& 0xFFFF = w2 &&& 0xFFFF) : __c_srai dis pc w1 tu = __c_srai dis pc w2 tu := by
  simp only [__c_srai, bit_sub_low16 h16 2 5 (by decide), bit_sub_low16 h16 7 3 (by decide)]

theorem __c_andi_low16 (dis : Bool) (pc : Nat) (tu : tu_builder) {w1 w2 : Nat}
    (h16 : w1 &&& 0xFFFF = w2 &&& 0xFFFF) : __c_andi dis pc w1 tu = __c_andi dis pc w2 tu := by
  simp only [__c_andi, bit_sub_low16 h16 2 5 (by decide), bit_sub_low16 h16 7 3 (by decide), bit_sub_low16 h16 12 1 (by decide)]

theorem __c_sub_low16 (dis : Bool) (pc : Nat) (tu : tu_builder) {w1 w2 : Nat}
    (h16 : w1 &&& 0xFFFF = w2 &&& 0xFFFF) : __c_sub dis pc w1 tu = __c_sub dis pc w2 tu := by
  simp only [__c_sub, bit_sub_low16 h16 2 3 (by decide), bit_sub_low16 h16 7 3 (by decide)]

theorem __c_xor_low16 (dis : Bool) (pc : Nat) (tu : tu_builder) {w1 w2 : Nat}
    (h16 : w1 &&& 0xFFFF = w2 &&& 0xFFFF) : __c_xor dis pc w1 tu = __c_xor dis pc w2 tu := by
  simp only [__c_xor, bit_sub_low16 h16 2 3 (by decide), bit_sub_low16 h16 7 3 (by decide)]

theorem __c_or_low16 (dis : Bool) (pc : Nat) (tu : tu_builder) {w1 w2 : Nat}
    (h16 : w1 &&& 0xFFFF = w2 &&& 0xFFFF) : __c_or dis pc w1 tu = __c_or dis pc w2 tu := by
  simp only [__c_or, bit_sub_low16 h16 2 3 (by decide), bit_sub_low16 h16 7 3 (by decide)]

theorem __c_and_low16 (dis : Bool) (pc : Nat) (tu : tu_builder) {w1 w2 : Nat}
    (h16 : w1 &&& 0xFFFF = w2 &&& 0xFFFF) : __c_and dis pc w1 tu = __c_and dis pc w2 tu := by
  simp only [__c_and, bit_sub_low16 h16 2 3 (by decide), bit_sub_low16 h16 7 3 (by decide)]

theorem __c_j_low16 (dis : Bool) (pc : Nat) (tu : tu_builder) {w1 w2 : Nat}
    (h16 : w1 &&& 0xFFFF = w2 &&& 0xFFFF) : __c_j dis pc w1 tu = __c_j dis pc w2 tu := by
  simp only [__c_j, bit_sub_low16 h16 2 1 (by decide), bit_sub_low16 h16 3 3 (by decide), bit_sub_low16 h16 6 1 (by decide), bit_sub_low16 h16 7 1 (by decide), bit_sub_low16 h16 8 1 (by decide), bit_sub_low16 h16 9 2 (by decide), bit_sub_low16 h16 11 1 (by decide), bit_sub_low16 h16 12 1 (by decide)]

theorem __c_beqz_low16 (dis : Bool) (pc : Nat) (tu : tu_builder) {w1 w2 : Nat}
    (h16 : w1 &&& 0xFFFF = w2 &&& 0xFFFF) : __c_beqz dis pc w1 tu = __c_beqz dis pc w2 tu := by
  simp only [__c_beqz, bit_sub_low16 h16 2 1 (by decide), bit_sub_low16 h16 3 2 (by decide), bit_sub_low16 h16 5 2 (by decide), bit_sub_low16 h16 7 3 (by decide), bit_sub_low16 h16 10 2 (by decide), bit_sub_low16 h16 12 1 (by decide)]

theorem __c_bnez_low16 (dis : Bool) (pc : Nat) (tu : tu_builder) {w1 w2 : Nat}
    (h16 : w1 &&& 0xFFFF = w2 &&& 0xFFFF) : __c_bnez dis pc w1 tu = __c_bnez dis pc w2 tu := by
  simp only [__c_bnez, bit_sub_low16 h16 2 1 (by decide), bit_sub_low16 h16 3 2 (by decide), bit_sub_low16 h16 5 2 (by decide), bit_sub_low16 h16 7 3 (by decide), bit_sub_low16 h16 10 2 (by decide), bit_sub_low16 h16 12 1 (by decide)]

theorem __c_slli_low16 (dis : Bool) (pc : Nat) (tu : tu_builder) {w1 w2 : Nat}
    (h16 : w1 &&& 0xFFFF = w2 &&& 0xFFFF) : __c_slli dis pc w1 tu = __c_slli dis pc w2 tu := by
  simp only [__c_slli, bit_sub_low16 h16 2 5 (by decide), bit_sub_low16 h16 7 5 (by decide)]

theorem __c_lwsp_low16 (dis : Bool) (pc : Nat) (tu : tu_builder) {w1 w2 : Nat}
    (h16 : w1 &&& 0xFFFF = w2 &&& 0xFFFF) : __c_lwsp dis pc w1 tu = __c_lwsp dis pc w2 tu := by
  simp only [__c_lwsp, bit_sub_low16 h16 2 2 (by decide), bit_sub_low16 h16 4 3 (by decide), bit_sub_low16 h16 7 5 (by decide), bit_sub_low16 h16 12 1 (by decide)]

theorem __c_mv_low16 (dis : Bool) (pc : Nat) (tu : tu_builder) {w1 w2 : Nat}
    (h16 : w1 &&& 0xFFFF = w2 &&& 0xFFFF) : __c_mv dis pc w1 tu = __c_mv dis pc w2 tu := by
  simp only [__c_mv, bit_sub_low16 h16 2 5 (by decide), bit_sub_low16 h16 7 5 (by decide)]

theorem __c_jr_low16 (dis : Bool) (pc : Nat) (tu : tu_builder) {w1 w2 : Nat}
    (h16 : w1 &&& 0xFFFF = w2 &&& 0xFFFF) : __c_jr dis pc w1 tu = __c_jr dis pc w2 tu := by
  simp only [__c_jr, bit_sub_low16 h16 7 5 (by decide)]

theorem __c_add_low16 (dis : Bool) (pc : Nat) (tu : tu_builder) {w1 w2 : Nat}
    (h16 : w1 &&& 0xFFFF = w2 &&& 0xFFFF) : __c_add dis pc w1 tu = __c_add dis pc w2 tu := by
  simp only [__c_add, bit_sub_low16 h16 2 5 (by decide), bit_sub_low16 h16 7 5 (by decide)]

theorem __c_jalr_low16 (dis : Bool) (pc : Nat) (tu : tu_builder) {w1 w2 : Nat}
    (h16 : w1 &&& 0xFFFF = w2 &&& 0xFFFF) : __c_jalr dis pc w1 tu = __c_jalr dis pc w2 tu := by
  simp only [__c_jalr, bit_sub_low16 h16 7 5 (by decide)]

theorem __c_ebreak_low16 (dis : Bool) (pc : Nat) (tu : tu_builder) {w1 w2 : Nat}
    (_h16 : w1 &&& 0xFFFF = w2 &&& 0xFFFF) : __c_ebreak dis pc w1 tu = __c_ebreak dis pc w2 tu :=
  rfl

theorem __c_swsp_low16 (dis : Bool) (pc : Nat) (tu : tu_builder) {w1 w2 : Nat}
    (h16 : w1 &&& 0xFFFF = w2 &&& 0xFFFF) : __c_swsp dis pc w1 tu = __c_swsp dis pc w2 tu := by
  simp only [__c_swsp, bit_sub_low16 h16 2 5 (by decide), bit_sub_low16 h16 7 2 (by decide), bit_sub_low16 h16 9 4 (by decide)]

theorem __dii_low16 (dis : Bool) (pc : Nat) (tu : tu_builder) {w1 w2 : Nat}
    (_h16 : w1 &&& 0xFFFF = w2 &&& 0xFFFF) : __dii dis pc w1 tu = __dii dis pc w2 tu :=
  rfl

theorem __c_flw_low16 (dis : Bool) (pc : Nat) (tu : tu_builder) {w1 w2 : Nat}
    (h16 : w1 &&& 0xFFFF = w2 &&& 0xFFFF) : __c_flw dis pc w1 tu = __c_flw dis pc w2 tu := by
  simp only [__c_flw, bit_sub_low16 h16 2 3 (by decide), bit_sub_low16 h16 5 1 (by decide), bit_sub_low16 h16 6 1 (by decide), bit_sub_low16 h16 7 3 (by decide), bit_sub_low16 h16 10 3 (by decide)]

theorem __c_fsw_low16 (dis : Bool) (pc : Nat) (tu : tu_builder) {w1 w2 : Nat}
    (h16 : w1 &&& 0xFFFF = w2 &&& 0xFFFF) : __c_fsw dis pc w1 tu = __c_fsw dis pc w2 tu := by
  simp only [__c_fsw, bit_sub_low16 h16 2 3 (by decide), bit_sub_low16 h16 5 1 (by decide), bit_sub_low16 h16 6 1 (by decide), bit_sub_low16 h16 7 3 (by decide), bit_sub_low16 h16 10 3 (by decide)]

theorem __c_flwsp_low16 (dis : Bool) (pc : Nat) (tu : tu_builder) {w1 w2 : Nat}
    (h16 : w1 &&& 0xFFFF = w2 &&& 0xFFFF) : __c_flwsp dis pc w1 tu = __c_flwsp dis pc w2 tu := by
  simp only [__c_flwsp, bit_sub_low16 h16 2 2 (by decide), bit_sub_low16 h16 4 3 (by decide), bit_sub_low16 h16 7 5 (by decide), bit_sub_low16 h16 12 1 (by decide)]

theorem __c_fswsp_low16 (dis : Bool) (pc : Nat) (tu : tu_builder) {w1 w2 : Nat}
    (h16 : w1 &&& 0xFFFF = w2 &&& 0xFFFF) : __c_fswsp dis pc w1 tu = __c_fswsp dis pc w2 tu := by
  simp only [__c_fswsp, bit_sub_low16 h16 2 5 (by decide), bit_sub_low16 h16 7 2 (by decide), bit_sub_low16 h16 9 4 (by decide)]

theorem __c_fld_low16 (dis : Bool) (pc : Nat) (tu : tu_builder) {w1 w2 : Nat}
    (h16 : w1 &&& 0xFFFF = w2 &&& 0xFFFF) : __c_fld dis pc w1 tu = __c_fld dis pc w2 tu := by
  simp only [__c_fld, bit_sub_low16 h16 2 3 (by decide), bit_sub_low16 h16 5 2 (by decide), bit_sub_low16 h16 7 3 (by decide), bit_sub_low16 h16 10 3 (by decide)]

theorem __c_fsd_low16 (dis : Bool) (pc : Nat) (tu : tu_builder) {w1 w2 : Nat}
    (h16 : w1 &&& 0xFFFF = w2 &&& 0xFFFF) : __c_fsd dis pc w1 tu = __c_fsd dis pc w2 tu := by
  simp only [__c_fsd, bit_sub_low16 h16 2 3 (by decide), bit_sub_low16 h16 5 2 (by decide), bit_sub_low16 h16 7 3 (by decide), bit_sub_low16 h16 10 3 (by decide)]

theorem __c_fldsp_low16 (dis : Bool) (pc : Nat) (tu : tu_builder) {w1 w2 : Nat}
    (h16 : w1 &&& 0xFFFF = w2 &&& 0xFFFF) : __c_fldsp dis pc w1 tu = __c_fldsp dis pc w2 tu := by
  simp only [__c_fldsp, bit_sub_low16 h16 2 3 (by decide), bit_sub_low16 h16 5 2 (by decide), bit_sub_low16 h16 7 5 (by decide), bit_sub_low16 h16 12 1 (by decide)]

theorem __c_fsdsp_low16 (dis : Bool) (pc : Nat) (tu : tu_builder) {w1 w2 : Nat}
    (h16 : w1 &&& 0xFFFF = w2 &&& 0xFFFF) : __c_fsdsp dis pc w1 tu = __c_fsdsp dis pc w2 tu := by
  simp only [__c_fsdsp, bit_sub_low16 h16 2 5 (by decide), bit_sub_low16 h16 7 3 (by decide), bit_sub_low16 h16 10 3 (by decide)]

/-- The handlers of the 16-bit descriptors. -/
theorem compressed_handlers_eq :
    compressed_handlers = (instr_descr.drop 123).map InstructionDesriptor.op := by
  decide

/-- A descriptor outside quadrant 3 has a handler of the 16-bit descriptors. -/
theorem descr_compressed :
    ∀ d ∈ instr_descr, d.value &&& 0x3 ≠ 0x3 → d.op ∈ compressed_handlers := by
  decide!

/-- A compressed word selects `illegal_intruction` or a handler of a 16-bit descriptor. -/
theorem select_handler_compressed (w : Nat) (hc : w &&& 0x3 ≠ 0x3) :
    select_handler w = compile_func.illegal_intruction ∨
      select_handler w ∈ compressed_handlers := by
  rw [select_handler_eq]
  cases hf : instr_descr.reverse.find? (slot_match w) with
  | none => exact Or.inl rfl
  | some d =>
    right
    have hd : d ∈ instr_descr := List.mem_reverse.mp (List.mem_of_find?_eq_some hf)
    have hs : slot_match w d = true := List.find?_some hf
    unfold slot_match at hs
    simp only [Bool.and_eq_true, beq_iff_eq] at hs
    exact descr_compressed d hd (by rw [hs.1]; exact hc)

/-- A handler of a 16-bit descriptor, and `illegal_intruction`, return the same for words
with equal low halfwords. -/
theorem invoke_low16 (f : compile_func)
    (hf : f = compile_func.illegal_intruction ∨ f ∈ compressed_handlers) (dis : Bool)
    (pc : Nat) (tu : tu_builder) {w1 w2 : Nat} (h16 : w1 &&& 0xFFFF = w2 &&& 0xFFFF) :
    invoke f dis pc w1 tu = invoke f dis pc w2 tu := by
  rcases hf with rfl | hf
  · show illegal_intruction pc w1 tu = illegal_intruction pc w2 tu
    unfold illegal_intruction
    have hq : w1 &&& 3 = w2 &&& 3 := low16_quadrant h16
    simp only [hq]
  · simp only [compressed_handlers, List.mem_cons, List.mem_singleton, List.not_mem_nil,
      or_false] at hf
    rcases hf with rfl | rfl | rfl | rfl | rfl | rfl | rfl | rfl | rfl | rfl | rfl | rfl | rfl | rfl | rfl | rfl | rfl | rfl | rfl | rfl | rfl | rfl | rfl | rfl | rfl | rfl | rfl | rfl | rfl | rfl | rfl | rfl | rfl | rfl | rfl | rfl
    · exact __c_addi4spn_low16 dis pc tu h16
    · exact __c_lw_low16 dis pc tu h16
    · exact __c_sw_low16 dis pc tu h16
    · exact __c_addi_low16 dis pc tu h16
    · exact __c_nop_low16 dis pc tu h16
    · exact __c_jal_low16 dis pc tu h16
    · exact __c_li_low16 dis pc tu h16
    · exact __c_lui_low16 dis pc tu h16
    · exact __c_addi16sp_low16 dis pc tu h16
    · exact __c_srli_low16 dis pc tu h16
    · exact __c_srai_low16 dis pc tu h16
    · exact __c_andi_low16 dis pc tu h16
    · exact __c_sub_low16 dis pc tu h16
    · exact __c_xor_low16 dis pc tu h16
    · exact __c_or_low16 dis pc tu h16
    · exact __c_and_low16 dis pc tu h16
    · exact __c_j_low16 dis pc tu h16
    · exact __c_beqz_low16 dis pc tu h16
    · exact __c_bnez_low16 dis pc tu h16
    · exact __c_slli_low16 dis pc tu h16
    · exact __c_lwsp_low16 dis pc tu h16
    · exact __c_mv_low16 dis pc tu h16
    · exact __c_jr_low16 dis pc tu h16
    · exact __c_add_low16 dis pc tu h16
    · exact __c_jalr_low16 dis pc tu h16
    · exact __c_ebreak_low16 dis pc tu h16
    · exact __c_swsp_low16 dis pc tu h16
    · exact __dii_low16 dis pc tu h16
    · exact __c_flw_low16 dis pc tu h16
    · exact __c_fsw_low16 dis pc tu h16
    · exact __c_flwsp_low16 dis pc tu h16
    · exact __c_fswsp_low16 dis pc tu h16
    · exact __c_fld_low16 dis pc tu h16
    · exact __c_fsd_low16 dis pc tu h16
    · exact __c_fldsp_low16 dis pc tu h16
    · exact __c_fsdsp_low16 dis pc tu h16
/-! ## Expansion of one descriptor -/

theorem bit_count_below_succ (p mask : Nat) :
    bit_count_below (p + 1) mask = (if mask.testBit p then 1 else 0) + bit_count_below p mask :=
  rfl

/-- The extraction is linear in the index collected so far. -/
theorem extract_fields_pos_acc (val mask : Nat) :
    ∀ (n acc : Nat), extract_fields_pos n val mask acc =
      acc * 2 ^ bit_count_below n mask + extract_fields_pos n val mask 0 := by
  intro n
  induction n with
  | zero =>
    intro acc
    simp [extract_fields_pos, bit_count_below]
  | succ p ih =>
    intro acc
    unfold extract_fields_pos
    rw [bit_count_below_succ]
    by_cases hm : mask &&& 1 <<< p = 0
    · have hb : mask.testBit p = false := (and_one_shiftLeft_eq_zero mask p).mp hm
      simp only [hm, if_true, hb, Bool.false_eq_true, if_false, Nat.zero_add]
      exact ih acc
    · have hb : mask.testBit p = true := by
        cases h : mask.testBit p with
        | true => rfl
        | false => exact absurd ((and_one_shiftLeft_eq_zero mask p).mpr h) hm
      simp only [hm, if_false, hb, if_true]
      rw [ih, ih (if val &&& 1 <<< p ≠ 0 then 0 <<< 1 + 1 else 0 <<< 1)]
      have hsh : acc <<< 1 = acc * 2 := by rw [Nat.shiftLeft_eq, pow_one]
      have hz : (0 : Nat) <<< 1 = 0 := by simp
      rw [hsh, hz]
      by_cases hv : val &&& 1 <<< p = 0
      · simp only [hv, ne_eq, not_true_eq_false, if_false]
        ring
      · simp only [hv, ne_eq, not_false_eq_true, if_true]
        ring

theorem extract_fields_pos_zero_lt (n val mask : Nat) :
    extract_fields_pos n val mask 0 < 2 ^ bit_count_below n mask := by
  have := extract_fields_pos_lt n val mask 0
  simpa using this

/-- Bitwise operations on numbers split at bit `c`. -/
theorem xor_and_split (c a1 a2 a3 e1 e2 e3 : Nat) (h1 : e1 < 2 ^ c) (h2 : e2 < 2 ^ c)
    (h3 : e3 < 2 ^ c) :
    ((2 ^ c * a1 + e1) ^^^ (2 ^ c * a2 + e2)) &&& (2 ^ c * a3 + e3) =
      2 ^ c * ((a1 ^^^ a2) &&& a3) + ((e1 ^^^ e2) &&& e3) := by
  have h4 : (e1 ^^^ e2) &&& e3 < 2 ^ c := Nat.and_lt_two_pow _ h3
  apply Nat.eq_of_testBit_eq
  intro j
  simp only [Nat.testBit_and, Nat.testBit_xor, Nat.testBit_mul_pow_two_add _ h1,
    Nat.testBit_mul_pow_two_add _ h2, Nat.testBit_mul_pow_two_add _ h3,
    Nat.testBit_mul_pow_two_add _ h4]
  by_cases hj : j < c <;> simp [hj]

theorem two_pow_mul_add_eq_zero (c x y : Nat) : 2 ^ c * x + y = 0 ↔ x = 0 ∧ y = 0 := by
  have hpos : 0 < 2 ^ c := Nat.two_pow_pos c
  constructor
  · intro h
    have hy : y = 0 := by omega
    have hx : 2 ^ c * x = 0 := by omega
    rcases Nat.mul_eq_zero.mp hx with h0 | h0
    · omega
    · exact ⟨h0, hy⟩
  · rintro ⟨rfl, rfl⟩
    simp

theorem bit_xor_and_one (a b : Nat) (ha : a < 2) (hb : b < 2) :
    (a ^^^ b) &&& 1 = 0 ↔ a = b := by
  interval_cases a <;> interval_cases b <;> decide

/-- The condition on an index at a position the descriptor constrains. -/
theorem index_cond_valid (c i idx bv ev em : Nat) (hbv : bv < 2) (hev : ev < 2 ^ c)
    (hem : em < 2 ^ c) :
    (i / 2 ^ (1 + c) = idx ∧ ((i % 2 ^ (1 + c)) ^^^ (bv * 2 ^ c + ev)) &&& (1 * 2 ^ c + em) = 0) ↔
      (i / 2 ^ c = idx * 2 + bv ∧ ((i % 2 ^ c) ^^^ ev) &&& em = 0) := by
  have hr : i % 2 ^ c < 2 ^ c := Nat.mod_lt _ (Nat.two_pow_pos c)
  have hdiv : i / 2 ^ (1 + c) = i / 2 ^ c / 2 := by
    rw [Nat.add_comm, pow_succ, Nat.div_div_eq_div_mul]
  have hmod : i % 2 ^ (1 + c) = 2 ^ c * (i / 2 ^ c % 2) + i % 2 ^ c := by
    rw [Nat.add_comm 1 c, Nat.mod_pow_succ, Nat.add_comm]
  rw [hdiv, hmod, Nat.mul_comm bv, Nat.mul_comm 1 (2 ^ c),
    xor_and_split c _ _ _ _ _ _ hr hev hem, two_pow_mul_add_eq_zero,
    bit_xor_and_one _ _ (Nat.mod_lt _ (by decide)) hbv]
  constructor
  · rintro ⟨h1, h2, h3⟩
    exact ⟨by omega, h3⟩
  · rintro ⟨h1, h3⟩
    exact ⟨by omega, by omega, h3⟩

/-- The condition on an index at a position the descriptor leaves free. -/
theorem index_cond_free (c i idx bv ev em : Nat) (hev : ev < 2 ^ c) (hem : em < 2 ^ c) :
    (i / 2 ^ (1 + c) = idx ∧ ((i % 2 ^ (1 + c)) ^^^ (bv * 2 ^ c + ev)) &&& (0 * 2 ^ c + em) = 0) ↔
      ((i / 2 ^ c = idx * 2 ∨ i / 2 ^ c = idx * 2 + 1) ∧ ((i % 2 ^ c) ^^^ ev) &&& em = 0) := by
  have hr : i % 2 ^ c < 2 ^ c := Nat.mod_lt _ (Nat.two_pow_pos c)
  have hdiv : i / 2 ^ (1 + c) = i / 2 ^ c / 2 := by
    rw [Nat.add_comm, pow_succ, Nat.div_div_eq_div_mul]
  have hmod : i % 2 ^ (1 + c) = 2 ^ c * (i / 2 ^ c % 2) + i % 2 ^ c := by
    rw [Nat.add_comm 1 c, Nat.mod_pow_succ, Nat.add_comm]
  rw [hdiv, hmod, Nat.mul_comm bv, Nat.mul_comm 0 (2 ^ c),
    xor_and_split c _ _ _ _ _ _ hr hev hem, two_pow_mul_add_eq_zero, Nat.and_zero]
  constructor
  · rintro ⟨h1, _, h3⟩
    exact ⟨by omega, h3⟩
  · rintro ⟨h1, h3⟩
    exact ⟨by omega, rfl, h3⟩

/-- The entries of the array after the expansion of one descriptor from position `n`: the
entry at `i` is the handler exactly when the high part of `i` is the index collected so
far and the low part agrees with the extracted value on the extracted valid bits. -/
theorem expand_bit_mask_pos_at (mask value valid : Nat) (f : compile_func) :
    ∀ (n idx : Nat) (lut : lut_t) (i : Nat),
      expand_bit_mask_pos n mask value valid idx lut f i =
        if i / 2 ^ bit_count_below n mask = idx ∧
            ((i % 2 ^ bit_count_below n mask) ^^^ extract_fields_pos n value mask 0) &&&
              extract_fields_pos n valid mask 0 = 0
          then some f else lut i := by
  intro n
  induction n with
  | zero =>
    intro idx lut i
    simp only [expand_bit_mask_pos, extract_fields_pos, bit_count_below, pow_zero, Nat.div_one,
      Nat.mod_one, Nat.and_zero, and_true]
    by_cases h : i = idx
    · subst h; simp
    · simp [Function.update, h]
  | succ p ih =>
    intro idx lut i
    have hev := extract_fields_pos_zero_lt p value mask
    have hem := extract_fields_pos_zero_lt p valid mask
    unfold expand_bit_mask_pos
    rw [bit_count_below_succ]
    by_cases hm : mask &&& 1 <<< p = 0
    · have hb : mask.testBit p = false := (and_one_shiftLeft_eq_zero mask p).mp hm
      have e1 : extract_fields_pos (p + 1) value mask 0 = extract_fields_pos p value mask 0 := by
        rw [extract_fields_pos]; simp only [hm, if_true]
      have e2 : extract_fields_pos (p + 1) valid mask 0 = extract_fields_pos p valid mask 0 := by
        rw [extract_fields_pos]; simp only [hm, if_true]
      simp only [hm, if_true, hb, Bool.false_eq_true, if_false, Nat.zero_add, e1, e2]
      exact ih idx lut i
    · have hb : mask.testBit p = true := by
        cases h : mask.testBit p with
        | true => rfl
        | false => exact absurd ((and_one_shiftLeft_eq_zero mask p).mpr h) hm
      have hz : (0 : Nat) <<< 1 = 0 := by simp
      have hsh : idx <<< 1 = idx * 2 := by rw [Nat.shiftLeft_eq, pow_one]
      have e1 : extract_fields_pos (p + 1) value mask 0 =
          (if value &&& 1 <<< p ≠ 0 then 1 else 0) * 2 ^ bit_count_below p mask +
            extract_fields_pos p value mask 0 := by
        rw [extract_fields_pos]
        simp only [hm, if_false, hz]
        rw [extract_fields_pos_acc]
      have e2 : extract_fields_pos (p + 1) valid mask 0 =
          (if valid &&& 1 <<< p ≠ 0 then 1 else 0) * 2 ^ bit_count_below p mask +
            extract_fields_pos p valid mask 0 := by
        rw [extract_fields_pos]
        simp only [hm, if_false, hz]
        rw [extract_fields_pos_acc]
      simp only [hm, if_false, hb, if_true]
      rw [e1, e2, hsh]
      by_cases hv : valid &&& 1 <<< p = 0
      · simp only [hv, if_true, ne_eq, not_true_eq_false, if_false]
        rw [ih, ih]
        have hc := index_cond_free (bit_count_below p mask) i idx
          (if value &&& 1 <<< p ≠ 0 then 1 else 0) _ _ hev hem
        by_cases hlow : ((i % 2 ^ bit_count_below p mask) ^^^ extract_fields_pos p value mask 0) &&&
            extract_fields_pos p valid mask 0 = 0
        · by_cases h0 : i / 2 ^ bit_count_below p mask = idx * 2
          · have hg := hc.mpr ⟨Or.inl h0, hlow⟩
            have hne : ¬(i / 2 ^ bit_count_below p mask = idx * 2 + 1) := by omega
            rw [if_pos hg, if_neg (fun h => hne h.1), if_pos ⟨h0, hlow⟩]
          · by_cases h1 : i / 2 ^ bit_count_below p mask = idx * 2 + 1
            · have hg := hc.mpr ⟨Or.inr h1, hlow⟩
              rw [if_pos hg, if_pos ⟨h1, hlow⟩]
            · have hg : ¬_ := fun h => by
                rcases (hc.mp h).1 with h' | h'
                · exact h0 h'
                · exact h1 h'
              rw [if_neg hg, if_neg (fun h => h1 h.1), if_neg (fun h => h0 h.1)]
        · have hg : ¬_ := fun h => hlow (hc.mp h).2
          rw [if_neg hg, if_neg (fun h => hlow h.2), if_neg (fun h => hlow h.2)]
      · simp only [hv, if_false, ne_eq, not_false_eq_true, if_true]
        rw [ih]
        have hbv : (if value &&& 1 <<< p ≠ 0 then 1 else 0) < 2 := by
          split <;> decide
        have hc := index_cond_valid (bit_count_below p mask) i idx
          (if value &&& 1 <<< p ≠ 0 then 1 else 0) _ _ hbv hev hem
        have hidx : (if ¬value &&& 1 <<< p = 0 then idx * 2 + 1 else idx * 2) =
            idx * 2 + (if value &&& 1 <<< p ≠ 0 then 1 else 0) := by
          by_cases hvv : value &&& 1 <<< p = 0 <;> simp [hvv]
        rw [hidx]
        by_cases hg : i / 2 ^ bit_count_below p mask =
            idx * 2 + (if value &&& 1 <<< p ≠ 0 then 1 else 0) ∧
            ((i % 2 ^ bit_count_below p mask) ^^^ extract_fields_pos p value mask 0) &&&
              extract_fields_pos p valid mask 0 = 0
        · rw [if_pos hg, if_pos (hc.mpr hg)]
        · rw [if_neg hg, if_neg (fun h => hg (hc.mp h))]

/-- A valid mask that covers the lookup mask constrains every index bit. -/
theorem extract_fields_pos_full (mask valid : Nat) :
    ∀ (n : Nat), (∀ p, p < n → mask.testBit p = true → valid.testBit p = true) →
      extract_fields_pos n valid mask 0 = 2 ^ bit_count_below n mask - 1 := by
  intro n
  induction n with
  | zero =>
    intro _
    simp [extract_fields_pos, bit_count_below]
  | succ p ih =>
    intro h
    have ihp := ih (fun q hq => h q (by omega))
    rw [extract_fields_pos, bit_count_below_succ]
    by_cases hm : mask &&& 1 <<< p = 0
    · have hb : mask.testBit p = false := (and_one_shiftLeft_eq_zero mask p).mp hm
      simp only [hm, if_true, hb, Bool.false_eq_true, if_false, Nat.zero_add]
      exact ihp
    · have hb : mask.testBit p = true := by
        cases hq : mask.testBit p with
        | true => rfl
        | false => exact absurd ((and_one_shiftLeft_eq_zero mask p).mpr hq) hm
      have hv : ¬(valid &&& 1 <<< p = 0) := by
        intro hz
        have := (and_one_shiftLeft_eq_zero valid p).mp hz
        rw [h p (by omega) hb] at this
        exact absurd this (by decide)
      have hz : (0 : Nat) <<< 1 = 0 := by simp
      simp only [hm, if_false, hb, if_true, hz, hv, ne_eq, not_false_eq_true]
      rw [extract_fields_pos_acc, ihp]
      have hpos : 0 < 2 ^ bit_count_below p mask := Nat.two_pow_pos _
      rw [Nat.add_comm 1, pow_succ]
      omega

theorem lut_size_eq (q : Nat) (hq : q < 4) : lut_size q = 2 ^ bit_count_below 30 (lutmasks q) := by
  interval_cases q <;> decide

theorem xor_and_ones_eq_zero (c i e : Nat) (hi : i < 2 ^ c) (he : e < 2 ^ c)
    (h : (i ^^^ e) &&& (2 ^ c - 1) = 0) : i = e := by
  rw [Nat.and_pow_two_sub_one_eq_mod, Nat.mod_eq_of_lt (Nat.xor_lt_two_pow hi he)] at h
  exact Nat.xor_eq_zero.mp h

/-- The entries of an array after the expansion of one descriptor. -/
theorem expand_descr_at (d : InstructionDesriptor) (lut : lut_t) (i : Nat) :
    expand_descr d lut i =
      if i < lut_size (d.value &&& 0x3) ∧
          (i ^^^ extract_fields d.value) &&& constrained_index_bits d = 0
        then some d.op else lut i := by
  have hq : d.value &&& 0x3 < 4 := Nat.lt_of_le_of_lt Nat.and_le_right (by decide)
  have h30 : ((29 : Int) + 1).toNat = 30 := by decide
  unfold expand_descr expand_bit_mask constrained_index_bits extract_fields extract_fields_at
  rw [h30, expand_bit_mask_pos_at, lut_size_eq _ hq]
  have hpos : 0 < 2 ^ bit_count_below 30 (lutmasks (d.value &&& 0x3)) := Nat.two_pow_pos _
  by_cases hi : i < 2 ^ bit_count_below 30 (lutmasks (d.value &&& 0x3))
  · have h1 : i / 2 ^ bit_count_below 30 (lutmasks (d.value &&& 0x3)) = 0 :=
      Nat.div_eq_of_lt hi
    rw [Nat.mod_eq_of_lt hi]
    simp only [h1, hi, true_and]
  · have h1 : ¬(i / 2 ^ bit_count_below 30 (lutmasks (d.value &&& 0x3)) = 0) := by
      intro h0
      have hge : 2 ^ bit_count_below 30 (lutmasks (d.value &&& 0x3)) ≤ i := Nat.le_of_not_lt hi
      have := Nat.div_pos hge hpos
      omega
    simp only [h1, hi, false_and, if_false]

/-- A descriptor whose mask covers the lookup mask constrains every index bit. -/
theorem constrained_index_bits_full (d : InstructionDesriptor)
    (hfull : d.mask &&& lookup_mask (d.value &&& 0x3) = lookup_mask (d.value &&& 0x3)) :
    constrained_index_bits d = lut_size (d.value &&& 0x3) - 1 := by
  have hq : d.value &&& 0x3 < 4 := Nat.lt_of_le_of_lt Nat.and_le_right (by decide)
  have h30 : ((29 : Int) + 1).toNat = 30 := by decide
  unfold constrained_index_bits extract_fields_at
  rw [h30, lut_size_eq _ hq]
  apply extract_fields_pos_full
  intro p _ hp
  rw [lutmasks_eq, Nat.testBit_shiftRight] at hp
  rw [Nat.testBit_shiftRight]
  have := congrArg (fun x => x.testBit (2 + p)) hfull
  simp only [Nat.testBit_and, hp, Bool.and_true] at this
  exact this
/-! ## Running the loads -/

/-- Reading a wrapped pattern as signed is the sign extension of its low bits. -/
theorem int_t_uint_t_eq_sext (bits v : Nat) :
    int_t bits ((uint_t bits v : Nat) : Int) = sext bits v := by
  unfold int_t sext uint_t
  have hm : (((v % 2 ^ bits : Nat) : Int)) % 2 ^ bits = ((v % 2 ^ bits : Nat) : Int) := by
    have : ((v % 2 ^ bits % 2 ^ bits : Nat) : Int) = ((v % 2 ^ bits : Nat) : Int) := by
      rw [Nat.mod_mod]
    push_cast at this ⊢
    exact this
  simp only [hm]
  by_cases h : v % 2 ^ bits < 2 ^ (bits - 1)
  · have h2 : ((v % 2 ^ bits : Nat) : Int) < 2 ^ (bits - 1) := by exact_mod_cast h
    rw [if_pos h, if_pos h2]
  · have h2 : ¬((v % 2 ^ bits : Nat) : Int) < 2 ^ (bits - 1) := by
      intro hc
      exact h (by exact_mod_cast hc)
    rw [if_neg h, if_neg h2]

theorem uint_of_int_sext_same (bits v : Nat) :
    uint_of_int bits (sext bits v) = uint_t bits v := by
  rw [← int_t_uint_t_eq_sext, uint_of_int_int_t, uint_of_int_uint_t]

theorem uint_t_32_uint_t_8 (v : Nat) : uint_t 32 (uint_t 8 v) = uint_t 8 v :=
  uint_t_of_lt (lt_trans (uint_t_lt 8 v) (by norm_num))

theorem uint_t_32_uint_t_16 (v : Nat) : uint_t 32 (uint_t 16 v) = uint_t 16 v :=
  uint_t_of_lt (lt_trans (uint_t_lt 16 v) (by norm_num))

/-- The register written by the lines `__lb` emits. -/
theorem lb_run (dis : Bool) (pc instr : Nat) (tu : tu_builder) (σ : arch_state)
    (hrd : bit_sub 7 5 instr ≠ 0) :
    (run σ (emitted tu (__lb dis pc instr tu))).reg (reg_e.X (bit_sub 7 5 instr)) =
      load_result σ instr 8 true := by
  simp only [__lb, emitted, tu_simps, uint_t_8_bit_sub _ _ _ (by decide : 5 ≤ 8),
    signextend_16_12, load_result]
  generalize bit_sub 7 5 instr = rd at hrd ⊢
  generalize bit_sub 15 5 instr = rs1
  generalize sext 12 (bit_sub 20 12 instr) = imm
  cases dis <;>
    simp [hrd, run, exec_lines, exec_line, exec_state.running, value.eval, value.size,
      reg_bit_widths, apply_ite exec_state.σ, uint_t_idem, Function.update,
      uint_t_uint_of_int, uint_t_reg_add_imm, uint_of_int_int_t, uint_of_int_uint_t,
      int_t_uint_t_eq_sext, uint_of_int_sext_same, uint_t_32_uint_t_8, uint_t_32_uint_t_16]

/-- The register written by the lines `__lh` emits. -/
theorem lh_run (dis : Bool) (pc instr : Nat) (tu : tu_builder) (σ : arch_state)
    (hrd : bit_sub 7 5 instr ≠ 0) :
    (run σ (emitted tu (__lh dis pc instr tu))).reg (reg_e.X (bit_sub 7 5 instr)) =
      load_result σ instr 16 true := by
  simp only [__lh, emitted, tu_simps, uint_t_8_bit_sub _ _ _ (by decide : 5 ≤ 8),
    signextend_16_12, load_result]
  generalize bit_sub 7 5 instr = rd at hrd ⊢
  generalize bit_sub 15 5 instr = rs1
  generalize sext 12 (bit_sub 20 12 instr) = imm
  cases dis <;>
    simp [hrd, run, exec_lines, exec_line, exec_state.running, value.eval, value.size,
      reg_bit_widths, apply_ite exec_state.σ, uint_t_idem, Function.update,
      uint_t_uint_of_int, uint_t_reg_add_imm, uint_of_int_int_t, uint_of_int_uint_t,
      int_t_uint_t_eq_sext, uint_of_int_sext_same, uint_t_32_uint_t_8, uint_t_32_uint_t_16]

/-- The register written by the lines `__lw` emits. -/
theorem lw_run (dis : Bool) (pc instr : Nat) (tu : tu_builder) (σ : arch_state)
    (hrd : bit_sub 7 5 instr ≠ 0) :
    (run σ (emitted tu (__lw dis pc instr tu))).reg (reg_e.X (bit_sub 7 5 instr)) =
      load_result σ instr 32 true := by
  simp only [__lw, emitted, tu_simps, uint_t_8_bit_sub _ _ _ (by decide : 5 ≤ 8),
    signextend_16_12, load_result]
  generalize bit_sub 7 5 instr = rd at hrd ⊢
  generalize bit_sub 15 5 instr = rs1
  generalize sext 12 (bit_sub 20 12 instr) = imm
  cases dis <;>
    simp [hrd, run, exec_lines, exec_line, exec_state.running, value.eval, value.size,
      reg_bit_widths, apply_ite exec_state.σ, uint_t_idem, Function.update,
      uint_t_uint_of_int, uint_t_reg_add_imm, uint_of_int_int_t, uint_of_int_uint_t,
      int_t_uint_t_eq_sext, uint_of_int_sext_same, uint_t_32_uint_t_8, uint_t_32_uint_t_16]

/-- The register written by the lines `__lbu` emits. -/
theorem lbu_run (dis : Bool) (pc instr : Nat) (tu : tu_builder) (σ : arch_state)
    (hrd : bit_sub 7 5 instr ≠ 0) :
    (run σ (emitted tu (__lbu dis pc instr tu))).reg (reg_e.X (bit_sub 7 5 instr)) =
      load_result σ instr 8 false := by
  simp only [__lbu, emitted, tu_simps, uint_t_8_bit_sub _ _ _ (by decide : 5 ≤ 8),
    signextend_16_12, load_result]
  generalize bit_sub 7 5 instr = rd at hrd ⊢
  generalize bit_sub 15 5 instr = rs1
  generalize sext 12 (bit_sub 20 12 instr) = imm
  cases dis <;>
    simp [hrd, run, exec_lines, exec_line, exec_state.running, value.eval, value.size,
      reg_bit_widths, apply_ite exec_state.σ, uint_t_idem, Function.update,
      uint_t_uint_of_int, uint_t_reg_add_imm, uint_of_int_int_t, uint_of_int_uint_t,
      int_t_uint_t_eq_sext, uint_of_int_sext_same, uint_t_32_uint_t_8, uint_t_32_uint_t_16]

/-- The register written by the lines `__lhu` emits. -/
theorem lhu_run (dis : Bool) (pc instr : Nat) (tu : tu_builder) (σ : arch_state)
    (hrd : bit_sub 7 5 instr ≠ 0) :
    (run σ (emitted tu (__lhu dis pc instr tu))).reg (reg_e.X (bit_sub 7 5 instr)) =
      load_result σ instr 16 false := by
  simp only [__lhu, emitted, tu_simps, uint_t_8_bit_sub _ _ _ (by decide : 5 ≤ 8),
    signextend_16_12, load_result]
  generalize bit_sub 7 5 instr = rd at hrd ⊢
  generalize bit_sub 15 5 instr = rs1
  generalize sext 12 (bit_sub 20 12 instr) = imm
  cases dis <;>
    simp [hrd, run, exec_lines, exec_line, exec_state.running, value.eval, value.size,
      reg_bit_widths, apply_ite exec_state.σ, uint_t_idem, Function.update,
      uint_t_uint_of_int, uint_t_reg_add_imm, uint_of_int_int_t, uint_of_int_uint_t,
      int_t_uint_t_eq_sext, uint_of_int_sext_same, uint_t_32_uint_t_8, uint_t_32_uint_t_16]

/-! ## The format calls of the disassembly text -/

/-- The format call of every handler other than `__fsw` returns. -/
theorem disass_format_ok_of_ne (f : compile_func) (hf : f ≠ compile_func.__fsw) :
    disass_format_ok f = true := by
  cases f <;> first | exact absurd rfl hf | decide!

/-! ## The tables for an arbitrary content on entry -/

/-- The entry at the slot of a fetched word after the constructor loop, for tables that
hold `init` on entry: the handler of the last candidate descriptor, and the entry of
`init` when there is none. -/
theorem build_qlut_from_at (init : qlut_t) (w : Nat) :
    build_qlut_from init instr_descr (w &&& 0x3) (extract_fields w) =
      match instr_descr.reverse.find? (slot_match w) with
      | some d => some d.op
      | none => init (w &&& 0x3) (extract_fields w) := by
  unfold build_qlut_from
  exact build_at w instr_descr init

/-- For a word of quadrant 3, no descriptor being a candidate is disagreement with every
32-bit descriptor on a bit selected by its mask and `MASK32`. -/
theorem no_slot_match_iff (w : Nat) (hq : w &&& 0x3 = 0x3) :
    (∀ d ∈ instr_descr, slot_match w d = false) ↔
      ∀ d ∈ instr_descr, d.value &&& 0x3 = 0x3 →
        (d.value ^^^ w) &&& (d.mask &&& MASK32) ≠ 0 := by
  have hl : lookup_mask (w &&& 0x3) = MASK32 := by rw [hq]; rfl
  constructor
  · intro h d hd hdq hz
    have := h d hd
    unfold slot_match at this
    rw [hl, hq, hdq, hz] at this
    simp at this
  · intro h d hd
    unfold slot_match
    rw [hl, hq]
    by_cases hdq : d.value &&& 0x3 = 0x3
    · have := h d hd hdq
      simp [hdq, this]
    · simp [hdq]

/-- The reversed descriptor list has no candidate exactly when no descriptor is one. -/
theorem find_slot_none_iff (w : Nat) :
    instr_descr.reverse.find? (slot_match w) = none ↔
      ∀ d ∈ instr_descr, slot_match w d = false := by
  rw [List.find?_eq_none]
  constructor
  · intro h d hd
    simpa using h d (List.mem_reverse.mpr hd)
  · intro h x hx
    simp [h x (List.mem_reverse.mp hx)]
/-! ## Decoding: completeness, later-wins construction, the all-zero halfword -/

/-- C1. Decode completeness: a word that matches at least one descriptor of its quadrant on
the descriptor's full mask has a non-null table entry; and a 32-bit word (`w[1:0] = 0b11`)
that matches exactly one descriptor has that descriptor's handler as its entry. -/
theorem decode_complete :
    (∀ (w : Nat) (d : InstructionDesriptor), d ∈ instr_descr → full_match w d = true →
        qlut (w &&& 0x3) (extract_fields w) ≠ none) ∧
      (∀ (w : Nat) (d : InstructionDesriptor), w &&& 0x3 = 3 → d ∈ instr_descr →
        full_match w d = true →
        (∀ d' ∈ instr_descr, full_match w d' = true → d' = d) →
        qlut (w &&& 0x3) (extract_fields w) = some d.op) := by
  constructor
  · intro w d hd hm
    rw [qlut_at]
    have hs := slot_match_of_full_match hd hm
    have : (instr_descr.reverse.find? (slot_match w)).isSome = true :=
      List.find?_isSome.mpr ⟨d, List.mem_reverse.mpr hd, hs⟩
    cases hf : instr_descr.reverse.find? (slot_match w) with
    | none => simp [hf] at this
    | some x => simp
  · intro w d hq hd hm huniq
    rw [qlut_at]
    have hs := slot_match_of_full_match hd hm
    cases hf : instr_descr.reverse.find? (slot_match w) with
    | none =>
      have := (List.find?_eq_none.mp hf) d (List.mem_reverse.mpr hd)
      exact absurd hs this
    | some d' =>
      have hd' : d' ∈ instr_descr := List.mem_reverse.mp (List.mem_of_find?_eq_some hf)
      have hs' : slot_match w d' = true := List.find?_some hf
      by_cases hdd : d = d'
      · subst hdd; rfl
      · exfalso
        unfold slot_match at hs hs'
        unfold full_match at hm
        simp only [Bool.and_eq_true, beq_iff_eq] at hs hs' hm
        have hl : lookup_mask (w &&& 0x3) = MASK32 := by rw [hq]; rfl
        rw [hl] at hs hs'
        rcases descr_pairs d hd d' hd' (hs.1.trans hq) (hs'.1.trans hq) hdd with hsub | hne
        · -- the candidate's mask lies inside the lookup mask: it matches on its full mask
          have h0 : (d'.value ^^^ w) &&& d'.mask = 0 := by
            have := hs'.2
            rwa [hsub] at this
          have hfull : w &&& d'.mask = d'.value := by
            have hv := descr_value_sub_mask d' hd'
            apply Nat.eq_of_testBit_eq
            intro i
            have e0 := congrArg (fun y => y.testBit i) h0
            have ev := congrArg (fun y => y.testBit i) hv
            simp only [Nat.testBit_and, Nat.testBit_xor, Nat.zero_testBit] at e0 ev ⊢
            cases hw : w.testBit i <;> cases hm' : d'.mask.testBit i <;>
              cases hv' : d'.value.testBit i <;> simp_all
          have h16 : d'.length ≠ 16 := fun h16 =>
            descr_16_quadrant d' hd' h16 (hs'.1.trans hq)
          have : full_match w d' = true := by
            unfold full_match
            simp only [Bool.and_eq_true, beq_iff_eq]
            exact ⟨hs'.1, by rw [if_neg h16]; exact hfull⟩
          exact hdd (huniq d' hd' this).symm
        · exact hne (xor_and_of_two hs.2 hs'.2)

set_option maxRecDepth 100000 in
theorem decode_complete_witness :
    qlut (0x33 &&& 0x3) (extract_fields 0x33) ≠ none ∧
      qlut (0x33 &&& 0x3) (extract_fields 0x33) = some compile_func.__add :=
  ⟨decode_complete.1 0x33 (InstructionDesriptor.mk 32 0x33 0xfe00707f compile_func.__add)
      (by decide) (by decide),
    decode_complete.2 0x33 (InstructionDesriptor.mk 32 0x33 0xfe00707f compile_func.__add)
      (by decide) (by decide) (by decide) (by decide)⟩

/-- C2. Later-wins table construction: starting from all-null tables (`qlut_null`), after
the constructor has processed `instr_descr` top to bottom, the entry at the slot of a word
`w` is the handler of the last descriptor in list order that is a candidate for `w` (same
quadrant, value agreeing with `w` on every bit set in both its mask and the quadrant's
lookup mask, `0xFFFF` for quadrants 0..2 and `0xFFF0707F` for quadrant 3), and it is null
exactly when there is no candidate. -/
theorem later_wins (w : Nat) :
    qlut = instr_descr.foldl vm_impl_step qlut_null ∧
      (lookup_mask 0 = 0xFFFF ∧ lookup_mask 1 = 0xFFFF ∧ lookup_mask 2 = 0xFFFF ∧
        lookup_mask 3 = 0xFFF0707F) ∧
      (∀ d : InstructionDesriptor, slot_match w d = true ↔
        (d.value &&& 0x3 = w &&& 0x3 ∧
          ∀ i, d.mask.testBit i = true → (lookup_mask (w &&& 0x3)).testBit i = true →
            d.value.testBit i = w.testBit i)) ∧
      (∀ (pre post : List InstructionDesriptor) (d : InstructionDesriptor),
        instr_descr = pre ++ d :: post → slot_match w d = true →
        (∀ d' ∈ post, slot_match w d' = false) →
        qlut (w &&& 0x3) (extract_fields w) = some d.op) ∧
      (qlut (w &&& 0x3) (extract_fields w) = none ↔
        ∀ d ∈ instr_descr, slot_match w d = false) := by
  refine ⟨rfl, ⟨rfl, rfl, rfl, rfl⟩, slot_match_iff w, ?_, ?_⟩
  · intro pre post d hsplit hd hpost
    rw [qlut_at, hsplit, find_last (slot_match w) pre post d hd hpost]
    rfl
  · rw [qlut_at]
    constructor
    · intro h d hd
      cases hf : instr_descr.reverse.find? (slot_match w) with
      | some x => simp [hf] at h
      | none =>
        have := (List.find?_eq_none.mp hf) d (List.mem_reverse.mpr hd)
        simpa using this
    · intro h
      have : instr_descr.reverse.find? (slot_match w) = none := by
        rw [List.find?_eq_none]
        intro x hx
        simp [h x (List.mem_reverse.mp hx)]
      simp [this]

/-- A word whose low halfword is zero has the candidates of the word 0. -/
theorem slot_match_zero_halfword (w : Nat) (hw : w &&& 0xFFFF = 0) (d : InstructionDesriptor) :
    slot_match w d = slot_match 0 d := by
  have hbit : ∀ i, i < 16 → w.testBit i = false := by
    intro i hi
    have := congrArg (fun y => y.testBit i) hw
    have h16 : (0xFFFF : Nat).testBit i = true := by
      have h := Nat.testBit_two_pow_sub_one 16 i
      simpa [hi] using h
    simpa [Nat.testBit_and, h16] using this
  have hq : w &&& 0x3 = 0 := by
    apply Nat.eq_of_testBit_eq
    intro i
    simp only [Nat.testBit_and, Nat.zero_testBit]
    by_cases hi : i < 16
    · simp [hbit i hi]
    · have : (0x3 : Nat).testBit i = false :=
        Nat.testBit_lt_two_pow (lt_of_lt_of_le (by decide : 3 < 2 ^ 2)
          (Nat.pow_le_pow_right (by decide) (by omega)))
      simp [this]
  unfold slot_match
  rw [hq]
  have hz : (0 : Nat) &&& 0x3 = 0 := by decide
  rw [hz]
  congr 2
  apply Nat.eq_of_testBit_eq
  intro i
  simp only [Nat.testBit_and, Nat.testBit_xor, Nat.zero_testBit]
  by_cases hi : i < 16
  · simp [hbit i hi]
  · have : (lookup_mask 0).testBit i = false :=
      Nat.testBit_lt_two_pow (lt_of_lt_of_le (by decide : lookup_mask 0 < 2 ^ 16)
        (Nat.pow_le_pow_right (by decide) (by omega)))
    simp [this]

/-- C3. The halfword `0x0000` matches both the C.ADDI4SPN descriptor (listed first) and the
DII descriptor (listed later); the table entry of every fetched word with that low halfword
is the DII handler, which emits the two lines of `gen_raise_trap(tu, 0, 2)` inside its
scope and returns `BRANCH`. -/
theorem dii_wins :
    (∃ pre mid post, instr_descr =
        pre ++ InstructionDesriptor.mk 16 0 0b1110000000000011 compile_func.__c_addi4spn ::
          mid ++ InstructionDesriptor.mk 16 0 0b1111111111111111 compile_func.__dii :: post) ∧
      full_match 0
          (InstructionDesriptor.mk 16 0 0b1110000000000011 compile_func.__c_addi4spn) = true ∧
      full_match 0 (InstructionDesriptor.mk 16 0 0b1111111111111111 compile_func.__dii) = true ∧
      (∀ w : Nat, w &&& 0xFFFF = 0 →
        qlut (w &&& 0x3) (extract_fields w) = some compile_func.__dii ∧
          select_handler w = compile_func.__dii) ∧
      (gen_raise_trap tu_builder.empty 0 2).lines =
        [line.trap_state (-2147352576),
          line.store (value.constant 4294967295 32) reg_e.LAST_BRANCH] ∧
      ∀ (dis : Bool) (pc instr : Nat) (tu : tu_builder),
        (invoke compile_func.__dii dis pc instr tu).cont = continuation_e.BRANCH ∧
          emitted tu (invoke compile_func.__dii dis pc instr tu) =
            line.label "DII" pc :: line.sync sync_type.PRE_SYNC 150 ::
              ((if dis = true then [line.print_disass pc "dii" []] else []) ++
                line.open_scope ::
                  ((gen_raise_trap tu_builder.empty 0 2).lines ++
                    [line.close_scope, line.sync sync_type.POST_SYNC 150,
                      line.trap_check])) := by
  refine ⟨?_, by decide, by decide, ?_, by decide, ?_⟩
  · refine ⟨instr_descr.take 123, (instr_descr.drop 124).take 26, instr_descr.drop 151, ?_⟩
    decide!
  · intro w hw
    have hfind : instr_descr.reverse.find? (slot_match w) =
        some (InstructionDesriptor.mk 16 0 0b1111111111111111 compile_func.__dii) := by
      have : slot_match w = slot_match 0 := funext (slot_match_zero_halfword w hw)
      rw [this]
      decide
    constructor
    · rw [qlut_at, hfind]; rfl
    · rw [select_handler_eq, hfind]
  · intro dis pc instr tu
    refine ⟨(__dii_ret dis pc instr tu).1, ?_⟩
    show emitted tu (__dii dis pc instr tu) = _
    simp only [__dii, emitted, tu_simps, tu_builder.empty]

/-! ## Handlers: stores to `X[0]`, the envelope of a non-terminating handler, the pc advance,
the fetch guard -/

/-- C4. Divergence of the code from the claim that no handler emits a store to `X[0]`: the
halfword `0x4001` (C.LI with rd = 0) is dispatched to `__c_li`, which emits a store of the
immediate to `X[0]` after raising the trap; the word `0xA0002053` (FEQ.S with rd = 0) is
dispatched to `__feq_s`, which emits an unguarded store to `X[0]`, and running its lines
with a comparison routine that answers 1 leaves 1 in `X[0]`. -/
theorem x0_store_emitted :
    select_handler 0x4001 = compile_func.__c_li ∧
      emitted tu_builder.empty (invoke compile_func.__c_li false 0x1000 0x4001 tu_builder.empty) =
        [line.label "C_LI" 0x1000, line.sync sync_type.PRE_SYNC 129, line.open_scope,
          line.trap_state (-2147352576),
          line.store (value.constant 4294967295 32) reg_e.LAST_BRANCH,
          line.store (value.constant 0 32) (reg_e.X 0),
          line.close_scope, line.set_pc reg_e.NEXT_PC 0x1002,
          line.sync sync_type.POST_SYNC 129, line.trap_check] ∧
      select_handler 0xA0002053 = compile_func.__feq_s ∧
      line.store
          (value.ext
            (value.callf "fcmp_s"
              (value.arg (value.ref (local_name.tmp 0) 32)
                (value.arg (value.ref (local_name.tmp 1) 32)
                  (value.arg (value.ext (value.constant 0 64) 32 true) value.noarg))))
            32 true)
          (reg_e.X 0) ∈
        emitted tu_builder.empty
          (invoke compile_func.__feq_s false 0x1000 0xA0002053 tu_builder.empty) ∧
      (run (arch_state.mk (fun _ => 0) 0 (fun _ _ => 0) (fun _ => 0) (fun _ _ => 1))
          (emitted tu_builder.empty
            (invoke compile_func.__feq_s false 0x1000 0xA0002053 tu_builder.empty))).reg
        (reg_e.X 0) = 1 := by
  refine ⟨?_, ?_, ?_, ?_, ?_⟩
  · rw [select_handler_eq]; decide!
  · decide!
  · rw [select_handler_eq]; decide!
  · decide!
  · decide!

/-- C5. A handler that returns `CONT` has emitted, for some serial index `i`: its label,
`PRE_SYNC` with index `i`, a body that contains no sync, no write of `NEXT_PC` and no trap
check, then the write of `NEXT_PC`, `POST_SYNC` with the same index `i`, and the trap check;
so these four lines occur exactly once each, in this order. -/
theorem cont_envelope (f : compile_func) (dis : Bool) (pc instr : Nat) (tu : tu_builder)
    (h : (invoke f dis pc instr tu).cont = continuation_e.CONT) :
    ∃ (i : Nat) (mnemonic : String) (body : List line),
      emitted tu (invoke f dis pc instr tu) =
          line.label mnemonic pc :: line.sync sync_type.PRE_SYNC i ::
            (body ++ [line.set_pc reg_e.NEXT_PC (invoke f dis pc instr tu).pc,
              line.sync sync_type.POST_SYNC i, line.trap_check]) ∧
        body.filter line.is_marker = [] ∧
        (emitted tu (invoke f dis pc instr tu)).filter line.is_marker =
          [line.sync sync_type.PRE_SYNC i,
            line.set_pc reg_e.NEXT_PC (invoke f dis pc instr tu).pc,
            line.sync sync_type.POST_SYNC i, line.trap_check] := by
  obtain ⟨i, mnemonic, henv⟩ := invoke_envelope f dis pc instr tu h
  obtain ⟨body, hem, hbody⟩ := envelope_emitted henv
  refine ⟨i, mnemonic, body, hem, hbody, ?_⟩
  rw [hem]
  simp [List.filter_cons, List.filter_append, line.is_marker, hbody]

theorem cont_envelope_witness :
    (invoke compile_func.__addi false 0x1000 0x00700293 tu_builder.empty).cont =
        continuation_e.CONT ∧
      ∃ (i : Nat) (mnemonic : String) (body : List line),
        emitted tu_builder.empty
            (invoke compile_func.__addi false 0x1000 0x00700293 tu_builder.empty) =
          line.label mnemonic 0x1000 :: line.sync sync_type.PRE_SYNC i ::
            (body ++ [line.set_pc reg_e.NEXT_PC
                (invoke compile_func.__addi false 0x1000 0x00700293 tu_builder.empty).pc,
              line.sync sync_type.POST_SYNC i, line.trap_check]) ∧
        body.filter line.is_marker = [] ∧
        (emitted tu_builder.empty
            (invoke compile_func.__addi false 0x1000 0x00700293 tu_builder.empty)).filter
          line.is_marker =
          [line.sync sync_type.PRE_SYNC i,
            line.set_pc reg_e.NEXT_PC
              (invoke compile_func.__addi false 0x1000 0x00700293 tu_builder.empty).pc,
            line.sync sync_type.POST_SYNC i, line.trap_check] :=
  ⟨rfl, cont_envelope compile_func.__addi false 0x1000 0x00700293 tu_builder.empty rfl⟩

/-- C10. Fetch guard: `gen_single_inst_behavior` fails with `simulation_stopped(0)` exactly
when the fetch succeeded and the fetched word is `0x0000006F` or has the low halfword
`0xA001`; it then leaves the instruction counter, the pc and the translation unit as it
received them.  With `JAL x0, 0` (word `0x0000006F`) in memory at `0x2000` it fails so. -/
theorem fetch_guard (core : arch_if) (dis : Bool) (pc inst_cnt : Nat) (tu : tu_builder) :
    ((gen_single_inst_behavior core dis pc inst_cnt tu).result =
          Except.error (exception.simulation_stopped 0) ↔
        ∃ insn, (fetch core pc).insn = Except.ok insn ∧
          (insn = 0x0000006f ∨ insn &&& 0xffff = 0xa001)) ∧
      ((gen_single_inst_behavior core dis pc inst_cnt tu).result =
          Except.error (exception.simulation_stopped 0) →
        gen_single_inst_behavior core dis pc inst_cnt tu =
          gen_ret.mk (Except.error (exception.simulation_stopped 0)) pc inst_cnt tu) ∧
      gen_single_inst_behavior (arch_if.mk 0xfff (fun a => a) (fun _ _ => some 0x0000006f))
          dis 0x2000 inst_cnt tu =
        gen_ret.mk (Except.error (exception.simulation_stopped 0)) 0x2000 inst_cnt tu := by
  have key : ∀ (c : arch_if) (p : Nat),
      (gen_single_inst_behavior c dis p inst_cnt tu).result =
          Except.error (exception.simulation_stopped 0) →
        (∃ insn, (fetch c p).insn = Except.ok insn ∧
          (insn = 0x0000006f ∨ insn &&& 0xffff = 0xa001)) ∧
        gen_single_inst_behavior c dis p inst_cnt tu =
          gen_ret.mk (Except.error (exception.simulation_stopped 0)) p inst_cnt tu := by
    intro c p h
    unfold gen_single_inst_behavior at h ⊢
    cases hf : (fetch c p).insn with
    | error e =>
      rw [hf] at h
      simp only [Except.error.injEq] at h
      have := fetch_error c p e hf
      rw [this] at h
      exact absurd h (by simp)
    | ok insn =>
      rw [hf] at h
      simp only at h ⊢
      by_cases hgd : insn = 0x0000006f ∨ insn &&& 0xffff = 0xa001
      · exact ⟨⟨insn, rfl, hgd⟩, by rw [if_pos hgd]⟩
      · rw [if_neg hgd] at h
        simp at h
  have conv : ∀ (c : arch_if) (p : Nat),
      (∃ insn, (fetch c p).insn = Except.ok insn ∧
        (insn = 0x0000006f ∨ insn &&& 0xffff = 0xa001)) →
      gen_single_inst_behavior c dis p inst_cnt tu =
        gen_ret.mk (Except.error (exception.simulation_stopped 0)) p inst_cnt tu := by
    rintro c p ⟨insn, hf, hgd⟩
    unfold gen_single_inst_behavior
    rw [hf]
    simp only [if_pos hgd]
  refine ⟨⟨fun h => (key core pc h).1, fun h => by rw [conv core pc h]⟩,
    fun h => (key core pc h).2, ?_⟩
  exact conv _ _ ⟨0x0000006f, rfl, Or.inl rfl⟩
/-! ## Control transfer: conditional branches, JAL, JALR -/

/-- C7, as claimed, fails: for BEQ x0, x0, 8 (word `0x00000463`, dispatched to `__beq`) at
`0x1000` the value stored to `LAST_BRANCH` is 0 when `PC_val` differs from the fallthrough
address `0x1004` and 1 otherwise; run from the all-zero state, the emitted lines leave
`NEXT_PC = 0x1008`, which is not the address `0x1000` of the branch, and `LAST_BRANCH = 0`,
not 1. -/
theorem beq_last_branch_counterexample :
    select_handler 0x00000463 = compile_func.__beq ∧
      line.store
          (value.choose
            (value.icmp ICmpInst.ICMP_NE
              (value.ext (value.ref (local_name.named "PC_val") 32) 32 true)
              (value.constant 0x1004 32))
            (value.constant 0 32) (value.constant 1 32))
          reg_e.LAST_BRANCH ∈
        emitted tu_builder.empty
          (invoke compile_func.__beq false 0x1000 0x00000463 tu_builder.empty) ∧
      (run arch_state.zero
          (emitted tu_builder.empty
            (invoke compile_func.__beq false 0x1000 0x00000463 tu_builder.empty))).reg
        reg_e.NEXT_PC = 0x1008 ∧
      (run arch_state.zero
          (emitted tu_builder.empty
            (invoke compile_func.__beq false 0x1000 0x00000463 tu_builder.empty))).reg
        reg_e.LAST_BRANCH = 0 ∧
      ¬((run arch_state.zero
          (emitted tu_builder.empty
            (invoke compile_func.__beq false 0x1000 0x00000463 tu_builder.empty))).reg
        reg_e.LAST_BRANCH = 1) := by
  refine ⟨?_, ?_, ?_, ?_, ?_⟩
  · rw [select_handler_eq]; decide!
  · decide!
  · decide!
  · decide!
  · decide!

/-- C7 (amended). For each of BEQ/BNE/BLT/BGE/BLTU/BGEU at `pc` with decoded offset
`branch_imm instr`: the emitted code sets `NEXT_PC` to `pc + imm` (mod 2^32) when the
condition holds on the 32-bit contents of `X[rs1]` and `X[rs2]` and to `pc + 4` otherwise,
sets `LAST_BRANCH` to 1 if and only if the resulting `NEXT_PC` equals the fallthrough
address `pc + 4` and to 0 otherwise, and the handler returns `BRANCH`. -/
theorem branch_last_branch :
    branch_spec __beq (fun a b => a = b) ∧ branch_spec __bne (fun a b => a ≠ b) ∧
      branch_spec __blt (fun a b => int_t 32 (a : Nat) < int_t 32 (b : Nat)) ∧
      branch_spec __bge (fun a b => int_t 32 (a : Nat) ≥ int_t 32 (b : Nat)) ∧
      branch_spec __bltu (fun a b => a < b) ∧ branch_spec __bgeu (fun a b => a ≥ b) := by
  refine ⟨?_, ?_, ?_, ?_, ?_, ?_⟩
  · intro dis pc instr tu σ
    refine ⟨rfl, ?_, ?_⟩ <;> rw [beq_run] <;> simp [Function.update]
  · intro dis pc instr tu σ
    refine ⟨rfl, ?_, ?_⟩ <;> rw [bne_run] <;> simp [Function.update]
  · intro dis pc instr tu σ
    refine ⟨rfl, ?_, ?_⟩ <;> rw [blt_run] <;> simp [Function.update]
  · intro dis pc instr tu σ
    refine ⟨rfl, ?_, ?_⟩ <;> rw [bge_run] <;> simp [Function.update]
  · intro dis pc instr tu σ
    refine ⟨rfl, ?_, ?_⟩ <;> rw [bltu_run] <;> simp [Function.update]
  · intro dis pc instr tu σ
    refine ⟨rfl, ?_, ?_⟩ <;> rw [bgeu_run] <;> simp [Function.update]

/-- C8. JAL: for every instruction word and `pc`, the immediate the handler decodes is the
RISC-V J-immediate `j_imm instr`; the emitted lines store `pc + 4` to `X[rd]` if and only
if `rd ≠ 0`, and contain no other store to an integer register; running them sets
`NEXT_PC` to `pc + imm` (mod 2^32), sets `X[rd]` to `pc + 4` (mod 2^32) when `rd ≠ 0` and
leaves every other integer register as it was; and the handler returns `BRANCH`. -/
theorem jal_spec (dis : Bool) (pc instr : Nat) (tu : tu_builder) (σ : arch_state) :
    (__jal dis pc instr tu).cont = continuation_e.BRANCH ∧
      line.assignment (local_name.named "PC_val")
          (value.add (value.ext (value.constant (pc : Nat) 32) 32 false)
            (value.constant (j_imm instr) 32)) 32 ∈ emitted tu (__jal dis pc instr tu) ∧
      (line.store (value.add (value.constant (pc : Nat) 32) (value.constant 4 32))
          (reg_e.X (bit_sub 7 5 instr)) ∈ emitted tu (__jal dis pc instr tu) ↔
        bit_sub 7 5 instr ≠ 0) ∧
      (∀ (v : value) (n : Nat), line.store v (reg_e.X n) ∈ emitted tu (__jal dis pc instr tu) →
        n = bit_sub 7 5 instr ∧ n ≠ 0 ∧
          v = value.add (value.constant (pc : Nat) 32) (value.constant 4 32)) ∧
      (run σ (emitted tu (__jal dis pc instr tu))).reg reg_e.NEXT_PC =
        uint_of_int 32 ((pc : Int) + j_imm instr) ∧
      (∀ n : Nat, (run σ (emitted tu (__jal dis pc instr tu))).reg (reg_e.X n) =
        if n = bit_sub 7 5 instr ∧ n ≠ 0 then uint_t 32 (pc + 4) else σ.reg (reg_e.X n)) := by
  refine ⟨rfl, ?_, ?_, ?_, ?_, ?_⟩
  · rw [jal_emitted]
    cases dis <;> simp
  · rw [jal_emitted]
    by_cases hrd : bit_sub 7 5 instr = 0 <;> cases dis <;> simp [hrd]
  · intro v n
    rw [jal_emitted]
    by_cases hrd : bit_sub 7 5 instr = 0 <;> cases dis <;> simp [hrd]
    all_goals
      intro h1 h2
      exact ⟨h2, by rw [h2]; exact hrd, h1⟩
  · rw [jal_run]
    simp [Function.update]
  · intro n
    rw [jal_run]
    by_cases hrd : bit_sub 7 5 instr = 0
    · simp [Function.update, hrd]
    · by_cases hn : n = bit_sub 7 5 instr
      · subst hn
        simp [Function.update, hrd]
      · simp [Function.update, hrd, hn]

/-- C9. JALR: for every instruction word, running the emitted code sets `NEXT_PC` to
`(X[rs1] + sext(imm12)) & ~1` (mod 2^32) with the value `X[rs1]` held before the
instruction (also when `rd = rs1`), sets `X[rd]` to `pc + 4` when `rd ≠ 0` and leaves the
other integer registers as they were, sets `LAST_BRANCH` to `0xFFFFFFFF`, and the handler
returns `BRANCH`. -/
theorem jalr_spec (dis : Bool) (pc instr : Nat) (tu : tu_builder) (σ : arch_state) :
    (__jalr dis pc instr tu).cont = continuation_e.BRANCH ∧
      (run σ (emitted tu (__jalr dis pc instr tu))).reg reg_e.NEXT_PC =
        uint_of_int 32 ((σ.reg (reg_e.X (bit_sub 15 5 instr)) : Int) +
          sext 12 (bit_sub 20 12 instr)) &&& 0xFFFFFFFE ∧
      (run σ (emitted tu (__jalr dis pc instr tu))).reg reg_e.LAST_BRANCH = 0xFFFFFFFF ∧
      (∀ n : Nat, (run σ (emitted tu (__jalr dis pc instr tu))).reg (reg_e.X n) =
        if n = bit_sub 7 5 instr ∧ n ≠ 0 then uint_t 32 (pc + 4) else σ.reg (reg_e.X n)) := by
  refine ⟨rfl, ?_, ?_, ?_⟩
  · rw [jalr_run, signextend_16_12]
    simp [Function.update]
  · rw [jalr_run]
    simp [Function.update]
  · intro n
    rw [jalr_run]
    by_cases hrd : bit_sub 7 5 instr = 0
    · simp [Function.update, hrd]
    · by_cases hn : n = bit_sub 7 5 instr
      · subst hn
        simp [Function.update, hrd]
      · simp [Function.update, hrd, hn]
/-! ## The fetch: reads issued, failing reads, lookup misses, the trap word -/

/-- C11. Page-cross fetch: when `(pc & ~PGMASK) != ((pc + 2) & ~PGMASK)` the fetch issues a
2-byte read at `v2p(pc)`; when that read fails it is the only read; when it yields a
halfword with low bits `0b11` a second 2-byte read at `v2p(pc + 2)` follows, and for any
other halfword no second read is issued and the fetched word is that halfword (upper half
0).  Otherwise the fetch issues exactly one 4-byte read at `v2p(pc)`. -/
theorem fetch_reads (core : arch_if) (pc : Nat) :
    (pc &&& uint_of_int 32 (-((core.PGMASK : Nat) : Int) - 1) ≠
        (pc + 2) &&& uint_of_int 32 (-((core.PGMASK : Nat) : Int) - 1) →
      (core.read (core.v2p pc) 2 = none → (fetch core pc).reads = [(core.v2p pc, 2)]) ∧
        ∀ lo, core.read (core.v2p pc) 2 = some lo →
          ((lo % 2 ^ 16) &&& 0x3 = 0x3 →
            (fetch core pc).reads = [(core.v2p pc, 2), (core.v2p (pc + 2), 2)]) ∧
          ((lo % 2 ^ 16) &&& 0x3 ≠ 0x3 →
            (fetch core pc).reads = [(core.v2p pc, 2)] ∧
              (fetch core pc).insn = Except.ok (lo % 2 ^ 16))) ∧
      (¬(pc &&& uint_of_int 32 (-((core.PGMASK : Nat) : Int) - 1) ≠
          (pc + 2) &&& uint_of_int 32 (-((core.PGMASK : Nat) : Int) - 1)) →
        (fetch core pc).reads = [(core.v2p pc, 4)]) ∧
      (fetch (arch_if.mk 0xfff (fun a => a + 0x80000000) (fun _ _ => some 0x4501)) 0xFFE).reads =
        [(0x80000FFE, 2)] ∧
      (fetch (arch_if.mk 0xfff (fun a => a + 0x80000000) (fun _ _ => some 0x0293)) 0xFFE).reads =
        [(0x80000FFE, 2), (0x80001000, 2)] ∧
      (fetch (arch_if.mk 0xfff (fun a => a + 0x80000000) (fun _ _ => some 0x0293)) 0xFFC).reads =
        [(0x80000FFC, 4)] := by
  refine ⟨?_, ?_, rfl, rfl, rfl⟩
  · intro hx
    refine ⟨?_, ?_⟩
    · intro h
      unfold fetch
      simp only [if_pos hx, h]
    · intro lo h
      refine ⟨?_, ?_⟩
      · intro h3
        unfold fetch
        simp only [if_pos hx, h, Nat.zero_or, if_pos h3]
      · intro h3
        unfold fetch
        simp only [if_pos hx, h, Nat.zero_or, if_neg h3, and_self]
  · intro hx
    unfold fetch
    simp only [if_neg hx]
    cases core.read (core.v2p pc) 4 <;> rfl

/-- C12. A failing 4-byte read, and a failing first 2-byte read of a page-crossing fetch,
make `gen_single_inst_behavior` fail with `trap_access(1 << 16, pc)` with no handler
invoked.  The result of the second 2-byte read is not examined: at `pc = 0xFFE` with
`PGMASK = 0xfff`, a first halfword `0x0293` and a failing second read at `v2p(0x1000)`, the
function does not fail; it dispatches the word `0x00000293` to `__addi`, counts the
instruction and returns `CONT`. -/
theorem fetch_second_read_unchecked :
    (∀ (core : arch_if) (dis : Bool) (pc inst_cnt : Nat) (tu : tu_builder),
        ¬(pc &&& uint_of_int 32 (-((core.PGMASK : Nat) : Int) - 1) ≠
          (pc + 2) &&& uint_of_int 32 (-((core.PGMASK : Nat) : Int) - 1)) →
        core.read (core.v2p pc) 4 = none →
        gen_single_inst_behavior core dis pc inst_cnt tu =
          gen_ret.mk (Except.error (exception.trap_access (1 <<< 16) pc)) pc inst_cnt tu) ∧
      (∀ (core : arch_if) (dis : Bool) (pc inst_cnt : Nat) (tu : tu_builder),
        pc &&& uint_of_int 32 (-((core.PGMASK : Nat) : Int) - 1) ≠
          (pc + 2) &&& uint_of_int 32 (-((core.PGMASK : Nat) : Int) - 1) →
        core.read (core.v2p pc) 2 = none →
        gen_single_inst_behavior core dis pc inst_cnt tu =
          gen_ret.mk (Except.error (exception.trap_access (1 <<< 16) pc)) pc inst_cnt tu) ∧
      (fetch (arch_if.mk 0xfff (fun a => a)
          (fun paddr _ => if paddr = 0xFFE then some 0x0293 else none)) 0xFFE).reads =
        [(0xFFE, 2), (0x1000, 2)] ∧
      (arch_if.mk 0xfff (fun a => a)
          (fun paddr _ => if paddr = 0xFFE then some 0x0293 else none)).read 0x1000 2 = none ∧
      select_handler 0x0293 = compile_func.__addi ∧
      gen_single_inst_behavior
          (arch_if.mk 0xfff (fun a => a)
            (fun paddr _ => if paddr = 0xFFE then some 0x0293 else none))
          false 0xFFE 0 tu_builder.empty =
        gen_ret.mk (Except.ok continuation_e.CONT) 0x1002 1
          (invoke compile_func.__addi false 0xFFE 0x0293 tu_builder.empty).tu := by
  have hsel : select_handler 0x0293 = compile_func.__addi := by
    rw [select_handler_eq]; decide!
  refine ⟨?_, ?_, rfl, rfl, hsel, ?_⟩
  · intro core dis pc inst_cnt tu hx h
    apply gen_single_inst_behavior_error
    unfold fetch
    simp only [if_neg hx, h]
  · intro core dis pc inst_cnt tu hx h
    apply gen_single_inst_behavior_error
    unfold fetch
    simp only [if_pos hx, h]
  · rw [gen_single_inst_behavior_ok
        (arch_if.mk 0xfff (fun a => a)
          (fun paddr _ => if paddr = 0xFFE then some 0x0293 else none))
        false 0xFFE 0 tu_builder.empty 0x0293 rfl (by decide), hsel]
    rfl

/-- C13. Lookup miss: when the table entry of the fetched word `w` is null,
`gen_single_inst_behavior` does not fail: it invokes `illegal_intruction`, which appends
`PRE_SYNC`, the two lines of `gen_raise_trap(tu, 0, 2)` (the trap word and the store of
`0xFFFFFFFF` to `LAST_BRANCH`), `POST_SYNC` with the same index and the trap check,
advances the pc by the size of the word, and returns `BRANCH`. -/
theorem lookup_miss (core : arch_if) (dis : Bool) (pc inst_cnt : Nat) (tu : tu_builder)
    (w : Nat) (hfetch : (fetch core pc).insn = Except.ok w)
    (hguard : ¬(w = 0x0000006f ∨ w &&& 0xffff = 0xa001))
    (hmiss : qlut (w &&& 0x3) (extract_fields w) = none) :
    select_handler w = compile_func.illegal_intruction ∧
      gen_single_inst_behavior core dis pc inst_cnt tu =
        gen_ret.mk (Except.ok continuation_e.BRANCH) (pc + (if w &&& 3 = 3 then 4 else 2))
          (uint_t 32 (inst_cnt + 1))
          (gen_trap_check
            (gen_sync
              (gen_raise_trap (gen_sync tu sync_type.PRE_SYNC instr_descr.length) 0 2)
              sync_type.POST_SYNC instr_descr.length)) ∧
      (gen_single_inst_behavior core dis pc inst_cnt tu).tu.lines =
        tu.lines ++
          [line.sync sync_type.PRE_SYNC 159, line.trap_state (-2147352576),
            line.store (value.constant 4294967295 32) reg_e.LAST_BRANCH,
            line.sync sync_type.POST_SYNC 159, line.trap_check] := by
  have hsel := select_handler_of_none w hmiss
  have hg := gen_single_inst_behavior_ok core dis pc inst_cnt tu w hfetch hguard
  rw [hsel] at hg
  refine ⟨hsel, ?_, ?_⟩
  · rw [hg]; rfl
  · rw [hg]
    show (illegal_intruction pc w tu).tu.lines = _
    simp only [illegal_intruction, tu_simps]
    rfl

theorem lookup_miss_witness :
    (fetch (arch_if.mk 0xfff (fun a => a) (fun _ _ => some 0xFFFFFFFF)) 0x1000).insn =
        Except.ok 0xFFFFFFFF ∧
      qlut (0xFFFFFFFF &&& 0x3) (extract_fields 0xFFFFFFFF) = none ∧
      (gen_single_inst_behavior (arch_if.mk 0xfff (fun a => a) (fun _ _ => some 0xFFFFFFFF))
          false 0x1000 0 tu_builder.empty).tu.lines =
        tu_builder.empty.lines ++
          [line.sync sync_type.PRE_SYNC 159, line.trap_state (-2147352576),
            line.store (value.constant 4294967295 32) reg_e.LAST_BRANCH,
            line.sync sync_type.POST_SYNC 159, line.trap_check] :=
  ⟨rfl, by rw [qlut_at]; decide!,
    (lookup_miss (arch_if.mk 0xfff (fun a => a) (fun _ _ => some 0xFFFFFFFF)) false 0x1000 0
      tu_builder.empty 0xFFFFFFFF rfl (by decide) (by rw [qlut_at]; decide!)).2.2⟩

/-- C14, as claimed, fails for a cause that does not fit in 8 bits: for trap id 0 and the
16-bit cause `0x100` the word assigned to `*trap_state` is `0x81000000`, whose high byte is
`0x81` and whose bits [23:16] are 0. -/
theorem raise_trap_cause_counterexample :
    (gen_raise_trap tu_builder.empty 0 0x100).lines =
        [line.trap_state (-2130706432),
          line.store (value.constant 4294967295 32) reg_e.LAST_BRANCH] ∧
      (run arch_state.zero (gen_raise_trap tu_builder.empty 0 0x100).lines).trap_state =
        0x81000000 ∧
      (run arch_state.zero (gen_raise_trap tu_builder.empty 0 0x100).lines).trap_state / 2 ^ 24 ≠
        0x80 ∧
      (run arch_state.zero (gen_raise_trap tu_builder.empty 0 0x100).lines).trap_state / 2 ^ 16 %
        2 ^ 8 ≠ 0x100 := by
  refine ⟨?_, ?_, ?_, ?_⟩ <;> decide!

/-- C14 (amended). Trap-state encoding: for every 16-bit trap id and every cause below 256,
`gen_raise_trap` appends two lines: the assignment to `*trap_state` of a value that, as a
32-bit word, has high byte [31:24] `0x80`, bits [23:16] equal to the cause and bits [15:0]
equal to the trap id, and the store of `0xFFFFFFFF` to `LAST_BRANCH`; running them leaves
that word in the trap state and `0xFFFFFFFF` in `LAST_BRANCH`. -/
theorem raise_trap_word (tu : tu_builder) (trap_id cause : Nat) (hid : trap_id < 2 ^ 16)
    (hc : cause < 2 ^ 8) :
    ∃ v : Int,
      (gen_raise_trap tu trap_id cause).lines =
          tu.lines ++ [line.trap_state v,
            line.store (value.constant 4294967295 32) reg_e.LAST_BRANCH] ∧
        uint_of_int 32 v = 0x80 * 2 ^ 24 + cause * 2 ^ 16 + trap_id ∧
        uint_of_int 32 v / 2 ^ 24 = 0x80 ∧ uint_of_int 32 v / 2 ^ 16 % 2 ^ 8 = cause ∧
        uint_of_int 32 v % 2 ^ 16 = trap_id ∧
        ∀ σ : arch_state,
          (run σ [line.trap_state v,
              line.store (value.constant 4294967295 32) reg_e.LAST_BRANCH]).trap_state =
            uint_of_int 32 v ∧
          (run σ [line.trap_state v,
              line.store (value.constant 4294967295 32) reg_e.LAST_BRANCH]).reg
            reg_e.LAST_BRANCH = 0xFFFFFFFF := by
  have hw := trap_word_eq trap_id cause hid hc
  refine ⟨_, raise_trap_lines tu trap_id cause, hw, ?_, ?_, ?_, fun σ => raise_trap_run _ σ⟩
  · rw [hw]; omega
  · rw [hw]; omega
  · rw [hw]; omega

theorem raise_trap_word_witness :
    ∃ v : Int,
      (gen_raise_trap tu_builder.empty 0 11).lines =
          tu_builder.empty.lines ++ [line.trap_state v,
            line.store (value.constant 4294967295 32) reg_e.LAST_BRANCH] ∧
        uint_of_int 32 v = 0x80 * 2 ^ 24 + 11 * 2 ^ 16 + 0 ∧
        uint_of_int 32 v / 2 ^ 24 = 0x80 ∧ uint_of_int 32 v / 2 ^ 16 % 2 ^ 8 = 11 ∧
        uint_of_int 32 v % 2 ^ 16 = 0 ∧
        ∀ σ : arch_state,
          (run σ [line.trap_state v,
              line.store (value.constant 4294967295 32) reg_e.LAST_BRANCH]).trap_state =
            uint_of_int 32 v ∧
          (run σ [line.trap_state v,
              line.store (value.constant 4294967295 32) reg_e.LAST_BRANCH]).reg
            reg_e.LAST_BRANCH = 0xFFFFFFFF :=
  raise_trap_word tu_builder.empty 0 11 (by decide) (by decide)
/-! ## Arithmetic, loads, CSR access and NaN-boxing -/

/-- C15. M-extension division edge cases, for `rd ≠ 0` and the 32-bit contents `a` of
`X[rs1]` and `b` of `X[rs2]`: running the lines of DIV leaves in `X[rd]` `0xFFFFFFFF` when
`b = 0`, `0x80000000` when `a = 0x80000000` and `b = 0xFFFFFFFF`, and the signed truncated
quotient otherwise; DIVU leaves `0xFFFFFFFF` when `b = 0` and the unsigned quotient
otherwise; REM leaves `a` when `b = 0`, 0 in the overflow case and the signed remainder
otherwise; REMU leaves `a` when `b = 0` and the unsigned remainder otherwise.  No executed
line evaluates a division or remainder with a zero divisor or of the most negative value
by -1. -/
theorem div_rem_edge_cases (dis : Bool) (pc instr : Nat) (tu : tu_builder) (σ : arch_state)
    (hrd : bit_sub 7 5 instr ≠ 0) :
    ((run σ (emitted tu (__div dis pc instr tu))).reg (reg_e.X (bit_sub 7 5 instr)) =
        div_result (uint_t 32 (σ.reg (reg_e.X (bit_sub 15 5 instr))))
          (uint_t 32 (σ.reg (reg_e.X (bit_sub 20 5 instr)))) ∧
      div_faults (exec_state.mk σ [] false) (emitted tu (__div dis pc instr tu)) = false) ∧
    ((run σ (emitted tu (__divu dis pc instr tu))).reg (reg_e.X (bit_sub 7 5 instr)) =
        divu_result (uint_t 32 (σ.reg (reg_e.X (bit_sub 15 5 instr))))
          (uint_t 32 (σ.reg (reg_e.X (bit_sub 20 5 instr)))) ∧
      div_faults (exec_state.mk σ [] false) (emitted tu (__divu dis pc instr tu)) = false) ∧
    ((run σ (emitted tu (__rem dis pc instr tu))).reg (reg_e.X (bit_sub 7 5 instr)) =
        rem_result (uint_t 32 (σ.reg (reg_e.X (bit_sub 15 5 instr))))
          (uint_t 32 (σ.reg (reg_e.X (bit_sub 20 5 instr)))) ∧
      div_faults (exec_state.mk σ [] false) (emitted tu (__rem dis pc instr tu)) = false) ∧
    ((run σ (emitted tu (__remu dis pc instr tu))).reg (reg_e.X (bit_sub 7 5 instr)) =
        remu_result (uint_t 32 (σ.reg (reg_e.X (bit_sub 15 5 instr))))
          (uint_t 32 (σ.reg (reg_e.X (bit_sub 20 5 instr)))) ∧
      div_faults (exec_state.mk σ [] false) (emitted tu (__remu dis pc instr tu)) = false) :=
  ⟨⟨div_run dis pc instr tu σ hrd, div_no_fault dis pc instr tu σ⟩,
    ⟨divu_run dis pc instr tu σ hrd, divu_no_fault dis pc instr tu σ⟩,
    ⟨rem_run dis pc instr tu σ hrd, rem_no_fault dis pc instr tu σ⟩,
    ⟨remu_run dis pc instr tu σ hrd, remu_no_fault dis pc instr tu σ⟩⟩

theorem div_rem_edge_cases_witness :
    bit_sub 7 5 0x0220C1B3 ≠ 0 ∧
      select_handler 0x0220C1B3 = compile_func.__div ∧
      div_result (uint_t 32 0x80000000) (uint_t 32 0xFFFFFFFF) = 0x80000000 ∧
      divu_result (uint_t 32 0x80000000) (uint_t 32 0) = 0xFFFFFFFF ∧
      rem_result (uint_t 32 0x80000000) (uint_t 32 0) = 0x80000000 ∧
      div_faults (exec_state.mk (arch_state.with_x1_x2 0x80000000 0xFFFFFFFF) [] false)
        [line.store
          (value.sdiv (value.load (reg_e.X 1) 0) (value.load (reg_e.X 2) 0)) (reg_e.X 3)] =
        true ∧
      (run (arch_state.with_x1_x2 0x80000000 0xFFFFFFFF)
          (emitted tu_builder.empty (__div false 0x1000 0x0220C1B3 tu_builder.empty))).reg
        (reg_e.X (bit_sub 7 5 0x0220C1B3)) =
        div_result
          (uint_t 32 ((arch_state.with_x1_x2 0x80000000 0xFFFFFFFF).reg
            (reg_e.X (bit_sub 15 5 0x0220C1B3))))
          (uint_t 32 ((arch_state.with_x1_x2 0x80000000 0xFFFFFFFF).reg
            (reg_e.X (bit_sub 20 5 0x0220C1B3)))) ∧
      div_faults (exec_state.mk (arch_state.with_x1_x2 0x80000000 0xFFFFFFFF) [] false)
        (emitted tu_builder.empty (__div false 0x1000 0x0220C1B3 tu_builder.empty)) = false :=
  ⟨by decide, by rw [select_handler_eq]; decide!, by decide, by decide, by decide, by decide!,
    (div_rem_edge_cases false 0x1000 0x0220C1B3 tu_builder.empty
      (arch_state.with_x1_x2 0x80000000 0xFFFFFFFF) (by decide)).1⟩

/-- C16. M-extension multiplies, for `rd ≠ 0`, with `a` the content of `X[rs1]` and `b` the
content of `X[rs2]`: running the lines of MUL leaves the low 32 bits of the product of `a`
and `b` in `X[rd]`; MULH leaves the high 32 bits of the 64-bit product of `a` and `b` both
sign-extended; MULHSU leaves the high 32 bits of the product of `a` sign-extended and `b`
zero-extended; MULHU leaves the high 32 bits of the product of `a` and `b` both
zero-extended. -/
theorem mul_high_halves (dis : Bool) (pc instr : Nat) (tu : tu_builder) (σ : arch_state)
    (hrd : bit_sub 7 5 instr ≠ 0) :
    (run σ (emitted tu (__mul dis pc instr tu))).reg (reg_e.X (bit_sub 7 5 instr)) =
        uint_t 32 (uint_t 32 (σ.reg (reg_e.X (bit_sub 15 5 instr))) *
          uint_t 32 (σ.reg (reg_e.X (bit_sub 20 5 instr)))) ∧
      (run σ (emitted tu (__mulh dis pc instr tu))).reg (reg_e.X (bit_sub 7 5 instr)) =
        mulh_result (σ.reg (reg_e.X (bit_sub 15 5 instr)))
          (σ.reg (reg_e.X (bit_sub 20 5 instr))) ∧
      (run σ (emitted tu (__mulhsu dis pc instr tu))).reg (reg_e.X (bit_sub 7 5 instr)) =
        mulhsu_result (σ.reg (reg_e.X (bit_sub 15 5 instr)))
          (σ.reg (reg_e.X (bit_sub 20 5 instr))) ∧
      (run σ (emitted tu (__mulhu dis pc instr tu))).reg (reg_e.X (bit_sub 7 5 instr)) =
        mulhu_result (σ.reg (reg_e.X (bit_sub 15 5 instr)))
          (σ.reg (reg_e.X (bit_sub 20 5 instr))) :=
  ⟨mul_run dis pc instr tu σ hrd, mulh_run dis pc instr tu σ hrd,
    mulhsu_run dis pc instr tu σ hrd, mulhu_run dis pc instr tu σ hrd⟩

theorem mul_high_halves_witness :
    bit_sub 7 5 0x021101B3 ≠ 0 ∧
      select_handler 0x021101B3 = compile_func.__mul ∧
      (run (arch_state.with_x1_x2 0xFFFFFFFF 2)
          (emitted tu_builder.empty (__mul false 0x1000 0x021101B3 tu_builder.empty))).reg
        (reg_e.X 3) = 0xFFFFFFFE ∧
      select_handler 0x022091B3 = compile_func.__mulh ∧
      (run (arch_state.with_x1_x2 0xFFFFFFFF 2)
          (emitted tu_builder.empty (__mulh false 0x1000 0x022091B3 tu_builder.empty))).reg
        (reg_e.X 3) = 0xFFFFFFFF ∧
      select_handler 0x0220A1B3 = compile_func.__mulhsu ∧
      (run (arch_state.with_x1_x2 0xFFFFFFFF 2)
          (emitted tu_builder.empty (__mulhsu false 0x1000 0x0220A1B3 tu_builder.empty))).reg
        (reg_e.X 3) = 0xFFFFFFFF ∧
      select_handler 0x021121B3 = compile_func.__mulhsu ∧
      (run (arch_state.with_x1_x2 0xFFFFFFFF 2)
          (emitted tu_builder.empty (__mulhsu false 0x1000 0x021121B3 tu_builder.empty))).reg
        (reg_e.X 3) = 1 ∧
      select_handler 0x0220B1B3 = compile_func.__mulhu ∧
      (run (arch_state.with_x1_x2 0xFFFFFFFF 2)
          (emitted tu_builder.empty (__mulhu false 0x1000 0x0220B1B3 tu_builder.empty))).reg
        (reg_e.X 3) = 1 :=
  ⟨by decide, by rw [select_handler_eq]; decide!,
    (mul_high_halves false 0x1000 0x021101B3 tu_builder.empty
      (arch_state.with_x1_x2 0xFFFFFFFF 2) (by decide)).1.trans (by decide!),
    by rw [select_handler_eq]; decide!,
    (mul_high_halves false 0x1000 0x022091B3 tu_builder.empty
      (arch_state.with_x1_x2 0xFFFFFFFF 2) (by decide)).2.1.trans (by decide!),
    by rw [select_handler_eq]; decide!,
    (mul_high_halves false 0x1000 0x0220A1B3 tu_builder.empty
      (arch_state.with_x1_x2 0xFFFFFFFF 2) (by decide)).2.2.1.trans (by decide!),
    by rw [select_handler_eq]; decide!,
    (mul_high_halves false 0x1000 0x021121B3 tu_builder.empty
      (arch_state.with_x1_x2 0xFFFFFFFF 2) (by decide)).2.2.1.trans (by decide!),
    by rw [select_handler_eq]; decide!,
    (mul_high_halves false 0x1000 0x0220B1B3 tu_builder.empty
      (arch_state.with_x1_x2 0xFFFFFFFF 2) (by decide)).2.2.2.trans (by decide!)⟩

/-- C17, counterexample. The claim has LB emit its read extended with `is_signed = true`
and LBU with `is_signed = false`.  The word `0x00008283` is LB x5, 0(x1) and the word
`0x0000C283` is LBU x5, 0(x1); the only store to `X[5]` that `__lb` emits is of
`ext(read_mem(MEM, address, 8), 32, false)` and the only one that `__lbu` emits is of
`ext(read_mem(MEM, address, 8), 32, true)`: the third argument is `false` where the claim
has `true`, and `true` where it has `false`.  The extension is the claimed one: with the
byte `0x80` in memory LB leaves `0xFFFFFF80` in `X[5]` and LBU leaves `0x00000080`. -/
theorem lb_ext_flag_counterexample :
    select_handler 0x00008283 = compile_func.__lb ∧
      select_handler 0x0000C283 = compile_func.__lbu ∧
      (emitted tu_builder.empty
          (invoke compile_func.__lb false 0x1000 0x00008283 tu_builder.empty)).filter
        (fun l => l.is_store_to (reg_e.X 5)) =
        [line.store
          (value.ext (value.read_mem mem_type_e.MEM (value.ref (local_name.tmp 0) 32) 8) 32
            false)
          (reg_e.X 5)] ∧
      (emitted tu_builder.empty
          (invoke compile_func.__lbu false 0x1000 0x0000C283 tu_builder.empty)).filter
        (fun l => l.is_store_to (reg_e.X 5)) =
        [line.store
          (value.ext (value.read_mem mem_type_e.MEM (value.ref (local_name.tmp 0) 32) 8) 32
            true)
          (reg_e.X 5)] ∧
      (run (arch_state.with_mem_x1 0x80 0x100)
          (emitted tu_builder.empty
            (invoke compile_func.__lb false 0x1000 0x00008283 tu_builder.empty))).reg
        (reg_e.X 5) = 0xFFFFFF80 ∧
      (run (arch_state.with_mem_x1 0x80 0x100)
          (emitted tu_builder.empty
            (invoke compile_func.__lbu false 0x1000 0x0000C283 tu_builder.empty))).reg
        (reg_e.X 5) = 0x00000080 := by
  refine ⟨?_, ?_, ?_, ?_, ?_, ?_⟩
  · rw [select_handler_eq]; decide!
  · rw [select_handler_eq]; decide!
  · decide!
  · decide!
  · decide!
  · decide!

/-- C17, amended. Loads, for `rd ≠ 0`: LB, LH and LW emit
`read_mem(MEM, X[rs1] + sext(imm12), 8/16/32)` extended to 32 bits with the third argument
of `ext` `false`, and running their lines leaves the sign extension of the value read in
`X[rd]`; LBU and LHU emit the same read of 8 and 16 bits extended with the third argument
`true`, and running their lines leaves the zero extension of the value read in `X[rd]`. -/
theorem load_ext_flags (dis : Bool) (pc instr : Nat) (tu : tu_builder) (σ : arch_state)
    (hrd : bit_sub 7 5 instr ≠ 0) :
    (load_shape __lb 8 false ∧ load_shape __lh 16 false ∧ load_shape __lw 32 false ∧
        load_shape __lbu 8 true ∧ load_shape __lhu 16 true) ∧
      (run σ (emitted tu (__lb dis pc instr tu))).reg (reg_e.X (bit_sub 7 5 instr)) =
        load_result σ instr 8 true ∧
      (run σ (emitted tu (__lh dis pc instr tu))).reg (reg_e.X (bit_sub 7 5 instr)) =
        load_result σ instr 16 true ∧
      (run σ (emitted tu (__lw dis pc instr tu))).reg (reg_e.X (bit_sub 7 5 instr)) =
        load_result σ instr 32 true ∧
      (run σ (emitted tu (__lbu dis pc instr tu))).reg (reg_e.X (bit_sub 7 5 instr)) =
        load_result σ instr 8 false ∧
      (run σ (emitted tu (__lhu dis pc instr tu))).reg (reg_e.X (bit_sub 7 5 instr)) =
        load_result σ instr 16 false :=
  ⟨⟨lb_shape, lh_shape, lw_shape, lbu_shape, lhu_shape⟩, lb_run dis pc instr tu σ hrd,
    lh_run dis pc instr tu σ hrd, lw_run dis pc instr tu σ hrd, lbu_run dis pc instr tu σ hrd,
    lhu_run dis pc instr tu σ hrd⟩

theorem load_ext_flags_witness :
    bit_sub 7 5 0x00008283 ≠ 0 ∧
      (run (arch_state.with_mem_x1 0x8180 0x100)
          (emitted tu_builder.empty (__lb false 0x1000 0x00008283 tu_builder.empty))).reg
        (reg_e.X 5) = 0xFFFFFF80 ∧
      (run (arch_state.with_mem_x1 0x8180 0x100)
          (emitted tu_builder.empty (__lh false 0x1000 0x00008283 tu_builder.empty))).reg
        (reg_e.X 5) = 0xFFFF8180 ∧
      (run (arch_state.with_mem_x1 0x8180 0x100)
          (emitted tu_builder.empty (__lw false 0x1000 0x00008283 tu_builder.empty))).reg
        (reg_e.X 5) = 0x00008180 ∧
      (run (arch_state.with_mem_x1 0x8180 0x100)
          (emitted tu_builder.empty (__lbu false 0x1000 0x00008283 tu_builder.empty))).reg
        (reg_e.X 5) = 0x00000080 ∧
      (run (arch_state.with_mem_x1 0x8180 0x100)
          (emitted tu_builder.empty (__lhu false 0x1000 0x00008283 tu_builder.empty))).reg
        (reg_e.X 5) = 0x00008180 :=
  ⟨by decide,
    (load_ext_flags false 0x1000 0x00008283 tu_builder.empty
      (arch_state.with_mem_x1 0x8180 0x100) (by decide)).2.1.trans (by decide!),
    (load_ext_flags false 0x1000 0x00008283 tu_builder.empty
      (arch_state.with_mem_x1 0x8180 0x100) (by decide)).2.2.1.trans (by decide!),
    (load_ext_flags false 0x1000 0x00008283 tu_builder.empty
      (arch_state.with_mem_x1 0x8180 0x100) (by decide)).2.2.2.1.trans (by decide!),
    (load_ext_flags false 0x1000 0x00008283 tu_builder.empty
      (arch_state.with_mem_x1 0x8180 0x100) (by decide)).2.2.2.2.1.trans (by decide!),
    (load_ext_flags false 0x1000 0x00008283 tu_builder.empty
      (arch_state.with_mem_x1 0x8180 0x100) (by decide)).2.2.2.2.2.trans (by decide!)⟩

/-- C18, as claimed, fails on its second witness: the words `0x12345637` and `0x67868613`
(bytes `37 56 34 12 13 86 86 67`) have `rd = 12`, and the second has `rs1 = 13`; they are
LUI x12, 0x12345 and ADDI x12, x13, 0x678.  Translated at `0x1000` and run from the
all-zero state they leave `X[6] = 0`, not `0x12345678`, and `X[12] = 0x678`. -/
theorem lui_addi_bytes_counterexample :
    select_handler 0x12345637 = compile_func.__lui ∧
      select_handler 0x67868613 = compile_func.__addi ∧
      bit_sub 7 5 0x12345637 = 12 ∧ bit_sub 7 5 0x67868613 = 12 ∧
      bit_sub 15 5 0x67868613 = 13 ∧
      (exec_lines (exec_state.mk arch_state.zero [] false)
          (emitted tu_builder.empty
            (invoke compile_func.__addi false
              (invoke compile_func.__lui false 0x1000 0x12345637 tu_builder.empty).pc
              0x67868613
              (invoke compile_func.__lui false 0x1000 0x12345637
                tu_builder.empty).tu))).σ.reg (reg_e.X 6) = 0 ∧
      ¬((exec_lines (exec_state.mk arch_state.zero [] false)
          (emitted tu_builder.empty
            (invoke compile_func.__addi false
              (invoke compile_func.__lui false 0x1000 0x12345637 tu_builder.empty).pc
              0x67868613
              (invoke compile_func.__lui false 0x1000 0x12345637
                tu_builder.empty).tu))).σ.reg (reg_e.X 6) = 0x12345678) ∧
      (exec_lines (exec_state.mk arch_state.zero [] false)
          (emitted tu_builder.empty
            (invoke compile_func.__addi false
              (invoke compile_func.__lui false 0x1000 0x12345637 tu_builder.empty).pc
              0x67868613
              (invoke compile_func.__lui false 0x1000 0x12345637
                tu_builder.empty).tu))).σ.reg (reg_e.X 12) = 0x678 := by
  refine ⟨select_handler_lui _ (by decide), select_handler_addi _ (by decide), by decide,
    by decide, by decide, ?_, ?_, ?_⟩ <;> decide!

/-- C18 (amended). ADDI leaves `X[rs1] + sext(instr[31:20])` (mod 2^32) in `X[rd]` for
`rd = instr[11:7] ≠ 0` and `rs1 = instr[19:15]`, and LUI leaves `instr & 0xFFFFF000`, which
is the 20-bit field `instr[31:12]` shifted left by 12.  Hence for every LUI word `w1` and
ADDI word `w2` with the same `rd ≠ 0` and `rs1 = rd`, translating `w1` at `pc` and `w2` at
the pc the first handler leaves, and executing the emitted lines from a state without a
pending trap, leaves `X[rd] = (hi << 12) + sext(lo)` (mod 2^32) and `NEXT_PC = pc + 8`,
with no trap raised and no trap check taken.  The word `0x00700293` (ADDI x5, x0, 7, bytes
`93 02 70 00`) gives `X[5] = 7`, and the words `0x12345337`, `0x67830313` (LUI x6, 0x12345;
ADDI x6, x6, 0x678, bytes `37 53 34 12 13 03 83 67`) give `X[6] = 0x12345678`. -/
theorem lui_addi_sequence :
    (∀ (dis : Bool) (pc instr : Nat) (tu : tu_builder) (σ : arch_state),
        instr &&& 0x707f = 0x13 → bit_sub 7 5 instr ≠ 0 →
        select_handler instr = compile_func.__addi ∧
          (run σ (emitted tu (invoke (select_handler instr) dis pc instr tu))).reg
              (reg_e.X (bit_sub 7 5 instr)) =
            uint_of_int 32 ((σ.reg (reg_e.X (bit_sub 15 5 instr)) : Int) +
              sext 12 (bit_sub 20 12 instr))) ∧
      (∀ (dis : Bool) (pc instr : Nat) (tu : tu_builder) (σ : arch_state),
        instr &&& 0x7f = 0x37 → bit_sub 7 5 instr ≠ 0 →
        select_handler instr = compile_func.__lui ∧
          (run σ (emitted tu (invoke (select_handler instr) dis pc instr tu))).reg
              (reg_e.X (bit_sub 7 5 instr)) = instr &&& 0xFFFFF000 ∧
          instr &&& 0xFFFFF000 = uint_t 32 ((bit_sub 12 20 instr) <<< 12)) ∧
      (∀ (dis : Bool) (pc w1 w2 rd : Nat) (tu : tu_builder) (σ : arch_state),
        w1 &&& 0x7f = 0x37 → w2 &&& 0x707f = 0x13 → bit_sub 7 5 w1 = rd →
        bit_sub 7 5 w2 = rd → bit_sub 15 5 w2 = rd → rd ≠ 0 → σ.trap_state = 0 →
        (invoke (select_handler w2) dis (invoke (select_handler w1) dis pc w1 tu).pc w2
            (invoke (select_handler w1) dis pc w1 tu).tu).pc = pc + 8 ∧
          (exec_lines (exec_state.mk σ [] false)
              (emitted tu
                (invoke (select_handler w2) dis (invoke (select_handler w1) dis pc w1 tu).pc w2
                  (invoke (select_handler w1) dis pc w1 tu).tu))).σ.reg (reg_e.X rd) =
            uint_of_int 32 (((w1 &&& 0xFFFFF000 : Nat) : Int) + sext 12 (bit_sub 20 12 w2)) ∧
          (exec_lines (exec_state.mk σ [] false)
              (emitted tu
                (invoke (select_handler w2) dis (invoke (select_handler w1) dis pc w1 tu).pc w2
                  (invoke (select_handler w1) dis pc w1 tu).tu))).σ.reg reg_e.NEXT_PC =
            uint_t 32 (pc + 8) ∧
          (exec_lines (exec_state.mk σ [] false)
              (emitted tu
                (invoke (select_handler w2) dis (invoke (select_handler w1) dis pc w1 tu).pc w2
                  (invoke (select_handler w1) dis pc w1 tu).tu))).σ.trap_state = 0 ∧
          (exec_lines (exec_state.mk σ [] false)
              (emitted tu
                (invoke (select_handler w2) dis (invoke (select_handler w1) dis pc w1 tu).pc w2
                  (invoke (select_handler w1) dis pc w1 tu).tu))).left = false) ∧
      ((exec_lines (exec_state.mk arch_state.zero [] false)
            (emitted tu_builder.empty
              (invoke (select_handler 0x00700293) false 0x1000 0x00700293
                tu_builder.empty))).σ.reg (reg_e.X 5) = 7 ∧
        (exec_lines (exec_state.mk arch_state.zero [] false)
            (emitted tu_builder.empty
              (invoke (select_handler 0x00700293) false 0x1000 0x00700293
                tu_builder.empty))).σ.reg reg_e.NEXT_PC = 0x1004 ∧
        (exec_lines (exec_state.mk arch_state.zero [] false)
            (emitted tu_builder.empty
              (invoke (select_handler 0x00700293) false 0x1000 0x00700293
                tu_builder.empty))).σ.trap_state = 0) ∧
      ((exec_lines (exec_state.mk arch_state.zero [] false)
            (emitted tu_builder.empty
              (invoke (select_handler 0x67830313) false
                (invoke (select_handler 0x12345337) false 0x1000 0x12345337
                  tu_builder.empty).pc
                0x67830313
                (invoke (select_handler 0x12345337) false 0x1000 0x12345337
                  tu_builder.empty).tu))).σ.reg (reg_e.X 6) = 0x12345678 ∧
        (exec_lines (exec_state.mk arch_state.zero [] false)
            (emitted tu_builder.empty
              (invoke (select_handler 0x67830313) false
                (invoke (select_handler 0x12345337) false 0x1000 0x12345337
                  tu_builder.empty).pc
                0x67830313
                (invoke (select_handler 0x12345337) false 0x1000 0x12345337
                  tu_builder.empty).tu))).σ.reg reg_e.NEXT_PC = 0x1008) := by
  have hs1 : select_handler 0x00700293 = compile_func.__addi :=
    select_handler_addi _ (by decide)
  have hs2 : select_handler 0x12345337 = compile_func.__lui :=
    select_handler_lui _ (by decide)
  have hs3 : select_handler 0x67830313 = compile_func.__addi :=
    select_handler_addi _ (by decide)
  refine ⟨?_, ?_, ?_, ⟨?_, ?_, ?_⟩, ⟨?_, ?_⟩⟩
  · intro dis pc instr tu σ hw hrd
    refine ⟨select_handler_addi instr hw, ?_⟩
    rw [select_handler_addi instr hw]
    exact addi_run dis pc instr tu σ hrd
  · intro dis pc instr tu σ hw hrd
    refine ⟨select_handler_lui instr hw, ?_, (lui_imm_eq instr).symm⟩
    rw [select_handler_lui instr hw]
    exact lui_run dis pc instr tu σ hrd
  · intro dis pc w1 w2 rd tu σ hw1 hw2 hrd1 hrd2 hrs1 hrd htrap
    rw [select_handler_lui w1 hw1, select_handler_addi w2 hw2]
    exact lui_addi_run dis pc w1 w2 rd tu σ hrd1 hrd2 hrs1 hrd htrap
  · rw [hs1]; decide!
  · rw [hs1]; decide!
  · rw [hs1]; decide!
  · rw [hs2, hs3]; decide!
  · rw [hs2, hs3]; decide!

/-- C19. CSR access suppression, for every instruction word: CSRRW and CSRRWI always emit
the CSR write and emit a CSR read exactly when `rd ≠ 0`; CSRRS and CSRRC always emit the
read and emit the write, of `old | X[rs1]` and `old & ~X[rs1]`, exactly when `rs1 ≠ 0`;
CSRRSI and CSRRCI emit the write, of `old | zimm` and `old & ~zimm`, exactly when the 5-bit
immediate is non-zero; and in every case `X[rd]`, when `rd ≠ 0`, receives the CSR value
held before the write. -/
theorem csr_access :
    csr_spec __csrrw (fun _ => true) (fun rd => decide (rd ≠ 0))
        (fun σ rs1 => uint_t 32 (σ.reg (reg_e.X rs1))) (fun _ x => x) ∧
      csr_spec __csrrs (fun f => decide (f ≠ 0)) (fun _ => true)
        (fun σ rs1 => uint_t 32 (σ.reg (reg_e.X rs1))) (fun old x => old ||| x) ∧
      csr_spec __csrrc (fun f => decide (f ≠ 0)) (fun _ => true)
        (fun σ rs1 => uint_t 32 (σ.reg (reg_e.X rs1)))
        (fun old x => old &&& (0xFFFFFFFF - x)) ∧
      csr_spec __csrrwi (fun _ => true) (fun rd => decide (rd ≠ 0))
        (fun _ zimm => zimm) (fun _ x => x) ∧
      csr_spec __csrrsi (fun f => decide (f ≠ 0)) (fun _ => true)
        (fun _ zimm => zimm) (fun old x => old ||| x) ∧
      csr_spec __csrrci (fun f => decide (f ≠ 0)) (fun _ => true)
        (fun _ zimm => zimm) (fun old x => old &&& (0xFFFFFFFF - x)) :=
  ⟨csrrw_spec, csrrs_spec, csrrc_spec, csrrwi_spec, csrrsi_spec, csrrci_spec⟩

/-- C20. NaN-boxing: each of the handlers that store a single-precision result to a 64-bit
F register emits, for every instruction word, exactly one store to an F register, and the
stored expression is the OR of `(0xFFFFFFFFFFFFFFFF << 32)`, which denotes
`0xFFFFFFFF00000000`, with the 64-bit extension of the result; so the upper 32 bits of the
stored 64-bit value are all ones. -/
theorem nan_boxing :
    (∀ f ∈ single_result_handlers, ∀ (dis : Bool) (pc instr : Nat) (tu : tu_builder),
        ((emitted tu (invoke f dis pc instr tu)).filter line.is_f_store).map
          line.is_nan_boxed_store = [true]) ∧
      (∀ (v : value) (σ : arch_state), v.is_nan_boxed = true →
        (∃ x, v = value.l_or nan_box_upper (value.ext x 64 true)) ∧
          nan_box_upper.eval σ = 0xFFFFFFFF00000000 ∧
          uint_t 64 (v.eval σ) / 2 ^ 32 = 0xFFFFFFFF) := by
  constructor
  · intro f hf dis pc instr tu
    simp only [single_result_handlers, List.mem_cons, List.mem_singleton, List.mem_nil_iff,
      or_false] at hf
    rcases hf with rfl | rfl | rfl | rfl | rfl | rfl | rfl | rfl | rfl | rfl | rfl | rfl | rfl | rfl | rfl | rfl | rfl | rfl | rfl | rfl | rfl
    · exact flw_boxed dis pc instr tu
    · exact c_flw_boxed dis pc instr tu
    · exact c_flwsp_boxed dis pc instr tu
    · exact fmadd_s_boxed dis pc instr tu
    · exact fmsub_s_boxed dis pc instr tu
    · exact fnmadd_s_boxed dis pc instr tu
    · exact fnmsub_s_boxed dis pc instr tu
    · exact fadd_s_boxed dis pc instr tu
    · exact fsub_s_boxed dis pc instr tu
    · exact fmul_s_boxed dis pc instr tu
    · exact fdiv_s_boxed dis pc instr tu
    · exact fsqrt_s_boxed dis pc instr tu
    · exact fsgnj_s_boxed dis pc instr tu
    · exact fsgnjn_s_boxed dis pc instr tu
    · exact fsgnjx_s_boxed dis pc instr tu
    · exact fmin_s_boxed dis pc instr tu
    · exact fmax_s_boxed dis pc instr tu
    · exact fcvt_s_w_boxed dis pc instr tu
    · exact fcvt_s_wu_boxed dis pc instr tu
    · exact fcvt_s_d_boxed dis pc instr tu
    · exact fmv_w_x_boxed dis pc instr tu
  · intro v σ h
    refine ⟨?_, nan_box_upper_eval σ, nan_boxed_eval v σ h⟩
    unfold value.is_nan_boxed at h
    split at h
    · rename_i a x
      have ha : a = nan_box_upper := by simpa using h
      exact ⟨x, by rw [ha]⟩
    · exact absurd h (by simp)
/-! ## Claims on the disassembly switch and on LR.W / SC.W -/

/-- C21 (defect of the code). The claimed switch fails for FSW.  The format string of the
`fmt::format` call in the disassembly branch of `__fsw` has `name(rs1)` closed by a square
bracket where the replacement field `rs1` belongs, so the call throws instead of returning
a text: with disassembly enabled the handler is left before its `print_disass` line, the
advance of the pc and the return, while with disassembly disabled it returns CONT with the
pc advanced by 4; the word `0x0020A027` (FSW f2, 0(x1)) is dispatched to it.  The format
call of every other handler returns, and for each of the other 158 instruction handlers
the lines emitted with disassembly enabled are the lines emitted with it disabled with
exactly one `print_disass` line inserted; removing that line gives the lines emitted with
it disabled, and the termination kind and the pc are the same in both modes.  The fallback
`illegal_intruction`, which has no disassembly switch, emits the same lines in both
modes. -/
theorem fsw_disass_throws (f : compile_func) (pc instr : Nat) (tu : tu_builder) :
    (disass_format compile_func.__fsw =
          some ("\x7bmnemonic:10\x7d f\x7brs2\x7d, \x7bimm\x7d(\x7bname(rs1)])",
            ["mnemonic", "rs2", "imm"]) ∧
        disass_format_ok compile_func.__fsw = false ∧
        invoke_checked compile_func.__fsw true pc instr tu = none ∧
        invoke_checked compile_func.__fsw false pc instr tu =
          some (invoke compile_func.__fsw false pc instr tu) ∧
        (invoke compile_func.__fsw false pc instr tu).cont = continuation_e.CONT ∧
        (invoke compile_func.__fsw false pc instr tu).pc = pc + 4 ∧
        select_handler 0x0020A027 = compile_func.__fsw) ∧
      (f ≠ compile_func.__fsw →
        disass_format_ok f = true ∧
          invoke_checked f true pc instr tu = some (invoke f true pc instr tu) ∧
          invoke_checked f false pc instr tu = some (invoke f false pc instr tu) ∧
          (emitted tu (invoke f true pc instr tu)).filter (fun l => !l.is_print_disass) =
            emitted tu (invoke f false pc instr tu) ∧
          (emitted tu (invoke f false pc instr tu)).filter line.is_print_disass = [] ∧
          (invoke f true pc instr tu).cont = (invoke f false pc instr tu).cont ∧
          (invoke f true pc instr tu).pc = (invoke f false pc instr tu).pc) ∧
      (f ≠ compile_func.__fsw → f ≠ compile_func.illegal_intruction →
        disass_inserted (emitted tu (invoke f true pc instr tu))
            (emitted tu (invoke f false pc instr tu)) ∧
          ((emitted tu (invoke f true pc instr tu)).filter line.is_print_disass).length = 1 ∧
          (emitted tu (invoke f true pc instr tu)).length =
            (emitted tu (invoke f false pc instr tu)).length + 1) ∧
      (f = compile_func.illegal_intruction →
        emitted tu (invoke f true pc instr tu) = emitted tu (invoke f false pc instr tu)) := by
  have hbad : disass_format_ok compile_func.__fsw = false := by decide!
  refine ⟨⟨rfl, hbad, ?_, ?_, rfl, rfl, ?_⟩, ?_, ?_, ?_⟩
  · unfold invoke_checked
    rw [if_pos ⟨rfl, hbad⟩]
  · unfold invoke_checked
    rw [if_neg (fun h => Bool.noConfusion h.1)]
  · rw [select_handler_eq]; decide!
  · intro hf
    have hok := disass_format_ok_of_ne f hf
    have hne : ¬(disass_format_ok f = false) := by rw [hok]; decide
    refine ⟨hok, ?_, ?_, ?_⟩
    · unfold invoke_checked
      rw [if_neg (fun h => hne h.2)]
    · unfold invoke_checked
      rw [if_neg (fun h => hne h.2)]
    · by_cases hill : f = compile_func.illegal_intruction
      · subst hill
        have hill : ∀ dis,
            emitted tu (invoke compile_func.illegal_intruction dis pc instr tu) =
              emitted tu (illegal_intruction pc instr tu) := fun _ => rfl
        have hnone : (emitted tu (illegal_intruction pc instr tu)).filter
            (fun l => !l.is_print_disass) = emitted tu (illegal_intruction pc instr tu) ∧
            (emitted tu (illegal_intruction pc instr tu)).filter line.is_print_disass = [] := by
          simp only [illegal_intruction, emitted, tu_simps]
          simp [line.is_print_disass, List.filter_cons]
        refine ⟨?_, ?_, rfl, rfl⟩
        · rw [hill true, hill false]
          exact hnone.1
        · rw [hill false]
          exact hnone.2
      · have hins := invoke_disass f hill pc instr tu
        have hfil := disass_inserted_filter hins
        refine ⟨hfil.1, ?_, ?_, ?_⟩
        · obtain ⟨_, _, _, _, _, _, h4⟩ := hins
          exact h4
        · rw [invoke_cont, invoke_cont]
        · rw [invoke_pc f hill, invoke_pc f hill]
  · intro _ hill
    have hins := invoke_disass f hill pc instr tu
    have hfil := disass_inserted_filter hins
    exact ⟨hins, hfil.2.1, hfil.2.2⟩
  · intro hill
    subst hill
    rfl

/-- C22, counterexample. The word `0x1000A02F` is LR.W with rd = 0 and rs1 = 1; the
handler emits for it its envelope lines only, with neither a read of MEM nor a write to
RES among them. -/
theorem lr_w_rd_zero_counterexample :
    select_handler 0x1000A02F = compile_func.__lr_w ∧
      bit_sub 7 5 0x1000A02F = 0 ∧ bit_sub 15 5 0x1000A02F = 1 ∧
      emitted tu_builder.empty
          (invoke compile_func.__lr_w false 0x1000 0x1000A02F tu_builder.empty) =
        [line.label "LR_W" 0x1000, line.sync sync_type.PRE_SYNC 8, line.open_scope,
          line.close_scope, line.set_pc reg_e.NEXT_PC 0x1004,
          line.sync sync_type.POST_SYNC 8, line.trap_check] ∧
      (emitted tu_builder.empty
          (invoke compile_func.__lr_w false 0x1000 0x1000A02F tu_builder.empty)).any
        (fun l => l.reads mem_type_e.MEM || l.is_write_mem mem_type_e.RES) = false := by
  refine ⟨?_, ?_, ?_, ?_, ?_⟩
  · rw [select_handler_eq]; decide!
  · decide
  · decide
  · decide!
  · decide!

/-- C22, amended. LR.W: for every LR.W encoding with rd ≠ 0 the handler emits, between its
envelope lines, the assignment of `X[rs1]` to a local, the store to `X[rd]` of the 32-bit
read of MEM at that address, and the write to RES at that address of an 8-bit `-1`
extended by its sign to 32 bits, which is the value `0xFFFFFFFF` in every state; running
the lines leaves the loaded word in `X[rd]` and `0xFFFFFFFF` in RES at `X[rs1]`. -/
theorem lr_w_spec (dis : Bool) (pc instr : Nat) (tu : tu_builder) (σ : arch_state)
    (hrd : bit_sub 7 5 instr ≠ 0) :
    emitted tu (__lr_w dis pc instr tu) =
        line.label "LR_W" pc :: line.sync sync_type.PRE_SYNC 8 ::
          ((if dis = true then
              [line.print_disass pc "lr.w"
                [((bit_sub 7 5 instr : Nat) : Int), ((bit_sub 15 5 instr : Nat) : Int)]]
            else []) ++
            [line.open_scope,
              line.assignment (local_name.tmp tu.serial)
                (value.load (reg_e.X (bit_sub 15 5 instr)) 0) 32,
              line.store
                (value.ext
                  (value.read_mem mem_type_e.MEM (value.ref (local_name.tmp tu.serial) 32) 32)
                  32 false)
                (reg_e.X (bit_sub 7 5 instr)),
              line.write_mem mem_type_e.RES (value.ref (local_name.tmp tu.serial) 32)
                (value.trunc (value.ext (value.neg (value.constant 1 8)) 32 false) 32),
              line.close_scope, line.set_pc reg_e.NEXT_PC (pc + 4),
              line.sync sync_type.POST_SYNC 8, line.trap_check]) ∧
      (∀ σ1 : arch_state,
        (value.trunc (value.ext (value.neg (value.constant 1 8)) 32 false) 32).eval σ1 =
          0xFFFFFFFF) ∧
      (run σ (emitted tu (__lr_w dis pc instr tu))).reg (reg_e.X (bit_sub 7 5 instr)) =
        uint_t 32 (σ.mem mem_type_e.MEM (uint_t 32 (σ.reg (reg_e.X (bit_sub 15 5 instr))))) ∧
      (run σ (emitted tu (__lr_w dis pc instr tu))).mem mem_type_e.RES
        (uint_t 32 (σ.reg (reg_e.X (bit_sub 15 5 instr)))) = 0xFFFFFFFF := by
  refine ⟨?_, ?_, (lr_w_run dis pc instr tu σ hrd).1, (lr_w_run dis pc instr tu σ hrd).2⟩
  · rw [lr_w_emitted, if_pos hrd]
    rfl
  · intro σ1
    simp only [value.eval, value.size, Bool.false_eq_true, if_true, if_false]
    decide

theorem lr_w_spec_witness :
    bit_sub 7 5 0x1000A1AF ≠ 0 ∧
      select_handler 0x1000A1AF = compile_func.__lr_w ∧
      (arch_state.with_mem_x1 0x12345678 0x100).mem mem_type_e.RES 0x100 = 0x12345678 ∧
      (run (arch_state.with_mem_x1 0x12345678 0x100)
          (emitted tu_builder.empty (__lr_w false 0x1000 0x1000A1AF tu_builder.empty))).reg
        (reg_e.X 3) = 0x12345678 ∧
      (run (arch_state.with_mem_x1 0x12345678 0x100)
          (emitted tu_builder.empty (__lr_w false 0x1000 0x1000A1AF tu_builder.empty))).mem
        mem_type_e.RES 0x100 = 0xFFFFFFFF :=
  ⟨by decide, by rw [select_handler_eq]; decide!, by decide,
    (lr_w_spec false 0x1000 0x1000A1AF tu_builder.empty
      (arch_state.with_mem_x1 0x12345678 0x100) (by decide)).2.2.1.trans (by decide!),
    (lr_w_spec false 0x1000 0x1000A1AF tu_builder.empty
      (arch_state.with_mem_x1 0x12345678 0x100) (by decide)).2.2.2⟩

/-- C23. SC.W: for every instruction word the handler reads RES at `X[rs1]` into a local,
emits the write of `X[rs2]` to MEM at `X[rs1]` inside `if(res != 0)`, and when rd ≠ 0 stores
to `X[rd]` the choice of 0 for a non-zero reservation value and 1 for a zero one; running
the lines writes `X[rs2]` to MEM at `X[rs1]` exactly when the reservation value is non-zero
and, when rd ≠ 0, leaves 0 in `X[rd]` in that case and 1 otherwise. -/
theorem sc_w_spec (dis : Bool) (pc instr : Nat) (tu : tu_builder) (σ : arch_state) :
    emitted tu (__sc_w dis pc instr tu) =
        line.label "SC_W" pc :: line.sync sync_type.PRE_SYNC 9 ::
          ((if dis = true then
              [line.print_disass pc "sc.w"
                [((bit_sub 7 5 instr : Nat) : Int), ((bit_sub 15 5 instr : Nat) : Int),
                  ((bit_sub 20 5 instr : Nat) : Int)]]
            else []) ++
            line.open_scope ::
              line.assignment (local_name.tmp tu.serial)
                (value.load (reg_e.X (bit_sub 15 5 instr)) 0) 32 ::
              line.assignment (local_name.tmp (tu.serial + 1))
                (value.read_mem mem_type_e.RES (value.ref (local_name.tmp tu.serial) 32) 32)
                32 ::
              line.if_open
                (value.icmp ICmpInst.ICMP_NE (value.ref (local_name.tmp (tu.serial + 1)) 32)
                  (value.constant 0 32)) ::
              line.write_mem mem_type_e.MEM (value.ref (local_name.tmp tu.serial) 32)
                (value.trunc (value.load (reg_e.X (bit_sub 20 5 instr)) 0) 32) ::
              line.close_scope ::
              ((if bit_sub 7 5 instr ≠ 0 then
                  [line.store
                    (value.choose
                      (value.icmp ICmpInst.ICMP_NE
                        (value.ref (local_name.tmp (tu.serial + 1)) 32)
                        (value.ext (value.constant 0 32) 32 true))
                      (value.constant 0 32) (value.constant 1 32))
                    (reg_e.X (bit_sub 7 5 instr))]
                else []) ++
                [line.close_scope, line.set_pc reg_e.NEXT_PC (pc + 4),
                  line.sync sync_type.POST_SYNC 9, line.trap_check])) ∧
      (run σ (emitted tu (__sc_w dis pc instr tu))).mem mem_type_e.MEM =
        (if uint_t 32
            (σ.mem mem_type_e.RES (uint_t 32 (σ.reg (reg_e.X (bit_sub 15 5 instr))))) ≠ 0
          then Function.update (σ.mem mem_type_e.MEM)
            (uint_t 32 (σ.reg (reg_e.X (bit_sub 15 5 instr))))
            (uint_t 32 (σ.reg (reg_e.X (bit_sub 20 5 instr))))
          else σ.mem mem_type_e.MEM) ∧
      (bit_sub 7 5 instr ≠ 0 →
        (run σ (emitted tu (__sc_w dis pc instr tu))).reg (reg_e.X (bit_sub 7 5 instr)) =
          if uint_t 32
              (σ.mem mem_type_e.RES (uint_t 32 (σ.reg (reg_e.X (bit_sub 15 5 instr))))) ≠ 0
            then 0 else 1) :=
  ⟨sc_w_emitted dis pc instr tu, (sc_w_run dis pc instr tu σ).1, (sc_w_run dis pc instr tu σ).2⟩
/-! ## Claims on the floating-point conversions and comparisons -/

/-- C24. Divergence of the code from the claim that every FCVT handler updates FCSR:
FCVT.W.S, FCVT.WU.S, FCVT.W.D and FCVT.WU.D emit, after the store of the conversion call,
the three lines of the flag update (`fget_flags`, FCSR with its low 5 bits replaced, store
to FCSR), but FCVT.S.W, FCVT.S.WU, FCVT.S.D, FCVT.D.S, FCVT.D.W and FCVT.D.WU emit no call
of `fget_flags` and no store to FCSR for any instruction word.  The word `0xD0000053`
(FCVT.S.W f0, x0) is dispatched to `__fcvt_s_w`, which emits the conversion and the boxed
store only. -/
theorem fcvt_flags_missing (dis : Bool) (pc instr : Nat) (tu : tu_builder) :
    (∃ pre post, emitted tu (__fcvt_w_s dis pc instr tu) =
        pre ++ fcsr_update (tu.serial + 1) ++ post ∧
        pre.any (line.calls "fcvt_s") = true ∧ post.any (line.calls "fcvt_s") = false) ∧
      (∃ pre post, emitted tu (__fcvt_wu_s dis pc instr tu) =
        pre ++ fcsr_update (tu.serial + 1) ++ post ∧
        pre.any (line.calls "fcvt_s") = true ∧ post.any (line.calls "fcvt_s") = false) ∧
      (∃ pre post, emitted tu (__fcvt_w_d dis pc instr tu) =
        pre ++ fcsr_update tu.serial ++ post ∧
        pre.any (line.calls "fcvt_64_32") = true ∧
        post.any (line.calls "fcvt_64_32") = false) ∧
      (∃ pre post, emitted tu (__fcvt_wu_d dis pc instr tu) =
        pre ++ fcsr_update tu.serial ++ post ∧
        pre.any (line.calls "fcvt_64_32") = true ∧
        post.any (line.calls "fcvt_64_32") = false) ∧
      (∀ f ∈ [compile_func.__fcvt_s_w, compile_func.__fcvt_s_wu, compile_func.__fcvt_s_d,
          compile_func.__fcvt_d_s, compile_func.__fcvt_d_w, compile_func.__fcvt_d_wu],
        (emitted tu (invoke f dis pc instr tu)).any
          (fun l => l.calls "fget_flags" || l.is_store_to reg_e.FCSR) = false) ∧
      select_handler 0xD0000053 = compile_func.__fcvt_s_w ∧
      emitted tu_builder.empty
          (invoke compile_func.__fcvt_s_w false 0x1000 0xD0000053 tu_builder.empty) =
        [line.label "FCVT_S_W" 0x1000, line.sync sync_type.PRE_SYNC 92, line.open_scope,
          line.assignment (local_name.tmp 0)
            (value.callf "fcvt_s"
              (value.arg (value.trunc (value.load (reg_e.X 0) 0) 32)
                (value.arg (value.ext (value.constant 2 64) 32 true)
                  (value.arg (value.constant 0 8) value.noarg)))) 32,
          line.store
            (value.l_or
              (value.shl (value.constant 18446744073709551615 64) (value.constant 32 64))
              (value.ext (value.ref (local_name.tmp 0) 32) 64 true))
            (reg_e.F 0),
          line.close_scope, line.set_pc reg_e.NEXT_PC 0x1004,
          line.sync sync_type.POST_SYNC 92, line.trap_check] := by
  refine ⟨?_, ?_, ?_, ?_, ?_, ?_, ?_⟩
  · rw [fcvt_w_s_emitted]
    refine ⟨_, _, split_after_three _ _ _ _ _ _ _ _, ?_, ?_⟩
    · cases dis <;> simp [line.calls, value.calls]
    · simp [line.calls, value.calls]
  · rw [fcvt_wu_s_emitted]
    refine ⟨_, _, split_after_three _ _ _ _ _ _ _ _, ?_, ?_⟩
    · cases dis <;> simp [line.calls, value.calls]
    · simp [line.calls, value.calls]
  · rw [fcvt_w_d_emitted]
    refine ⟨_, _, split_after_two _ _ _ _ _ _ _, ?_, ?_⟩
    · cases dis <;> simp [line.calls, value.calls]
    · simp [line.calls, value.calls]
  · rw [fcvt_wu_d_emitted]
    refine ⟨_, _, split_after_two _ _ _ _ _ _ _, ?_, ?_⟩
    · cases dis <;> simp [line.calls, value.calls]
    · simp [line.calls, value.calls]
  · intro f hf
    simp only [List.mem_cons, List.mem_singleton, List.not_mem_nil, or_false] at hf
    rcases hf with rfl | rfl | rfl | rfl | rfl | rfl
    · exact fcvt_s_w_no_fcsr dis pc instr tu
    · exact fcvt_s_wu_no_fcsr dis pc instr tu
    · exact fcvt_s_d_no_fcsr dis pc instr tu
    · exact fcvt_d_s_no_fcsr dis pc instr tu
    · exact fcvt_d_w_no_fcsr dis pc instr tu
    · exact fcvt_d_wu_no_fcsr dis pc instr tu
  · rw [select_handler_eq]; decide!
  · decide!

/-- C25. Divergence of the code from the claim that FEQ.S, FLT.S and FLE.S each emit one
store to `X[rd]`: FEQ.S and FLE.S emit one store, of `fcmp_s` on the two `unbox_s` locals
with selector 0 and 1, followed by the flag update; FLT.S emits that store with selector 2
and then a second store to `X[rd]` of `fcmp_s` on the truncated registers, which replaces
the first.  The word `0xA02092D3` (FLT.S x5, f1, f2) is dispatched to `__flt_s`; with
F[1] = 1 and F[2] = 2 (neither NaN-boxed), an `unbox_s` that answers the canonical NaN
`0x7FC00000` and an `fcmp_s` that answers 1 when its first operand is below its second,
running the lines leaves 1 in `X[5]`, while `fcmp_s` on the unboxed operands answers 0. -/
theorem flt_s_second_store (dis : Bool) (pc instr : Nat) (tu : tu_builder) :
    (emitted tu (__feq_s dis pc instr tu)).filter line.is_x_store =
        [line.store
          (value.ext
            (value.callf "fcmp_s"
              (value.arg (value.ref (local_name.tmp tu.serial) 32)
                (value.arg (value.ref (local_name.tmp (tu.serial + 1)) 32)
                  (value.arg (value.ext (value.constant 0 64) 32 true) value.noarg))))
            32 true)
          (reg_e.X (bit_sub 7 5 instr))] ∧
      (emitted tu (__fle_s dis pc instr tu)).filter line.is_x_store =
        [line.store
          (value.ext
            (value.callf "fcmp_s"
              (value.arg (value.ref (local_name.tmp tu.serial) 32)
                (value.arg (value.ref (local_name.tmp (tu.serial + 1)) 32)
                  (value.arg (value.ext (value.constant 1 64) 32 true) value.noarg))))
            32 true)
          (reg_e.X (bit_sub 7 5 instr))] ∧
      (emitted tu (__flt_s dis pc instr tu)).filter line.is_x_store =
        [line.store
          (value.ext
            (value.callf "fcmp_s"
              (value.arg (value.ref (local_name.tmp tu.serial) 32)
                (value.arg (value.ref (local_name.tmp (tu.serial + 1)) 32)
                  (value.arg (value.ext (value.constant 2 64) 32 true) value.noarg))))
            32 true)
          (reg_e.X (bit_sub 7 5 instr)),
        line.store
          (value.callf "fcmp_s"
            (value.arg (value.trunc (value.load (reg_e.F (bit_sub 15 5 instr)) 0) 32)
              (value.arg (value.trunc (value.load (reg_e.F (bit_sub 20 5 instr)) 0) 32)
                (value.arg (value.ext (value.constant 2 64) 32 true) value.noarg))))
          (reg_e.X (bit_sub 7 5 instr))] ∧
      (∃ pre post, emitted tu (__flt_s dis pc instr tu) =
        pre ++ fcsr_update (tu.serial + 2) ++ post ∧ post.filter line.is_x_store = []) ∧
      select_handler 0xA02092D3 = compile_func.__flt_s ∧
      (run
          (arch_state.mk
            (fun r => match r with
              | reg_e.F 1 => 1
              | reg_e.F 2 => 2
              | _ => 0)
            0 (fun _ _ => 0) (fun _ => 0)
            (fun _ args => match args with
              | [_] => 0x7FC00000
              | [a, b, _] => if a < b then 1 else 0
              | _ => 0))
          (emitted tu_builder.empty
            (invoke compile_func.__flt_s false 0x1000 0xA02092D3 tu_builder.empty))).reg
        (reg_e.X 5) = 1 ∧
      (if (0x7FC00000 : Nat) < 0x7FC00000 then 1 else 0) = 0 := by
  refine ⟨?_, ?_, ?_, ?_, ?_, ?_, ?_⟩
  · rw [feq_s_emitted]
    cases dis <;> simp [line.is_x_store, fcsr_update, List.filter_cons]
  · rw [fle_s_emitted]
    cases dis <;> simp [line.is_x_store, fcsr_update, List.filter_cons]
  · rw [flt_s_emitted]
    cases dis <;> simp [line.is_x_store, fcsr_update, List.filter_cons]
  · rw [flt_s_emitted]
    refine ⟨_, _, split_after_five _ _ _ _ _ _ _ _ _ _, ?_⟩
    simp [line.is_x_store, List.filter_cons]
  · rw [select_handler_eq]; decide!
  · decide!
  · decide
/-! ## Claims on illegal compressed forms, compressed jumps, trap kinds, FENCE.I and the
table sizes -/

/-- C26. Illegal compressed forms: `gen_raise_trap(tu, 0, 2)` appends the assignment of the
trap word for trap id 0 and cause 2 and the store to `LAST_BRANCH`; that assignment is
among the lines of C.ADDI4SPN exactly when the decoded immediate is 0, of C.LI exactly when
rd = 0, of C.LUI exactly when rd = 0 or the decoded immediate is 0, and of C.SLLI exactly
when rs1 = 0; and these handlers emit no other assignment to the trap state. -/
theorem compressed_illegal_forms (dis : Bool) (pc instr : Nat) (tu : tu_builder) :
    (gen_raise_trap tu 0 2).lines =
        tu.lines ++ [line.trap_state (-2147352576),
          line.store (value.constant 4294967295 32) reg_e.LAST_BRANCH] ∧
      (line.trap_state (-2147352576) ∈ emitted tu (__c_addi4spn dis pc instr tu) ↔
        c_addi4spn_imm instr = 0) ∧
      (line.trap_state (-2147352576) ∈ emitted tu (__c_li dis pc instr tu) ↔
        bit_sub 7 5 instr = 0) ∧
      (line.trap_state (-2147352576) ∈ emitted tu (__c_lui dis pc instr tu) ↔
        (bit_sub 7 5 instr = 0 ∨ c_lui_imm instr = 0)) ∧
      (line.trap_state (-2147352576) ∈ emitted tu (__c_slli dis pc instr tu) ↔
        bit_sub 7 5 instr = 0) ∧
      (∀ l ∈ emitted tu (__c_addi4spn dis pc instr tu) ++ emitted tu (__c_li dis pc instr tu) ++
          emitted tu (__c_lui dis pc instr tu) ++ emitted tu (__c_slli dis pc instr tu),
        l.is_trap_state = true → l = line.trap_state (-2147352576)) := by
  refine ⟨?_, ?_, ?_, ?_, ?_, ?_⟩
  · rw [raise_trap_lines, trap_word_0_2]
  · rw [mem_filter_trap_state, c_addi4spn_raise]
    by_cases h : c_addi4spn_imm instr = 0 <;> simp [h]
  · rw [mem_filter_trap_state, c_li_raise]
    by_cases h : bit_sub 7 5 instr = 0 <;> simp [h]
  · rw [mem_filter_trap_state, c_lui_raise]
    by_cases h : bit_sub 7 5 instr = 0 <;> by_cases h2 : c_lui_imm instr = 0 <;> simp [h, h2]
  · rw [mem_filter_trap_state, c_slli_raise]
    by_cases h : bit_sub 7 5 instr = 0 <;> simp [h]
  · intro l hl ht
    have hmem : l ∈ (emitted tu (__c_addi4spn dis pc instr tu)).filter line.is_trap_state ∨
        l ∈ (emitted tu (__c_li dis pc instr tu)).filter line.is_trap_state ∨
        l ∈ (emitted tu (__c_lui dis pc instr tu)).filter line.is_trap_state ∨
        l ∈ (emitted tu (__c_slli dis pc instr tu)).filter line.is_trap_state := by
      simp only [List.mem_append] at hl
      rcases hl with ((h | h) | h) | h
      · exact Or.inl (List.mem_filter.mpr ⟨h, ht⟩)
      · exact Or.inr (Or.inl (List.mem_filter.mpr ⟨h, ht⟩))
      · exact Or.inr (Or.inr (Or.inl (List.mem_filter.mpr ⟨h, ht⟩)))
      · exact Or.inr (Or.inr (Or.inr (List.mem_filter.mpr ⟨h, ht⟩)))
    rw [c_addi4spn_raise, c_li_raise, c_lui_raise, c_slli_raise] at hmem
    rcases hmem with h | h | h | h
    · split at h <;> simp at h
      exact h
    · split at h <;> simp at h
      exact h
    · rw [List.mem_append] at h
      rcases h with h | h <;> split at h <;> simp at h <;> exact h
    · split at h <;> simp at h
      exact h

/-- C27. Divergence of the code from the claim that C.JR and C.JALR clear the low bit of
the target as JALR does: running the lines of C.JR leaves `X[rs1]` itself in `NEXT_PC`, and
C.JALR stores `cur_pc + 2` to `X[1]` before it reads `X[rs1]`, so that it leaves `X[rs1]`
itself in `NEXT_PC` for rs1 ≠ 1 and `cur_pc + 2` for rs1 = 1; both store `0xFFFFFFFF` to
`LAST_BRANCH`, advance the pc by 2 and return BRANCH.  The halfword `0x8082` (C.JR x1) with
`X[1] = 0x1001` leaves `0x1001` in `NEXT_PC`, not `0x1000`; the halfword `0x9082`
(C.JALR x1) at pc `0x1000` with `X[1] = 0x2000` leaves `0x1002` in `NEXT_PC`, not
`0x2000`. -/
theorem c_jump_target_unmasked (dis : Bool) (pc instr : Nat) (tu : tu_builder)
    (σ : arch_state) :
    (run σ (emitted tu (__c_jr dis pc instr tu))).reg =
        Function.update
          (Function.update σ.reg reg_e.NEXT_PC (uint_t 32 (σ.reg (reg_e.X (bit_sub 7 5 instr)))))
          reg_e.LAST_BRANCH 0xFFFFFFFF ∧
      (run σ (emitted tu (__c_jalr dis pc instr tu))).reg =
        Function.update
          (Function.update
            (Function.update σ.reg (reg_e.X 1) (uint_t 32 (pc + 2)))
            reg_e.NEXT_PC
            (if bit_sub 7 5 instr = 1 then uint_t 32 (pc + 2)
              else uint_t 32 (σ.reg (reg_e.X (bit_sub 7 5 instr)))))
          reg_e.LAST_BRANCH 0xFFFFFFFF ∧
      (__c_jr dis pc instr tu).cont = continuation_e.BRANCH ∧
      (__c_jalr dis pc instr tu).cont = continuation_e.BRANCH ∧
      (__c_jr dis pc instr tu).pc = pc + 2 ∧ (__c_jalr dis pc instr tu).pc = pc + 2 ∧
      select_handler 0x8082 = compile_func.__c_jr ∧
      (run (arch_state.with_x1_x2 0x1001 0)
          (emitted tu_builder.empty
            (invoke compile_func.__c_jr false 0x1000 0x8082 tu_builder.empty))).reg
        reg_e.NEXT_PC = 0x1001 ∧
      (0x1001 : Nat) &&& 0xFFFFFFFE = 0x1000 ∧
      select_handler 0x9082 = compile_func.__c_jalr ∧
      (run (arch_state.with_x1_x2 0x2000 0)
          (emitted tu_builder.empty
            (invoke compile_func.__c_jalr false 0x1000 0x9082 tu_builder.empty))).reg
        reg_e.NEXT_PC = 0x1002 := by
  refine ⟨c_jr_run dis pc instr tu σ, c_jalr_run dis pc instr tu σ, rfl, rfl, rfl, rfl,
    ?_, ?_, ?_, ?_, ?_⟩
  · rw [select_handler_eq]; decide!
  · decide!
  · decide
  · rw [select_handler_eq]; decide!
  · decide!

/-- C28, counterexample. The halfword `0x4001` (C.LI with rd = 0) is dispatched to
`__c_li`, which emits the assignment to the trap state and returns `CONT`, neither `BRANCH`
nor `FLUSH`; `gen_single_inst_behavior` returns `CONT` for it. -/
theorem c_li_trap_cont_counterexample :
    select_handler 0x4001 = compile_func.__c_li ∧
      (emitted tu_builder.empty
          (invoke compile_func.__c_li false 0x1000 0x4001 tu_builder.empty)).any
        line.is_trap_state = true ∧
      (invoke compile_func.__c_li false 0x1000 0x4001 tu_builder.empty).cont =
        continuation_e.CONT ∧
      ¬((invoke compile_func.__c_li false 0x1000 0x4001 tu_builder.empty).cont =
          continuation_e.BRANCH ∨
        (invoke compile_func.__c_li false 0x1000 0x4001 tu_builder.empty).cont =
          continuation_e.FLUSH) ∧
      (gen_single_inst_behavior (arch_if.mk 0xfff (fun a => a) (fun _ _ => some 0x4001))
          false 0x1000 0 tu_builder.empty).result = Except.ok continuation_e.CONT := by
  refine ⟨?_, ?_, rfl, ?_, ?_⟩
  · rw [select_handler_eq]; decide!
  · decide!
  · show ¬(continuation_e.CONT = continuation_e.BRANCH ∨
      continuation_e.CONT = continuation_e.FLUSH)
    decide
  · have hsel : select_handler 0x4001 = compile_func.__c_li := by
      rw [select_handler_eq]; decide!
    rw [gen_single_inst_behavior_ok
      (arch_if.mk 0xfff (fun a => a) (fun _ _ => some 0x4001)) false 0x1000 0
      tu_builder.empty 0x4001 rfl (by decide), hsel]
    rfl

/-- C28, amended. A handler that emits an assignment to the trap state returns `BRANCH`
when it is ECALL, EBREAK, C.EBREAK, DII or the fallback `illegal_intruction`, which raise
the trap for every instruction word, and returns `CONT` when it is C.ADDI4SPN, C.LI, C.LUI
or C.SLLI, which raise it for some decoded fields only and end their lines with the trap
check; no other handler emits such an assignment, and none of these returns `FLUSH`. -/
theorem trap_kinds (f : compile_func) (dis : Bool) (pc instr : Nat) (tu : tu_builder) :
    ((emitted tu (invoke f dis pc instr tu)).any line.is_trap_state = true →
        (f ∈ [compile_func.__ecall, compile_func.__ebreak, compile_func.__c_ebreak,
            compile_func.__dii, compile_func.illegal_intruction] ∨
          f ∈ [compile_func.__c_addi4spn, compile_func.__c_li, compile_func.__c_lui,
            compile_func.__c_slli])) ∧
      (f ∈ [compile_func.__ecall, compile_func.__ebreak, compile_func.__c_ebreak,
            compile_func.__dii, compile_func.illegal_intruction] →
        (emitted tu (invoke f dis pc instr tu)).any line.is_trap_state = true ∧
          (invoke f dis pc instr tu).cont = continuation_e.BRANCH) ∧
      (f ∈ [compile_func.__c_addi4spn, compile_func.__c_li, compile_func.__c_lui,
            compile_func.__c_slli] →
        (invoke f dis pc instr tu).cont = continuation_e.CONT ∧
          (emitted tu (invoke f dis pc instr tu)).getLast? = some line.trap_check) := by
  refine ⟨?_, ?_, ?_⟩
  · intro h
    by_contra hn
    have hf : f ∉ [compile_func.__c_addi4spn, compile_func.__c_li, compile_func.__c_lui,
        compile_func.__c_slli, compile_func.__ecall, compile_func.__ebreak,
        compile_func.__c_ebreak, compile_func.__dii, compile_func.illegal_intruction] := by
      intro hmem
      apply hn
      simp only [List.mem_cons, List.mem_singleton, List.not_mem_nil, or_false] at hmem ⊢
      tauto
    have hnone := invoke_no_trap f dis pc instr tu hf
    rw [List.any_eq_true] at h
    obtain ⟨l, hl, ht⟩ := h
    have : l ∈ (emitted tu (invoke f dis pc instr tu)).filter line.is_trap_state :=
      List.mem_filter.mpr ⟨hl, ht⟩
    rw [hnone] at this
    exact absurd this (List.not_mem_nil l)
  · intro hf
    simp only [List.mem_cons, List.mem_singleton, List.not_mem_nil, or_false] at hf
    rcases hf with rfl | rfl | rfl | rfl | rfl
    · refine ⟨?_, rfl⟩
      show (emitted tu (__ecall dis pc instr tu)).any line.is_trap_state = true
      simp only [__ecall, emitted, tu_simps]
      cases dis <;> simp [line.is_trap_state]
    · refine ⟨?_, rfl⟩
      show (emitted tu (__ebreak dis pc instr tu)).any line.is_trap_state = true
      simp only [__ebreak, emitted, tu_simps]
      cases dis <;> simp [line.is_trap_state]
    · refine ⟨?_, rfl⟩
      show (emitted tu (__c_ebreak dis pc instr tu)).any line.is_trap_state = true
      simp only [__c_ebreak, emitted, tu_simps]
      cases dis <;> simp [line.is_trap_state]
    · refine ⟨?_, rfl⟩
      show (emitted tu (__dii dis pc instr tu)).any line.is_trap_state = true
      simp only [__dii, emitted, tu_simps]
      cases dis <;> simp [line.is_trap_state]
    · refine ⟨?_, rfl⟩
      show (emitted tu (illegal_intruction pc instr tu)).any line.is_trap_state = true
      simp only [illegal_intruction, emitted, tu_simps]
      simp [line.is_trap_state]
  · intro hf
    simp only [List.mem_cons, List.mem_singleton, List.not_mem_nil, or_false] at hf
    rcases hf with rfl | rfl | rfl | rfl
    · exact ⟨rfl, cont_last_line _ dis pc instr tu rfl⟩
    · exact ⟨rfl, cont_last_line _ dis pc instr tu rfl⟩
    · exact ⟨rfl, cont_last_line _ dis pc instr tu rfl⟩
    · exact ⟨rfl, cont_last_line _ dis pc instr tu rfl⟩

/-- C29. FENCE.I emits, between its envelope lines, the write to the FENCE channel at
offset 1 and, after the scope, the store of `0xFFFFFFFF` to `LAST_BRANCH` and the write of
`NEXT_PC = pc + 4`, and returns `FLUSH`; running the lines leaves the immediate in FENCE at
offset 1, `0xFFFFFFFF` in `LAST_BRANCH` and `pc + 4` in `NEXT_PC`.  A handler returns
`FLUSH` for some pc, word and mode exactly when it is `__fence_i`; every other handler, the
fallback `illegal_intruction` included, returns `CONT` or `BRANCH`. -/
theorem fence_i_flush (dis : Bool) (pc instr : Nat) (tu : tu_builder) (σ : arch_state) :
    emitted tu (__fence_i dis pc instr tu) =
        line.label "FENCE_I" pc :: line.sync sync_type.PRE_SYNC 56 ::
          ((if dis = true then [line.print_disass pc "fence_i" []] else []) ++
            [line.open_scope,
              line.write_mem mem_type_e.FENCE (value.constant 1 64)
                (value.trunc
                  (value.constant ((uint_t 16 (bit_sub 20 12 instr) : Nat) : Int) 32) 32),
              line.close_scope,
              line.store (value.constant 4294967295 32) reg_e.LAST_BRANCH,
              line.set_pc reg_e.NEXT_PC (pc + 4),
              line.sync sync_type.POST_SYNC 56, line.trap_check]) ∧
      (run σ (emitted tu (__fence_i dis pc instr tu))).mem mem_type_e.FENCE 1 =
        bit_sub 20 12 instr ∧
      (run σ (emitted tu (__fence_i dis pc instr tu))).reg reg_e.LAST_BRANCH = 0xFFFFFFFF ∧
      (run σ (emitted tu (__fence_i dis pc instr tu))).reg reg_e.NEXT_PC = uint_t 32 (pc + 4) ∧
      (__fence_i dis pc instr tu).cont = continuation_e.FLUSH ∧
      (__fence_i dis pc instr tu).pc = pc + 4 ∧
      (∀ (f : compile_func) (dis1 : Bool) (pc1 instr1 : Nat) (tu1 : tu_builder),
        (invoke f dis1 pc1 instr1 tu1).cont = continuation_e.FLUSH ↔
          f = compile_func.__fence_i) ∧
      (∀ (f : compile_func) (dis1 : Bool) (pc1 instr1 : Nat) (tu1 : tu_builder),
        f ≠ compile_func.__fence_i →
          (invoke f dis1 pc1 instr1 tu1).cont = continuation_e.CONT ∨
            (invoke f dis1 pc1 instr1 tu1).cont = continuation_e.BRANCH) ∧
      (invoke compile_func.illegal_intruction dis pc instr tu).cont =
        continuation_e.BRANCH := by
  have hrun := fence_i_run dis pc instr tu σ
  refine ⟨fence_i_emitted dis pc instr tu, hrun.1, hrun.2.1, hrun.2.2, rfl, rfl, ?_, ?_, rfl⟩
  · intro f dis1 pc1 instr1 tu1
    rw [invoke_cont]
    exact handler_kind_flush f
  · intro f dis1 pc1 instr1 tu1 hf
    rw [invoke_cont]
    have hk := handler_kind_flush f
    cases hc : handler_kind f with
    | CONT => exact Or.inl rfl
    | BRANCH => exact Or.inr rfl
    | FLUSH => exact absurd (hk.mp hc) hf

/-- C30. Table sizes and index safety: `LUT_SIZE_C`, the size of the three compressed
tables, is `2^14` and `LUT_SIZE`, the size of the 32-bit table, is `2^20`; the extraction
masks are `MASK16 >> 2` and `MASK32 >> 2`, with 14 and 20 set bits, and the size of the
table of each quadrant is 2 to the number of set bits of the quadrant's mask; for every
word `w` the index `extract_fields(w)` is below the size of the table of quadrant
`w & 3`. -/
theorem table_sizes (w : Nat) :
    LUT_SIZE_C = 2 ^ 14 ∧ LUT_SIZE = 2 ^ 20 ∧
      lut_size 0 = 2 ^ 14 ∧ lut_size 1 = 2 ^ 14 ∧ lut_size 2 = 2 ^ 14 ∧ lut_size 3 = 2 ^ 20 ∧
      EXTR_MASK16 = MASK16 >>> 2 ∧ EXTR_MASK32 = MASK32 >>> 2 ∧
      bit_count_below 32 (MASK16 >>> 2) = 14 ∧ bit_count_below 32 (MASK32 >>> 2) = 20 ∧
      (∀ q, q < 4 → lut_size q = 2 ^ bit_count_below 32 (lutmasks q)) ∧
      w &&& 0x3 < 4 ∧
      extract_fields w < lut_size (w &&& 0x3) := by
  refine ⟨by decide, by decide, by decide, by decide, by decide, by decide, rfl, rfl,
    by decide, by decide, ?_, ?_, extract_fields_lt w⟩
  · intro q hq
    interval_cases q <;> decide
  · exact Nat.lt_of_le_of_lt Nat.and_le_right (by decide)
/-! ## Claims on descriptor expansion and order, shift immediates, branch offsets and decode
soundness -/

/-- C31. Expansion of one descriptor: the call of `expand_bit_mask` the constructor makes
for a descriptor `d` writes `d.op` to exactly the indices `i` below the size of the array
that agree with `extract_fields(d.value)` on every index bit whose source position is set
in `d.mask` (`constrained_index_bits d`), and leaves every other entry as it was; the index
`extract_fields(d.value)` is among them; and when `d.mask` covers the lookup mask of the
quadrant it is the only index written. -/
theorem expand_descr_indices (d : InstructionDesriptor) (lut : lut_t) (T : qlut_t) (i : Nat) :
    vm_impl_step T d (d.value &&& 0x3) = expand_descr d (T (d.value &&& 0x3)) ∧
      expand_descr d lut i =
        (if i < lut_size (d.value &&& 0x3) ∧
            (i ^^^ extract_fields d.value) &&& constrained_index_bits d = 0
          then some d.op else lut i) ∧
      extract_fields d.value < lut_size (d.value &&& 0x3) ∧
      expand_descr d lut (extract_fields d.value) = some d.op ∧
      (d.mask &&& lookup_mask (d.value &&& 0x3) = lookup_mask (d.value &&& 0x3) →
        (i ≠ extract_fields d.value → expand_descr d lut i = lut i) ∧
          (expand_descr d lut i ≠ lut i → i = extract_fields d.value)) ∧
      constrained_index_bits (InstructionDesriptor.mk 16 0x0000 0xE003 compile_func.__c_addi4spn) =
        0x3800 ∧
      constrained_index_bits (InstructionDesriptor.mk 16 0x0000 0xFFFF compile_func.__dii) =
        0x3FFF := by
  have hlt := extract_fields_lt d.value
  have hself : expand_descr d lut (extract_fields d.value) = some d.op := by
    rw [expand_descr_at, if_pos]
    exact ⟨hlt, by simp⟩
  have hfull : d.mask &&& lookup_mask (d.value &&& 0x3) = lookup_mask (d.value &&& 0x3) →
      i ≠ extract_fields d.value → expand_descr d lut i = lut i := by
    intro hcov hne
    rw [expand_descr_at, if_neg]
    rintro ⟨hi, hz⟩
    rw [constrained_index_bits_full d hcov,
      lut_size_eq _ (Nat.lt_of_le_of_lt Nat.and_le_right (by decide))] at hz
    rw [lut_size_eq _ (Nat.lt_of_le_of_lt Nat.and_le_right (by decide))] at hi hlt
    exact hne (xor_and_ones_eq_zero _ _ _ hi hlt hz)
  refine ⟨?_, expand_descr_at d lut i, hlt, hself, ?_, by decide, by decide⟩
  · unfold vm_impl_step expand_descr
    simp only [Function.update_same]
  · intro hcov
    refine ⟨hfull hcov, ?_⟩
    intro hne
    by_contra hi
    exact hne (hfull hcov hi)

/-- C32. Descriptor ordering: for every pair of descriptors `d1` listed before `d2` in
`instr_descr` that belong to the same quadrant and whose values agree on all bits selected
by both masks and the quadrant's lookup mask, the bits `d1` constrains within the lookup
mask are a strict subset of those `d2` constrains.  There are seven such pairs. -/
theorem descr_order :
    instr_descr.Pairwise
        (fun d1 d2 => descr_overlap d1 d2 = true → more_specific d1 d2 = true) ∧
      ((ordered_pairs instr_descr).filter (fun p => descr_overlap p.1 p.2)).map
          (fun p => (p.1.op, p.2.op)) =
        [(compile_func.__c_addi4spn, compile_func.__dii),
          (compile_func.__c_addi, compile_func.__c_nop),
          (compile_func.__c_lui, compile_func.__c_addi16sp),
          (compile_func.__c_mv, compile_func.__c_jr),
          (compile_func.__c_add, compile_func.__c_jalr),
          (compile_func.__c_add, compile_func.__c_ebreak),
          (compile_func.__c_jalr, compile_func.__c_ebreak)] := by
  constructor
  · decide!
  · decide!

/-- C33. For every instruction word the shift amount `instr[24:20]` decoded by SLLI, SRLI
and SRAI is at most 31, so the handlers never emit the trap assignment; they emit, when
rd ≠ 0, one store to `X[rd]` of `X[rs1]` shifted by the shift amount (left, logical right,
arithmetic right), and nothing in the scope when rd = 0; they return `CONT`; running the
lines for rd ≠ 0 leaves the shifted value in `X[rd]`. -/
theorem shift_imm_spec (dis : Bool) (pc instr : Nat) (tu : tu_builder) (σ : arch_state) :
    bit_sub 20 5 instr ≤ 31 ∧
      (emitted tu (__slli dis pc instr tu)).filter line.is_trap_state = [] ∧
      (emitted tu (__srli dis pc instr tu)).filter line.is_trap_state = [] ∧
      (emitted tu (__srai dis pc instr tu)).filter line.is_trap_state = [] ∧
      (emitted tu (__slli dis pc instr tu)).filter line.is_x_store =
        (if bit_sub 7 5 instr ≠ 0 then
          [line.store
            (value.shl (value.load (reg_e.X (bit_sub 15 5 instr)) 0)
              (value.constant ((bit_sub 20 5 instr : Nat) : Int) 32))
            (reg_e.X (bit_sub 7 5 instr))]
        else []) ∧
      (emitted tu (__srli dis pc instr tu)).filter line.is_x_store =
        (if bit_sub 7 5 instr ≠ 0 then
          [line.store
            (value.lshr (value.load (reg_e.X (bit_sub 15 5 instr)) 0)
              (value.constant ((bit_sub 20 5 instr : Nat) : Int) 32))
            (reg_e.X (bit_sub 7 5 instr))]
        else []) ∧
      (emitted tu (__srai dis pc instr tu)).filter line.is_x_store =
        (if bit_sub 7 5 instr ≠ 0 then
          [line.store
            (value.ashr (value.load (reg_e.X (bit_sub 15 5 instr)) 0)
              (value.constant ((bit_sub 20 5 instr : Nat) : Int) 32))
            (reg_e.X (bit_sub 7 5 instr))]
        else []) ∧
      (__slli dis pc instr tu).cont = continuation_e.CONT ∧
      (__srli dis pc instr tu).cont = continuation_e.CONT ∧
      (__srai dis pc instr tu).cont = continuation_e.CONT ∧
      (bit_sub 7 5 instr ≠ 0 →
        (run σ (emitted tu (__slli dis pc instr tu))).reg (reg_e.X (bit_sub 7 5 instr)) =
            uint_t 32 (uint_t 32 (σ.reg (reg_e.X (bit_sub 15 5 instr))) <<< bit_sub 20 5 instr) ∧
          (run σ (emitted tu (__srli dis pc instr tu))).reg (reg_e.X (bit_sub 7 5 instr)) =
            uint_t 32 (σ.reg (reg_e.X (bit_sub 15 5 instr))) >>> bit_sub 20 5 instr ∧
          (run σ (emitted tu (__srai dis pc instr tu))).reg (reg_e.X (bit_sub 7 5 instr)) =
            uint_of_int 32
              (int_t 32 (uint_t 32 (σ.reg (reg_e.X (bit_sub 15 5 instr)))) /
                2 ^ bit_sub 20 5 instr)) := by
  refine ⟨Nat.le_of_not_lt (shamt_le instr), __slli_no_trap dis pc instr tu,
    __srli_no_trap dis pc instr tu, __srai_no_trap dis pc instr tu, ?_, ?_, ?_, rfl, rfl, rfl,
    fun hrd => shift_imm_run dis pc instr tu σ hrd⟩
  · rw [slli_emitted]
    by_cases hrd : bit_sub 7 5 instr = 0 <;> cases dis <;>
      simp [hrd, line.is_x_store, List.filter_cons]
  · rw [srli_emitted]
    by_cases hrd : bit_sub 7 5 instr = 0 <;> cases dis <;>
      simp [hrd, line.is_x_store, List.filter_cons]
  · rw [srai_emitted]
    by_cases hrd : bit_sub 7 5 instr = 0 <;> cases dis <;>
      simp [hrd, line.is_x_store, List.filter_cons]

/-- C34. Branch offsets: for every word the offset decoded by BEQ .. BGEU is the B-immediate
`sext13({w[31], w[7], w[30:25], w[11:8], 0})`, the offset decoded by C.BEQZ and C.BNEZ is the
CB-immediate `sext9({w[12], w[6:5], w[2], w[11:10], w[4:3], 0})`, and the offset decoded by
C.J and C.JAL is the CJ-immediate
`sext12({w[12], w[8], w[10:9], w[6], w[7], w[2], w[11], w[5:3], 0})`; the 16-bit signed
storage keeps them whole (they lie in the ranges of 13, 9 and 12 bits), each is even, and
the taken target the handlers write to `NEXT_PC` is `pc` plus that offset. -/
theorem branch_offsets_exact (dis : Bool) (pc w : Nat) (tu : tu_builder) (σ : arch_state) :
    branch_imm w = b_imm w ∧ c_branch_imm w = cb_imm w ∧ c_jump_imm w = cj_imm w ∧
      (-4096 ≤ b_imm w ∧ b_imm w ≤ 4094 ∧ b_imm w % 2 = 0) ∧
      (-256 ≤ cb_imm w ∧ cb_imm w ≤ 254 ∧ cb_imm w % 2 = 0) ∧
      (-2048 ≤ cj_imm w ∧ cj_imm w ≤ 2046 ∧ cj_imm w % 2 = 0) ∧
      (run σ (emitted tu (__beq dis pc w tu))).reg reg_e.NEXT_PC =
        (if uint_t 32 (σ.reg (reg_e.X (bit_sub 15 5 w))) =
            uint_t 32 (σ.reg (reg_e.X (bit_sub 20 5 w)))
          then uint_of_int 32 ((pc : Int) + b_imm w) else uint_t 32 (pc + 4)) ∧
      (run σ (emitted tu (__bne dis pc w tu))).reg reg_e.NEXT_PC =
        (if uint_t 32 (σ.reg (reg_e.X (bit_sub 15 5 w))) ≠
            uint_t 32 (σ.reg (reg_e.X (bit_sub 20 5 w)))
          then uint_of_int 32 ((pc : Int) + b_imm w) else uint_t 32 (pc + 4)) ∧
      (run σ (emitted tu (__blt dis pc w tu))).reg reg_e.NEXT_PC =
        (if int_t 32 (uint_t 32 (σ.reg (reg_e.X (bit_sub 15 5 w))) : Nat) <
            int_t 32 (uint_t 32 (σ.reg (reg_e.X (bit_sub 20 5 w))) : Nat)
          then uint_of_int 32 ((pc : Int) + b_imm w) else uint_t 32 (pc + 4)) ∧
      (run σ (emitted tu (__bge dis pc w tu))).reg reg_e.NEXT_PC =
        (if int_t 32 (uint_t 32 (σ.reg (reg_e.X (bit_sub 15 5 w))) : Nat) ≥
            int_t 32 (uint_t 32 (σ.reg (reg_e.X (bit_sub 20 5 w))) : Nat)
          then uint_of_int 32 ((pc : Int) + b_imm w) else uint_t 32 (pc + 4)) ∧
      (run σ (emitted tu (__bltu dis pc w tu))).reg reg_e.NEXT_PC =
        (if uint_t 32 (σ.reg (reg_e.X (bit_sub 15 5 w))) <
            uint_t 32 (σ.reg (reg_e.X (bit_sub 20 5 w)))
          then uint_of_int 32 ((pc : Int) + b_imm w) else uint_t 32 (pc + 4)) ∧
      (run σ (emitted tu (__bgeu dis pc w tu))).reg reg_e.NEXT_PC =
        (if uint_t 32 (σ.reg (reg_e.X (bit_sub 15 5 w))) ≥
            uint_t 32 (σ.reg (reg_e.X (bit_sub 20 5 w)))
          then uint_of_int 32 ((pc : Int) + b_imm w) else uint_t 32 (pc + 4)) ∧
      (run σ (emitted tu (__c_beqz dis pc w tu))).reg reg_e.NEXT_PC =
        (if uint_t 32 (σ.reg (reg_e.X (bit_sub 7 3 w + 8))) = 0
          then uint_of_int 32 ((pc : Int) + cb_imm w) else uint_t 32 (pc + 2)) ∧
      (run σ (emitted tu (__c_bnez dis pc w tu))).reg reg_e.NEXT_PC =
        (if uint_t 32 (σ.reg (reg_e.X (bit_sub 7 3 w + 8))) ≠ 0
          then uint_of_int 32 ((pc : Int) + cb_imm w) else uint_t 32 (pc + 2)) ∧
      (run σ (emitted tu (__c_j dis pc w tu))).reg reg_e.NEXT_PC =
        uint_of_int 32 ((pc : Int) + cj_imm w) ∧
      (run σ (emitted tu (__c_jal dis pc w tu))).reg reg_e.NEXT_PC =
        uint_of_int 32 ((pc : Int) + cj_imm w) := by
  have hb : (-4096 ≤ b_imm w ∧ b_imm w ≤ 4094 ∧ b_imm w % 2 = 0) := by
    exact sext_even_range_b_imm w
  have hcb : (-256 ≤ cb_imm w ∧ cb_imm w ≤ 254 ∧ cb_imm w % 2 = 0) := by
    exact sext_even_range_cb_imm w
  have hcj : (-2048 ≤ cj_imm w ∧ cj_imm w ≤ 2046 ∧ cj_imm w % 2 = 0) := by
    exact sext_even_range_cj_imm w
  refine ⟨branch_imm_eq w, c_branch_imm_eq w, c_jump_imm_eq w, hb, hcb, hcj,
    ?_, ?_, ?_, ?_, ?_, ?_, ?_, ?_, ?_, ?_⟩
  · rw [beq_run, branch_imm_eq]; simp [Function.update]
  · rw [bne_run, branch_imm_eq]; simp [Function.update]
  · rw [blt_run, branch_imm_eq]; simp [Function.update]
  · rw [bge_run, branch_imm_eq]; simp [Function.update]
  · rw [bltu_run, branch_imm_eq]; simp [Function.update]
  · rw [bgeu_run, branch_imm_eq]; simp [Function.update]
  · rw [c_beqz_run, c_branch_imm_eq]
  · rw [c_bnez_run, c_branch_imm_eq]
  · rw [c_j_run, c_jump_imm_eq]
  · rw [(c_jal_run dis pc w tu σ).1, c_jump_imm_eq]

/-- C35, counterexample. The word `0x000000F3` (the ECALL pattern with rd = 1) is a 32-bit
word that matches no descriptor on the descriptor's full mask, and it is dispatched to
`__ecall`, not to `illegal_intruction`: its table entry is not null. -/
theorem ecall_rd_counterexample :
    (0x000000F3 : Nat) &&& 0x3 = 0x3 ∧
      (∀ d ∈ instr_descr, (0x000000F3 : Nat) &&& d.mask ≠ d.value) ∧
      qlut 3 (extract_fields 0x000000F3) = some compile_func.__ecall ∧
      select_handler 0x000000F3 = compile_func.__ecall ∧
      select_handler 0x000000F3 ≠ compile_func.illegal_intruction := by
  have hsel : select_handler 0x000000F3 = compile_func.__ecall := by
    rw [select_handler_eq]; decide!
  refine ⟨by decide, by decide!, ?_, hsel, ?_⟩
  · have := qlut_at 0x000000F3
    rw [show (0x000000F3 : Nat) &&& 0x3 = 3 from by decide] at this
    rw [this]
    decide!
  · rw [hsel]
    decide

/-- C35, amended. Decode soundness on the lookup mask, for tables that are all-null on entry
to the constructor.  The constructor loop leaves the entry of a 32-bit word `w`
(`w[1:0] = 0b11`) that differs from every 32-bit descriptor on some bit selected by the
descriptor's mask and the lookup mask `MASK32` as it found it, whatever the tables held on
entry.  When that entry was null on entry, as in all-null tables, `w` is dispatched to
`illegal_intruction`, its table entry being null, exactly when it differs from every
32-bit descriptor on such a bit.  The member `qlut` and `select_handler` are the tables
and the lookup for all-null tables. -/
theorem decode_sound_lookup (init : qlut_t) (w : Nat) (hq : w &&& 0x3 = 0x3) :
    ((∀ d ∈ instr_descr, d.value &&& 0x3 = 0x3 →
          (d.value ^^^ w) &&& (d.mask &&& MASK32) ≠ 0) →
        build_qlut_from init instr_descr (w &&& 0x3) (extract_fields w) =
          init (w &&& 0x3) (extract_fields w)) ∧
      (init (w &&& 0x3) (extract_fields w) = none →
        (select_handler_in (build_qlut_from init instr_descr) w =
              compile_func.illegal_intruction ↔
            ∀ d ∈ instr_descr, d.value &&& 0x3 = 0x3 →
              (d.value ^^^ w) &&& (d.mask &&& MASK32) ≠ 0) ∧
          (build_qlut_from init instr_descr (w &&& 0x3) (extract_fields w) = none ↔
            ∀ d ∈ instr_descr, d.value &&& 0x3 = 0x3 →
              (d.value ^^^ w) &&& (d.mask &&& MASK32) ≠ 0)) ∧
      build_qlut_from qlut_null instr_descr = qlut ∧
      select_handler_in (build_qlut_from qlut_null instr_descr) w = select_handler w := by
  have hslot := no_slot_match_iff w hq
  have hat := build_qlut_from_at init w
  refine ⟨?_, ?_, rfl, rfl⟩
  · intro h
    rw [hat, (find_slot_none_iff w).mpr (hslot.mpr h)]
  · intro hinit
    have hnone : build_qlut_from init instr_descr (w &&& 0x3) (extract_fields w) = none ↔
        ∀ d ∈ instr_descr, slot_match w d = false := by
      rw [hat, ← find_slot_none_iff]
      cases hf : instr_descr.reverse.find? (slot_match w) with
      | some x => simp
      | none => simp [hinit]
    refine ⟨?_, hnone.trans hslot⟩
    rw [← hslot, ← hnone]
    constructor
    · intro h
      unfold select_handler_in at h
      cases hqv : build_qlut_from init instr_descr (w &&& 0x3) (extract_fields w) with
      | none => rfl
      | some g =>
        exfalso
        simp only [hqv] at h
        rw [hat] at hqv
        cases hf : instr_descr.reverse.find? (slot_match w) with
        | none =>
          rw [hf] at hqv
          simp only at hqv
          rw [hinit] at hqv
          exact Option.noConfusion hqv
        | some d =>
          simp only [hf, Option.some.injEq] at hqv
          have hd : d ∈ instr_descr := List.mem_reverse.mp (List.mem_of_find?_eq_some hf)
          exact descr_op_ne_illegal d hd (hqv.trans h)
    · intro h
      unfold select_handler_in
      simp only [h]

theorem decode_sound_lookup_witness :
    (0xFFFFFFFF : Nat) &&& 0x3 = 0x3 ∧
      (∀ d ∈ instr_descr, d.value &&& 0x3 = 0x3 →
        (d.value ^^^ 0xFFFFFFFF) &&& (d.mask &&& MASK32) ≠ 0) ∧
      select_handler_in (build_qlut_from qlut_null instr_descr) 0xFFFFFFFF =
        compile_func.illegal_intruction ∧
      build_qlut_from (fun _ _ => some compile_func.__ecall) instr_descr
          ((0xFFFFFFFF : Nat) &&& 0x3) (extract_fields 0xFFFFFFFF) =
        some compile_func.__ecall :=
  ⟨by decide, by decide!,
    (((decode_sound_lookup qlut_null 0xFFFFFFFF (by decide)).2.1 rfl).1.mpr (by decide!)),
    (decode_sound_lookup (fun _ _ => some compile_func.__ecall) 0xFFFFFFFF (by decide)).1
      (by decide!)⟩
/-! ## Claims on compressed words, AMO operands, C.JALR, block nesting and rd = 0 -/

/-- C36. The bytes that follow a compressed instruction: for every pc and every two words
`w1`, `w2` with equal low 16 bits and `w1[1:0] ≠ 0b11`, the fetch guard decides the same, the
lookup index is `(w >> 2) & 0x3FFF` for both, the same handler is selected, the handler
returns the same kind, pc and translation unit, and `gen_single_inst_behavior` returns the
same for any two cores whose fetch yields `w1` and `w2`. -/
theorem compressed_upper_bytes (dis : Bool) (pc : Nat) (tu : tu_builder) (w1 w2 : Nat)
    (h16 : w1 &&& 0xFFFF = w2 &&& 0xFFFF) (hc : w1 &&& 0x3 ≠ 0x3) :
    ((w1 = 0x0000006f ∨ w1 &&& 0xffff = 0xa001) ↔
        (w2 = 0x0000006f ∨ w2 &&& 0xffff = 0xa001)) ∧
      extract_fields w1 = (w1 >>> 2) &&& 0x3FFF ∧
      extract_fields w2 = (w2 >>> 2) &&& 0x3FFF ∧
      extract_fields w1 = extract_fields w2 ∧
      select_handler w1 = select_handler w2 ∧
      invoke (select_handler w1) dis pc w1 tu = invoke (select_handler w2) dis pc w2 tu ∧
      emitted tu (invoke (select_handler w1) dis pc w1 tu) =
        emitted tu (invoke (select_handler w2) dis pc w2 tu) ∧
      (∀ (core1 core2 : arch_if) (inst_cnt : Nat),
        (fetch core1 pc).insn = Except.ok w1 → (fetch core2 pc).insn = Except.ok w2 →
        gen_single_inst_behavior core1 dis pc inst_cnt tu =
          gen_single_inst_behavior core2 dis pc inst_cnt tu) := by
  have hq := low16_quadrant h16
  have hc2 : w2 &&& 0x3 ≠ 0x3 := by rw [← hq]; exact hc
  have hsel := select_handler_low16 h16 hc
  have hinv : invoke (select_handler w1) dis pc w1 tu =
      invoke (select_handler w2) dis pc w2 tu := by
    rw [← hsel]
    exact invoke_low16 _ (select_handler_compressed w1 hc) dis pc tu h16
  have hne1 : w1 ≠ 0x0000006f := by
    intro h
    rw [h] at hc
    exact hc (by decide)
  have hne2 : w2 ≠ 0x0000006f := by
    intro h
    rw [h] at hc2
    exact hc2 (by decide)
  have hguard : (w1 = 0x0000006f ∨ w1 &&& 0xffff = 0xa001) ↔
      (w2 = 0x0000006f ∨ w2 &&& 0xffff = 0xa001) := by
    constructor
    · rintro (h | h)
      · exact absurd h hne1
      · exact Or.inr (h16 ▸ h)
    · rintro (h | h)
      · exact absurd h hne2
      · exact Or.inr (h16.symm ▸ h)
  refine ⟨hguard, extract_fields_compressed w1 hc, extract_fields_compressed w2 hc2, ?_, hsel,
    hinv, by rw [hinv], ?_⟩
  · rw [extract_fields_compressed w1 hc, extract_fields_compressed w2 hc2, low16_index h16]
  · intro core1 core2 inst_cnt hf1 hf2
    unfold gen_single_inst_behavior
    rw [hf1, hf2]
    by_cases hg : w1 = 0x0000006f ∨ w1 &&& 0xffff = 0xa001
    · simp only [if_pos hg, if_pos (hguard.mp hg)]
    · simp only [if_neg hg, if_neg (fun h => hg (hguard.mpr h)), hinv]

theorem compressed_upper_bytes_witness :
    (0x4505 : Nat) &&& 0xFFFF = (0x12344505 : Nat) &&& 0xFFFF ∧ (0x4505 : Nat) &&& 0x3 ≠ 0x3 ∧
      select_handler 0x4505 = select_handler 0x12344505 ∧
      invoke (select_handler 0x4505) false 0x1000 0x4505 tu_builder.empty =
        invoke (select_handler 0x12344505) false 0x1000 0x12344505 tu_builder.empty :=
  ⟨by decide, by decide,
    (compressed_upper_bytes false 0x1000 tu_builder.empty 0x4505 0x12344505 (by decide)
      (by decide)).2.2.2.2.1,
    (compressed_upper_bytes false 0x1000 tu_builder.empty 0x4505 0x12344505 (by decide)
      (by decide)).2.2.2.2.2.1⟩

/-- C37. Divergence of the code from the claim that an AMO with rd = rs2 stores a value
computed from the old `X[rs2]`: every AMO handler stores the old memory word to `X[rd]`
before it reads `X[rs2]`, so for rd = rs2 ≠ 0 the word written to MEM at `X[rs1]` is computed
from the old memory word alone: AMOSWAP, AMOAND, AMOOR, AMOMIN, AMOMAX, AMOMINU and AMOMAXU
write the old memory word back, AMOADD writes twice the old memory word and AMOXOR writes
0; rd receives the old memory word.  For `0x0820A12F` (AMOSWAP.W x2, x2, (x1)) with
`X[1] = 0x100`, `X[2] = 5` and the word 7 at `0x100`, memory keeps 7 instead of 5; for
`0x0020A12F` (AMOADD.W x2, x2, (x1)) memory receives 14 instead of 12. -/
theorem amo_rs2_overwritten (dis : Bool) (pc instr : Nat) (tu : tu_builder) (σ : arch_state) :
    (bit_sub 7 5 instr ≠ 0 → bit_sub 20 5 instr = bit_sub 7 5 instr →
        (∀ h ∈ [__amoswap_w, __amoand_w, __amoor_w, __amomin_w, __amomax_w, __amominu_w,
            __amomaxu_w],
          (run σ (emitted tu (h dis pc instr tu))).mem mem_type_e.MEM
              (uint_t 32 (σ.reg (reg_e.X (bit_sub 15 5 instr)))) =
            uint_t 32
              (σ.mem mem_type_e.MEM (uint_t 32 (σ.reg (reg_e.X (bit_sub 15 5 instr)))))) ∧
          (run σ (emitted tu (__amoadd_w dis pc instr tu))).mem mem_type_e.MEM
              (uint_t 32 (σ.reg (reg_e.X (bit_sub 15 5 instr)))) =
            uint_t 32
              (uint_t 32
                  (σ.mem mem_type_e.MEM (uint_t 32 (σ.reg (reg_e.X (bit_sub 15 5 instr))))) +
                uint_t 32
                  (σ.mem mem_type_e.MEM (uint_t 32 (σ.reg (reg_e.X (bit_sub 15 5 instr)))))) ∧
          (run σ (emitted tu (__amoxor_w dis pc instr tu))).mem mem_type_e.MEM
              (uint_t 32 (σ.reg (reg_e.X (bit_sub 15 5 instr)))) = 0 ∧
          (∀ h ∈ [__amoswap_w, __amoadd_w, __amoxor_w, __amoand_w, __amoor_w, __amomin_w,
              __amomax_w, __amominu_w, __amomaxu_w],
            (run σ (emitted tu (h dis pc instr tu))).reg (reg_e.X (bit_sub 7 5 instr)) =
              uint_t 32
                (σ.mem mem_type_e.MEM (uint_t 32 (σ.reg (reg_e.X (bit_sub 15 5 instr))))))) ∧
      select_handler 0x0820A12F = compile_func.__amoswap_w ∧
      bit_sub 7 5 0x0820A12F = 2 ∧ bit_sub 20 5 0x0820A12F = 2 ∧ bit_sub 15 5 0x0820A12F = 1 ∧
      (run
          (arch_state.mk (fun r => if r = reg_e.X 1 then 0x100 else if r = reg_e.X 2 then 5 else 0)
            0 (fun _ a => if a = 0x100 then 7 else 0) (fun _ => 0) (fun _ _ => 0))
          (emitted tu_builder.empty
            (invoke compile_func.__amoswap_w false 0x1000 0x0820A12F tu_builder.empty))).mem
        mem_type_e.MEM 0x100 = 7 ∧
      select_handler 0x0020A12F = compile_func.__amoadd_w ∧
      (run
          (arch_state.mk (fun r => if r = reg_e.X 1 then 0x100 else if r = reg_e.X 2 then 5 else 0)
            0 (fun _ a => if a = 0x100 then 7 else 0) (fun _ => 0) (fun _ _ => 0))
          (emitted tu_builder.empty
            (invoke compile_func.__amoadd_w false 0x1000 0x0020A12F tu_builder.empty))).mem
        mem_type_e.MEM 0x100 = 14 := by
  refine ⟨?_, ?_, by decide, by decide, by decide, ?_, ?_, ?_⟩
  · intro hrd hrs
    refine ⟨?_, (amoadd_w_alias_run dis pc instr tu σ hrd hrs).1,
      (amoxor_w_alias_run dis pc instr tu σ hrd hrs).1, ?_⟩
    · intro h hh
      simp only [List.mem_cons, List.mem_singleton, List.not_mem_nil, or_false] at hh
      rcases hh with rfl | rfl | rfl | rfl | rfl | rfl | rfl
      · exact (amoswap_w_alias_run dis pc instr tu σ hrd hrs).1
      · exact (amoand_w_alias_run dis pc instr tu σ hrd hrs).1
      · exact (amoor_w_alias_run dis pc instr tu σ hrd hrs).1
      · exact (amomin_w_alias_run dis pc instr tu σ hrd hrs).1
      · exact (amomax_w_alias_run dis pc instr tu σ hrd hrs).1
      · exact (amominu_w_alias_run dis pc instr tu σ hrd hrs).1
      · exact (amomaxu_w_alias_run dis pc instr tu σ hrd hrs).1
    · intro h hh
      simp only [List.mem_cons, List.mem_singleton, List.not_mem_nil, or_false] at hh
      rcases hh with rfl | rfl | rfl | rfl | rfl | rfl | rfl | rfl | rfl
      · exact (amoswap_w_alias_run dis pc instr tu σ hrd hrs).2
      · exact (amoadd_w_alias_run dis pc instr tu σ hrd hrs).2
      · exact (amoxor_w_alias_run dis pc instr tu σ hrd hrs).2
      · exact (amoand_w_alias_run dis pc instr tu σ hrd hrs).2
      · exact (amoor_w_alias_run dis pc instr tu σ hrd hrs).2
      · exact (amomin_w_alias_run dis pc instr tu σ hrd hrs).2
      · exact (amomax_w_alias_run dis pc instr tu σ hrd hrs).2
      · exact (amominu_w_alias_run dis pc instr tu σ hrd hrs).2
      · exact (amomaxu_w_alias_run dis pc instr tu σ hrd hrs).2
  · rw [select_handler_eq]; decide!
  · decide!
  · rw [select_handler_eq]; decide!
  · decide!

/-- C38. Divergence of the code from the claim that C.JALR with rs1 = x1 jumps to the old
`X[1]`: the handler stores `cur_pc + 2` to `X[1]` before it reads `X[rs1]`, so for rs1 = 1
the emitted code leaves the link address `cur_pc + 2` in `NEXT_PC`.  The halfword `0x9082`
(C.JALR x1) at pc `0x1000` with `X[1] = 0x2000` leaves `0x1002` in `NEXT_PC` and in `X[1]`. -/
theorem c_jalr_x1_target (dis : Bool) (pc instr : Nat) (tu : tu_builder) (σ : arch_state) :
    (bit_sub 7 5 instr = 1 →
        (run σ (emitted tu (__c_jalr dis pc instr tu))).reg reg_e.NEXT_PC = uint_t 32 (pc + 2) ∧
          (run σ (emitted tu (__c_jalr dis pc instr tu))).reg (reg_e.X 1) =
            uint_t 32 (pc + 2)) ∧
      (bit_sub 7 5 instr ≠ 1 →
        (run σ (emitted tu (__c_jalr dis pc instr tu))).reg reg_e.NEXT_PC =
          uint_t 32 (σ.reg (reg_e.X (bit_sub 7 5 instr)))) ∧
      select_handler 0x9082 = compile_func.__c_jalr ∧ bit_sub 7 5 0x9082 = 1 ∧
      (run (arch_state.with_x1_x2 0x2000 0)
          (emitted tu_builder.empty
            (invoke compile_func.__c_jalr false 0x1000 0x9082 tu_builder.empty))).reg
        reg_e.NEXT_PC = 0x1002 ∧
      (run (arch_state.with_x1_x2 0x2000 0)
          (emitted tu_builder.empty
            (invoke compile_func.__c_jalr false 0x1000 0x9082 tu_builder.empty))).reg
        (reg_e.X 1) = 0x1002 ∧
      (arch_state.with_x1_x2 0x2000 0).reg (reg_e.X 1) = 0x2000 := by
  refine ⟨?_, ?_, ?_, by decide, ?_, ?_, ?_⟩
  · intro h
    rw [c_jalr_run]
    simp [Function.update, h]
  · intro h
    rw [c_jalr_run]
    simp [Function.update, h]
  · rw [select_handler_eq]; decide!
  · decide!
  · decide!
  · decide

/-- C39. Emitted blocks are well bracketed: for every handler (the fallback
`illegal_intruction` included), pc, instruction word and mode, counting `open_scope` and
the raw `if(...) {` line as +1, `close_scope` as -1 and every other line as 0, the nesting
depth of the emitted lines returns to the depth it started from, and no prefix of the lines
closes a block below that depth. -/
theorem scopes_balanced (f : compile_func) (dis : Bool) (pc instr : Nat) (tu : tu_builder)
    (d : Nat) :
    scope_depth 0 (emitted tu (invoke f dis pc instr tu)) = some 0 ∧
      scope_depth d (emitted tu (invoke f dis pc instr tu)) = some d ∧
      (∀ k, ∃ j, scope_depth 0 ((emitted tu (invoke f dis pc instr tu)).take k) = some j) ∧
      (∀ k, ∃ j, d ≤ j ∧
        scope_depth d ((emitted tu (invoke f dis pc instr tu)).take k) = some j) := by
  have h0 := invoke_scope f dis pc instr tu
  have hd := scope_depth_add d _ 0 0 h0
  refine ⟨h0, hd, fun k => scope_depth_take 0 0 _ h0 k, ?_⟩
  intro k
  obtain ⟨j, hj⟩ := scope_depth_take 0 0 _ h0 k
  exact ⟨d + j, Nat.le_add_right d j, scope_depth_add d _ 0 j hj⟩

/-- C40. For every handler of the descriptors MUL .. CSRRCI and of JALR and every
instruction word whose rd field `instr[11:7]` is 0, the handler emits no store to an
integer register. -/
theorem rd_zero_no_store (f : compile_func) (dis : Bool) (pc instr : Nat) (tu : tu_builder)
    (hf : f ∈ rd_handlers) (hrd : bit_sub 7 5 instr = 0) :
    rd_handlers = (instr_descr.take 70).map InstructionDesriptor.op ++ [compile_func.__jalr] ∧
      (emitted tu (invoke f dis pc instr tu)).filter line.is_x_store = [] ∧
      ∀ (v : value) (n : Nat), line.store v (reg_e.X n) ∉ emitted tu (invoke f dis pc instr tu) := by
  have hnone := invoke_rd_zero f hf dis pc instr tu hrd
  refine ⟨rd_handlers_eq, hnone, ?_⟩
  intro v n hmem
  have : line.store v (reg_e.X n) ∈
      (emitted tu (invoke f dis pc instr tu)).filter line.is_x_store :=
    List.mem_filter.mpr ⟨hmem, rfl⟩
  rw [hnone] at this
  exact absurd this (List.not_mem_nil _)

theorem rd_zero_no_store_witness :
    compile_func.__addi ∈ rd_handlers ∧ bit_sub 7 5 0x00A00013 = 0 ∧
      (emitted tu_builder.empty
          (invoke compile_func.__addi false 0x1000 0x00A00013 tu_builder.empty)).filter
        line.is_x_store = [] :=
  ⟨by decide, by decide,
    (rd_zero_no_store compile_func.__addi false 0x1000 0x00A00013 tu_builder.empty (by decide)
      (by decide)).2.1⟩
end rv32gc
